import Mathlib

/-!
# Screen-space ambient occlusion examples (GTAO and HBAO)

A shallow embedding of `examples/gtao/gtao.cpp` and `examples/hbao/hbao.cpp`.

The Vulkan device is external to both programs.  It is modelled by the log of
the calls made on it: a call that creates an object returns, as the object's
handle, the 1-based position of the call in the log, so handles are natural
numbers, non-null (`VK_NULL_HANDLE` is `0`) and pairwise distinct.
Compile-time configuration (`__ANDROID__`, `maxConcurrentFrames`) and the
members inherited from `VulkanExampleBase` are fields of the program state.  Numeric enumerators and bit values are those
of the Vulkan headers.  The destructor is modelled by the list of the release
calls it makes.
-/

set_option autoImplicit false
set_option linter.dupNamespace false

/-! ## Vulkan: flag bits, enumerations, structures -/

/-- `VkFormat`, by numeric value (the sources compare formats with `>=`). -/
abbrev VkFormat := Nat

@[simp] abbrev VK_FORMAT_UNDEFINED : VkFormat := 0
@[simp] abbrev VK_FORMAT_R8_UNORM : VkFormat := 9
@[simp] abbrev VK_FORMAT_R8G8B8A8_UNORM : VkFormat := 37
@[simp] abbrev VK_FORMAT_R32G32B32A32_SFLOAT : VkFormat := 109
@[simp] abbrev VK_FORMAT_D16_UNORM : VkFormat := 124
@[simp] abbrev VK_FORMAT_D32_SFLOAT : VkFormat := 126
@[simp] abbrev VK_FORMAT_D16_UNORM_S8_UINT : VkFormat := 128
@[simp] abbrev VK_FORMAT_D24_UNORM_S8_UINT : VkFormat := 129
@[simp] abbrev VK_FORMAT_D32_SFLOAT_S8_UINT : VkFormat := 130

@[simp] abbrev VK_IMAGE_USAGE_SAMPLED_BIT : Nat := 0x4
@[simp] abbrev VK_IMAGE_USAGE_COLOR_ATTACHMENT_BIT : Nat := 0x10
@[simp] abbrev VK_IMAGE_USAGE_DEPTH_STENCIL_ATTACHMENT_BIT : Nat := 0x20

@[simp] abbrev VK_IMAGE_ASPECT_COLOR_BIT : Nat := 0x1
@[simp] abbrev VK_IMAGE_ASPECT_DEPTH_BIT : Nat := 0x2
@[simp] abbrev VK_IMAGE_ASPECT_STENCIL_BIT : Nat := 0x4

@[simp] abbrev VK_SAMPLE_COUNT_1_BIT : Nat := 0x1

@[simp] abbrev VK_MEMORY_PROPERTY_DEVICE_LOCAL_BIT : Nat := 0x1
@[simp] abbrev VK_MEMORY_PROPERTY_HOST_VISIBLE_BIT : Nat := 0x2
@[simp] abbrev VK_MEMORY_PROPERTY_HOST_COHERENT_BIT : Nat := 0x4

@[simp] abbrev VK_BUFFER_USAGE_UNIFORM_BUFFER_BIT : Nat := 0x10

@[simp] abbrev VK_SUBPASS_EXTERNAL : Nat := 0xFFFFFFFF

@[simp] abbrev VK_PIPELINE_STAGE_FRAGMENT_SHADER_BIT : Nat := 0x80
@[simp] abbrev VK_PIPELINE_STAGE_EARLY_FRAGMENT_TESTS_BIT : Nat := 0x100
@[simp] abbrev VK_PIPELINE_STAGE_LATE_FRAGMENT_TESTS_BIT : Nat := 0x200
@[simp] abbrev VK_PIPELINE_STAGE_COLOR_ATTACHMENT_OUTPUT_BIT : Nat := 0x400
@[simp] abbrev VK_PIPELINE_STAGE_BOTTOM_OF_PIPE_BIT : Nat := 0x2000

@[simp] abbrev VK_ACCESS_SHADER_READ_BIT : Nat := 0x20
@[simp] abbrev VK_ACCESS_COLOR_ATTACHMENT_READ_BIT : Nat := 0x80
@[simp] abbrev VK_ACCESS_COLOR_ATTACHMENT_WRITE_BIT : Nat := 0x100
@[simp] abbrev VK_ACCESS_DEPTH_STENCIL_ATTACHMENT_READ_BIT : Nat := 0x200
@[simp] abbrev VK_ACCESS_DEPTH_STENCIL_ATTACHMENT_WRITE_BIT : Nat := 0x400
@[simp] abbrev VK_ACCESS_MEMORY_READ_BIT : Nat := 0x8000

@[simp] abbrev VK_DEPENDENCY_BY_REGION_BIT : Nat := 0x1

@[simp] abbrev VK_SHADER_STAGE_VERTEX_BIT : Nat := 0x1
@[simp] abbrev VK_SHADER_STAGE_FRAGMENT_BIT : Nat := 0x10

@[simp] abbrev VK_CULL_MODE_FRONT_BIT : Nat := 0x1
@[simp] abbrev VK_CULL_MODE_BACK_BIT : Nat := 0x2

/-- Enumerators of `VkImageType` used by the sources. -/
inductive VkImageType where
  | VK_IMAGE_TYPE_1D
  | VK_IMAGE_TYPE_2D
  deriving DecidableEq, Repr

/-- Enumerators of `VkImageTiling`. -/
inductive VkImageTiling where
  | VK_IMAGE_TILING_OPTIMAL
  | VK_IMAGE_TILING_LINEAR
  deriving DecidableEq, Repr

/-- Enumerators of `VkImageViewType` used by the sources. -/
inductive VkImageViewType where
  | VK_IMAGE_VIEW_TYPE_1D
  | VK_IMAGE_VIEW_TYPE_2D
  deriving DecidableEq, Repr

/-- Enumerators of `VkImageLayout` used by the sources; the first one is the
value of a zero-initialised field. -/
inductive VkImageLayout where
  | VK_IMAGE_LAYOUT_UNDEFINED
  | VK_IMAGE_LAYOUT_COLOR_ATTACHMENT_OPTIMAL
  | VK_IMAGE_LAYOUT_DEPTH_STENCIL_ATTACHMENT_OPTIMAL
  | VK_IMAGE_LAYOUT_DEPTH_STENCIL_READ_ONLY_OPTIMAL
  | VK_IMAGE_LAYOUT_SHADER_READ_ONLY_OPTIMAL
  deriving DecidableEq, Repr

/-- Enumerators of `VkAttachmentLoadOp`; the first one is the value of a
zero-initialised field. -/
inductive VkAttachmentLoadOp where
  | VK_ATTACHMENT_LOAD_OP_LOAD
  | VK_ATTACHMENT_LOAD_OP_CLEAR
  | VK_ATTACHMENT_LOAD_OP_DONT_CARE
  deriving DecidableEq, Repr

/-- Enumerators of `VkAttachmentStoreOp`; the first one is the value of a
zero-initialised field. -/
inductive VkAttachmentStoreOp where
  | VK_ATTACHMENT_STORE_OP_STORE
  | VK_ATTACHMENT_STORE_OP_DONT_CARE
  deriving DecidableEq, Repr

/-- Enumerators of `VkPipelineBindPoint`. -/
inductive VkPipelineBindPoint where
  | VK_PIPELINE_BIND_POINT_GRAPHICS
  | VK_PIPELINE_BIND_POINT_COMPUTE
  deriving DecidableEq, Repr

/-- Enumerators of `VkSubpassContents`. -/
inductive VkSubpassContents where
  | VK_SUBPASS_CONTENTS_INLINE
  | VK_SUBPASS_CONTENTS_SECONDARY_COMMAND_BUFFERS
  deriving DecidableEq, Repr

/-- Enumerators of `VkFilter`. -/
inductive VkFilter where
  | VK_FILTER_NEAREST
  | VK_FILTER_LINEAR
  deriving DecidableEq, Repr

/-- Enumerators of `VkSamplerMipmapMode`. -/
inductive VkSamplerMipmapMode where
  | VK_SAMPLER_MIPMAP_MODE_NEAREST
  | VK_SAMPLER_MIPMAP_MODE_LINEAR
  deriving DecidableEq, Repr

/-- Enumerators of `VkSamplerAddressMode` used by the sources. -/
inductive VkSamplerAddressMode where
  | VK_SAMPLER_ADDRESS_MODE_REPEAT
  | VK_SAMPLER_ADDRESS_MODE_MIRRORED_REPEAT
  | VK_SAMPLER_ADDRESS_MODE_CLAMP_TO_EDGE
  deriving DecidableEq, Repr

/-- Enumerators of `VkBorderColor` used by the sources. -/
inductive VkBorderColor where
  | VK_BORDER_COLOR_FLOAT_TRANSPARENT_BLACK
  | VK_BORDER_COLOR_FLOAT_OPAQUE_WHITE
  deriving DecidableEq, Repr

/-- Enumerators of `VkDescriptorType` used by the sources. -/
inductive VkDescriptorType where
  | VK_DESCRIPTOR_TYPE_COMBINED_IMAGE_SAMPLER
  | VK_DESCRIPTOR_TYPE_UNIFORM_BUFFER
  deriving DecidableEq, Repr

/-- Enumerators of `VkPrimitiveTopology` used by the sources. -/
inductive VkPrimitiveTopology where
  | VK_PRIMITIVE_TOPOLOGY_POINT_LIST
  | VK_PRIMITIVE_TOPOLOGY_TRIANGLE_LIST
  deriving DecidableEq, Repr

/-- Enumerators of `VkPolygonMode` used by the sources. -/
inductive VkPolygonMode where
  | VK_POLYGON_MODE_FILL
  | VK_POLYGON_MODE_LINE
  deriving DecidableEq, Repr

/-- Enumerators of `VkFrontFace`. -/
inductive VkFrontFace where
  | VK_FRONT_FACE_COUNTER_CLOCKWISE
  | VK_FRONT_FACE_CLOCKWISE
  deriving DecidableEq, Repr

/-- Enumerators of `VkCompareOp` used by the sources. -/
inductive VkCompareOp where
  | VK_COMPARE_OP_NEVER
  | VK_COMPARE_OP_LESS
  | VK_COMPARE_OP_LESS_OR_EQUAL
  | VK_COMPARE_OP_ALWAYS
  deriving DecidableEq, Repr

/-- Enumerators of `VkDynamicState` used by the sources. -/
inductive VkDynamicState where
  | VK_DYNAMIC_STATE_VIEWPORT
  | VK_DYNAMIC_STATE_SCISSOR
  deriving DecidableEq, Repr

export VkImageType (VK_IMAGE_TYPE_2D)
export VkImageTiling (VK_IMAGE_TILING_OPTIMAL)
export VkImageViewType (VK_IMAGE_VIEW_TYPE_2D)
export VkImageLayout (VK_IMAGE_LAYOUT_UNDEFINED VK_IMAGE_LAYOUT_COLOR_ATTACHMENT_OPTIMAL
  VK_IMAGE_LAYOUT_DEPTH_STENCIL_ATTACHMENT_OPTIMAL VK_IMAGE_LAYOUT_DEPTH_STENCIL_READ_ONLY_OPTIMAL
  VK_IMAGE_LAYOUT_SHADER_READ_ONLY_OPTIMAL)
export VkAttachmentLoadOp (VK_ATTACHMENT_LOAD_OP_LOAD VK_ATTACHMENT_LOAD_OP_CLEAR
  VK_ATTACHMENT_LOAD_OP_DONT_CARE)
export VkAttachmentStoreOp (VK_ATTACHMENT_STORE_OP_STORE VK_ATTACHMENT_STORE_OP_DONT_CARE)
export VkPipelineBindPoint (VK_PIPELINE_BIND_POINT_GRAPHICS)
export VkSubpassContents (VK_SUBPASS_CONTENTS_INLINE)
export VkFilter (VK_FILTER_NEAREST VK_FILTER_LINEAR)
export VkSamplerMipmapMode (VK_SAMPLER_MIPMAP_MODE_LINEAR)
export VkSamplerAddressMode (VK_SAMPLER_ADDRESS_MODE_REPEAT VK_SAMPLER_ADDRESS_MODE_CLAMP_TO_EDGE)
export VkBorderColor (VK_BORDER_COLOR_FLOAT_OPAQUE_WHITE)
export VkDescriptorType (VK_DESCRIPTOR_TYPE_COMBINED_IMAGE_SAMPLER VK_DESCRIPTOR_TYPE_UNIFORM_BUFFER)
export VkPrimitiveTopology (VK_PRIMITIVE_TOPOLOGY_TRIANGLE_LIST)
export VkPolygonMode (VK_POLYGON_MODE_FILL)
export VkFrontFace (VK_FRONT_FACE_COUNTER_CLOCKWISE)
export VkCompareOp (VK_COMPARE_OP_LESS_OR_EQUAL VK_COMPARE_OP_ALWAYS)
export VkDynamicState (VK_DYNAMIC_STATE_VIEWPORT VK_DYNAMIC_STATE_SCISSOR)

/-- A `float`.  Floating-point arithmetic is not modelled: a value is either a
decimal literal of the source (`num / den`, before rounding) or the conversion
`(float) i` of an integer. -/
inductive F32 where
  | lit (num : Int) (den : Nat)
  | ofInt (i : Int)
  deriving DecidableEq, Repr

/-- `2^32`, the number of values of a 32-bit integer. -/
@[simp] abbrev UINT32_RANGE : Nat := 4294967296

/-- Conversion of a `uint32_t` value to `int32_t` (two's complement). -/
def toInt32 (n : Nat) : Int :=
  if n % UINT32_RANGE < 2147483648 then Int.ofNat (n % UINT32_RANGE)
  else Int.ofNat (n % UINT32_RANGE) - Int.ofNat UINT32_RANGE

/-- Conversion of an `int32_t` value to `uint32_t` (reduction modulo `2^32`). -/
def toUInt32 (i : Int) : Nat :=
  (i % Int.ofNat UINT32_RANGE).toNat

/-- The first `count` elements of the array that `data` points to: how Vulkan
reads a `(count, pointer)` pair of a create-info structure. -/
def span {α : Type} (count : Nat) (data : List α) : List α :=
  data.take count

/-- `VkExtent3D`. -/
structure VkExtent3D where
  width : Nat := 0
  height : Nat := 0
  depth : Nat := 0
  deriving DecidableEq, Repr

/-- `VkImageCreateInfo`, the fields the sources set. -/
structure VkImageCreateInfo where
  imageType : VkImageType := VkImageType.VK_IMAGE_TYPE_1D
  format : VkFormat := VK_FORMAT_UNDEFINED
  extent : VkExtent3D := {}
  mipLevels : Nat := 0
  arrayLayers : Nat := 0
  samples : Nat := 0
  tiling : VkImageTiling := VK_IMAGE_TILING_OPTIMAL
  usage : Nat := 0
  deriving DecidableEq, Repr

/-- `VkImageSubresourceRange`. -/
structure VkImageSubresourceRange where
  aspectMask : Nat := 0
  baseMipLevel : Nat := 0
  levelCount : Nat := 0
  baseArrayLayer : Nat := 0
  layerCount : Nat := 0
  deriving DecidableEq, Repr

/-- `VkImageViewCreateInfo`, the fields the sources set. -/
structure VkImageViewCreateInfo where
  image : Nat := 0
  viewType : VkImageViewType := VkImageViewType.VK_IMAGE_VIEW_TYPE_1D
  format : VkFormat := VK_FORMAT_UNDEFINED
  subresourceRange : VkImageSubresourceRange := {}
  deriving DecidableEq, Repr

/-- `VkAttachmentDescription`. -/
structure VkAttachmentDescription where
  flags : Nat := 0
  format : VkFormat := VK_FORMAT_UNDEFINED
  samples : Nat := 0
  loadOp : VkAttachmentLoadOp := VK_ATTACHMENT_LOAD_OP_LOAD
  storeOp : VkAttachmentStoreOp := VK_ATTACHMENT_STORE_OP_STORE
  stencilLoadOp : VkAttachmentLoadOp := VK_ATTACHMENT_LOAD_OP_LOAD
  stencilStoreOp : VkAttachmentStoreOp := VK_ATTACHMENT_STORE_OP_STORE
  initialLayout : VkImageLayout := VK_IMAGE_LAYOUT_UNDEFINED
  finalLayout : VkImageLayout := VK_IMAGE_LAYOUT_UNDEFINED
  deriving DecidableEq, Repr

/-- `VkAttachmentReference`. -/
structure VkAttachmentReference where
  attachment : Nat := 0
  layout : VkImageLayout := VK_IMAGE_LAYOUT_UNDEFINED
  deriving DecidableEq, Repr

/-- `VkSubpassDescription`; each `(count, pointer)` pair is the list it
denotes, and a null `pDepthStencilAttachment` is `none`. -/
structure VkSubpassDescription where
  pipelineBindPoint : VkPipelineBindPoint := VK_PIPELINE_BIND_POINT_GRAPHICS
  pColorAttachments : List VkAttachmentReference := []
  pDepthStencilAttachment : Option VkAttachmentReference := none
  deriving DecidableEq, Repr

/-- `VkSubpassDependency`. -/
structure VkSubpassDependency where
  srcSubpass : Nat := 0
  dstSubpass : Nat := 0
  srcStageMask : Nat := 0
  dstStageMask : Nat := 0
  srcAccessMask : Nat := 0
  dstAccessMask : Nat := 0
  dependencyFlags : Nat := 0
  deriving DecidableEq, Repr

/-- The dependency with source and destination exchanged, in subpass index,
stage mask and access mask. -/
def VkSubpassDependency.swapped (d : VkSubpassDependency) : VkSubpassDependency :=
  { srcSubpass := d.dstSubpass, dstSubpass := d.srcSubpass,
    srcStageMask := d.dstStageMask, dstStageMask := d.srcStageMask,
    srcAccessMask := d.dstAccessMask, dstAccessMask := d.srcAccessMask,
    dependencyFlags := d.dependencyFlags }

/-- `VkRenderPassCreateInfo`; each `(count, pointer)` pair is the list it
denotes (see `span`). -/
structure VkRenderPassCreateInfo where
  pAttachments : List VkAttachmentDescription := []
  pSubpasses : List VkSubpassDescription := []
  pDependencies : List VkSubpassDependency := []
  deriving DecidableEq, Repr

/-- `VkFramebufferCreateInfo`. -/
structure VkFramebufferCreateInfo where
  renderPass : Nat := 0
  pAttachments : List Nat := []
  width : Nat := 0
  height : Nat := 0
  layers : Nat := 0
  deriving DecidableEq, Repr

/-- `VkSamplerCreateInfo`, the fields the sources set. -/
structure VkSamplerCreateInfo where
  magFilter : VkFilter := VK_FILTER_NEAREST
  minFilter : VkFilter := VK_FILTER_NEAREST
  mipmapMode : VkSamplerMipmapMode := VkSamplerMipmapMode.VK_SAMPLER_MIPMAP_MODE_NEAREST
  addressModeU : VkSamplerAddressMode := VK_SAMPLER_ADDRESS_MODE_REPEAT
  addressModeV : VkSamplerAddressMode := VK_SAMPLER_ADDRESS_MODE_REPEAT
  addressModeW : VkSamplerAddressMode := VK_SAMPLER_ADDRESS_MODE_REPEAT
  mipLodBias : F32 := F32.lit 0 1
  maxAnisotropy : F32 := F32.lit 0 1
  minLod : F32 := F32.lit 0 1
  maxLod : F32 := F32.lit 0 1
  borderColor : VkBorderColor := VkBorderColor.VK_BORDER_COLOR_FLOAT_TRANSPARENT_BLACK
  deriving DecidableEq, Repr

/-- `VkDescriptorPoolSize`. -/
structure VkDescriptorPoolSize where
  type : VkDescriptorType
  descriptorCount : Nat
  deriving DecidableEq, Repr

/-- `VkDescriptorPoolCreateInfo`. -/
structure VkDescriptorPoolCreateInfo where
  pPoolSizes : List VkDescriptorPoolSize := []
  maxSets : Nat := 0
  deriving DecidableEq, Repr

/-- `VkDescriptorSetLayoutBinding`. -/
structure VkDescriptorSetLayoutBinding where
  descriptorType : VkDescriptorType
  stageFlags : Nat
  binding : Nat
  descriptorCount : Nat
  deriving DecidableEq, Repr

/-- `VkDescriptorSetLayoutCreateInfo`. -/
structure VkDescriptorSetLayoutCreateInfo where
  pBindings : List VkDescriptorSetLayoutBinding := []
  deriving DecidableEq, Repr

/-- `VkDescriptorSetAllocateInfo`; `pSetLayouts` is the array pointed to (empty
for a null pointer), of which Vulkan reads the first `descriptorSetCount`. -/
structure VkDescriptorSetAllocateInfo where
  descriptorPool : Nat := 0
  descriptorSetCount : Nat := 0
  pSetLayouts : List Nat := []
  deriving DecidableEq, Repr

/-- `VkDescriptorImageInfo`. -/
structure VkDescriptorImageInfo where
  sampler : Nat
  imageView : Nat
  imageLayout : VkImageLayout
  deriving DecidableEq, Repr

/-- `VkDescriptorBufferInfo`. -/
structure VkDescriptorBufferInfo where
  buffer : Nat := 0
  offset : Nat := 0
  range : Nat := 0
  deriving DecidableEq, Repr

/-- `VkWriteDescriptorSet`; a null `pBufferInfo` or `pImageInfo` is `none`. -/
structure VkWriteDescriptorSet where
  dstSet : Nat
  descriptorType : VkDescriptorType
  dstBinding : Nat
  descriptorCount : Nat
  pBufferInfo : Option VkDescriptorBufferInfo := none
  pImageInfo : Option VkDescriptorImageInfo := none
  deriving DecidableEq, Repr

/-- `VkPipelineLayoutCreateInfo`. -/
structure VkPipelineLayoutCreateInfo where
  pSetLayouts : List Nat := []
  deriving DecidableEq, Repr

/-- `VkPipelineInputAssemblyStateCreateInfo`. -/
structure VkPipelineInputAssemblyStateCreateInfo where
  topology : VkPrimitiveTopology
  flags : Nat
  primitiveRestartEnable : Bool
  deriving DecidableEq, Repr

/-- `VkPipelineRasterizationStateCreateInfo`, the fields the sources set. -/
structure VkPipelineRasterizationStateCreateInfo where
  polygonMode : VkPolygonMode
  cullMode : Nat
  frontFace : VkFrontFace
  flags : Nat
  deriving DecidableEq, Repr

/-- `VkPipelineColorBlendAttachmentState`, the fields the sources set. -/
structure VkPipelineColorBlendAttachmentState where
  colorWriteMask : Nat
  blendEnable : Bool
  deriving DecidableEq, Repr

/-- `VkPipelineColorBlendStateCreateInfo`; `(attachmentCount, pAttachments)`
is the list it denotes. -/
structure VkPipelineColorBlendStateCreateInfo where
  pAttachments : List VkPipelineColorBlendAttachmentState
  deriving DecidableEq, Repr

/-- `VkPipelineDepthStencilStateCreateInfo`, the fields the sources set. -/
structure VkPipelineDepthStencilStateCreateInfo where
  depthTestEnable : Bool
  depthWriteEnable : Bool
  depthCompareOp : VkCompareOp
  deriving DecidableEq, Repr

/-- `VkPipelineViewportStateCreateInfo`. -/
structure VkPipelineViewportStateCreateInfo where
  viewportCount : Nat
  scissorCount : Nat
  flags : Nat
  deriving DecidableEq, Repr

/-- `VkPipelineMultisampleStateCreateInfo`, the fields the sources set. -/
structure VkPipelineMultisampleStateCreateInfo where
  rasterizationSamples : Nat
  flags : Nat
  deriving DecidableEq, Repr

/-- `VkPipelineDynamicStateCreateInfo`. -/
structure VkPipelineDynamicStateCreateInfo where
  pDynamicStates : List VkDynamicState
  deriving DecidableEq, Repr

/-- `VkSpecializationMapEntry`. -/
structure VkSpecializationMapEntry where
  constantID : Nat
  offset : Nat
  size : Nat
  deriving DecidableEq, Repr

/-- `VkSpecializationInfo`; `pData` is the pointed-to data, as the list of its
32-bit words. -/
structure VkSpecializationInfo where
  pMapEntries : List VkSpecializationMapEntry
  dataSize : Nat
  pData : List Nat
  deriving DecidableEq, Repr

/-- `VkPipelineShaderStageCreateInfo`; a null `pSpecializationInfo` is `none`. -/
structure VkPipelineShaderStageCreateInfo where
  stage : Nat := 0
  module : Nat := 0
  pName : String := ""
  pSpecializationInfo : Option VkSpecializationInfo := none
  deriving DecidableEq, Repr

/-- Components of a glTF vertex (`vkglTF::VertexComponent`). -/
inductive VertexComponent where
  | Position
  | Normal
  | UV
  | Color
  deriving DecidableEq, Repr

/-- `VkPipelineVertexInputStateCreateInfo`: the number of vertex bindings and
the attributes, one per vertex component. -/
structure VkPipelineVertexInputStateCreateInfo where
  vertexBindingDescriptionCount : Nat := 0
  pVertexAttributeDescriptions : List VertexComponent := []
  deriving DecidableEq, Repr

/-- `VkGraphicsPipelineCreateInfo` as `vkCreateGraphicsPipelines` reads it:
every pointer member is replaced by the value it points to at the call. -/
structure VkGraphicsPipelineCreateInfo where
  layout : Nat
  renderPass : Nat
  subpass : Nat
  pStages : List VkPipelineShaderStageCreateInfo
  pVertexInputState : VkPipelineVertexInputStateCreateInfo
  pInputAssemblyState : VkPipelineInputAssemblyStateCreateInfo
  pRasterizationState : VkPipelineRasterizationStateCreateInfo
  pColorBlendState : VkPipelineColorBlendStateCreateInfo
  pMultisampleState : VkPipelineMultisampleStateCreateInfo
  pViewportState : VkPipelineViewportStateCreateInfo
  pDepthStencilState : VkPipelineDepthStencilStateCreateInfo
  pDynamicState : VkPipelineDynamicStateCreateInfo
  deriving DecidableEq, Repr

/-- `VkClearValue`, a union of a colour and a depth/stencil value. -/
inductive VkClearValue where
  | color (r g b a : F32)
  | depthStencil (depth : F32) (stencil : Nat)
  deriving DecidableEq, Repr

/-- `VkRect2D`. -/
structure VkRect2D where
  offsetX : Int := 0
  offsetY : Int := 0
  extentWidth : Nat := 0
  extentHeight : Nat := 0
  deriving DecidableEq, Repr

/-- `VkViewport`. -/
structure VkViewport where
  x : F32 := F32.lit 0 1
  y : F32 := F32.lit 0 1
  width : F32
  height : F32
  minDepth : F32
  maxDepth : F32
  deriving DecidableEq, Repr

/-- `VkRenderPassBeginInfo`; `pClearValues` is the array pointed to, of which
Vulkan reads the first `clearValueCount`. -/
structure VkRenderPassBeginInfo where
  renderPass : Nat := 0
  framebuffer : Nat := 0
  renderArea : VkRect2D := {}
  clearValueCount : Nat := 0
  pClearValues : List VkClearValue := []
  deriving DecidableEq, Repr

/-- A call on the device.  The calls that create an object come first; the
handle of the object is the position of the call in the device log. -/
inductive Call where
  | vkCreateImage (pCreateInfo : VkImageCreateInfo)
  | vkAllocateMemory (requirementsOf : Nat) (memoryProperties : Nat)
  | vkCreateImageView (pCreateInfo : VkImageViewCreateInfo)
  | vkCreateRenderPass (pCreateInfo : VkRenderPassCreateInfo)
  | vkCreateFramebuffer (pCreateInfo : VkFramebufferCreateInfo)
  | vkCreateSampler (pCreateInfo : VkSamplerCreateInfo)
  | vkCreateDescriptorPool (pCreateInfo : VkDescriptorPoolCreateInfo)
  | vkCreateDescriptorSetLayout (pCreateInfo : VkDescriptorSetLayoutCreateInfo)
  | vkAllocateDescriptorSets (pAllocateInfo : VkDescriptorSetAllocateInfo)
  | vkCreatePipelineLayout (pCreateInfo : VkPipelineLayoutCreateInfo)
  | vkCreateGraphicsPipelines (pipelineCache : Nat) (pCreateInfo : VkGraphicsPipelineCreateInfo)
  | loadShader (fileName : String) (stage : Nat)
  | createBuffer (usageFlags : Nat) (memoryPropertyFlags : Nat) (size : Nat)
  | vkBindImageMemory (image : Nat) (memory : Nat) (memoryOffset : Nat)
  | vkUpdateDescriptorSets (pDescriptorWrites : List VkWriteDescriptorSet)
  | base
  deriving DecidableEq, Repr

/-- The device: the log of the calls made on it, oldest first. -/
abbrev Device := List Call

/-- Make a call on the device; the result is the extended log and the handle
the call returns. -/
def Device.call (device : Device) (c : Call) : Device × Nat :=
  (device ++ [c], device.length + 1)

/-- The call that returned handle `h`, if any. -/
def Device.lookup (device : Device) (h : Nat) : Option Call :=
  if h = 0 then none else device[h - 1]?

/-- A command recorded into a command buffer.  `scene_draw` is the draw of the
loaded glTF scene and `drawUI` the overlay draw of the base class; both are
external and record no render-pass begin or end.  The commands from
`vkCmdBindVertexBuffers` on are commands of the API that neither example
records; they are listed so that their absence can be stated. -/
inductive Cmd where
  | vkBeginCommandBuffer
  | vkCmdBeginRenderPass (pRenderPassBegin : VkRenderPassBeginInfo) (contents : VkSubpassContents)
  | vkCmdSetViewport (firstViewport : Nat) (pViewports : List VkViewport)
  | vkCmdSetScissor (firstScissor : Nat) (pScissors : List VkRect2D)
  | vkCmdBindPipeline (pipelineBindPoint : VkPipelineBindPoint) (pipeline : Nat)
  | vkCmdBindDescriptorSets (pipelineBindPoint : VkPipelineBindPoint) (layout : Nat)
      (firstSet : Nat) (pDescriptorSets : List Nat) (pDynamicOffsets : List Nat)
  | vkCmdDraw (vertexCount instanceCount firstVertex firstInstance : Nat)
  | scene_draw (bindImages : Bool) (pipelineLayout : Nat)
  | drawUI
  | vkCmdEndRenderPass
  | vkEndCommandBuffer
  | vkCmdBindVertexBuffers (firstBinding : Nat) (pBuffers : List Nat)
  | vkCmdBindIndexBuffer (buffer : Nat)
  | vkCmdDrawIndexed (indexCount instanceCount firstIndex firstInstance : Nat)
  | vkCmdPipelineBarrier (srcStageMask dstStageMask : Nat)
  | vkCmdSetEvent (event stageMask : Nat)
  | vkCmdResetEvent (event stageMask : Nat)
  | vkCmdWaitEvents (pEvents : List Nat) (srcStageMask dstStageMask : Nat)
  deriving DecidableEq, Repr

/-! ## Helpers of the base library

The helpers below (`vks::initializers`, `vks::Buffer`, `vks::VulkanDevice`,
`VulkanExampleBase::loadShader`, `glm`, `vkglTF`) are called by both examples
but are not among the sources. -/

/-- A 4x4 `float` matrix (`glm::mat4`), column by column. -/
structure glm.mat4 where
  entries : List F32
  deriving DecidableEq, Repr

/-- The constructor `glm::mat4(x)`: `x` on the diagonal, zero elsewhere. -/
def glm.mat4.diagonal (x : F32) : glm.mat4 :=
  let o := F32.lit 0 1
  { entries := [x, o, o, o, o, x, o, o, o, o, x, o, o, o, o, x] }

/-- Modelled from the spec: `vks::Buffer` of the base library, which is not
among the sources: a uniform buffer with its mapped ("host-visible,
host-coherent mapped memory, persistently mapped") memory.  `contents` is what
the mapped memory holds and `copied` the byte count of the last `copyTo`. -/
structure vks.Buffer (α : Type) where
  buffer : Nat := 0
  size : Nat := 0
  usageFlags : Nat := 0
  memoryPropertyFlags : Nat := 0
  descriptor : VkDescriptorBufferInfo := {}
  mapped : Bool := false
  contents : Option α := none
  copied : Nat := 0

/-- `VK_WHOLE_SIZE`. -/
@[simp] abbrev VK_WHOLE_SIZE : Nat := 2 ^ 64 - 1

/-- Modelled from the spec: `vks::VulkanDevice::createBuffer` of the base
library, which is not among the sources: creates one buffer of `size` bytes
with the given usage and memory properties and sets up its descriptor for the
whole buffer. -/
def vks.VulkanDevice.createBuffer {α : Type} (device : Device) (usageFlags memoryPropertyFlags : Nat)
    (size : Nat) : Device × vks.Buffer α :=
  let r := device.call (Call.createBuffer usageFlags memoryPropertyFlags size)
  (r.1, { buffer := r.2, size := size, usageFlags := usageFlags,
          memoryPropertyFlags := memoryPropertyFlags,
          descriptor := { buffer := r.2, offset := 0, range := VK_WHOLE_SIZE } })

/-- Modelled from the spec: `vks::Buffer::map` of the base library, which is
not among the sources: maps the whole buffer. -/
def vks.Buffer.map {α : Type} (b : vks.Buffer α) : vks.Buffer α :=
  { b with mapped := true }

/-- Modelled from the spec: `vks::Buffer::copyTo` of the base library, which is
not among the sources: "copies host-side structs into [the] mapped buffers". -/
def vks.Buffer.copyTo {α : Type} (b : vks.Buffer α) (data : α) (size : Nat) : vks.Buffer α :=
  { b with contents := some data, copied := size }

/-- Modelled from the spec: `VulkanExampleBase::loadShader` of the base
library, which is not among the sources: "precompiled binary programs are
loaded by name"; the stage it returns has entry point `main` and no
specialization info. -/
def loadShader (device : Device) (fileName : String) (stage : Nat) :
    Device × VkPipelineShaderStageCreateInfo :=
  let r := device.call (Call.loadShader fileName stage)
  (r.1, { stage := stage, module := r.2, pName := "main", pSpecializationInfo := none })

/-- Modelled from the spec: `vkglTF::Vertex::getPipelineVertexInputState` of
the glTF loader, which is not among the sources: one vertex binding and one
attribute per requested component ("vertex layout {position, UV, color,
normal}"). -/
def vkglTF.Vertex.getPipelineVertexInputState (components : List VertexComponent) :
    VkPipelineVertexInputStateCreateInfo :=
  { vertexBindingDescriptionCount := 1, pVertexAttributeDescriptions := components }

/-- Modelled from the spec: the functions of `vks::initializers` (base library,
not among the sources) store each argument in the structure member of the same
name and leave the other members zero.  This one is
`vks::initializers::descriptorPoolSize`. -/
def vks.initializers.descriptorPoolSize (type : VkDescriptorType) (descriptorCount : Nat) :
    VkDescriptorPoolSize :=
  { type := type, descriptorCount := descriptorCount }

/-- Modelled from the spec: `vks::initializers::descriptorPoolCreateInfo`,
see `vks.initializers.descriptorPoolSize`. -/
def vks.initializers.descriptorPoolCreateInfo (poolSizes : List VkDescriptorPoolSize)
    (maxSets : Nat) : VkDescriptorPoolCreateInfo :=
  { pPoolSizes := poolSizes, maxSets := maxSets }

/-- Modelled from the spec: `vks::initializers::descriptorSetLayoutBinding`
(its `descriptorCount` parameter defaults to 1), see
`vks.initializers.descriptorPoolSize`. -/
def vks.initializers.descriptorSetLayoutBinding (type : VkDescriptorType) (stageFlags : Nat)
    (binding : Nat) (descriptorCount : Nat := 1) : VkDescriptorSetLayoutBinding :=
  { descriptorType := type, stageFlags := stageFlags, binding := binding,
    descriptorCount := descriptorCount }

/-- Modelled from the spec: `vks::initializers::descriptorSetLayoutCreateInfo`,
see `vks.initializers.descriptorPoolSize`. -/
def vks.initializers.descriptorSetLayoutCreateInfo (pBindings : List VkDescriptorSetLayoutBinding)
    (bindingCount : Nat) : VkDescriptorSetLayoutCreateInfo :=
  { pBindings := span bindingCount pBindings }

/-- Modelled from the spec: `vks::initializers::descriptorSetAllocateInfo`,
see `vks.initializers.descriptorPoolSize`. -/
def vks.initializers.descriptorSetAllocateInfo (descriptorPool : Nat)
    (pSetLayouts : List Nat) (descriptorSetCount : Nat) : VkDescriptorSetAllocateInfo :=
  { descriptorPool := descriptorPool, descriptorSetCount := descriptorSetCount,
    pSetLayouts := pSetLayouts }

/-- Modelled from the spec: `vks::initializers::descriptorImageInfo`, see
`vks.initializers.descriptorPoolSize`. -/
def vks.initializers.descriptorImageInfo (sampler imageView : Nat)
    (imageLayout : VkImageLayout) : VkDescriptorImageInfo :=
  { sampler := sampler, imageView := imageView, imageLayout := imageLayout }

/-- Modelled from the spec: `vks::initializers::writeDescriptorSet`, the
overload taking a buffer info (`descriptorCount` defaults to 1), see
`vks.initializers.descriptorPoolSize`. -/
def vks.initializers.writeDescriptorSet (dstSet : Nat) (type : VkDescriptorType)
    (binding : Nat) (bufferInfo : VkDescriptorBufferInfo) (descriptorCount : Nat := 1) :
    VkWriteDescriptorSet :=
  { dstSet := dstSet, descriptorType := type, dstBinding := binding,
    descriptorCount := descriptorCount, pBufferInfo := some bufferInfo }

/-- Modelled from the spec: `vks::initializers::writeDescriptorSet`, the
overload taking an image info (`descriptorCount` defaults to 1), see
`vks.initializers.descriptorPoolSize`. -/
def vks.initializers.writeDescriptorSetImage (dstSet : Nat) (type : VkDescriptorType)
    (binding : Nat) (imageInfo : VkDescriptorImageInfo) (descriptorCount : Nat := 1) :
    VkWriteDescriptorSet :=
  { dstSet := dstSet, descriptorType := type, dstBinding := binding,
    descriptorCount := descriptorCount, pImageInfo := some imageInfo }

/-- Modelled from the spec: `vks::initializers::pipelineInputAssemblyStateCreateInfo`,
see `vks.initializers.descriptorPoolSize`. -/
def vks.initializers.pipelineInputAssemblyStateCreateInfo (topology : VkPrimitiveTopology)
    (flags : Nat) (primitiveRestartEnable : Bool) : VkPipelineInputAssemblyStateCreateInfo :=
  { topology := topology, flags := flags, primitiveRestartEnable := primitiveRestartEnable }

/-- Modelled from the spec: `vks::initializers::pipelineRasterizationStateCreateInfo`,
see `vks.initializers.descriptorPoolSize`. -/
def vks.initializers.pipelineRasterizationStateCreateInfo (polygonMode : VkPolygonMode)
    (cullMode : Nat) (frontFace : VkFrontFace) (flags : Nat) :
    VkPipelineRasterizationStateCreateInfo :=
  { polygonMode := polygonMode, cullMode := cullMode, frontFace := frontFace, flags := flags }

/-- Modelled from the spec: `vks::initializers::pipelineColorBlendAttachmentState`,
see `vks.initializers.descriptorPoolSize`. -/
def vks.initializers.pipelineColorBlendAttachmentState (colorWriteMask : Nat)
    (blendEnable : Bool) : VkPipelineColorBlendAttachmentState :=
  { colorWriteMask := colorWriteMask, blendEnable := blendEnable }

/-- Modelled from the spec: `vks::initializers::pipelineColorBlendStateCreateInfo`,
see `vks.initializers.descriptorPoolSize`. -/
def vks.initializers.pipelineColorBlendStateCreateInfo (attachmentCount : Nat)
    (pAttachments : List VkPipelineColorBlendAttachmentState) :
    VkPipelineColorBlendStateCreateInfo :=
  { pAttachments := span attachmentCount pAttachments }

/-- Modelled from the spec: `vks::initializers::pipelineDepthStencilStateCreateInfo`,
see `vks.initializers.descriptorPoolSize`; the three arguments are the
depth-test enable, the depth-write enable and the depth compare op. -/
def vks.initializers.pipelineDepthStencilStateCreateInfo (depthTestEnable depthWriteEnable : Bool)
    (depthCompareOp : VkCompareOp) : VkPipelineDepthStencilStateCreateInfo :=
  { depthTestEnable := depthTestEnable, depthWriteEnable := depthWriteEnable,
    depthCompareOp := depthCompareOp }

/-- Modelled from the spec: `vks::initializers::pipelineViewportStateCreateInfo`,
see `vks.initializers.descriptorPoolSize`. -/
def vks.initializers.pipelineViewportStateCreateInfo (viewportCount scissorCount flags : Nat) :
    VkPipelineViewportStateCreateInfo :=
  { viewportCount := viewportCount, scissorCount := scissorCount, flags := flags }

/-- Modelled from the spec: `vks::initializers::pipelineMultisampleStateCreateInfo`,
see `vks.initializers.descriptorPoolSize`. -/
def vks.initializers.pipelineMultisampleStateCreateInfo (rasterizationSamples flags : Nat) :
    VkPipelineMultisampleStateCreateInfo :=
  { rasterizationSamples := rasterizationSamples, flags := flags }

/-- Modelled from the spec: `vks::initializers::pipelineDynamicStateCreateInfo`,
see `vks.initializers.descriptorPoolSize`. -/
def vks.initializers.pipelineDynamicStateCreateInfo (pDynamicStates : List VkDynamicState) :
    VkPipelineDynamicStateCreateInfo :=
  { pDynamicStates := pDynamicStates }

/-- Modelled from the spec: `vks::initializers::pipelineVertexInputStateCreateInfo`
without arguments: no binding and no attribute ("no vertex buffer"). -/
def vks.initializers.pipelineVertexInputStateCreateInfo : VkPipelineVertexInputStateCreateInfo :=
  { vertexBindingDescriptionCount := 0, pVertexAttributeDescriptions := [] }

/-- Modelled from the spec: `vks::initializers::specializationMapEntry`, see
`vks.initializers.descriptorPoolSize`. -/
def vks.initializers.specializationMapEntry (constantID offset size : Nat) :
    VkSpecializationMapEntry :=
  { constantID := constantID, offset := offset, size := size }

/-- Modelled from the spec: `vks::initializers::specializationInfo`, see
`vks.initializers.descriptorPoolSize`. -/
def vks.initializers.specializationInfo (mapEntryCount : Nat)
    (mapEntries : List VkSpecializationMapEntry) (dataSize : Nat) (data : List Nat) :
    VkSpecializationInfo :=
  { pMapEntries := span mapEntryCount mapEntries, dataSize := dataSize, pData := data }

/-- Modelled from the spec: `vks::initializers::viewport`, see
`vks.initializers.descriptorPoolSize`. -/
def vks.initializers.viewport (width height minDepth maxDepth : F32) : VkViewport :=
  { width := width, height := height, minDepth := minDepth, maxDepth := maxDepth }

/-- Modelled from the spec: `vks::initializers::rect2D`, whose parameters are
`int32_t`, see `vks.initializers.descriptorPoolSize`. -/
def vks.initializers.rect2D (width height offsetX offsetY : Int) : VkRect2D :=
  { offsetX := offsetX, offsetY := offsetY, extentWidth := toUInt32 width,
    extentHeight := toUInt32 height }

/-- The camera of the base class: the matrices the examples read. -/
structure Camera where
  perspective : glm.mat4
  view : glm.mat4
  deriving DecidableEq, Repr

/-! ## Reading the device log and a command stream -/

/-- The descriptor writes a call makes. -/
def Call.writes : Call → List VkWriteDescriptorSet
  | Call.vkUpdateDescriptorSets pDescriptorWrites => pDescriptorWrites
  | _ => []

/-- The descriptor writes made so far on the descriptor set of handle `h`,
oldest first. -/
def Device.writesTo (device : Device) (h : Nat) : List VkWriteDescriptorSet :=
  device.flatMap (fun c => c.writes.filter (fun w => w.dstSet = h))

/-- Every descriptor write of the log targets a handle the log has returned. -/
def Device.writesBounded (device : Device) : Prop :=
  ∀ c ∈ device, ∀ w ∈ c.writes, w.dstSet ≤ device.length

/-- The combined-image-sampler descriptors written on the set of handle `h`,
each with the binding it is written to. -/
def Device.imageInputs (device : Device) (h : Nat) : List (Nat × VkDescriptorImageInfo) :=
  (device.writesTo h).filterMap (fun w =>
    if w.descriptorType = VK_DESCRIPTOR_TYPE_COMBINED_IMAGE_SAMPLER then
      w.pImageInfo.map (fun info => (w.dstBinding, info))
    else none)

/-- The uniform-buffer descriptors written on the set of handle `h`, each with
the binding it is written to. -/
def Device.bufferInputs (device : Device) (h : Nat) : List (Nat × VkDescriptorBufferInfo) :=
  (device.writesTo h).filterMap (fun w =>
    if w.descriptorType = VK_DESCRIPTOR_TYPE_UNIFORM_BUFFER then
      w.pBufferInfo.map (fun info => (w.dstBinding, info))
    else none)

/-- The create-info the render pass of handle `h` was created with. -/
def Device.renderPassInfo (device : Device) (h : Nat) : Option VkRenderPassCreateInfo :=
  match device.lookup h with
  | some (Call.vkCreateRenderPass pCreateInfo) => some pCreateInfo
  | _ => none

/-- The create-info the framebuffer of handle `h` was created with. -/
def Device.framebufferInfo (device : Device) (h : Nat) : Option VkFramebufferCreateInfo :=
  match device.lookup h with
  | some (Call.vkCreateFramebuffer pCreateInfo) => some pCreateInfo
  | _ => none

/-- The create-info the image of handle `h` was created with. -/
def Device.imageInfo (device : Device) (h : Nat) : Option VkImageCreateInfo :=
  match device.lookup h with
  | some (Call.vkCreateImage pCreateInfo) => some pCreateInfo
  | _ => none

/-- The create-info the image view of handle `h` was created with. -/
def Device.imageViewInfo (device : Device) (h : Nat) : Option VkImageViewCreateInfo :=
  match device.lookup h with
  | some (Call.vkCreateImageView pCreateInfo) => some pCreateInfo
  | _ => none

/-- The create-info the graphics pipeline of handle `h` was created with. -/
def Device.pipelineInfo (device : Device) (h : Nat) : Option VkGraphicsPipelineCreateInfo :=
  match device.lookup h with
  | some (Call.vkCreateGraphicsPipelines _ pCreateInfo) => some pCreateInfo
  | _ => none

/-- The begin and end commands that give a command stream its structure. -/
inductive PassEvent where
  | beginCommandBuffer
  | beginRenderPass (renderPass framebuffer : Nat)
  | endRenderPass
  | endCommandBuffer
  deriving DecidableEq, Repr

/-- The structural event of a command, if it is one. -/
def Cmd.passEvent : Cmd → Option PassEvent
  | Cmd.vkBeginCommandBuffer => some PassEvent.beginCommandBuffer
  | Cmd.vkCmdBeginRenderPass pRenderPassBegin _ =>
      some (PassEvent.beginRenderPass pRenderPassBegin.renderPass pRenderPassBegin.framebuffer)
  | Cmd.vkCmdEndRenderPass => some PassEvent.endRenderPass
  | Cmd.vkEndCommandBuffer => some PassEvent.endCommandBuffer
  | _ => none

/-- The structural events of a command stream, in order. -/
def passEvents (cmds : List Cmd) : List PassEvent :=
  cmds.filterMap Cmd.passEvent

/-- The descriptor sets a command binds. -/
def Cmd.descriptorSets : Cmd → List Nat
  | Cmd.vkCmdBindDescriptorSets _ _ _ pDescriptorSets _ => pDescriptorSets
  | _ => []

/-- The descriptor sets bound by the commands of a stream, in order. -/
def boundDescriptorSets (cmds : List Cmd) : List Nat :=
  cmds.flatMap Cmd.descriptorSets

/-- A render pass of a command stream: the begin-info it is begun with and the
commands recorded between its begin and its end. -/
structure RecordedPass where
  beginInfo : VkRenderPassBeginInfo
  body : List Cmd
  deriving DecidableEq, Repr

/-- The render passes of the rest of a command stream, `current` being the pass
that is open.  A pass that is not ended is not counted. -/
def recordedPassesFrom : List Cmd → Option RecordedPass → List RecordedPass
  | [], _ => []
  | c :: cmds, current =>
    match c, current with
    | Cmd.vkCmdBeginRenderPass pRenderPassBegin _, _ =>
        recordedPassesFrom cmds (some { beginInfo := pRenderPassBegin, body := [] })
    | Cmd.vkCmdEndRenderPass, some pass => pass :: recordedPassesFrom cmds none
    | c, some pass => recordedPassesFrom cmds (some { pass with body := pass.body ++ [c] })
    | _, none => recordedPassesFrom cmds none

/-- The render passes of a command stream, in order. -/
def recordedPasses (cmds : List Cmd) : List RecordedPass :=
  recordedPassesFrom cmds none

/-- What is in force when a draw is recorded: the pipeline last bound and the
arguments (first index, array) of the last set-viewport and set-scissor
commands. -/
structure DrawState where
  pipeline : Option Nat := none
  viewport : Option (Nat × List VkViewport) := none
  scissor : Option (Nat × List VkRect2D) := none
  deriving DecidableEq, Repr

/-- The draws of the rest of a pass, each with the state in force when it is
recorded.  The draws are `vkCmdDraw`, `vkCmdDrawIndexed` and the scene draw;
the overlay draw of the base class sets up its own state and is not one. -/
def recordedDrawsFrom : List Cmd → DrawState → List (DrawState × Cmd)
  | [], _ => []
  | c :: cmds, st =>
    match c with
    | Cmd.vkCmdBindPipeline _ pipeline => recordedDrawsFrom cmds { st with pipeline := some pipeline }
    | Cmd.vkCmdSetViewport firstViewport pViewports =>
        recordedDrawsFrom cmds { st with viewport := some (firstViewport, pViewports) }
    | Cmd.vkCmdSetScissor firstScissor pScissors =>
        recordedDrawsFrom cmds { st with scissor := some (firstScissor, pScissors) }
    | Cmd.vkCmdDraw _ _ _ _ => (st, c) :: recordedDrawsFrom cmds st
    | Cmd.vkCmdDrawIndexed _ _ _ _ => (st, c) :: recordedDrawsFrom cmds st
    | Cmd.scene_draw _ _ => (st, c) :: recordedDrawsFrom cmds st
    | _ => recordedDrawsFrom cmds st

/-- The draws of the body of a pass, each with the state in force when it is
recorded. -/
def recordedDraws (body : List Cmd) : List (DrawState × Cmd) :=
  recordedDrawsFrom body {}

/-- Whether a command is an explicit synchronization command: a pipeline
barrier or an event set, reset or wait. -/
def Cmd.isSynchronization : Cmd → Bool
  | Cmd.vkCmdPipelineBarrier _ _ => true
  | Cmd.vkCmdSetEvent _ _ => true
  | Cmd.vkCmdResetEvent _ _ => true
  | Cmd.vkCmdWaitEvents _ _ _ => true
  | _ => false

/-- Whether a command is a render-pass begin or end, a set-viewport, a
set-scissor, a pipeline bind, a descriptor-set bind, a `vkCmdDraw`, the scene
draw or the overlay draw. -/
def Cmd.isPassCommand : Cmd → Bool
  | Cmd.vkCmdBeginRenderPass _ _ => true
  | Cmd.vkCmdEndRenderPass => true
  | Cmd.vkCmdSetViewport _ _ => true
  | Cmd.vkCmdSetScissor _ _ => true
  | Cmd.vkCmdBindPipeline _ _ => true
  | Cmd.vkCmdBindDescriptorSets _ _ _ _ _ => true
  | Cmd.vkCmdDraw _ _ _ _ => true
  | Cmd.scene_draw _ _ => true
  | Cmd.drawUI => true
  | _ => false

/-- The functions `render` calls. -/
inductive FrameCall where
  | prepareFrame
  | updateUniformBuffers
  | buildCommandBuffer
  | submitFrame
  deriving DecidableEq, Repr

/-- A step of a frame: a call made by `render`, with the frame slot
(`currentBuffer`) at the time of the call. -/
structure FrameStep where
  call : FrameCall
  currentBuffer : Nat
  deriving DecidableEq, Repr

/-- Whether a step is the acquire (`prepareFrame`) or the submit of a frame. -/
def FrameStep.isAcquireOrSubmit (step : FrameStep) : Bool :=
  match step.call with
  | FrameCall.prepareFrame => true
  | FrameCall.submitFrame => true
  | _ => false

/-- What the calls of `render` leave outside the program state: the steps
taken, in order, and the command buffers recorded, each with its commands. -/
structure FrameLog where
  steps : List FrameStep := []
  recorded : List (Nat × List Cmd) := []
  deriving DecidableEq, Repr

/-- A widget an example declares on the overlay. -/
inductive UICall where
  | header (caption : String)
  | checkBox (caption : String)
  | sliderFloat (caption : String) (min max : F32)
  deriving DecidableEq, Repr

/-- The caption, the minimum and the maximum of a slider. -/
def UICall.slider : UICall → Option (String × F32 × F32)
  | UICall.sliderFloat caption min max => some (caption, min, max)
  | _ => none

/-- Modelled from the spec: `vks::UIOverlay` of the base library, which is not
among the sources, the "debug overlay" that "exposes settable fields for the
UI-adjustable tunables".  `header` tells whether the section of that caption is
open; `checkBox` and `sliderFloat` tell the value the user leaves in the field
a widget points to, from the caption and the value before (and, for a slider,
its minimum and maximum). -/
structure vks.UIOverlay where
  header : String → Bool
  checkBox : String → Int → Int
  sliderFloat : String → F32 → F32 → F32 → F32

/-- A render pass as the base class sets it up for the swap chain: one subpass
with one colour attachment (the presentable image) and a depth attachment.
Sample data: the base class is not among the sources. -/
def sampleSwapChainRenderPass : VkRenderPassCreateInfo :=
  { pAttachments :=
      [ { format := VK_FORMAT_R8G8B8A8_UNORM, samples := VK_SAMPLE_COUNT_1_BIT,
          loadOp := VK_ATTACHMENT_LOAD_OP_CLEAR },
        { format := VK_FORMAT_D32_SFLOAT_S8_UINT, samples := VK_SAMPLE_COUNT_1_BIT,
          loadOp := VK_ATTACHMENT_LOAD_OP_CLEAR } ],
    pSubpasses :=
      [ { pColorAttachments := [{ attachment := 0, layout := VK_IMAGE_LAYOUT_COLOR_ATTACHMENT_OPTIMAL }],
          pDepthStencilAttachment :=
            some { attachment := 1, layout := VK_IMAGE_LAYOUT_DEPTH_STENCIL_ATTACHMENT_OPTIMAL } } ] }

/-! ## Objects created and released -/

/-- The kinds of object the examples create on the device. -/
inductive ObjectKind where
  | image
  | memory
  | imageView
  | renderPass
  | framebuffer
  | sampler
  | descriptorPool
  | descriptorSetLayout
  | descriptorSet
  | pipelineLayout
  | pipeline
  | shaderModule
  | buffer
  deriving DecidableEq, Repr

/-- The kind of object a call creates, if it creates one. -/
def Call.kind : Call → Option ObjectKind
  | Call.vkCreateImage _ => some ObjectKind.image
  | Call.vkAllocateMemory _ _ => some ObjectKind.memory
  | Call.vkCreateImageView _ => some ObjectKind.imageView
  | Call.vkCreateRenderPass _ => some ObjectKind.renderPass
  | Call.vkCreateFramebuffer _ => some ObjectKind.framebuffer
  | Call.vkCreateSampler _ => some ObjectKind.sampler
  | Call.vkCreateDescriptorPool _ => some ObjectKind.descriptorPool
  | Call.vkCreateDescriptorSetLayout _ => some ObjectKind.descriptorSetLayout
  | Call.vkAllocateDescriptorSets _ => some ObjectKind.descriptorSet
  | Call.vkCreatePipelineLayout _ => some ObjectKind.pipelineLayout
  | Call.vkCreateGraphicsPipelines _ _ => some ObjectKind.pipeline
  | Call.loadShader _ _ => some ObjectKind.shaderModule
  | Call.createBuffer _ _ _ => some ObjectKind.buffer
  | Call.vkBindImageMemory _ _ _ => none
  | Call.vkUpdateDescriptorSets _ => none
  | Call.base => none

/-- The handles of the objects of kind `kind` that the calls `calls` create,
when the first of the calls returns handle `h`. -/
def createdFrom (kind : ObjectKind) : List Call → Nat → List Nat
  | [], _ => []
  | c :: calls, h =>
    if c.kind = some kind then h :: createdFrom kind calls (h + 1)
    else createdFrom kind calls (h + 1)

/-- The handles of the objects of kind `kind` created by the calls that take
the log `before` to the later log `after`, oldest first. -/
def Device.created (before after : Device) (kind : ObjectKind) : List Nat :=
  createdFrom kind (after.drop before.length) (before.length + 1)

/-- A call that releases an object of the device.  `Buffer_destroy` is
`vks::Buffer::destroy` of the base library, which releases the buffer with its
memory. -/
inductive Release where
  | vkDestroySampler (sampler : Nat)
  | vkDestroyImage (image : Nat)
  | vkDestroyImageView (imageView : Nat)
  | vkFreeMemory (memory : Nat)
  | vkDestroyFramebuffer (framebuffer : Nat)
  | vkDestroyRenderPass (renderPass : Nat)
  | vkDestroyPipeline (pipeline : Nat)
  | vkDestroyPipelineLayout (pipelineLayout : Nat)
  | vkDestroyDescriptorSetLayout (descriptorSetLayout : Nat)
  | Buffer_destroy (buffer : Nat)
  deriving DecidableEq, Repr

/-- The kind and the handle of the object a call releases. -/
def Release.object : Release → ObjectKind × Nat
  | Release.vkDestroySampler sampler => (ObjectKind.sampler, sampler)
  | Release.vkDestroyImage image => (ObjectKind.image, image)
  | Release.vkDestroyImageView imageView => (ObjectKind.imageView, imageView)
  | Release.vkFreeMemory memory => (ObjectKind.memory, memory)
  | Release.vkDestroyFramebuffer framebuffer => (ObjectKind.framebuffer, framebuffer)
  | Release.vkDestroyRenderPass renderPass => (ObjectKind.renderPass, renderPass)
  | Release.vkDestroyPipeline pipeline => (ObjectKind.pipeline, pipeline)
  | Release.vkDestroyPipelineLayout pipelineLayout => (ObjectKind.pipelineLayout, pipelineLayout)
  | Release.vkDestroyDescriptorSetLayout descriptorSetLayout =>
      (ObjectKind.descriptorSetLayout, descriptorSetLayout)
  | Release.Buffer_destroy buffer => (ObjectKind.buffer, buffer)

/-- The handles of the objects of kind `kind` that the calls `releases`
release, in order, one entry for each release. -/
def released (kind : ObjectKind) (releases : List Release) : List Nat :=
  releases.filterMap (fun r => if r.object.1 = kind then some r.object.2 else none)

/-- The create-info the sampler of handle `h` was created with. -/
def Device.samplerInfo (device : Device) (h : Nat) : Option VkSamplerCreateInfo :=
  match device.lookup h with
  | some (Call.vkCreateSampler pCreateInfo) => some pCreateInfo
  | _ => none

/-- The create-info the descriptor pool of handle `h` was created with. -/
def Device.descriptorPoolInfo (device : Device) (h : Nat) : Option VkDescriptorPoolCreateInfo :=
  match device.lookup h with
  | some (Call.vkCreateDescriptorPool pCreateInfo) => some pCreateInfo
  | _ => none

/-- The create-info the descriptor-set layout of handle `h` was created with. -/
def Device.descriptorSetLayoutInfo (device : Device) (h : Nat) :
    Option VkDescriptorSetLayoutCreateInfo :=
  match device.lookup h with
  | some (Call.vkCreateDescriptorSetLayout pCreateInfo) => some pCreateInfo
  | _ => none

/-- The allocate-info the descriptor set of handle `h` was allocated with. -/
def Device.descriptorSetInfo (device : Device) (h : Nat) : Option VkDescriptorSetAllocateInfo :=
  match device.lookup h with
  | some (Call.vkAllocateDescriptorSets pAllocateInfo) => some pAllocateInfo
  | _ => none

/-- The create-info the pipeline layout of handle `h` was created with. -/
def Device.pipelineLayoutInfo (device : Device) (h : Nat) : Option VkPipelineLayoutCreateInfo :=
  match device.lookup h with
  | some (Call.vkCreatePipelineLayout pCreateInfo) => some pCreateInfo
  | _ => none

/-- The usage flags, the memory property flags and the size the buffer of
handle `h` was created with. -/
def Device.bufferInfo (device : Device) (h : Nat) : Option (Nat × Nat × Nat) :=
  match device.lookup h with
  | some (Call.createBuffer usageFlags memoryPropertyFlags size) =>
      some (usageFlags, memoryPropertyFlags, size)
  | _ => none

/-- The allocate-info of a call that allocates descriptor sets. -/
def Call.allocateInfo : Call → Option VkDescriptorSetAllocateInfo
  | Call.vkAllocateDescriptorSets pAllocateInfo => some pAllocateInfo
  | _ => none

/-- The descriptor-set layouts of the sets the calls `calls` allocate from the
descriptor pool `pool`, one entry for each set, in order. -/
def allocatedLayouts (calls : List Call) (pool : Nat) : List Nat :=
  ((calls.filterMap Call.allocateInfo).filter (fun a => a.descriptorPool = pool)).flatMap
    (fun a => span a.descriptorSetCount a.pSetLayouts)

/-- The number of descriptors of type `type` that the bindings of a
descriptor-set layout declare. -/
def VkDescriptorSetLayoutCreateInfo.descriptors (info : VkDescriptorSetLayoutCreateInfo)
    (type : VkDescriptorType) : Nat :=
  ((info.pBindings.filter (fun b => b.descriptorType = type)).map
    (fun b => b.descriptorCount)).sum

/-- The number of descriptors of type `type` a set of the descriptor-set layout
of handle `layout` takes from its pool. -/
def Device.layoutDescriptors (device : Device) (layout : Nat) (type : VkDescriptorType) : Nat :=
  match device.descriptorSetLayoutInfo layout with
  | some info => info.descriptors type
  | none => 0

/-- The number of descriptors of type `type` a descriptor pool is created
for. -/
def VkDescriptorPoolCreateInfo.descriptors (info : VkDescriptorPoolCreateInfo)
    (type : VkDescriptorType) : Nat :=
  ((info.pPoolSizes.filter (fun p => p.type = type)).map (fun p => p.descriptorCount)).sum

/-- The pipeline layout, the first set index and the descriptor sets of a
command that binds descriptor sets. -/
def Cmd.descriptorBind : Cmd → Option (Nat × Nat × List Nat)
  | Cmd.vkCmdBindDescriptorSets _ layout firstSet pDescriptorSets _ =>
      some (layout, firstSet, pDescriptorSets)
  | _ => none

/-- The descriptor-set binds of a command stream, in order: pipeline layout,
first set index and descriptor sets of each. -/
def recordedBinds (cmds : List Cmd) : List (Nat × Nat × List Nat) :=
  cmds.filterMap Cmd.descriptorBind

/-- The image views a pass samples: those of the combined-image-sampler
descriptors written on the descriptor sets bound in the pass. -/
def Device.sampledViews (device : Device) (pass : RecordedPass) : List Nat :=
  (boundDescriptorSets pass.body).flatMap
    (fun set => (device.imageInputs set).map (fun x => x.2.imageView))

/-- The image views a pass renders to: the attachments of the framebuffer it is
begun with. -/
def Device.targetViews (device : Device) (pass : RecordedPass) : List Nat :=
  match device.framebufferInfo pass.beginInfo.framebuffer with
  | some info => info.pAttachments
  | none => []

/-- A call with the file name of a shader left out: `loadShader` keeps its
stage only. -/
def Call.withoutFileName : Call → Call
  | Call.loadShader _ stage => Call.loadShader "" stage
  | c => c

/-- The file name a call loads a shader from. -/
def Call.fileName : Call → Option String
  | Call.loadShader fileName _ => some fileName
  | _ => none

/-! ## `examples/gtao/gtao.cpp` -/

namespace GTAO

abbrev GTAO_DIRECTION_NUMS : Nat := 8
abbrev GTAO_STEP_NUMS : Nat := 6

/-- `struct UBOSceneParams`. -/
structure UBOSceneParams where
  projection : glm.mat4
  model : glm.mat4
  view : glm.mat4
  nearPlane : F32 := F32.lit 1 10
  farPlane : F32 := F32.lit 64 1
  deriving DecidableEq, Repr

/-- `struct UBOGTAOParams`. -/
structure UBOGTAOParams where
  projection : glm.mat4
  gtao : Int := 1
  gtaoOnly : Int := 0
  gtaoBlur : Int := 1
  deriving DecidableEq, Repr

/-- `struct UBOGTAOSettings`. -/
structure UBOGTAOSettings where
  radius : F32 := F32.lit 8 10
  intensity : F32 := F32.lit 4 10
  bias : F32 := F32.lit 5 1000
  pad : F32 := F32.lit 0 1
  deriving DecidableEq, Repr

/-- `sizeof(uboSceneParams)`: three matrices of 16 floats and two floats. -/
abbrev sizeof_uboSceneParams : Nat := 3 * 64 + 4 + 4

/-- `sizeof(uboGTAOParams)`: one matrix of 16 floats and three `int32_t`. -/
abbrev sizeof_uboGTAOParams : Nat := 64 + 3 * 4

/-- `sizeof(uboGTAOSettings)`: four floats. -/
abbrev sizeof_uboGTAOSettings : Nat := 4 * 4

/-- The anonymous struct of `pipelineLayouts`. -/
structure PipelineLayouts where
  gBuffer : Nat := 0
  gtao : Nat := 0
  gtaoBlur : Nat := 0
  composition : Nat := 0
  deriving DecidableEq, Repr

/-- The anonymous struct of `pipelines`. -/
structure Pipelines where
  offscreen : Nat := 0
  composition : Nat := 0
  gtao : Nat := 0
  gtaoBlur : Nat := 0
  deriving DecidableEq, Repr

/-- The anonymous struct of `descriptorSetLayouts`. -/
structure DescriptorSetLayouts where
  gBuffer : Nat := 0
  gtao : Nat := 0
  gtaoBlur : Nat := 0
  composition : Nat := 0
  deriving DecidableEq, Repr

/-- `struct DescriptorSets`. -/
structure DescriptorSets where
  gBuffer : Nat := 0
  gtao : Nat := 0
  gtaoBlur : Nat := 0
  composition : Nat := 0
  deriving DecidableEq, Repr

/-- `struct UniformBuffers`. -/
structure UniformBuffers where
  sceneParams : vks.Buffer UBOSceneParams := {}
  gtaoSettings : vks.Buffer UBOGTAOSettings := {}
  gtaoParams : vks.Buffer UBOGTAOParams := {}

/-- `struct FrameBufferAttachment`. -/
structure FrameBufferAttachment where
  image : Nat := 0
  mem : Nat := 0
  view : Nat := 0
  format : VkFormat := VK_FORMAT_UNDEFINED
  deriving DecidableEq, Repr

/-- `struct FrameBuffer`. -/
structure FrameBuffer where
  width : Int := 0
  height : Int := 0
  frameBuffer : Nat := 0
  renderPass : Nat := 0
  deriving DecidableEq, Repr

/-- `FrameBuffer::setSize`. -/
def FrameBuffer.setSize (this : FrameBuffer) (w h : Int) : FrameBuffer :=
  { this with width := w, height := h }

/-- `struct Offscreen : public FrameBuffer`. -/
structure Offscreen extends FrameBuffer where
  position : FrameBufferAttachment := {}
  normal : FrameBufferAttachment := {}
  albedo : FrameBufferAttachment := {}
  depth : FrameBufferAttachment := {}
  deriving DecidableEq, Repr

/-- `struct HBAO : public FrameBuffer` (the name is the one `gtao.cpp` uses). -/
structure HBAO extends FrameBuffer where
  color : FrameBufferAttachment := {}
  deriving DecidableEq, Repr

/-- The anonymous struct of `frameBuffers`. -/
structure FrameBuffers where
  offscreen : Offscreen := {}
  gtao : HBAO := {}
  gtaoBlur : HBAO := {}
  deriving DecidableEq, Repr

/-- The state of `class VulkanExample`.  The first group of fields is the
compile-time configuration and the members inherited from `VulkanExampleBase`
(`frameBuffers` of the base class is `swapChainFrameBuffers`;
`supportedDepthFormat` is what `vks::tools::getSupportedDepthFormat` finds on
the physical device; `descriptorSetLayoutImage` is the global of the glTF
loader).  A `std::array` over the frames in flight is a function of the slot
index; its valid indices are those below `maxConcurrentFrames`. -/
structure VulkanExample where
  ANDROID : Bool
  maxConcurrentFrames : Nat
  device : Device
  supportedDepthFormat : Option VkFormat
  width : Nat
  height : Nat
  prepared : Bool := false
  currentBuffer : Nat := 0
  currentImageIndex : Nat := 0
  renderPass : Nat
  swapChainFrameBuffers : Nat → Nat
  drawCmdBuffers : Nat → Nat
  pipelineCache : Nat
  descriptorPool : Nat := 0
  descriptorSetLayoutImage : Nat
  shadersPath : String
  defaultClearColor : VkClearValue
  camera : Camera
  uboSceneParams : UBOSceneParams
  uboGTAOParams : UBOGTAOParams
  uboGTAOSettings : UBOGTAOSettings := {}
  pipelineLayouts : PipelineLayouts := {}
  pipelines : Pipelines := {}
  descriptorSetLayouts : DescriptorSetLayouts := {}
  descriptorSets : Nat → DescriptorSets := fun _ => {}
  uniformBuffers : Nat → UniformBuffers := fun _ => {}
  frameBuffers : FrameBuffers := {}
  colorSampler : Nat := 0

/-- `VulkanExample::createAttachment`.  The attachment written through the
pointer parameter is returned; a failing `assert` gives `none`. -/
def createAttachment (device : Device) (format : VkFormat) (usage : Nat) (width height : Nat) :
    Option (Device × FrameBufferAttachment) :=
  let aspectMask : Nat := 0
  let aspectMask :=
    if usage &&& VK_IMAGE_USAGE_COLOR_ATTACHMENT_BIT ≠ 0 then VK_IMAGE_ASPECT_COLOR_BIT
    else aspectMask
  let aspectMask :=
    if usage &&& VK_IMAGE_USAGE_DEPTH_STENCIL_ATTACHMENT_BIT ≠ 0 then
      (if format ≥ VK_FORMAT_D16_UNORM_S8_UINT then
        VK_IMAGE_ASPECT_DEPTH_BIT ||| VK_IMAGE_ASPECT_STENCIL_BIT
      else VK_IMAGE_ASPECT_DEPTH_BIT)
    else aspectMask
  if aspectMask > 0 then
    let image : VkImageCreateInfo :=
      { imageType := VK_IMAGE_TYPE_2D, format := format,
        extent := { width := width, height := height, depth := 1 },
        mipLevels := 1, arrayLayers := 1, samples := VK_SAMPLE_COUNT_1_BIT,
        tiling := VK_IMAGE_TILING_OPTIMAL, usage := usage ||| VK_IMAGE_USAGE_SAMPLED_BIT }
    let r := device.call (Call.vkCreateImage image)
    let device := r.1
    let attachment_image := r.2
    let r := device.call (Call.vkAllocateMemory attachment_image VK_MEMORY_PROPERTY_DEVICE_LOCAL_BIT)
    let device := r.1
    let attachment_mem := r.2
    let device := (device.call (Call.vkBindImageMemory attachment_image attachment_mem 0)).1
    let imageView : VkImageViewCreateInfo :=
      { viewType := VK_IMAGE_VIEW_TYPE_2D, format := format,
        subresourceRange := { aspectMask := aspectMask, baseMipLevel := 0, levelCount := 1,
                              baseArrayLayer := 0, layerCount := 1 },
        image := attachment_image }
    let r := device.call (Call.vkCreateImageView imageView)
    some (r.1, { image := attachment_image, mem := attachment_mem, view := r.2, format := format })
  else none

/-- The block `// G-Buffer creation` of `prepareOffscreenFramebuffers`: the
create-info handed to `vkCreateRenderPass`.  The parameters are the four
attachments of `frameBuffers.offscreen`, whose formats the block reads. -/
def gBufferRenderPassInfo (position normal albedo depth : FrameBufferAttachment) :
    VkRenderPassCreateInfo :=
  let attachmentDescs : List VkAttachmentDescription := List.replicate 4 {}
  let attachmentDescs := (List.range 4).foldl (fun descs i =>
    descs.modify (fun d => { d with
      samples := VK_SAMPLE_COUNT_1_BIT,
      loadOp := VK_ATTACHMENT_LOAD_OP_CLEAR,
      storeOp := VK_ATTACHMENT_STORE_OP_STORE,
      stencilLoadOp := VK_ATTACHMENT_LOAD_OP_DONT_CARE,
      stencilStoreOp := VK_ATTACHMENT_STORE_OP_DONT_CARE,
      finalLayout := if i = 3 then VK_IMAGE_LAYOUT_DEPTH_STENCIL_READ_ONLY_OPTIMAL
                     else VK_IMAGE_LAYOUT_SHADER_READ_ONLY_OPTIMAL }) i) attachmentDescs
  let attachmentDescs := attachmentDescs.modify
    (fun d => { d with format := position.format }) 0
  let attachmentDescs := attachmentDescs.modify
    (fun d => { d with format := normal.format }) 1
  let attachmentDescs := attachmentDescs.modify
    (fun d => { d with format := albedo.format }) 2
  let attachmentDescs := attachmentDescs.modify
    (fun d => { d with format := depth.format }) 3
  let colorReferences : List VkAttachmentReference := []
  let colorReferences := colorReferences ++ [{ attachment := 0, layout := VK_IMAGE_LAYOUT_COLOR_ATTACHMENT_OPTIMAL }]
  let colorReferences := colorReferences ++ [{ attachment := 1, layout := VK_IMAGE_LAYOUT_COLOR_ATTACHMENT_OPTIMAL }]
  let colorReferences := colorReferences ++ [{ attachment := 2, layout := VK_IMAGE_LAYOUT_COLOR_ATTACHMENT_OPTIMAL }]
  let depthReference : VkAttachmentReference :=
    { attachment := 3, layout := VK_IMAGE_LAYOUT_DEPTH_STENCIL_ATTACHMENT_OPTIMAL }
  let subpass : VkSubpassDescription :=
    { pipelineBindPoint := VK_PIPELINE_BIND_POINT_GRAPHICS,
      pColorAttachments := span colorReferences.length colorReferences,
      pDepthStencilAttachment := some depthReference }
  let dependencies : List VkSubpassDependency :=
    [ { srcSubpass := VK_SUBPASS_EXTERNAL,
        dstSubpass := 0,
        srcStageMask := VK_PIPELINE_STAGE_EARLY_FRAGMENT_TESTS_BIT ||| VK_PIPELINE_STAGE_LATE_FRAGMENT_TESTS_BIT,
        dstStageMask := VK_PIPELINE_STAGE_EARLY_FRAGMENT_TESTS_BIT ||| VK_PIPELINE_STAGE_LATE_FRAGMENT_TESTS_BIT,
        srcAccessMask := VK_ACCESS_DEPTH_STENCIL_ATTACHMENT_WRITE_BIT,
        dstAccessMask := VK_ACCESS_DEPTH_STENCIL_ATTACHMENT_WRITE_BIT ||| VK_ACCESS_DEPTH_STENCIL_ATTACHMENT_READ_BIT,
        dependencyFlags := 0 },
      { srcSubpass := VK_SUBPASS_EXTERNAL,
        dstSubpass := 0,
        srcStageMask := VK_PIPELINE_STAGE_FRAGMENT_SHADER_BIT,
        dstStageMask := VK_PIPELINE_STAGE_COLOR_ATTACHMENT_OUTPUT_BIT,
        srcAccessMask := VK_ACCESS_SHADER_READ_BIT,
        dstAccessMask := VK_ACCESS_COLOR_ATTACHMENT_WRITE_BIT,
        dependencyFlags := VK_DEPENDENCY_BY_REGION_BIT },
      { srcSubpass := 0,
        dstSubpass := VK_SUBPASS_EXTERNAL,
        srcStageMask := VK_PIPELINE_STAGE_COLOR_ATTACHMENT_OUTPUT_BIT,
        dstStageMask := VK_PIPELINE_STAGE_FRAGMENT_SHADER_BIT,
        srcAccessMask := VK_ACCESS_COLOR_ATTACHMENT_WRITE_BIT,
        dstAccessMask := VK_ACCESS_SHADER_READ_BIT,
        dependencyFlags := VK_DEPENDENCY_BY_REGION_BIT } ]
  { pAttachments := span attachmentDescs.length attachmentDescs,
    pSubpasses := span 1 [subpass],
    pDependencies := span 2 dependencies }

/-- The block `// GTAO` of `prepareOffscreenFramebuffers`: the create-info
handed to `vkCreateRenderPass`.  The parameter is `frameBuffers.gtao.color`. -/
def gtaoRenderPassInfo (color : FrameBufferAttachment) : VkRenderPassCreateInfo :=
  let attachmentDescription : VkAttachmentDescription :=
    { format := color.format,
      samples := VK_SAMPLE_COUNT_1_BIT,
      loadOp := VK_ATTACHMENT_LOAD_OP_CLEAR,
      storeOp := VK_ATTACHMENT_STORE_OP_STORE,
      stencilLoadOp := VK_ATTACHMENT_LOAD_OP_DONT_CARE,
      stencilStoreOp := VK_ATTACHMENT_STORE_OP_DONT_CARE,
      initialLayout := VK_IMAGE_LAYOUT_UNDEFINED,
      finalLayout := VK_IMAGE_LAYOUT_SHADER_READ_ONLY_OPTIMAL }
  let colorReference : VkAttachmentReference :=
    { attachment := 0, layout := VK_IMAGE_LAYOUT_COLOR_ATTACHMENT_OPTIMAL }
  let subpass : VkSubpassDescription :=
    { pipelineBindPoint := VK_PIPELINE_BIND_POINT_GRAPHICS,
      pColorAttachments := span 1 [colorReference] }
  let dependencies : List VkSubpassDependency :=
    [ { srcSubpass := VK_SUBPASS_EXTERNAL,
        dstSubpass := 0,
        srcStageMask := VK_PIPELINE_STAGE_BOTTOM_OF_PIPE_BIT,
        dstStageMask := VK_PIPELINE_STAGE_COLOR_ATTACHMENT_OUTPUT_BIT,
        srcAccessMask := VK_ACCESS_MEMORY_READ_BIT,
        dstAccessMask := VK_ACCESS_COLOR_ATTACHMENT_READ_BIT ||| VK_ACCESS_COLOR_ATTACHMENT_WRITE_BIT,
        dependencyFlags := VK_DEPENDENCY_BY_REGION_BIT },
      { srcSubpass := 0,
        dstSubpass := VK_SUBPASS_EXTERNAL,
        srcStageMask := VK_PIPELINE_STAGE_COLOR_ATTACHMENT_OUTPUT_BIT,
        dstStageMask := VK_PIPELINE_STAGE_BOTTOM_OF_PIPE_BIT,
        srcAccessMask := VK_ACCESS_COLOR_ATTACHMENT_READ_BIT ||| VK_ACCESS_COLOR_ATTACHMENT_WRITE_BIT,
        dstAccessMask := VK_ACCESS_MEMORY_READ_BIT,
        dependencyFlags := VK_DEPENDENCY_BY_REGION_BIT } ]
  { pAttachments := span 1 [attachmentDescription],
    pSubpasses := span 1 [subpass],
    pDependencies := span 2 dependencies }

/-- The block `// GTAO Blur` of `prepareOffscreenFramebuffers`: the create-info
handed to `vkCreateRenderPass`.  The parameter is `frameBuffers.gtaoBlur.color`. -/
def gtaoBlurRenderPassInfo (color : FrameBufferAttachment) : VkRenderPassCreateInfo :=
  let attachmentDescription : VkAttachmentDescription :=
    { format := color.format,
      samples := VK_SAMPLE_COUNT_1_BIT,
      loadOp := VK_ATTACHMENT_LOAD_OP_CLEAR,
      storeOp := VK_ATTACHMENT_STORE_OP_STORE,
      stencilLoadOp := VK_ATTACHMENT_LOAD_OP_DONT_CARE,
      stencilStoreOp := VK_ATTACHMENT_STORE_OP_DONT_CARE,
      initialLayout := VK_IMAGE_LAYOUT_UNDEFINED,
      finalLayout := VK_IMAGE_LAYOUT_SHADER_READ_ONLY_OPTIMAL }
  let colorReference : VkAttachmentReference :=
    { attachment := 0, layout := VK_IMAGE_LAYOUT_COLOR_ATTACHMENT_OPTIMAL }
  let subpass : VkSubpassDescription :=
    { pipelineBindPoint := VK_PIPELINE_BIND_POINT_GRAPHICS,
      pColorAttachments := span 1 [colorReference] }
  let dependencies : List VkSubpassDependency :=
    [ { srcSubpass := VK_SUBPASS_EXTERNAL,
        dstSubpass := 0,
        srcStageMask := VK_PIPELINE_STAGE_BOTTOM_OF_PIPE_BIT,
        dstStageMask := VK_PIPELINE_STAGE_COLOR_ATTACHMENT_OUTPUT_BIT,
        srcAccessMask := VK_ACCESS_MEMORY_READ_BIT,
        dstAccessMask := VK_ACCESS_COLOR_ATTACHMENT_READ_BIT ||| VK_ACCESS_COLOR_ATTACHMENT_WRITE_BIT,
        dependencyFlags := VK_DEPENDENCY_BY_REGION_BIT },
      { srcSubpass := 0,
        dstSubpass := VK_SUBPASS_EXTERNAL,
        srcStageMask := VK_PIPELINE_STAGE_COLOR_ATTACHMENT_OUTPUT_BIT,
        dstStageMask := VK_PIPELINE_STAGE_BOTTOM_OF_PIPE_BIT,
        srcAccessMask := VK_ACCESS_COLOR_ATTACHMENT_READ_BIT ||| VK_ACCESS_COLOR_ATTACHMENT_WRITE_BIT,
        dstAccessMask := VK_ACCESS_MEMORY_READ_BIT,
        dependencyFlags := VK_DEPENDENCY_BY_REGION_BIT } ]
  { pAttachments := span 1 [attachmentDescription],
    pSubpasses := span 1 [subpass],
    pDependencies := span 2 dependencies }

/-- `VulkanExample::prepareOffscreenFramebuffers`.  With `__ANDROID__` defined
the source declares `hbaoWidth` and `hbaoHeight`, and the `gtaoWidth` and
`gtaoHeight` it goes on to use are not declared: in that configuration there is
no result.  A failing `assert` gives no result either.  Every member of
`frameBuffers` is assigned once; the local `offscreen_position` stands for
`frameBuffers.offscreen.position`, and so on. -/
def prepareOffscreenFramebuffers (s : VulkanExample) : Option VulkanExample := do
  let size ← if s.ANDROID then none else some (s.width, s.height)
  let gtaoWidth := size.1
  let gtaoHeight := size.2
  let offscreen_size : FrameBuffer := s.frameBuffers.offscreen.toFrameBuffer.setSize (toInt32 s.width) (toInt32 s.height)
  let gtao_size : FrameBuffer := s.frameBuffers.gtao.toFrameBuffer.setSize (toInt32 gtaoWidth) (toInt32 gtaoHeight)
  let gtaoBlur_size : FrameBuffer := s.frameBuffers.gtaoBlur.toFrameBuffer.setSize (toInt32 s.width) (toInt32 s.height)
  -- Find a suitable depth format
  let attDepthFormat ← s.supportedDepthFormat
  -- G-Buffer
  let r ← createAttachment s.device VK_FORMAT_R32G32B32A32_SFLOAT VK_IMAGE_USAGE_COLOR_ATTACHMENT_BIT s.width s.height
  let offscreen_position := r.2
  let r ← createAttachment r.1 VK_FORMAT_R8G8B8A8_UNORM VK_IMAGE_USAGE_COLOR_ATTACHMENT_BIT s.width s.height
  let offscreen_normal := r.2
  let r ← createAttachment r.1 VK_FORMAT_R8G8B8A8_UNORM VK_IMAGE_USAGE_COLOR_ATTACHMENT_BIT s.width s.height
  let offscreen_albedo := r.2
  let r ← createAttachment r.1 attDepthFormat VK_IMAGE_USAGE_DEPTH_STENCIL_ATTACHMENT_BIT s.width s.height
  let offscreen_depth := r.2
  -- GTAO
  let r ← createAttachment r.1 VK_FORMAT_R8_UNORM VK_IMAGE_USAGE_COLOR_ATTACHMENT_BIT gtaoWidth gtaoHeight
  let gtao_color := r.2
  -- GTAO blur
  let r ← createAttachment r.1 VK_FORMAT_R8_UNORM VK_IMAGE_USAGE_COLOR_ATTACHMENT_BIT s.width s.height
  let gtaoBlur_color := r.2
  -- G-Buffer creation
  let r := r.1.call (Call.vkCreateRenderPass
    (gBufferRenderPassInfo offscreen_position offscreen_normal offscreen_albedo offscreen_depth))
  let offscreen_renderPass := r.2
  let attachments : List Nat :=
    [ offscreen_position.view, offscreen_normal.view, offscreen_albedo.view, offscreen_depth.view ]
  let fbufCreateInfo : VkFramebufferCreateInfo :=
    { renderPass := offscreen_renderPass,
      pAttachments := span attachments.length attachments,
      width := toUInt32 offscreen_size.width,
      height := toUInt32 offscreen_size.height,
      layers := 1 }
  let r := r.1.call (Call.vkCreateFramebuffer fbufCreateInfo)
  let offscreen_frameBuffer := r.2
  -- GTAO
  let r := r.1.call (Call.vkCreateRenderPass (gtaoRenderPassInfo gtao_color))
  let gtao_renderPass := r.2
  let fbufCreateInfo : VkFramebufferCreateInfo :=
    { renderPass := gtao_renderPass,
      pAttachments := span 1 [gtao_color.view],
      width := toUInt32 gtao_size.width,
      height := toUInt32 gtao_size.height,
      layers := 1 }
  let r := r.1.call (Call.vkCreateFramebuffer fbufCreateInfo)
  let gtao_frameBuffer := r.2
  -- GTAO Blur
  let r := r.1.call (Call.vkCreateRenderPass (gtaoBlurRenderPassInfo gtaoBlur_color))
  let gtaoBlur_renderPass := r.2
  let fbufCreateInfo : VkFramebufferCreateInfo :=
    { renderPass := gtaoBlur_renderPass,
      pAttachments := span 1 [gtaoBlur_color.view],
      width := toUInt32 gtaoBlur_size.width,
      height := toUInt32 gtaoBlur_size.height,
      layers := 1 }
  let r := r.1.call (Call.vkCreateFramebuffer fbufCreateInfo)
  let gtaoBlur_frameBuffer := r.2
  -- Shared sampler used for all color attachments
  let sampler : VkSamplerCreateInfo :=
    { magFilter := VK_FILTER_NEAREST,
      minFilter := VK_FILTER_NEAREST,
      mipmapMode := VK_SAMPLER_MIPMAP_MODE_LINEAR,
      addressModeU := VK_SAMPLER_ADDRESS_MODE_CLAMP_TO_EDGE,
      addressModeV := VK_SAMPLER_ADDRESS_MODE_CLAMP_TO_EDGE,
      addressModeW := VK_SAMPLER_ADDRESS_MODE_CLAMP_TO_EDGE,
      mipLodBias := F32.lit 0 1,
      maxAnisotropy := F32.lit 1 1,
      minLod := F32.lit 0 1,
      maxLod := F32.lit 1 1,
      borderColor := VK_BORDER_COLOR_FLOAT_OPAQUE_WHITE }
  let r := r.1.call (Call.vkCreateSampler sampler)
  some { s with
    device := r.1,
    frameBuffers :=
      { offscreen :=
          { width := offscreen_size.width, height := offscreen_size.height,
            frameBuffer := offscreen_frameBuffer, renderPass := offscreen_renderPass,
            position := offscreen_position, normal := offscreen_normal,
            albedo := offscreen_albedo, depth := offscreen_depth },
        gtao :=
          { width := gtao_size.width, height := gtao_size.height,
            frameBuffer := gtao_frameBuffer, renderPass := gtao_renderPass,
            color := gtao_color },
        gtaoBlur :=
          { width := gtaoBlur_size.width, height := gtaoBlur_size.height,
            frameBuffer := gtaoBlur_frameBuffer, renderPass := gtaoBlur_renderPass,
            color := gtaoBlur_color } },
    colorSampler := r.2 }

/-- `VulkanExample::setupDescriptors`, the body of the loop over the frames in
flight, for frame `i`.  `descriptorAllocInfo` and the five image descriptors
are the locals the loop reads. -/
def setupDescriptorsFrame (descriptorAllocInfo : VkDescriptorSetAllocateInfo)
    (positionImgDescriptor normalImgDescriptor albedoImgDescriptor gtaoImgDescriptor
      gtaoBlurImgDescriptor : VkDescriptorImageInfo)
    (s : VulkanExample) (i : Nat) : VulkanExample :=
  -- G-Buffer creation (offscreen scene rendering)
  let r := s.device.call (Call.vkAllocateDescriptorSets
    { descriptorAllocInfo with pSetLayouts := [s.descriptorSetLayouts.gBuffer] })
  let descriptorSets_gBuffer := r.2
  let writeDescriptorSets : List VkWriteDescriptorSet :=
    [ vks.initializers.writeDescriptorSet descriptorSets_gBuffer VK_DESCRIPTOR_TYPE_UNIFORM_BUFFER 0 (s.uniformBuffers i).sceneParams.descriptor ]
  let r := r.1.call (Call.vkUpdateDescriptorSets (span writeDescriptorSets.length writeDescriptorSets))
  -- GTAO Generation
  let r := r.1.call (Call.vkAllocateDescriptorSets
    { descriptorAllocInfo with pSetLayouts := [s.descriptorSetLayouts.gtao] })
  let descriptorSets_gtao := r.2
  let writeDescriptorSets : List VkWriteDescriptorSet :=
    [ vks.initializers.writeDescriptorSetImage descriptorSets_gtao VK_DESCRIPTOR_TYPE_COMBINED_IMAGE_SAMPLER 0 positionImgDescriptor,
      vks.initializers.writeDescriptorSetImage descriptorSets_gtao VK_DESCRIPTOR_TYPE_COMBINED_IMAGE_SAMPLER 1 normalImgDescriptor,
      vks.initializers.writeDescriptorSet descriptorSets_gtao VK_DESCRIPTOR_TYPE_UNIFORM_BUFFER 2 (s.uniformBuffers i).gtaoSettings.descriptor,
      vks.initializers.writeDescriptorSet descriptorSets_gtao VK_DESCRIPTOR_TYPE_UNIFORM_BUFFER 3 (s.uniformBuffers i).gtaoParams.descriptor ]
  let r := r.1.call (Call.vkUpdateDescriptorSets (span writeDescriptorSets.length writeDescriptorSets))
  -- GTAO Blur
  let r := r.1.call (Call.vkAllocateDescriptorSets
    { descriptorAllocInfo with pSetLayouts := [s.descriptorSetLayouts.gtaoBlur] })
  let descriptorSets_gtaoBlur := r.2
  let writeDescriptorSets : List VkWriteDescriptorSet :=
    [ vks.initializers.writeDescriptorSetImage descriptorSets_gtaoBlur VK_DESCRIPTOR_TYPE_COMBINED_IMAGE_SAMPLER 0 gtaoImgDescriptor ]
  let r := r.1.call (Call.vkUpdateDescriptorSets (span writeDescriptorSets.length writeDescriptorSets))
  -- Composition
  let r := r.1.call (Call.vkAllocateDescriptorSets
    { descriptorAllocInfo with pSetLayouts := [s.descriptorSetLayouts.composition] })
  let descriptorSets_composition := r.2
  let writeDescriptorSets : List VkWriteDescriptorSet :=
    [ vks.initializers.writeDescriptorSetImage descriptorSets_composition VK_DESCRIPTOR_TYPE_COMBINED_IMAGE_SAMPLER 0 positionImgDescriptor,
      vks.initializers.writeDescriptorSetImage descriptorSets_composition VK_DESCRIPTOR_TYPE_COMBINED_IMAGE_SAMPLER 1 normalImgDescriptor,
      vks.initializers.writeDescriptorSetImage descriptorSets_composition VK_DESCRIPTOR_TYPE_COMBINED_IMAGE_SAMPLER 2 albedoImgDescriptor,
      vks.initializers.writeDescriptorSetImage descriptorSets_composition VK_DESCRIPTOR_TYPE_COMBINED_IMAGE_SAMPLER 3 gtaoImgDescriptor,
      vks.initializers.writeDescriptorSetImage descriptorSets_composition VK_DESCRIPTOR_TYPE_COMBINED_IMAGE_SAMPLER 4 gtaoBlurImgDescriptor,
      vks.initializers.writeDescriptorSet descriptorSets_composition VK_DESCRIPTOR_TYPE_UNIFORM_BUFFER 5 (s.uniformBuffers i).gtaoParams.descriptor ]
  let r := r.1.call (Call.vkUpdateDescriptorSets (span writeDescriptorSets.length writeDescriptorSets))
  { s with
    device := r.1,
    descriptorSets := Function.update s.descriptorSets i
      { gBuffer := descriptorSets_gBuffer, gtao := descriptorSets_gtao,
        gtaoBlur := descriptorSets_gtaoBlur, composition := descriptorSets_composition } }

/-- `VulkanExample::setupDescriptors`.  The products by `maxConcurrentFrames`
are computed in `uint32_t`. -/
def setupDescriptors (s : VulkanExample) : VulkanExample :=
  -- Pool
  let poolSizes : List VkDescriptorPoolSize :=
    [ vks.initializers.descriptorPoolSize VK_DESCRIPTOR_TYPE_UNIFORM_BUFFER (s.maxConcurrentFrames * 4 % UINT32_RANGE),
      vks.initializers.descriptorPoolSize VK_DESCRIPTOR_TYPE_COMBINED_IMAGE_SAMPLER (s.maxConcurrentFrames * 9 % UINT32_RANGE) ]
  let descriptorPoolInfo := vks.initializers.descriptorPoolCreateInfo poolSizes (s.maxConcurrentFrames * 4 % UINT32_RANGE)
  let r := s.device.call (Call.vkCreateDescriptorPool descriptorPoolInfo)
  let descriptorPool := r.2
  let descriptorAllocInfo := vks.initializers.descriptorSetAllocateInfo descriptorPool [] 1
  -- Layouts
  -- G-Buffer creation (offscreen scene rendering)
  let setLayoutBindings : List VkDescriptorSetLayoutBinding :=
    [ vks.initializers.descriptorSetLayoutBinding VK_DESCRIPTOR_TYPE_UNIFORM_BUFFER (VK_SHADER_STAGE_VERTEX_BIT ||| VK_SHADER_STAGE_FRAGMENT_BIT) 0 ]
  let setLayoutCreateInfo := vks.initializers.descriptorSetLayoutCreateInfo setLayoutBindings setLayoutBindings.length
  let r := r.1.call (Call.vkCreateDescriptorSetLayout setLayoutCreateInfo)
  let descriptorSetLayouts_gBuffer := r.2
  -- GTAO Generation
  let setLayoutBindings : List VkDescriptorSetLayoutBinding :=
    [ vks.initializers.descriptorSetLayoutBinding VK_DESCRIPTOR_TYPE_COMBINED_IMAGE_SAMPLER VK_SHADER_STAGE_FRAGMENT_BIT 0,
      vks.initializers.descriptorSetLayoutBinding VK_DESCRIPTOR_TYPE_COMBINED_IMAGE_SAMPLER VK_SHADER_STAGE_FRAGMENT_BIT 1,
      vks.initializers.descriptorSetLayoutBinding VK_DESCRIPTOR_TYPE_UNIFORM_BUFFER VK_SHADER_STAGE_FRAGMENT_BIT 2,
      vks.initializers.descriptorSetLayoutBinding VK_DESCRIPTOR_TYPE_UNIFORM_BUFFER VK_SHADER_STAGE_FRAGMENT_BIT 3 ]
  let setLayoutCreateInfo := vks.initializers.descriptorSetLayoutCreateInfo setLayoutBindings setLayoutBindings.length
  let r := r.1.call (Call.vkCreateDescriptorSetLayout setLayoutCreateInfo)
  let descriptorSetLayouts_gtao := r.2
  -- GTAO Blur
  let setLayoutBindings : List VkDescriptorSetLayoutBinding :=
    [ vks.initializers.descriptorSetLayoutBinding VK_DESCRIPTOR_TYPE_COMBINED_IMAGE_SAMPLER VK_SHADER_STAGE_FRAGMENT_BIT 0 ]
  let setLayoutCreateInfo := vks.initializers.descriptorSetLayoutCreateInfo setLayoutBindings setLayoutBindings.length
  let r := r.1.call (Call.vkCreateDescriptorSetLayout setLayoutCreateInfo)
  let descriptorSetLayouts_gtaoBlur := r.2
  -- Composition
  let setLayoutBindings : List VkDescriptorSetLayoutBinding :=
    [ vks.initializers.descriptorSetLayoutBinding VK_DESCRIPTOR_TYPE_COMBINED_IMAGE_SAMPLER VK_SHADER_STAGE_FRAGMENT_BIT 0,
      vks.initializers.descriptorSetLayoutBinding VK_DESCRIPTOR_TYPE_COMBINED_IMAGE_SAMPLER VK_SHADER_STAGE_FRAGMENT_BIT 1,
      vks.initializers.descriptorSetLayoutBinding VK_DESCRIPTOR_TYPE_COMBINED_IMAGE_SAMPLER VK_SHADER_STAGE_FRAGMENT_BIT 2,
      vks.initializers.descriptorSetLayoutBinding VK_DESCRIPTOR_TYPE_COMBINED_IMAGE_SAMPLER VK_SHADER_STAGE_FRAGMENT_BIT 3,
      vks.initializers.descriptorSetLayoutBinding VK_DESCRIPTOR_TYPE_COMBINED_IMAGE_SAMPLER VK_SHADER_STAGE_FRAGMENT_BIT 4,
      vks.initializers.descriptorSetLayoutBinding VK_DESCRIPTOR_TYPE_UNIFORM_BUFFER VK_SHADER_STAGE_FRAGMENT_BIT 5 ]
  let setLayoutCreateInfo := vks.initializers.descriptorSetLayoutCreateInfo setLayoutBindings setLayoutBindings.length
  let r := r.1.call (Call.vkCreateDescriptorSetLayout setLayoutCreateInfo)
  let descriptorSetLayouts_composition := r.2
  -- Descriptor info for all images used as descriptors
  let positionImgDescriptor := vks.initializers.descriptorImageInfo s.colorSampler s.frameBuffers.offscreen.position.view VK_IMAGE_LAYOUT_SHADER_READ_ONLY_OPTIMAL
  let normalImgDescriptor := vks.initializers.descriptorImageInfo s.colorSampler s.frameBuffers.offscreen.normal.view VK_IMAGE_LAYOUT_SHADER_READ_ONLY_OPTIMAL
  let albedoImgDescriptor := vks.initializers.descriptorImageInfo s.colorSampler s.frameBuffers.offscreen.albedo.view VK_IMAGE_LAYOUT_SHADER_READ_ONLY_OPTIMAL
  let gtaoImgDescriptor := vks.initializers.descriptorImageInfo s.colorSampler s.frameBuffers.gtao.color.view VK_IMAGE_LAYOUT_SHADER_READ_ONLY_OPTIMAL
  let gtaoBlurImgDescriptor := vks.initializers.descriptorImageInfo s.colorSampler s.frameBuffers.gtaoBlur.color.view VK_IMAGE_LAYOUT_SHADER_READ_ONLY_OPTIMAL
  -- Sets per frame, just like the buffers themselves
  (List.range s.maxConcurrentFrames).foldl
    (setupDescriptorsFrame descriptorAllocInfo positionImgDescriptor normalImgDescriptor
      albedoImgDescriptor gtaoImgDescriptor gtaoBlurImgDescriptor)
    { s with
      device := r.1,
      descriptorPool := descriptorPool,
      descriptorSetLayouts :=
        { gBuffer := descriptorSetLayouts_gBuffer, gtao := descriptorSetLayouts_gtao,
          gtaoBlur := descriptorSetLayouts_gtaoBlur,
          composition := descriptorSetLayouts_composition } }

/-- `VulkanExample::preparePipelines`.  A create-info handed to Vulkan is
written out with every pointer member replaced by the value of the local it
points to at the call. -/
def preparePipelines (s : VulkanExample) : VulkanExample :=
  -- Layouts
  let setLayouts : List Nat := [s.descriptorSetLayouts.gBuffer, s.descriptorSetLayoutImage]
  let r := s.device.call (Call.vkCreatePipelineLayout { pSetLayouts := span 2 setLayouts })
  let pipelineLayouts_gBuffer := r.2
  let r := r.1.call (Call.vkCreatePipelineLayout { pSetLayouts := span 1 [s.descriptorSetLayouts.gtao] })
  let pipelineLayouts_gtao := r.2
  let r := r.1.call (Call.vkCreatePipelineLayout { pSetLayouts := span 1 [s.descriptorSetLayouts.gtaoBlur] })
  let pipelineLayouts_gtaoBlur := r.2
  let r := r.1.call (Call.vkCreatePipelineLayout { pSetLayouts := span 1 [s.descriptorSetLayouts.composition] })
  let pipelineLayouts_composition := r.2
  -- Pipelines
  let inputAssemblyState := vks.initializers.pipelineInputAssemblyStateCreateInfo VK_PRIMITIVE_TOPOLOGY_TRIANGLE_LIST 0 false
  let rasterizationState := vks.initializers.pipelineRasterizationStateCreateInfo VK_POLYGON_MODE_FILL VK_CULL_MODE_BACK_BIT VK_FRONT_FACE_COUNTER_CLOCKWISE 0
  let blendAttachmentState := vks.initializers.pipelineColorBlendAttachmentState 0xf false
  let colorBlendState := vks.initializers.pipelineColorBlendStateCreateInfo 1 [blendAttachmentState]
  let depthStencilState := vks.initializers.pipelineDepthStencilStateCreateInfo true true VK_COMPARE_OP_LESS_OR_EQUAL
  let viewportState := vks.initializers.pipelineViewportStateCreateInfo 1 1 0
  let multisampleState := vks.initializers.pipelineMultisampleStateCreateInfo VK_SAMPLE_COUNT_1_BIT 0
  let dynamicStateEnables : List VkDynamicState := [VK_DYNAMIC_STATE_VIEWPORT, VK_DYNAMIC_STATE_SCISSOR]
  let dynamicState := vks.initializers.pipelineDynamicStateCreateInfo dynamicStateEnables
  let pipelineCreateInfo_layout := pipelineLayouts_composition
  let pipelineCreateInfo_renderPass := s.renderPass
  let pipelineCreateInfo_subpass := 0
  -- Empty vertex input state for fullscreen passes
  let emptyVertexInputState := vks.initializers.pipelineVertexInputStateCreateInfo
  let pipelineCreateInfo_pVertexInputState := emptyVertexInputState
  let rasterizationState1 := { rasterizationState with cullMode := VK_CULL_MODE_FRONT_BIT }
  -- Final composition pipeline
  let sh := loadShader r.1 (s.shadersPath ++ "gtao/fullscreen.vert.spv") VK_SHADER_STAGE_VERTEX_BIT
  let shaderStages0 := sh.2
  let sh := loadShader sh.1 (s.shadersPath ++ "gtao/composition.frag.spv") VK_SHADER_STAGE_FRAGMENT_BIT
  let shaderStages1 := sh.2
  let r := sh.1.call (Call.vkCreateGraphicsPipelines s.pipelineCache
    { layout := pipelineCreateInfo_layout, renderPass := pipelineCreateInfo_renderPass,
      subpass := pipelineCreateInfo_subpass, pStages := span 2 [shaderStages0, shaderStages1],
      pVertexInputState := pipelineCreateInfo_pVertexInputState,
      pInputAssemblyState := inputAssemblyState, pRasterizationState := rasterizationState1,
      pColorBlendState := colorBlendState, pMultisampleState := multisampleState,
      pViewportState := viewportState, pDepthStencilState := depthStencilState,
      pDynamicState := dynamicState })
  let pipelines_composition := r.2
  -- GTAO generation pipeline
  let pipelineCreateInfo_renderPass := s.frameBuffers.gtao.renderPass
  let pipelineCreateInfo_layout := pipelineLayouts_gtao
  let specializationData : List Nat := [GTAO_DIRECTION_NUMS, GTAO_STEP_NUMS]
  let specializationMapEntries : List VkSpecializationMapEntry :=
    [ vks.initializers.specializationMapEntry 0 0 4,
      vks.initializers.specializationMapEntry 1 4 4 ]
  let specializationInfo := vks.initializers.specializationInfo 2 specializationMapEntries 8 specializationData
  let sh := loadShader r.1 (s.shadersPath ++ "gtao/gtao.frag.spv") VK_SHADER_STAGE_FRAGMENT_BIT
  let shaderStages1 := { sh.2 with pSpecializationInfo := some specializationInfo }
  let r := sh.1.call (Call.vkCreateGraphicsPipelines s.pipelineCache
    { layout := pipelineCreateInfo_layout, renderPass := pipelineCreateInfo_renderPass,
      subpass := pipelineCreateInfo_subpass, pStages := span 2 [shaderStages0, shaderStages1],
      pVertexInputState := pipelineCreateInfo_pVertexInputState,
      pInputAssemblyState := inputAssemblyState, pRasterizationState := rasterizationState1,
      pColorBlendState := colorBlendState, pMultisampleState := multisampleState,
      pViewportState := viewportState, pDepthStencilState := depthStencilState,
      pDynamicState := dynamicState })
  let pipelines_gtao := r.2
  -- GTAO blur pipeline
  let pipelineCreateInfo_renderPass := s.frameBuffers.gtaoBlur.renderPass
  let pipelineCreateInfo_layout := pipelineLayouts_gtaoBlur
  let sh := loadShader r.1 (s.shadersPath ++ "gtao/blur.frag.spv") VK_SHADER_STAGE_FRAGMENT_BIT
  let shaderStages1 := sh.2
  let r := sh.1.call (Call.vkCreateGraphicsPipelines s.pipelineCache
    { layout := pipelineCreateInfo_layout, renderPass := pipelineCreateInfo_renderPass,
      subpass := pipelineCreateInfo_subpass, pStages := span 2 [shaderStages0, shaderStages1],
      pVertexInputState := pipelineCreateInfo_pVertexInputState,
      pInputAssemblyState := inputAssemblyState, pRasterizationState := rasterizationState1,
      pColorBlendState := colorBlendState, pMultisampleState := multisampleState,
      pViewportState := viewportState, pDepthStencilState := depthStencilState,
      pDynamicState := dynamicState })
  let pipelines_gtaoBlur := r.2
  -- Fill G-Buffer pipeline
  let pipelineCreateInfo_pVertexInputState := vkglTF.Vertex.getPipelineVertexInputState
    [VertexComponent.Position, VertexComponent.UV, VertexComponent.Color, VertexComponent.Normal]
  let pipelineCreateInfo_renderPass := s.frameBuffers.offscreen.renderPass
  let pipelineCreateInfo_layout := pipelineLayouts_gBuffer
  let blendAttachmentStates : List VkPipelineColorBlendAttachmentState :=
    [ vks.initializers.pipelineColorBlendAttachmentState 0xf false,
      vks.initializers.pipelineColorBlendAttachmentState 0xf false,
      vks.initializers.pipelineColorBlendAttachmentState 0xf false ]
  let colorBlendState1 : VkPipelineColorBlendStateCreateInfo :=
    { colorBlendState with pAttachments := span blendAttachmentStates.length blendAttachmentStates }
  let rasterizationState2 := { rasterizationState1 with cullMode := VK_CULL_MODE_BACK_BIT }
  let sh := loadShader r.1 (s.shadersPath ++ "gtao/gbuffer.vert.spv") VK_SHADER_STAGE_VERTEX_BIT
  let shaderStages0 := sh.2
  let sh := loadShader sh.1 (s.shadersPath ++ "gtao/gbuffer.frag.spv") VK_SHADER_STAGE_FRAGMENT_BIT
  let shaderStages1 := sh.2
  let r := sh.1.call (Call.vkCreateGraphicsPipelines s.pipelineCache
    { layout := pipelineCreateInfo_layout, renderPass := pipelineCreateInfo_renderPass,
      subpass := pipelineCreateInfo_subpass, pStages := span 2 [shaderStages0, shaderStages1],
      pVertexInputState := pipelineCreateInfo_pVertexInputState,
      pInputAssemblyState := inputAssemblyState, pRasterizationState := rasterizationState2,
      pColorBlendState := colorBlendState1, pMultisampleState := multisampleState,
      pViewportState := viewportState, pDepthStencilState := depthStencilState,
      pDynamicState := dynamicState })
  let pipelines_offscreen := r.2
  { s with
    device := r.1,
    pipelineLayouts :=
      { gBuffer := pipelineLayouts_gBuffer, gtao := pipelineLayouts_gtao,
        gtaoBlur := pipelineLayouts_gtaoBlur, composition := pipelineLayouts_composition },
    pipelines :=
      { offscreen := pipelines_offscreen, composition := pipelines_composition,
        gtao := pipelines_gtao, gtaoBlur := pipelines_gtaoBlur } }

/-- `VulkanExample::prepareBuffers`, the body of the loop over `uniformBuffers`,
for the element of index `i`. -/
def prepareBuffersFrame (s : VulkanExample) (i : Nat) : VulkanExample :=
  -- Scene matrices
  let b1 : Device × vks.Buffer UBOSceneParams := vks.VulkanDevice.createBuffer s.device
    VK_BUFFER_USAGE_UNIFORM_BUFFER_BIT
    (VK_MEMORY_PROPERTY_HOST_VISIBLE_BIT ||| VK_MEMORY_PROPERTY_HOST_COHERENT_BIT)
    sizeof_uboSceneParams
  -- GTAO parameters
  let b2 : Device × vks.Buffer UBOGTAOParams := vks.VulkanDevice.createBuffer b1.1
    VK_BUFFER_USAGE_UNIFORM_BUFFER_BIT
    (VK_MEMORY_PROPERTY_HOST_VISIBLE_BIT ||| VK_MEMORY_PROPERTY_HOST_COHERENT_BIT)
    sizeof_uboGTAOParams
  -- GTAO settings
  let b3 : Device × vks.Buffer UBOGTAOSettings := vks.VulkanDevice.createBuffer b2.1
    VK_BUFFER_USAGE_UNIFORM_BUFFER_BIT
    (VK_MEMORY_PROPERTY_HOST_VISIBLE_BIT ||| VK_MEMORY_PROPERTY_HOST_COHERENT_BIT)
    sizeof_uboGTAOSettings
  { s with
    device := b3.1,
    uniformBuffers := Function.update s.uniformBuffers i
      { sceneParams := b1.2.map, gtaoSettings := b3.2.map, gtaoParams := b2.2.map } }

/-- `VulkanExample::prepareBuffers`. -/
def prepareBuffers (s : VulkanExample) : VulkanExample :=
  (List.range s.maxConcurrentFrames).foldl prepareBuffersFrame s

/-- `VulkanExample::updateUniformBuffers`. -/
def updateUniformBuffers (s : VulkanExample) : VulkanExample :=
  -- Scene
  let uboSceneParams : UBOSceneParams :=
    { s.uboSceneParams with
      projection := s.camera.perspective,
      view := s.camera.view,
      model := glm.mat4.diagonal (F32.lit 1 1) }
  let buffers := s.uniformBuffers s.currentBuffer
  let sceneParams := buffers.sceneParams.copyTo uboSceneParams sizeof_uboSceneParams
  -- GTAO parameters
  let uboGTAOParams : UBOGTAOParams := { s.uboGTAOParams with projection := s.camera.perspective }
  let gtaoParams := buffers.gtaoParams.copyTo uboGTAOParams sizeof_uboGTAOParams
  let gtaoSettings := buffers.gtaoSettings.copyTo s.uboGTAOSettings sizeof_uboGTAOSettings
  { s with
    uboSceneParams := uboSceneParams,
    uboGTAOParams := uboGTAOParams,
    uniformBuffers := Function.update s.uniformBuffers s.currentBuffer
      { sceneParams := sceneParams, gtaoSettings := gtaoSettings, gtaoParams := gtaoParams } }

/-- `VulkanExample::prepare`.  `VulkanExampleBase::prepare` and `loadAssets`
are external: what they set up is the inherited part of the state. -/
def prepare (s : VulkanExample) : Option VulkanExample := do
  let s ← prepareOffscreenFramebuffers s
  let s := prepareBuffers s
  let s := setupDescriptors s
  let s := preparePipelines s
  some { s with prepared := true }

/-- `VulkanExample::buildCommandBuffer`: the command buffer recorded into and
the commands recorded, in order.  A begin-info handed to Vulkan is written out
with the clear values it points to at the call. -/
def buildCommandBuffer (s : VulkanExample) : Nat × List Cmd :=
  let cmdBuffer := s.drawCmdBuffers s.currentBuffer
  let cmds : List Cmd := [Cmd.vkBeginCommandBuffer]
  -- Offscreen GTAO generation
  -- Clear values for all attachments written in the fragment shader
  let o := F32.lit 0 1
  let clearValues : List VkClearValue := List.replicate 4 (VkClearValue.color o o o o)
  let clearValues := clearValues.set 0 (VkClearValue.color o o o (F32.lit 1 1))
  let clearValues := clearValues.set 1 (VkClearValue.color o o o (F32.lit 1 1))
  let clearValues := clearValues.set 2 (VkClearValue.color o o o (F32.lit 1 1))
  let clearValues := clearValues.set 3 (VkClearValue.depthStencil (F32.lit 1 1) 0)
  let renderPassBeginInfo : VkRenderPassBeginInfo :=
    { renderPass := s.frameBuffers.offscreen.renderPass,
      framebuffer := s.frameBuffers.offscreen.frameBuffer,
      renderArea := { extentWidth := toUInt32 s.frameBuffers.offscreen.width,
                      extentHeight := toUInt32 s.frameBuffers.offscreen.height },
      clearValueCount := clearValues.length,
      pClearValues := clearValues }
  -- First pass: Fill G-Buffer components (positions+depth, normals, albedo) using MRT
  let cmds := cmds ++ [Cmd.vkCmdBeginRenderPass renderPassBeginInfo VK_SUBPASS_CONTENTS_INLINE]
  let viewport := vks.initializers.viewport (F32.ofInt s.frameBuffers.offscreen.width) (F32.ofInt s.frameBuffers.offscreen.height) (F32.lit 0 1) (F32.lit 1 1)
  let cmds := cmds ++ [Cmd.vkCmdSetViewport 0 (span 1 [viewport])]
  let scissor := vks.initializers.rect2D s.frameBuffers.offscreen.width s.frameBuffers.offscreen.height 0 0
  let cmds := cmds ++ [Cmd.vkCmdSetScissor 0 (span 1 [scissor])]
  let cmds := cmds ++ [Cmd.vkCmdBindPipeline VK_PIPELINE_BIND_POINT_GRAPHICS s.pipelines.offscreen]
  let cmds := cmds ++ [Cmd.vkCmdBindDescriptorSets VK_PIPELINE_BIND_POINT_GRAPHICS s.pipelineLayouts.gBuffer 0 (span 1 [(s.descriptorSets s.currentBuffer).gBuffer]) (span 0 [])]
  let cmds := cmds ++ [Cmd.scene_draw true s.pipelineLayouts.gBuffer]
  let cmds := cmds ++ [Cmd.vkCmdEndRenderPass]
  -- Second pass: GTAO generation
  let clearValues := clearValues.set 0 (VkClearValue.color o o o (F32.lit 1 1))
  let clearValues := clearValues.set 1 (VkClearValue.depthStencil (F32.lit 1 1) 0)
  let renderPassBeginInfo : VkRenderPassBeginInfo :=
    { renderPass := s.frameBuffers.gtao.renderPass,
      framebuffer := s.frameBuffers.gtao.frameBuffer,
      renderArea := { extentWidth := toUInt32 s.frameBuffers.gtao.width,
                      extentHeight := toUInt32 s.frameBuffers.gtao.height },
      clearValueCount := 2,
      pClearValues := clearValues }
  let cmds := cmds ++ [Cmd.vkCmdBeginRenderPass renderPassBeginInfo VK_SUBPASS_CONTENTS_INLINE]
  let viewport := vks.initializers.viewport (F32.ofInt s.frameBuffers.gtao.width) (F32.ofInt s.frameBuffers.gtao.height) (F32.lit 0 1) (F32.lit 1 1)
  let cmds := cmds ++ [Cmd.vkCmdSetViewport 0 (span 1 [viewport])]
  let scissor := vks.initializers.rect2D s.frameBuffers.gtao.width s.frameBuffers.gtao.height 0 0
  let cmds := cmds ++ [Cmd.vkCmdSetScissor 0 (span 1 [scissor])]
  let cmds := cmds ++ [Cmd.vkCmdBindDescriptorSets VK_PIPELINE_BIND_POINT_GRAPHICS s.pipelineLayouts.gtao 0 (span 1 [(s.descriptorSets s.currentBuffer).gtao]) (span 0 [])]
  let cmds := cmds ++ [Cmd.vkCmdBindPipeline VK_PIPELINE_BIND_POINT_GRAPHICS s.pipelines.gtao]
  let cmds := cmds ++ [Cmd.vkCmdDraw 3 1 0 0]
  let cmds := cmds ++ [Cmd.vkCmdEndRenderPass]
  -- Third pass: GTAO blur
  let renderPassBeginInfo : VkRenderPassBeginInfo :=
    { renderPass := s.frameBuffers.gtaoBlur.renderPass,
      framebuffer := s.frameBuffers.gtaoBlur.frameBuffer,
      renderArea := { extentWidth := toUInt32 s.frameBuffers.gtaoBlur.width,
                      extentHeight := toUInt32 s.frameBuffers.gtaoBlur.height },
      clearValueCount := 2,
      pClearValues := clearValues }
  let cmds := cmds ++ [Cmd.vkCmdBeginRenderPass renderPassBeginInfo VK_SUBPASS_CONTENTS_INLINE]
  let viewport := vks.initializers.viewport (F32.ofInt s.frameBuffers.gtaoBlur.width) (F32.ofInt s.frameBuffers.gtaoBlur.height) (F32.lit 0 1) (F32.lit 1 1)
  let cmds := cmds ++ [Cmd.vkCmdSetViewport 0 (span 1 [viewport])]
  let scissor := vks.initializers.rect2D s.frameBuffers.gtaoBlur.width s.frameBuffers.gtaoBlur.height 0 0
  let cmds := cmds ++ [Cmd.vkCmdSetScissor 0 (span 1 [scissor])]
  let cmds := cmds ++ [Cmd.vkCmdBindDescriptorSets VK_PIPELINE_BIND_POINT_GRAPHICS s.pipelineLayouts.gtaoBlur 0 (span 1 [(s.descriptorSets s.currentBuffer).gtaoBlur]) (span 0 [])]
  let cmds := cmds ++ [Cmd.vkCmdBindPipeline VK_PIPELINE_BIND_POINT_GRAPHICS s.pipelines.gtaoBlur]
  let cmds := cmds ++ [Cmd.vkCmdDraw 3 1 0 0]
  let cmds := cmds ++ [Cmd.vkCmdEndRenderPass]
  -- Final render pass: Scene rendering with applied radial blur
  let clearValues : List VkClearValue := List.replicate 2 (VkClearValue.color o o o o)
  let clearValues := clearValues.set 0 s.defaultClearColor
  let clearValues := clearValues.set 1 (VkClearValue.depthStencil (F32.lit 1 1) 0)
  let renderPassBeginInfo : VkRenderPassBeginInfo :=
    { renderPass := s.renderPass,
      framebuffer := s.swapChainFrameBuffers s.currentImageIndex,
      renderArea := { extentWidth := s.width, extentHeight := s.height },
      clearValueCount := 2,
      pClearValues := clearValues }
  let cmds := cmds ++ [Cmd.vkCmdBeginRenderPass renderPassBeginInfo VK_SUBPASS_CONTENTS_INLINE]
  let viewport := vks.initializers.viewport (F32.ofInt (Int.ofNat s.width)) (F32.ofInt (Int.ofNat s.height)) (F32.lit 0 1) (F32.lit 1 1)
  let cmds := cmds ++ [Cmd.vkCmdSetViewport 0 (span 1 [viewport])]
  let scissor := vks.initializers.rect2D (toInt32 s.width) (toInt32 s.height) 0 0
  let cmds := cmds ++ [Cmd.vkCmdSetScissor 0 (span 1 [scissor])]
  let cmds := cmds ++ [Cmd.vkCmdBindDescriptorSets VK_PIPELINE_BIND_POINT_GRAPHICS s.pipelineLayouts.composition 0 (span 1 [(s.descriptorSets s.currentBuffer).composition]) (span 0 [])]
  -- Final composition pass
  let cmds := cmds ++ [Cmd.vkCmdBindPipeline VK_PIPELINE_BIND_POINT_GRAPHICS s.pipelines.composition]
  let cmds := cmds ++ [Cmd.vkCmdDraw 3 1 0 0]
  let cmds := cmds ++ [Cmd.drawUI]
  let cmds := cmds ++ [Cmd.vkCmdEndRenderPass]
  let cmds := cmds ++ [Cmd.vkEndCommandBuffer]
  (cmdBuffer, cmds)

/-- Modelled from the spec: `VulkanExampleBase::prepareFrame` of the base
class, which is not among the sources: "acquire a presentable target slot from
the external graphics context", after the wait for the fence of the frame slot;
`acquired` is the index of the image the graphics context hands out. -/
def prepareFrame (s : VulkanExample) (acquired : Nat) : VulkanExample :=
  { s with currentImageIndex := acquired }

/-- Modelled from the spec: `VulkanExampleBase::submitFrame` of the base class,
which is not among the sources: submits the command buffer of the frame slot,
presents, and moves on to the next of the `maxConcurrentFrames` slots ("slot
`k mod N`"). -/
def submitFrame (s : VulkanExample) : VulkanExample :=
  { s with currentBuffer := (s.currentBuffer + 1) % s.maxConcurrentFrames }

/-- One call made by `render`: the function called runs on the state, and the
log receives the step, which is the function called with the frame slot at the
time of the call.  The commands `buildCommandBuffer` records go into the
command buffer of the slot, outside the program state: the log receives them
too. -/
def call (acquired : Nat) (frame : VulkanExample × FrameLog) (f : FrameCall) :
    VulkanExample × FrameLog :=
  let s := frame.1
  let log := { frame.2 with
    steps := frame.2.steps ++ [{ call := f, currentBuffer := s.currentBuffer }] }
  match f with
  | FrameCall.prepareFrame => (prepareFrame s acquired, log)
  | FrameCall.updateUniformBuffers => (updateUniformBuffers s, log)
  | FrameCall.buildCommandBuffer =>
      (s, { log with recorded := log.recorded ++ [buildCommandBuffer s] })
  | FrameCall.submitFrame => (submitFrame s, log)

/-- `VulkanExample::render`: the state and the log after the call; `acquired`
is the index of the image the graphics context hands out. -/
def render (s : VulkanExample) (acquired : Nat) (log : FrameLog) : VulkanExample × FrameLog :=
  if !s.prepared then
    (s, log)
  else
    let frame := call acquired (s, log) FrameCall.prepareFrame
    let frame := call acquired frame FrameCall.updateUniformBuffers
    let frame := call acquired frame FrameCall.buildCommandBuffer
    let frame := call acquired frame FrameCall.submitFrame
    frame

/-- Successive calls of `render`, one for each image index the graphics
context hands out: the state and the log after the last call. -/
def renderFrames (s : VulkanExample) (log : FrameLog) : List Nat → VulkanExample × FrameLog
  | [] => (s, log)
  | acquired :: rest =>
    let frame := render s acquired log
    renderFrames frame.1 frame.2 rest

/-- `VulkanExample::OnUpdateUIOverlay`: the state after the call and the
widgets declared on the overlay, in order. -/
def OnUpdateUIOverlay (s : VulkanExample) (overlay : vks.UIOverlay) :
    VulkanExample × List UICall :=
  let calls : List UICall := [UICall.header "Settings"]
  if overlay.header "Settings" then
    let calls := calls ++ [UICall.checkBox "Enable GTAO"]
    let uboGTAOParams := { s.uboGTAOParams with
      gtao := overlay.checkBox "Enable GTAO" s.uboGTAOParams.gtao }
    let calls := calls ++ [UICall.checkBox "GTAO blur"]
    let uboGTAOParams := { uboGTAOParams with
      gtaoBlur := overlay.checkBox "GTAO blur" uboGTAOParams.gtaoBlur }
    let calls := calls ++ [UICall.checkBox "GTAO pass only"]
    let uboGTAOParams := { uboGTAOParams with
      gtaoOnly := overlay.checkBox "GTAO pass only" uboGTAOParams.gtaoOnly }
    let calls := calls ++ [UICall.sliderFloat "GTAO radius" (F32.lit 1 100) (F32.lit 10 1)]
    let uboGTAOSettings := { s.uboGTAOSettings with
      radius := overlay.sliderFloat "GTAO radius" s.uboGTAOSettings.radius (F32.lit 1 100) (F32.lit 10 1) }
    let calls := calls ++ [UICall.sliderFloat "GTAO Intensity" (F32.lit 0 1) (F32.lit 2 1)]
    let uboGTAOSettings := { uboGTAOSettings with
      intensity := overlay.sliderFloat "GTAO Intensity" uboGTAOSettings.intensity (F32.lit 0 1) (F32.lit 2 1) }
    let calls := calls ++ [UICall.sliderFloat "GTAO bias" (F32.lit 1 1000) (F32.lit 1 100)]
    let uboGTAOSettings := { uboGTAOSettings with
      bias := overlay.sliderFloat "GTAO bias" uboGTAOSettings.bias (F32.lit 1 1000) (F32.lit 1 100) }
    ({ s with uboGTAOParams := uboGTAOParams, uboGTAOSettings := uboGTAOSettings }, calls)
  else
    (s, calls)

/-- `FrameBufferAttachment::destroy`: the calls made, in order. -/
def FrameBufferAttachment.destroy (this : FrameBufferAttachment) : List Release :=
  [ Release.vkDestroyImage this.image,
    Release.vkDestroyImageView this.view,
    Release.vkFreeMemory this.mem ]

/-- `FrameBuffer::destroy`: the calls made, in order. -/
def FrameBuffer.destroy (this : FrameBuffer) : List Release :=
  [ Release.vkDestroyFramebuffer this.frameBuffer,
    Release.vkDestroyRenderPass this.renderPass ]

/-- `VulkanExample::~VulkanExample`: the calls made, in order.  `device` is the
`VkDevice` handle of the base class, which is null (0) when no logical device
was created; `s.device` is the log of the calls made on that device.  The loop
over `uniformBuffers` visits every slot below `maxConcurrentFrames`. -/
def destructor (s : VulkanExample) (device : Nat) : List Release :=
  if device ≠ 0 then
    let calls : List Release := [Release.vkDestroySampler s.colorSampler]
    let calls := calls ++ s.frameBuffers.offscreen.position.destroy
    let calls := calls ++ s.frameBuffers.offscreen.normal.destroy
    let calls := calls ++ s.frameBuffers.offscreen.albedo.destroy
    let calls := calls ++ s.frameBuffers.offscreen.depth.destroy
    let calls := calls ++ s.frameBuffers.gtao.color.destroy
    let calls := calls ++ s.frameBuffers.gtaoBlur.color.destroy
    let calls := calls ++ s.frameBuffers.offscreen.toFrameBuffer.destroy
    let calls := calls ++ s.frameBuffers.gtao.toFrameBuffer.destroy
    let calls := calls ++ s.frameBuffers.gtaoBlur.toFrameBuffer.destroy
    let calls := calls ++ [Release.vkDestroyPipeline s.pipelines.offscreen]
    let calls := calls ++ [Release.vkDestroyPipeline s.pipelines.composition]
    let calls := calls ++ [Release.vkDestroyPipeline s.pipelines.gtao]
    let calls := calls ++ [Release.vkDestroyPipeline s.pipelines.gtaoBlur]
    let calls := calls ++ [Release.vkDestroyPipelineLayout s.pipelineLayouts.gBuffer]
    let calls := calls ++ [Release.vkDestroyPipelineLayout s.pipelineLayouts.gtao]
    let calls := calls ++ [Release.vkDestroyPipelineLayout s.pipelineLayouts.gtaoBlur]
    let calls := calls ++ [Release.vkDestroyPipelineLayout s.pipelineLayouts.composition]
    let calls := calls ++ [Release.vkDestroyDescriptorSetLayout s.descriptorSetLayouts.gBuffer]
    let calls := calls ++ [Release.vkDestroyDescriptorSetLayout s.descriptorSetLayouts.gtao]
    let calls := calls ++ [Release.vkDestroyDescriptorSetLayout s.descriptorSetLayouts.gtaoBlur]
    let calls := calls ++ [Release.vkDestroyDescriptorSetLayout s.descriptorSetLayouts.composition]
    calls ++ (List.range s.maxConcurrentFrames).flatMap (fun i =>
      [ Release.Buffer_destroy (s.uniformBuffers i).sceneParams.buffer,
        Release.Buffer_destroy (s.uniformBuffers i).gtaoSettings.buffer,
        Release.Buffer_destroy (s.uniformBuffers i).gtaoParams.buffer ])
  else []

/-- The four calls `createAttachment` makes, in order, on a device whose log has
length `base`, for a view of aspect `aspectMask`.  Used to state what the
function does to the device log. -/
def createAttachmentCalls (base : Nat) (format : VkFormat) (usage aspectMask width height : Nat) :
    List Call :=
  [ Call.vkCreateImage
      { imageType := VK_IMAGE_TYPE_2D, format := format,
        extent := { width := width, height := height, depth := 1 },
        mipLevels := 1, arrayLayers := 1, samples := VK_SAMPLE_COUNT_1_BIT,
        tiling := VK_IMAGE_TILING_OPTIMAL, usage := usage ||| VK_IMAGE_USAGE_SAMPLED_BIT },
    Call.vkAllocateMemory (base + 1) VK_MEMORY_PROPERTY_DEVICE_LOCAL_BIT,
    Call.vkBindImageMemory (base + 1) (base + 2) 0,
    Call.vkCreateImageView
      { image := base + 1, viewType := VK_IMAGE_VIEW_TYPE_2D, format := format,
        subresourceRange := { aspectMask := aspectMask, baseMipLevel := 0, levelCount := 1,
                              baseArrayLayer := 0, layerCount := 1 } } ]

/-- The attachment `createAttachment` returns on a device whose log has length
`base`. -/
def createAttachmentResult (base : Nat) (format : VkFormat) : FrameBufferAttachment :=
  { image := base + 1, mem := base + 2, view := base + 4, format := format }

/-- The `frameBuffers` that `prepareOffscreenFramebuffers` leaves, on a device
whose log has length `base` before the call, for the occlusion target size
`gtaoWidth` by `gtaoHeight`.  Used to state what the function does. -/
def prepareOffscreenFramebuffersResult (base width height gtaoWidth gtaoHeight : Nat)
    (attDepthFormat : VkFormat) : FrameBuffers :=
  { offscreen :=
      { width := toInt32 width, height := toInt32 height,
        frameBuffer := base + 26, renderPass := base + 25,
        position := createAttachmentResult base VK_FORMAT_R32G32B32A32_SFLOAT,
        normal := createAttachmentResult (base + 4) VK_FORMAT_R8G8B8A8_UNORM,
        albedo := createAttachmentResult (base + 8) VK_FORMAT_R8G8B8A8_UNORM,
        depth := createAttachmentResult (base + 12) attDepthFormat },
    gtao :=
      { width := toInt32 gtaoWidth, height := toInt32 gtaoHeight,
        frameBuffer := base + 28, renderPass := base + 27,
        color := createAttachmentResult (base + 16) VK_FORMAT_R8_UNORM },
    gtaoBlur :=
      { width := toInt32 width, height := toInt32 height,
        frameBuffer := base + 30, renderPass := base + 29,
        color := createAttachmentResult (base + 20) VK_FORMAT_R8_UNORM } }

/-- The thirty-one calls `prepareOffscreenFramebuffers` makes, in order, on a
device whose log has length `base` before the call.  Used to state what the
function does to the device log. -/
def prepareOffscreenFramebuffersCalls (base width height gtaoWidth gtaoHeight : Nat)
    (attDepthFormat : VkFormat) : List Call :=
  createAttachmentCalls base VK_FORMAT_R32G32B32A32_SFLOAT VK_IMAGE_USAGE_COLOR_ATTACHMENT_BIT
    VK_IMAGE_ASPECT_COLOR_BIT width height ++
  createAttachmentCalls (base + 4) VK_FORMAT_R8G8B8A8_UNORM VK_IMAGE_USAGE_COLOR_ATTACHMENT_BIT
    VK_IMAGE_ASPECT_COLOR_BIT width height ++
  createAttachmentCalls (base + 8) VK_FORMAT_R8G8B8A8_UNORM VK_IMAGE_USAGE_COLOR_ATTACHMENT_BIT
    VK_IMAGE_ASPECT_COLOR_BIT width height ++
  createAttachmentCalls (base + 12) attDepthFormat VK_IMAGE_USAGE_DEPTH_STENCIL_ATTACHMENT_BIT
    (if attDepthFormat ≥ VK_FORMAT_D16_UNORM_S8_UINT then
      VK_IMAGE_ASPECT_DEPTH_BIT ||| VK_IMAGE_ASPECT_STENCIL_BIT
    else VK_IMAGE_ASPECT_DEPTH_BIT) width height ++
  createAttachmentCalls (base + 16) VK_FORMAT_R8_UNORM VK_IMAGE_USAGE_COLOR_ATTACHMENT_BIT
    VK_IMAGE_ASPECT_COLOR_BIT gtaoWidth gtaoHeight ++
  createAttachmentCalls (base + 20) VK_FORMAT_R8_UNORM VK_IMAGE_USAGE_COLOR_ATTACHMENT_BIT
    VK_IMAGE_ASPECT_COLOR_BIT width height ++
  [ Call.vkCreateRenderPass (gBufferRenderPassInfo
      (createAttachmentResult base VK_FORMAT_R32G32B32A32_SFLOAT)
      (createAttachmentResult (base + 4) VK_FORMAT_R8G8B8A8_UNORM)
      (createAttachmentResult (base + 8) VK_FORMAT_R8G8B8A8_UNORM)
      (createAttachmentResult (base + 12) attDepthFormat)),
    Call.vkCreateFramebuffer
      { renderPass := base + 25,
        pAttachments := [base + 4, base + 8, base + 12, base + 16],
        width := toUInt32 (toInt32 width), height := toUInt32 (toInt32 height), layers := 1 },
    Call.vkCreateRenderPass (gtaoRenderPassInfo (createAttachmentResult (base + 16) VK_FORMAT_R8_UNORM)),
    Call.vkCreateFramebuffer
      { renderPass := base + 27,
        pAttachments := [base + 20],
        width := toUInt32 (toInt32 gtaoWidth), height := toUInt32 (toInt32 gtaoHeight), layers := 1 },
    Call.vkCreateRenderPass (gtaoBlurRenderPassInfo (createAttachmentResult (base + 20) VK_FORMAT_R8_UNORM)),
    Call.vkCreateFramebuffer
      { renderPass := base + 29,
        pAttachments := [base + 24],
        width := toUInt32 (toInt32 width), height := toUInt32 (toInt32 height), layers := 1 },
    Call.vkCreateSampler
      { magFilter := VK_FILTER_NEAREST,
        minFilter := VK_FILTER_NEAREST,
        mipmapMode := VK_SAMPLER_MIPMAP_MODE_LINEAR,
        addressModeU := VK_SAMPLER_ADDRESS_MODE_CLAMP_TO_EDGE,
        addressModeV := VK_SAMPLER_ADDRESS_MODE_CLAMP_TO_EDGE,
        addressModeW := VK_SAMPLER_ADDRESS_MODE_CLAMP_TO_EDGE,
        mipLodBias := F32.lit 0 1,
        maxAnisotropy := F32.lit 1 1,
        minLod := F32.lit 0 1,
        maxLod := F32.lit 1 1,
        borderColor := VK_BORDER_COLOR_FLOAT_OPAQUE_WHITE } ]

/-- The three calls one iteration of the loop of `prepareBuffers` makes, in
order.  Used to state what the loop does to the device log. -/
def prepareBuffersFrameCalls : List Call :=
  [ Call.createBuffer VK_BUFFER_USAGE_UNIFORM_BUFFER_BIT
      (VK_MEMORY_PROPERTY_HOST_VISIBLE_BIT ||| VK_MEMORY_PROPERTY_HOST_COHERENT_BIT) sizeof_uboSceneParams,
    Call.createBuffer VK_BUFFER_USAGE_UNIFORM_BUFFER_BIT
      (VK_MEMORY_PROPERTY_HOST_VISIBLE_BIT ||| VK_MEMORY_PROPERTY_HOST_COHERENT_BIT) sizeof_uboGTAOParams,
    Call.createBuffer VK_BUFFER_USAGE_UNIFORM_BUFFER_BIT
      (VK_MEMORY_PROPERTY_HOST_VISIBLE_BIT ||| VK_MEMORY_PROPERTY_HOST_COHERENT_BIT) sizeof_uboGTAOSettings ]

/-- The uniform buffers one iteration of the loop of `prepareBuffers` leaves in
its slot when the device log has length `base` before the iteration.  Used to
state what the loop does to `uniformBuffers`. -/
def prepareBuffersFrameBuffers (base : Nat) : UniformBuffers :=
  { sceneParams :=
      { buffer := base + 1, size := sizeof_uboSceneParams,
        usageFlags := VK_BUFFER_USAGE_UNIFORM_BUFFER_BIT,
        memoryPropertyFlags := VK_MEMORY_PROPERTY_HOST_VISIBLE_BIT ||| VK_MEMORY_PROPERTY_HOST_COHERENT_BIT,
        descriptor := { buffer := base + 1, offset := 0, range := VK_WHOLE_SIZE },
        mapped := true },
    gtaoParams :=
      { buffer := base + 2, size := sizeof_uboGTAOParams,
        usageFlags := VK_BUFFER_USAGE_UNIFORM_BUFFER_BIT,
        memoryPropertyFlags := VK_MEMORY_PROPERTY_HOST_VISIBLE_BIT ||| VK_MEMORY_PROPERTY_HOST_COHERENT_BIT,
        descriptor := { buffer := base + 2, offset := 0, range := VK_WHOLE_SIZE },
        mapped := true },
    gtaoSettings :=
      { buffer := base + 3, size := sizeof_uboGTAOSettings,
        usageFlags := VK_BUFFER_USAGE_UNIFORM_BUFFER_BIT,
        memoryPropertyFlags := VK_MEMORY_PROPERTY_HOST_VISIBLE_BIT ||| VK_MEMORY_PROPERTY_HOST_COHERENT_BIT,
        descriptor := { buffer := base + 3, offset := 0, range := VK_WHOLE_SIZE },
        mapped := true } }

/-- The five calls `setupDescriptors` makes before its loop, in order: the
descriptor pool and the four descriptor-set layouts.  Used to state what the
function does to the device log. -/
def setupDescriptorsLayoutCalls (maxConcurrentFrames : Nat) : List Call :=
  [ Call.vkCreateDescriptorPool
      { pPoolSizes :=
          [ { type := VK_DESCRIPTOR_TYPE_UNIFORM_BUFFER, descriptorCount := maxConcurrentFrames * 4 % UINT32_RANGE },
            { type := VK_DESCRIPTOR_TYPE_COMBINED_IMAGE_SAMPLER, descriptorCount := maxConcurrentFrames * 9 % UINT32_RANGE } ],
        maxSets := maxConcurrentFrames * 4 % UINT32_RANGE },
    Call.vkCreateDescriptorSetLayout
      { pBindings :=
          [ { descriptorType := VK_DESCRIPTOR_TYPE_UNIFORM_BUFFER,
              stageFlags := VK_SHADER_STAGE_VERTEX_BIT ||| VK_SHADER_STAGE_FRAGMENT_BIT, binding := 0, descriptorCount := 1 } ] },
    Call.vkCreateDescriptorSetLayout
      { pBindings :=
          [ { descriptorType := VK_DESCRIPTOR_TYPE_COMBINED_IMAGE_SAMPLER, stageFlags := VK_SHADER_STAGE_FRAGMENT_BIT, binding := 0, descriptorCount := 1 },
            { descriptorType := VK_DESCRIPTOR_TYPE_COMBINED_IMAGE_SAMPLER, stageFlags := VK_SHADER_STAGE_FRAGMENT_BIT, binding := 1, descriptorCount := 1 },
            { descriptorType := VK_DESCRIPTOR_TYPE_UNIFORM_BUFFER, stageFlags := VK_SHADER_STAGE_FRAGMENT_BIT, binding := 2, descriptorCount := 1 },
            { descriptorType := VK_DESCRIPTOR_TYPE_UNIFORM_BUFFER, stageFlags := VK_SHADER_STAGE_FRAGMENT_BIT, binding := 3, descriptorCount := 1 } ] },
    Call.vkCreateDescriptorSetLayout
      { pBindings :=
          [ { descriptorType := VK_DESCRIPTOR_TYPE_COMBINED_IMAGE_SAMPLER, stageFlags := VK_SHADER_STAGE_FRAGMENT_BIT, binding := 0, descriptorCount := 1 } ] },
    Call.vkCreateDescriptorSetLayout
      { pBindings :=
          [ { descriptorType := VK_DESCRIPTOR_TYPE_COMBINED_IMAGE_SAMPLER, stageFlags := VK_SHADER_STAGE_FRAGMENT_BIT, binding := 0, descriptorCount := 1 },
            { descriptorType := VK_DESCRIPTOR_TYPE_COMBINED_IMAGE_SAMPLER, stageFlags := VK_SHADER_STAGE_FRAGMENT_BIT, binding := 1, descriptorCount := 1 },
            { descriptorType := VK_DESCRIPTOR_TYPE_COMBINED_IMAGE_SAMPLER, stageFlags := VK_SHADER_STAGE_FRAGMENT_BIT, binding := 2, descriptorCount := 1 },
            { descriptorType := VK_DESCRIPTOR_TYPE_COMBINED_IMAGE_SAMPLER, stageFlags := VK_SHADER_STAGE_FRAGMENT_BIT, binding := 3, descriptorCount := 1 },
            { descriptorType := VK_DESCRIPTOR_TYPE_COMBINED_IMAGE_SAMPLER, stageFlags := VK_SHADER_STAGE_FRAGMENT_BIT, binding := 4, descriptorCount := 1 },
            { descriptorType := VK_DESCRIPTOR_TYPE_UNIFORM_BUFFER, stageFlags := VK_SHADER_STAGE_FRAGMENT_BIT, binding := 5, descriptorCount := 1 } ] } ]

/-- The eight calls one iteration of the loop of `setupDescriptors` makes, in
order, when the device log has length `base` before the iteration, the
descriptor-set layouts are `layouts` and the uniform buffers of the slot are
`buffers`.  Used to state what the loop does to the device log. -/
def setupDescriptorsFrameCalls (descriptorAllocInfo : VkDescriptorSetAllocateInfo)
    (positionImgDescriptor normalImgDescriptor albedoImgDescriptor gtaoImgDescriptor
      gtaoBlurImgDescriptor : VkDescriptorImageInfo)
    (layouts : DescriptorSetLayouts) (buffers : UniformBuffers) (base : Nat) : List Call :=
  [ Call.vkAllocateDescriptorSets { descriptorAllocInfo with pSetLayouts := [layouts.gBuffer] },
    Call.vkUpdateDescriptorSets
      [ vks.initializers.writeDescriptorSet (base + 1) VK_DESCRIPTOR_TYPE_UNIFORM_BUFFER 0 buffers.sceneParams.descriptor ],
    Call.vkAllocateDescriptorSets { descriptorAllocInfo with pSetLayouts := [layouts.gtao] },
    Call.vkUpdateDescriptorSets
      [ vks.initializers.writeDescriptorSetImage (base + 3) VK_DESCRIPTOR_TYPE_COMBINED_IMAGE_SAMPLER 0 positionImgDescriptor,
        vks.initializers.writeDescriptorSetImage (base + 3) VK_DESCRIPTOR_TYPE_COMBINED_IMAGE_SAMPLER 1 normalImgDescriptor,
        vks.initializers.writeDescriptorSet (base + 3) VK_DESCRIPTOR_TYPE_UNIFORM_BUFFER 2 buffers.gtaoSettings.descriptor,
        vks.initializers.writeDescriptorSet (base + 3) VK_DESCRIPTOR_TYPE_UNIFORM_BUFFER 3 buffers.gtaoParams.descriptor ],
    Call.vkAllocateDescriptorSets { descriptorAllocInfo with pSetLayouts := [layouts.gtaoBlur] },
    Call.vkUpdateDescriptorSets
      [ vks.initializers.writeDescriptorSetImage (base + 5) VK_DESCRIPTOR_TYPE_COMBINED_IMAGE_SAMPLER 0 gtaoImgDescriptor ],
    Call.vkAllocateDescriptorSets { descriptorAllocInfo with pSetLayouts := [layouts.composition] },
    Call.vkUpdateDescriptorSets
      [ vks.initializers.writeDescriptorSetImage (base + 7) VK_DESCRIPTOR_TYPE_COMBINED_IMAGE_SAMPLER 0 positionImgDescriptor,
        vks.initializers.writeDescriptorSetImage (base + 7) VK_DESCRIPTOR_TYPE_COMBINED_IMAGE_SAMPLER 1 normalImgDescriptor,
        vks.initializers.writeDescriptorSetImage (base + 7) VK_DESCRIPTOR_TYPE_COMBINED_IMAGE_SAMPLER 2 albedoImgDescriptor,
        vks.initializers.writeDescriptorSetImage (base + 7) VK_DESCRIPTOR_TYPE_COMBINED_IMAGE_SAMPLER 3 gtaoImgDescriptor,
        vks.initializers.writeDescriptorSetImage (base + 7) VK_DESCRIPTOR_TYPE_COMBINED_IMAGE_SAMPLER 4 gtaoBlurImgDescriptor,
        vks.initializers.writeDescriptorSet (base + 7) VK_DESCRIPTOR_TYPE_UNIFORM_BUFFER 5 buffers.gtaoParams.descriptor ] ]

/-- The descriptor sets one iteration of the loop of `setupDescriptors` leaves
in its slot when the device log has length `base` before the iteration. -/
def setupDescriptorsFrameSets (base : Nat) : DescriptorSets :=
  { gBuffer := base + 1, gtao := base + 3, gtaoBlur := base + 5, composition := base + 7 }

/-- A state as `VulkanExampleBase::prepare` and `loadAssets` leave it, for a
1280x720 window, two frames in flight and eight objects created by the base
class (render pass 1, swap-chain framebuffers 2 to 4, command buffers 5 and 6,
pipeline cache 7, image set layout of the glTF loader 8). -/
def sampleState : VulkanExample :=
  { ANDROID := false,
    maxConcurrentFrames := 2,
    device := Call.vkCreateRenderPass sampleSwapChainRenderPass :: List.replicate 7 Call.base,
    supportedDepthFormat := some VK_FORMAT_D32_SFLOAT_S8_UINT,
    width := 1280,
    height := 720,
    renderPass := 1,
    swapChainFrameBuffers := fun i => 2 + i,
    drawCmdBuffers := fun i => 5 + i,
    pipelineCache := 7,
    descriptorSetLayoutImage := 8,
    shadersPath := "shaders/glsl/",
    defaultClearColor := VkClearValue.color (F32.lit 25 1000) (F32.lit 25 1000) (F32.lit 25 1000) (F32.lit 1 1),
    camera := { perspective := glm.mat4.diagonal (F32.lit 2 1), view := glm.mat4.diagonal (F32.lit 3 1) },
    uboSceneParams := { projection := glm.mat4.diagonal (F32.lit 0 1),
                        model := glm.mat4.diagonal (F32.lit 0 1),
                        view := glm.mat4.diagonal (F32.lit 0 1) },
    uboGTAOParams := { projection := glm.mat4.diagonal (F32.lit 0 1) } }

/-- The sample state after `prepare`. -/
def preparedSample : VulkanExample :=
  (prepare sampleState).getD sampleState

/-- The sample state after `prepareOffscreenFramebuffers` alone. -/
def offscreenSample : VulkanExample :=
  (prepareOffscreenFramebuffers sampleState).getD sampleState

/-- The state that differs from `s` in the show-occlusion-only toggle alone,
which the check box of `OnUpdateUIOverlay` writes. -/
def setGtaoOnly (s : VulkanExample) (v : Int) : VulkanExample :=
  { s with uboGTAOParams := { s.uboGTAOParams with gtaoOnly := v } }

/-- The prepared sample state with the show-occlusion-only toggle switched on. -/
def toggledSample : VulkanExample :=
  setGtaoOnly preparedSample 1

/-- The sample state of a build for Android. -/
def androidSample : VulkanExample :=
  { sampleState with ANDROID := true }

/-- An overlay whose section is open and whose user changes nothing. -/
def sampleOverlay : vks.UIOverlay :=
  { header := fun _ => true,
    checkBox := fun _ value => value,
    sliderFloat := fun _ value _ _ => value }

end GTAO
/-! ## `examples/hbao/hbao.cpp` -/

namespace HBAO

abbrev HBAO_DIRECTION_NUMS : Nat := 8
abbrev HBAO_STEP_NUMS : Nat := 6

/-- `struct UBOSceneParams`. -/
structure UBOSceneParams where
  projection : glm.mat4
  model : glm.mat4
  view : glm.mat4
  nearPlane : F32 := F32.lit 1 10
  farPlane : F32 := F32.lit 64 1
  deriving DecidableEq, Repr

/-- `struct UBOHBAOParams`. -/
structure UBOHBAOParams where
  projection : glm.mat4
  hbao : Int := 1
  hbaoOnly : Int := 0
  hbaoBlur : Int := 1
  deriving DecidableEq, Repr

/-- `struct UBOHBAOSettings`. -/
structure UBOHBAOSettings where
  radius : F32 := F32.lit 8 10
  intensity : F32 := F32.lit 4 10
  angleBias : F32 := F32.lit 3 10
  pad : F32 := F32.lit 0 1
  deriving DecidableEq, Repr

/-- `sizeof(uboSceneParams)`: three matrices of 16 floats and two floats. -/
abbrev sizeof_uboSceneParams : Nat := 3 * 64 + 4 + 4

/-- `sizeof(uboHBAOParams)`: one matrix of 16 floats and three `int32_t`. -/
abbrev sizeof_uboHBAOParams : Nat := 64 + 3 * 4

/-- `sizeof(uboHBAOSettings)`: four floats. -/
abbrev sizeof_uboHBAOSettings : Nat := 4 * 4

/-- The anonymous struct of `pipelineLayouts`. -/
structure PipelineLayouts where
  gBuffer : Nat := 0
  hbao : Nat := 0
  hbaoBlur : Nat := 0
  composition : Nat := 0
  deriving DecidableEq, Repr

/-- The anonymous struct of `pipelines`. -/
structure Pipelines where
  offscreen : Nat := 0
  composition : Nat := 0
  hbao : Nat := 0
  hbaoBlur : Nat := 0
  deriving DecidableEq, Repr

/-- The anonymous struct of `descriptorSetLayouts`. -/
structure DescriptorSetLayouts where
  gBuffer : Nat := 0
  hbao : Nat := 0
  hbaoBlur : Nat := 0
  composition : Nat := 0
  deriving DecidableEq, Repr

/-- `struct DescriptorSets`. -/
structure DescriptorSets where
  gBuffer : Nat := 0
  hbao : Nat := 0
  hbaoBlur : Nat := 0
  composition : Nat := 0
  deriving DecidableEq, Repr

/-- `struct UniformBuffers`. -/
structure UniformBuffers where
  sceneParams : vks.Buffer UBOSceneParams := {}
  hbaoSettings : vks.Buffer UBOHBAOSettings := {}
  hbaoParams : vks.Buffer UBOHBAOParams := {}

/-- `struct FrameBufferAttachment`. -/
structure FrameBufferAttachment where
  image : Nat := 0
  mem : Nat := 0
  view : Nat := 0
  format : VkFormat := VK_FORMAT_UNDEFINED
  deriving DecidableEq, Repr

/-- `struct FrameBuffer`. -/
structure FrameBuffer where
  width : Int := 0
  height : Int := 0
  frameBuffer : Nat := 0
  renderPass : Nat := 0
  deriving DecidableEq, Repr

/-- `FrameBuffer::setSize`. -/
def FrameBuffer.setSize (this : FrameBuffer) (w h : Int) : FrameBuffer :=
  { this with width := w, height := h }

/-- `struct Offscreen : public FrameBuffer`. -/
structure Offscreen extends FrameBuffer where
  position : FrameBufferAttachment := {}
  normal : FrameBufferAttachment := {}
  albedo : FrameBufferAttachment := {}
  depth : FrameBufferAttachment := {}
  deriving DecidableEq, Repr

/-- `struct HBAO : public FrameBuffer`. -/
structure HBAO extends FrameBuffer where
  color : FrameBufferAttachment := {}
  deriving DecidableEq, Repr

/-- The anonymous struct of `frameBuffers`. -/
structure FrameBuffers where
  offscreen : Offscreen := {}
  hbao : HBAO := {}
  hbaoBlur : HBAO := {}
  deriving DecidableEq, Repr

/-- The state of `class VulkanExample`.  The first group of fields is the
compile-time configuration and the members inherited from `VulkanExampleBase`
(`frameBuffers` of the base class is `swapChainFrameBuffers`;
`supportedDepthFormat` is what `vks::tools::getSupportedDepthFormat` finds on
the physical device; `descriptorSetLayoutImage` is the global of the glTF
loader).  A `std::array` over the frames in flight is a function of the slot
index; its valid indices are those below `maxConcurrentFrames`. -/
structure VulkanExample where
  ANDROID : Bool
  maxConcurrentFrames : Nat
  device : Device
  supportedDepthFormat : Option VkFormat
  width : Nat
  height : Nat
  prepared : Bool := false
  currentBuffer : Nat := 0
  currentImageIndex : Nat := 0
  renderPass : Nat
  swapChainFrameBuffers : Nat → Nat
  drawCmdBuffers : Nat → Nat
  pipelineCache : Nat
  descriptorPool : Nat := 0
  descriptorSetLayoutImage : Nat
  shadersPath : String
  defaultClearColor : VkClearValue
  camera : Camera
  uboSceneParams : UBOSceneParams
  uboHBAOParams : UBOHBAOParams
  uboHBAOSettings : UBOHBAOSettings := {}
  pipelineLayouts : PipelineLayouts := {}
  pipelines : Pipelines := {}
  descriptorSetLayouts : DescriptorSetLayouts := {}
  descriptorSets : Nat → DescriptorSets := fun _ => {}
  uniformBuffers : Nat → UniformBuffers := fun _ => {}
  frameBuffers : FrameBuffers := {}
  colorSampler : Nat := 0

/-- `VulkanExample::createAttachment`.  The attachment written through the
pointer parameter is returned; a failing `assert` gives `none`. -/
def createAttachment (device : Device) (format : VkFormat) (usage : Nat) (width height : Nat) :
    Option (Device × FrameBufferAttachment) :=
  let aspectMask : Nat := 0
  let aspectMask :=
    if usage &&& VK_IMAGE_USAGE_COLOR_ATTACHMENT_BIT ≠ 0 then VK_IMAGE_ASPECT_COLOR_BIT
    else aspectMask
  let aspectMask :=
    if usage &&& VK_IMAGE_USAGE_DEPTH_STENCIL_ATTACHMENT_BIT ≠ 0 then
      (if format ≥ VK_FORMAT_D16_UNORM_S8_UINT then
        VK_IMAGE_ASPECT_DEPTH_BIT ||| VK_IMAGE_ASPECT_STENCIL_BIT
      else VK_IMAGE_ASPECT_DEPTH_BIT)
    else aspectMask
  if aspectMask > 0 then
    let image : VkImageCreateInfo :=
      { imageType := VK_IMAGE_TYPE_2D, format := format,
        extent := { width := width, height := height, depth := 1 },
        mipLevels := 1, arrayLayers := 1, samples := VK_SAMPLE_COUNT_1_BIT,
        tiling := VK_IMAGE_TILING_OPTIMAL, usage := usage ||| VK_IMAGE_USAGE_SAMPLED_BIT }
    let r := device.call (Call.vkCreateImage image)
    let device := r.1
    let attachment_image := r.2
    let r := device.call (Call.vkAllocateMemory attachment_image VK_MEMORY_PROPERTY_DEVICE_LOCAL_BIT)
    let device := r.1
    let attachment_mem := r.2
    let device := (device.call (Call.vkBindImageMemory attachment_image attachment_mem 0)).1
    let imageView : VkImageViewCreateInfo :=
      { viewType := VK_IMAGE_VIEW_TYPE_2D, format := format,
        subresourceRange := { aspectMask := aspectMask, baseMipLevel := 0, levelCount := 1,
                              baseArrayLayer := 0, layerCount := 1 },
        image := attachment_image }
    let r := device.call (Call.vkCreateImageView imageView)
    some (r.1, { image := attachment_image, mem := attachment_mem, view := r.2, format := format })
  else none

/-- The block `// G-Buffer creation` of `prepareOffscreenFramebuffers`: the
create-info handed to `vkCreateRenderPass`.  The parameters are the four
attachments of `frameBuffers.offscreen`, whose formats the block reads. -/
def gBufferRenderPassInfo (position normal albedo depth : FrameBufferAttachment) :
    VkRenderPassCreateInfo :=
  let attachmentDescs : List VkAttachmentDescription := List.replicate 4 {}
  let attachmentDescs := (List.range 4).foldl (fun descs i =>
    descs.modify (fun d => { d with
      samples := VK_SAMPLE_COUNT_1_BIT,
      loadOp := VK_ATTACHMENT_LOAD_OP_CLEAR,
      storeOp := VK_ATTACHMENT_STORE_OP_STORE,
      stencilLoadOp := VK_ATTACHMENT_LOAD_OP_DONT_CARE,
      stencilStoreOp := VK_ATTACHMENT_STORE_OP_DONT_CARE,
      finalLayout := if i = 3 then VK_IMAGE_LAYOUT_DEPTH_STENCIL_READ_ONLY_OPTIMAL
                     else VK_IMAGE_LAYOUT_SHADER_READ_ONLY_OPTIMAL }) i) attachmentDescs
  let attachmentDescs := attachmentDescs.modify
    (fun d => { d with format := position.format }) 0
  let attachmentDescs := attachmentDescs.modify
    (fun d => { d with format := normal.format }) 1
  let attachmentDescs := attachmentDescs.modify
    (fun d => { d with format := albedo.format }) 2
  let attachmentDescs := attachmentDescs.modify
    (fun d => { d with format := depth.format }) 3
  let colorReferences : List VkAttachmentReference := []
  let colorReferences := colorReferences ++ [{ attachment := 0, layout := VK_IMAGE_LAYOUT_COLOR_ATTACHMENT_OPTIMAL }]
  let colorReferences := colorReferences ++ [{ attachment := 1, layout := VK_IMAGE_LAYOUT_COLOR_ATTACHMENT_OPTIMAL }]
  let colorReferences := colorReferences ++ [{ attachment := 2, layout := VK_IMAGE_LAYOUT_COLOR_ATTACHMENT_OPTIMAL }]
  let depthReference : VkAttachmentReference :=
    { attachment := 3, layout := VK_IMAGE_LAYOUT_DEPTH_STENCIL_ATTACHMENT_OPTIMAL }
  let subpass : VkSubpassDescription :=
    { pipelineBindPoint := VK_PIPELINE_BIND_POINT_GRAPHICS,
      pColorAttachments := span colorReferences.length colorReferences,
      pDepthStencilAttachment := some depthReference }
  let dependencies : List VkSubpassDependency :=
    [ { srcSubpass := VK_SUBPASS_EXTERNAL,
        dstSubpass := 0,
        srcStageMask := VK_PIPELINE_STAGE_EARLY_FRAGMENT_TESTS_BIT ||| VK_PIPELINE_STAGE_LATE_FRAGMENT_TESTS_BIT,
        dstStageMask := VK_PIPELINE_STAGE_EARLY_FRAGMENT_TESTS_BIT ||| VK_PIPELINE_STAGE_LATE_FRAGMENT_TESTS_BIT,
        srcAccessMask := VK_ACCESS_DEPTH_STENCIL_ATTACHMENT_WRITE_BIT,
        dstAccessMask := VK_ACCESS_DEPTH_STENCIL_ATTACHMENT_WRITE_BIT ||| VK_ACCESS_DEPTH_STENCIL_ATTACHMENT_READ_BIT,
        dependencyFlags := 0 },
      { srcSubpass := VK_SUBPASS_EXTERNAL,
        dstSubpass := 0,
        srcStageMask := VK_PIPELINE_STAGE_FRAGMENT_SHADER_BIT,
        dstStageMask := VK_PIPELINE_STAGE_COLOR_ATTACHMENT_OUTPUT_BIT,
        srcAccessMask := VK_ACCESS_SHADER_READ_BIT,
        dstAccessMask := VK_ACCESS_COLOR_ATTACHMENT_WRITE_BIT,
        dependencyFlags := VK_DEPENDENCY_BY_REGION_BIT },
      { srcSubpass := 0,
        dstSubpass := VK_SUBPASS_EXTERNAL,
        srcStageMask := VK_PIPELINE_STAGE_COLOR_ATTACHMENT_OUTPUT_BIT,
        dstStageMask := VK_PIPELINE_STAGE_FRAGMENT_SHADER_BIT,
        srcAccessMask := VK_ACCESS_COLOR_ATTACHMENT_WRITE_BIT,
        dstAccessMask := VK_ACCESS_SHADER_READ_BIT,
        dependencyFlags := VK_DEPENDENCY_BY_REGION_BIT } ]
  { pAttachments := span attachmentDescs.length attachmentDescs,
    pSubpasses := span 1 [subpass],
    pDependencies := span 2 dependencies }

/-- The block `// HBAO` of `prepareOffscreenFramebuffers`: the create-info
handed to `vkCreateRenderPass`.  The parameter is `frameBuffers.hbao.color`. -/
def hbaoRenderPassInfo (color : FrameBufferAttachment) : VkRenderPassCreateInfo :=
  let attachmentDescription : VkAttachmentDescription :=
    { format := color.format,
      samples := VK_SAMPLE_COUNT_1_BIT,
      loadOp := VK_ATTACHMENT_LOAD_OP_CLEAR,
      storeOp := VK_ATTACHMENT_STORE_OP_STORE,
      stencilLoadOp := VK_ATTACHMENT_LOAD_OP_DONT_CARE,
      stencilStoreOp := VK_ATTACHMENT_STORE_OP_DONT_CARE,
      initialLayout := VK_IMAGE_LAYOUT_UNDEFINED,
      finalLayout := VK_IMAGE_LAYOUT_SHADER_READ_ONLY_OPTIMAL }
  let colorReference : VkAttachmentReference :=
    { attachment := 0, layout := VK_IMAGE_LAYOUT_COLOR_ATTACHMENT_OPTIMAL }
  let subpass : VkSubpassDescription :=
    { pipelineBindPoint := VK_PIPELINE_BIND_POINT_GRAPHICS,
      pColorAttachments := span 1 [colorReference] }
  let dependencies : List VkSubpassDependency :=
    [ { srcSubpass := VK_SUBPASS_EXTERNAL,
        dstSubpass := 0,
        srcStageMask := VK_PIPELINE_STAGE_BOTTOM_OF_PIPE_BIT,
        dstStageMask := VK_PIPELINE_STAGE_COLOR_ATTACHMENT_OUTPUT_BIT,
        srcAccessMask := VK_ACCESS_MEMORY_READ_BIT,
        dstAccessMask := VK_ACCESS_COLOR_ATTACHMENT_READ_BIT ||| VK_ACCESS_COLOR_ATTACHMENT_WRITE_BIT,
        dependencyFlags := VK_DEPENDENCY_BY_REGION_BIT },
      { srcSubpass := 0,
        dstSubpass := VK_SUBPASS_EXTERNAL,
        srcStageMask := VK_PIPELINE_STAGE_COLOR_ATTACHMENT_OUTPUT_BIT,
        dstStageMask := VK_PIPELINE_STAGE_BOTTOM_OF_PIPE_BIT,
        srcAccessMask := VK_ACCESS_COLOR_ATTACHMENT_READ_BIT ||| VK_ACCESS_COLOR_ATTACHMENT_WRITE_BIT,
        dstAccessMask := VK_ACCESS_MEMORY_READ_BIT,
        dependencyFlags := VK_DEPENDENCY_BY_REGION_BIT } ]
  { pAttachments := span 1 [attachmentDescription],
    pSubpasses := span 1 [subpass],
    pDependencies := span 2 dependencies }

/-- The block `// HBAO Blur` of `prepareOffscreenFramebuffers`: the create-info
handed to `vkCreateRenderPass`.  The parameter is `frameBuffers.hbaoBlur.color`. -/
def hbaoBlurRenderPassInfo (color : FrameBufferAttachment) : VkRenderPassCreateInfo :=
  let attachmentDescription : VkAttachmentDescription :=
    { format := color.format,
      samples := VK_SAMPLE_COUNT_1_BIT,
      loadOp := VK_ATTACHMENT_LOAD_OP_CLEAR,
      storeOp := VK_ATTACHMENT_STORE_OP_STORE,
      stencilLoadOp := VK_ATTACHMENT_LOAD_OP_DONT_CARE,
      stencilStoreOp := VK_ATTACHMENT_STORE_OP_DONT_CARE,
      initialLayout := VK_IMAGE_LAYOUT_UNDEFINED,
      finalLayout := VK_IMAGE_LAYOUT_SHADER_READ_ONLY_OPTIMAL }
  let colorReference : VkAttachmentReference :=
    { attachment := 0, layout := VK_IMAGE_LAYOUT_COLOR_ATTACHMENT_OPTIMAL }
  let subpass : VkSubpassDescription :=
    { pipelineBindPoint := VK_PIPELINE_BIND_POINT_GRAPHICS,
      pColorAttachments := span 1 [colorReference] }
  let dependencies : List VkSubpassDependency :=
    [ { srcSubpass := VK_SUBPASS_EXTERNAL,
        dstSubpass := 0,
        srcStageMask := VK_PIPELINE_STAGE_BOTTOM_OF_PIPE_BIT,
        dstStageMask := VK_PIPELINE_STAGE_COLOR_ATTACHMENT_OUTPUT_BIT,
        srcAccessMask := VK_ACCESS_MEMORY_READ_BIT,
        dstAccessMask := VK_ACCESS_COLOR_ATTACHMENT_READ_BIT ||| VK_ACCESS_COLOR_ATTACHMENT_WRITE_BIT,
        dependencyFlags := VK_DEPENDENCY_BY_REGION_BIT },
      { srcSubpass := 0,
        dstSubpass := VK_SUBPASS_EXTERNAL,
        srcStageMask := VK_PIPELINE_STAGE_COLOR_ATTACHMENT_OUTPUT_BIT,
        dstStageMask := VK_PIPELINE_STAGE_BOTTOM_OF_PIPE_BIT,
        srcAccessMask := VK_ACCESS_COLOR_ATTACHMENT_READ_BIT ||| VK_ACCESS_COLOR_ATTACHMENT_WRITE_BIT,
        dstAccessMask := VK_ACCESS_MEMORY_READ_BIT,
        dependencyFlags := VK_DEPENDENCY_BY_REGION_BIT } ]
  { pAttachments := span 1 [attachmentDescription],
    pSubpasses := span 1 [subpass],
    pDependencies := span 2 dependencies }

/-- `VulkanExample::prepareOffscreenFramebuffers`.  With `__ANDROID__` defined
`hbaoWidth` and `hbaoHeight` are half the output size (unsigned division).  A
failing `assert` gives no result.  Every member of
`frameBuffers` is assigned once; the local `offscreen_position` stands for
`frameBuffers.offscreen.position`, and so on. -/
def prepareOffscreenFramebuffers (s : VulkanExample) : Option VulkanExample := do
  let size := if s.ANDROID then (s.width / 2, s.height / 2) else (s.width, s.height)
  let hbaoWidth := size.1
  let hbaoHeight := size.2
  let offscreen_size : FrameBuffer := s.frameBuffers.offscreen.toFrameBuffer.setSize (toInt32 s.width) (toInt32 s.height)
  let hbao_size : FrameBuffer := s.frameBuffers.hbao.toFrameBuffer.setSize (toInt32 hbaoWidth) (toInt32 hbaoHeight)
  let hbaoBlur_size : FrameBuffer := s.frameBuffers.hbaoBlur.toFrameBuffer.setSize (toInt32 s.width) (toInt32 s.height)
  -- Find a suitable depth format
  let attDepthFormat ← s.supportedDepthFormat
  -- G-Buffer
  let r ← createAttachment s.device VK_FORMAT_R32G32B32A32_SFLOAT VK_IMAGE_USAGE_COLOR_ATTACHMENT_BIT s.width s.height
  let offscreen_position := r.2
  let r ← createAttachment r.1 VK_FORMAT_R8G8B8A8_UNORM VK_IMAGE_USAGE_COLOR_ATTACHMENT_BIT s.width s.height
  let offscreen_normal := r.2
  let r ← createAttachment r.1 VK_FORMAT_R8G8B8A8_UNORM VK_IMAGE_USAGE_COLOR_ATTACHMENT_BIT s.width s.height
  let offscreen_albedo := r.2
  let r ← createAttachment r.1 attDepthFormat VK_IMAGE_USAGE_DEPTH_STENCIL_ATTACHMENT_BIT s.width s.height
  let offscreen_depth := r.2
  -- HBAO
  let r ← createAttachment r.1 VK_FORMAT_R8_UNORM VK_IMAGE_USAGE_COLOR_ATTACHMENT_BIT hbaoWidth hbaoHeight
  let hbao_color := r.2
  -- HBAO blur
  let r ← createAttachment r.1 VK_FORMAT_R8_UNORM VK_IMAGE_USAGE_COLOR_ATTACHMENT_BIT s.width s.height
  let hbaoBlur_color := r.2
  -- G-Buffer creation
  let r := r.1.call (Call.vkCreateRenderPass
    (gBufferRenderPassInfo offscreen_position offscreen_normal offscreen_albedo offscreen_depth))
  let offscreen_renderPass := r.2
  let attachments : List Nat :=
    [ offscreen_position.view, offscreen_normal.view, offscreen_albedo.view, offscreen_depth.view ]
  let fbufCreateInfo : VkFramebufferCreateInfo :=
    { renderPass := offscreen_renderPass,
      pAttachments := span attachments.length attachments,
      width := toUInt32 offscreen_size.width,
      height := toUInt32 offscreen_size.height,
      layers := 1 }
  let r := r.1.call (Call.vkCreateFramebuffer fbufCreateInfo)
  let offscreen_frameBuffer := r.2
  -- HBAO
  let r := r.1.call (Call.vkCreateRenderPass (hbaoRenderPassInfo hbao_color))
  let hbao_renderPass := r.2
  let fbufCreateInfo : VkFramebufferCreateInfo :=
    { renderPass := hbao_renderPass,
      pAttachments := span 1 [hbao_color.view],
      width := toUInt32 hbao_size.width,
      height := toUInt32 hbao_size.height,
      layers := 1 }
  let r := r.1.call (Call.vkCreateFramebuffer fbufCreateInfo)
  let hbao_frameBuffer := r.2
  -- HBAO Blur
  let r := r.1.call (Call.vkCreateRenderPass (hbaoBlurRenderPassInfo hbaoBlur_color))
  let hbaoBlur_renderPass := r.2
  let fbufCreateInfo : VkFramebufferCreateInfo :=
    { renderPass := hbaoBlur_renderPass,
      pAttachments := span 1 [hbaoBlur_color.view],
      width := toUInt32 hbaoBlur_size.width,
      height := toUInt32 hbaoBlur_size.height,
      layers := 1 }
  let r := r.1.call (Call.vkCreateFramebuffer fbufCreateInfo)
  let hbaoBlur_frameBuffer := r.2
  -- Shared sampler used for all color attachments
  let sampler : VkSamplerCreateInfo :=
    { magFilter := VK_FILTER_NEAREST,
      minFilter := VK_FILTER_NEAREST,
      mipmapMode := VK_SAMPLER_MIPMAP_MODE_LINEAR,
      addressModeU := VK_SAMPLER_ADDRESS_MODE_CLAMP_TO_EDGE,
      addressModeV := VK_SAMPLER_ADDRESS_MODE_CLAMP_TO_EDGE,
      addressModeW := VK_SAMPLER_ADDRESS_MODE_CLAMP_TO_EDGE,
      mipLodBias := F32.lit 0 1,
      maxAnisotropy := F32.lit 1 1,
      minLod := F32.lit 0 1,
      maxLod := F32.lit 1 1,
      borderColor := VK_BORDER_COLOR_FLOAT_OPAQUE_WHITE }
  let r := r.1.call (Call.vkCreateSampler sampler)
  some { s with
    device := r.1,
    frameBuffers :=
      { offscreen :=
          { width := offscreen_size.width, height := offscreen_size.height,
            frameBuffer := offscreen_frameBuffer, renderPass := offscreen_renderPass,
            position := offscreen_position, normal := offscreen_normal,
            albedo := offscreen_albedo, depth := offscreen_depth },
        hbao :=
          { width := hbao_size.width, height := hbao_size.height,
            frameBuffer := hbao_frameBuffer, renderPass := hbao_renderPass,
            color := hbao_color },
        hbaoBlur :=
          { width := hbaoBlur_size.width, height := hbaoBlur_size.height,
            frameBuffer := hbaoBlur_frameBuffer, renderPass := hbaoBlur_renderPass,
            color := hbaoBlur_color } },
    colorSampler := r.2 }

/-- `VulkanExample::setupDescriptors`, the body of the loop over the frames in
flight, for frame `i`.  `descriptorAllocInfo` and the five image descriptors
are the locals the loop reads. -/
def setupDescriptorsFrame (descriptorAllocInfo : VkDescriptorSetAllocateInfo)
    (positionImgDescriptor normalImgDescriptor albedoImgDescriptor hbaoImgDescriptor
      hbaoBlurImgDescriptor : VkDescriptorImageInfo)
    (s : VulkanExample) (i : Nat) : VulkanExample :=
  -- G-Buffer creation (offscreen scene rendering)
  let r := s.device.call (Call.vkAllocateDescriptorSets
    { descriptorAllocInfo with pSetLayouts := [s.descriptorSetLayouts.gBuffer] })
  let descriptorSets_gBuffer := r.2
  let writeDescriptorSets : List VkWriteDescriptorSet :=
    [ vks.initializers.writeDescriptorSet descriptorSets_gBuffer VK_DESCRIPTOR_TYPE_UNIFORM_BUFFER 0 (s.uniformBuffers i).sceneParams.descriptor ]
  let r := r.1.call (Call.vkUpdateDescriptorSets (span writeDescriptorSets.length writeDescriptorSets))
  -- HBAO Generation
  let r := r.1.call (Call.vkAllocateDescriptorSets
    { descriptorAllocInfo with pSetLayouts := [s.descriptorSetLayouts.hbao] })
  let descriptorSets_hbao := r.2
  let writeDescriptorSets : List VkWriteDescriptorSet :=
    [ vks.initializers.writeDescriptorSetImage descriptorSets_hbao VK_DESCRIPTOR_TYPE_COMBINED_IMAGE_SAMPLER 0 positionImgDescriptor,
      vks.initializers.writeDescriptorSetImage descriptorSets_hbao VK_DESCRIPTOR_TYPE_COMBINED_IMAGE_SAMPLER 1 normalImgDescriptor,
      vks.initializers.writeDescriptorSet descriptorSets_hbao VK_DESCRIPTOR_TYPE_UNIFORM_BUFFER 2 (s.uniformBuffers i).hbaoSettings.descriptor,
      vks.initializers.writeDescriptorSet descriptorSets_hbao VK_DESCRIPTOR_TYPE_UNIFORM_BUFFER 3 (s.uniformBuffers i).hbaoParams.descriptor ]
  let r := r.1.call (Call.vkUpdateDescriptorSets (span writeDescriptorSets.length writeDescriptorSets))
  -- HBAO Blur
  let r := r.1.call (Call.vkAllocateDescriptorSets
    { descriptorAllocInfo with pSetLayouts := [s.descriptorSetLayouts.hbaoBlur] })
  let descriptorSets_hbaoBlur := r.2
  let writeDescriptorSets : List VkWriteDescriptorSet :=
    [ vks.initializers.writeDescriptorSetImage descriptorSets_hbaoBlur VK_DESCRIPTOR_TYPE_COMBINED_IMAGE_SAMPLER 0 hbaoImgDescriptor ]
  let r := r.1.call (Call.vkUpdateDescriptorSets (span writeDescriptorSets.length writeDescriptorSets))
  -- Composition
  let r := r.1.call (Call.vkAllocateDescriptorSets
    { descriptorAllocInfo with pSetLayouts := [s.descriptorSetLayouts.composition] })
  let descriptorSets_composition := r.2
  let writeDescriptorSets : List VkWriteDescriptorSet :=
    [ vks.initializers.writeDescriptorSetImage descriptorSets_composition VK_DESCRIPTOR_TYPE_COMBINED_IMAGE_SAMPLER 0 positionImgDescriptor,
      vks.initializers.writeDescriptorSetImage descriptorSets_composition VK_DESCRIPTOR_TYPE_COMBINED_IMAGE_SAMPLER 1 normalImgDescriptor,
      vks.initializers.writeDescriptorSetImage descriptorSets_composition VK_DESCRIPTOR_TYPE_COMBINED_IMAGE_SAMPLER 2 albedoImgDescriptor,
      vks.initializers.writeDescriptorSetImage descriptorSets_composition VK_DESCRIPTOR_TYPE_COMBINED_IMAGE_SAMPLER 3 hbaoImgDescriptor,
      vks.initializers.writeDescriptorSetImage descriptorSets_composition VK_DESCRIPTOR_TYPE_COMBINED_IMAGE_SAMPLER 4 hbaoBlurImgDescriptor,
      vks.initializers.writeDescriptorSet descriptorSets_composition VK_DESCRIPTOR_TYPE_UNIFORM_BUFFER 5 (s.uniformBuffers i).hbaoParams.descriptor ]
  let r := r.1.call (Call.vkUpdateDescriptorSets (span writeDescriptorSets.length writeDescriptorSets))
  { s with
    device := r.1,
    descriptorSets := Function.update s.descriptorSets i
      { gBuffer := descriptorSets_gBuffer, hbao := descriptorSets_hbao,
        hbaoBlur := descriptorSets_hbaoBlur, composition := descriptorSets_composition } }

/-- `VulkanExample::setupDescriptors`.  The products by `maxConcurrentFrames`
are computed in `uint32_t`. -/
def setupDescriptors (s : VulkanExample) : VulkanExample :=
  -- Pool
  let poolSizes : List VkDescriptorPoolSize :=
    [ vks.initializers.descriptorPoolSize VK_DESCRIPTOR_TYPE_UNIFORM_BUFFER (s.maxConcurrentFrames * 4 % UINT32_RANGE),
      vks.initializers.descriptorPoolSize VK_DESCRIPTOR_TYPE_COMBINED_IMAGE_SAMPLER (s.maxConcurrentFrames * 9 % UINT32_RANGE) ]
  let descriptorPoolInfo := vks.initializers.descriptorPoolCreateInfo poolSizes (s.maxConcurrentFrames * 4 % UINT32_RANGE)
  let r := s.device.call (Call.vkCreateDescriptorPool descriptorPoolInfo)
  let descriptorPool := r.2
  let descriptorAllocInfo := vks.initializers.descriptorSetAllocateInfo descriptorPool [] 1
  -- Layouts
  -- G-Buffer creation (offscreen scene rendering)
  let setLayoutBindings : List VkDescriptorSetLayoutBinding :=
    [ vks.initializers.descriptorSetLayoutBinding VK_DESCRIPTOR_TYPE_UNIFORM_BUFFER (VK_SHADER_STAGE_VERTEX_BIT ||| VK_SHADER_STAGE_FRAGMENT_BIT) 0 ]
  let setLayoutCreateInfo := vks.initializers.descriptorSetLayoutCreateInfo setLayoutBindings setLayoutBindings.length
  let r := r.1.call (Call.vkCreateDescriptorSetLayout setLayoutCreateInfo)
  let descriptorSetLayouts_gBuffer := r.2
  -- HBAO Generation
  let setLayoutBindings : List VkDescriptorSetLayoutBinding :=
    [ vks.initializers.descriptorSetLayoutBinding VK_DESCRIPTOR_TYPE_COMBINED_IMAGE_SAMPLER VK_SHADER_STAGE_FRAGMENT_BIT 0,
      vks.initializers.descriptorSetLayoutBinding VK_DESCRIPTOR_TYPE_COMBINED_IMAGE_SAMPLER VK_SHADER_STAGE_FRAGMENT_BIT 1,
      vks.initializers.descriptorSetLayoutBinding VK_DESCRIPTOR_TYPE_UNIFORM_BUFFER VK_SHADER_STAGE_FRAGMENT_BIT 2,
      vks.initializers.descriptorSetLayoutBinding VK_DESCRIPTOR_TYPE_UNIFORM_BUFFER VK_SHADER_STAGE_FRAGMENT_BIT 3 ]
  let setLayoutCreateInfo := vks.initializers.descriptorSetLayoutCreateInfo setLayoutBindings setLayoutBindings.length
  let r := r.1.call (Call.vkCreateDescriptorSetLayout setLayoutCreateInfo)
  let descriptorSetLayouts_hbao := r.2
  -- HBAO Blur
  let setLayoutBindings : List VkDescriptorSetLayoutBinding :=
    [ vks.initializers.descriptorSetLayoutBinding VK_DESCRIPTOR_TYPE_COMBINED_IMAGE_SAMPLER VK_SHADER_STAGE_FRAGMENT_BIT 0 ]
  let setLayoutCreateInfo := vks.initializers.descriptorSetLayoutCreateInfo setLayoutBindings setLayoutBindings.length
  let r := r.1.call (Call.vkCreateDescriptorSetLayout setLayoutCreateInfo)
  let descriptorSetLayouts_hbaoBlur := r.2
  -- Composition
  let setLayoutBindings : List VkDescriptorSetLayoutBinding :=
    [ vks.initializers.descriptorSetLayoutBinding VK_DESCRIPTOR_TYPE_COMBINED_IMAGE_SAMPLER VK_SHADER_STAGE_FRAGMENT_BIT 0,
      vks.initializers.descriptorSetLayoutBinding VK_DESCRIPTOR_TYPE_COMBINED_IMAGE_SAMPLER VK_SHADER_STAGE_FRAGMENT_BIT 1,
      vks.initializers.descriptorSetLayoutBinding VK_DESCRIPTOR_TYPE_COMBINED_IMAGE_SAMPLER VK_SHADER_STAGE_FRAGMENT_BIT 2,
      vks.initializers.descriptorSetLayoutBinding VK_DESCRIPTOR_TYPE_COMBINED_IMAGE_SAMPLER VK_SHADER_STAGE_FRAGMENT_BIT 3,
      vks.initializers.descriptorSetLayoutBinding VK_DESCRIPTOR_TYPE_COMBINED_IMAGE_SAMPLER VK_SHADER_STAGE_FRAGMENT_BIT 4,
      vks.initializers.descriptorSetLayoutBinding VK_DESCRIPTOR_TYPE_UNIFORM_BUFFER VK_SHADER_STAGE_FRAGMENT_BIT 5 ]
  let setLayoutCreateInfo := vks.initializers.descriptorSetLayoutCreateInfo setLayoutBindings setLayoutBindings.length
  let r := r.1.call (Call.vkCreateDescriptorSetLayout setLayoutCreateInfo)
  let descriptorSetLayouts_composition := r.2
  -- Descriptor info for all images used as descriptors
  let positionImgDescriptor := vks.initializers.descriptorImageInfo s.colorSampler s.frameBuffers.offscreen.position.view VK_IMAGE_LAYOUT_SHADER_READ_ONLY_OPTIMAL
  let normalImgDescriptor := vks.initializers.descriptorImageInfo s.colorSampler s.frameBuffers.offscreen.normal.view VK_IMAGE_LAYOUT_SHADER_READ_ONLY_OPTIMAL
  let albedoImgDescriptor := vks.initializers.descriptorImageInfo s.colorSampler s.frameBuffers.offscreen.albedo.view VK_IMAGE_LAYOUT_SHADER_READ_ONLY_OPTIMAL
  let hbaoImgDescriptor := vks.initializers.descriptorImageInfo s.colorSampler s.frameBuffers.hbao.color.view VK_IMAGE_LAYOUT_SHADER_READ_ONLY_OPTIMAL
  let hbaoBlurImgDescriptor := vks.initializers.descriptorImageInfo s.colorSampler s.frameBuffers.hbaoBlur.color.view VK_IMAGE_LAYOUT_SHADER_READ_ONLY_OPTIMAL
  -- Sets per frame, just like the buffers themselves
  (List.range s.maxConcurrentFrames).foldl
    (setupDescriptorsFrame descriptorAllocInfo positionImgDescriptor normalImgDescriptor
      albedoImgDescriptor hbaoImgDescriptor hbaoBlurImgDescriptor)
    { s with
      device := r.1,
      descriptorPool := descriptorPool,
      descriptorSetLayouts :=
        { gBuffer := descriptorSetLayouts_gBuffer, hbao := descriptorSetLayouts_hbao,
          hbaoBlur := descriptorSetLayouts_hbaoBlur,
          composition := descriptorSetLayouts_composition } }

/-- `VulkanExample::preparePipelines`.  A create-info handed to Vulkan is
written out with every pointer member replaced by the value of the local it
points to at the call. -/
def preparePipelines (s : VulkanExample) : VulkanExample :=
  -- Layouts
  let setLayouts : List Nat := [s.descriptorSetLayouts.gBuffer, s.descriptorSetLayoutImage]
  let r := s.device.call (Call.vkCreatePipelineLayout { pSetLayouts := span 2 setLayouts })
  let pipelineLayouts_gBuffer := r.2
  let r := r.1.call (Call.vkCreatePipelineLayout { pSetLayouts := span 1 [s.descriptorSetLayouts.hbao] })
  let pipelineLayouts_hbao := r.2
  let r := r.1.call (Call.vkCreatePipelineLayout { pSetLayouts := span 1 [s.descriptorSetLayouts.hbaoBlur] })
  let pipelineLayouts_hbaoBlur := r.2
  let r := r.1.call (Call.vkCreatePipelineLayout { pSetLayouts := span 1 [s.descriptorSetLayouts.composition] })
  let pipelineLayouts_composition := r.2
  -- Pipelines
  let inputAssemblyState := vks.initializers.pipelineInputAssemblyStateCreateInfo VK_PRIMITIVE_TOPOLOGY_TRIANGLE_LIST 0 false
  let rasterizationState := vks.initializers.pipelineRasterizationStateCreateInfo VK_POLYGON_MODE_FILL VK_CULL_MODE_BACK_BIT VK_FRONT_FACE_COUNTER_CLOCKWISE 0
  let blendAttachmentState := vks.initializers.pipelineColorBlendAttachmentState 0xf false
  let colorBlendState := vks.initializers.pipelineColorBlendStateCreateInfo 1 [blendAttachmentState]
  let depthStencilState := vks.initializers.pipelineDepthStencilStateCreateInfo true true VK_COMPARE_OP_LESS_OR_EQUAL
  let viewportState := vks.initializers.pipelineViewportStateCreateInfo 1 1 0
  let multisampleState := vks.initializers.pipelineMultisampleStateCreateInfo VK_SAMPLE_COUNT_1_BIT 0
  let dynamicStateEnables : List VkDynamicState := [VK_DYNAMIC_STATE_VIEWPORT, VK_DYNAMIC_STATE_SCISSOR]
  let dynamicState := vks.initializers.pipelineDynamicStateCreateInfo dynamicStateEnables
  let pipelineCreateInfo_layout := pipelineLayouts_composition
  let pipelineCreateInfo_renderPass := s.renderPass
  let pipelineCreateInfo_subpass := 0
  -- Empty vertex input state for fullscreen passes
  let emptyVertexInputState := vks.initializers.pipelineVertexInputStateCreateInfo
  let pipelineCreateInfo_pVertexInputState := emptyVertexInputState
  let rasterizationState1 := { rasterizationState with cullMode := VK_CULL_MODE_FRONT_BIT }
  -- Final composition pipeline
  let sh := loadShader r.1 (s.shadersPath ++ "hbao/fullscreen.vert.spv") VK_SHADER_STAGE_VERTEX_BIT
  let shaderStages0 := sh.2
  let sh := loadShader sh.1 (s.shadersPath ++ "hbao/composition.frag.spv") VK_SHADER_STAGE_FRAGMENT_BIT
  let shaderStages1 := sh.2
  let r := sh.1.call (Call.vkCreateGraphicsPipelines s.pipelineCache
    { layout := pipelineCreateInfo_layout, renderPass := pipelineCreateInfo_renderPass,
      subpass := pipelineCreateInfo_subpass, pStages := span 2 [shaderStages0, shaderStages1],
      pVertexInputState := pipelineCreateInfo_pVertexInputState,
      pInputAssemblyState := inputAssemblyState, pRasterizationState := rasterizationState1,
      pColorBlendState := colorBlendState, pMultisampleState := multisampleState,
      pViewportState := viewportState, pDepthStencilState := depthStencilState,
      pDynamicState := dynamicState })
  let pipelines_composition := r.2
  -- HBAO generation pipeline
  let pipelineCreateInfo_renderPass := s.frameBuffers.hbao.renderPass
  let pipelineCreateInfo_layout := pipelineLayouts_hbao
  let specializationData : List Nat := [HBAO_DIRECTION_NUMS, HBAO_STEP_NUMS]
  let specializationMapEntries : List VkSpecializationMapEntry :=
    [ vks.initializers.specializationMapEntry 0 0 4,
      vks.initializers.specializationMapEntry 1 4 4 ]
  let specializationInfo := vks.initializers.specializationInfo 2 specializationMapEntries 8 specializationData
  let sh := loadShader r.1 (s.shadersPath ++ "hbao/hbao.frag.spv") VK_SHADER_STAGE_FRAGMENT_BIT
  let shaderStages1 := { sh.2 with pSpecializationInfo := some specializationInfo }
  let r := sh.1.call (Call.vkCreateGraphicsPipelines s.pipelineCache
    { layout := pipelineCreateInfo_layout, renderPass := pipelineCreateInfo_renderPass,
      subpass := pipelineCreateInfo_subpass, pStages := span 2 [shaderStages0, shaderStages1],
      pVertexInputState := pipelineCreateInfo_pVertexInputState,
      pInputAssemblyState := inputAssemblyState, pRasterizationState := rasterizationState1,
      pColorBlendState := colorBlendState, pMultisampleState := multisampleState,
      pViewportState := viewportState, pDepthStencilState := depthStencilState,
      pDynamicState := dynamicState })
  let pipelines_hbao := r.2
  -- HBAO blur pipeline
  let pipelineCreateInfo_renderPass := s.frameBuffers.hbaoBlur.renderPass
  let pipelineCreateInfo_layout := pipelineLayouts_hbaoBlur
  let sh := loadShader r.1 (s.shadersPath ++ "hbao/blur.frag.spv") VK_SHADER_STAGE_FRAGMENT_BIT
  let shaderStages1 := sh.2
  let r := sh.1.call (Call.vkCreateGraphicsPipelines s.pipelineCache
    { layout := pipelineCreateInfo_layout, renderPass := pipelineCreateInfo_renderPass,
      subpass := pipelineCreateInfo_subpass, pStages := span 2 [shaderStages0, shaderStages1],
      pVertexInputState := pipelineCreateInfo_pVertexInputState,
      pInputAssemblyState := inputAssemblyState, pRasterizationState := rasterizationState1,
      pColorBlendState := colorBlendState, pMultisampleState := multisampleState,
      pViewportState := viewportState, pDepthStencilState := depthStencilState,
      pDynamicState := dynamicState })
  let pipelines_hbaoBlur := r.2
  -- Fill G-Buffer pipeline
  let pipelineCreateInfo_pVertexInputState := vkglTF.Vertex.getPipelineVertexInputState
    [VertexComponent.Position, VertexComponent.UV, VertexComponent.Color, VertexComponent.Normal]
  let pipelineCreateInfo_renderPass := s.frameBuffers.offscreen.renderPass
  let pipelineCreateInfo_layout := pipelineLayouts_gBuffer
  let blendAttachmentStates : List VkPipelineColorBlendAttachmentState :=
    [ vks.initializers.pipelineColorBlendAttachmentState 0xf false,
      vks.initializers.pipelineColorBlendAttachmentState 0xf false,
      vks.initializers.pipelineColorBlendAttachmentState 0xf false ]
  let colorBlendState1 : VkPipelineColorBlendStateCreateInfo :=
    { colorBlendState with pAttachments := span blendAttachmentStates.length blendAttachmentStates }
  let rasterizationState2 := { rasterizationState1 with cullMode := VK_CULL_MODE_BACK_BIT }
  let sh := loadShader r.1 (s.shadersPath ++ "hbao/gbuffer.vert.spv") VK_SHADER_STAGE_VERTEX_BIT
  let shaderStages0 := sh.2
  let sh := loadShader sh.1 (s.shadersPath ++ "hbao/gbuffer.frag.spv") VK_SHADER_STAGE_FRAGMENT_BIT
  let shaderStages1 := sh.2
  let r := sh.1.call (Call.vkCreateGraphicsPipelines s.pipelineCache
    { layout := pipelineCreateInfo_layout, renderPass := pipelineCreateInfo_renderPass,
      subpass := pipelineCreateInfo_subpass, pStages := span 2 [shaderStages0, shaderStages1],
      pVertexInputState := pipelineCreateInfo_pVertexInputState,
      pInputAssemblyState := inputAssemblyState, pRasterizationState := rasterizationState2,
      pColorBlendState := colorBlendState1, pMultisampleState := multisampleState,
      pViewportState := viewportState, pDepthStencilState := depthStencilState,
      pDynamicState := dynamicState })
  let pipelines_offscreen := r.2
  { s with
    device := r.1,
    pipelineLayouts :=
      { gBuffer := pipelineLayouts_gBuffer, hbao := pipelineLayouts_hbao,
        hbaoBlur := pipelineLayouts_hbaoBlur, composition := pipelineLayouts_composition },
    pipelines :=
      { offscreen := pipelines_offscreen, composition := pipelines_composition,
        hbao := pipelines_hbao, hbaoBlur := pipelines_hbaoBlur } }

/-- `VulkanExample::prepareBuffers`, the body of the loop over `uniformBuffers`,
for the element of index `i`. -/
def prepareBuffersFrame (s : VulkanExample) (i : Nat) : VulkanExample :=
  -- Scene matrices
  let b1 : Device × vks.Buffer UBOSceneParams := vks.VulkanDevice.createBuffer s.device
    VK_BUFFER_USAGE_UNIFORM_BUFFER_BIT
    (VK_MEMORY_PROPERTY_HOST_VISIBLE_BIT ||| VK_MEMORY_PROPERTY_HOST_COHERENT_BIT)
    sizeof_uboSceneParams
  -- HBAO parameters
  let b2 : Device × vks.Buffer UBOHBAOParams := vks.VulkanDevice.createBuffer b1.1
    VK_BUFFER_USAGE_UNIFORM_BUFFER_BIT
    (VK_MEMORY_PROPERTY_HOST_VISIBLE_BIT ||| VK_MEMORY_PROPERTY_HOST_COHERENT_BIT)
    sizeof_uboHBAOParams
  -- HBAO settings
  let b3 : Device × vks.Buffer UBOHBAOSettings := vks.VulkanDevice.createBuffer b2.1
    VK_BUFFER_USAGE_UNIFORM_BUFFER_BIT
    (VK_MEMORY_PROPERTY_HOST_VISIBLE_BIT ||| VK_MEMORY_PROPERTY_HOST_COHERENT_BIT)
    sizeof_uboHBAOSettings
  { s with
    device := b3.1,
    uniformBuffers := Function.update s.uniformBuffers i
      { sceneParams := b1.2.map, hbaoSettings := b3.2.map, hbaoParams := b2.2.map } }

/-- `VulkanExample::prepareBuffers`. -/
def prepareBuffers (s : VulkanExample) : VulkanExample :=
  (List.range s.maxConcurrentFrames).foldl prepareBuffersFrame s

/-- `VulkanExample::updateUniformBuffers`. -/
def updateUniformBuffers (s : VulkanExample) : VulkanExample :=
  -- Scene
  let uboSceneParams : UBOSceneParams :=
    { s.uboSceneParams with
      projection := s.camera.perspective,
      view := s.camera.view,
      model := glm.mat4.diagonal (F32.lit 1 1) }
  let buffers := s.uniformBuffers s.currentBuffer
  let sceneParams := buffers.sceneParams.copyTo uboSceneParams sizeof_uboSceneParams
  -- HBAO parameters
  let uboHBAOParams : UBOHBAOParams := { s.uboHBAOParams with projection := s.camera.perspective }
  let hbaoParams := buffers.hbaoParams.copyTo uboHBAOParams sizeof_uboHBAOParams
  let hbaoSettings := buffers.hbaoSettings.copyTo s.uboHBAOSettings sizeof_uboHBAOSettings
  { s with
    uboSceneParams := uboSceneParams,
    uboHBAOParams := uboHBAOParams,
    uniformBuffers := Function.update s.uniformBuffers s.currentBuffer
      { sceneParams := sceneParams, hbaoSettings := hbaoSettings, hbaoParams := hbaoParams } }

/-- `VulkanExample::prepare`.  `VulkanExampleBase::prepare` and `loadAssets`
are external: what they set up is the inherited part of the state. -/
def prepare (s : VulkanExample) : Option VulkanExample := do
  let s ← prepareOffscreenFramebuffers s
  let s := prepareBuffers s
  let s := setupDescriptors s
  let s := preparePipelines s
  some { s with prepared := true }

/-- `VulkanExample::buildCommandBuffer`: the command buffer recorded into and
the commands recorded, in order.  A begin-info handed to Vulkan is written out
with the clear values it points to at the call. -/
def buildCommandBuffer (s : VulkanExample) : Nat × List Cmd :=
  let cmdBuffer := s.drawCmdBuffers s.currentBuffer
  let cmds : List Cmd := [Cmd.vkBeginCommandBuffer]
  -- Offscreen HBAO generation
  -- Clear values for all attachments written in the fragment shader
  let o := F32.lit 0 1
  let clearValues : List VkClearValue := List.replicate 4 (VkClearValue.color o o o o)
  let clearValues := clearValues.set 0 (VkClearValue.color o o o (F32.lit 1 1))
  let clearValues := clearValues.set 1 (VkClearValue.color o o o (F32.lit 1 1))
  let clearValues := clearValues.set 2 (VkClearValue.color o o o (F32.lit 1 1))
  let clearValues := clearValues.set 3 (VkClearValue.depthStencil (F32.lit 1 1) 0)
  let renderPassBeginInfo : VkRenderPassBeginInfo :=
    { renderPass := s.frameBuffers.offscreen.renderPass,
      framebuffer := s.frameBuffers.offscreen.frameBuffer,
      renderArea := { extentWidth := toUInt32 s.frameBuffers.offscreen.width,
                      extentHeight := toUInt32 s.frameBuffers.offscreen.height },
      clearValueCount := clearValues.length,
      pClearValues := clearValues }
  -- First pass: Fill G-Buffer components (positions+depth, normals, albedo) using MRT
  let cmds := cmds ++ [Cmd.vkCmdBeginRenderPass renderPassBeginInfo VK_SUBPASS_CONTENTS_INLINE]
  let viewport := vks.initializers.viewport (F32.ofInt s.frameBuffers.offscreen.width) (F32.ofInt s.frameBuffers.offscreen.height) (F32.lit 0 1) (F32.lit 1 1)
  let cmds := cmds ++ [Cmd.vkCmdSetViewport 0 (span 1 [viewport])]
  let scissor := vks.initializers.rect2D s.frameBuffers.offscreen.width s.frameBuffers.offscreen.height 0 0
  let cmds := cmds ++ [Cmd.vkCmdSetScissor 0 (span 1 [scissor])]
  let cmds := cmds ++ [Cmd.vkCmdBindPipeline VK_PIPELINE_BIND_POINT_GRAPHICS s.pipelines.offscreen]
  let cmds := cmds ++ [Cmd.vkCmdBindDescriptorSets VK_PIPELINE_BIND_POINT_GRAPHICS s.pipelineLayouts.gBuffer 0 (span 1 [(s.descriptorSets s.currentBuffer).gBuffer]) (span 0 [])]
  let cmds := cmds ++ [Cmd.scene_draw true s.pipelineLayouts.gBuffer]
  let cmds := cmds ++ [Cmd.vkCmdEndRenderPass]
  -- Second pass: HBAO generation
  let clearValues := clearValues.set 0 (VkClearValue.color o o o (F32.lit 1 1))
  let clearValues := clearValues.set 1 (VkClearValue.depthStencil (F32.lit 1 1) 0)
  let renderPassBeginInfo : VkRenderPassBeginInfo :=
    { renderPass := s.frameBuffers.hbao.renderPass,
      framebuffer := s.frameBuffers.hbao.frameBuffer,
      renderArea := { extentWidth := toUInt32 s.frameBuffers.hbao.width,
                      extentHeight := toUInt32 s.frameBuffers.hbao.height },
      clearValueCount := 2,
      pClearValues := clearValues }
  let cmds := cmds ++ [Cmd.vkCmdBeginRenderPass renderPassBeginInfo VK_SUBPASS_CONTENTS_INLINE]
  let viewport := vks.initializers.viewport (F32.ofInt s.frameBuffers.hbao.width) (F32.ofInt s.frameBuffers.hbao.height) (F32.lit 0 1) (F32.lit 1 1)
  let cmds := cmds ++ [Cmd.vkCmdSetViewport 0 (span 1 [viewport])]
  let scissor := vks.initializers.rect2D s.frameBuffers.hbao.width s.frameBuffers.hbao.height 0 0
  let cmds := cmds ++ [Cmd.vkCmdSetScissor 0 (span 1 [scissor])]
  let cmds := cmds ++ [Cmd.vkCmdBindDescriptorSets VK_PIPELINE_BIND_POINT_GRAPHICS s.pipelineLayouts.hbao 0 (span 1 [(s.descriptorSets s.currentBuffer).hbao]) (span 0 [])]
  let cmds := cmds ++ [Cmd.vkCmdBindPipeline VK_PIPELINE_BIND_POINT_GRAPHICS s.pipelines.hbao]
  let cmds := cmds ++ [Cmd.vkCmdDraw 3 1 0 0]
  let cmds := cmds ++ [Cmd.vkCmdEndRenderPass]
  -- Third pass: HBAO blur
  let renderPassBeginInfo : VkRenderPassBeginInfo :=
    { renderPass := s.frameBuffers.hbaoBlur.renderPass,
      framebuffer := s.frameBuffers.hbaoBlur.frameBuffer,
      renderArea := { extentWidth := toUInt32 s.frameBuffers.hbaoBlur.width,
                      extentHeight := toUInt32 s.frameBuffers.hbaoBlur.height },
      clearValueCount := 2,
      pClearValues := clearValues }
  let cmds := cmds ++ [Cmd.vkCmdBeginRenderPass renderPassBeginInfo VK_SUBPASS_CONTENTS_INLINE]
  let viewport := vks.initializers.viewport (F32.ofInt s.frameBuffers.hbaoBlur.width) (F32.ofInt s.frameBuffers.hbaoBlur.height) (F32.lit 0 1) (F32.lit 1 1)
  let cmds := cmds ++ [Cmd.vkCmdSetViewport 0 (span 1 [viewport])]
  let scissor := vks.initializers.rect2D s.frameBuffers.hbaoBlur.width s.frameBuffers.hbaoBlur.height 0 0
  let cmds := cmds ++ [Cmd.vkCmdSetScissor 0 (span 1 [scissor])]
  let cmds := cmds ++ [Cmd.vkCmdBindDescriptorSets VK_PIPELINE_BIND_POINT_GRAPHICS s.pipelineLayouts.hbaoBlur 0 (span 1 [(s.descriptorSets s.currentBuffer).hbaoBlur]) (span 0 [])]
  let cmds := cmds ++ [Cmd.vkCmdBindPipeline VK_PIPELINE_BIND_POINT_GRAPHICS s.pipelines.hbaoBlur]
  let cmds := cmds ++ [Cmd.vkCmdDraw 3 1 0 0]
  let cmds := cmds ++ [Cmd.vkCmdEndRenderPass]
  -- Final render pass: Scene rendering with applied radial blur
  let clearValues : List VkClearValue := List.replicate 2 (VkClearValue.color o o o o)
  let clearValues := clearValues.set 0 s.defaultClearColor
  let clearValues := clearValues.set 1 (VkClearValue.depthStencil (F32.lit 1 1) 0)
  let renderPassBeginInfo : VkRenderPassBeginInfo :=
    { renderPass := s.renderPass,
      framebuffer := s.swapChainFrameBuffers s.currentImageIndex,
      renderArea := { extentWidth := s.width, extentHeight := s.height },
      clearValueCount := 2,
      pClearValues := clearValues }
  let cmds := cmds ++ [Cmd.vkCmdBeginRenderPass renderPassBeginInfo VK_SUBPASS_CONTENTS_INLINE]
  let viewport := vks.initializers.viewport (F32.ofInt (Int.ofNat s.width)) (F32.ofInt (Int.ofNat s.height)) (F32.lit 0 1) (F32.lit 1 1)
  let cmds := cmds ++ [Cmd.vkCmdSetViewport 0 (span 1 [viewport])]
  let scissor := vks.initializers.rect2D (toInt32 s.width) (toInt32 s.height) 0 0
  let cmds := cmds ++ [Cmd.vkCmdSetScissor 0 (span 1 [scissor])]
  let cmds := cmds ++ [Cmd.vkCmdBindDescriptorSets VK_PIPELINE_BIND_POINT_GRAPHICS s.pipelineLayouts.composition 0 (span 1 [(s.descriptorSets s.currentBuffer).composition]) (span 0 [])]
  -- Final composition pass
  let cmds := cmds ++ [Cmd.vkCmdBindPipeline VK_PIPELINE_BIND_POINT_GRAPHICS s.pipelines.composition]
  let cmds := cmds ++ [Cmd.vkCmdDraw 3 1 0 0]
  let cmds := cmds ++ [Cmd.drawUI]
  let cmds := cmds ++ [Cmd.vkCmdEndRenderPass]
  let cmds := cmds ++ [Cmd.vkEndCommandBuffer]
  (cmdBuffer, cmds)

/-- Modelled from the spec: `VulkanExampleBase::prepareFrame` of the base
class, which is not among the sources: "acquire a presentable target slot from
the external graphics context", after the wait for the fence of the frame slot;
`acquired` is the index of the image the graphics context hands out. -/
def prepareFrame (s : VulkanExample) (acquired : Nat) : VulkanExample :=
  { s with currentImageIndex := acquired }

/-- Modelled from the spec: `VulkanExampleBase::submitFrame` of the base class,
which is not among the sources: submits the command buffer of the frame slot,
presents, and moves on to the next of the `maxConcurrentFrames` slots ("slot
`k mod N`"). -/
def submitFrame (s : VulkanExample) : VulkanExample :=
  { s with currentBuffer := (s.currentBuffer + 1) % s.maxConcurrentFrames }

/-- One call made by `render`: the function called runs on the state, and the
log receives the step, which is the function called with the frame slot at the
time of the call.  The commands `buildCommandBuffer` records go into the
command buffer of the slot, outside the program state: the log receives them
too. -/
def call (acquired : Nat) (frame : VulkanExample × FrameLog) (f : FrameCall) :
    VulkanExample × FrameLog :=
  let s := frame.1
  let log := { frame.2 with
    steps := frame.2.steps ++ [{ call := f, currentBuffer := s.currentBuffer }] }
  match f with
  | FrameCall.prepareFrame => (prepareFrame s acquired, log)
  | FrameCall.updateUniformBuffers => (updateUniformBuffers s, log)
  | FrameCall.buildCommandBuffer =>
      (s, { log with recorded := log.recorded ++ [buildCommandBuffer s] })
  | FrameCall.submitFrame => (submitFrame s, log)

/-- `VulkanExample::render`: the state and the log after the call; `acquired`
is the index of the image the graphics context hands out. -/
def render (s : VulkanExample) (acquired : Nat) (log : FrameLog) : VulkanExample × FrameLog :=
  if !s.prepared then
    (s, log)
  else
    let frame := call acquired (s, log) FrameCall.prepareFrame
    let frame := call acquired frame FrameCall.updateUniformBuffers
    let frame := call acquired frame FrameCall.buildCommandBuffer
    let frame := call acquired frame FrameCall.submitFrame
    frame

/-- Successive calls of `render`, one for each image index the graphics
context hands out: the state and the log after the last call. -/
def renderFrames (s : VulkanExample) (log : FrameLog) : List Nat → VulkanExample × FrameLog
  | [] => (s, log)
  | acquired :: rest =>
    let frame := render s acquired log
    renderFrames frame.1 frame.2 rest

/-- `VulkanExample::OnUpdateUIOverlay`: the state after the call and the
widgets declared on the overlay, in order. -/
def OnUpdateUIOverlay (s : VulkanExample) (overlay : vks.UIOverlay) :
    VulkanExample × List UICall :=
  let calls : List UICall := [UICall.header "Settings"]
  if overlay.header "Settings" then
    let calls := calls ++ [UICall.checkBox "Enable HBAO"]
    let uboHBAOParams := { s.uboHBAOParams with
      hbao := overlay.checkBox "Enable HBAO" s.uboHBAOParams.hbao }
    let calls := calls ++ [UICall.checkBox "HBAO blur"]
    let uboHBAOParams := { uboHBAOParams with
      hbaoBlur := overlay.checkBox "HBAO blur" uboHBAOParams.hbaoBlur }
    let calls := calls ++ [UICall.checkBox "HBAO pass only"]
    let uboHBAOParams := { uboHBAOParams with
      hbaoOnly := overlay.checkBox "HBAO pass only" uboHBAOParams.hbaoOnly }
    let calls := calls ++ [UICall.sliderFloat "HBAO radius" (F32.lit 1 100) (F32.lit 20 1)]
    let uboHBAOSettings := { s.uboHBAOSettings with
      radius := overlay.sliderFloat "HBAO radius" s.uboHBAOSettings.radius (F32.lit 1 100) (F32.lit 20 1) }
    let calls := calls ++ [UICall.sliderFloat "HBAO Intensity" (F32.lit 0 1) (F32.lit 2 1)]
    let uboHBAOSettings := { uboHBAOSettings with
      intensity := overlay.sliderFloat "HBAO Intensity" uboHBAOSettings.intensity (F32.lit 0 1) (F32.lit 2 1) }
    let calls := calls ++ [UICall.sliderFloat "HBAO angle bias" (F32.lit 0 1) (F32.lit 10 1)]
    let uboHBAOSettings := { uboHBAOSettings with
      angleBias := overlay.sliderFloat "HBAO angle bias" uboHBAOSettings.angleBias (F32.lit 0 1) (F32.lit 10 1) }
    ({ s with uboHBAOParams := uboHBAOParams, uboHBAOSettings := uboHBAOSettings }, calls)
  else
    (s, calls)

/-- `FrameBufferAttachment::destroy`: the calls made, in order. -/
def FrameBufferAttachment.destroy (this : FrameBufferAttachment) : List Release :=
  [ Release.vkDestroyImage this.image,
    Release.vkDestroyImageView this.view,
    Release.vkFreeMemory this.mem ]

/-- `FrameBuffer::destroy`: the calls made, in order. -/
def FrameBuffer.destroy (this : FrameBuffer) : List Release :=
  [ Release.vkDestroyFramebuffer this.frameBuffer,
    Release.vkDestroyRenderPass this.renderPass ]

/-- `VulkanExample::~VulkanExample`: the calls made, in order.  `device` is the
`VkDevice` handle of the base class, which is null (0) when no logical device
was created; `s.device` is the log of the calls made on that device.  The loop
over `uniformBuffers` visits every slot below `maxConcurrentFrames`. -/
def destructor (s : VulkanExample) (device : Nat) : List Release :=
  if device ≠ 0 then
    let calls : List Release := [Release.vkDestroySampler s.colorSampler]
    let calls := calls ++ s.frameBuffers.offscreen.position.destroy
    let calls := calls ++ s.frameBuffers.offscreen.normal.destroy
    let calls := calls ++ s.frameBuffers.offscreen.albedo.destroy
    let calls := calls ++ s.frameBuffers.offscreen.depth.destroy
    let calls := calls ++ s.frameBuffers.hbao.color.destroy
    let calls := calls ++ s.frameBuffers.hbaoBlur.color.destroy
    let calls := calls ++ s.frameBuffers.offscreen.toFrameBuffer.destroy
    let calls := calls ++ s.frameBuffers.hbao.toFrameBuffer.destroy
    let calls := calls ++ s.frameBuffers.hbaoBlur.toFrameBuffer.destroy
    let calls := calls ++ [Release.vkDestroyPipeline s.pipelines.offscreen]
    let calls := calls ++ [Release.vkDestroyPipeline s.pipelines.composition]
    let calls := calls ++ [Release.vkDestroyPipeline s.pipelines.hbao]
    let calls := calls ++ [Release.vkDestroyPipeline s.pipelines.hbaoBlur]
    let calls := calls ++ [Release.vkDestroyPipelineLayout s.pipelineLayouts.gBuffer]
    let calls := calls ++ [Release.vkDestroyPipelineLayout s.pipelineLayouts.hbao]
    let calls := calls ++ [Release.vkDestroyPipelineLayout s.pipelineLayouts.hbaoBlur]
    let calls := calls ++ [Release.vkDestroyPipelineLayout s.pipelineLayouts.composition]
    let calls := calls ++ [Release.vkDestroyDescriptorSetLayout s.descriptorSetLayouts.gBuffer]
    let calls := calls ++ [Release.vkDestroyDescriptorSetLayout s.descriptorSetLayouts.hbao]
    let calls := calls ++ [Release.vkDestroyDescriptorSetLayout s.descriptorSetLayouts.hbaoBlur]
    let calls := calls ++ [Release.vkDestroyDescriptorSetLayout s.descriptorSetLayouts.composition]
    calls ++ (List.range s.maxConcurrentFrames).flatMap (fun i =>
      [ Release.Buffer_destroy (s.uniformBuffers i).sceneParams.buffer,
        Release.Buffer_destroy (s.uniformBuffers i).hbaoSettings.buffer,
        Release.Buffer_destroy (s.uniformBuffers i).hbaoParams.buffer ])
  else []

/-- The four calls `createAttachment` makes, in order, on a device whose log has
length `base`, for a view of aspect `aspectMask`.  Used to state what the
function does to the device log. -/
def createAttachmentCalls (base : Nat) (format : VkFormat) (usage aspectMask width height : Nat) :
    List Call :=
  [ Call.vkCreateImage
      { imageType := VK_IMAGE_TYPE_2D, format := format,
        extent := { width := width, height := height, depth := 1 },
        mipLevels := 1, arrayLayers := 1, samples := VK_SAMPLE_COUNT_1_BIT,
        tiling := VK_IMAGE_TILING_OPTIMAL, usage := usage ||| VK_IMAGE_USAGE_SAMPLED_BIT },
    Call.vkAllocateMemory (base + 1) VK_MEMORY_PROPERTY_DEVICE_LOCAL_BIT,
    Call.vkBindImageMemory (base + 1) (base + 2) 0,
    Call.vkCreateImageView
      { image := base + 1, viewType := VK_IMAGE_VIEW_TYPE_2D, format := format,
        subresourceRange := { aspectMask := aspectMask, baseMipLevel := 0, levelCount := 1,
                              baseArrayLayer := 0, layerCount := 1 } } ]

/-- The attachment `createAttachment` returns on a device whose log has length
`base`. -/
def createAttachmentResult (base : Nat) (format : VkFormat) : FrameBufferAttachment :=
  { image := base + 1, mem := base + 2, view := base + 4, format := format }

/-- The `frameBuffers` that `prepareOffscreenFramebuffers` leaves, on a device
whose log has length `base` before the call, for the occlusion target size
`hbaoWidth` by `hbaoHeight`.  Used to state what the function does. -/
def prepareOffscreenFramebuffersResult (base width height hbaoWidth hbaoHeight : Nat)
    (attDepthFormat : VkFormat) : FrameBuffers :=
  { offscreen :=
      { width := toInt32 width, height := toInt32 height,
        frameBuffer := base + 26, renderPass := base + 25,
        position := createAttachmentResult base VK_FORMAT_R32G32B32A32_SFLOAT,
        normal := createAttachmentResult (base + 4) VK_FORMAT_R8G8B8A8_UNORM,
        albedo := createAttachmentResult (base + 8) VK_FORMAT_R8G8B8A8_UNORM,
        depth := createAttachmentResult (base + 12) attDepthFormat },
    hbao :=
      { width := toInt32 hbaoWidth, height := toInt32 hbaoHeight,
        frameBuffer := base + 28, renderPass := base + 27,
        color := createAttachmentResult (base + 16) VK_FORMAT_R8_UNORM },
    hbaoBlur :=
      { width := toInt32 width, height := toInt32 height,
        frameBuffer := base + 30, renderPass := base + 29,
        color := createAttachmentResult (base + 20) VK_FORMAT_R8_UNORM } }

/-- The thirty-one calls `prepareOffscreenFramebuffers` makes, in order, on a
device whose log has length `base` before the call.  Used to state what the
function does to the device log. -/
def prepareOffscreenFramebuffersCalls (base width height hbaoWidth hbaoHeight : Nat)
    (attDepthFormat : VkFormat) : List Call :=
  createAttachmentCalls base VK_FORMAT_R32G32B32A32_SFLOAT VK_IMAGE_USAGE_COLOR_ATTACHMENT_BIT
    VK_IMAGE_ASPECT_COLOR_BIT width height ++
  createAttachmentCalls (base + 4) VK_FORMAT_R8G8B8A8_UNORM VK_IMAGE_USAGE_COLOR_ATTACHMENT_BIT
    VK_IMAGE_ASPECT_COLOR_BIT width height ++
  createAttachmentCalls (base + 8) VK_FORMAT_R8G8B8A8_UNORM VK_IMAGE_USAGE_COLOR_ATTACHMENT_BIT
    VK_IMAGE_ASPECT_COLOR_BIT width height ++
  createAttachmentCalls (base + 12) attDepthFormat VK_IMAGE_USAGE_DEPTH_STENCIL_ATTACHMENT_BIT
    (if attDepthFormat ≥ VK_FORMAT_D16_UNORM_S8_UINT then
      VK_IMAGE_ASPECT_DEPTH_BIT ||| VK_IMAGE_ASPECT_STENCIL_BIT
    else VK_IMAGE_ASPECT_DEPTH_BIT) width height ++
  createAttachmentCalls (base + 16) VK_FORMAT_R8_UNORM VK_IMAGE_USAGE_COLOR_ATTACHMENT_BIT
    VK_IMAGE_ASPECT_COLOR_BIT hbaoWidth hbaoHeight ++
  createAttachmentCalls (base + 20) VK_FORMAT_R8_UNORM VK_IMAGE_USAGE_COLOR_ATTACHMENT_BIT
    VK_IMAGE_ASPECT_COLOR_BIT width height ++
  [ Call.vkCreateRenderPass (gBufferRenderPassInfo
      (createAttachmentResult base VK_FORMAT_R32G32B32A32_SFLOAT)
      (createAttachmentResult (base + 4) VK_FORMAT_R8G8B8A8_UNORM)
      (createAttachmentResult (base + 8) VK_FORMAT_R8G8B8A8_UNORM)
      (createAttachmentResult (base + 12) attDepthFormat)),
    Call.vkCreateFramebuffer
      { renderPass := base + 25,
        pAttachments := [base + 4, base + 8, base + 12, base + 16],
        width := toUInt32 (toInt32 width), height := toUInt32 (toInt32 height), layers := 1 },
    Call.vkCreateRenderPass (hbaoRenderPassInfo (createAttachmentResult (base + 16) VK_FORMAT_R8_UNORM)),
    Call.vkCreateFramebuffer
      { renderPass := base + 27,
        pAttachments := [base + 20],
        width := toUInt32 (toInt32 hbaoWidth), height := toUInt32 (toInt32 hbaoHeight), layers := 1 },
    Call.vkCreateRenderPass (hbaoBlurRenderPassInfo (createAttachmentResult (base + 20) VK_FORMAT_R8_UNORM)),
    Call.vkCreateFramebuffer
      { renderPass := base + 29,
        pAttachments := [base + 24],
        width := toUInt32 (toInt32 width), height := toUInt32 (toInt32 height), layers := 1 },
    Call.vkCreateSampler
      { magFilter := VK_FILTER_NEAREST,
        minFilter := VK_FILTER_NEAREST,
        mipmapMode := VK_SAMPLER_MIPMAP_MODE_LINEAR,
        addressModeU := VK_SAMPLER_ADDRESS_MODE_CLAMP_TO_EDGE,
        addressModeV := VK_SAMPLER_ADDRESS_MODE_CLAMP_TO_EDGE,
        addressModeW := VK_SAMPLER_ADDRESS_MODE_CLAMP_TO_EDGE,
        mipLodBias := F32.lit 0 1,
        maxAnisotropy := F32.lit 1 1,
        minLod := F32.lit 0 1,
        maxLod := F32.lit 1 1,
        borderColor := VK_BORDER_COLOR_FLOAT_OPAQUE_WHITE } ]

/-- The three calls one iteration of the loop of `prepareBuffers` makes, in
order.  Used to state what the loop does to the device log. -/
def prepareBuffersFrameCalls : List Call :=
  [ Call.createBuffer VK_BUFFER_USAGE_UNIFORM_BUFFER_BIT
      (VK_MEMORY_PROPERTY_HOST_VISIBLE_BIT ||| VK_MEMORY_PROPERTY_HOST_COHERENT_BIT) sizeof_uboSceneParams,
    Call.createBuffer VK_BUFFER_USAGE_UNIFORM_BUFFER_BIT
      (VK_MEMORY_PROPERTY_HOST_VISIBLE_BIT ||| VK_MEMORY_PROPERTY_HOST_COHERENT_BIT) sizeof_uboHBAOParams,
    Call.createBuffer VK_BUFFER_USAGE_UNIFORM_BUFFER_BIT
      (VK_MEMORY_PROPERTY_HOST_VISIBLE_BIT ||| VK_MEMORY_PROPERTY_HOST_COHERENT_BIT) sizeof_uboHBAOSettings ]

/-- The uniform buffers one iteration of the loop of `prepareBuffers` leaves in
its slot when the device log has length `base` before the iteration.  Used to
state what the loop does to `uniformBuffers`. -/
def prepareBuffersFrameBuffers (base : Nat) : UniformBuffers :=
  { sceneParams :=
      { buffer := base + 1, size := sizeof_uboSceneParams,
        usageFlags := VK_BUFFER_USAGE_UNIFORM_BUFFER_BIT,
        memoryPropertyFlags := VK_MEMORY_PROPERTY_HOST_VISIBLE_BIT ||| VK_MEMORY_PROPERTY_HOST_COHERENT_BIT,
        descriptor := { buffer := base + 1, offset := 0, range := VK_WHOLE_SIZE },
        mapped := true },
    hbaoParams :=
      { buffer := base + 2, size := sizeof_uboHBAOParams,
        usageFlags := VK_BUFFER_USAGE_UNIFORM_BUFFER_BIT,
        memoryPropertyFlags := VK_MEMORY_PROPERTY_HOST_VISIBLE_BIT ||| VK_MEMORY_PROPERTY_HOST_COHERENT_BIT,
        descriptor := { buffer := base + 2, offset := 0, range := VK_WHOLE_SIZE },
        mapped := true },
    hbaoSettings :=
      { buffer := base + 3, size := sizeof_uboHBAOSettings,
        usageFlags := VK_BUFFER_USAGE_UNIFORM_BUFFER_BIT,
        memoryPropertyFlags := VK_MEMORY_PROPERTY_HOST_VISIBLE_BIT ||| VK_MEMORY_PROPERTY_HOST_COHERENT_BIT,
        descriptor := { buffer := base + 3, offset := 0, range := VK_WHOLE_SIZE },
        mapped := true } }

/-- The five calls `setupDescriptors` makes before its loop, in order: the
descriptor pool and the four descriptor-set layouts.  Used to state what the
function does to the device log. -/
def setupDescriptorsLayoutCalls (maxConcurrentFrames : Nat) : List Call :=
  [ Call.vkCreateDescriptorPool
      { pPoolSizes :=
          [ { type := VK_DESCRIPTOR_TYPE_UNIFORM_BUFFER, descriptorCount := maxConcurrentFrames * 4 % UINT32_RANGE },
            { type := VK_DESCRIPTOR_TYPE_COMBINED_IMAGE_SAMPLER, descriptorCount := maxConcurrentFrames * 9 % UINT32_RANGE } ],
        maxSets := maxConcurrentFrames * 4 % UINT32_RANGE },
    Call.vkCreateDescriptorSetLayout
      { pBindings :=
          [ { descriptorType := VK_DESCRIPTOR_TYPE_UNIFORM_BUFFER,
              stageFlags := VK_SHADER_STAGE_VERTEX_BIT ||| VK_SHADER_STAGE_FRAGMENT_BIT, binding := 0, descriptorCount := 1 } ] },
    Call.vkCreateDescriptorSetLayout
      { pBindings :=
          [ { descriptorType := VK_DESCRIPTOR_TYPE_COMBINED_IMAGE_SAMPLER, stageFlags := VK_SHADER_STAGE_FRAGMENT_BIT, binding := 0, descriptorCount := 1 },
            { descriptorType := VK_DESCRIPTOR_TYPE_COMBINED_IMAGE_SAMPLER, stageFlags := VK_SHADER_STAGE_FRAGMENT_BIT, binding := 1, descriptorCount := 1 },
            { descriptorType := VK_DESCRIPTOR_TYPE_UNIFORM_BUFFER, stageFlags := VK_SHADER_STAGE_FRAGMENT_BIT, binding := 2, descriptorCount := 1 },
            { descriptorType := VK_DESCRIPTOR_TYPE_UNIFORM_BUFFER, stageFlags := VK_SHADER_STAGE_FRAGMENT_BIT, binding := 3, descriptorCount := 1 } ] },
    Call.vkCreateDescriptorSetLayout
      { pBindings :=
          [ { descriptorType := VK_DESCRIPTOR_TYPE_COMBINED_IMAGE_SAMPLER, stageFlags := VK_SHADER_STAGE_FRAGMENT_BIT, binding := 0, descriptorCount := 1 } ] },
    Call.vkCreateDescriptorSetLayout
      { pBindings :=
          [ { descriptorType := VK_DESCRIPTOR_TYPE_COMBINED_IMAGE_SAMPLER, stageFlags := VK_SHADER_STAGE_FRAGMENT_BIT, binding := 0, descriptorCount := 1 },
            { descriptorType := VK_DESCRIPTOR_TYPE_COMBINED_IMAGE_SAMPLER, stageFlags := VK_SHADER_STAGE_FRAGMENT_BIT, binding := 1, descriptorCount := 1 },
            { descriptorType := VK_DESCRIPTOR_TYPE_COMBINED_IMAGE_SAMPLER, stageFlags := VK_SHADER_STAGE_FRAGMENT_BIT, binding := 2, descriptorCount := 1 },
            { descriptorType := VK_DESCRIPTOR_TYPE_COMBINED_IMAGE_SAMPLER, stageFlags := VK_SHADER_STAGE_FRAGMENT_BIT, binding := 3, descriptorCount := 1 },
            { descriptorType := VK_DESCRIPTOR_TYPE_COMBINED_IMAGE_SAMPLER, stageFlags := VK_SHADER_STAGE_FRAGMENT_BIT, binding := 4, descriptorCount := 1 },
            { descriptorType := VK_DESCRIPTOR_TYPE_UNIFORM_BUFFER, stageFlags := VK_SHADER_STAGE_FRAGMENT_BIT, binding := 5, descriptorCount := 1 } ] } ]

/-- The eight calls one iteration of the loop of `setupDescriptors` makes, in
order, when the device log has length `base` before the iteration, the
descriptor-set layouts are `layouts` and the uniform buffers of the slot are
`buffers`.  Used to state what the loop does to the device log. -/
def setupDescriptorsFrameCalls (descriptorAllocInfo : VkDescriptorSetAllocateInfo)
    (positionImgDescriptor normalImgDescriptor albedoImgDescriptor hbaoImgDescriptor
      hbaoBlurImgDescriptor : VkDescriptorImageInfo)
    (layouts : DescriptorSetLayouts) (buffers : UniformBuffers) (base : Nat) : List Call :=
  [ Call.vkAllocateDescriptorSets { descriptorAllocInfo with pSetLayouts := [layouts.gBuffer] },
    Call.vkUpdateDescriptorSets
      [ vks.initializers.writeDescriptorSet (base + 1) VK_DESCRIPTOR_TYPE_UNIFORM_BUFFER 0 buffers.sceneParams.descriptor ],
    Call.vkAllocateDescriptorSets { descriptorAllocInfo with pSetLayouts := [layouts.hbao] },
    Call.vkUpdateDescriptorSets
      [ vks.initializers.writeDescriptorSetImage (base + 3) VK_DESCRIPTOR_TYPE_COMBINED_IMAGE_SAMPLER 0 positionImgDescriptor,
        vks.initializers.writeDescriptorSetImage (base + 3) VK_DESCRIPTOR_TYPE_COMBINED_IMAGE_SAMPLER 1 normalImgDescriptor,
        vks.initializers.writeDescriptorSet (base + 3) VK_DESCRIPTOR_TYPE_UNIFORM_BUFFER 2 buffers.hbaoSettings.descriptor,
        vks.initializers.writeDescriptorSet (base + 3) VK_DESCRIPTOR_TYPE_UNIFORM_BUFFER 3 buffers.hbaoParams.descriptor ],
    Call.vkAllocateDescriptorSets { descriptorAllocInfo with pSetLayouts := [layouts.hbaoBlur] },
    Call.vkUpdateDescriptorSets
      [ vks.initializers.writeDescriptorSetImage (base + 5) VK_DESCRIPTOR_TYPE_COMBINED_IMAGE_SAMPLER 0 hbaoImgDescriptor ],
    Call.vkAllocateDescriptorSets { descriptorAllocInfo with pSetLayouts := [layouts.composition] },
    Call.vkUpdateDescriptorSets
      [ vks.initializers.writeDescriptorSetImage (base + 7) VK_DESCRIPTOR_TYPE_COMBINED_IMAGE_SAMPLER 0 positionImgDescriptor,
        vks.initializers.writeDescriptorSetImage (base + 7) VK_DESCRIPTOR_TYPE_COMBINED_IMAGE_SAMPLER 1 normalImgDescriptor,
        vks.initializers.writeDescriptorSetImage (base + 7) VK_DESCRIPTOR_TYPE_COMBINED_IMAGE_SAMPLER 2 albedoImgDescriptor,
        vks.initializers.writeDescriptorSetImage (base + 7) VK_DESCRIPTOR_TYPE_COMBINED_IMAGE_SAMPLER 3 hbaoImgDescriptor,
        vks.initializers.writeDescriptorSetImage (base + 7) VK_DESCRIPTOR_TYPE_COMBINED_IMAGE_SAMPLER 4 hbaoBlurImgDescriptor,
        vks.initializers.writeDescriptorSet (base + 7) VK_DESCRIPTOR_TYPE_UNIFORM_BUFFER 5 buffers.hbaoParams.descriptor ] ]

/-- The descriptor sets one iteration of the loop of `setupDescriptors` leaves
in its slot when the device log has length `base` before the iteration. -/
def setupDescriptorsFrameSets (base : Nat) : DescriptorSets :=
  { gBuffer := base + 1, hbao := base + 3, hbaoBlur := base + 5, composition := base + 7 }

/-- A state as `VulkanExampleBase::prepare` and `loadAssets` leave it, for a
1280x720 window, two frames in flight and eight objects created by the base
class (render pass 1, swap-chain framebuffers 2 to 4, command buffers 5 and 6,
pipeline cache 7, image set layout of the glTF loader 8). -/
def sampleState : VulkanExample :=
  { ANDROID := false,
    maxConcurrentFrames := 2,
    device := Call.vkCreateRenderPass sampleSwapChainRenderPass :: List.replicate 7 Call.base,
    supportedDepthFormat := some VK_FORMAT_D32_SFLOAT_S8_UINT,
    width := 1280,
    height := 720,
    renderPass := 1,
    swapChainFrameBuffers := fun i => 2 + i,
    drawCmdBuffers := fun i => 5 + i,
    pipelineCache := 7,
    descriptorSetLayoutImage := 8,
    shadersPath := "shaders/glsl/",
    defaultClearColor := VkClearValue.color (F32.lit 25 1000) (F32.lit 25 1000) (F32.lit 25 1000) (F32.lit 1 1),
    camera := { perspective := glm.mat4.diagonal (F32.lit 2 1), view := glm.mat4.diagonal (F32.lit 3 1) },
    uboSceneParams := { projection := glm.mat4.diagonal (F32.lit 0 1),
                        model := glm.mat4.diagonal (F32.lit 0 1),
                        view := glm.mat4.diagonal (F32.lit 0 1) },
    uboHBAOParams := { projection := glm.mat4.diagonal (F32.lit 0 1) } }

/-- The sample state after `prepare`. -/
def preparedSample : VulkanExample :=
  (prepare sampleState).getD sampleState

/-- The sample state after `prepareOffscreenFramebuffers` alone. -/
def offscreenSample : VulkanExample :=
  (prepareOffscreenFramebuffers sampleState).getD sampleState

/-- The state that differs from `s` in the show-occlusion-only toggle alone,
which the check box of `OnUpdateUIOverlay` writes. -/
def setHbaoOnly (s : VulkanExample) (v : Int) : VulkanExample :=
  { s with uboHBAOParams := { s.uboHBAOParams with hbaoOnly := v } }

/-- The prepared sample state with the show-occlusion-only toggle switched on. -/
def toggledSample : VulkanExample :=
  setHbaoOnly preparedSample 1

/-- The sample state of a build for Android. -/
def androidSample : VulkanExample :=
  { sampleState with ANDROID := true }

/-- An overlay whose section is open and whose user changes nothing. -/
def sampleOverlay : vks.UIOverlay :=
  { header := fun _ => true,
    checkBox := fun _ value => value,
    sliderFloat := fun _ value _ _ => value }

end HBAO

/-! ## The two examples side by side -/

/-- The two examples start from the same environment: the same configuration,
the same device log and the same members of the base class (window size, depth
format, render pass and framebuffers of the swap chain, command buffers,
pipeline cache, image set layout of the glTF loader, clear colour, frame slot
and image index). -/
def sameEnvironment (g : GTAO.VulkanExample) (h : HBAO.VulkanExample) : Prop :=
  h.ANDROID = g.ANDROID ∧
  h.maxConcurrentFrames = g.maxConcurrentFrames ∧
  h.device = g.device ∧
  h.supportedDepthFormat = g.supportedDepthFormat ∧
  h.width = g.width ∧
  h.height = g.height ∧
  h.currentBuffer = g.currentBuffer ∧
  h.currentImageIndex = g.currentImageIndex ∧
  h.renderPass = g.renderPass ∧
  h.swapChainFrameBuffers = g.swapChainFrameBuffers ∧
  h.drawCmdBuffers = g.drawCmdBuffers ∧
  h.pipelineCache = g.pipelineCache ∧
  h.descriptorSetLayoutImage = g.descriptorSetLayoutImage ∧
  h.defaultClearColor = g.defaultClearColor

/-! ## Lemmas on lists and on the device log -/

theorem Device.lookup_append_new (d l : List Call) (k : Nat) :
    Device.lookup (d ++ l) (d.length + (k + 1)) = l[k]? := by
  unfold Device.lookup
  have h0 : ¬ (d.length + (k + 1) = 0) := by omega
  have h : d.length + (k + 1) - 1 = d.length + k := by omega
  have hle : d.length ≤ d.length + k := by omega
  rw [if_neg h0, h, List.getElem?_append_right hle]
  simp

theorem Device.lookup_append_old (d l : List Call) (h : Nat) (hh : h ≤ d.length) :
    Device.lookup (d ++ l) h = Device.lookup d h := by
  unfold Device.lookup
  by_cases h0 : h = 0
  · simp [h0]
  · have hlt : h - 1 < d.length := by omega
    rw [if_neg h0, if_neg h0, List.getElem?_append_left hlt]

theorem List.length_flatMap_range {α : Type} (f : Nat → List α) (k : Nat)
    (hf : ∀ i, (f i).length = k) (n : Nat) :
    ((List.range n).flatMap f).length = k * n := by
  induction n with
  | zero => simp
  | succ n ih =>
    rw [List.range_succ, List.flatMap_append, List.length_append, ih]
    simp [hf, Nat.mul_succ]

theorem List.flatMap_range_single {α : Type} (g : Nat → List α) (i n : Nat) (hi : i < n)
    (hg : ∀ j, j ≠ i → g j = []) : (List.range n).flatMap g = g i := by
  induction n with
  | zero => omega
  | succ n ih =>
    rw [List.range_succ, List.flatMap_append]
    by_cases h : i = n
    · subst h
      have h0 : (List.range i).flatMap g = [] := by
        rw [List.flatMap_eq_nil_iff]
        intro j hj
        have : j < i := List.mem_range.mp hj
        exact hg j (by omega)
      simp [h0]
    · have hlt : i < n := by omega
      have hn : g n = [] := hg n (by omega)
      simp [ih hlt, hn]

theorem Device.writesTo_append (a b : List Call) (h : Nat) :
    Device.writesTo (a ++ b) h = Device.writesTo a h ++ Device.writesTo b h := by
  simp [Device.writesTo, List.flatMap_append]

theorem Device.writesTo_of_bounded (d : List Call) (h : Nat) (hb : Device.writesBounded d)
    (hh : d.length < h) : Device.writesTo d h = [] := by
  unfold Device.writesTo
  rw [List.flatMap_eq_nil_iff]
  intro c hc
  rw [List.filter_eq_nil_iff]
  intro w hw
  have hle : w.dstSet ≤ d.length := hb c hc w hw
  have hne : w.dstSet ≠ h := by omega
  simp [hne]

theorem Device.writesTo_of_no_writes (d : List Call) (h : Nat) (hd : ∀ c ∈ d, c.writes = []) :
    Device.writesTo d h = [] := by
  unfold Device.writesTo
  rw [List.flatMap_eq_nil_iff]
  intro c hc
  simp [hd c hc]

/-! ## Lemmas on the 32-bit conversions and on command streams -/

theorem toInt32_of_lt (n : Nat) (h : n < 2147483648) : toInt32 n = Int.ofNat n := by
  unfold toInt32
  have hm : n % UINT32_RANGE = n := Nat.mod_eq_of_lt (by simp only [UINT32_RANGE]; omega)
  rw [hm, if_pos h]

theorem toUInt32_ofNat (n : Nat) (h : n < 4294967296) : toUInt32 (Int.ofNat n) = n := by
  unfold toUInt32
  simp only [UINT32_RANGE, Int.ofNat_eq_coe]
  omega

theorem toUInt32_toInt32 (n : Nat) (h : n < 4294967296) : toUInt32 (toInt32 n) = n := by
  unfold toUInt32 toInt32
  have hm : n % UINT32_RANGE = n := Nat.mod_eq_of_lt (by simp only [UINT32_RANGE]; omega)
  rw [hm]
  simp only [UINT32_RANGE, Int.ofNat_eq_coe]
  split <;> omega

theorem Device.lookup_le (d : Device) (h : Nat) (c : Call) (hc : Device.lookup d h = some c) :
    h ≤ d.length := by
  unfold Device.lookup at hc
  by_cases h0 : h = 0
  · omega
  · rw [if_neg h0] at hc
    have hlt := (List.getElem?_eq_some_iff.mp hc).1
    omega

theorem Device.renderPassInfo_le (d : Device) (h : Nat) (rp : VkRenderPassCreateInfo)
    (hr : Device.renderPassInfo d h = some rp) : h ≤ d.length := by
  unfold Device.renderPassInfo at hr
  cases hl : Device.lookup d h with
  | none => simp [hl] at hr
  | some c => exact Device.lookup_le d h c hl

/-! ## Lemmas on the objects a log creates -/

theorem createdFrom_append (kind : ObjectKind) (a b : List Call) (h : Nat) :
    createdFrom kind (a ++ b) h = createdFrom kind a h ++ createdFrom kind b (h + a.length) := by
  induction a generalizing h with
  | nil => simp [createdFrom]
  | cons c a ih =>
    have e : h + 1 + a.length = h + (a.length + 1) := by omega
    by_cases hc : c.kind = some kind <;> simp [createdFrom, hc, ih, e]

theorem createdFrom_of_none (kind : ObjectKind) (l : List Call) (h : Nat)
    (hl : ∀ c ∈ l, c.kind ≠ some kind) : createdFrom kind l h = [] := by
  induction l generalizing h with
  | nil => rfl
  | cons c l ih =>
    have hc : c.kind ≠ some kind := hl c (List.mem_cons_self _ _)
    simp only [createdFrom, if_neg hc]
    exact ih (h + 1) (fun x hx => hl x (List.mem_cons_of_mem _ hx))

theorem Device.created_append (d calls : List Call) (kind : ObjectKind) :
    Device.created d (d ++ calls) kind = createdFrom kind calls (d.length + 1) := by
  simp [Device.created]

theorem Device.lookup_block (pre block post : List Call) (k : Nat) (hk : k < block.length) :
    Device.lookup (pre ++ (block ++ post)) (pre.length + (k + 1)) = block[k]? := by
  rw [Device.lookup_append_new, List.getElem?_append_left hk]

theorem List.getElem?_flatMap_range {α : Type} (f : Nat → List α) (c : Nat)
    (hf : ∀ j, (f j).length = c) (n i k : Nat) (hi : i < n) (hk : k < c) :
    ((List.range n).flatMap f)[c * i + k]? = (f i)[k]? := by
  induction n with
  | zero => omega
  | succ n ih =>
    rw [List.range_succ, List.flatMap_append]
    have hlen := List.length_flatMap_range f c hf n
    by_cases h : i = n
    · subst h
      have hle : ((List.range i).flatMap f).length ≤ c * i + k := by omega
      rw [List.getElem?_append_right hle, hlen]
      simp
    · have hlt : i < n := by omega
      have hlt2 : c * i + k < ((List.range n).flatMap f).length := by
        rw [hlen]
        have : c * (i + 1) ≤ c * n := Nat.mul_le_mul_left c hlt
        rw [Nat.mul_succ] at this
        omega
      rw [List.getElem?_append_left hlt2]
      exact ih hlt

theorem List.filterMap_flatMap_range {α β : Type} (f : Nat → List α) (g : α → Option β) (n : Nat) :
    ((List.range n).flatMap f).filterMap g = (List.range n).flatMap (fun i => (f i).filterMap g) := by
  induction n with
  | zero => rfl
  | succ n ih => simp [List.range_succ, List.flatMap_append, List.filterMap_append, ih]

theorem List.filter_flatMap_range {α : Type} (f : Nat → List α) (p : α → Bool) (n : Nat) :
    ((List.range n).flatMap f).filter p = (List.range n).flatMap (fun i => (f i).filter p) := by
  induction n with
  | zero => rfl
  | succ n ih => simp [List.range_succ, List.flatMap_append, List.filter_append, ih]

theorem List.flatMap_flatMap_range {α β : Type} (f : Nat → List α) (g : α → List β) (n : Nat) :
    ((List.range n).flatMap f).flatMap g = (List.range n).flatMap (fun i => (f i).flatMap g) := by
  induction n with
  | zero => rfl
  | succ n ih => simp [List.range_succ, List.flatMap_append, ih]

theorem List.sum_map_flatMap_range {α : Type} (f : Nat → List α) (w : α → Nat) (c : Nat)
    (hf : ∀ i, ((f i).map w).sum = c) (n : Nat) :
    (((List.range n).flatMap f).map w).sum = c * n := by
  induction n with
  | zero => simp
  | succ n ih =>
    rw [List.range_succ, List.flatMap_append, List.map_append, List.sum_append, ih]
    simp [hf, Nat.mul_succ]

theorem createdFrom_flatMap_range (kind : ObjectKind) (f : Nat → List Call) (c : Nat)
    (hf : ∀ j, (f j).length = c) (n h : Nat) :
    createdFrom kind ((List.range n).flatMap f) h =
      (List.range n).flatMap (fun i => createdFrom kind (f i) (h + c * i)) := by
  induction n with
  | zero => rfl
  | succ n ih =>
    rw [List.range_succ, List.flatMap_append, createdFrom_append, ih,
      List.length_flatMap_range f c hf n, List.flatMap_append]
    simp [createdFrom_append]

theorem createdFrom_ge (kind : ObjectKind) (l : List Call) (h : Nat) :
    ∀ x ∈ createdFrom kind l h, h ≤ x := by
  induction l generalizing h with
  | nil => intro x hx; simp [createdFrom] at hx
  | cons c l ih =>
    intro x hx
    by_cases hc : c.kind = some kind
    · simp only [createdFrom, if_pos hc, List.mem_cons] at hx
      rcases hx with rfl | hx
      · exact Nat.le_refl _
      · have := ih (h + 1) x hx
        omega
    · simp only [createdFrom, if_neg hc] at hx
      have := ih (h + 1) x hx
      omega

theorem createdFrom_nodup (kind : ObjectKind) (l : List Call) (h : Nat) :
    (createdFrom kind l h).Nodup := by
  induction l generalizing h with
  | nil => simp [createdFrom]
  | cons c l ih =>
    by_cases hc : c.kind = some kind
    · simp only [createdFrom, if_pos hc, List.nodup_cons]
      refine ⟨?_, ih (h + 1)⟩
      intro hx
      have := createdFrom_ge kind l (h + 1) h hx
      omega
    · simp only [createdFrom, if_neg hc]
      exact ih (h + 1)

theorem Device.created_nodup (before after : Device) (kind : ObjectKind) :
    (Device.created before after kind).Nodup :=
  createdFrom_nodup kind _ _

namespace GTAO

theorem gtao_createAttachment_eq (d : Device) (format : VkFormat) (usage width height : Nat)
    (hu : usage &&& VK_IMAGE_USAGE_COLOR_ATTACHMENT_BIT ≠ 0 ∨
      usage &&& VK_IMAGE_USAGE_DEPTH_STENCIL_ATTACHMENT_BIT ≠ 0) :
    createAttachment d format usage width height =
      some (d ++ createAttachmentCalls d.length format usage
                  (if usage &&& VK_IMAGE_USAGE_DEPTH_STENCIL_ATTACHMENT_BIT ≠ 0 then
                    (if format ≥ VK_FORMAT_D16_UNORM_S8_UINT then
                      VK_IMAGE_ASPECT_DEPTH_BIT ||| VK_IMAGE_ASPECT_STENCIL_BIT
                    else VK_IMAGE_ASPECT_DEPTH_BIT)
                  else VK_IMAGE_ASPECT_COLOR_BIT) width height,
            createAttachmentResult d.length format) := by
  by_cases hd : usage &&& 32 = 0 <;> by_cases hc : usage &&& 16 = 0 <;>
    by_cases hf : 128 ≤ format <;>
    simp [createAttachment, createAttachmentCalls, createAttachmentResult, Device.call, hd, hc, hf] <;>
    simp_all

theorem gtao_createAttachment_color (d : Device) (format : VkFormat) (width height : Nat) :
    createAttachment d format VK_IMAGE_USAGE_COLOR_ATTACHMENT_BIT width height =
      some (d ++ createAttachmentCalls d.length format VK_IMAGE_USAGE_COLOR_ATTACHMENT_BIT
                  VK_IMAGE_ASPECT_COLOR_BIT width height,
            createAttachmentResult d.length format) := by
  have h1 : (16 : Nat) &&& 32 = 0 := by decide
  simp [createAttachment, createAttachmentCalls, createAttachmentResult, Device.call, h1]

theorem gtao_createAttachment_depth (d : Device) (format : VkFormat) (width height : Nat) :
    createAttachment d format VK_IMAGE_USAGE_DEPTH_STENCIL_ATTACHMENT_BIT width height =
      some (d ++ createAttachmentCalls d.length format VK_IMAGE_USAGE_DEPTH_STENCIL_ATTACHMENT_BIT
                  (if format ≥ VK_FORMAT_D16_UNORM_S8_UINT then
                    VK_IMAGE_ASPECT_DEPTH_BIT ||| VK_IMAGE_ASPECT_STENCIL_BIT
                  else VK_IMAGE_ASPECT_DEPTH_BIT) width height,
            createAttachmentResult d.length format) := by
  have h1 : (32 : Nat) &&& 16 = 0 := by decide
  by_cases hf : 128 ≤ format <;>
    simp [createAttachment, createAttachmentCalls, createAttachmentResult, Device.call, h1, hf]

theorem gtao_createAttachmentCalls_image (d : Device) (format : VkFormat)
    (usage aspectMask width height : Nat) :
    Device.imageInfo (d ++ createAttachmentCalls d.length format usage aspectMask width height)
        (createAttachmentResult d.length format).image =
      some { imageType := VK_IMAGE_TYPE_2D, format := format,
             extent := { width := width, height := height, depth := 1 },
             mipLevels := 1, arrayLayers := 1, samples := VK_SAMPLE_COUNT_1_BIT,
             tiling := VK_IMAGE_TILING_OPTIMAL, usage := usage ||| VK_IMAGE_USAGE_SAMPLED_BIT } := by
  simp [Device.imageInfo, createAttachmentResult, createAttachmentCalls, Device.lookup_append_new]

theorem gtao_createAttachmentCalls_view (d : Device) (format : VkFormat)
    (usage aspectMask width height : Nat) :
    Device.imageViewInfo (d ++ createAttachmentCalls d.length format usage aspectMask width height)
        (createAttachmentResult d.length format).view =
      some { image := d.length + 1, viewType := VK_IMAGE_VIEW_TYPE_2D, format := format,
             subresourceRange := { aspectMask := aspectMask, baseMipLevel := 0, levelCount := 1,
                                   baseArrayLayer := 0, layerCount := 1 } } := by
  simp [Device.imageViewInfo, createAttachmentResult, createAttachmentCalls, Device.lookup_append_new]

theorem gtao_createAttachmentCalls_length (base : Nat) (format : VkFormat)
    (usage aspectMask width height : Nat) :
    (createAttachmentCalls base format usage aspectMask width height).length = 4 := rfl

theorem gtao_prepareOffscreenFramebuffers_eq (s : VulkanExample) (fmt : VkFormat)
    (hA : s.ANDROID = false) (hD : s.supportedDepthFormat = some fmt) :
    prepareOffscreenFramebuffers s =
      some { s with
        device := s.device ++
          prepareOffscreenFramebuffersCalls s.device.length s.width s.height s.width s.height fmt,
        frameBuffers :=
          prepareOffscreenFramebuffersResult s.device.length s.width s.height s.width s.height fmt,
        colorSampler := s.device.length + 31 } := by
  simp [prepareOffscreenFramebuffers, hA, hD, gtao_createAttachment_color, gtao_createAttachment_depth,
    gtao_createAttachmentCalls_length, Device.call, Nat.add_assoc, span, FrameBuffer.setSize,
    prepareOffscreenFramebuffersCalls, prepareOffscreenFramebuffersResult, createAttachmentResult]

theorem gtao_prepareOffscreenFramebuffersCalls_length (base width height gtaoWidth gtaoHeight : Nat)
    (fmt : VkFormat) :
    (prepareOffscreenFramebuffersCalls base width height gtaoWidth gtaoHeight fmt).length = 31 := rfl

/-- The create-infos of the three render passes and the three framebuffers in
the log `prepareOffscreenFramebuffers` leaves. -/
theorem gtao_offscreenCalls_lookup (d : Device) (width height gtaoWidth gtaoHeight : Nat)
    (fmt : VkFormat) :
    let log := d ++ prepareOffscreenFramebuffersCalls d.length width height gtaoWidth gtaoHeight fmt
    let fb := prepareOffscreenFramebuffersResult d.length width height gtaoWidth gtaoHeight fmt
    Device.renderPassInfo log fb.offscreen.renderPass =
      some (gBufferRenderPassInfo fb.offscreen.position fb.offscreen.normal fb.offscreen.albedo
        fb.offscreen.depth) ∧
    Device.renderPassInfo log fb.gtao.renderPass = some (gtaoRenderPassInfo fb.gtao.color) ∧
    Device.renderPassInfo log fb.gtaoBlur.renderPass =
      some (gtaoBlurRenderPassInfo fb.gtaoBlur.color) ∧
    Device.framebufferInfo log fb.offscreen.frameBuffer =
      some { renderPass := fb.offscreen.renderPass,
             pAttachments := [ fb.offscreen.position.view, fb.offscreen.normal.view,
                               fb.offscreen.albedo.view, fb.offscreen.depth.view ],
             width := toUInt32 fb.offscreen.width, height := toUInt32 fb.offscreen.height,
             layers := 1 } ∧
    Device.framebufferInfo log fb.gtao.frameBuffer =
      some { renderPass := fb.gtao.renderPass, pAttachments := [fb.gtao.color.view],
             width := toUInt32 fb.gtao.width, height := toUInt32 fb.gtao.height, layers := 1 } ∧
    Device.framebufferInfo log fb.gtaoBlur.frameBuffer =
      some { renderPass := fb.gtaoBlur.renderPass, pAttachments := [fb.gtaoBlur.color.view],
             width := toUInt32 fb.gtaoBlur.width, height := toUInt32 fb.gtaoBlur.height,
             layers := 1 } := by
  simp [Device.renderPassInfo, Device.framebufferInfo, prepareOffscreenFramebuffersResult,
    prepareOffscreenFramebuffersCalls, createAttachmentCalls, createAttachmentResult,
    Device.lookup_append_new, Nat.add_assoc]

theorem gtao_prepareBuffersFrame_eq (s : VulkanExample) (i : Nat) :
    prepareBuffersFrame s i =
      { s with
        device := s.device ++ prepareBuffersFrameCalls,
        uniformBuffers := Function.update s.uniformBuffers i (prepareBuffersFrameBuffers s.device.length) } := by
  simp [prepareBuffersFrame, prepareBuffersFrameCalls, prepareBuffersFrameBuffers,
    vks.VulkanDevice.createBuffer, vks.Buffer.map, Device.call, Nat.add_assoc]

theorem gtao_prepareBuffers_loop (s : VulkanExample) (n : Nat) :
    (List.range n).foldl prepareBuffersFrame s =
      { s with
        device := s.device ++ (List.range n).flatMap (fun _ => prepareBuffersFrameCalls),
        uniformBuffers := fun i =>
          if i < n then prepareBuffersFrameBuffers (s.device.length + 3 * i) else s.uniformBuffers i } := by
  induction n with
  | zero => simp
  | succ n ih =>
    rw [List.range_succ, List.foldl_append, ih]
    simp only [List.foldl_cons, List.foldl_nil, gtao_prepareBuffersFrame_eq, List.flatMap_append,
      List.flatMap_cons, List.flatMap_nil, List.append_nil, List.append_assoc, List.length_append]
    rw [List.length_flatMap_range (fun _ => prepareBuffersFrameCalls) 3 (fun _ => rfl)]
    congr 1
    funext i
    by_cases h : i = n
    · subst h; simp
    · have h' : (i < n + 1) = (i < n) := by
        apply propext; constructor <;> intro <;> omega
      simp [Function.update, h, h']

theorem gtao_prepareBuffers_eq (s : VulkanExample) :
    prepareBuffers s =
      { s with
        device := s.device ++ (List.range s.maxConcurrentFrames).flatMap (fun _ => prepareBuffersFrameCalls),
        uniformBuffers := fun i =>
          if i < s.maxConcurrentFrames then prepareBuffersFrameBuffers (s.device.length + 3 * i)
          else s.uniformBuffers i } :=
  gtao_prepareBuffers_loop s s.maxConcurrentFrames

theorem gtao_setupDescriptorsFrame_eq (descriptorAllocInfo : VkDescriptorSetAllocateInfo)
    (p n a g b : VkDescriptorImageInfo) (s : VulkanExample) (i : Nat) :
    setupDescriptorsFrame descriptorAllocInfo p n a g b s i =
      { s with
        device := s.device ++ setupDescriptorsFrameCalls descriptorAllocInfo p n a g b
          s.descriptorSetLayouts (s.uniformBuffers i) s.device.length,
        descriptorSets := Function.update s.descriptorSets i (setupDescriptorsFrameSets s.device.length) } := by
  simp [setupDescriptorsFrame, setupDescriptorsFrameCalls, setupDescriptorsFrameSets,
    Device.call, Nat.add_assoc, span]

theorem gtao_setupDescriptors_loop (descriptorAllocInfo : VkDescriptorSetAllocateInfo)
    (p nm a g b : VkDescriptorImageInfo) (s : VulkanExample) (n : Nat) :
    (List.range n).foldl (setupDescriptorsFrame descriptorAllocInfo p nm a g b) s =
      { s with
        device := s.device ++ (List.range n).flatMap (fun i =>
          setupDescriptorsFrameCalls descriptorAllocInfo p nm a g b s.descriptorSetLayouts
            (s.uniformBuffers i) (s.device.length + 8 * i)),
        descriptorSets := fun i =>
          if i < n then setupDescriptorsFrameSets (s.device.length + 8 * i) else s.descriptorSets i } := by
  induction n with
  | zero => simp
  | succ n ih =>
    rw [List.range_succ, List.foldl_append, ih]
    simp only [List.foldl_cons, List.foldl_nil, gtao_setupDescriptorsFrame_eq, List.flatMap_append,
      List.flatMap_cons, List.flatMap_nil, List.append_nil, List.append_assoc, List.length_append]
    rw [List.length_flatMap_range (fun i =>
          setupDescriptorsFrameCalls descriptorAllocInfo p nm a g b s.descriptorSetLayouts
            (s.uniformBuffers i) (s.device.length + 8 * i)) 8 (fun _ => rfl)]
    congr 1
    funext i
    by_cases h : i = n
    · subst h; simp
    · have h' : (i < n + 1) = (i < n) := by
        apply propext; constructor <;> intro <;> omega
      simp [Function.update, h, h']

theorem gtao_setupDescriptors_eq (s : VulkanExample) :
    setupDescriptors s =
      { s with
        device := s.device ++ (setupDescriptorsLayoutCalls s.maxConcurrentFrames ++
          (List.range s.maxConcurrentFrames).flatMap (fun i =>
            setupDescriptorsFrameCalls
              { descriptorPool := s.device.length + 1, descriptorSetCount := 1, pSetLayouts := [] }
              { sampler := s.colorSampler, imageView := s.frameBuffers.offscreen.position.view,
                imageLayout := VK_IMAGE_LAYOUT_SHADER_READ_ONLY_OPTIMAL }
              { sampler := s.colorSampler, imageView := s.frameBuffers.offscreen.normal.view,
                imageLayout := VK_IMAGE_LAYOUT_SHADER_READ_ONLY_OPTIMAL }
              { sampler := s.colorSampler, imageView := s.frameBuffers.offscreen.albedo.view,
                imageLayout := VK_IMAGE_LAYOUT_SHADER_READ_ONLY_OPTIMAL }
              { sampler := s.colorSampler, imageView := s.frameBuffers.gtao.color.view,
                imageLayout := VK_IMAGE_LAYOUT_SHADER_READ_ONLY_OPTIMAL }
              { sampler := s.colorSampler, imageView := s.frameBuffers.gtaoBlur.color.view,
                imageLayout := VK_IMAGE_LAYOUT_SHADER_READ_ONLY_OPTIMAL }
              { gBuffer := s.device.length + 2, gtao := s.device.length + 3,
                gtaoBlur := s.device.length + 4, composition := s.device.length + 5 }
              (s.uniformBuffers i) (s.device.length + 5 + 8 * i))),
        descriptorPool := s.device.length + 1,
        descriptorSetLayouts :=
          { gBuffer := s.device.length + 2, gtao := s.device.length + 3,
            gtaoBlur := s.device.length + 4, composition := s.device.length + 5 },
        descriptorSets := fun i =>
          if i < s.maxConcurrentFrames then setupDescriptorsFrameSets (s.device.length + 5 + 8 * i)
          else s.descriptorSets i } := by
  unfold setupDescriptors
  simp only [gtao_setupDescriptors_loop]
  simp [setupDescriptorsLayoutCalls, Device.call, Nat.add_assoc, span,
    vks.initializers.descriptorPoolSize, vks.initializers.descriptorPoolCreateInfo,
    vks.initializers.descriptorSetLayoutBinding, vks.initializers.descriptorSetLayoutCreateInfo,
    vks.initializers.descriptorSetAllocateInfo, vks.initializers.descriptorImageInfo]

theorem gtao_writesTo_frames (ai : VkDescriptorSetAllocateInfo) (p nm a g b : VkDescriptorImageInfo)
    (layouts : DescriptorSetLayouts) (ub : Nat → UniformBuffers) (base n i : Nat) (hi : i < n) :
    let frames := (List.range n).flatMap (fun j =>
      setupDescriptorsFrameCalls ai p nm a g b layouts (ub j) (base + 8 * j))
    Device.writesTo frames (base + 8 * i + 1) =
        [ vks.initializers.writeDescriptorSet (base + 8 * i + 1) VK_DESCRIPTOR_TYPE_UNIFORM_BUFFER 0 (ub i).sceneParams.descriptor ] ∧
    Device.writesTo frames (base + 8 * i + 3) =
        [ vks.initializers.writeDescriptorSetImage (base + 8 * i + 3) VK_DESCRIPTOR_TYPE_COMBINED_IMAGE_SAMPLER 0 p,
          vks.initializers.writeDescriptorSetImage (base + 8 * i + 3) VK_DESCRIPTOR_TYPE_COMBINED_IMAGE_SAMPLER 1 nm,
          vks.initializers.writeDescriptorSet (base + 8 * i + 3) VK_DESCRIPTOR_TYPE_UNIFORM_BUFFER 2 (ub i).gtaoSettings.descriptor,
          vks.initializers.writeDescriptorSet (base + 8 * i + 3) VK_DESCRIPTOR_TYPE_UNIFORM_BUFFER 3 (ub i).gtaoParams.descriptor ] ∧
    Device.writesTo frames (base + 8 * i + 5) =
        [ vks.initializers.writeDescriptorSetImage (base + 8 * i + 5) VK_DESCRIPTOR_TYPE_COMBINED_IMAGE_SAMPLER 0 g ] ∧
    Device.writesTo frames (base + 8 * i + 7) =
        [ vks.initializers.writeDescriptorSetImage (base + 8 * i + 7) VK_DESCRIPTOR_TYPE_COMBINED_IMAGE_SAMPLER 0 p,
          vks.initializers.writeDescriptorSetImage (base + 8 * i + 7) VK_DESCRIPTOR_TYPE_COMBINED_IMAGE_SAMPLER 1 nm,
          vks.initializers.writeDescriptorSetImage (base + 8 * i + 7) VK_DESCRIPTOR_TYPE_COMBINED_IMAGE_SAMPLER 2 a,
          vks.initializers.writeDescriptorSetImage (base + 8 * i + 7) VK_DESCRIPTOR_TYPE_COMBINED_IMAGE_SAMPLER 3 g,
          vks.initializers.writeDescriptorSetImage (base + 8 * i + 7) VK_DESCRIPTOR_TYPE_COMBINED_IMAGE_SAMPLER 4 b,
          vks.initializers.writeDescriptorSet (base + 8 * i + 7) VK_DESCRIPTOR_TYPE_UNIFORM_BUFFER 5 (ub i).gtaoParams.descriptor ] := by
  intro frames
  have key : ∀ k, k = 1 ∨ k = 3 ∨ k = 5 ∨ k = 7 →
      Device.writesTo frames (base + 8 * i + k) =
        Device.writesTo (setupDescriptorsFrameCalls ai p nm a g b layouts (ub i) (base + 8 * i))
          (base + 8 * i + k) := by
    intro k hk
    rcases hk with rfl | rfl | rfl | rfl <;>
    show List.flatMap _ _ = _ <;>
    rw [List.flatMap_assoc] <;>
    apply List.flatMap_range_single _ i n hi <;>
    intro j hj <;>
    simp [setupDescriptorsFrameCalls, Call.writes, vks.initializers.writeDescriptorSet,
      vks.initializers.writeDescriptorSetImage] <;>
    omega
  refine ⟨?_, ?_, ?_, ?_⟩
  · rw [key 1 (by simp)]
    simp [Device.writesTo, setupDescriptorsFrameCalls, Call.writes, vks.initializers.writeDescriptorSet,
      vks.initializers.writeDescriptorSetImage]
  · rw [key 3 (by simp)]
    simp [Device.writesTo, setupDescriptorsFrameCalls, Call.writes, vks.initializers.writeDescriptorSet,
      vks.initializers.writeDescriptorSetImage]
  · rw [key 5 (by simp)]
    simp [Device.writesTo, setupDescriptorsFrameCalls, Call.writes, vks.initializers.writeDescriptorSet,
      vks.initializers.writeDescriptorSetImage]
  · rw [key 7 (by simp)]
    simp [Device.writesTo, setupDescriptorsFrameCalls, Call.writes, vks.initializers.writeDescriptorSet,
      vks.initializers.writeDescriptorSetImage]

theorem gtao_preparePipelines_device (s : VulkanExample) :
    ∃ pipes : List Call, (preparePipelines s).device = s.device ++ pipes ∧ pipes.length = 14 ∧
      ∀ c ∈ pipes, c.writes = [] := by
  simp only [preparePipelines, Device.call, loadShader, List.append_assoc]
  exact ⟨_, rfl, rfl, by simp [Call.writes]⟩

theorem gtao_prepare_eq (s : VulkanExample) (fmt : VkFormat)
    (hA : s.ANDROID = false) (hD : s.supportedDepthFormat = some fmt) :
    prepare s = some { preparePipelines (setupDescriptors (prepareBuffers
      { s with
        device := s.device ++
          prepareOffscreenFramebuffersCalls s.device.length s.width s.height s.width s.height fmt,
        frameBuffers :=
          prepareOffscreenFramebuffersResult s.device.length s.width s.height s.width s.height fmt,
        colorSampler := s.device.length + 31 })) with prepared := true } := by
  simp [prepare, gtao_prepareOffscreenFramebuffers_eq s fmt hA hD]

/-- What `prepare` leaves in the state: the offscreen targets, the sampler, and
for every slot the uniform buffers and the descriptor sets, by handle. -/
theorem gtao_prepare_state (s sp : VulkanExample) (fmt : VkFormat)
    (hA : s.ANDROID = false) (hD : s.supportedDepthFormat = some fmt)
    (hsp : prepare s = some sp) :
    sp.maxConcurrentFrames = s.maxConcurrentFrames ∧
    sp.frameBuffers =
      prepareOffscreenFramebuffersResult s.device.length s.width s.height s.width s.height fmt ∧
    sp.colorSampler = s.device.length + 31 ∧
    (∀ i, i < s.maxConcurrentFrames →
      sp.uniformBuffers i = prepareBuffersFrameBuffers (s.device.length + 31 + 3 * i)) ∧
    (∀ i, i < s.maxConcurrentFrames →
      sp.descriptorSets i =
        setupDescriptorsFrameSets (s.device.length + 31 + 3 * s.maxConcurrentFrames + 5 + 8 * i)) := by
  rw [gtao_prepare_eq s fmt hA hD] at hsp
  cases hsp
  simp only [preparePipelines, gtao_setupDescriptors_eq, gtao_prepareBuffers_eq]
  simp [gtao_prepareOffscreenFramebuffersCalls_length,
    List.length_flatMap_range (fun _ => prepareBuffersFrameCalls) 3 (fun _ => rfl)]
  constructor
  · intro i hi; simp [hi]
  · intro i hi; simp [hi, Nat.add_assoc]


/-- The device log `prepare` leaves: the log before, then the calls of
`prepareOffscreenFramebuffers`, of `prepareBuffers`, of `setupDescriptors` and
the fourteen calls `pipes` of `preparePipelines`, none of which writes a
descriptor. -/
theorem gtao_prepare_device (s sp : VulkanExample) (fmt : VkFormat)
    (hA : s.ANDROID = false) (hD : s.supportedDepthFormat = some fmt)
    (hsp : prepare s = some sp) :
    ∃ pipes : List Call, pipes.length = 14 ∧ (∀ c ∈ pipes, c.writes = []) ∧
      sp.device = s.device ++
        (prepareOffscreenFramebuffersCalls s.device.length s.width s.height s.width s.height fmt ++
          ((List.range s.maxConcurrentFrames).flatMap (fun _ => prepareBuffersFrameCalls) ++
            (setupDescriptorsLayoutCalls s.maxConcurrentFrames ++
              ((List.range s.maxConcurrentFrames).flatMap (fun i =>
                  setupDescriptorsFrameCalls
                    { descriptorPool := sp.descriptorPool, descriptorSetCount := 1, pSetLayouts := [] }
                    { sampler := sp.colorSampler, imageView := sp.frameBuffers.offscreen.position.view,
                      imageLayout := VK_IMAGE_LAYOUT_SHADER_READ_ONLY_OPTIMAL }
                    { sampler := sp.colorSampler, imageView := sp.frameBuffers.offscreen.normal.view,
                      imageLayout := VK_IMAGE_LAYOUT_SHADER_READ_ONLY_OPTIMAL }
                    { sampler := sp.colorSampler, imageView := sp.frameBuffers.offscreen.albedo.view,
                      imageLayout := VK_IMAGE_LAYOUT_SHADER_READ_ONLY_OPTIMAL }
                    { sampler := sp.colorSampler, imageView := sp.frameBuffers.gtao.color.view,
                      imageLayout := VK_IMAGE_LAYOUT_SHADER_READ_ONLY_OPTIMAL }
                    { sampler := sp.colorSampler, imageView := sp.frameBuffers.gtaoBlur.color.view,
                      imageLayout := VK_IMAGE_LAYOUT_SHADER_READ_ONLY_OPTIMAL }
                    sp.descriptorSetLayouts (sp.uniformBuffers i)
                    (s.device.length + 31 + 3 * s.maxConcurrentFrames + 5 + 8 * i)) ++
                pipes)))) := by
  rw [gtao_prepare_eq s fmt hA hD] at hsp
  cases hsp
  obtain ⟨pipes, hpipes, hlen, hnw⟩ := gtao_preparePipelines_device (setupDescriptors (prepareBuffers
      { s with
        device := s.device ++
          prepareOffscreenFramebuffersCalls s.device.length s.width s.height s.width s.height fmt,
        frameBuffers :=
          prepareOffscreenFramebuffersResult s.device.length s.width s.height s.width s.height fmt,
        colorSampler := s.device.length + 31 }))
  refine ⟨pipes, hlen, hnw, ?_⟩
  dsimp only
  rw [hpipes]
  simp only [preparePipelines, gtao_setupDescriptors_eq, gtao_prepareBuffers_eq]
  simp only [List.length_append, gtao_prepareOffscreenFramebuffersCalls_length,
    List.length_flatMap_range (fun _ => prepareBuffersFrameCalls) 3 (fun _ => rfl),
    List.append_assoc, Nat.add_assoc]


theorem gtao_writesTo_offscreenCalls (base width height gtaoWidth gtaoHeight : Nat) (fmt : VkFormat)
    (h : Nat) :
    Device.writesTo (prepareOffscreenFramebuffersCalls base width height gtaoWidth gtaoHeight fmt) h
      = [] := by
  simp [Device.writesTo, prepareOffscreenFramebuffersCalls, createAttachmentCalls, Call.writes]

theorem gtao_writesTo_bufferCalls (n h : Nat) :
    Device.writesTo ((List.range n).flatMap (fun _ => prepareBuffersFrameCalls)) h = [] := by
  apply Device.writesTo_of_no_writes
  intro c hc
  simp [prepareBuffersFrameCalls] at hc
  rcases hc with ⟨-, rfl | rfl | rfl⟩ <;> rfl

theorem gtao_writesTo_layoutCalls (n h : Nat) :
    Device.writesTo (setupDescriptorsLayoutCalls n) h = [] := by
  simp [Device.writesTo, setupDescriptorsLayoutCalls, Call.writes]

/-- The descriptor writes on the four sets of slot `i` after `prepare`, when
the writes of the log before `prepare` target handles of that log. -/
theorem gtao_prepare_writes (s sp : VulkanExample) (fmt : VkFormat)
    (hA : s.ANDROID = false) (hD : s.supportedDepthFormat = some fmt)
    (hsp : prepare s = some sp) (hb : Device.writesBounded s.device)
    (i : Nat) (hi : i < s.maxConcurrentFrames) :
    Device.writesTo sp.device (sp.descriptorSets i).gBuffer =
      [ vks.initializers.writeDescriptorSet (sp.descriptorSets i).gBuffer
          VK_DESCRIPTOR_TYPE_UNIFORM_BUFFER 0 (sp.uniformBuffers i).sceneParams.descriptor ] ∧
    Device.writesTo sp.device (sp.descriptorSets i).gtao =
      [ vks.initializers.writeDescriptorSetImage (sp.descriptorSets i).gtao
          VK_DESCRIPTOR_TYPE_COMBINED_IMAGE_SAMPLER 0
          { sampler := sp.colorSampler, imageView := sp.frameBuffers.offscreen.position.view,
            imageLayout := VK_IMAGE_LAYOUT_SHADER_READ_ONLY_OPTIMAL },
        vks.initializers.writeDescriptorSetImage (sp.descriptorSets i).gtao
          VK_DESCRIPTOR_TYPE_COMBINED_IMAGE_SAMPLER 1
          { sampler := sp.colorSampler, imageView := sp.frameBuffers.offscreen.normal.view,
            imageLayout := VK_IMAGE_LAYOUT_SHADER_READ_ONLY_OPTIMAL },
        vks.initializers.writeDescriptorSet (sp.descriptorSets i).gtao
          VK_DESCRIPTOR_TYPE_UNIFORM_BUFFER 2 (sp.uniformBuffers i).gtaoSettings.descriptor,
        vks.initializers.writeDescriptorSet (sp.descriptorSets i).gtao
          VK_DESCRIPTOR_TYPE_UNIFORM_BUFFER 3 (sp.uniformBuffers i).gtaoParams.descriptor ] ∧
    Device.writesTo sp.device (sp.descriptorSets i).gtaoBlur =
      [ vks.initializers.writeDescriptorSetImage (sp.descriptorSets i).gtaoBlur
          VK_DESCRIPTOR_TYPE_COMBINED_IMAGE_SAMPLER 0
          { sampler := sp.colorSampler, imageView := sp.frameBuffers.gtao.color.view,
            imageLayout := VK_IMAGE_LAYOUT_SHADER_READ_ONLY_OPTIMAL } ] ∧
    Device.writesTo sp.device (sp.descriptorSets i).composition =
      [ vks.initializers.writeDescriptorSetImage (sp.descriptorSets i).composition
          VK_DESCRIPTOR_TYPE_COMBINED_IMAGE_SAMPLER 0
          { sampler := sp.colorSampler, imageView := sp.frameBuffers.offscreen.position.view,
            imageLayout := VK_IMAGE_LAYOUT_SHADER_READ_ONLY_OPTIMAL },
        vks.initializers.writeDescriptorSetImage (sp.descriptorSets i).composition
          VK_DESCRIPTOR_TYPE_COMBINED_IMAGE_SAMPLER 1
          { sampler := sp.colorSampler, imageView := sp.frameBuffers.offscreen.normal.view,
            imageLayout := VK_IMAGE_LAYOUT_SHADER_READ_ONLY_OPTIMAL },
        vks.initializers.writeDescriptorSetImage (sp.descriptorSets i).composition
          VK_DESCRIPTOR_TYPE_COMBINED_IMAGE_SAMPLER 2
          { sampler := sp.colorSampler, imageView := sp.frameBuffers.offscreen.albedo.view,
            imageLayout := VK_IMAGE_LAYOUT_SHADER_READ_ONLY_OPTIMAL },
        vks.initializers.writeDescriptorSetImage (sp.descriptorSets i).composition
          VK_DESCRIPTOR_TYPE_COMBINED_IMAGE_SAMPLER 3
          { sampler := sp.colorSampler, imageView := sp.frameBuffers.gtao.color.view,
            imageLayout := VK_IMAGE_LAYOUT_SHADER_READ_ONLY_OPTIMAL },
        vks.initializers.writeDescriptorSetImage (sp.descriptorSets i).composition
          VK_DESCRIPTOR_TYPE_COMBINED_IMAGE_SAMPLER 4
          { sampler := sp.colorSampler, imageView := sp.frameBuffers.gtaoBlur.color.view,
            imageLayout := VK_IMAGE_LAYOUT_SHADER_READ_ONLY_OPTIMAL },
        vks.initializers.writeDescriptorSet (sp.descriptorSets i).composition
          VK_DESCRIPTOR_TYPE_UNIFORM_BUFFER 5 (sp.uniformBuffers i).gtaoParams.descriptor ] := by
  obtain ⟨pipes, -, hnw, hdev⟩ := gtao_prepare_device s sp fmt hA hD hsp
  obtain ⟨-, -, -, -, hds⟩ := gtao_prepare_state s sp fmt hA hD hsp
  have hframes := gtao_writesTo_frames
    { descriptorPool := sp.descriptorPool, descriptorSetCount := 1, pSetLayouts := [] }
    { sampler := sp.colorSampler, imageView := sp.frameBuffers.offscreen.position.view,
      imageLayout := VK_IMAGE_LAYOUT_SHADER_READ_ONLY_OPTIMAL }
    { sampler := sp.colorSampler, imageView := sp.frameBuffers.offscreen.normal.view,
      imageLayout := VK_IMAGE_LAYOUT_SHADER_READ_ONLY_OPTIMAL }
    { sampler := sp.colorSampler, imageView := sp.frameBuffers.offscreen.albedo.view,
      imageLayout := VK_IMAGE_LAYOUT_SHADER_READ_ONLY_OPTIMAL }
    { sampler := sp.colorSampler, imageView := sp.frameBuffers.gtao.color.view,
      imageLayout := VK_IMAGE_LAYOUT_SHADER_READ_ONLY_OPTIMAL }
    { sampler := sp.colorSampler, imageView := sp.frameBuffers.gtaoBlur.color.view,
      imageLayout := VK_IMAGE_LAYOUT_SHADER_READ_ONLY_OPTIMAL }
    sp.descriptorSetLayouts sp.uniformBuffers
    (s.device.length + 31 + 3 * s.maxConcurrentFrames + 5) s.maxConcurrentFrames i hi
  obtain ⟨h1, h3, h5, h7⟩ := hframes
  have hpipes : ∀ h, Device.writesTo pipes h = [] :=
    fun h => Device.writesTo_of_no_writes pipes h hnw
  have hold : ∀ k, Device.writesTo s.device
      (s.device.length + 31 + 3 * s.maxConcurrentFrames + 5 + 8 * i + (k + 1)) = [] :=
    fun k => Device.writesTo_of_bounded s.device _ hb (by omega)
  rw [hds i hi, hdev]
  simp only [setupDescriptorsFrameSets, Device.writesTo_append, gtao_writesTo_offscreenCalls,
    gtao_writesTo_bufferCalls, gtao_writesTo_layoutCalls, hpipes, hold 0, hold 2, hold 4, hold 6,
    List.nil_append, List.append_nil, h1, h3, h5, h7, and_self]

theorem gtao_prepare_some (s sp : VulkanExample) (hsp : prepare s = some sp) :
    s.ANDROID = false ∧ ∃ fmt, s.supportedDepthFormat = some fmt := by
  have hbind : ∃ s1, prepareOffscreenFramebuffers s = some s1 := by
    cases h : prepareOffscreenFramebuffers s with
    | none => simp [prepare, h] at hsp
    | some s1 => exact ⟨s1, rfl⟩
  obtain ⟨s1, h1⟩ := hbind
  cases hA : s.ANDROID with
  | true => simp [prepareOffscreenFramebuffers, hA] at h1
  | false =>
    cases hD : s.supportedDepthFormat with
    | none => simp [prepareOffscreenFramebuffers, hA, hD] at h1
    | some fmt => exact ⟨rfl, fmt, rfl⟩

/-- After `prepare` the log still answers for the objects of
`prepareOffscreenFramebuffers` as when they were created. -/
theorem gtao_prepare_lookup (s sp : VulkanExample) (fmt : VkFormat)
    (hA : s.ANDROID = false) (hD : s.supportedDepthFormat = some fmt)
    (hsp : prepare s = some sp) (h : Nat) (hh : h ≤ s.device.length + 31) :
    Device.lookup sp.device h =
      Device.lookup (s.device ++
        prepareOffscreenFramebuffersCalls s.device.length s.width s.height s.width s.height fmt) h := by
  obtain ⟨pipes, -, -, hdev⟩ := gtao_prepare_device s sp fmt hA hD hsp
  rw [hdev, ← List.append_assoc]
  apply Device.lookup_append_old
  simp [gtao_prepareOffscreenFramebuffersCalls_length]
  omega

/-- After `prepare`: the create-infos of the three offscreen render passes and
framebuffers, read from the log by the handles kept in `frameBuffers`. -/
theorem gtao_prepare_targets (s sp : VulkanExample) (hsp : prepare s = some sp) :
    Device.renderPassInfo sp.device sp.frameBuffers.offscreen.renderPass =
      some (gBufferRenderPassInfo sp.frameBuffers.offscreen.position sp.frameBuffers.offscreen.normal
        sp.frameBuffers.offscreen.albedo sp.frameBuffers.offscreen.depth) ∧
    Device.renderPassInfo sp.device sp.frameBuffers.gtao.renderPass =
      some (gtaoRenderPassInfo sp.frameBuffers.gtao.color) ∧
    Device.renderPassInfo sp.device sp.frameBuffers.gtaoBlur.renderPass =
      some (gtaoBlurRenderPassInfo sp.frameBuffers.gtaoBlur.color) ∧
    Device.framebufferInfo sp.device sp.frameBuffers.offscreen.frameBuffer =
      some { renderPass := sp.frameBuffers.offscreen.renderPass,
             pAttachments := [ sp.frameBuffers.offscreen.position.view,
                               sp.frameBuffers.offscreen.normal.view,
                               sp.frameBuffers.offscreen.albedo.view,
                               sp.frameBuffers.offscreen.depth.view ],
             width := toUInt32 sp.frameBuffers.offscreen.width,
             height := toUInt32 sp.frameBuffers.offscreen.height, layers := 1 } ∧
    Device.framebufferInfo sp.device sp.frameBuffers.gtao.frameBuffer =
      some { renderPass := sp.frameBuffers.gtao.renderPass,
             pAttachments := [sp.frameBuffers.gtao.color.view],
             width := toUInt32 sp.frameBuffers.gtao.width,
             height := toUInt32 sp.frameBuffers.gtao.height, layers := 1 } ∧
    Device.framebufferInfo sp.device sp.frameBuffers.gtaoBlur.frameBuffer =
      some { renderPass := sp.frameBuffers.gtaoBlur.renderPass,
             pAttachments := [sp.frameBuffers.gtaoBlur.color.view],
             width := toUInt32 sp.frameBuffers.gtaoBlur.width,
             height := toUInt32 sp.frameBuffers.gtaoBlur.height, layers := 1 } := by
  obtain ⟨hA, fmt, hD⟩ := gtao_prepare_some s sp hsp
  obtain ⟨-, hfb, -, -, -⟩ := gtao_prepare_state s sp fmt hA hD hsp
  have hl := gtao_prepare_lookup s sp fmt hA hD hsp
  have key := gtao_offscreenCalls_lookup s.device s.width s.height s.width s.height fmt
  simp only [Device.renderPassInfo, Device.framebufferInfo] at key ⊢
  rw [hfb]
  rw [hl _ (by simp [prepareOffscreenFramebuffersResult]),
    hl _ (by simp [prepareOffscreenFramebuffersResult]),
    hl _ (by simp [prepareOffscreenFramebuffersResult]),
    hl _ (by simp [prepareOffscreenFramebuffersResult]),
    hl _ (by simp [prepareOffscreenFramebuffersResult]),
    hl _ (by simp [prepareOffscreenFramebuffersResult])]
  exact key

/-- The depth-stencil state of the four pipelines `preparePipelines` creates. -/
theorem gtao_preparePipelines_depth (s : VulkanExample) :
    ∀ p ∈ [ (preparePipelines s).pipelines.offscreen, (preparePipelines s).pipelines.composition,
            (preparePipelines s).pipelines.gtao, (preparePipelines s).pipelines.gtaoBlur ],
      ∃ ci, Device.pipelineInfo (preparePipelines s).device p = some ci ∧
        ci.pDepthStencilState =
          { depthTestEnable := true, depthWriteEnable := true,
            depthCompareOp := VK_COMPARE_OP_LESS_OR_EQUAL } := by
  simp [preparePipelines, Device.call, loadShader, Device.pipelineInfo, Device.lookup_append_new,
    Nat.add_assoc, vks.initializers.pipelineDepthStencilStateCreateInfo]

/-- After `prepare` the log and the pipeline handles are those left by
`preparePipelines`. -/
theorem gtao_prepare_pipelines (s sp : VulkanExample) (hsp : prepare s = some sp) :
    ∃ x, sp.device = (preparePipelines x).device ∧
      sp.pipelines = (preparePipelines x).pipelines := by
  have hbind : ∃ s1, prepareOffscreenFramebuffers s = some s1 := by
    cases h : prepareOffscreenFramebuffers s with
    | none => simp [prepare, h] at hsp
    | some s1 => exact ⟨s1, rfl⟩
  obtain ⟨s1, h1⟩ := hbind
  simp only [prepare, h1, Option.bind_eq_bind, Option.some_bind, Option.some.injEq] at hsp
  subst hsp
  exact ⟨setupDescriptors (prepareBuffers s1), rfl, rfl⟩

/-- After `prepare`: the depth-stencil state of the four pipelines. -/
theorem gtao_prepare_depth (s sp : VulkanExample) (hsp : prepare s = some sp) :
    ∀ p ∈ [ sp.pipelines.offscreen, sp.pipelines.composition, sp.pipelines.gtao,
            sp.pipelines.gtaoBlur ],
      ∃ ci, Device.pipelineInfo sp.device p = some ci ∧
        ci.pDepthStencilState =
          { depthTestEnable := true, depthWriteEnable := true,
            depthCompareOp := VK_COMPARE_OP_LESS_OR_EQUAL } := by
  obtain ⟨x, hd, hp⟩ := gtao_prepare_pipelines s sp hsp
  rw [hd, hp]
  exact gtao_preparePipelines_depth x

theorem gtao_prepare_sample : prepare sampleState = some preparedSample := by
  have hA : sampleState.ANDROID = false := rfl
  rw [preparedSample, gtao_prepare_eq sampleState 130 hA rfl]
  rfl

theorem gtao_sample_bounded : Device.writesBounded sampleState.device := by
  intro c hc w hw
  simp only [sampleState, List.mem_cons, List.mem_replicate] at hc
  rcases hc with rfl | ⟨-, rfl⟩ <;> simp [Call.writes] at hw

/-- What `prepare` keeps of the state: the fields of the frame in flight. -/
theorem gtao_prepare_frame (s sp : VulkanExample) (hsp : prepare s = some sp) :
    sp.maxConcurrentFrames = s.maxConcurrentFrames ∧ sp.currentBuffer = s.currentBuffer ∧
    sp.drawCmdBuffers = s.drawCmdBuffers ∧ sp.uboGTAOParams = s.uboGTAOParams ∧
    sp.camera = s.camera := by
  obtain ⟨hA, fmt, hD⟩ := gtao_prepare_some s sp hsp
  rw [gtao_prepare_eq s fmt hA hD] at hsp
  cases hsp
  simp only [preparePipelines, gtao_setupDescriptors_eq, gtao_prepareBuffers_eq]
  simp

/-- After `prepare`: the handles of the uniform buffers and of the descriptor
sets of every slot, counted from the length of the log before. -/
theorem gtao_prepare_handles (s sp : VulkanExample) (hsp : prepare s = some sp) :
    (∀ i, i < s.maxConcurrentFrames →
      sp.uniformBuffers i = prepareBuffersFrameBuffers (s.device.length + 31 + 3 * i)) ∧
    (∀ i, i < s.maxConcurrentFrames →
      sp.descriptorSets i =
        setupDescriptorsFrameSets (s.device.length + 31 + 3 * s.maxConcurrentFrames + 5 + 8 * i)) := by
  obtain ⟨hA, fmt, hD⟩ := gtao_prepare_some s sp hsp
  obtain ⟨-, -, -, hub, hds⟩ := gtao_prepare_state s sp fmt hA hD hsp
  exact ⟨hub, hds⟩

/-- After `prepare`: the sampled images and the uniform buffers written on the
four descriptor sets of slot `i`, each with its binding. -/
theorem gtao_prepare_inputs (s sp : VulkanExample) (hsp : prepare s = some sp)
    (hb : Device.writesBounded s.device) (i : Nat) (hi : i < s.maxConcurrentFrames) :
    Device.imageInputs sp.device (sp.descriptorSets i).gBuffer = [] ∧
    Device.bufferInputs sp.device (sp.descriptorSets i).gBuffer =
      [ (0, (sp.uniformBuffers i).sceneParams.descriptor) ] ∧
    Device.imageInputs sp.device (sp.descriptorSets i).gtao =
      [ (0, { sampler := sp.colorSampler, imageView := sp.frameBuffers.offscreen.position.view,
              imageLayout := VK_IMAGE_LAYOUT_SHADER_READ_ONLY_OPTIMAL }),
        (1, { sampler := sp.colorSampler, imageView := sp.frameBuffers.offscreen.normal.view,
              imageLayout := VK_IMAGE_LAYOUT_SHADER_READ_ONLY_OPTIMAL }) ] ∧
    Device.bufferInputs sp.device (sp.descriptorSets i).gtao =
      [ (2, (sp.uniformBuffers i).gtaoSettings.descriptor),
        (3, (sp.uniformBuffers i).gtaoParams.descriptor) ] ∧
    Device.imageInputs sp.device (sp.descriptorSets i).gtaoBlur =
      [ (0, { sampler := sp.colorSampler, imageView := sp.frameBuffers.gtao.color.view,
              imageLayout := VK_IMAGE_LAYOUT_SHADER_READ_ONLY_OPTIMAL }) ] ∧
    Device.bufferInputs sp.device (sp.descriptorSets i).gtaoBlur = [] ∧
    Device.imageInputs sp.device (sp.descriptorSets i).composition =
      [ (0, { sampler := sp.colorSampler, imageView := sp.frameBuffers.offscreen.position.view,
              imageLayout := VK_IMAGE_LAYOUT_SHADER_READ_ONLY_OPTIMAL }),
        (1, { sampler := sp.colorSampler, imageView := sp.frameBuffers.offscreen.normal.view,
              imageLayout := VK_IMAGE_LAYOUT_SHADER_READ_ONLY_OPTIMAL }),
        (2, { sampler := sp.colorSampler, imageView := sp.frameBuffers.offscreen.albedo.view,
              imageLayout := VK_IMAGE_LAYOUT_SHADER_READ_ONLY_OPTIMAL }),
        (3, { sampler := sp.colorSampler, imageView := sp.frameBuffers.gtao.color.view,
              imageLayout := VK_IMAGE_LAYOUT_SHADER_READ_ONLY_OPTIMAL }),
        (4, { sampler := sp.colorSampler, imageView := sp.frameBuffers.gtaoBlur.color.view,
              imageLayout := VK_IMAGE_LAYOUT_SHADER_READ_ONLY_OPTIMAL }) ] ∧
    Device.bufferInputs sp.device (sp.descriptorSets i).composition =
      [ (5, (sp.uniformBuffers i).gtaoParams.descriptor) ] := by
  obtain ⟨hA, fmt, hD⟩ := gtao_prepare_some s sp hsp
  obtain ⟨h1, h2, h3, h4⟩ := gtao_prepare_writes s sp fmt hA hD hsp hb i hi
  simp only [Device.imageInputs, Device.bufferInputs, h1, h2, h3, h4]
  simp [vks.initializers.writeDescriptorSet, vks.initializers.writeDescriptorSetImage]

theorem gtao_sample_frames :
    preparedSample.maxConcurrentFrames = sampleState.maxConcurrentFrames :=
  (gtao_prepare_frame sampleState preparedSample gtao_prepare_sample).1

theorem gtao_sample_slot : preparedSample.currentBuffer < preparedSample.maxConcurrentFrames := by
  obtain ⟨h1, h2, -⟩ := gtao_prepare_frame sampleState preparedSample gtao_prepare_sample
  rw [h1, h2]
  decide

theorem gtao_sample_toggle : preparedSample.uboGTAOParams.gtaoOnly = 0 := by
  obtain ⟨-, -, -, h, -⟩ := gtao_prepare_frame sampleState preparedSample gtao_prepare_sample
  rw [h]
  rfl

end GTAO

/-! ## `hbao.cpp`: what each function does to the state -/

namespace HBAO

theorem hbao_createAttachment_eq (d : Device) (format : VkFormat) (usage width height : Nat)
    (hu : usage &&& VK_IMAGE_USAGE_COLOR_ATTACHMENT_BIT ≠ 0 ∨
      usage &&& VK_IMAGE_USAGE_DEPTH_STENCIL_ATTACHMENT_BIT ≠ 0) :
    createAttachment d format usage width height =
      some (d ++ createAttachmentCalls d.length format usage
                  (if usage &&& VK_IMAGE_USAGE_DEPTH_STENCIL_ATTACHMENT_BIT ≠ 0 then
                    (if format ≥ VK_FORMAT_D16_UNORM_S8_UINT then
                      VK_IMAGE_ASPECT_DEPTH_BIT ||| VK_IMAGE_ASPECT_STENCIL_BIT
                    else VK_IMAGE_ASPECT_DEPTH_BIT)
                  else VK_IMAGE_ASPECT_COLOR_BIT) width height,
            createAttachmentResult d.length format) := by
  by_cases hd : usage &&& 32 = 0 <;> by_cases hc : usage &&& 16 = 0 <;>
    by_cases hf : 128 ≤ format <;>
    simp [createAttachment, createAttachmentCalls, createAttachmentResult, Device.call, hd, hc, hf] <;>
    simp_all

theorem hbao_createAttachment_color (d : Device) (format : VkFormat) (width height : Nat) :
    createAttachment d format VK_IMAGE_USAGE_COLOR_ATTACHMENT_BIT width height =
      some (d ++ createAttachmentCalls d.length format VK_IMAGE_USAGE_COLOR_ATTACHMENT_BIT
                  VK_IMAGE_ASPECT_COLOR_BIT width height,
            createAttachmentResult d.length format) := by
  have h1 : (16 : Nat) &&& 32 = 0 := by decide
  simp [createAttachment, createAttachmentCalls, createAttachmentResult, Device.call, h1]

theorem hbao_createAttachment_depth (d : Device) (format : VkFormat) (width height : Nat) :
    createAttachment d format VK_IMAGE_USAGE_DEPTH_STENCIL_ATTACHMENT_BIT width height =
      some (d ++ createAttachmentCalls d.length format VK_IMAGE_USAGE_DEPTH_STENCIL_ATTACHMENT_BIT
                  (if format ≥ VK_FORMAT_D16_UNORM_S8_UINT then
                    VK_IMAGE_ASPECT_DEPTH_BIT ||| VK_IMAGE_ASPECT_STENCIL_BIT
                  else VK_IMAGE_ASPECT_DEPTH_BIT) width height,
            createAttachmentResult d.length format) := by
  have h1 : (32 : Nat) &&& 16 = 0 := by decide
  by_cases hf : 128 ≤ format <;>
    simp [createAttachment, createAttachmentCalls, createAttachmentResult, Device.call, h1, hf]

theorem hbao_createAttachmentCalls_image (d : Device) (format : VkFormat)
    (usage aspectMask width height : Nat) :
    Device.imageInfo (d ++ createAttachmentCalls d.length format usage aspectMask width height)
        (createAttachmentResult d.length format).image =
      some { imageType := VK_IMAGE_TYPE_2D, format := format,
             extent := { width := width, height := height, depth := 1 },
             mipLevels := 1, arrayLayers := 1, samples := VK_SAMPLE_COUNT_1_BIT,
             tiling := VK_IMAGE_TILING_OPTIMAL, usage := usage ||| VK_IMAGE_USAGE_SAMPLED_BIT } := by
  simp [Device.imageInfo, createAttachmentResult, createAttachmentCalls, Device.lookup_append_new]

theorem hbao_createAttachmentCalls_view (d : Device) (format : VkFormat)
    (usage aspectMask width height : Nat) :
    Device.imageViewInfo (d ++ createAttachmentCalls d.length format usage aspectMask width height)
        (createAttachmentResult d.length format).view =
      some { image := d.length + 1, viewType := VK_IMAGE_VIEW_TYPE_2D, format := format,
             subresourceRange := { aspectMask := aspectMask, baseMipLevel := 0, levelCount := 1,
                                   baseArrayLayer := 0, layerCount := 1 } } := by
  simp [Device.imageViewInfo, createAttachmentResult, createAttachmentCalls, Device.lookup_append_new]

theorem hbao_createAttachmentCalls_length (base : Nat) (format : VkFormat)
    (usage aspectMask width height : Nat) :
    (createAttachmentCalls base format usage aspectMask width height).length = 4 := rfl

theorem hbao_prepareOffscreenFramebuffers_eq (s : VulkanExample) (fmt : VkFormat)
    (hD : s.supportedDepthFormat = some fmt) :
    prepareOffscreenFramebuffers s =
      some { s with
        device := s.device ++
          prepareOffscreenFramebuffersCalls s.device.length s.width s.height (if s.ANDROID = true then s.width / 2 else s.width)
            (if s.ANDROID = true then s.height / 2 else s.height) fmt,
        frameBuffers :=
          prepareOffscreenFramebuffersResult s.device.length s.width s.height (if s.ANDROID = true then s.width / 2 else s.width)
            (if s.ANDROID = true then s.height / 2 else s.height) fmt,
        colorSampler := s.device.length + 31 } := by
  cases hA : s.ANDROID <;>
  simp [prepareOffscreenFramebuffers, hA, hD, hbao_createAttachment_color, hbao_createAttachment_depth,
    hbao_createAttachmentCalls_length, Device.call, Nat.add_assoc, span, FrameBuffer.setSize,
    prepareOffscreenFramebuffersCalls, prepareOffscreenFramebuffersResult, createAttachmentResult]

theorem hbao_prepareOffscreenFramebuffersCalls_length (base width height hbaoWidth hbaoHeight : Nat)
    (fmt : VkFormat) :
    (prepareOffscreenFramebuffersCalls base width height hbaoWidth hbaoHeight fmt).length = 31 := rfl

/-- The create-infos of the three render passes and the three framebuffers in
the log `prepareOffscreenFramebuffers` leaves. -/
theorem hbao_offscreenCalls_lookup (d : Device) (width height hbaoWidth hbaoHeight : Nat)
    (fmt : VkFormat) :
    let log := d ++ prepareOffscreenFramebuffersCalls d.length width height hbaoWidth hbaoHeight fmt
    let fb := prepareOffscreenFramebuffersResult d.length width height hbaoWidth hbaoHeight fmt
    Device.renderPassInfo log fb.offscreen.renderPass =
      some (gBufferRenderPassInfo fb.offscreen.position fb.offscreen.normal fb.offscreen.albedo
        fb.offscreen.depth) ∧
    Device.renderPassInfo log fb.hbao.renderPass = some (hbaoRenderPassInfo fb.hbao.color) ∧
    Device.renderPassInfo log fb.hbaoBlur.renderPass =
      some (hbaoBlurRenderPassInfo fb.hbaoBlur.color) ∧
    Device.framebufferInfo log fb.offscreen.frameBuffer =
      some { renderPass := fb.offscreen.renderPass,
             pAttachments := [ fb.offscreen.position.view, fb.offscreen.normal.view,
                               fb.offscreen.albedo.view, fb.offscreen.depth.view ],
             width := toUInt32 fb.offscreen.width, height := toUInt32 fb.offscreen.height,
             layers := 1 } ∧
    Device.framebufferInfo log fb.hbao.frameBuffer =
      some { renderPass := fb.hbao.renderPass, pAttachments := [fb.hbao.color.view],
             width := toUInt32 fb.hbao.width, height := toUInt32 fb.hbao.height, layers := 1 } ∧
    Device.framebufferInfo log fb.hbaoBlur.frameBuffer =
      some { renderPass := fb.hbaoBlur.renderPass, pAttachments := [fb.hbaoBlur.color.view],
             width := toUInt32 fb.hbaoBlur.width, height := toUInt32 fb.hbaoBlur.height,
             layers := 1 } := by
  simp [Device.renderPassInfo, Device.framebufferInfo, prepareOffscreenFramebuffersResult,
    prepareOffscreenFramebuffersCalls, createAttachmentCalls, createAttachmentResult,
    Device.lookup_append_new, Nat.add_assoc]

theorem hbao_prepareBuffersFrame_eq (s : VulkanExample) (i : Nat) :
    prepareBuffersFrame s i =
      { s with
        device := s.device ++ prepareBuffersFrameCalls,
        uniformBuffers := Function.update s.uniformBuffers i (prepareBuffersFrameBuffers s.device.length) } := by
  simp [prepareBuffersFrame, prepareBuffersFrameCalls, prepareBuffersFrameBuffers,
    vks.VulkanDevice.createBuffer, vks.Buffer.map, Device.call, Nat.add_assoc]

theorem hbao_prepareBuffers_loop (s : VulkanExample) (n : Nat) :
    (List.range n).foldl prepareBuffersFrame s =
      { s with
        device := s.device ++ (List.range n).flatMap (fun _ => prepareBuffersFrameCalls),
        uniformBuffers := fun i =>
          if i < n then prepareBuffersFrameBuffers (s.device.length + 3 * i) else s.uniformBuffers i } := by
  induction n with
  | zero => simp
  | succ n ih =>
    rw [List.range_succ, List.foldl_append, ih]
    simp only [List.foldl_cons, List.foldl_nil, hbao_prepareBuffersFrame_eq, List.flatMap_append,
      List.flatMap_cons, List.flatMap_nil, List.append_nil, List.append_assoc, List.length_append]
    rw [List.length_flatMap_range (fun _ => prepareBuffersFrameCalls) 3 (fun _ => rfl)]
    congr 1
    funext i
    by_cases h : i = n
    · subst h; simp
    · have h' : (i < n + 1) = (i < n) := by
        apply propext; constructor <;> intro <;> omega
      simp [Function.update, h, h']

theorem hbao_prepareBuffers_eq (s : VulkanExample) :
    prepareBuffers s =
      { s with
        device := s.device ++ (List.range s.maxConcurrentFrames).flatMap (fun _ => prepareBuffersFrameCalls),
        uniformBuffers := fun i =>
          if i < s.maxConcurrentFrames then prepareBuffersFrameBuffers (s.device.length + 3 * i)
          else s.uniformBuffers i } :=
  hbao_prepareBuffers_loop s s.maxConcurrentFrames

theorem hbao_setupDescriptorsFrame_eq (descriptorAllocInfo : VkDescriptorSetAllocateInfo)
    (p n a g b : VkDescriptorImageInfo) (s : VulkanExample) (i : Nat) :
    setupDescriptorsFrame descriptorAllocInfo p n a g b s i =
      { s with
        device := s.device ++ setupDescriptorsFrameCalls descriptorAllocInfo p n a g b
          s.descriptorSetLayouts (s.uniformBuffers i) s.device.length,
        descriptorSets := Function.update s.descriptorSets i (setupDescriptorsFrameSets s.device.length) } := by
  simp [setupDescriptorsFrame, setupDescriptorsFrameCalls, setupDescriptorsFrameSets,
    Device.call, Nat.add_assoc, span]

theorem hbao_setupDescriptors_loop (descriptorAllocInfo : VkDescriptorSetAllocateInfo)
    (p nm a g b : VkDescriptorImageInfo) (s : VulkanExample) (n : Nat) :
    (List.range n).foldl (setupDescriptorsFrame descriptorAllocInfo p nm a g b) s =
      { s with
        device := s.device ++ (List.range n).flatMap (fun i =>
          setupDescriptorsFrameCalls descriptorAllocInfo p nm a g b s.descriptorSetLayouts
            (s.uniformBuffers i) (s.device.length + 8 * i)),
        descriptorSets := fun i =>
          if i < n then setupDescriptorsFrameSets (s.device.length + 8 * i) else s.descriptorSets i } := by
  induction n with
  | zero => simp
  | succ n ih =>
    rw [List.range_succ, List.foldl_append, ih]
    simp only [List.foldl_cons, List.foldl_nil, hbao_setupDescriptorsFrame_eq, List.flatMap_append,
      List.flatMap_cons, List.flatMap_nil, List.append_nil, List.append_assoc, List.length_append]
    rw [List.length_flatMap_range (fun i =>
          setupDescriptorsFrameCalls descriptorAllocInfo p nm a g b s.descriptorSetLayouts
            (s.uniformBuffers i) (s.device.length + 8 * i)) 8 (fun _ => rfl)]
    congr 1
    funext i
    by_cases h : i = n
    · subst h; simp
    · have h' : (i < n + 1) = (i < n) := by
        apply propext; constructor <;> intro <;> omega
      simp [Function.update, h, h']

theorem hbao_setupDescriptors_eq (s : VulkanExample) :
    setupDescriptors s =
      { s with
        device := s.device ++ (setupDescriptorsLayoutCalls s.maxConcurrentFrames ++
          (List.range s.maxConcurrentFrames).flatMap (fun i =>
            setupDescriptorsFrameCalls
              { descriptorPool := s.device.length + 1, descriptorSetCount := 1, pSetLayouts := [] }
              { sampler := s.colorSampler, imageView := s.frameBuffers.offscreen.position.view,
                imageLayout := VK_IMAGE_LAYOUT_SHADER_READ_ONLY_OPTIMAL }
              { sampler := s.colorSampler, imageView := s.frameBuffers.offscreen.normal.view,
                imageLayout := VK_IMAGE_LAYOUT_SHADER_READ_ONLY_OPTIMAL }
              { sampler := s.colorSampler, imageView := s.frameBuffers.offscreen.albedo.view,
                imageLayout := VK_IMAGE_LAYOUT_SHADER_READ_ONLY_OPTIMAL }
              { sampler := s.colorSampler, imageView := s.frameBuffers.hbao.color.view,
                imageLayout := VK_IMAGE_LAYOUT_SHADER_READ_ONLY_OPTIMAL }
              { sampler := s.colorSampler, imageView := s.frameBuffers.hbaoBlur.color.view,
                imageLayout := VK_IMAGE_LAYOUT_SHADER_READ_ONLY_OPTIMAL }
              { gBuffer := s.device.length + 2, hbao := s.device.length + 3,
                hbaoBlur := s.device.length + 4, composition := s.device.length + 5 }
              (s.uniformBuffers i) (s.device.length + 5 + 8 * i))),
        descriptorPool := s.device.length + 1,
        descriptorSetLayouts :=
          { gBuffer := s.device.length + 2, hbao := s.device.length + 3,
            hbaoBlur := s.device.length + 4, composition := s.device.length + 5 },
        descriptorSets := fun i =>
          if i < s.maxConcurrentFrames then setupDescriptorsFrameSets (s.device.length + 5 + 8 * i)
          else s.descriptorSets i } := by
  unfold setupDescriptors
  simp only [hbao_setupDescriptors_loop]
  simp [setupDescriptorsLayoutCalls, Device.call, Nat.add_assoc, span,
    vks.initializers.descriptorPoolSize, vks.initializers.descriptorPoolCreateInfo,
    vks.initializers.descriptorSetLayoutBinding, vks.initializers.descriptorSetLayoutCreateInfo,
    vks.initializers.descriptorSetAllocateInfo, vks.initializers.descriptorImageInfo]

theorem hbao_writesTo_frames (ai : VkDescriptorSetAllocateInfo) (p nm a g b : VkDescriptorImageInfo)
    (layouts : DescriptorSetLayouts) (ub : Nat → UniformBuffers) (base n i : Nat) (hi : i < n) :
    let frames := (List.range n).flatMap (fun j =>
      setupDescriptorsFrameCalls ai p nm a g b layouts (ub j) (base + 8 * j))
    Device.writesTo frames (base + 8 * i + 1) =
        [ vks.initializers.writeDescriptorSet (base + 8 * i + 1) VK_DESCRIPTOR_TYPE_UNIFORM_BUFFER 0 (ub i).sceneParams.descriptor ] ∧
    Device.writesTo frames (base + 8 * i + 3) =
        [ vks.initializers.writeDescriptorSetImage (base + 8 * i + 3) VK_DESCRIPTOR_TYPE_COMBINED_IMAGE_SAMPLER 0 p,
          vks.initializers.writeDescriptorSetImage (base + 8 * i + 3) VK_DESCRIPTOR_TYPE_COMBINED_IMAGE_SAMPLER 1 nm,
          vks.initializers.writeDescriptorSet (base + 8 * i + 3) VK_DESCRIPTOR_TYPE_UNIFORM_BUFFER 2 (ub i).hbaoSettings.descriptor,
          vks.initializers.writeDescriptorSet (base + 8 * i + 3) VK_DESCRIPTOR_TYPE_UNIFORM_BUFFER 3 (ub i).hbaoParams.descriptor ] ∧
    Device.writesTo frames (base + 8 * i + 5) =
        [ vks.initializers.writeDescriptorSetImage (base + 8 * i + 5) VK_DESCRIPTOR_TYPE_COMBINED_IMAGE_SAMPLER 0 g ] ∧
    Device.writesTo frames (base + 8 * i + 7) =
        [ vks.initializers.writeDescriptorSetImage (base + 8 * i + 7) VK_DESCRIPTOR_TYPE_COMBINED_IMAGE_SAMPLER 0 p,
          vks.initializers.writeDescriptorSetImage (base + 8 * i + 7) VK_DESCRIPTOR_TYPE_COMBINED_IMAGE_SAMPLER 1 nm,
          vks.initializers.writeDescriptorSetImage (base + 8 * i + 7) VK_DESCRIPTOR_TYPE_COMBINED_IMAGE_SAMPLER 2 a,
          vks.initializers.writeDescriptorSetImage (base + 8 * i + 7) VK_DESCRIPTOR_TYPE_COMBINED_IMAGE_SAMPLER 3 g,
          vks.initializers.writeDescriptorSetImage (base + 8 * i + 7) VK_DESCRIPTOR_TYPE_COMBINED_IMAGE_SAMPLER 4 b,
          vks.initializers.writeDescriptorSet (base + 8 * i + 7) VK_DESCRIPTOR_TYPE_UNIFORM_BUFFER 5 (ub i).hbaoParams.descriptor ] := by
  intro frames
  have key : ∀ k, k = 1 ∨ k = 3 ∨ k = 5 ∨ k = 7 →
      Device.writesTo frames (base + 8 * i + k) =
        Device.writesTo (setupDescriptorsFrameCalls ai p nm a g b layouts (ub i) (base + 8 * i))
          (base + 8 * i + k) := by
    intro k hk
    rcases hk with rfl | rfl | rfl | rfl <;>
    show List.flatMap _ _ = _ <;>
    rw [List.flatMap_assoc] <;>
    apply List.flatMap_range_single _ i n hi <;>
    intro j hj <;>
    simp [setupDescriptorsFrameCalls, Call.writes, vks.initializers.writeDescriptorSet,
      vks.initializers.writeDescriptorSetImage] <;>
    omega
  refine ⟨?_, ?_, ?_, ?_⟩
  · rw [key 1 (by simp)]
    simp [Device.writesTo, setupDescriptorsFrameCalls, Call.writes, vks.initializers.writeDescriptorSet,
      vks.initializers.writeDescriptorSetImage]
  · rw [key 3 (by simp)]
    simp [Device.writesTo, setupDescriptorsFrameCalls, Call.writes, vks.initializers.writeDescriptorSet,
      vks.initializers.writeDescriptorSetImage]
  · rw [key 5 (by simp)]
    simp [Device.writesTo, setupDescriptorsFrameCalls, Call.writes, vks.initializers.writeDescriptorSet,
      vks.initializers.writeDescriptorSetImage]
  · rw [key 7 (by simp)]
    simp [Device.writesTo, setupDescriptorsFrameCalls, Call.writes, vks.initializers.writeDescriptorSet,
      vks.initializers.writeDescriptorSetImage]

theorem hbao_preparePipelines_device (s : VulkanExample) :
    ∃ pipes : List Call, (preparePipelines s).device = s.device ++ pipes ∧ pipes.length = 14 ∧
      ∀ c ∈ pipes, c.writes = [] := by
  simp only [preparePipelines, Device.call, loadShader, List.append_assoc]
  exact ⟨_, rfl, rfl, by simp [Call.writes]⟩

theorem hbao_prepare_eq (s : VulkanExample) (fmt : VkFormat)
    (hD : s.supportedDepthFormat = some fmt) :
    prepare s = some { preparePipelines (setupDescriptors (prepareBuffers
      { s with
        device := s.device ++
          prepareOffscreenFramebuffersCalls s.device.length s.width s.height (if s.ANDROID = true then s.width / 2 else s.width)
            (if s.ANDROID = true then s.height / 2 else s.height) fmt,
        frameBuffers :=
          prepareOffscreenFramebuffersResult s.device.length s.width s.height (if s.ANDROID = true then s.width / 2 else s.width)
            (if s.ANDROID = true then s.height / 2 else s.height) fmt,
        colorSampler := s.device.length + 31 })) with prepared := true } := by
  simp [prepare, hbao_prepareOffscreenFramebuffers_eq s fmt hD]

/-- What `prepare` leaves in the state: the offscreen targets, the sampler, and
for every slot the uniform buffers and the descriptor sets, by handle. -/
theorem hbao_prepare_state (s sp : VulkanExample) (fmt : VkFormat)
    (hD : s.supportedDepthFormat = some fmt)
    (hsp : prepare s = some sp) :
    sp.maxConcurrentFrames = s.maxConcurrentFrames ∧
    sp.frameBuffers =
      prepareOffscreenFramebuffersResult s.device.length s.width s.height (if s.ANDROID = true then s.width / 2 else s.width)
            (if s.ANDROID = true then s.height / 2 else s.height) fmt ∧
    sp.colorSampler = s.device.length + 31 ∧
    (∀ i, i < s.maxConcurrentFrames →
      sp.uniformBuffers i = prepareBuffersFrameBuffers (s.device.length + 31 + 3 * i)) ∧
    (∀ i, i < s.maxConcurrentFrames →
      sp.descriptorSets i =
        setupDescriptorsFrameSets (s.device.length + 31 + 3 * s.maxConcurrentFrames + 5 + 8 * i)) := by
  rw [hbao_prepare_eq s fmt hD] at hsp
  cases hsp
  simp only [preparePipelines, hbao_setupDescriptors_eq, hbao_prepareBuffers_eq]
  simp [hbao_prepareOffscreenFramebuffersCalls_length,
    List.length_flatMap_range (fun _ => prepareBuffersFrameCalls) 3 (fun _ => rfl)]
  constructor
  · intro i hi; simp [hi]
  · intro i hi; simp [hi, Nat.add_assoc]


/-- The device log `prepare` leaves: the log before, then the calls of
`prepareOffscreenFramebuffers`, of `prepareBuffers`, of `setupDescriptors` and
the fourteen calls `pipes` of `preparePipelines`, none of which writes a
descriptor. -/
theorem hbao_prepare_device (s sp : VulkanExample) (fmt : VkFormat)
    (hD : s.supportedDepthFormat = some fmt)
    (hsp : prepare s = some sp) :
    ∃ pipes : List Call, pipes.length = 14 ∧ (∀ c ∈ pipes, c.writes = []) ∧
      sp.device = s.device ++
        (prepareOffscreenFramebuffersCalls s.device.length s.width s.height (if s.ANDROID = true then s.width / 2 else s.width)
            (if s.ANDROID = true then s.height / 2 else s.height) fmt ++
          ((List.range s.maxConcurrentFrames).flatMap (fun _ => prepareBuffersFrameCalls) ++
            (setupDescriptorsLayoutCalls s.maxConcurrentFrames ++
              ((List.range s.maxConcurrentFrames).flatMap (fun i =>
                  setupDescriptorsFrameCalls
                    { descriptorPool := sp.descriptorPool, descriptorSetCount := 1, pSetLayouts := [] }
                    { sampler := sp.colorSampler, imageView := sp.frameBuffers.offscreen.position.view,
                      imageLayout := VK_IMAGE_LAYOUT_SHADER_READ_ONLY_OPTIMAL }
                    { sampler := sp.colorSampler, imageView := sp.frameBuffers.offscreen.normal.view,
                      imageLayout := VK_IMAGE_LAYOUT_SHADER_READ_ONLY_OPTIMAL }
                    { sampler := sp.colorSampler, imageView := sp.frameBuffers.offscreen.albedo.view,
                      imageLayout := VK_IMAGE_LAYOUT_SHADER_READ_ONLY_OPTIMAL }
                    { sampler := sp.colorSampler, imageView := sp.frameBuffers.hbao.color.view,
                      imageLayout := VK_IMAGE_LAYOUT_SHADER_READ_ONLY_OPTIMAL }
                    { sampler := sp.colorSampler, imageView := sp.frameBuffers.hbaoBlur.color.view,
                      imageLayout := VK_IMAGE_LAYOUT_SHADER_READ_ONLY_OPTIMAL }
                    sp.descriptorSetLayouts (sp.uniformBuffers i)
                    (s.device.length + 31 + 3 * s.maxConcurrentFrames + 5 + 8 * i)) ++
                pipes)))) := by
  rw [hbao_prepare_eq s fmt hD] at hsp
  cases hsp
  obtain ⟨pipes, hpipes, hlen, hnw⟩ := hbao_preparePipelines_device (setupDescriptors (prepareBuffers
      { s with
        device := s.device ++
          prepareOffscreenFramebuffersCalls s.device.length s.width s.height (if s.ANDROID = true then s.width / 2 else s.width)
            (if s.ANDROID = true then s.height / 2 else s.height) fmt,
        frameBuffers :=
          prepareOffscreenFramebuffersResult s.device.length s.width s.height (if s.ANDROID = true then s.width / 2 else s.width)
            (if s.ANDROID = true then s.height / 2 else s.height) fmt,
        colorSampler := s.device.length + 31 }))
  refine ⟨pipes, hlen, hnw, ?_⟩
  dsimp only
  rw [hpipes]
  simp only [preparePipelines, hbao_setupDescriptors_eq, hbao_prepareBuffers_eq]
  simp only [List.length_append, hbao_prepareOffscreenFramebuffersCalls_length,
    List.length_flatMap_range (fun _ => prepareBuffersFrameCalls) 3 (fun _ => rfl),
    List.append_assoc, Nat.add_assoc]


theorem hbao_writesTo_offscreenCalls (base width height hbaoWidth hbaoHeight : Nat) (fmt : VkFormat)
    (h : Nat) :
    Device.writesTo (prepareOffscreenFramebuffersCalls base width height hbaoWidth hbaoHeight fmt) h
      = [] := by
  simp [Device.writesTo, prepareOffscreenFramebuffersCalls, createAttachmentCalls, Call.writes]

theorem hbao_writesTo_bufferCalls (n h : Nat) :
    Device.writesTo ((List.range n).flatMap (fun _ => prepareBuffersFrameCalls)) h = [] := by
  apply Device.writesTo_of_no_writes
  intro c hc
  simp [prepareBuffersFrameCalls] at hc
  rcases hc with ⟨-, rfl | rfl | rfl⟩ <;> rfl

theorem hbao_writesTo_layoutCalls (n h : Nat) :
    Device.writesTo (setupDescriptorsLayoutCalls n) h = [] := by
  simp [Device.writesTo, setupDescriptorsLayoutCalls, Call.writes]

/-- The descriptor writes on the four sets of slot `i` after `prepare`, when
the writes of the log before `prepare` target handles of that log. -/
theorem hbao_prepare_writes (s sp : VulkanExample) (fmt : VkFormat)
    (hD : s.supportedDepthFormat = some fmt)
    (hsp : prepare s = some sp) (hb : Device.writesBounded s.device)
    (i : Nat) (hi : i < s.maxConcurrentFrames) :
    Device.writesTo sp.device (sp.descriptorSets i).gBuffer =
      [ vks.initializers.writeDescriptorSet (sp.descriptorSets i).gBuffer
          VK_DESCRIPTOR_TYPE_UNIFORM_BUFFER 0 (sp.uniformBuffers i).sceneParams.descriptor ] ∧
    Device.writesTo sp.device (sp.descriptorSets i).hbao =
      [ vks.initializers.writeDescriptorSetImage (sp.descriptorSets i).hbao
          VK_DESCRIPTOR_TYPE_COMBINED_IMAGE_SAMPLER 0
          { sampler := sp.colorSampler, imageView := sp.frameBuffers.offscreen.position.view,
            imageLayout := VK_IMAGE_LAYOUT_SHADER_READ_ONLY_OPTIMAL },
        vks.initializers.writeDescriptorSetImage (sp.descriptorSets i).hbao
          VK_DESCRIPTOR_TYPE_COMBINED_IMAGE_SAMPLER 1
          { sampler := sp.colorSampler, imageView := sp.frameBuffers.offscreen.normal.view,
            imageLayout := VK_IMAGE_LAYOUT_SHADER_READ_ONLY_OPTIMAL },
        vks.initializers.writeDescriptorSet (sp.descriptorSets i).hbao
          VK_DESCRIPTOR_TYPE_UNIFORM_BUFFER 2 (sp.uniformBuffers i).hbaoSettings.descriptor,
        vks.initializers.writeDescriptorSet (sp.descriptorSets i).hbao
          VK_DESCRIPTOR_TYPE_UNIFORM_BUFFER 3 (sp.uniformBuffers i).hbaoParams.descriptor ] ∧
    Device.writesTo sp.device (sp.descriptorSets i).hbaoBlur =
      [ vks.initializers.writeDescriptorSetImage (sp.descriptorSets i).hbaoBlur
          VK_DESCRIPTOR_TYPE_COMBINED_IMAGE_SAMPLER 0
          { sampler := sp.colorSampler, imageView := sp.frameBuffers.hbao.color.view,
            imageLayout := VK_IMAGE_LAYOUT_SHADER_READ_ONLY_OPTIMAL } ] ∧
    Device.writesTo sp.device (sp.descriptorSets i).composition =
      [ vks.initializers.writeDescriptorSetImage (sp.descriptorSets i).composition
          VK_DESCRIPTOR_TYPE_COMBINED_IMAGE_SAMPLER 0
          { sampler := sp.colorSampler, imageView := sp.frameBuffers.offscreen.position.view,
            imageLayout := VK_IMAGE_LAYOUT_SHADER_READ_ONLY_OPTIMAL },
        vks.initializers.writeDescriptorSetImage (sp.descriptorSets i).composition
          VK_DESCRIPTOR_TYPE_COMBINED_IMAGE_SAMPLER 1
          { sampler := sp.colorSampler, imageView := sp.frameBuffers.offscreen.normal.view,
            imageLayout := VK_IMAGE_LAYOUT_SHADER_READ_ONLY_OPTIMAL },
        vks.initializers.writeDescriptorSetImage (sp.descriptorSets i).composition
          VK_DESCRIPTOR_TYPE_COMBINED_IMAGE_SAMPLER 2
          { sampler := sp.colorSampler, imageView := sp.frameBuffers.offscreen.albedo.view,
            imageLayout := VK_IMAGE_LAYOUT_SHADER_READ_ONLY_OPTIMAL },
        vks.initializers.writeDescriptorSetImage (sp.descriptorSets i).composition
          VK_DESCRIPTOR_TYPE_COMBINED_IMAGE_SAMPLER 3
          { sampler := sp.colorSampler, imageView := sp.frameBuffers.hbao.color.view,
            imageLayout := VK_IMAGE_LAYOUT_SHADER_READ_ONLY_OPTIMAL },
        vks.initializers.writeDescriptorSetImage (sp.descriptorSets i).composition
          VK_DESCRIPTOR_TYPE_COMBINED_IMAGE_SAMPLER 4
          { sampler := sp.colorSampler, imageView := sp.frameBuffers.hbaoBlur.color.view,
            imageLayout := VK_IMAGE_LAYOUT_SHADER_READ_ONLY_OPTIMAL },
        vks.initializers.writeDescriptorSet (sp.descriptorSets i).composition
          VK_DESCRIPTOR_TYPE_UNIFORM_BUFFER 5 (sp.uniformBuffers i).hbaoParams.descriptor ] := by
  obtain ⟨pipes, -, hnw, hdev⟩ := hbao_prepare_device s sp fmt hD hsp
  obtain ⟨-, -, -, -, hds⟩ := hbao_prepare_state s sp fmt hD hsp
  have hframes := hbao_writesTo_frames
    { descriptorPool := sp.descriptorPool, descriptorSetCount := 1, pSetLayouts := [] }
    { sampler := sp.colorSampler, imageView := sp.frameBuffers.offscreen.position.view,
      imageLayout := VK_IMAGE_LAYOUT_SHADER_READ_ONLY_OPTIMAL }
    { sampler := sp.colorSampler, imageView := sp.frameBuffers.offscreen.normal.view,
      imageLayout := VK_IMAGE_LAYOUT_SHADER_READ_ONLY_OPTIMAL }
    { sampler := sp.colorSampler, imageView := sp.frameBuffers.offscreen.albedo.view,
      imageLayout := VK_IMAGE_LAYOUT_SHADER_READ_ONLY_OPTIMAL }
    { sampler := sp.colorSampler, imageView := sp.frameBuffers.hbao.color.view,
      imageLayout := VK_IMAGE_LAYOUT_SHADER_READ_ONLY_OPTIMAL }
    { sampler := sp.colorSampler, imageView := sp.frameBuffers.hbaoBlur.color.view,
      imageLayout := VK_IMAGE_LAYOUT_SHADER_READ_ONLY_OPTIMAL }
    sp.descriptorSetLayouts sp.uniformBuffers
    (s.device.length + 31 + 3 * s.maxConcurrentFrames + 5) s.maxConcurrentFrames i hi
  obtain ⟨h1, h3, h5, h7⟩ := hframes
  have hpipes : ∀ h, Device.writesTo pipes h = [] :=
    fun h => Device.writesTo_of_no_writes pipes h hnw
  have hold : ∀ k, Device.writesTo s.device
      (s.device.length + 31 + 3 * s.maxConcurrentFrames + 5 + 8 * i + (k + 1)) = [] :=
    fun k => Device.writesTo_of_bounded s.device _ hb (by omega)
  rw [hds i hi, hdev]
  simp only [setupDescriptorsFrameSets, Device.writesTo_append, hbao_writesTo_offscreenCalls,
    hbao_writesTo_bufferCalls, hbao_writesTo_layoutCalls, hpipes, hold 0, hold 2, hold 4, hold 6,
    List.nil_append, List.append_nil, h1, h3, h5, h7, and_self]

theorem hbao_prepare_some (s sp : VulkanExample) (hsp : prepare s = some sp) :
    ∃ fmt, s.supportedDepthFormat = some fmt := by
  have hbind : ∃ s1, prepareOffscreenFramebuffers s = some s1 := by
    cases h : prepareOffscreenFramebuffers s with
    | none => simp [prepare, h] at hsp
    | some s1 => exact ⟨s1, rfl⟩
  obtain ⟨s1, h1⟩ := hbind
  cases hD : s.supportedDepthFormat with
  | none => simp [prepareOffscreenFramebuffers, hD] at h1
  | some fmt => exact ⟨fmt, rfl⟩

/-- After `prepare` the log still answers for the objects of
`prepareOffscreenFramebuffers` as when they were created. -/
theorem hbao_prepare_lookup (s sp : VulkanExample) (fmt : VkFormat)
    (hD : s.supportedDepthFormat = some fmt)
    (hsp : prepare s = some sp) (h : Nat) (hh : h ≤ s.device.length + 31) :
    Device.lookup sp.device h =
      Device.lookup (s.device ++
        prepareOffscreenFramebuffersCalls s.device.length s.width s.height (if s.ANDROID = true then s.width / 2 else s.width)
            (if s.ANDROID = true then s.height / 2 else s.height) fmt) h := by
  obtain ⟨pipes, -, -, hdev⟩ := hbao_prepare_device s sp fmt hD hsp
  rw [hdev, ← List.append_assoc]
  apply Device.lookup_append_old
  simp [hbao_prepareOffscreenFramebuffersCalls_length]
  omega

/-- After `prepare`: the create-infos of the three offscreen render passes and
framebuffers, read from the log by the handles kept in `frameBuffers`. -/
theorem hbao_prepare_targets (s sp : VulkanExample) (hsp : prepare s = some sp) :
    Device.renderPassInfo sp.device sp.frameBuffers.offscreen.renderPass =
      some (gBufferRenderPassInfo sp.frameBuffers.offscreen.position sp.frameBuffers.offscreen.normal
        sp.frameBuffers.offscreen.albedo sp.frameBuffers.offscreen.depth) ∧
    Device.renderPassInfo sp.device sp.frameBuffers.hbao.renderPass =
      some (hbaoRenderPassInfo sp.frameBuffers.hbao.color) ∧
    Device.renderPassInfo sp.device sp.frameBuffers.hbaoBlur.renderPass =
      some (hbaoBlurRenderPassInfo sp.frameBuffers.hbaoBlur.color) ∧
    Device.framebufferInfo sp.device sp.frameBuffers.offscreen.frameBuffer =
      some { renderPass := sp.frameBuffers.offscreen.renderPass,
             pAttachments := [ sp.frameBuffers.offscreen.position.view,
                               sp.frameBuffers.offscreen.normal.view,
                               sp.frameBuffers.offscreen.albedo.view,
                               sp.frameBuffers.offscreen.depth.view ],
             width := toUInt32 sp.frameBuffers.offscreen.width,
             height := toUInt32 sp.frameBuffers.offscreen.height, layers := 1 } ∧
    Device.framebufferInfo sp.device sp.frameBuffers.hbao.frameBuffer =
      some { renderPass := sp.frameBuffers.hbao.renderPass,
             pAttachments := [sp.frameBuffers.hbao.color.view],
             width := toUInt32 sp.frameBuffers.hbao.width,
             height := toUInt32 sp.frameBuffers.hbao.height, layers := 1 } ∧
    Device.framebufferInfo sp.device sp.frameBuffers.hbaoBlur.frameBuffer =
      some { renderPass := sp.frameBuffers.hbaoBlur.renderPass,
             pAttachments := [sp.frameBuffers.hbaoBlur.color.view],
             width := toUInt32 sp.frameBuffers.hbaoBlur.width,
             height := toUInt32 sp.frameBuffers.hbaoBlur.height, layers := 1 } := by
  obtain ⟨fmt, hD⟩ := hbao_prepare_some s sp hsp
  obtain ⟨-, hfb, -, -, -⟩ := hbao_prepare_state s sp fmt hD hsp
  have hl := hbao_prepare_lookup s sp fmt hD hsp
  have key := hbao_offscreenCalls_lookup s.device s.width s.height (if s.ANDROID = true then s.width / 2 else s.width)
            (if s.ANDROID = true then s.height / 2 else s.height) fmt
  simp only [Device.renderPassInfo, Device.framebufferInfo] at key ⊢
  rw [hfb]
  rw [hl _ (by simp [prepareOffscreenFramebuffersResult]),
    hl _ (by simp [prepareOffscreenFramebuffersResult]),
    hl _ (by simp [prepareOffscreenFramebuffersResult]),
    hl _ (by simp [prepareOffscreenFramebuffersResult]),
    hl _ (by simp [prepareOffscreenFramebuffersResult]),
    hl _ (by simp [prepareOffscreenFramebuffersResult])]
  exact key

/-- The depth-stencil state of the four pipelines `preparePipelines` creates. -/
theorem hbao_preparePipelines_depth (s : VulkanExample) :
    ∀ p ∈ [ (preparePipelines s).pipelines.offscreen, (preparePipelines s).pipelines.composition,
            (preparePipelines s).pipelines.hbao, (preparePipelines s).pipelines.hbaoBlur ],
      ∃ ci, Device.pipelineInfo (preparePipelines s).device p = some ci ∧
        ci.pDepthStencilState =
          { depthTestEnable := true, depthWriteEnable := true,
            depthCompareOp := VK_COMPARE_OP_LESS_OR_EQUAL } := by
  simp [preparePipelines, Device.call, loadShader, Device.pipelineInfo, Device.lookup_append_new,
    Nat.add_assoc, vks.initializers.pipelineDepthStencilStateCreateInfo]

/-- After `prepare` the log and the pipeline handles are those left by
`preparePipelines`. -/
theorem hbao_prepare_pipelines (s sp : VulkanExample) (hsp : prepare s = some sp) :
    ∃ x, sp.device = (preparePipelines x).device ∧
      sp.pipelines = (preparePipelines x).pipelines := by
  have hbind : ∃ s1, prepareOffscreenFramebuffers s = some s1 := by
    cases h : prepareOffscreenFramebuffers s with
    | none => simp [prepare, h] at hsp
    | some s1 => exact ⟨s1, rfl⟩
  obtain ⟨s1, h1⟩ := hbind
  simp only [prepare, h1, Option.bind_eq_bind, Option.some_bind, Option.some.injEq] at hsp
  subst hsp
  exact ⟨setupDescriptors (prepareBuffers s1), rfl, rfl⟩

/-- After `prepare`: the depth-stencil state of the four pipelines. -/
theorem hbao_prepare_depth (s sp : VulkanExample) (hsp : prepare s = some sp) :
    ∀ p ∈ [ sp.pipelines.offscreen, sp.pipelines.composition, sp.pipelines.hbao,
            sp.pipelines.hbaoBlur ],
      ∃ ci, Device.pipelineInfo sp.device p = some ci ∧
        ci.pDepthStencilState =
          { depthTestEnable := true, depthWriteEnable := true,
            depthCompareOp := VK_COMPARE_OP_LESS_OR_EQUAL } := by
  obtain ⟨x, hd, hp⟩ := hbao_prepare_pipelines s sp hsp
  rw [hd, hp]
  exact hbao_preparePipelines_depth x

theorem hbao_prepare_sample : prepare sampleState = some preparedSample := by
  rw [preparedSample, hbao_prepare_eq sampleState 130 rfl]
  rfl

theorem hbao_sample_bounded : Device.writesBounded sampleState.device := by
  intro c hc w hw
  simp only [sampleState, List.mem_cons, List.mem_replicate] at hc
  rcases hc with rfl | ⟨-, rfl⟩ <;> simp [Call.writes] at hw

/-- What `prepare` keeps of the state: the fields of the frame in flight. -/
theorem hbao_prepare_frame (s sp : VulkanExample) (hsp : prepare s = some sp) :
    sp.maxConcurrentFrames = s.maxConcurrentFrames ∧ sp.currentBuffer = s.currentBuffer ∧
    sp.drawCmdBuffers = s.drawCmdBuffers ∧ sp.uboHBAOParams = s.uboHBAOParams ∧
    sp.camera = s.camera := by
  obtain ⟨fmt, hD⟩ := hbao_prepare_some s sp hsp
  rw [hbao_prepare_eq s fmt hD] at hsp
  cases hsp
  simp only [preparePipelines, hbao_setupDescriptors_eq, hbao_prepareBuffers_eq]
  simp

/-- After `prepare`: the handles of the uniform buffers and of the descriptor
sets of every slot, counted from the length of the log before. -/
theorem hbao_prepare_handles (s sp : VulkanExample) (hsp : prepare s = some sp) :
    (∀ i, i < s.maxConcurrentFrames →
      sp.uniformBuffers i = prepareBuffersFrameBuffers (s.device.length + 31 + 3 * i)) ∧
    (∀ i, i < s.maxConcurrentFrames →
      sp.descriptorSets i =
        setupDescriptorsFrameSets (s.device.length + 31 + 3 * s.maxConcurrentFrames + 5 + 8 * i)) := by
  obtain ⟨fmt, hD⟩ := hbao_prepare_some s sp hsp
  obtain ⟨-, -, -, hub, hds⟩ := hbao_prepare_state s sp fmt hD hsp
  exact ⟨hub, hds⟩

/-- After `prepare`: the sampled images and the uniform buffers written on the
four descriptor sets of slot `i`, each with its binding. -/
theorem hbao_prepare_inputs (s sp : VulkanExample) (hsp : prepare s = some sp)
    (hb : Device.writesBounded s.device) (i : Nat) (hi : i < s.maxConcurrentFrames) :
    Device.imageInputs sp.device (sp.descriptorSets i).gBuffer = [] ∧
    Device.bufferInputs sp.device (sp.descriptorSets i).gBuffer =
      [ (0, (sp.uniformBuffers i).sceneParams.descriptor) ] ∧
    Device.imageInputs sp.device (sp.descriptorSets i).hbao =
      [ (0, { sampler := sp.colorSampler, imageView := sp.frameBuffers.offscreen.position.view,
              imageLayout := VK_IMAGE_LAYOUT_SHADER_READ_ONLY_OPTIMAL }),
        (1, { sampler := sp.colorSampler, imageView := sp.frameBuffers.offscreen.normal.view,
              imageLayout := VK_IMAGE_LAYOUT_SHADER_READ_ONLY_OPTIMAL }) ] ∧
    Device.bufferInputs sp.device (sp.descriptorSets i).hbao =
      [ (2, (sp.uniformBuffers i).hbaoSettings.descriptor),
        (3, (sp.uniformBuffers i).hbaoParams.descriptor) ] ∧
    Device.imageInputs sp.device (sp.descriptorSets i).hbaoBlur =
      [ (0, { sampler := sp.colorSampler, imageView := sp.frameBuffers.hbao.color.view,
              imageLayout := VK_IMAGE_LAYOUT_SHADER_READ_ONLY_OPTIMAL }) ] ∧
    Device.bufferInputs sp.device (sp.descriptorSets i).hbaoBlur = [] ∧
    Device.imageInputs sp.device (sp.descriptorSets i).composition =
      [ (0, { sampler := sp.colorSampler, imageView := sp.frameBuffers.offscreen.position.view,
              imageLayout := VK_IMAGE_LAYOUT_SHADER_READ_ONLY_OPTIMAL }),
        (1, { sampler := sp.colorSampler, imageView := sp.frameBuffers.offscreen.normal.view,
              imageLayout := VK_IMAGE_LAYOUT_SHADER_READ_ONLY_OPTIMAL }),
        (2, { sampler := sp.colorSampler, imageView := sp.frameBuffers.offscreen.albedo.view,
              imageLayout := VK_IMAGE_LAYOUT_SHADER_READ_ONLY_OPTIMAL }),
        (3, { sampler := sp.colorSampler, imageView := sp.frameBuffers.hbao.color.view,
              imageLayout := VK_IMAGE_LAYOUT_SHADER_READ_ONLY_OPTIMAL }),
        (4, { sampler := sp.colorSampler, imageView := sp.frameBuffers.hbaoBlur.color.view,
              imageLayout := VK_IMAGE_LAYOUT_SHADER_READ_ONLY_OPTIMAL }) ] ∧
    Device.bufferInputs sp.device (sp.descriptorSets i).composition =
      [ (5, (sp.uniformBuffers i).hbaoParams.descriptor) ] := by
  obtain ⟨fmt, hD⟩ := hbao_prepare_some s sp hsp
  obtain ⟨h1, h2, h3, h4⟩ := hbao_prepare_writes s sp fmt hD hsp hb i hi
  simp only [Device.imageInputs, Device.bufferInputs, h1, h2, h3, h4]
  simp [vks.initializers.writeDescriptorSet, vks.initializers.writeDescriptorSetImage]

theorem hbao_sample_frames :
    preparedSample.maxConcurrentFrames = sampleState.maxConcurrentFrames :=
  (hbao_prepare_frame sampleState preparedSample hbao_prepare_sample).1

theorem hbao_sample_slot : preparedSample.currentBuffer < preparedSample.maxConcurrentFrames := by
  obtain ⟨h1, h2, -⟩ := hbao_prepare_frame sampleState preparedSample hbao_prepare_sample
  rw [h1, h2]
  decide

theorem hbao_sample_toggle : preparedSample.uboHBAOParams.hbaoOnly = 0 := by
  obtain ⟨-, -, -, h, -⟩ := hbao_prepare_frame sampleState preparedSample hbao_prepare_sample
  rw [h]
  rfl

end HBAO
namespace GTAO

/-- The commands `buildCommandBuffer` records, written out. -/
theorem gtao_buildCommandBuffer_cmds (s : VulkanExample) :
    (buildCommandBuffer s).2 =
      [ Cmd.vkBeginCommandBuffer,
        Cmd.vkCmdBeginRenderPass
          { renderPass := s.frameBuffers.offscreen.renderPass,
            framebuffer := s.frameBuffers.offscreen.frameBuffer,
            renderArea := { extentWidth := toUInt32 s.frameBuffers.offscreen.width,
                            extentHeight := toUInt32 s.frameBuffers.offscreen.height },
            clearValueCount := 4,
            pClearValues :=
              [ VkClearValue.color (F32.lit 0 1) (F32.lit 0 1) (F32.lit 0 1) (F32.lit 1 1),
                VkClearValue.color (F32.lit 0 1) (F32.lit 0 1) (F32.lit 0 1) (F32.lit 1 1),
                VkClearValue.color (F32.lit 0 1) (F32.lit 0 1) (F32.lit 0 1) (F32.lit 1 1),
                VkClearValue.depthStencil (F32.lit 1 1) 0 ] }
          VK_SUBPASS_CONTENTS_INLINE,
        Cmd.vkCmdSetViewport 0
          [ { width := F32.ofInt s.frameBuffers.offscreen.width,
              height := F32.ofInt s.frameBuffers.offscreen.height,
              minDepth := F32.lit 0 1, maxDepth := F32.lit 1 1 } ],
        Cmd.vkCmdSetScissor 0
          [ { extentWidth := toUInt32 s.frameBuffers.offscreen.width,
              extentHeight := toUInt32 s.frameBuffers.offscreen.height } ],
        Cmd.vkCmdBindPipeline VK_PIPELINE_BIND_POINT_GRAPHICS s.pipelines.offscreen,
        Cmd.vkCmdBindDescriptorSets VK_PIPELINE_BIND_POINT_GRAPHICS s.pipelineLayouts.gBuffer 0
          [(s.descriptorSets s.currentBuffer).gBuffer] [],
        Cmd.scene_draw true s.pipelineLayouts.gBuffer,
        Cmd.vkCmdEndRenderPass,
        Cmd.vkCmdBeginRenderPass
          { renderPass := s.frameBuffers.gtao.renderPass,
            framebuffer := s.frameBuffers.gtao.frameBuffer,
            renderArea := { extentWidth := toUInt32 s.frameBuffers.gtao.width,
                            extentHeight := toUInt32 s.frameBuffers.gtao.height },
            clearValueCount := 2,
            pClearValues :=
              [ VkClearValue.color (F32.lit 0 1) (F32.lit 0 1) (F32.lit 0 1) (F32.lit 1 1),
                VkClearValue.depthStencil (F32.lit 1 1) 0,
                VkClearValue.color (F32.lit 0 1) (F32.lit 0 1) (F32.lit 0 1) (F32.lit 1 1),
                VkClearValue.depthStencil (F32.lit 1 1) 0 ] }
          VK_SUBPASS_CONTENTS_INLINE,
        Cmd.vkCmdSetViewport 0
          [ { width := F32.ofInt s.frameBuffers.gtao.width,
              height := F32.ofInt s.frameBuffers.gtao.height,
              minDepth := F32.lit 0 1, maxDepth := F32.lit 1 1 } ],
        Cmd.vkCmdSetScissor 0
          [ { extentWidth := toUInt32 s.frameBuffers.gtao.width,
              extentHeight := toUInt32 s.frameBuffers.gtao.height } ],
        Cmd.vkCmdBindDescriptorSets VK_PIPELINE_BIND_POINT_GRAPHICS s.pipelineLayouts.gtao 0
          [(s.descriptorSets s.currentBuffer).gtao] [],
        Cmd.vkCmdBindPipeline VK_PIPELINE_BIND_POINT_GRAPHICS s.pipelines.gtao,
        Cmd.vkCmdDraw 3 1 0 0,
        Cmd.vkCmdEndRenderPass,
        Cmd.vkCmdBeginRenderPass
          { renderPass := s.frameBuffers.gtaoBlur.renderPass,
            framebuffer := s.frameBuffers.gtaoBlur.frameBuffer,
            renderArea := { extentWidth := toUInt32 s.frameBuffers.gtaoBlur.width,
                            extentHeight := toUInt32 s.frameBuffers.gtaoBlur.height },
            clearValueCount := 2,
            pClearValues :=
              [ VkClearValue.color (F32.lit 0 1) (F32.lit 0 1) (F32.lit 0 1) (F32.lit 1 1),
                VkClearValue.depthStencil (F32.lit 1 1) 0,
                VkClearValue.color (F32.lit 0 1) (F32.lit 0 1) (F32.lit 0 1) (F32.lit 1 1),
                VkClearValue.depthStencil (F32.lit 1 1) 0 ] }
          VK_SUBPASS_CONTENTS_INLINE,
        Cmd.vkCmdSetViewport 0
          [ { width := F32.ofInt s.frameBuffers.gtaoBlur.width,
              height := F32.ofInt s.frameBuffers.gtaoBlur.height,
              minDepth := F32.lit 0 1, maxDepth := F32.lit 1 1 } ],
        Cmd.vkCmdSetScissor 0
          [ { extentWidth := toUInt32 s.frameBuffers.gtaoBlur.width,
              extentHeight := toUInt32 s.frameBuffers.gtaoBlur.height } ],
        Cmd.vkCmdBindDescriptorSets VK_PIPELINE_BIND_POINT_GRAPHICS s.pipelineLayouts.gtaoBlur 0
          [(s.descriptorSets s.currentBuffer).gtaoBlur] [],
        Cmd.vkCmdBindPipeline VK_PIPELINE_BIND_POINT_GRAPHICS s.pipelines.gtaoBlur,
        Cmd.vkCmdDraw 3 1 0 0,
        Cmd.vkCmdEndRenderPass,
        Cmd.vkCmdBeginRenderPass
          { renderPass := s.renderPass,
            framebuffer := s.swapChainFrameBuffers s.currentImageIndex,
            renderArea := { extentWidth := s.width, extentHeight := s.height },
            clearValueCount := 2,
            pClearValues := [ s.defaultClearColor, VkClearValue.depthStencil (F32.lit 1 1) 0 ] }
          VK_SUBPASS_CONTENTS_INLINE,
        Cmd.vkCmdSetViewport 0
          [ { width := F32.ofInt (Int.ofNat s.width), height := F32.ofInt (Int.ofNat s.height),
              minDepth := F32.lit 0 1, maxDepth := F32.lit 1 1 } ],
        Cmd.vkCmdSetScissor 0
          [ { extentWidth := toUInt32 (toInt32 s.width),
              extentHeight := toUInt32 (toInt32 s.height) } ],
        Cmd.vkCmdBindDescriptorSets VK_PIPELINE_BIND_POINT_GRAPHICS s.pipelineLayouts.composition 0
          [(s.descriptorSets s.currentBuffer).composition] [],
        Cmd.vkCmdBindPipeline VK_PIPELINE_BIND_POINT_GRAPHICS s.pipelines.composition,
        Cmd.vkCmdDraw 3 1 0 0,
        Cmd.drawUI,
        Cmd.vkCmdEndRenderPass,
        Cmd.vkEndCommandBuffer ] := by
  simp [buildCommandBuffer, span, vks.initializers.viewport, vks.initializers.rect2D]

/-- After `prepare`: the sizes kept with the three offscreen targets, and the
output size, which `prepare` leaves as it is. -/
theorem gtao_prepare_sizes (s sp : VulkanExample) (hsp : prepare s = some sp) :
    sp.width = s.width ∧ sp.height = s.height ∧
    sp.frameBuffers.offscreen.width = toInt32 s.width ∧
    sp.frameBuffers.offscreen.height = toInt32 s.height ∧
    sp.frameBuffers.gtao.width = toInt32 s.width ∧
    sp.frameBuffers.gtao.height = toInt32 s.height ∧
    sp.frameBuffers.gtaoBlur.width = toInt32 s.width ∧
    sp.frameBuffers.gtaoBlur.height = toInt32 s.height := by
  obtain ⟨hA, fmt, hD⟩ := gtao_prepare_some s sp hsp
  obtain ⟨-, hfb, -, -, -⟩ := gtao_prepare_state s sp fmt hA hD hsp
  refine ⟨?_, ?_, ?_⟩
  · rw [gtao_prepare_eq s fmt hA hD] at hsp
    cases hsp
    simp only [preparePipelines, gtao_setupDescriptors_eq, gtao_prepareBuffers_eq]
  · rw [gtao_prepare_eq s fmt hA hD] at hsp
    cases hsp
    simp only [preparePipelines, gtao_setupDescriptors_eq, gtao_prepareBuffers_eq]
  · rw [hfb]
    simp [prepareOffscreenFramebuffersResult]

/-- After `prepare` a handle of the log before still answers as before. -/
theorem gtao_prepare_lookup_old (s sp : VulkanExample) (hsp : prepare s = some sp)
    (h : Nat) (hh : h ≤ s.device.length) :
    Device.lookup sp.device h = Device.lookup s.device h := by
  obtain ⟨hA, fmt, hD⟩ := gtao_prepare_some s sp hsp
  rw [gtao_prepare_lookup s sp fmt hA hD hsp h (by omega)]
  exact Device.lookup_append_old _ _ h hh

/-- The create-infos of the four pipelines `preparePipelines` creates: render
pass and subpass, blend attachment states, vertex input state, and the
specialization info of each shader stage. -/
theorem gtao_preparePipelines_infos (s : VulkanExample) :
    (∃ ci, Device.pipelineInfo (preparePipelines s).device (preparePipelines s).pipelines.offscreen = some ci ∧
      ci.renderPass = s.frameBuffers.offscreen.renderPass ∧ ci.subpass = 0 ∧
      ci.pColorBlendState.pAttachments =
        [ { colorWriteMask := 0xf, blendEnable := false },
          { colorWriteMask := 0xf, blendEnable := false },
          { colorWriteMask := 0xf, blendEnable := false } ] ∧
      ci.pVertexInputState =
        { vertexBindingDescriptionCount := 1,
          pVertexAttributeDescriptions :=
            [ VertexComponent.Position, VertexComponent.UV, VertexComponent.Color,
              VertexComponent.Normal ] } ∧
      ci.pStages.map (fun st => st.pSpecializationInfo) = [none, none]) ∧
    (∃ ci, Device.pipelineInfo (preparePipelines s).device (preparePipelines s).pipelines.composition = some ci ∧
      ci.renderPass = s.renderPass ∧ ci.subpass = 0 ∧
      ci.pColorBlendState.pAttachments = [ { colorWriteMask := 0xf, blendEnable := false } ] ∧
      ci.pVertexInputState =
        { vertexBindingDescriptionCount := 0, pVertexAttributeDescriptions := [] } ∧
      ci.pStages.map (fun st => st.pSpecializationInfo) = [none, none]) ∧
    (∃ ci, Device.pipelineInfo (preparePipelines s).device (preparePipelines s).pipelines.gtao = some ci ∧
      ci.renderPass = s.frameBuffers.gtao.renderPass ∧ ci.subpass = 0 ∧
      ci.pColorBlendState.pAttachments = [ { colorWriteMask := 0xf, blendEnable := false } ] ∧
      ci.pVertexInputState =
        { vertexBindingDescriptionCount := 0, pVertexAttributeDescriptions := [] } ∧
      ci.pStages.map (fun st => (st.stage, st.pSpecializationInfo)) =
        [ (VK_SHADER_STAGE_VERTEX_BIT, none),
          (VK_SHADER_STAGE_FRAGMENT_BIT,
            some { pMapEntries := [ { constantID := 0, offset := 0, size := 4 },
                                    { constantID := 1, offset := 4, size := 4 } ],
                   dataSize := 8,
                   pData := [GTAO_DIRECTION_NUMS, GTAO_STEP_NUMS] }) ]) ∧
    (∃ ci, Device.pipelineInfo (preparePipelines s).device (preparePipelines s).pipelines.gtaoBlur = some ci ∧
      ci.renderPass = s.frameBuffers.gtaoBlur.renderPass ∧ ci.subpass = 0 ∧
      ci.pColorBlendState.pAttachments = [ { colorWriteMask := 0xf, blendEnable := false } ] ∧
      ci.pVertexInputState =
        { vertexBindingDescriptionCount := 0, pVertexAttributeDescriptions := [] } ∧
      ci.pStages.map (fun st => st.pSpecializationInfo) = [none, none]) := by
  simp [preparePipelines, Device.call, loadShader, Device.pipelineInfo, Device.lookup_append_new,
    Nat.add_assoc, span, vks.initializers.pipelineColorBlendAttachmentState,
    vks.initializers.pipelineColorBlendStateCreateInfo,
    vks.initializers.pipelineVertexInputStateCreateInfo, vkglTF.Vertex.getPipelineVertexInputState,
    vks.initializers.specializationMapEntry, vks.initializers.specializationInfo]

/-- `preparePipelines` keeps the offscreen targets and the render pass of the
swap chain. -/
theorem gtao_preparePipelines_keeps (s : VulkanExample) :
    (preparePipelines s).frameBuffers = s.frameBuffers ∧
    (preparePipelines s).renderPass = s.renderPass := by
  simp [preparePipelines]

/-- After `prepare` the log and the pipeline handles are those left by
`preparePipelines`, which keeps the offscreen targets and the render pass of
the swap chain. -/
theorem gtao_prepare_pipelines_state (s sp : VulkanExample) (hsp : prepare s = some sp) :
    ∃ x, sp.device = (preparePipelines x).device ∧
      sp.pipelines = (preparePipelines x).pipelines ∧
      sp.frameBuffers = x.frameBuffers ∧ sp.renderPass = x.renderPass := by
  have hbind : ∃ s1, prepareOffscreenFramebuffers s = some s1 := by
    cases h : prepareOffscreenFramebuffers s with
    | none => simp [prepare, h] at hsp
    | some s1 => exact ⟨s1, rfl⟩
  obtain ⟨s1, h1⟩ := hbind
  simp only [prepare, h1, Option.bind_eq_bind, Option.some_bind, Option.some.injEq] at hsp
  subst hsp
  refine ⟨setupDescriptors (prepareBuffers s1), rfl, rfl, ?_, ?_⟩
  · dsimp only
    exact (gtao_preparePipelines_keeps _).1
  · dsimp only
    exact (gtao_preparePipelines_keeps _).2

/-- After `prepare`: the create-infos of the four pipelines. -/
theorem gtao_prepare_pipelineInfos (s sp : VulkanExample) (hsp : prepare s = some sp) :
    (∃ ci, Device.pipelineInfo sp.device sp.pipelines.offscreen = some ci ∧
      ci.renderPass = sp.frameBuffers.offscreen.renderPass ∧ ci.subpass = 0 ∧
      ci.pColorBlendState.pAttachments =
        [ { colorWriteMask := 0xf, blendEnable := false },
          { colorWriteMask := 0xf, blendEnable := false },
          { colorWriteMask := 0xf, blendEnable := false } ] ∧
      ci.pVertexInputState =
        { vertexBindingDescriptionCount := 1,
          pVertexAttributeDescriptions :=
            [ VertexComponent.Position, VertexComponent.UV, VertexComponent.Color,
              VertexComponent.Normal ] } ∧
      ci.pStages.map (fun st => st.pSpecializationInfo) = [none, none]) ∧
    (∃ ci, Device.pipelineInfo sp.device sp.pipelines.composition = some ci ∧
      ci.renderPass = sp.renderPass ∧ ci.subpass = 0 ∧
      ci.pColorBlendState.pAttachments = [ { colorWriteMask := 0xf, blendEnable := false } ] ∧
      ci.pVertexInputState =
        { vertexBindingDescriptionCount := 0, pVertexAttributeDescriptions := [] } ∧
      ci.pStages.map (fun st => st.pSpecializationInfo) = [none, none]) ∧
    (∃ ci, Device.pipelineInfo sp.device sp.pipelines.gtao = some ci ∧
      ci.renderPass = sp.frameBuffers.gtao.renderPass ∧ ci.subpass = 0 ∧
      ci.pColorBlendState.pAttachments = [ { colorWriteMask := 0xf, blendEnable := false } ] ∧
      ci.pVertexInputState =
        { vertexBindingDescriptionCount := 0, pVertexAttributeDescriptions := [] } ∧
      ci.pStages.map (fun st => (st.stage, st.pSpecializationInfo)) =
        [ (VK_SHADER_STAGE_VERTEX_BIT, none),
          (VK_SHADER_STAGE_FRAGMENT_BIT,
            some { pMapEntries := [ { constantID := 0, offset := 0, size := 4 },
                                    { constantID := 1, offset := 4, size := 4 } ],
                   dataSize := 8,
                   pData := [GTAO_DIRECTION_NUMS, GTAO_STEP_NUMS] }) ]) ∧
    (∃ ci, Device.pipelineInfo sp.device sp.pipelines.gtaoBlur = some ci ∧
      ci.renderPass = sp.frameBuffers.gtaoBlur.renderPass ∧ ci.subpass = 0 ∧
      ci.pColorBlendState.pAttachments = [ { colorWriteMask := 0xf, blendEnable := false } ] ∧
      ci.pVertexInputState =
        { vertexBindingDescriptionCount := 0, pVertexAttributeDescriptions := [] } ∧
      ci.pStages.map (fun st => st.pSpecializationInfo) = [none, none]) := by
  obtain ⟨x, hd, hp, hf, hr⟩ := gtao_prepare_pipelines_state s sp hsp
  rw [hd, hp, hf, hr]
  exact gtao_preparePipelines_infos x

/-- What `prepare` keeps of the base class: the render pass and the
framebuffers of the swap chain. -/
theorem gtao_prepare_base (s sp : VulkanExample) (hsp : prepare s = some sp) :
    sp.renderPass = s.renderPass ∧ sp.swapChainFrameBuffers = s.swapChainFrameBuffers := by
  obtain ⟨hA, fmt, hD⟩ := gtao_prepare_some s sp hsp
  rw [gtao_prepare_eq s fmt hA hD] at hsp
  cases hsp
  simp only [preparePipelines, gtao_setupDescriptors_eq, gtao_prepareBuffers_eq, and_self]

/-- After `prepare` the render pass of the swap chain is in the log as
before. -/
theorem gtao_prepare_swapChainPass (s sp : VulkanExample) (hsp : prepare s = some sp)
    (rp : VkRenderPassCreateInfo) (hr : Device.renderPassInfo s.device s.renderPass = some rp) :
    Device.renderPassInfo sp.device sp.renderPass = some rp := by
  have hle := Device.renderPassInfo_le _ _ _ hr
  rw [(gtao_prepare_base s sp hsp).1]
  unfold Device.renderPassInfo at hr ⊢
  rw [gtao_prepare_lookup_old s sp hsp _ hle]
  exact hr

/-- The extents of the six attachment images in the log
`prepareOffscreenFramebuffers` leaves. -/
theorem gtao_offscreenCalls_images (d : Device) (width height gtaoWidth gtaoHeight : Nat)
    (fmt : VkFormat) :
    let log := d ++ prepareOffscreenFramebuffersCalls d.length width height gtaoWidth gtaoHeight fmt
    let fb := prepareOffscreenFramebuffersResult d.length width height gtaoWidth gtaoHeight fmt
    (∀ a ∈ [ fb.offscreen.position, fb.offscreen.normal, fb.offscreen.albedo, fb.offscreen.depth,
             fb.gtaoBlur.color ],
      (Device.imageInfo log a.image).map (fun i => i.extent) =
        some { width := width, height := height, depth := 1 }) ∧
    (Device.imageInfo log fb.gtao.color.image).map (fun i => i.extent) =
      some { width := gtaoWidth, height := gtaoHeight, depth := 1 } := by
  simp [Device.imageInfo, prepareOffscreenFramebuffersResult,
    prepareOffscreenFramebuffersCalls, createAttachmentCalls, createAttachmentResult,
    Device.lookup_append_new, Nat.add_assoc]

end GTAO
namespace HBAO

/-- The commands `buildCommandBuffer` records, written out. -/
theorem hbao_buildCommandBuffer_cmds (s : VulkanExample) :
    (buildCommandBuffer s).2 =
      [ Cmd.vkBeginCommandBuffer,
        Cmd.vkCmdBeginRenderPass
          { renderPass := s.frameBuffers.offscreen.renderPass,
            framebuffer := s.frameBuffers.offscreen.frameBuffer,
            renderArea := { extentWidth := toUInt32 s.frameBuffers.offscreen.width,
                            extentHeight := toUInt32 s.frameBuffers.offscreen.height },
            clearValueCount := 4,
            pClearValues :=
              [ VkClearValue.color (F32.lit 0 1) (F32.lit 0 1) (F32.lit 0 1) (F32.lit 1 1),
                VkClearValue.color (F32.lit 0 1) (F32.lit 0 1) (F32.lit 0 1) (F32.lit 1 1),
                VkClearValue.color (F32.lit 0 1) (F32.lit 0 1) (F32.lit 0 1) (F32.lit 1 1),
                VkClearValue.depthStencil (F32.lit 1 1) 0 ] }
          VK_SUBPASS_CONTENTS_INLINE,
        Cmd.vkCmdSetViewport 0
          [ { width := F32.ofInt s.frameBuffers.offscreen.width,
              height := F32.ofInt s.frameBuffers.offscreen.height,
              minDepth := F32.lit 0 1, maxDepth := F32.lit 1 1 } ],
        Cmd.vkCmdSetScissor 0
          [ { extentWidth := toUInt32 s.frameBuffers.offscreen.width,
              extentHeight := toUInt32 s.frameBuffers.offscreen.height } ],
        Cmd.vkCmdBindPipeline VK_PIPELINE_BIND_POINT_GRAPHICS s.pipelines.offscreen,
        Cmd.vkCmdBindDescriptorSets VK_PIPELINE_BIND_POINT_GRAPHICS s.pipelineLayouts.gBuffer 0
          [(s.descriptorSets s.currentBuffer).gBuffer] [],
        Cmd.scene_draw true s.pipelineLayouts.gBuffer,
        Cmd.vkCmdEndRenderPass,
        Cmd.vkCmdBeginRenderPass
          { renderPass := s.frameBuffers.hbao.renderPass,
            framebuffer := s.frameBuffers.hbao.frameBuffer,
            renderArea := { extentWidth := toUInt32 s.frameBuffers.hbao.width,
                            extentHeight := toUInt32 s.frameBuffers.hbao.height },
            clearValueCount := 2,
            pClearValues :=
              [ VkClearValue.color (F32.lit 0 1) (F32.lit 0 1) (F32.lit 0 1) (F32.lit 1 1),
                VkClearValue.depthStencil (F32.lit 1 1) 0,
                VkClearValue.color (F32.lit 0 1) (F32.lit 0 1) (F32.lit 0 1) (F32.lit 1 1),
                VkClearValue.depthStencil (F32.lit 1 1) 0 ] }
          VK_SUBPASS_CONTENTS_INLINE,
        Cmd.vkCmdSetViewport 0
          [ { width := F32.ofInt s.frameBuffers.hbao.width,
              height := F32.ofInt s.frameBuffers.hbao.height,
              minDepth := F32.lit 0 1, maxDepth := F32.lit 1 1 } ],
        Cmd.vkCmdSetScissor 0
          [ { extentWidth := toUInt32 s.frameBuffers.hbao.width,
              extentHeight := toUInt32 s.frameBuffers.hbao.height } ],
        Cmd.vkCmdBindDescriptorSets VK_PIPELINE_BIND_POINT_GRAPHICS s.pipelineLayouts.hbao 0
          [(s.descriptorSets s.currentBuffer).hbao] [],
        Cmd.vkCmdBindPipeline VK_PIPELINE_BIND_POINT_GRAPHICS s.pipelines.hbao,
        Cmd.vkCmdDraw 3 1 0 0,
        Cmd.vkCmdEndRenderPass,
        Cmd.vkCmdBeginRenderPass
          { renderPass := s.frameBuffers.hbaoBlur.renderPass,
            framebuffer := s.frameBuffers.hbaoBlur.frameBuffer,
            renderArea := { extentWidth := toUInt32 s.frameBuffers.hbaoBlur.width,
                            extentHeight := toUInt32 s.frameBuffers.hbaoBlur.height },
            clearValueCount := 2,
            pClearValues :=
              [ VkClearValue.color (F32.lit 0 1) (F32.lit 0 1) (F32.lit 0 1) (F32.lit 1 1),
                VkClearValue.depthStencil (F32.lit 1 1) 0,
                VkClearValue.color (F32.lit 0 1) (F32.lit 0 1) (F32.lit 0 1) (F32.lit 1 1),
                VkClearValue.depthStencil (F32.lit 1 1) 0 ] }
          VK_SUBPASS_CONTENTS_INLINE,
        Cmd.vkCmdSetViewport 0
          [ { width := F32.ofInt s.frameBuffers.hbaoBlur.width,
              height := F32.ofInt s.frameBuffers.hbaoBlur.height,
              minDepth := F32.lit 0 1, maxDepth := F32.lit 1 1 } ],
        Cmd.vkCmdSetScissor 0
          [ { extentWidth := toUInt32 s.frameBuffers.hbaoBlur.width,
              extentHeight := toUInt32 s.frameBuffers.hbaoBlur.height } ],
        Cmd.vkCmdBindDescriptorSets VK_PIPELINE_BIND_POINT_GRAPHICS s.pipelineLayouts.hbaoBlur 0
          [(s.descriptorSets s.currentBuffer).hbaoBlur] [],
        Cmd.vkCmdBindPipeline VK_PIPELINE_BIND_POINT_GRAPHICS s.pipelines.hbaoBlur,
        Cmd.vkCmdDraw 3 1 0 0,
        Cmd.vkCmdEndRenderPass,
        Cmd.vkCmdBeginRenderPass
          { renderPass := s.renderPass,
            framebuffer := s.swapChainFrameBuffers s.currentImageIndex,
            renderArea := { extentWidth := s.width, extentHeight := s.height },
            clearValueCount := 2,
            pClearValues := [ s.defaultClearColor, VkClearValue.depthStencil (F32.lit 1 1) 0 ] }
          VK_SUBPASS_CONTENTS_INLINE,
        Cmd.vkCmdSetViewport 0
          [ { width := F32.ofInt (Int.ofNat s.width), height := F32.ofInt (Int.ofNat s.height),
              minDepth := F32.lit 0 1, maxDepth := F32.lit 1 1 } ],
        Cmd.vkCmdSetScissor 0
          [ { extentWidth := toUInt32 (toInt32 s.width),
              extentHeight := toUInt32 (toInt32 s.height) } ],
        Cmd.vkCmdBindDescriptorSets VK_PIPELINE_BIND_POINT_GRAPHICS s.pipelineLayouts.composition 0
          [(s.descriptorSets s.currentBuffer).composition] [],
        Cmd.vkCmdBindPipeline VK_PIPELINE_BIND_POINT_GRAPHICS s.pipelines.composition,
        Cmd.vkCmdDraw 3 1 0 0,
        Cmd.drawUI,
        Cmd.vkCmdEndRenderPass,
        Cmd.vkEndCommandBuffer ] := by
  simp [buildCommandBuffer, span, vks.initializers.viewport, vks.initializers.rect2D]

/-- After `prepare`: the sizes kept with the three offscreen targets, and the
output size, which `prepare` leaves as it is. -/
theorem hbao_prepare_sizes (s sp : VulkanExample) (hsp : prepare s = some sp) :
    sp.width = s.width ∧ sp.height = s.height ∧
    sp.frameBuffers.offscreen.width = toInt32 s.width ∧
    sp.frameBuffers.offscreen.height = toInt32 s.height ∧
    sp.frameBuffers.hbao.width = toInt32 (if s.ANDROID = true then s.width / 2 else s.width) ∧
    sp.frameBuffers.hbao.height = toInt32 (if s.ANDROID = true then s.height / 2 else s.height) ∧
    sp.frameBuffers.hbaoBlur.width = toInt32 s.width ∧
    sp.frameBuffers.hbaoBlur.height = toInt32 s.height := by
  obtain ⟨fmt, hD⟩ := hbao_prepare_some s sp hsp
  obtain ⟨-, hfb, -, -, -⟩ := hbao_prepare_state s sp fmt hD hsp
  refine ⟨?_, ?_, ?_⟩
  · rw [hbao_prepare_eq s fmt hD] at hsp
    cases hsp
    simp only [preparePipelines, hbao_setupDescriptors_eq, hbao_prepareBuffers_eq]
  · rw [hbao_prepare_eq s fmt hD] at hsp
    cases hsp
    simp only [preparePipelines, hbao_setupDescriptors_eq, hbao_prepareBuffers_eq]
  · rw [hfb]
    simp [prepareOffscreenFramebuffersResult]

/-- After `prepare` a handle of the log before still answers as before. -/
theorem hbao_prepare_lookup_old (s sp : VulkanExample) (hsp : prepare s = some sp)
    (h : Nat) (hh : h ≤ s.device.length) :
    Device.lookup sp.device h = Device.lookup s.device h := by
  obtain ⟨fmt, hD⟩ := hbao_prepare_some s sp hsp
  rw [hbao_prepare_lookup s sp fmt hD hsp h (by omega)]
  exact Device.lookup_append_old _ _ h hh

/-- The create-infos of the four pipelines `preparePipelines` creates: render
pass and subpass, blend attachment states, vertex input state, and the
specialization info of each shader stage. -/
theorem hbao_preparePipelines_infos (s : VulkanExample) :
    (∃ ci, Device.pipelineInfo (preparePipelines s).device (preparePipelines s).pipelines.offscreen = some ci ∧
      ci.renderPass = s.frameBuffers.offscreen.renderPass ∧ ci.subpass = 0 ∧
      ci.pColorBlendState.pAttachments =
        [ { colorWriteMask := 0xf, blendEnable := false },
          { colorWriteMask := 0xf, blendEnable := false },
          { colorWriteMask := 0xf, blendEnable := false } ] ∧
      ci.pVertexInputState =
        { vertexBindingDescriptionCount := 1,
          pVertexAttributeDescriptions :=
            [ VertexComponent.Position, VertexComponent.UV, VertexComponent.Color,
              VertexComponent.Normal ] } ∧
      ci.pStages.map (fun st => st.pSpecializationInfo) = [none, none]) ∧
    (∃ ci, Device.pipelineInfo (preparePipelines s).device (preparePipelines s).pipelines.composition = some ci ∧
      ci.renderPass = s.renderPass ∧ ci.subpass = 0 ∧
      ci.pColorBlendState.pAttachments = [ { colorWriteMask := 0xf, blendEnable := false } ] ∧
      ci.pVertexInputState =
        { vertexBindingDescriptionCount := 0, pVertexAttributeDescriptions := [] } ∧
      ci.pStages.map (fun st => st.pSpecializationInfo) = [none, none]) ∧
    (∃ ci, Device.pipelineInfo (preparePipelines s).device (preparePipelines s).pipelines.hbao = some ci ∧
      ci.renderPass = s.frameBuffers.hbao.renderPass ∧ ci.subpass = 0 ∧
      ci.pColorBlendState.pAttachments = [ { colorWriteMask := 0xf, blendEnable := false } ] ∧
      ci.pVertexInputState =
        { vertexBindingDescriptionCount := 0, pVertexAttributeDescriptions := [] } ∧
      ci.pStages.map (fun st => (st.stage, st.pSpecializationInfo)) =
        [ (VK_SHADER_STAGE_VERTEX_BIT, none),
          (VK_SHADER_STAGE_FRAGMENT_BIT,
            some { pMapEntries := [ { constantID := 0, offset := 0, size := 4 },
                                    { constantID := 1, offset := 4, size := 4 } ],
                   dataSize := 8,
                   pData := [HBAO_DIRECTION_NUMS, HBAO_STEP_NUMS] }) ]) ∧
    (∃ ci, Device.pipelineInfo (preparePipelines s).device (preparePipelines s).pipelines.hbaoBlur = some ci ∧
      ci.renderPass = s.frameBuffers.hbaoBlur.renderPass ∧ ci.subpass = 0 ∧
      ci.pColorBlendState.pAttachments = [ { colorWriteMask := 0xf, blendEnable := false } ] ∧
      ci.pVertexInputState =
        { vertexBindingDescriptionCount := 0, pVertexAttributeDescriptions := [] } ∧
      ci.pStages.map (fun st => st.pSpecializationInfo) = [none, none]) := by
  simp [preparePipelines, Device.call, loadShader, Device.pipelineInfo, Device.lookup_append_new,
    Nat.add_assoc, span, vks.initializers.pipelineColorBlendAttachmentState,
    vks.initializers.pipelineColorBlendStateCreateInfo,
    vks.initializers.pipelineVertexInputStateCreateInfo, vkglTF.Vertex.getPipelineVertexInputState,
    vks.initializers.specializationMapEntry, vks.initializers.specializationInfo]

/-- `preparePipelines` keeps the offscreen targets and the render pass of the
swap chain. -/
theorem hbao_preparePipelines_keeps (s : VulkanExample) :
    (preparePipelines s).frameBuffers = s.frameBuffers ∧
    (preparePipelines s).renderPass = s.renderPass := by
  simp [preparePipelines]

/-- After `prepare` the log and the pipeline handles are those left by
`preparePipelines`, which keeps the offscreen targets and the render pass of
the swap chain. -/
theorem hbao_prepare_pipelines_state (s sp : VulkanExample) (hsp : prepare s = some sp) :
    ∃ x, sp.device = (preparePipelines x).device ∧
      sp.pipelines = (preparePipelines x).pipelines ∧
      sp.frameBuffers = x.frameBuffers ∧ sp.renderPass = x.renderPass := by
  have hbind : ∃ s1, prepareOffscreenFramebuffers s = some s1 := by
    cases h : prepareOffscreenFramebuffers s with
    | none => simp [prepare, h] at hsp
    | some s1 => exact ⟨s1, rfl⟩
  obtain ⟨s1, h1⟩ := hbind
  simp only [prepare, h1, Option.bind_eq_bind, Option.some_bind, Option.some.injEq] at hsp
  subst hsp
  refine ⟨setupDescriptors (prepareBuffers s1), rfl, rfl, ?_, ?_⟩
  · dsimp only
    exact (hbao_preparePipelines_keeps _).1
  · dsimp only
    exact (hbao_preparePipelines_keeps _).2

/-- After `prepare`: the create-infos of the four pipelines. -/
theorem hbao_prepare_pipelineInfos (s sp : VulkanExample) (hsp : prepare s = some sp) :
    (∃ ci, Device.pipelineInfo sp.device sp.pipelines.offscreen = some ci ∧
      ci.renderPass = sp.frameBuffers.offscreen.renderPass ∧ ci.subpass = 0 ∧
      ci.pColorBlendState.pAttachments =
        [ { colorWriteMask := 0xf, blendEnable := false },
          { colorWriteMask := 0xf, blendEnable := false },
          { colorWriteMask := 0xf, blendEnable := false } ] ∧
      ci.pVertexInputState =
        { vertexBindingDescriptionCount := 1,
          pVertexAttributeDescriptions :=
            [ VertexComponent.Position, VertexComponent.UV, VertexComponent.Color,
              VertexComponent.Normal ] } ∧
      ci.pStages.map (fun st => st.pSpecializationInfo) = [none, none]) ∧
    (∃ ci, Device.pipelineInfo sp.device sp.pipelines.composition = some ci ∧
      ci.renderPass = sp.renderPass ∧ ci.subpass = 0 ∧
      ci.pColorBlendState.pAttachments = [ { colorWriteMask := 0xf, blendEnable := false } ] ∧
      ci.pVertexInputState =
        { vertexBindingDescriptionCount := 0, pVertexAttributeDescriptions := [] } ∧
      ci.pStages.map (fun st => st.pSpecializationInfo) = [none, none]) ∧
    (∃ ci, Device.pipelineInfo sp.device sp.pipelines.hbao = some ci ∧
      ci.renderPass = sp.frameBuffers.hbao.renderPass ∧ ci.subpass = 0 ∧
      ci.pColorBlendState.pAttachments = [ { colorWriteMask := 0xf, blendEnable := false } ] ∧
      ci.pVertexInputState =
        { vertexBindingDescriptionCount := 0, pVertexAttributeDescriptions := [] } ∧
      ci.pStages.map (fun st => (st.stage, st.pSpecializationInfo)) =
        [ (VK_SHADER_STAGE_VERTEX_BIT, none),
          (VK_SHADER_STAGE_FRAGMENT_BIT,
            some { pMapEntries := [ { constantID := 0, offset := 0, size := 4 },
                                    { constantID := 1, offset := 4, size := 4 } ],
                   dataSize := 8,
                   pData := [HBAO_DIRECTION_NUMS, HBAO_STEP_NUMS] }) ]) ∧
    (∃ ci, Device.pipelineInfo sp.device sp.pipelines.hbaoBlur = some ci ∧
      ci.renderPass = sp.frameBuffers.hbaoBlur.renderPass ∧ ci.subpass = 0 ∧
      ci.pColorBlendState.pAttachments = [ { colorWriteMask := 0xf, blendEnable := false } ] ∧
      ci.pVertexInputState =
        { vertexBindingDescriptionCount := 0, pVertexAttributeDescriptions := [] } ∧
      ci.pStages.map (fun st => st.pSpecializationInfo) = [none, none]) := by
  obtain ⟨x, hd, hp, hf, hr⟩ := hbao_prepare_pipelines_state s sp hsp
  rw [hd, hp, hf, hr]
  exact hbao_preparePipelines_infos x

/-- What `prepare` keeps of the base class: the render pass and the
framebuffers of the swap chain. -/
theorem hbao_prepare_base (s sp : VulkanExample) (hsp : prepare s = some sp) :
    sp.renderPass = s.renderPass ∧ sp.swapChainFrameBuffers = s.swapChainFrameBuffers := by
  obtain ⟨fmt, hD⟩ := hbao_prepare_some s sp hsp
  rw [hbao_prepare_eq s fmt hD] at hsp
  cases hsp
  simp only [preparePipelines, hbao_setupDescriptors_eq, hbao_prepareBuffers_eq, and_self]

/-- After `prepare` the render pass of the swap chain is in the log as
before. -/
theorem hbao_prepare_swapChainPass (s sp : VulkanExample) (hsp : prepare s = some sp)
    (rp : VkRenderPassCreateInfo) (hr : Device.renderPassInfo s.device s.renderPass = some rp) :
    Device.renderPassInfo sp.device sp.renderPass = some rp := by
  have hle := Device.renderPassInfo_le _ _ _ hr
  rw [(hbao_prepare_base s sp hsp).1]
  unfold Device.renderPassInfo at hr ⊢
  rw [hbao_prepare_lookup_old s sp hsp _ hle]
  exact hr

/-- The extents of the six attachment images in the log
`prepareOffscreenFramebuffers` leaves. -/
theorem hbao_offscreenCalls_images (d : Device) (width height hbaoWidth hbaoHeight : Nat)
    (fmt : VkFormat) :
    let log := d ++ prepareOffscreenFramebuffersCalls d.length width height hbaoWidth hbaoHeight fmt
    let fb := prepareOffscreenFramebuffersResult d.length width height hbaoWidth hbaoHeight fmt
    (∀ a ∈ [ fb.offscreen.position, fb.offscreen.normal, fb.offscreen.albedo, fb.offscreen.depth,
             fb.hbaoBlur.color ],
      (Device.imageInfo log a.image).map (fun i => i.extent) =
        some { width := width, height := height, depth := 1 }) ∧
    (Device.imageInfo log fb.hbao.color.image).map (fun i => i.extent) =
      some { width := hbaoWidth, height := hbaoHeight, depth := 1 } := by
  simp [Device.imageInfo, prepareOffscreenFramebuffersResult,
    prepareOffscreenFramebuffersCalls, createAttachmentCalls, createAttachmentResult,
    Device.lookup_append_new, Nat.add_assoc]

end HBAO
namespace GTAO

/-- The render area of each pass `buildCommandBuffer` records, and the
viewport and scissor in force at its draw. -/
theorem gtao_frame_areas (s : VulkanExample) :
    (recordedPasses (buildCommandBuffer s).2).map
        (fun p => (p.beginInfo.renderArea,
          (recordedDraws p.body).map (fun d => (d.1.viewport, d.1.scissor)))) =
      [ (({ extentWidth := toUInt32 s.frameBuffers.offscreen.width,
            extentHeight := toUInt32 s.frameBuffers.offscreen.height } : VkRect2D),
          [ (some (0, [ ({ width := F32.ofInt s.frameBuffers.offscreen.width,
                           height := F32.ofInt s.frameBuffers.offscreen.height,
                           minDepth := F32.lit 0 1, maxDepth := F32.lit 1 1 } : VkViewport) ]),
             some (0, [ ({ extentWidth := toUInt32 s.frameBuffers.offscreen.width,
                           extentHeight := toUInt32 s.frameBuffers.offscreen.height } : VkRect2D) ])) ]),
        (({ extentWidth := toUInt32 s.frameBuffers.gtao.width,
            extentHeight := toUInt32 s.frameBuffers.gtao.height } : VkRect2D),
          [ (some (0, [ ({ width := F32.ofInt s.frameBuffers.gtao.width,
                           height := F32.ofInt s.frameBuffers.gtao.height,
                           minDepth := F32.lit 0 1, maxDepth := F32.lit 1 1 } : VkViewport) ]),
             some (0, [ ({ extentWidth := toUInt32 s.frameBuffers.gtao.width,
                           extentHeight := toUInt32 s.frameBuffers.gtao.height } : VkRect2D) ])) ]),
        (({ extentWidth := toUInt32 s.frameBuffers.gtaoBlur.width,
            extentHeight := toUInt32 s.frameBuffers.gtaoBlur.height } : VkRect2D),
          [ (some (0, [ ({ width := F32.ofInt s.frameBuffers.gtaoBlur.width,
                           height := F32.ofInt s.frameBuffers.gtaoBlur.height,
                           minDepth := F32.lit 0 1, maxDepth := F32.lit 1 1 } : VkViewport) ]),
             some (0, [ ({ extentWidth := toUInt32 s.frameBuffers.gtaoBlur.width,
                           extentHeight := toUInt32 s.frameBuffers.gtaoBlur.height } : VkRect2D) ])) ]),
        (({ extentWidth := s.width, extentHeight := s.height } : VkRect2D),
          [ (some (0, [ ({ width := F32.ofInt (Int.ofNat s.width),
                           height := F32.ofInt (Int.ofNat s.height),
                           minDepth := F32.lit 0 1, maxDepth := F32.lit 1 1 } : VkViewport) ]),
             some (0, [ ({ extentWidth := toUInt32 (toInt32 s.width),
                           extentHeight := toUInt32 (toInt32 s.height) } : VkRect2D) ])) ]) ] := by
  rw [gtao_buildCommandBuffer_cmds]
  rfl

/-- The framebuffers of the first three passes `buildCommandBuffer` records. -/
theorem gtao_frame_framebuffers (s : VulkanExample) :
    ((recordedPasses (buildCommandBuffer s).2).take 3).map (fun p => p.beginInfo.framebuffer) =
      [ s.frameBuffers.offscreen.frameBuffer, s.frameBuffers.gtao.frameBuffer,
        s.frameBuffers.gtaoBlur.frameBuffer ] := by
  rw [gtao_buildCommandBuffer_cmds]
  rfl

/-- The extents of a recorded frame, for a state with the offscreen targets
and the device log `prepare` leaves: the offscreen passes have the sizes given
at preparation, the composition pass has the output size of the state. -/
theorem gtao_frame_extents (s0 sp s : VulkanExample) (hsp : prepare s0 = some sp)
    (hf : s.frameBuffers = sp.frameBuffers) (hd : s.device = sp.device)
    (hw0 : s0.width < 2147483648) (hh0 : s0.height < 2147483648)
    (hw : s.width < 4294967296) (hh : s.height < 4294967296) :
    (recordedPasses (buildCommandBuffer s).2).map
        (fun p => (p.beginInfo.renderArea,
          (recordedDraws p.body).map (fun d => (d.1.viewport, d.1.scissor)))) =
      [ (({ extentWidth := s0.width, extentHeight := s0.height } : VkRect2D),
          [ (some (0, [ ({ width := F32.ofInt (Int.ofNat s0.width), height := F32.ofInt (Int.ofNat s0.height), minDepth := F32.lit 0 1, maxDepth := F32.lit 1 1 } : VkViewport) ]),
             some (0, [ ({ extentWidth := s0.width, extentHeight := s0.height } : VkRect2D) ])) ]),
        (({ extentWidth := s0.width, extentHeight := s0.height } : VkRect2D),
          [ (some (0, [ ({ width := F32.ofInt (Int.ofNat s0.width), height := F32.ofInt (Int.ofNat s0.height), minDepth := F32.lit 0 1, maxDepth := F32.lit 1 1 } : VkViewport) ]),
             some (0, [ ({ extentWidth := s0.width, extentHeight := s0.height } : VkRect2D) ])) ]),
        (({ extentWidth := s0.width, extentHeight := s0.height } : VkRect2D),
          [ (some (0, [ ({ width := F32.ofInt (Int.ofNat s0.width), height := F32.ofInt (Int.ofNat s0.height), minDepth := F32.lit 0 1, maxDepth := F32.lit 1 1 } : VkViewport) ]),
             some (0, [ ({ extentWidth := s0.width, extentHeight := s0.height } : VkRect2D) ])) ]),
        (({ extentWidth := s.width, extentHeight := s.height } : VkRect2D),
          [ (some (0, [ ({ width := F32.ofInt (Int.ofNat s.width), height := F32.ofInt (Int.ofNat s.height), minDepth := F32.lit 0 1, maxDepth := F32.lit 1 1 } : VkViewport) ]),
             some (0, [ ({ extentWidth := s.width, extentHeight := s.height } : VkRect2D) ])) ]) ] ∧
    ((recordedPasses (buildCommandBuffer s).2).take 3).map
        (fun p => (Device.framebufferInfo s.device p.beginInfo.framebuffer).map
          (fun f => (f.width, f.height))) =
      [ some (s0.width, s0.height), some (s0.width, s0.height), some (s0.width, s0.height) ] := by
  obtain ⟨-, -, z1, z2, z3, z4, z5, z6⟩ := gtao_prepare_sizes s0 sp hsp
  obtain ⟨-, -, -, f1, f2, f3⟩ := gtao_prepare_targets s0 sp hsp
  have how : s0.width < 2147483648 := by
    exact hw0
  have hoh : s0.height < 2147483648 := by
    exact hh0
  have e1 : toUInt32 (toInt32 s0.width) = s0.width := toUInt32_toInt32 _ (by omega)
  have e2 : toUInt32 (toInt32 s0.height) = s0.height := toUInt32_toInt32 _ (by omega)
  have e3 : toUInt32 (toInt32 s0.width) = s0.width := toUInt32_toInt32 _ (by omega)
  have e4 : toUInt32 (toInt32 s0.height) = s0.height := toUInt32_toInt32 _ (by omega)
  have n1 : toUInt32 (Int.ofNat s0.width) = s0.width := toUInt32_ofNat _ (by omega)
  have n2 : toUInt32 (Int.ofNat s0.height) = s0.height := toUInt32_ofNat _ (by omega)
  have n3 : toUInt32 (Int.ofNat s0.width) = s0.width := toUInt32_ofNat _ (by omega)
  have n4 : toUInt32 (Int.ofNat s0.height) = s0.height := toUInt32_ofNat _ (by omega)
  refine ⟨?_, ?_⟩
  · rw [gtao_frame_areas, hf]
    simp only [z1, z2, z3, z4, z5, z6, e1, e2, e3, e4, n1, n2, n3, n4,
      toUInt32_toInt32 _ hw, toUInt32_toInt32 _ hh, toInt32_of_lt _ hw0, toInt32_of_lt _ hh0,
      toInt32_of_lt _ how, toInt32_of_lt _ hoh]
  · have hmap := congrArg
      (List.map (fun h => (Device.framebufferInfo s.device h).map (fun f => (f.width, f.height))))
      (gtao_frame_framebuffers s)
    rw [List.map_map] at hmap
    refine hmap.trans ?_
    rw [hf, hd]
    simp only [List.map_cons, List.map_nil, f1, f2, f3, Option.map_some', z1, z2, z3, z4, z5, z6,
      e1, e2, e3, e4, n1, n2, n3, n4]

end GTAO

namespace HBAO

/-- The render area of each pass `buildCommandBuffer` records, and the
viewport and scissor in force at its draw. -/
theorem hbao_frame_areas (s : VulkanExample) :
    (recordedPasses (buildCommandBuffer s).2).map
        (fun p => (p.beginInfo.renderArea,
          (recordedDraws p.body).map (fun d => (d.1.viewport, d.1.scissor)))) =
      [ (({ extentWidth := toUInt32 s.frameBuffers.offscreen.width,
            extentHeight := toUInt32 s.frameBuffers.offscreen.height } : VkRect2D),
          [ (some (0, [ ({ width := F32.ofInt s.frameBuffers.offscreen.width,
                           height := F32.ofInt s.frameBuffers.offscreen.height,
                           minDepth := F32.lit 0 1, maxDepth := F32.lit 1 1 } : VkViewport) ]),
             some (0, [ ({ extentWidth := toUInt32 s.frameBuffers.offscreen.width,
                           extentHeight := toUInt32 s.frameBuffers.offscreen.height } : VkRect2D) ])) ]),
        (({ extentWidth := toUInt32 s.frameBuffers.hbao.width,
            extentHeight := toUInt32 s.frameBuffers.hbao.height } : VkRect2D),
          [ (some (0, [ ({ width := F32.ofInt s.frameBuffers.hbao.width,
                           height := F32.ofInt s.frameBuffers.hbao.height,
                           minDepth := F32.lit 0 1, maxDepth := F32.lit 1 1 } : VkViewport) ]),
             some (0, [ ({ extentWidth := toUInt32 s.frameBuffers.hbao.width,
                           extentHeight := toUInt32 s.frameBuffers.hbao.height } : VkRect2D) ])) ]),
        (({ extentWidth := toUInt32 s.frameBuffers.hbaoBlur.width,
            extentHeight := toUInt32 s.frameBuffers.hbaoBlur.height } : VkRect2D),
          [ (some (0, [ ({ width := F32.ofInt s.frameBuffers.hbaoBlur.width,
                           height := F32.ofInt s.frameBuffers.hbaoBlur.height,
                           minDepth := F32.lit 0 1, maxDepth := F32.lit 1 1 } : VkViewport) ]),
             some (0, [ ({ extentWidth := toUInt32 s.frameBuffers.hbaoBlur.width,
                           extentHeight := toUInt32 s.frameBuffers.hbaoBlur.height } : VkRect2D) ])) ]),
        (({ extentWidth := s.width, extentHeight := s.height } : VkRect2D),
          [ (some (0, [ ({ width := F32.ofInt (Int.ofNat s.width),
                           height := F32.ofInt (Int.ofNat s.height),
                           minDepth := F32.lit 0 1, maxDepth := F32.lit 1 1 } : VkViewport) ]),
             some (0, [ ({ extentWidth := toUInt32 (toInt32 s.width),
                           extentHeight := toUInt32 (toInt32 s.height) } : VkRect2D) ])) ]) ] := by
  rw [hbao_buildCommandBuffer_cmds]
  rfl

/-- The framebuffers of the first three passes `buildCommandBuffer` records. -/
theorem hbao_frame_framebuffers (s : VulkanExample) :
    ((recordedPasses (buildCommandBuffer s).2).take 3).map (fun p => p.beginInfo.framebuffer) =
      [ s.frameBuffers.offscreen.frameBuffer, s.frameBuffers.hbao.frameBuffer,
        s.frameBuffers.hbaoBlur.frameBuffer ] := by
  rw [hbao_buildCommandBuffer_cmds]
  rfl

/-- The extents of a recorded frame, for a state with the offscreen targets
and the device log `prepare` leaves: the offscreen passes have the sizes given
at preparation, the composition pass has the output size of the state. -/
theorem hbao_frame_extents (s0 sp s : VulkanExample) (hsp : prepare s0 = some sp)
    (hf : s.frameBuffers = sp.frameBuffers) (hd : s.device = sp.device)
    (hw0 : s0.width < 2147483648) (hh0 : s0.height < 2147483648)
    (hw : s.width < 4294967296) (hh : s.height < 4294967296) :
    (recordedPasses (buildCommandBuffer s).2).map
        (fun p => (p.beginInfo.renderArea,
          (recordedDraws p.body).map (fun d => (d.1.viewport, d.1.scissor)))) =
      [ (({ extentWidth := s0.width, extentHeight := s0.height } : VkRect2D),
          [ (some (0, [ ({ width := F32.ofInt (Int.ofNat s0.width), height := F32.ofInt (Int.ofNat s0.height), minDepth := F32.lit 0 1, maxDepth := F32.lit 1 1 } : VkViewport) ]),
             some (0, [ ({ extentWidth := s0.width, extentHeight := s0.height } : VkRect2D) ])) ]),
        (({ extentWidth := (if s0.ANDROID = true then s0.width / 2 else s0.width), extentHeight := (if s0.ANDROID = true then s0.height / 2 else s0.height) } : VkRect2D),
          [ (some (0, [ ({ width := F32.ofInt (Int.ofNat (if s0.ANDROID = true then s0.width / 2 else s0.width)), height := F32.ofInt (Int.ofNat (if s0.ANDROID = true then s0.height / 2 else s0.height)), minDepth := F32.lit 0 1, maxDepth := F32.lit 1 1 } : VkViewport) ]),
             some (0, [ ({ extentWidth := (if s0.ANDROID = true then s0.width / 2 else s0.width), extentHeight := (if s0.ANDROID = true then s0.height / 2 else s0.height) } : VkRect2D) ])) ]),
        (({ extentWidth := s0.width, extentHeight := s0.height } : VkRect2D),
          [ (some (0, [ ({ width := F32.ofInt (Int.ofNat s0.width), height := F32.ofInt (Int.ofNat s0.height), minDepth := F32.lit 0 1, maxDepth := F32.lit 1 1 } : VkViewport) ]),
             some (0, [ ({ extentWidth := s0.width, extentHeight := s0.height } : VkRect2D) ])) ]),
        (({ extentWidth := s.width, extentHeight := s.height } : VkRect2D),
          [ (some (0, [ ({ width := F32.ofInt (Int.ofNat s.width), height := F32.ofInt (Int.ofNat s.height), minDepth := F32.lit 0 1, maxDepth := F32.lit 1 1 } : VkViewport) ]),
             some (0, [ ({ extentWidth := s.width, extentHeight := s.height } : VkRect2D) ])) ]) ] ∧
    ((recordedPasses (buildCommandBuffer s).2).take 3).map
        (fun p => (Device.framebufferInfo s.device p.beginInfo.framebuffer).map
          (fun f => (f.width, f.height))) =
      [ some (s0.width, s0.height), some ((if s0.ANDROID = true then s0.width / 2 else s0.width), (if s0.ANDROID = true then s0.height / 2 else s0.height)), some (s0.width, s0.height) ] := by
  obtain ⟨-, -, z1, z2, z3, z4, z5, z6⟩ := hbao_prepare_sizes s0 sp hsp
  obtain ⟨-, -, -, f1, f2, f3⟩ := hbao_prepare_targets s0 sp hsp
  have how : (if s0.ANDROID = true then s0.width / 2 else s0.width) < 2147483648 := by
    split <;> omega
  have hoh : (if s0.ANDROID = true then s0.height / 2 else s0.height) < 2147483648 := by
    split <;> omega
  have e1 : toUInt32 (toInt32 s0.width) = s0.width := toUInt32_toInt32 _ (by omega)
  have e2 : toUInt32 (toInt32 s0.height) = s0.height := toUInt32_toInt32 _ (by omega)
  have e3 : toUInt32 (toInt32 (if s0.ANDROID = true then s0.width / 2 else s0.width)) = (if s0.ANDROID = true then s0.width / 2 else s0.width) := toUInt32_toInt32 _ (by omega)
  have e4 : toUInt32 (toInt32 (if s0.ANDROID = true then s0.height / 2 else s0.height)) = (if s0.ANDROID = true then s0.height / 2 else s0.height) := toUInt32_toInt32 _ (by omega)
  have n1 : toUInt32 (Int.ofNat s0.width) = s0.width := toUInt32_ofNat _ (by omega)
  have n2 : toUInt32 (Int.ofNat s0.height) = s0.height := toUInt32_ofNat _ (by omega)
  have n3 : toUInt32 (Int.ofNat (if s0.ANDROID = true then s0.width / 2 else s0.width)) = (if s0.ANDROID = true then s0.width / 2 else s0.width) := toUInt32_ofNat _ (by omega)
  have n4 : toUInt32 (Int.ofNat (if s0.ANDROID = true then s0.height / 2 else s0.height)) = (if s0.ANDROID = true then s0.height / 2 else s0.height) := toUInt32_ofNat _ (by omega)
  refine ⟨?_, ?_⟩
  · rw [hbao_frame_areas, hf]
    simp only [z1, z2, z3, z4, z5, z6, e1, e2, e3, e4, n1, n2, n3, n4,
      toUInt32_toInt32 _ hw, toUInt32_toInt32 _ hh, toInt32_of_lt _ hw0, toInt32_of_lt _ hh0,
      toInt32_of_lt _ how, toInt32_of_lt _ hoh]
  · have hmap := congrArg
      (List.map (fun h => (Device.framebufferInfo s.device h).map (fun f => (f.width, f.height))))
      (hbao_frame_framebuffers s)
    rw [List.map_map] at hmap
    refine hmap.trans ?_
    rw [hf, hd]
    simp only [List.map_cons, List.map_nil, f1, f2, f3, Option.map_some', z1, z2, z3, z4, z5, z6,
      e1, e2, e3, e4, n1, n2, n3, n4]

end HBAO

namespace GTAO

/-- After `prepare`: the descriptor pool and the four descriptor-set layouts by
handle, and the inherited members `prepare` keeps. -/
theorem gtao_prepare_layouts (s sp : VulkanExample) (hsp : prepare s = some sp) :
    sp.descriptorPool = s.device.length + 31 + 3 * s.maxConcurrentFrames + 1 ∧
    sp.descriptorSetLayouts =
      { gBuffer := s.device.length + 31 + 3 * s.maxConcurrentFrames + 2,
        gtao := s.device.length + 31 + 3 * s.maxConcurrentFrames + 3,
        gtaoBlur := s.device.length + 31 + 3 * s.maxConcurrentFrames + 4,
        composition := s.device.length + 31 + 3 * s.maxConcurrentFrames + 5 } ∧
    sp.descriptorSetLayoutImage = s.descriptorSetLayoutImage ∧
    sp.pipelineCache = s.pipelineCache ∧ sp.shadersPath = s.shadersPath := by
  obtain ⟨hA, fmt, hD⟩ := gtao_prepare_some s sp hsp
  rw [gtao_prepare_eq s fmt hA hD] at hsp
  cases hsp
  simp only [preparePipelines, gtao_setupDescriptors_eq, gtao_prepareBuffers_eq]
  simp [gtao_prepareOffscreenFramebuffersCalls_length,
    List.length_flatMap_range (fun _ => prepareBuffersFrameCalls) 3 (fun _ => rfl), Nat.add_assoc]

/-- The fourteen calls of `preparePipelines`: none writes a descriptor, and
their kinds and shader files are as listed. -/
theorem gtao_preparePipelines_kinds (s : VulkanExample) :
    ∃ pipes : List Call, (preparePipelines s).device = s.device ++ pipes ∧ pipes.length = 14 ∧
      (∀ c ∈ pipes, c.writes = []) ∧
      pipes.map Call.kind =
        [ some ObjectKind.pipelineLayout, some ObjectKind.pipelineLayout,
          some ObjectKind.pipelineLayout, some ObjectKind.pipelineLayout,
          some ObjectKind.shaderModule, some ObjectKind.shaderModule, some ObjectKind.pipeline,
          some ObjectKind.shaderModule, some ObjectKind.pipeline,
          some ObjectKind.shaderModule, some ObjectKind.pipeline,
          some ObjectKind.shaderModule, some ObjectKind.shaderModule, some ObjectKind.pipeline ] ∧
      pipes.filterMap Call.fileName =
        [ s.shadersPath ++ "gtao/fullscreen.vert.spv", s.shadersPath ++ "gtao/composition.frag.spv",
          s.shadersPath ++ "gtao/gtao.frag.spv", s.shadersPath ++ "gtao/blur.frag.spv",
          s.shadersPath ++ "gtao/gbuffer.vert.spv", s.shadersPath ++ "gtao/gbuffer.frag.spv" ] := by
  simp only [preparePipelines, Device.call, loadShader, List.append_assoc]
  exact ⟨_, rfl, rfl, by simp [Call.writes], rfl, rfl⟩

/-- The pipeline layouts `preparePipelines` creates and the layout each of the
four pipelines is created with. -/
theorem gtao_preparePipelines_layouts (s : VulkanExample) :
    Device.pipelineLayoutInfo (preparePipelines s).device (preparePipelines s).pipelineLayouts.gBuffer =
      some { pSetLayouts := [s.descriptorSetLayouts.gBuffer, s.descriptorSetLayoutImage] } ∧
    Device.pipelineLayoutInfo (preparePipelines s).device (preparePipelines s).pipelineLayouts.gtao =
      some { pSetLayouts := [s.descriptorSetLayouts.gtao] } ∧
    Device.pipelineLayoutInfo (preparePipelines s).device (preparePipelines s).pipelineLayouts.gtaoBlur =
      some { pSetLayouts := [s.descriptorSetLayouts.gtaoBlur] } ∧
    Device.pipelineLayoutInfo (preparePipelines s).device (preparePipelines s).pipelineLayouts.composition =
      some { pSetLayouts := [s.descriptorSetLayouts.composition] } ∧
    (∃ ci, Device.pipelineInfo (preparePipelines s).device (preparePipelines s).pipelines.offscreen = some ci ∧
      ci.layout = (preparePipelines s).pipelineLayouts.gBuffer ∧
      ci.renderPass = s.frameBuffers.offscreen.renderPass) ∧
    (∃ ci, Device.pipelineInfo (preparePipelines s).device (preparePipelines s).pipelines.gtao = some ci ∧
      ci.layout = (preparePipelines s).pipelineLayouts.gtao ∧
      ci.renderPass = s.frameBuffers.gtao.renderPass) ∧
    (∃ ci, Device.pipelineInfo (preparePipelines s).device (preparePipelines s).pipelines.gtaoBlur = some ci ∧
      ci.layout = (preparePipelines s).pipelineLayouts.gtaoBlur ∧
      ci.renderPass = s.frameBuffers.gtaoBlur.renderPass) ∧
    (∃ ci, Device.pipelineInfo (preparePipelines s).device (preparePipelines s).pipelines.composition = some ci ∧
      ci.layout = (preparePipelines s).pipelineLayouts.composition ∧
      ci.renderPass = s.renderPass) := by
  simp [preparePipelines, Device.call, loadShader, Device.pipelineInfo, Device.pipelineLayoutInfo,
    Device.lookup_append_new, Nat.add_assoc, span]

/-- What `preparePipelines` keeps of the state. -/
theorem gtao_preparePipelines_keeps_layouts (s : VulkanExample) :
    (preparePipelines s).descriptorSetLayouts = s.descriptorSetLayouts ∧
    (preparePipelines s).descriptorSetLayoutImage = s.descriptorSetLayoutImage ∧
    (preparePipelines s).descriptorSets = s.descriptorSets := by
  simp [preparePipelines]

/-- After `prepare` the log, the pipelines and the pipeline layouts are those
left by `preparePipelines`, which keeps the rest of the state. -/
theorem gtao_prepare_pipelines_layoutState (s sp : VulkanExample) (hsp : prepare s = some sp) :
    ∃ x, sp.device = (preparePipelines x).device ∧
      sp.pipelines = (preparePipelines x).pipelines ∧
      sp.pipelineLayouts = (preparePipelines x).pipelineLayouts ∧
      sp.frameBuffers = x.frameBuffers ∧ sp.renderPass = x.renderPass ∧
      sp.descriptorSetLayouts = x.descriptorSetLayouts ∧
      sp.descriptorSetLayoutImage = x.descriptorSetLayoutImage := by
  have hbind : ∃ s1, prepareOffscreenFramebuffers s = some s1 := by
    cases h : prepareOffscreenFramebuffers s with
    | none => simp [prepare, h] at hsp
    | some s1 => exact ⟨s1, rfl⟩
  obtain ⟨s1, h1⟩ := hbind
  simp only [prepare, h1, Option.bind_eq_bind, Option.some_bind, Option.some.injEq] at hsp
  subst hsp
  refine ⟨setupDescriptors (prepareBuffers s1), rfl, rfl, rfl, ?_, ?_, ?_, ?_⟩
  · dsimp only
    exact (gtao_preparePipelines_keeps _).1
  · dsimp only
    exact (gtao_preparePipelines_keeps _).2
  · dsimp only
    exact (gtao_preparePipelines_keeps_layouts _).1
  · dsimp only
    exact (gtao_preparePipelines_keeps_layouts _).2.1

/-- After `prepare`: the create-infos of the four pipeline layouts, and the
layout and the render pass each of the four pipelines is created with. -/
theorem gtao_prepare_pipelineLayouts (s sp : VulkanExample) (hsp : prepare s = some sp) :
    Device.pipelineLayoutInfo sp.device sp.pipelineLayouts.gBuffer =
      some { pSetLayouts := [sp.descriptorSetLayouts.gBuffer, sp.descriptorSetLayoutImage] } ∧
    Device.pipelineLayoutInfo sp.device sp.pipelineLayouts.gtao =
      some { pSetLayouts := [sp.descriptorSetLayouts.gtao] } ∧
    Device.pipelineLayoutInfo sp.device sp.pipelineLayouts.gtaoBlur =
      some { pSetLayouts := [sp.descriptorSetLayouts.gtaoBlur] } ∧
    Device.pipelineLayoutInfo sp.device sp.pipelineLayouts.composition =
      some { pSetLayouts := [sp.descriptorSetLayouts.composition] } ∧
    (∃ ci, Device.pipelineInfo sp.device sp.pipelines.offscreen = some ci ∧
      ci.layout = sp.pipelineLayouts.gBuffer ∧
      ci.renderPass = sp.frameBuffers.offscreen.renderPass) ∧
    (∃ ci, Device.pipelineInfo sp.device sp.pipelines.gtao = some ci ∧
      ci.layout = sp.pipelineLayouts.gtao ∧
      ci.renderPass = sp.frameBuffers.gtao.renderPass) ∧
    (∃ ci, Device.pipelineInfo sp.device sp.pipelines.gtaoBlur = some ci ∧
      ci.layout = sp.pipelineLayouts.gtaoBlur ∧
      ci.renderPass = sp.frameBuffers.gtaoBlur.renderPass) ∧
    (∃ ci, Device.pipelineInfo sp.device sp.pipelines.composition = some ci ∧
      ci.layout = sp.pipelineLayouts.composition ∧
      ci.renderPass = sp.renderPass) := by
  obtain ⟨x, hd, hp, hl, hf, hr, hs, hi⟩ := gtao_prepare_pipelines_layoutState s sp hsp
  rw [hd, hp, hl, hf, hr, hs, hi]
  exact gtao_preparePipelines_layouts x

/-- The device log `prepare` leaves: the log before, then the calls of
`prepareOffscreenFramebuffers`, of `prepareBuffers`, of `setupDescriptors` and
the fourteen calls `pipes` of `preparePipelines`, with their kinds and shader
files. -/
theorem gtao_prepare_log (s sp : VulkanExample) (fmt : VkFormat)
    (hA : s.ANDROID = false) (hD : s.supportedDepthFormat = some fmt)
    (hsp : prepare s = some sp) :
    ∃ pipes : List Call, pipes.length = 14 ∧
      pipes.map Call.kind =
        [ some ObjectKind.pipelineLayout, some ObjectKind.pipelineLayout,
          some ObjectKind.pipelineLayout, some ObjectKind.pipelineLayout,
          some ObjectKind.shaderModule, some ObjectKind.shaderModule, some ObjectKind.pipeline,
          some ObjectKind.shaderModule, some ObjectKind.pipeline,
          some ObjectKind.shaderModule, some ObjectKind.pipeline,
          some ObjectKind.shaderModule, some ObjectKind.shaderModule, some ObjectKind.pipeline ] ∧
      pipes.filterMap Call.fileName =
        [ s.shadersPath ++ "gtao/fullscreen.vert.spv", s.shadersPath ++ "gtao/composition.frag.spv",
          s.shadersPath ++ "gtao/gtao.frag.spv", s.shadersPath ++ "gtao/blur.frag.spv",
          s.shadersPath ++ "gtao/gbuffer.vert.spv", s.shadersPath ++ "gtao/gbuffer.frag.spv" ] ∧
      sp.device = s.device ++
        (prepareOffscreenFramebuffersCalls s.device.length s.width s.height s.width s.height fmt ++
          ((List.range s.maxConcurrentFrames).flatMap (fun _ => prepareBuffersFrameCalls) ++
            (setupDescriptorsLayoutCalls s.maxConcurrentFrames ++
              ((List.range s.maxConcurrentFrames).flatMap (fun i =>
                  setupDescriptorsFrameCalls
                    { descriptorPool := sp.descriptorPool, descriptorSetCount := 1, pSetLayouts := [] }
                    { sampler := sp.colorSampler, imageView := sp.frameBuffers.offscreen.position.view,
                      imageLayout := VK_IMAGE_LAYOUT_SHADER_READ_ONLY_OPTIMAL }
                    { sampler := sp.colorSampler, imageView := sp.frameBuffers.offscreen.normal.view,
                      imageLayout := VK_IMAGE_LAYOUT_SHADER_READ_ONLY_OPTIMAL }
                    { sampler := sp.colorSampler, imageView := sp.frameBuffers.offscreen.albedo.view,
                      imageLayout := VK_IMAGE_LAYOUT_SHADER_READ_ONLY_OPTIMAL }
                    { sampler := sp.colorSampler, imageView := sp.frameBuffers.gtao.color.view,
                      imageLayout := VK_IMAGE_LAYOUT_SHADER_READ_ONLY_OPTIMAL }
                    { sampler := sp.colorSampler, imageView := sp.frameBuffers.gtaoBlur.color.view,
                      imageLayout := VK_IMAGE_LAYOUT_SHADER_READ_ONLY_OPTIMAL }
                    sp.descriptorSetLayouts (sp.uniformBuffers i)
                    (s.device.length + 31 + 3 * s.maxConcurrentFrames + 5 + 8 * i)) ++
                pipes)))) := by
  rw [gtao_prepare_eq s fmt hA hD] at hsp
  cases hsp
  obtain ⟨pipes, hpipes, hlen, -, hk, hf⟩ := gtao_preparePipelines_kinds (setupDescriptors (prepareBuffers
      { s with
        device := s.device ++
          prepareOffscreenFramebuffersCalls s.device.length s.width s.height s.width s.height fmt,
        frameBuffers :=
          prepareOffscreenFramebuffersResult s.device.length s.width s.height s.width s.height fmt,
        colorSampler := s.device.length + 31 }))
  have hpath : (setupDescriptors (prepareBuffers
      { s with
        device := s.device ++
          prepareOffscreenFramebuffersCalls s.device.length s.width s.height s.width s.height fmt,
        frameBuffers :=
          prepareOffscreenFramebuffersResult s.device.length s.width s.height s.width s.height fmt,
        colorSampler := s.device.length + 31 })).shadersPath = s.shadersPath := by
    simp only [gtao_setupDescriptors_eq, gtao_prepareBuffers_eq]
  rw [hpath] at hf
  refine ⟨pipes, hlen, hk, hf, ?_⟩
  dsimp only
  rw [hpipes]
  simp only [preparePipelines, gtao_setupDescriptors_eq, gtao_prepareBuffers_eq]
  simp only [List.length_append, gtao_prepareOffscreenFramebuffersCalls_length,
    List.length_flatMap_range (fun _ => prepareBuffersFrameCalls) 3 (fun _ => rfl),
    List.append_assoc, Nat.add_assoc]

theorem gtao_setupDescriptorsFrameCalls_length (ai : VkDescriptorSetAllocateInfo)
    (p nm a g b : VkDescriptorImageInfo) (layouts : DescriptorSetLayouts) (ub : UniformBuffers)
    (base : Nat) : (setupDescriptorsFrameCalls ai p nm a g b layouts ub base).length = 8 := rfl

theorem gtao_setupDescriptorsLayoutCalls_length (n : Nat) :
    (setupDescriptorsLayoutCalls n).length = 5 := rfl

/-- After `prepare`: the call behind handle number `k + 1` of the three
buffers of slot `i`. -/
theorem gtao_prepare_lookup_buffers (s sp : VulkanExample) (hsp : prepare s = some sp)
    (i k : Nat) (hi : i < s.maxConcurrentFrames) (hk : k < 3) :
    Device.lookup sp.device (s.device.length + 31 + 3 * i + (k + 1)) =
      prepareBuffersFrameCalls[k]? := by
  obtain ⟨hA, fmt, hD⟩ := gtao_prepare_some s sp hsp
  obtain ⟨pipes, -, -, hdev⟩ := gtao_prepare_device s sp fmt hA hD hsp
  have hdev2 : sp.device =
      (s.device ++ prepareOffscreenFramebuffersCalls s.device.length s.width s.height s.width
        s.height fmt) ++
      ((List.range s.maxConcurrentFrames).flatMap (fun _ => prepareBuffersFrameCalls) ++
        (setupDescriptorsLayoutCalls s.maxConcurrentFrames ++
          ((List.range s.maxConcurrentFrames).flatMap (fun i =>
                  setupDescriptorsFrameCalls
                    { descriptorPool := sp.descriptorPool, descriptorSetCount := 1, pSetLayouts := [] }
                    { sampler := sp.colorSampler, imageView := sp.frameBuffers.offscreen.position.view,
                      imageLayout := VK_IMAGE_LAYOUT_SHADER_READ_ONLY_OPTIMAL }
                    { sampler := sp.colorSampler, imageView := sp.frameBuffers.offscreen.normal.view,
                      imageLayout := VK_IMAGE_LAYOUT_SHADER_READ_ONLY_OPTIMAL }
                    { sampler := sp.colorSampler, imageView := sp.frameBuffers.offscreen.albedo.view,
                      imageLayout := VK_IMAGE_LAYOUT_SHADER_READ_ONLY_OPTIMAL }
                    { sampler := sp.colorSampler, imageView := sp.frameBuffers.gtao.color.view,
                      imageLayout := VK_IMAGE_LAYOUT_SHADER_READ_ONLY_OPTIMAL }
                    { sampler := sp.colorSampler, imageView := sp.frameBuffers.gtaoBlur.color.view,
                      imageLayout := VK_IMAGE_LAYOUT_SHADER_READ_ONLY_OPTIMAL }
                    sp.descriptorSetLayouts (sp.uniformBuffers i)
                    (s.device.length + 31 + 3 * s.maxConcurrentFrames + 5 + 8 * i)) ++
            pipes))) := by
    rw [hdev]
    simp only [List.append_assoc]
  have hlen : (s.device ++ prepareOffscreenFramebuffersCalls s.device.length s.width s.height
      s.width s.height fmt).length = s.device.length + 31 := by
    simp [gtao_prepareOffscreenFramebuffersCalls_length]
  have hb := List.length_flatMap_range (fun _ => prepareBuffersFrameCalls) 3 (fun _ => rfl)
    s.maxConcurrentFrames
  have hh : s.device.length + 31 + 3 * i + (k + 1) =
      (s.device ++ prepareOffscreenFramebuffersCalls s.device.length s.width s.height s.width
        s.height fmt).length + ((3 * i + k) + 1) := by
    rw [hlen]
    omega
  rw [hdev2, hh, Device.lookup_block _ _ _ _ (by rw [hb]; omega)]
  exact List.getElem?_flatMap_range (fun _ => prepareBuffersFrameCalls) 3 (fun _ => rfl)
    s.maxConcurrentFrames i k hi hk

/-- After `prepare`: the call behind handle number `k + 1` of the descriptor
pool and the four descriptor-set layouts. -/
theorem gtao_prepare_lookup_layouts (s sp : VulkanExample) (hsp : prepare s = some sp)
    (k : Nat) (hk : k < 5) :
    Device.lookup sp.device (s.device.length + 31 + 3 * s.maxConcurrentFrames + (k + 1)) =
      (setupDescriptorsLayoutCalls s.maxConcurrentFrames)[k]? := by
  obtain ⟨hA, fmt, hD⟩ := gtao_prepare_some s sp hsp
  obtain ⟨pipes, -, -, hdev⟩ := gtao_prepare_device s sp fmt hA hD hsp
  have hdev2 : sp.device =
      (s.device ++ prepareOffscreenFramebuffersCalls s.device.length s.width s.height s.width
        s.height fmt ++
        (List.range s.maxConcurrentFrames).flatMap (fun _ => prepareBuffersFrameCalls)) ++
      (setupDescriptorsLayoutCalls s.maxConcurrentFrames ++
        ((List.range s.maxConcurrentFrames).flatMap (fun i =>
                  setupDescriptorsFrameCalls
                    { descriptorPool := sp.descriptorPool, descriptorSetCount := 1, pSetLayouts := [] }
                    { sampler := sp.colorSampler, imageView := sp.frameBuffers.offscreen.position.view,
                      imageLayout := VK_IMAGE_LAYOUT_SHADER_READ_ONLY_OPTIMAL }
                    { sampler := sp.colorSampler, imageView := sp.frameBuffers.offscreen.normal.view,
                      imageLayout := VK_IMAGE_LAYOUT_SHADER_READ_ONLY_OPTIMAL }
                    { sampler := sp.colorSampler, imageView := sp.frameBuffers.offscreen.albedo.view,
                      imageLayout := VK_IMAGE_LAYOUT_SHADER_READ_ONLY_OPTIMAL }
                    { sampler := sp.colorSampler, imageView := sp.frameBuffers.gtao.color.view,
                      imageLayout := VK_IMAGE_LAYOUT_SHADER_READ_ONLY_OPTIMAL }
                    { sampler := sp.colorSampler, imageView := sp.frameBuffers.gtaoBlur.color.view,
                      imageLayout := VK_IMAGE_LAYOUT_SHADER_READ_ONLY_OPTIMAL }
                    sp.descriptorSetLayouts (sp.uniformBuffers i)
                    (s.device.length + 31 + 3 * s.maxConcurrentFrames + 5 + 8 * i)) ++
          pipes)) := by
    rw [hdev]
    simp only [List.append_assoc]
  have hb := List.length_flatMap_range (fun _ => prepareBuffersFrameCalls) 3 (fun _ => rfl)
    s.maxConcurrentFrames
  have hlen : (s.device ++ prepareOffscreenFramebuffersCalls s.device.length s.width s.height
      s.width s.height fmt ++
      (List.range s.maxConcurrentFrames).flatMap (fun _ => prepareBuffersFrameCalls)).length =
        s.device.length + 31 + 3 * s.maxConcurrentFrames := by
    simp only [List.length_append, gtao_prepareOffscreenFramebuffersCalls_length, hb]
  rw [hdev2, ← hlen]
  exact Device.lookup_block _ _ _ _ hk

/-- After `prepare`: the call behind handle number `k + 1` of the eight calls
`setupDescriptors` makes for slot `i`. -/
theorem gtao_prepare_lookup_frames (s sp : VulkanExample) (hsp : prepare s = some sp)
    (i k : Nat) (hi : i < s.maxConcurrentFrames) (hk : k < 8) :
    Device.lookup sp.device
        (s.device.length + 31 + 3 * s.maxConcurrentFrames + 5 + 8 * i + (k + 1)) =
      (setupDescriptorsFrameCalls
          { descriptorPool := sp.descriptorPool, descriptorSetCount := 1, pSetLayouts := [] }
          { sampler := sp.colorSampler, imageView := sp.frameBuffers.offscreen.position.view,
            imageLayout := VK_IMAGE_LAYOUT_SHADER_READ_ONLY_OPTIMAL }
          { sampler := sp.colorSampler, imageView := sp.frameBuffers.offscreen.normal.view,
            imageLayout := VK_IMAGE_LAYOUT_SHADER_READ_ONLY_OPTIMAL }
          { sampler := sp.colorSampler, imageView := sp.frameBuffers.offscreen.albedo.view,
            imageLayout := VK_IMAGE_LAYOUT_SHADER_READ_ONLY_OPTIMAL }
          { sampler := sp.colorSampler, imageView := sp.frameBuffers.gtao.color.view,
            imageLayout := VK_IMAGE_LAYOUT_SHADER_READ_ONLY_OPTIMAL }
          { sampler := sp.colorSampler, imageView := sp.frameBuffers.gtaoBlur.color.view,
            imageLayout := VK_IMAGE_LAYOUT_SHADER_READ_ONLY_OPTIMAL }
          sp.descriptorSetLayouts (sp.uniformBuffers i)
          (s.device.length + 31 + 3 * s.maxConcurrentFrames + 5 + 8 * i))[k]? := by
  obtain ⟨hA, fmt, hD⟩ := gtao_prepare_some s sp hsp
  obtain ⟨pipes, -, -, hdev⟩ := gtao_prepare_device s sp fmt hA hD hsp
  have hdev2 : sp.device =
      (s.device ++ prepareOffscreenFramebuffersCalls s.device.length s.width s.height s.width
        s.height fmt ++
        (List.range s.maxConcurrentFrames).flatMap (fun _ => prepareBuffersFrameCalls) ++
        setupDescriptorsLayoutCalls s.maxConcurrentFrames) ++
      ((List.range s.maxConcurrentFrames).flatMap (fun i =>
                  setupDescriptorsFrameCalls
                    { descriptorPool := sp.descriptorPool, descriptorSetCount := 1, pSetLayouts := [] }
                    { sampler := sp.colorSampler, imageView := sp.frameBuffers.offscreen.position.view,
                      imageLayout := VK_IMAGE_LAYOUT_SHADER_READ_ONLY_OPTIMAL }
                    { sampler := sp.colorSampler, imageView := sp.frameBuffers.offscreen.normal.view,
                      imageLayout := VK_IMAGE_LAYOUT_SHADER_READ_ONLY_OPTIMAL }
                    { sampler := sp.colorSampler, imageView := sp.frameBuffers.offscreen.albedo.view,
                      imageLayout := VK_IMAGE_LAYOUT_SHADER_READ_ONLY_OPTIMAL }
                    { sampler := sp.colorSampler, imageView := sp.frameBuffers.gtao.color.view,
                      imageLayout := VK_IMAGE_LAYOUT_SHADER_READ_ONLY_OPTIMAL }
                    { sampler := sp.colorSampler, imageView := sp.frameBuffers.gtaoBlur.color.view,
                      imageLayout := VK_IMAGE_LAYOUT_SHADER_READ_ONLY_OPTIMAL }
                    sp.descriptorSetLayouts (sp.uniformBuffers i)
                    (s.device.length + 31 + 3 * s.maxConcurrentFrames + 5 + 8 * i)) ++
          pipes) := by
    rw [hdev]
    simp only [List.append_assoc]
  have hb := List.length_flatMap_range (fun _ => prepareBuffersFrameCalls) 3 (fun _ => rfl)
    s.maxConcurrentFrames
  have hlen : (s.device ++ prepareOffscreenFramebuffersCalls s.device.length s.width s.height
      s.width s.height fmt ++
      (List.range s.maxConcurrentFrames).flatMap (fun _ => prepareBuffersFrameCalls) ++
      setupDescriptorsLayoutCalls s.maxConcurrentFrames).length =
        s.device.length + 31 + 3 * s.maxConcurrentFrames + 5 := by
    simp only [List.length_append, gtao_prepareOffscreenFramebuffersCalls_length, hb,
      gtao_setupDescriptorsLayoutCalls_length]
  have hf := List.length_flatMap_range (fun i =>
    setupDescriptorsFrameCalls
          { descriptorPool := sp.descriptorPool, descriptorSetCount := 1, pSetLayouts := [] }
          { sampler := sp.colorSampler, imageView := sp.frameBuffers.offscreen.position.view,
            imageLayout := VK_IMAGE_LAYOUT_SHADER_READ_ONLY_OPTIMAL }
          { sampler := sp.colorSampler, imageView := sp.frameBuffers.offscreen.normal.view,
            imageLayout := VK_IMAGE_LAYOUT_SHADER_READ_ONLY_OPTIMAL }
          { sampler := sp.colorSampler, imageView := sp.frameBuffers.offscreen.albedo.view,
            imageLayout := VK_IMAGE_LAYOUT_SHADER_READ_ONLY_OPTIMAL }
          { sampler := sp.colorSampler, imageView := sp.frameBuffers.gtao.color.view,
            imageLayout := VK_IMAGE_LAYOUT_SHADER_READ_ONLY_OPTIMAL }
          { sampler := sp.colorSampler, imageView := sp.frameBuffers.gtaoBlur.color.view,
            imageLayout := VK_IMAGE_LAYOUT_SHADER_READ_ONLY_OPTIMAL }
          sp.descriptorSetLayouts (sp.uniformBuffers i)
          (s.device.length + 31 + 3 * s.maxConcurrentFrames + 5 + 8 * i)) 8 (fun _ => rfl) s.maxConcurrentFrames
  have hh : s.device.length + 31 + 3 * s.maxConcurrentFrames + 5 + 8 * i + (k + 1) =
      (s.device ++ prepareOffscreenFramebuffersCalls s.device.length s.width s.height
        s.width s.height fmt ++
        (List.range s.maxConcurrentFrames).flatMap (fun _ => prepareBuffersFrameCalls) ++
        setupDescriptorsLayoutCalls s.maxConcurrentFrames).length + ((8 * i + k) + 1) := by
    rw [hlen]
    omega
  rw [hdev2, hh, Device.lookup_block _ _ _ _ (by rw [hf]; omega)]
  exact List.getElem?_flatMap_range (fun i =>
    setupDescriptorsFrameCalls
          { descriptorPool := sp.descriptorPool, descriptorSetCount := 1, pSetLayouts := [] }
          { sampler := sp.colorSampler, imageView := sp.frameBuffers.offscreen.position.view,
            imageLayout := VK_IMAGE_LAYOUT_SHADER_READ_ONLY_OPTIMAL }
          { sampler := sp.colorSampler, imageView := sp.frameBuffers.offscreen.normal.view,
            imageLayout := VK_IMAGE_LAYOUT_SHADER_READ_ONLY_OPTIMAL }
          { sampler := sp.colorSampler, imageView := sp.frameBuffers.offscreen.albedo.view,
            imageLayout := VK_IMAGE_LAYOUT_SHADER_READ_ONLY_OPTIMAL }
          { sampler := sp.colorSampler, imageView := sp.frameBuffers.gtao.color.view,
            imageLayout := VK_IMAGE_LAYOUT_SHADER_READ_ONLY_OPTIMAL }
          { sampler := sp.colorSampler, imageView := sp.frameBuffers.gtaoBlur.color.view,
            imageLayout := VK_IMAGE_LAYOUT_SHADER_READ_ONLY_OPTIMAL }
          sp.descriptorSetLayouts (sp.uniformBuffers i)
          (s.device.length + 31 + 3 * s.maxConcurrentFrames + 5 + 8 * i)) 8 (fun _ => rfl)
    s.maxConcurrentFrames i k hi hk

/-- After `prepare`: the allocate-infos of the four descriptor sets of slot
`i`. -/
theorem gtao_prepare_sets (s sp : VulkanExample) (hsp : prepare s = some sp)
    (i : Nat) (hi : i < s.maxConcurrentFrames) :
    Device.descriptorSetInfo sp.device (sp.descriptorSets i).gBuffer =
      some { descriptorPool := sp.descriptorPool, descriptorSetCount := 1,
             pSetLayouts := [sp.descriptorSetLayouts.gBuffer] } ∧
    Device.descriptorSetInfo sp.device (sp.descriptorSets i).gtao =
      some { descriptorPool := sp.descriptorPool, descriptorSetCount := 1,
             pSetLayouts := [sp.descriptorSetLayouts.gtao] } ∧
    Device.descriptorSetInfo sp.device (sp.descriptorSets i).gtaoBlur =
      some { descriptorPool := sp.descriptorPool, descriptorSetCount := 1,
             pSetLayouts := [sp.descriptorSetLayouts.gtaoBlur] } ∧
    Device.descriptorSetInfo sp.device (sp.descriptorSets i).composition =
      some { descriptorPool := sp.descriptorPool, descriptorSetCount := 1,
             pSetLayouts := [sp.descriptorSetLayouts.composition] } := by
  obtain ⟨-, hds⟩ := gtao_prepare_handles s sp hsp
  have k0 := gtao_prepare_lookup_frames s sp hsp i 0 hi (by omega)
  have k2 := gtao_prepare_lookup_frames s sp hsp i 2 hi (by omega)
  have k4 := gtao_prepare_lookup_frames s sp hsp i 4 hi (by omega)
  have k6 := gtao_prepare_lookup_frames s sp hsp i 6 hi (by omega)
  rw [hds i hi]
  unfold Device.descriptorSetInfo
  simp only [setupDescriptorsFrameSets]
  refine ⟨?_, ?_, ?_, ?_⟩
  · rw [k0]; rfl
  · rw [k2]; rfl
  · rw [k4]; rfl
  · rw [k6]; rfl

/-- After `prepare`: the create-infos of the descriptor pool and of the four
descriptor-set layouts. -/
theorem gtao_prepare_setLayouts (s sp : VulkanExample) (hsp : prepare s = some sp) :
    Device.descriptorPoolInfo sp.device sp.descriptorPool =
      some { pPoolSizes :=
               [ { type := VK_DESCRIPTOR_TYPE_UNIFORM_BUFFER,
                   descriptorCount := s.maxConcurrentFrames * 4 % UINT32_RANGE },
                 { type := VK_DESCRIPTOR_TYPE_COMBINED_IMAGE_SAMPLER,
                   descriptorCount := s.maxConcurrentFrames * 9 % UINT32_RANGE } ],
             maxSets := s.maxConcurrentFrames * 4 % UINT32_RANGE } ∧
    Device.descriptorSetLayoutInfo sp.device sp.descriptorSetLayouts.gBuffer =
      some { pBindings :=
        [ { descriptorType := VK_DESCRIPTOR_TYPE_UNIFORM_BUFFER,
            stageFlags := VK_SHADER_STAGE_VERTEX_BIT ||| VK_SHADER_STAGE_FRAGMENT_BIT, binding := 0, descriptorCount := 1 } ] } ∧
    Device.descriptorSetLayoutInfo sp.device sp.descriptorSetLayouts.gtao =
      some { pBindings :=
        [ { descriptorType := VK_DESCRIPTOR_TYPE_COMBINED_IMAGE_SAMPLER, stageFlags := VK_SHADER_STAGE_FRAGMENT_BIT, binding := 0, descriptorCount := 1 },
          { descriptorType := VK_DESCRIPTOR_TYPE_COMBINED_IMAGE_SAMPLER, stageFlags := VK_SHADER_STAGE_FRAGMENT_BIT, binding := 1, descriptorCount := 1 },
          { descriptorType := VK_DESCRIPTOR_TYPE_UNIFORM_BUFFER, stageFlags := VK_SHADER_STAGE_FRAGMENT_BIT, binding := 2, descriptorCount := 1 },
          { descriptorType := VK_DESCRIPTOR_TYPE_UNIFORM_BUFFER, stageFlags := VK_SHADER_STAGE_FRAGMENT_BIT, binding := 3, descriptorCount := 1 } ] } ∧
    Device.descriptorSetLayoutInfo sp.device sp.descriptorSetLayouts.gtaoBlur =
      some { pBindings :=
        [ { descriptorType := VK_DESCRIPTOR_TYPE_COMBINED_IMAGE_SAMPLER, stageFlags := VK_SHADER_STAGE_FRAGMENT_BIT, binding := 0, descriptorCount := 1 } ] } ∧
    Device.descriptorSetLayoutInfo sp.device sp.descriptorSetLayouts.composition =
      some { pBindings :=
        [ { descriptorType := VK_DESCRIPTOR_TYPE_COMBINED_IMAGE_SAMPLER, stageFlags := VK_SHADER_STAGE_FRAGMENT_BIT, binding := 0, descriptorCount := 1 },
          { descriptorType := VK_DESCRIPTOR_TYPE_COMBINED_IMAGE_SAMPLER, stageFlags := VK_SHADER_STAGE_FRAGMENT_BIT, binding := 1, descriptorCount := 1 },
          { descriptorType := VK_DESCRIPTOR_TYPE_COMBINED_IMAGE_SAMPLER, stageFlags := VK_SHADER_STAGE_FRAGMENT_BIT, binding := 2, descriptorCount := 1 },
          { descriptorType := VK_DESCRIPTOR_TYPE_COMBINED_IMAGE_SAMPLER, stageFlags := VK_SHADER_STAGE_FRAGMENT_BIT, binding := 3, descriptorCount := 1 },
          { descriptorType := VK_DESCRIPTOR_TYPE_COMBINED_IMAGE_SAMPLER, stageFlags := VK_SHADER_STAGE_FRAGMENT_BIT, binding := 4, descriptorCount := 1 },
          { descriptorType := VK_DESCRIPTOR_TYPE_UNIFORM_BUFFER, stageFlags := VK_SHADER_STAGE_FRAGMENT_BIT, binding := 5, descriptorCount := 1 } ] } := by
  obtain ⟨hp, hl, -, -, -⟩ := gtao_prepare_layouts s sp hsp
  have k0 := gtao_prepare_lookup_layouts s sp hsp 0 (by omega)
  have k1 := gtao_prepare_lookup_layouts s sp hsp 1 (by omega)
  have k2 := gtao_prepare_lookup_layouts s sp hsp 2 (by omega)
  have k3 := gtao_prepare_lookup_layouts s sp hsp 3 (by omega)
  have k4 := gtao_prepare_lookup_layouts s sp hsp 4 (by omega)
  rw [hp, hl]
  unfold Device.descriptorPoolInfo Device.descriptorSetLayoutInfo
  refine ⟨?_, ?_, ?_, ?_, ?_⟩
  · rw [k0]; rfl
  · rw [k1]; rfl
  · rw [k2]; rfl
  · rw [k3]; rfl
  · rw [k4]; rfl

/-- After `prepare`: what the three uniform buffers of slot `i` were created
with. -/
theorem gtao_prepare_buffers (s sp : VulkanExample) (hsp : prepare s = some sp)
    (i : Nat) (hi : i < s.maxConcurrentFrames) :
    Device.bufferInfo sp.device (sp.uniformBuffers i).sceneParams.buffer =
      some (VK_BUFFER_USAGE_UNIFORM_BUFFER_BIT,
        VK_MEMORY_PROPERTY_HOST_VISIBLE_BIT ||| VK_MEMORY_PROPERTY_HOST_COHERENT_BIT,
        sizeof_uboSceneParams) ∧
    Device.bufferInfo sp.device (sp.uniformBuffers i).gtaoParams.buffer =
      some (VK_BUFFER_USAGE_UNIFORM_BUFFER_BIT,
        VK_MEMORY_PROPERTY_HOST_VISIBLE_BIT ||| VK_MEMORY_PROPERTY_HOST_COHERENT_BIT,
        sizeof_uboGTAOParams) ∧
    Device.bufferInfo sp.device (sp.uniformBuffers i).gtaoSettings.buffer =
      some (VK_BUFFER_USAGE_UNIFORM_BUFFER_BIT,
        VK_MEMORY_PROPERTY_HOST_VISIBLE_BIT ||| VK_MEMORY_PROPERTY_HOST_COHERENT_BIT,
        sizeof_uboGTAOSettings) := by
  obtain ⟨hub, -⟩ := gtao_prepare_handles s sp hsp
  have k0 := gtao_prepare_lookup_buffers s sp hsp i 0 hi (by omega)
  have k1 := gtao_prepare_lookup_buffers s sp hsp i 1 hi (by omega)
  have k2 := gtao_prepare_lookup_buffers s sp hsp i 2 hi (by omega)
  rw [hub i hi]
  unfold Device.bufferInfo
  simp only [prepareBuffersFrameBuffers]
  refine ⟨?_, ?_, ?_⟩
  · rw [k0]; rfl
  · rw [k1]; rfl
  · rw [k2]; rfl

/-- The sampler, the views and the images of the six attachments in the log
`prepareOffscreenFramebuffers` leaves. -/
theorem gtao_offscreenCalls_attachments (d : Device) (width height gtaoWidth gtaoHeight : Nat)
    (fmt : VkFormat) :
    let log := d ++ prepareOffscreenFramebuffersCalls d.length width height gtaoWidth gtaoHeight fmt
    let fb := prepareOffscreenFramebuffersResult d.length width height gtaoWidth gtaoHeight fmt
    Device.samplerInfo log (d.length + 31) =
      some { magFilter := VK_FILTER_NEAREST,
             minFilter := VK_FILTER_NEAREST,
             mipmapMode := VK_SAMPLER_MIPMAP_MODE_LINEAR,
             addressModeU := VK_SAMPLER_ADDRESS_MODE_CLAMP_TO_EDGE,
             addressModeV := VK_SAMPLER_ADDRESS_MODE_CLAMP_TO_EDGE,
             addressModeW := VK_SAMPLER_ADDRESS_MODE_CLAMP_TO_EDGE,
             mipLodBias := F32.lit 0 1,
             maxAnisotropy := F32.lit 1 1,
             minLod := F32.lit 0 1,
             maxLod := F32.lit 1 1,
             borderColor := VK_BORDER_COLOR_FLOAT_OPAQUE_WHITE } ∧
    (∀ a ∈ [ fb.offscreen.position, fb.offscreen.normal, fb.offscreen.albedo, fb.gtao.color,
             fb.gtaoBlur.color ],
      (Device.imageViewInfo log a.view).map (fun v => v.image) = some a.image ∧
      (Device.imageInfo log a.image).map (fun i => i.usage) =
        some (VK_IMAGE_USAGE_COLOR_ATTACHMENT_BIT ||| VK_IMAGE_USAGE_SAMPLED_BIT)) ∧
    (Device.imageViewInfo log fb.offscreen.depth.view).map (fun v => v.image) =
      some fb.offscreen.depth.image ∧
    (Device.imageInfo log fb.offscreen.depth.image).map (fun i => i.usage) =
      some (VK_IMAGE_USAGE_DEPTH_STENCIL_ATTACHMENT_BIT ||| VK_IMAGE_USAGE_SAMPLED_BIT) := by
  simp [Device.imageInfo, Device.imageViewInfo, Device.samplerInfo,
    prepareOffscreenFramebuffersResult,
    prepareOffscreenFramebuffersCalls, createAttachmentCalls, createAttachmentResult,
    Device.lookup_append_new, Nat.add_assoc]

/-- After `prepare`: the create-info of the sampler, and the image and the
usage behind the view of each attachment. -/
theorem gtao_prepare_attachments (s sp : VulkanExample) (hsp : prepare s = some sp) :
    Device.samplerInfo sp.device sp.colorSampler =
      some { magFilter := VK_FILTER_NEAREST,
             minFilter := VK_FILTER_NEAREST,
             mipmapMode := VK_SAMPLER_MIPMAP_MODE_LINEAR,
             addressModeU := VK_SAMPLER_ADDRESS_MODE_CLAMP_TO_EDGE,
             addressModeV := VK_SAMPLER_ADDRESS_MODE_CLAMP_TO_EDGE,
             addressModeW := VK_SAMPLER_ADDRESS_MODE_CLAMP_TO_EDGE,
             mipLodBias := F32.lit 0 1,
             maxAnisotropy := F32.lit 1 1,
             minLod := F32.lit 0 1,
             maxLod := F32.lit 1 1,
             borderColor := VK_BORDER_COLOR_FLOAT_OPAQUE_WHITE } ∧
    (∀ a ∈ [ sp.frameBuffers.offscreen.position, sp.frameBuffers.offscreen.normal,
             sp.frameBuffers.offscreen.albedo, sp.frameBuffers.gtao.color,
             sp.frameBuffers.gtaoBlur.color ],
      (Device.imageViewInfo sp.device a.view).map (fun v => v.image) = some a.image ∧
      (Device.imageInfo sp.device a.image).map (fun i => i.usage) =
        some (VK_IMAGE_USAGE_COLOR_ATTACHMENT_BIT ||| VK_IMAGE_USAGE_SAMPLED_BIT)) ∧
    (Device.imageViewInfo sp.device sp.frameBuffers.offscreen.depth.view).map (fun v => v.image) =
      some sp.frameBuffers.offscreen.depth.image ∧
    (Device.imageInfo sp.device sp.frameBuffers.offscreen.depth.image).map (fun i => i.usage) =
      some (VK_IMAGE_USAGE_DEPTH_STENCIL_ATTACHMENT_BIT ||| VK_IMAGE_USAGE_SAMPLED_BIT) := by
  obtain ⟨hA, fmt, hD⟩ := gtao_prepare_some s sp hsp
  obtain ⟨-, hfb, hcs, -, -⟩ := gtao_prepare_state s sp fmt hA hD hsp
  have hl := fun h hh => gtao_prepare_lookup s sp fmt hA hD hsp h hh
  obtain ⟨c1, c2, c3, c4⟩ :=
    gtao_offscreenCalls_attachments s.device s.width s.height s.width s.height fmt
  rw [hfb, hcs]
  refine ⟨?_, ?_, ?_, ?_⟩
  · unfold Device.samplerInfo at c1 ⊢
    rw [hl _ (by omega)]
    exact c1
  · intro a ha
    obtain ⟨v1, v2⟩ := c2 a ha
    have hv : a.view ≤ s.device.length + 31 := by
      simp only [prepareOffscreenFramebuffersResult, createAttachmentResult, List.mem_cons,
        List.mem_singleton, List.not_mem_nil, or_false] at ha
      rcases ha with rfl | rfl | rfl | rfl | rfl <;> simp only [] <;> omega
    have hi : a.image ≤ s.device.length + 31 := by
      simp only [prepareOffscreenFramebuffersResult, createAttachmentResult, List.mem_cons,
        List.mem_singleton, List.not_mem_nil, or_false] at ha
      rcases ha with rfl | rfl | rfl | rfl | rfl <;> simp only [] <;> omega
    unfold Device.imageViewInfo at v1
    unfold Device.imageInfo at v2
    unfold Device.imageViewInfo Device.imageInfo
    rw [hl _ hv, hl _ hi]
    exact ⟨v1, v2⟩
  · unfold Device.imageViewInfo at c3 ⊢
    rw [hl _ (by simp only [prepareOffscreenFramebuffersResult, createAttachmentResult]; omega)]
    exact c3
  · unfold Device.imageInfo at c4 ⊢
    rw [hl _ (by simp only [prepareOffscreenFramebuffersResult, createAttachmentResult]; omega)]
    exact c4

/-- For each pass `buildCommandBuffer` records: its render pass and
framebuffer, the pipeline in force at each draw, the descriptor-set binds and
the descriptor sets bound. -/
theorem gtao_frame_bindings (s : VulkanExample) :
    (recordedPasses (buildCommandBuffer s).2).map
        (fun p => (p.beginInfo.renderPass, p.beginInfo.framebuffer,
          (recordedDraws p.body).map (fun d => d.1.pipeline), recordedBinds p.body,
          boundDescriptorSets p.body)) =
      [ (s.frameBuffers.offscreen.renderPass, s.frameBuffers.offscreen.frameBuffer,
          [some s.pipelines.offscreen],
          [(s.pipelineLayouts.gBuffer, 0, [(s.descriptorSets s.currentBuffer).gBuffer])],
          [(s.descriptorSets s.currentBuffer).gBuffer]),
        (s.frameBuffers.gtao.renderPass, s.frameBuffers.gtao.frameBuffer,
          [some s.pipelines.gtao],
          [(s.pipelineLayouts.gtao, 0, [(s.descriptorSets s.currentBuffer).gtao])],
          [(s.descriptorSets s.currentBuffer).gtao]),
        (s.frameBuffers.gtaoBlur.renderPass, s.frameBuffers.gtaoBlur.frameBuffer,
          [some s.pipelines.gtaoBlur],
          [(s.pipelineLayouts.gtaoBlur, 0, [(s.descriptorSets s.currentBuffer).gtaoBlur])],
          [(s.descriptorSets s.currentBuffer).gtaoBlur]),
        (s.renderPass, s.swapChainFrameBuffers s.currentImageIndex,
          [some s.pipelines.composition],
          [(s.pipelineLayouts.composition, 0, [(s.descriptorSets s.currentBuffer).composition])],
          [(s.descriptorSets s.currentBuffer).composition]) ] := by
  rw [gtao_buildCommandBuffer_cmds]
  rfl

/-- The handles of the objects the calls of `prepareOffscreenFramebuffers`
create, kind by kind. -/
theorem gtao_offscreenCalls_created (base width height gtaoWidth gtaoHeight : Nat)
    (fmt : VkFormat) :
    let calls := prepareOffscreenFramebuffersCalls base width height gtaoWidth gtaoHeight fmt
    createdFrom ObjectKind.image calls (base + 1) =
      [base + 1, base + 5, base + 9, base + 13, base + 17, base + 21] ∧
    createdFrom ObjectKind.imageView calls (base + 1) =
      [base + 4, base + 8, base + 12, base + 16, base + 20, base + 24] ∧
    createdFrom ObjectKind.memory calls (base + 1) =
      [base + 2, base + 6, base + 10, base + 14, base + 18, base + 22] ∧
    createdFrom ObjectKind.framebuffer calls (base + 1) = [base + 26, base + 28, base + 30] ∧
    createdFrom ObjectKind.renderPass calls (base + 1) = [base + 25, base + 27, base + 29] ∧
    createdFrom ObjectKind.sampler calls (base + 1) = [base + 31] := by
  simp [createdFrom, prepareOffscreenFramebuffersCalls, createAttachmentCalls, Call.kind,
    Nat.add_assoc]

/-- The only sampler `prepare` creates is `colorSampler`. -/
theorem gtao_prepare_samplers (s sp : VulkanExample) (hsp : prepare s = some sp) :
    Device.created s.device sp.device ObjectKind.sampler = [sp.colorSampler] := by
  obtain ⟨hA, fmt, hD⟩ := gtao_prepare_some s sp hsp
  obtain ⟨-, -, hcs, -, -⟩ := gtao_prepare_state s sp fmt hA hD hsp
  obtain ⟨pipes, -, hk, -, hdev⟩ := gtao_prepare_log s sp fmt hA hD hsp
  obtain ⟨-, -, -, -, -, h6⟩ :=
    gtao_offscreenCalls_created s.device.length s.width s.height s.width s.height fmt
  have hB : ∀ h, createdFrom ObjectKind.sampler
      ((List.range s.maxConcurrentFrames).flatMap (fun _ => prepareBuffersFrameCalls)) h = [] := by
    intro h
    apply createdFrom_of_none
    intro c hc
    obtain ⟨i, -, hci⟩ := List.mem_flatMap.mp hc
    simp only [prepareBuffersFrameCalls, List.mem_cons, List.mem_singleton, List.not_mem_nil,
      or_false] at hci
    rcases hci with rfl | rfl | rfl <;> simp [Call.kind]
  have hC : ∀ h, createdFrom ObjectKind.sampler
      (setupDescriptorsLayoutCalls s.maxConcurrentFrames) h = [] := by
    intro h
    simp [createdFrom, setupDescriptorsLayoutCalls, Call.kind]
  have hF : ∀ (f : Nat → VkDescriptorSetAllocateInfo) (p nm a g b : VkDescriptorImageInfo)
      (l : DescriptorSetLayouts) (ub : Nat → UniformBuffers) (base : Nat → Nat) (h : Nat),
      createdFrom ObjectKind.sampler ((List.range s.maxConcurrentFrames).flatMap (fun i =>
        setupDescriptorsFrameCalls (f i) p nm a g b l (ub i) (base i))) h = [] := by
    intro f p nm a g b l ub base h
    apply createdFrom_of_none
    intro c hc
    obtain ⟨i, -, hci⟩ := List.mem_flatMap.mp hc
    simp only [setupDescriptorsFrameCalls, List.mem_cons, List.mem_singleton, List.not_mem_nil,
      or_false] at hci
    rcases hci with rfl | rfl | rfl | rfl | rfl | rfl | rfl | rfl <;> simp [Call.kind]
  have hP : ∀ h, createdFrom ObjectKind.sampler pipes h = [] := by
    intro h
    apply createdFrom_of_none
    intro c hc
    have hm : c.kind ∈ pipes.map Call.kind := List.mem_map_of_mem _ hc
    rw [hk] at hm
    intro he
    rw [he] at hm
    simp at hm
  rw [hdev, Device.created_append, createdFrom_append, createdFrom_append, createdFrom_append,
    createdFrom_append, h6, hB, hC, hP, hcs]
  rw [hF (fun _ => _) _ _ _ _ _ _ _ (fun i => _)]
  rfl

end GTAO

namespace HBAO

/-- After `prepare`: the descriptor pool and the four descriptor-set layouts by
handle, and the inherited members `prepare` keeps. -/
theorem hbao_prepare_layouts (s sp : VulkanExample) (hsp : prepare s = some sp) :
    sp.descriptorPool = s.device.length + 31 + 3 * s.maxConcurrentFrames + 1 ∧
    sp.descriptorSetLayouts =
      { gBuffer := s.device.length + 31 + 3 * s.maxConcurrentFrames + 2,
        hbao := s.device.length + 31 + 3 * s.maxConcurrentFrames + 3,
        hbaoBlur := s.device.length + 31 + 3 * s.maxConcurrentFrames + 4,
        composition := s.device.length + 31 + 3 * s.maxConcurrentFrames + 5 } ∧
    sp.descriptorSetLayoutImage = s.descriptorSetLayoutImage ∧
    sp.pipelineCache = s.pipelineCache ∧ sp.shadersPath = s.shadersPath := by
  obtain ⟨fmt, hD⟩ := hbao_prepare_some s sp hsp
  rw [hbao_prepare_eq s fmt hD] at hsp
  cases hsp
  simp only [preparePipelines, hbao_setupDescriptors_eq, hbao_prepareBuffers_eq]
  simp [hbao_prepareOffscreenFramebuffersCalls_length,
    List.length_flatMap_range (fun _ => prepareBuffersFrameCalls) 3 (fun _ => rfl), Nat.add_assoc]

/-- The fourteen calls of `preparePipelines`: none writes a descriptor, and
their kinds and shader files are as listed. -/
theorem hbao_preparePipelines_kinds (s : VulkanExample) :
    ∃ pipes : List Call, (preparePipelines s).device = s.device ++ pipes ∧ pipes.length = 14 ∧
      (∀ c ∈ pipes, c.writes = []) ∧
      pipes.map Call.kind =
        [ some ObjectKind.pipelineLayout, some ObjectKind.pipelineLayout,
          some ObjectKind.pipelineLayout, some ObjectKind.pipelineLayout,
          some ObjectKind.shaderModule, some ObjectKind.shaderModule, some ObjectKind.pipeline,
          some ObjectKind.shaderModule, some ObjectKind.pipeline,
          some ObjectKind.shaderModule, some ObjectKind.pipeline,
          some ObjectKind.shaderModule, some ObjectKind.shaderModule, some ObjectKind.pipeline ] ∧
      pipes.filterMap Call.fileName =
        [ s.shadersPath ++ "hbao/fullscreen.vert.spv", s.shadersPath ++ "hbao/composition.frag.spv",
          s.shadersPath ++ "hbao/hbao.frag.spv", s.shadersPath ++ "hbao/blur.frag.spv",
          s.shadersPath ++ "hbao/gbuffer.vert.spv", s.shadersPath ++ "hbao/gbuffer.frag.spv" ] := by
  simp only [preparePipelines, Device.call, loadShader, List.append_assoc]
  exact ⟨_, rfl, rfl, by simp [Call.writes], rfl, rfl⟩

/-- The pipeline layouts `preparePipelines` creates and the layout each of the
four pipelines is created with. -/
theorem hbao_preparePipelines_layouts (s : VulkanExample) :
    Device.pipelineLayoutInfo (preparePipelines s).device (preparePipelines s).pipelineLayouts.gBuffer =
      some { pSetLayouts := [s.descriptorSetLayouts.gBuffer, s.descriptorSetLayoutImage] } ∧
    Device.pipelineLayoutInfo (preparePipelines s).device (preparePipelines s).pipelineLayouts.hbao =
      some { pSetLayouts := [s.descriptorSetLayouts.hbao] } ∧
    Device.pipelineLayoutInfo (preparePipelines s).device (preparePipelines s).pipelineLayouts.hbaoBlur =
      some { pSetLayouts := [s.descriptorSetLayouts.hbaoBlur] } ∧
    Device.pipelineLayoutInfo (preparePipelines s).device (preparePipelines s).pipelineLayouts.composition =
      some { pSetLayouts := [s.descriptorSetLayouts.composition] } ∧
    (∃ ci, Device.pipelineInfo (preparePipelines s).device (preparePipelines s).pipelines.offscreen = some ci ∧
      ci.layout = (preparePipelines s).pipelineLayouts.gBuffer ∧
      ci.renderPass = s.frameBuffers.offscreen.renderPass) ∧
    (∃ ci, Device.pipelineInfo (preparePipelines s).device (preparePipelines s).pipelines.hbao = some ci ∧
      ci.layout = (preparePipelines s).pipelineLayouts.hbao ∧
      ci.renderPass = s.frameBuffers.hbao.renderPass) ∧
    (∃ ci, Device.pipelineInfo (preparePipelines s).device (preparePipelines s).pipelines.hbaoBlur = some ci ∧
      ci.layout = (preparePipelines s).pipelineLayouts.hbaoBlur ∧
      ci.renderPass = s.frameBuffers.hbaoBlur.renderPass) ∧
    (∃ ci, Device.pipelineInfo (preparePipelines s).device (preparePipelines s).pipelines.composition = some ci ∧
      ci.layout = (preparePipelines s).pipelineLayouts.composition ∧
      ci.renderPass = s.renderPass) := by
  simp [preparePipelines, Device.call, loadShader, Device.pipelineInfo, Device.pipelineLayoutInfo,
    Device.lookup_append_new, Nat.add_assoc, span]

/-- What `preparePipelines` keeps of the state. -/
theorem hbao_preparePipelines_keeps_layouts (s : VulkanExample) :
    (preparePipelines s).descriptorSetLayouts = s.descriptorSetLayouts ∧
    (preparePipelines s).descriptorSetLayoutImage = s.descriptorSetLayoutImage ∧
    (preparePipelines s).descriptorSets = s.descriptorSets := by
  simp [preparePipelines]

/-- After `prepare` the log, the pipelines and the pipeline layouts are those
left by `preparePipelines`, which keeps the rest of the state. -/
theorem hbao_prepare_pipelines_layoutState (s sp : VulkanExample) (hsp : prepare s = some sp) :
    ∃ x, sp.device = (preparePipelines x).device ∧
      sp.pipelines = (preparePipelines x).pipelines ∧
      sp.pipelineLayouts = (preparePipelines x).pipelineLayouts ∧
      sp.frameBuffers = x.frameBuffers ∧ sp.renderPass = x.renderPass ∧
      sp.descriptorSetLayouts = x.descriptorSetLayouts ∧
      sp.descriptorSetLayoutImage = x.descriptorSetLayoutImage := by
  have hbind : ∃ s1, prepareOffscreenFramebuffers s = some s1 := by
    cases h : prepareOffscreenFramebuffers s with
    | none => simp [prepare, h] at hsp
    | some s1 => exact ⟨s1, rfl⟩
  obtain ⟨s1, h1⟩ := hbind
  simp only [prepare, h1, Option.bind_eq_bind, Option.some_bind, Option.some.injEq] at hsp
  subst hsp
  refine ⟨setupDescriptors (prepareBuffers s1), rfl, rfl, rfl, ?_, ?_, ?_, ?_⟩
  · dsimp only
    exact (hbao_preparePipelines_keeps _).1
  · dsimp only
    exact (hbao_preparePipelines_keeps _).2
  · dsimp only
    exact (hbao_preparePipelines_keeps_layouts _).1
  · dsimp only
    exact (hbao_preparePipelines_keeps_layouts _).2.1

/-- After `prepare`: the create-infos of the four pipeline layouts, and the
layout and the render pass each of the four pipelines is created with. -/
theorem hbao_prepare_pipelineLayouts (s sp : VulkanExample) (hsp : prepare s = some sp) :
    Device.pipelineLayoutInfo sp.device sp.pipelineLayouts.gBuffer =
      some { pSetLayouts := [sp.descriptorSetLayouts.gBuffer, sp.descriptorSetLayoutImage] } ∧
    Device.pipelineLayoutInfo sp.device sp.pipelineLayouts.hbao =
      some { pSetLayouts := [sp.descriptorSetLayouts.hbao] } ∧
    Device.pipelineLayoutInfo sp.device sp.pipelineLayouts.hbaoBlur =
      some { pSetLayouts := [sp.descriptorSetLayouts.hbaoBlur] } ∧
    Device.pipelineLayoutInfo sp.device sp.pipelineLayouts.composition =
      some { pSetLayouts := [sp.descriptorSetLayouts.composition] } ∧
    (∃ ci, Device.pipelineInfo sp.device sp.pipelines.offscreen = some ci ∧
      ci.layout = sp.pipelineLayouts.gBuffer ∧
      ci.renderPass = sp.frameBuffers.offscreen.renderPass) ∧
    (∃ ci, Device.pipelineInfo sp.device sp.pipelines.hbao = some ci ∧
      ci.layout = sp.pipelineLayouts.hbao ∧
      ci.renderPass = sp.frameBuffers.hbao.renderPass) ∧
    (∃ ci, Device.pipelineInfo sp.device sp.pipelines.hbaoBlur = some ci ∧
      ci.layout = sp.pipelineLayouts.hbaoBlur ∧
      ci.renderPass = sp.frameBuffers.hbaoBlur.renderPass) ∧
    (∃ ci, Device.pipelineInfo sp.device sp.pipelines.composition = some ci ∧
      ci.layout = sp.pipelineLayouts.composition ∧
      ci.renderPass = sp.renderPass) := by
  obtain ⟨x, hd, hp, hl, hf, hr, hs, hi⟩ := hbao_prepare_pipelines_layoutState s sp hsp
  rw [hd, hp, hl, hf, hr, hs, hi]
  exact hbao_preparePipelines_layouts x

/-- The device log `prepare` leaves: the log before, then the calls of
`prepareOffscreenFramebuffers`, of `prepareBuffers`, of `setupDescriptors` and
the fourteen calls `pipes` of `preparePipelines`, with their kinds and shader
files. -/
theorem hbao_prepare_log (s sp : VulkanExample) (fmt : VkFormat)
    (hD : s.supportedDepthFormat = some fmt)
    (hsp : prepare s = some sp) :
    ∃ pipes : List Call, pipes.length = 14 ∧
      pipes.map Call.kind =
        [ some ObjectKind.pipelineLayout, some ObjectKind.pipelineLayout,
          some ObjectKind.pipelineLayout, some ObjectKind.pipelineLayout,
          some ObjectKind.shaderModule, some ObjectKind.shaderModule, some ObjectKind.pipeline,
          some ObjectKind.shaderModule, some ObjectKind.pipeline,
          some ObjectKind.shaderModule, some ObjectKind.pipeline,
          some ObjectKind.shaderModule, some ObjectKind.shaderModule, some ObjectKind.pipeline ] ∧
      pipes.filterMap Call.fileName =
        [ s.shadersPath ++ "hbao/fullscreen.vert.spv", s.shadersPath ++ "hbao/composition.frag.spv",
          s.shadersPath ++ "hbao/hbao.frag.spv", s.shadersPath ++ "hbao/blur.frag.spv",
          s.shadersPath ++ "hbao/gbuffer.vert.spv", s.shadersPath ++ "hbao/gbuffer.frag.spv" ] ∧
      sp.device = s.device ++
        (prepareOffscreenFramebuffersCalls s.device.length s.width s.height (if s.ANDROID = true then s.width / 2 else s.width)
            (if s.ANDROID = true then s.height / 2 else s.height) fmt ++
          ((List.range s.maxConcurrentFrames).flatMap (fun _ => prepareBuffersFrameCalls) ++
            (setupDescriptorsLayoutCalls s.maxConcurrentFrames ++
              ((List.range s.maxConcurrentFrames).flatMap (fun i =>
                  setupDescriptorsFrameCalls
                    { descriptorPool := sp.descriptorPool, descriptorSetCount := 1, pSetLayouts := [] }
                    { sampler := sp.colorSampler, imageView := sp.frameBuffers.offscreen.position.view,
                      imageLayout := VK_IMAGE_LAYOUT_SHADER_READ_ONLY_OPTIMAL }
                    { sampler := sp.colorSampler, imageView := sp.frameBuffers.offscreen.normal.view,
                      imageLayout := VK_IMAGE_LAYOUT_SHADER_READ_ONLY_OPTIMAL }
                    { sampler := sp.colorSampler, imageView := sp.frameBuffers.offscreen.albedo.view,
                      imageLayout := VK_IMAGE_LAYOUT_SHADER_READ_ONLY_OPTIMAL }
                    { sampler := sp.colorSampler, imageView := sp.frameBuffers.hbao.color.view,
                      imageLayout := VK_IMAGE_LAYOUT_SHADER_READ_ONLY_OPTIMAL }
                    { sampler := sp.colorSampler, imageView := sp.frameBuffers.hbaoBlur.color.view,
                      imageLayout := VK_IMAGE_LAYOUT_SHADER_READ_ONLY_OPTIMAL }
                    sp.descriptorSetLayouts (sp.uniformBuffers i)
                    (s.device.length + 31 + 3 * s.maxConcurrentFrames + 5 + 8 * i)) ++
                pipes)))) := by
  rw [hbao_prepare_eq s fmt hD] at hsp
  cases hsp
  obtain ⟨pipes, hpipes, hlen, -, hk, hf⟩ := hbao_preparePipelines_kinds (setupDescriptors (prepareBuffers
      { s with
        device := s.device ++
          prepareOffscreenFramebuffersCalls s.device.length s.width s.height (if s.ANDROID = true then s.width / 2 else s.width)
            (if s.ANDROID = true then s.height / 2 else s.height) fmt,
        frameBuffers :=
          prepareOffscreenFramebuffersResult s.device.length s.width s.height (if s.ANDROID = true then s.width / 2 else s.width)
            (if s.ANDROID = true then s.height / 2 else s.height) fmt,
        colorSampler := s.device.length + 31 }))
  have hpath : (setupDescriptors (prepareBuffers
      { s with
        device := s.device ++
          prepareOffscreenFramebuffersCalls s.device.length s.width s.height (if s.ANDROID = true then s.width / 2 else s.width)
            (if s.ANDROID = true then s.height / 2 else s.height) fmt,
        frameBuffers :=
          prepareOffscreenFramebuffersResult s.device.length s.width s.height (if s.ANDROID = true then s.width / 2 else s.width)
            (if s.ANDROID = true then s.height / 2 else s.height) fmt,
        colorSampler := s.device.length + 31 })).shadersPath = s.shadersPath := by
    simp only [hbao_setupDescriptors_eq, hbao_prepareBuffers_eq]
  rw [hpath] at hf
  refine ⟨pipes, hlen, hk, hf, ?_⟩
  dsimp only
  rw [hpipes]
  simp only [preparePipelines, hbao_setupDescriptors_eq, hbao_prepareBuffers_eq]
  simp only [List.length_append, hbao_prepareOffscreenFramebuffersCalls_length,
    List.length_flatMap_range (fun _ => prepareBuffersFrameCalls) 3 (fun _ => rfl),
    List.append_assoc, Nat.add_assoc]

theorem hbao_setupDescriptorsFrameCalls_length (ai : VkDescriptorSetAllocateInfo)
    (p nm a g b : VkDescriptorImageInfo) (layouts : DescriptorSetLayouts) (ub : UniformBuffers)
    (base : Nat) : (setupDescriptorsFrameCalls ai p nm a g b layouts ub base).length = 8 := rfl

theorem hbao_setupDescriptorsLayoutCalls_length (n : Nat) :
    (setupDescriptorsLayoutCalls n).length = 5 := rfl

/-- After `prepare`: the call behind handle number `k + 1` of the three
buffers of slot `i`. -/
theorem hbao_prepare_lookup_buffers (s sp : VulkanExample) (hsp : prepare s = some sp)
    (i k : Nat) (hi : i < s.maxConcurrentFrames) (hk : k < 3) :
    Device.lookup sp.device (s.device.length + 31 + 3 * i + (k + 1)) =
      prepareBuffersFrameCalls[k]? := by
  obtain ⟨fmt, hD⟩ := hbao_prepare_some s sp hsp
  obtain ⟨pipes, -, -, hdev⟩ := hbao_prepare_device s sp fmt hD hsp
  have hdev2 : sp.device =
      (s.device ++ prepareOffscreenFramebuffersCalls s.device.length s.width s.height (if s.ANDROID = true then s.width / 2 else s.width)
            (if s.ANDROID = true then s.height / 2 else s.height) fmt) ++
      ((List.range s.maxConcurrentFrames).flatMap (fun _ => prepareBuffersFrameCalls) ++
        (setupDescriptorsLayoutCalls s.maxConcurrentFrames ++
          ((List.range s.maxConcurrentFrames).flatMap (fun i =>
                  setupDescriptorsFrameCalls
                    { descriptorPool := sp.descriptorPool, descriptorSetCount := 1, pSetLayouts := [] }
                    { sampler := sp.colorSampler, imageView := sp.frameBuffers.offscreen.position.view,
                      imageLayout := VK_IMAGE_LAYOUT_SHADER_READ_ONLY_OPTIMAL }
                    { sampler := sp.colorSampler, imageView := sp.frameBuffers.offscreen.normal.view,
                      imageLayout := VK_IMAGE_LAYOUT_SHADER_READ_ONLY_OPTIMAL }
                    { sampler := sp.colorSampler, imageView := sp.frameBuffers.offscreen.albedo.view,
                      imageLayout := VK_IMAGE_LAYOUT_SHADER_READ_ONLY_OPTIMAL }
                    { sampler := sp.colorSampler, imageView := sp.frameBuffers.hbao.color.view,
                      imageLayout := VK_IMAGE_LAYOUT_SHADER_READ_ONLY_OPTIMAL }
                    { sampler := sp.colorSampler, imageView := sp.frameBuffers.hbaoBlur.color.view,
                      imageLayout := VK_IMAGE_LAYOUT_SHADER_READ_ONLY_OPTIMAL }
                    sp.descriptorSetLayouts (sp.uniformBuffers i)
                    (s.device.length + 31 + 3 * s.maxConcurrentFrames + 5 + 8 * i)) ++
            pipes))) := by
    rw [hdev]
    simp only [List.append_assoc]
  have hlen : (s.device ++ prepareOffscreenFramebuffersCalls s.device.length s.width s.height (if s.ANDROID = true then s.width / 2 else s.width)
            (if s.ANDROID = true then s.height / 2 else s.height) fmt).length = s.device.length + 31 := by
    simp [hbao_prepareOffscreenFramebuffersCalls_length]
  have hb := List.length_flatMap_range (fun _ => prepareBuffersFrameCalls) 3 (fun _ => rfl)
    s.maxConcurrentFrames
  have hh : s.device.length + 31 + 3 * i + (k + 1) =
      (s.device ++ prepareOffscreenFramebuffersCalls s.device.length s.width s.height (if s.ANDROID = true then s.width / 2 else s.width)
            (if s.ANDROID = true then s.height / 2 else s.height) fmt).length + ((3 * i + k) + 1) := by
    rw [hlen]
    omega
  rw [hdev2, hh, Device.lookup_block _ _ _ _ (by rw [hb]; omega)]
  exact List.getElem?_flatMap_range (fun _ => prepareBuffersFrameCalls) 3 (fun _ => rfl)
    s.maxConcurrentFrames i k hi hk

/-- After `prepare`: the call behind handle number `k + 1` of the descriptor
pool and the four descriptor-set layouts. -/
theorem hbao_prepare_lookup_layouts (s sp : VulkanExample) (hsp : prepare s = some sp)
    (k : Nat) (hk : k < 5) :
    Device.lookup sp.device (s.device.length + 31 + 3 * s.maxConcurrentFrames + (k + 1)) =
      (setupDescriptorsLayoutCalls s.maxConcurrentFrames)[k]? := by
  obtain ⟨fmt, hD⟩ := hbao_prepare_some s sp hsp
  obtain ⟨pipes, -, -, hdev⟩ := hbao_prepare_device s sp fmt hD hsp
  have hdev2 : sp.device =
      (s.device ++ prepareOffscreenFramebuffersCalls s.device.length s.width s.height (if s.ANDROID = true then s.width / 2 else s.width)
            (if s.ANDROID = true then s.height / 2 else s.height) fmt ++
        (List.range s.maxConcurrentFrames).flatMap (fun _ => prepareBuffersFrameCalls)) ++
      (setupDescriptorsLayoutCalls s.maxConcurrentFrames ++
        ((List.range s.maxConcurrentFrames).flatMap (fun i =>
                  setupDescriptorsFrameCalls
                    { descriptorPool := sp.descriptorPool, descriptorSetCount := 1, pSetLayouts := [] }
                    { sampler := sp.colorSampler, imageView := sp.frameBuffers.offscreen.position.view,
                      imageLayout := VK_IMAGE_LAYOUT_SHADER_READ_ONLY_OPTIMAL }
                    { sampler := sp.colorSampler, imageView := sp.frameBuffers.offscreen.normal.view,
                      imageLayout := VK_IMAGE_LAYOUT_SHADER_READ_ONLY_OPTIMAL }
                    { sampler := sp.colorSampler, imageView := sp.frameBuffers.offscreen.albedo.view,
                      imageLayout := VK_IMAGE_LAYOUT_SHADER_READ_ONLY_OPTIMAL }
                    { sampler := sp.colorSampler, imageView := sp.frameBuffers.hbao.color.view,
                      imageLayout := VK_IMAGE_LAYOUT_SHADER_READ_ONLY_OPTIMAL }
                    { sampler := sp.colorSampler, imageView := sp.frameBuffers.hbaoBlur.color.view,
                      imageLayout := VK_IMAGE_LAYOUT_SHADER_READ_ONLY_OPTIMAL }
                    sp.descriptorSetLayouts (sp.uniformBuffers i)
                    (s.device.length + 31 + 3 * s.maxConcurrentFrames + 5 + 8 * i)) ++
          pipes)) := by
    rw [hdev]
    simp only [List.append_assoc]
  have hb := List.length_flatMap_range (fun _ => prepareBuffersFrameCalls) 3 (fun _ => rfl)
    s.maxConcurrentFrames
  have hlen : (s.device ++ prepareOffscreenFramebuffersCalls s.device.length s.width s.height (if s.ANDROID = true then s.width / 2 else s.width)
            (if s.ANDROID = true then s.height / 2 else s.height) fmt ++
      (List.range s.maxConcurrentFrames).flatMap (fun _ => prepareBuffersFrameCalls)).length =
        s.device.length + 31 + 3 * s.maxConcurrentFrames := by
    simp only [List.length_append, hbao_prepareOffscreenFramebuffersCalls_length, hb]
  rw [hdev2, ← hlen]
  exact Device.lookup_block _ _ _ _ hk

/-- After `prepare`: the call behind handle number `k + 1` of the eight calls
`setupDescriptors` makes for slot `i`. -/
theorem hbao_prepare_lookup_frames (s sp : VulkanExample) (hsp : prepare s = some sp)
    (i k : Nat) (hi : i < s.maxConcurrentFrames) (hk : k < 8) :
    Device.lookup sp.device
        (s.device.length + 31 + 3 * s.maxConcurrentFrames + 5 + 8 * i + (k + 1)) =
      (setupDescriptorsFrameCalls
          { descriptorPool := sp.descriptorPool, descriptorSetCount := 1, pSetLayouts := [] }
          { sampler := sp.colorSampler, imageView := sp.frameBuffers.offscreen.position.view,
            imageLayout := VK_IMAGE_LAYOUT_SHADER_READ_ONLY_OPTIMAL }
          { sampler := sp.colorSampler, imageView := sp.frameBuffers.offscreen.normal.view,
            imageLayout := VK_IMAGE_LAYOUT_SHADER_READ_ONLY_OPTIMAL }
          { sampler := sp.colorSampler, imageView := sp.frameBuffers.offscreen.albedo.view,
            imageLayout := VK_IMAGE_LAYOUT_SHADER_READ_ONLY_OPTIMAL }
          { sampler := sp.colorSampler, imageView := sp.frameBuffers.hbao.color.view,
            imageLayout := VK_IMAGE_LAYOUT_SHADER_READ_ONLY_OPTIMAL }
          { sampler := sp.colorSampler, imageView := sp.frameBuffers.hbaoBlur.color.view,
            imageLayout := VK_IMAGE_LAYOUT_SHADER_READ_ONLY_OPTIMAL }
          sp.descriptorSetLayouts (sp.uniformBuffers i)
          (s.device.length + 31 + 3 * s.maxConcurrentFrames + 5 + 8 * i))[k]? := by
  obtain ⟨fmt, hD⟩ := hbao_prepare_some s sp hsp
  obtain ⟨pipes, -, -, hdev⟩ := hbao_prepare_device s sp fmt hD hsp
  have hdev2 : sp.device =
      (s.device ++ prepareOffscreenFramebuffersCalls s.device.length s.width s.height (if s.ANDROID = true then s.width / 2 else s.width)
            (if s.ANDROID = true then s.height / 2 else s.height) fmt ++
        (List.range s.maxConcurrentFrames).flatMap (fun _ => prepareBuffersFrameCalls) ++
        setupDescriptorsLayoutCalls s.maxConcurrentFrames) ++
      ((List.range s.maxConcurrentFrames).flatMap (fun i =>
                  setupDescriptorsFrameCalls
                    { descriptorPool := sp.descriptorPool, descriptorSetCount := 1, pSetLayouts := [] }
                    { sampler := sp.colorSampler, imageView := sp.frameBuffers.offscreen.position.view,
                      imageLayout := VK_IMAGE_LAYOUT_SHADER_READ_ONLY_OPTIMAL }
                    { sampler := sp.colorSampler, imageView := sp.frameBuffers.offscreen.normal.view,
                      imageLayout := VK_IMAGE_LAYOUT_SHADER_READ_ONLY_OPTIMAL }
                    { sampler := sp.colorSampler, imageView := sp.frameBuffers.offscreen.albedo.view,
                      imageLayout := VK_IMAGE_LAYOUT_SHADER_READ_ONLY_OPTIMAL }
                    { sampler := sp.colorSampler, imageView := sp.frameBuffers.hbao.color.view,
                      imageLayout := VK_IMAGE_LAYOUT_SHADER_READ_ONLY_OPTIMAL }
                    { sampler := sp.colorSampler, imageView := sp.frameBuffers.hbaoBlur.color.view,
                      imageLayout := VK_IMAGE_LAYOUT_SHADER_READ_ONLY_OPTIMAL }
                    sp.descriptorSetLayouts (sp.uniformBuffers i)
                    (s.device.length + 31 + 3 * s.maxConcurrentFrames + 5 + 8 * i)) ++
          pipes) := by
    rw [hdev]
    simp only [List.append_assoc]
  have hb := List.length_flatMap_range (fun _ => prepareBuffersFrameCalls) 3 (fun _ => rfl)
    s.maxConcurrentFrames
  have hlen : (s.device ++ prepareOffscreenFramebuffersCalls s.device.length s.width s.height (if s.ANDROID = true then s.width / 2 else s.width)
            (if s.ANDROID = true then s.height / 2 else s.height) fmt ++
      (List.range s.maxConcurrentFrames).flatMap (fun _ => prepareBuffersFrameCalls) ++
      setupDescriptorsLayoutCalls s.maxConcurrentFrames).length =
        s.device.length + 31 + 3 * s.maxConcurrentFrames + 5 := by
    simp only [List.length_append, hbao_prepareOffscreenFramebuffersCalls_length, hb,
      hbao_setupDescriptorsLayoutCalls_length]
  have hf := List.length_flatMap_range (fun i =>
    setupDescriptorsFrameCalls
          { descriptorPool := sp.descriptorPool, descriptorSetCount := 1, pSetLayouts := [] }
          { sampler := sp.colorSampler, imageView := sp.frameBuffers.offscreen.position.view,
            imageLayout := VK_IMAGE_LAYOUT_SHADER_READ_ONLY_OPTIMAL }
          { sampler := sp.colorSampler, imageView := sp.frameBuffers.offscreen.normal.view,
            imageLayout := VK_IMAGE_LAYOUT_SHADER_READ_ONLY_OPTIMAL }
          { sampler := sp.colorSampler, imageView := sp.frameBuffers.offscreen.albedo.view,
            imageLayout := VK_IMAGE_LAYOUT_SHADER_READ_ONLY_OPTIMAL }
          { sampler := sp.colorSampler, imageView := sp.frameBuffers.hbao.color.view,
            imageLayout := VK_IMAGE_LAYOUT_SHADER_READ_ONLY_OPTIMAL }
          { sampler := sp.colorSampler, imageView := sp.frameBuffers.hbaoBlur.color.view,
            imageLayout := VK_IMAGE_LAYOUT_SHADER_READ_ONLY_OPTIMAL }
          sp.descriptorSetLayouts (sp.uniformBuffers i)
          (s.device.length + 31 + 3 * s.maxConcurrentFrames + 5 + 8 * i)) 8 (fun _ => rfl) s.maxConcurrentFrames
  have hh : s.device.length + 31 + 3 * s.maxConcurrentFrames + 5 + 8 * i + (k + 1) =
      (s.device ++ prepareOffscreenFramebuffersCalls s.device.length s.width s.height (if s.ANDROID = true then s.width / 2 else s.width)
            (if s.ANDROID = true then s.height / 2 else s.height) fmt ++
        (List.range s.maxConcurrentFrames).flatMap (fun _ => prepareBuffersFrameCalls) ++
        setupDescriptorsLayoutCalls s.maxConcurrentFrames).length + ((8 * i + k) + 1) := by
    rw [hlen]
    omega
  rw [hdev2, hh, Device.lookup_block _ _ _ _ (by rw [hf]; omega)]
  exact List.getElem?_flatMap_range (fun i =>
    setupDescriptorsFrameCalls
          { descriptorPool := sp.descriptorPool, descriptorSetCount := 1, pSetLayouts := [] }
          { sampler := sp.colorSampler, imageView := sp.frameBuffers.offscreen.position.view,
            imageLayout := VK_IMAGE_LAYOUT_SHADER_READ_ONLY_OPTIMAL }
          { sampler := sp.colorSampler, imageView := sp.frameBuffers.offscreen.normal.view,
            imageLayout := VK_IMAGE_LAYOUT_SHADER_READ_ONLY_OPTIMAL }
          { sampler := sp.colorSampler, imageView := sp.frameBuffers.offscreen.albedo.view,
            imageLayout := VK_IMAGE_LAYOUT_SHADER_READ_ONLY_OPTIMAL }
          { sampler := sp.colorSampler, imageView := sp.frameBuffers.hbao.color.view,
            imageLayout := VK_IMAGE_LAYOUT_SHADER_READ_ONLY_OPTIMAL }
          { sampler := sp.colorSampler, imageView := sp.frameBuffers.hbaoBlur.color.view,
            imageLayout := VK_IMAGE_LAYOUT_SHADER_READ_ONLY_OPTIMAL }
          sp.descriptorSetLayouts (sp.uniformBuffers i)
          (s.device.length + 31 + 3 * s.maxConcurrentFrames + 5 + 8 * i)) 8 (fun _ => rfl)
    s.maxConcurrentFrames i k hi hk

/-- After `prepare`: the allocate-infos of the four descriptor sets of slot
`i`. -/
theorem hbao_prepare_sets (s sp : VulkanExample) (hsp : prepare s = some sp)
    (i : Nat) (hi : i < s.maxConcurrentFrames) :
    Device.descriptorSetInfo sp.device (sp.descriptorSets i).gBuffer =
      some { descriptorPool := sp.descriptorPool, descriptorSetCount := 1,
             pSetLayouts := [sp.descriptorSetLayouts.gBuffer] } ∧
    Device.descriptorSetInfo sp.device (sp.descriptorSets i).hbao =
      some { descriptorPool := sp.descriptorPool, descriptorSetCount := 1,
             pSetLayouts := [sp.descriptorSetLayouts.hbao] } ∧
    Device.descriptorSetInfo sp.device (sp.descriptorSets i).hbaoBlur =
      some { descriptorPool := sp.descriptorPool, descriptorSetCount := 1,
             pSetLayouts := [sp.descriptorSetLayouts.hbaoBlur] } ∧
    Device.descriptorSetInfo sp.device (sp.descriptorSets i).composition =
      some { descriptorPool := sp.descriptorPool, descriptorSetCount := 1,
             pSetLayouts := [sp.descriptorSetLayouts.composition] } := by
  obtain ⟨-, hds⟩ := hbao_prepare_handles s sp hsp
  have k0 := hbao_prepare_lookup_frames s sp hsp i 0 hi (by omega)
  have k2 := hbao_prepare_lookup_frames s sp hsp i 2 hi (by omega)
  have k4 := hbao_prepare_lookup_frames s sp hsp i 4 hi (by omega)
  have k6 := hbao_prepare_lookup_frames s sp hsp i 6 hi (by omega)
  rw [hds i hi]
  unfold Device.descriptorSetInfo
  simp only [setupDescriptorsFrameSets]
  refine ⟨?_, ?_, ?_, ?_⟩
  · rw [k0]; rfl
  · rw [k2]; rfl
  · rw [k4]; rfl
  · rw [k6]; rfl

/-- After `prepare`: the create-infos of the descriptor pool and of the four
descriptor-set layouts. -/
theorem hbao_prepare_setLayouts (s sp : VulkanExample) (hsp : prepare s = some sp) :
    Device.descriptorPoolInfo sp.device sp.descriptorPool =
      some { pPoolSizes :=
               [ { type := VK_DESCRIPTOR_TYPE_UNIFORM_BUFFER,
                   descriptorCount := s.maxConcurrentFrames * 4 % UINT32_RANGE },
                 { type := VK_DESCRIPTOR_TYPE_COMBINED_IMAGE_SAMPLER,
                   descriptorCount := s.maxConcurrentFrames * 9 % UINT32_RANGE } ],
             maxSets := s.maxConcurrentFrames * 4 % UINT32_RANGE } ∧
    Device.descriptorSetLayoutInfo sp.device sp.descriptorSetLayouts.gBuffer =
      some { pBindings :=
        [ { descriptorType := VK_DESCRIPTOR_TYPE_UNIFORM_BUFFER,
            stageFlags := VK_SHADER_STAGE_VERTEX_BIT ||| VK_SHADER_STAGE_FRAGMENT_BIT, binding := 0, descriptorCount := 1 } ] } ∧
    Device.descriptorSetLayoutInfo sp.device sp.descriptorSetLayouts.hbao =
      some { pBindings :=
        [ { descriptorType := VK_DESCRIPTOR_TYPE_COMBINED_IMAGE_SAMPLER, stageFlags := VK_SHADER_STAGE_FRAGMENT_BIT, binding := 0, descriptorCount := 1 },
          { descriptorType := VK_DESCRIPTOR_TYPE_COMBINED_IMAGE_SAMPLER, stageFlags := VK_SHADER_STAGE_FRAGMENT_BIT, binding := 1, descriptorCount := 1 },
          { descriptorType := VK_DESCRIPTOR_TYPE_UNIFORM_BUFFER, stageFlags := VK_SHADER_STAGE_FRAGMENT_BIT, binding := 2, descriptorCount := 1 },
          { descriptorType := VK_DESCRIPTOR_TYPE_UNIFORM_BUFFER, stageFlags := VK_SHADER_STAGE_FRAGMENT_BIT, binding := 3, descriptorCount := 1 } ] } ∧
    Device.descriptorSetLayoutInfo sp.device sp.descriptorSetLayouts.hbaoBlur =
      some { pBindings :=
        [ { descriptorType := VK_DESCRIPTOR_TYPE_COMBINED_IMAGE_SAMPLER, stageFlags := VK_SHADER_STAGE_FRAGMENT_BIT, binding := 0, descriptorCount := 1 } ] } ∧
    Device.descriptorSetLayoutInfo sp.device sp.descriptorSetLayouts.composition =
      some { pBindings :=
        [ { descriptorType := VK_DESCRIPTOR_TYPE_COMBINED_IMAGE_SAMPLER, stageFlags := VK_SHADER_STAGE_FRAGMENT_BIT, binding := 0, descriptorCount := 1 },
          { descriptorType := VK_DESCRIPTOR_TYPE_COMBINED_IMAGE_SAMPLER, stageFlags := VK_SHADER_STAGE_FRAGMENT_BIT, binding := 1, descriptorCount := 1 },
          { descriptorType := VK_DESCRIPTOR_TYPE_COMBINED_IMAGE_SAMPLER, stageFlags := VK_SHADER_STAGE_FRAGMENT_BIT, binding := 2, descriptorCount := 1 },
          { descriptorType := VK_DESCRIPTOR_TYPE_COMBINED_IMAGE_SAMPLER, stageFlags := VK_SHADER_STAGE_FRAGMENT_BIT, binding := 3, descriptorCount := 1 },
          { descriptorType := VK_DESCRIPTOR_TYPE_COMBINED_IMAGE_SAMPLER, stageFlags := VK_SHADER_STAGE_FRAGMENT_BIT, binding := 4, descriptorCount := 1 },
          { descriptorType := VK_DESCRIPTOR_TYPE_UNIFORM_BUFFER, stageFlags := VK_SHADER_STAGE_FRAGMENT_BIT, binding := 5, descriptorCount := 1 } ] } := by
  obtain ⟨hp, hl, -, -, -⟩ := hbao_prepare_layouts s sp hsp
  have k0 := hbao_prepare_lookup_layouts s sp hsp 0 (by omega)
  have k1 := hbao_prepare_lookup_layouts s sp hsp 1 (by omega)
  have k2 := hbao_prepare_lookup_layouts s sp hsp 2 (by omega)
  have k3 := hbao_prepare_lookup_layouts s sp hsp 3 (by omega)
  have k4 := hbao_prepare_lookup_layouts s sp hsp 4 (by omega)
  rw [hp, hl]
  unfold Device.descriptorPoolInfo Device.descriptorSetLayoutInfo
  refine ⟨?_, ?_, ?_, ?_, ?_⟩
  · rw [k0]; rfl
  · rw [k1]; rfl
  · rw [k2]; rfl
  · rw [k3]; rfl
  · rw [k4]; rfl

/-- After `prepare`: what the three uniform buffers of slot `i` were created
with. -/
theorem hbao_prepare_buffers (s sp : VulkanExample) (hsp : prepare s = some sp)
    (i : Nat) (hi : i < s.maxConcurrentFrames) :
    Device.bufferInfo sp.device (sp.uniformBuffers i).sceneParams.buffer =
      some (VK_BUFFER_USAGE_UNIFORM_BUFFER_BIT,
        VK_MEMORY_PROPERTY_HOST_VISIBLE_BIT ||| VK_MEMORY_PROPERTY_HOST_COHERENT_BIT,
        sizeof_uboSceneParams) ∧
    Device.bufferInfo sp.device (sp.uniformBuffers i).hbaoParams.buffer =
      some (VK_BUFFER_USAGE_UNIFORM_BUFFER_BIT,
        VK_MEMORY_PROPERTY_HOST_VISIBLE_BIT ||| VK_MEMORY_PROPERTY_HOST_COHERENT_BIT,
        sizeof_uboHBAOParams) ∧
    Device.bufferInfo sp.device (sp.uniformBuffers i).hbaoSettings.buffer =
      some (VK_BUFFER_USAGE_UNIFORM_BUFFER_BIT,
        VK_MEMORY_PROPERTY_HOST_VISIBLE_BIT ||| VK_MEMORY_PROPERTY_HOST_COHERENT_BIT,
        sizeof_uboHBAOSettings) := by
  obtain ⟨hub, -⟩ := hbao_prepare_handles s sp hsp
  have k0 := hbao_prepare_lookup_buffers s sp hsp i 0 hi (by omega)
  have k1 := hbao_prepare_lookup_buffers s sp hsp i 1 hi (by omega)
  have k2 := hbao_prepare_lookup_buffers s sp hsp i 2 hi (by omega)
  rw [hub i hi]
  unfold Device.bufferInfo
  simp only [prepareBuffersFrameBuffers]
  refine ⟨?_, ?_, ?_⟩
  · rw [k0]; rfl
  · rw [k1]; rfl
  · rw [k2]; rfl

/-- The sampler, the views and the images of the six attachments in the log
`prepareOffscreenFramebuffers` leaves. -/
theorem hbao_offscreenCalls_attachments (d : Device) (width height hbaoWidth hbaoHeight : Nat)
    (fmt : VkFormat) :
    let log := d ++ prepareOffscreenFramebuffersCalls d.length width height hbaoWidth hbaoHeight fmt
    let fb := prepareOffscreenFramebuffersResult d.length width height hbaoWidth hbaoHeight fmt
    Device.samplerInfo log (d.length + 31) =
      some { magFilter := VK_FILTER_NEAREST,
             minFilter := VK_FILTER_NEAREST,
             mipmapMode := VK_SAMPLER_MIPMAP_MODE_LINEAR,
             addressModeU := VK_SAMPLER_ADDRESS_MODE_CLAMP_TO_EDGE,
             addressModeV := VK_SAMPLER_ADDRESS_MODE_CLAMP_TO_EDGE,
             addressModeW := VK_SAMPLER_ADDRESS_MODE_CLAMP_TO_EDGE,
             mipLodBias := F32.lit 0 1,
             maxAnisotropy := F32.lit 1 1,
             minLod := F32.lit 0 1,
             maxLod := F32.lit 1 1,
             borderColor := VK_BORDER_COLOR_FLOAT_OPAQUE_WHITE } ∧
    (∀ a ∈ [ fb.offscreen.position, fb.offscreen.normal, fb.offscreen.albedo, fb.hbao.color,
             fb.hbaoBlur.color ],
      (Device.imageViewInfo log a.view).map (fun v => v.image) = some a.image ∧
      (Device.imageInfo log a.image).map (fun i => i.usage) =
        some (VK_IMAGE_USAGE_COLOR_ATTACHMENT_BIT ||| VK_IMAGE_USAGE_SAMPLED_BIT)) ∧
    (Device.imageViewInfo log fb.offscreen.depth.view).map (fun v => v.image) =
      some fb.offscreen.depth.image ∧
    (Device.imageInfo log fb.offscreen.depth.image).map (fun i => i.usage) =
      some (VK_IMAGE_USAGE_DEPTH_STENCIL_ATTACHMENT_BIT ||| VK_IMAGE_USAGE_SAMPLED_BIT) := by
  simp [Device.imageInfo, Device.imageViewInfo, Device.samplerInfo,
    prepareOffscreenFramebuffersResult,
    prepareOffscreenFramebuffersCalls, createAttachmentCalls, createAttachmentResult,
    Device.lookup_append_new, Nat.add_assoc]

/-- After `prepare`: the create-info of the sampler, and the image and the
usage behind the view of each attachment. -/
theorem hbao_prepare_attachments (s sp : VulkanExample) (hsp : prepare s = some sp) :
    Device.samplerInfo sp.device sp.colorSampler =
      some { magFilter := VK_FILTER_NEAREST,
             minFilter := VK_FILTER_NEAREST,
             mipmapMode := VK_SAMPLER_MIPMAP_MODE_LINEAR,
             addressModeU := VK_SAMPLER_ADDRESS_MODE_CLAMP_TO_EDGE,
             addressModeV := VK_SAMPLER_ADDRESS_MODE_CLAMP_TO_EDGE,
             addressModeW := VK_SAMPLER_ADDRESS_MODE_CLAMP_TO_EDGE,
             mipLodBias := F32.lit 0 1,
             maxAnisotropy := F32.lit 1 1,
             minLod := F32.lit 0 1,
             maxLod := F32.lit 1 1,
             borderColor := VK_BORDER_COLOR_FLOAT_OPAQUE_WHITE } ∧
    (∀ a ∈ [ sp.frameBuffers.offscreen.position, sp.frameBuffers.offscreen.normal,
             sp.frameBuffers.offscreen.albedo, sp.frameBuffers.hbao.color,
             sp.frameBuffers.hbaoBlur.color ],
      (Device.imageViewInfo sp.device a.view).map (fun v => v.image) = some a.image ∧
      (Device.imageInfo sp.device a.image).map (fun i => i.usage) =
        some (VK_IMAGE_USAGE_COLOR_ATTACHMENT_BIT ||| VK_IMAGE_USAGE_SAMPLED_BIT)) ∧
    (Device.imageViewInfo sp.device sp.frameBuffers.offscreen.depth.view).map (fun v => v.image) =
      some sp.frameBuffers.offscreen.depth.image ∧
    (Device.imageInfo sp.device sp.frameBuffers.offscreen.depth.image).map (fun i => i.usage) =
      some (VK_IMAGE_USAGE_DEPTH_STENCIL_ATTACHMENT_BIT ||| VK_IMAGE_USAGE_SAMPLED_BIT) := by
  obtain ⟨fmt, hD⟩ := hbao_prepare_some s sp hsp
  obtain ⟨-, hfb, hcs, -, -⟩ := hbao_prepare_state s sp fmt hD hsp
  have hl := fun h hh => hbao_prepare_lookup s sp fmt hD hsp h hh
  obtain ⟨c1, c2, c3, c4⟩ :=
    hbao_offscreenCalls_attachments s.device s.width s.height (if s.ANDROID = true then s.width / 2 else s.width)
            (if s.ANDROID = true then s.height / 2 else s.height) fmt
  rw [hfb, hcs]
  refine ⟨?_, ?_, ?_, ?_⟩
  · unfold Device.samplerInfo at c1 ⊢
    rw [hl _ (by omega)]
    exact c1
  · intro a ha
    obtain ⟨v1, v2⟩ := c2 a ha
    have hv : a.view ≤ s.device.length + 31 := by
      simp only [prepareOffscreenFramebuffersResult, createAttachmentResult, List.mem_cons,
        List.mem_singleton, List.not_mem_nil, or_false] at ha
      rcases ha with rfl | rfl | rfl | rfl | rfl <;> simp only [] <;> omega
    have hi : a.image ≤ s.device.length + 31 := by
      simp only [prepareOffscreenFramebuffersResult, createAttachmentResult, List.mem_cons,
        List.mem_singleton, List.not_mem_nil, or_false] at ha
      rcases ha with rfl | rfl | rfl | rfl | rfl <;> simp only [] <;> omega
    unfold Device.imageViewInfo at v1
    unfold Device.imageInfo at v2
    unfold Device.imageViewInfo Device.imageInfo
    rw [hl _ hv, hl _ hi]
    exact ⟨v1, v2⟩
  · unfold Device.imageViewInfo at c3 ⊢
    rw [hl _ (by simp only [prepareOffscreenFramebuffersResult, createAttachmentResult]; omega)]
    exact c3
  · unfold Device.imageInfo at c4 ⊢
    rw [hl _ (by simp only [prepareOffscreenFramebuffersResult, createAttachmentResult]; omega)]
    exact c4

/-- For each pass `buildCommandBuffer` records: its render pass and
framebuffer, the pipeline in force at each draw, the descriptor-set binds and
the descriptor sets bound. -/
theorem hbao_frame_bindings (s : VulkanExample) :
    (recordedPasses (buildCommandBuffer s).2).map
        (fun p => (p.beginInfo.renderPass, p.beginInfo.framebuffer,
          (recordedDraws p.body).map (fun d => d.1.pipeline), recordedBinds p.body,
          boundDescriptorSets p.body)) =
      [ (s.frameBuffers.offscreen.renderPass, s.frameBuffers.offscreen.frameBuffer,
          [some s.pipelines.offscreen],
          [(s.pipelineLayouts.gBuffer, 0, [(s.descriptorSets s.currentBuffer).gBuffer])],
          [(s.descriptorSets s.currentBuffer).gBuffer]),
        (s.frameBuffers.hbao.renderPass, s.frameBuffers.hbao.frameBuffer,
          [some s.pipelines.hbao],
          [(s.pipelineLayouts.hbao, 0, [(s.descriptorSets s.currentBuffer).hbao])],
          [(s.descriptorSets s.currentBuffer).hbao]),
        (s.frameBuffers.hbaoBlur.renderPass, s.frameBuffers.hbaoBlur.frameBuffer,
          [some s.pipelines.hbaoBlur],
          [(s.pipelineLayouts.hbaoBlur, 0, [(s.descriptorSets s.currentBuffer).hbaoBlur])],
          [(s.descriptorSets s.currentBuffer).hbaoBlur]),
        (s.renderPass, s.swapChainFrameBuffers s.currentImageIndex,
          [some s.pipelines.composition],
          [(s.pipelineLayouts.composition, 0, [(s.descriptorSets s.currentBuffer).composition])],
          [(s.descriptorSets s.currentBuffer).composition]) ] := by
  rw [hbao_buildCommandBuffer_cmds]
  rfl

/-- The handles of the objects the calls of `prepareOffscreenFramebuffers`
create, kind by kind. -/
theorem hbao_offscreenCalls_created (base width height hbaoWidth hbaoHeight : Nat)
    (fmt : VkFormat) :
    let calls := prepareOffscreenFramebuffersCalls base width height hbaoWidth hbaoHeight fmt
    createdFrom ObjectKind.image calls (base + 1) =
      [base + 1, base + 5, base + 9, base + 13, base + 17, base + 21] ∧
    createdFrom ObjectKind.imageView calls (base + 1) =
      [base + 4, base + 8, base + 12, base + 16, base + 20, base + 24] ∧
    createdFrom ObjectKind.memory calls (base + 1) =
      [base + 2, base + 6, base + 10, base + 14, base + 18, base + 22] ∧
    createdFrom ObjectKind.framebuffer calls (base + 1) = [base + 26, base + 28, base + 30] ∧
    createdFrom ObjectKind.renderPass calls (base + 1) = [base + 25, base + 27, base + 29] ∧
    createdFrom ObjectKind.sampler calls (base + 1) = [base + 31] := by
  simp [createdFrom, prepareOffscreenFramebuffersCalls, createAttachmentCalls, Call.kind,
    Nat.add_assoc]

/-- The only sampler `prepare` creates is `colorSampler`. -/
theorem hbao_prepare_samplers (s sp : VulkanExample) (hsp : prepare s = some sp) :
    Device.created s.device sp.device ObjectKind.sampler = [sp.colorSampler] := by
  obtain ⟨fmt, hD⟩ := hbao_prepare_some s sp hsp
  obtain ⟨-, -, hcs, -, -⟩ := hbao_prepare_state s sp fmt hD hsp
  obtain ⟨pipes, -, hk, -, hdev⟩ := hbao_prepare_log s sp fmt hD hsp
  obtain ⟨-, -, -, -, -, h6⟩ :=
    hbao_offscreenCalls_created s.device.length s.width s.height (if s.ANDROID = true then s.width / 2 else s.width)
            (if s.ANDROID = true then s.height / 2 else s.height) fmt
  have hB : ∀ h, createdFrom ObjectKind.sampler
      ((List.range s.maxConcurrentFrames).flatMap (fun _ => prepareBuffersFrameCalls)) h = [] := by
    intro h
    apply createdFrom_of_none
    intro c hc
    obtain ⟨i, -, hci⟩ := List.mem_flatMap.mp hc
    simp only [prepareBuffersFrameCalls, List.mem_cons, List.mem_singleton, List.not_mem_nil,
      or_false] at hci
    rcases hci with rfl | rfl | rfl <;> simp [Call.kind]
  have hC : ∀ h, createdFrom ObjectKind.sampler
      (setupDescriptorsLayoutCalls s.maxConcurrentFrames) h = [] := by
    intro h
    simp [createdFrom, setupDescriptorsLayoutCalls, Call.kind]
  have hF : ∀ (f : Nat → VkDescriptorSetAllocateInfo) (p nm a g b : VkDescriptorImageInfo)
      (l : DescriptorSetLayouts) (ub : Nat → UniformBuffers) (base : Nat → Nat) (h : Nat),
      createdFrom ObjectKind.sampler ((List.range s.maxConcurrentFrames).flatMap (fun i =>
        setupDescriptorsFrameCalls (f i) p nm a g b l (ub i) (base i))) h = [] := by
    intro f p nm a g b l ub base h
    apply createdFrom_of_none
    intro c hc
    obtain ⟨i, -, hci⟩ := List.mem_flatMap.mp hc
    simp only [setupDescriptorsFrameCalls, List.mem_cons, List.mem_singleton, List.not_mem_nil,
      or_false] at hci
    rcases hci with rfl | rfl | rfl | rfl | rfl | rfl | rfl | rfl <;> simp [Call.kind]
  have hP : ∀ h, createdFrom ObjectKind.sampler pipes h = [] := by
    intro h
    apply createdFrom_of_none
    intro c hc
    have hm : c.kind ∈ pipes.map Call.kind := List.mem_map_of_mem _ hc
    rw [hk] at hm
    intro he
    rw [he] at hm
    simp at hm
  rw [hdev, Device.created_append, createdFrom_append, createdFrom_append, createdFrom_append,
    createdFrom_append, h6, hB, hC, hP, hcs]
  rw [hF (fun _ => _) _ _ _ _ _ _ _ (fun i => _)]
  rfl

end HBAO

namespace GTAO

/-- The buffers `prepareBuffers` creates, by handle, the uniform buffers it
leaves in slot `i`, and the call behind each of their handles. -/
theorem gtao_prepareBuffers_created (s : VulkanExample) :
    Device.created s.device (prepareBuffers s).device ObjectKind.buffer =
      (List.range s.maxConcurrentFrames).flatMap (fun i =>
        [ s.device.length + 3 * i + 1, s.device.length + 3 * i + 2,
          s.device.length + 3 * i + 3 ]) ∧
    (∀ i, i < s.maxConcurrentFrames →
      (prepareBuffers s).uniformBuffers i = prepareBuffersFrameBuffers (s.device.length + 3 * i)) ∧
    (∀ i k, i < s.maxConcurrentFrames → k < 3 →
      Device.lookup (prepareBuffers s).device (s.device.length + 3 * i + (k + 1)) =
        prepareBuffersFrameCalls[k]?) := by
  rw [gtao_prepareBuffers_eq s]
  dsimp only
  refine ⟨?_, ?_, ?_⟩
  · rw [Device.created_append,
      createdFrom_flatMap_range _ (fun _ => prepareBuffersFrameCalls) 3 (fun _ => rfl)]
    apply List.flatMap_congr
    intro i _
    simp [createdFrom, prepareBuffersFrameCalls, Call.kind, Nat.add_assoc]
    omega
  · intro i hi
    simp [hi]
  · intro i k hi hk
    have hh : s.device.length + 3 * i + (k + 1) = s.device.length + ((3 * i + k) + 1) := by omega
    rw [hh, Device.lookup_append_new]
    exact List.getElem?_flatMap_range (fun _ => prepareBuffersFrameCalls) 3 (fun _ => rfl)
      s.maxConcurrentFrames i k hi hk

/-- The descriptor sets `setupDescriptors` allocates, by handle, and the sets
it leaves in slot `i`. -/
theorem gtao_setupDescriptors_created (s : VulkanExample) :
    Device.created s.device (setupDescriptors s).device ObjectKind.descriptorSet =
      (List.range s.maxConcurrentFrames).flatMap (fun i =>
        [ s.device.length + 5 + 8 * i + 1, s.device.length + 5 + 8 * i + 3,
          s.device.length + 5 + 8 * i + 5, s.device.length + 5 + 8 * i + 7 ]) ∧
    (∀ i, i < s.maxConcurrentFrames →
      (setupDescriptors s).descriptorSets i =
        setupDescriptorsFrameSets (s.device.length + 5 + 8 * i)) := by
  rw [gtao_setupDescriptors_eq s]
  dsimp only
  refine ⟨?_, ?_⟩
  · rw [Device.created_append, createdFrom_append, gtao_setupDescriptorsLayoutCalls_length,
      createdFrom_flatMap_range _ _ 8
        (fun _ => gtao_setupDescriptorsFrameCalls_length _ _ _ _ _ _ _ _ _)]
    have h0 : createdFrom ObjectKind.descriptorSet
        (setupDescriptorsLayoutCalls s.maxConcurrentFrames) (s.device.length + 1) = [] := by
      simp [createdFrom, setupDescriptorsLayoutCalls, Call.kind]
    rw [h0, List.nil_append]
    apply List.flatMap_congr
    intro i _
    simp [createdFrom, setupDescriptorsFrameCalls, Call.kind, Nat.add_assoc]
    omega
  · intro i hi
    simp [hi]

/-- The descriptor pool `setupDescriptors` creates, the descriptor-set layouts
of the sets it allocates from the pool, and the create-infos of the four
layouts. -/
theorem gtao_setupDescriptors_pool (s : VulkanExample) :
    (setupDescriptors s).descriptorPool = s.device.length + 1 ∧
    Device.descriptorPoolInfo (setupDescriptors s).device (s.device.length + 1) =
      some { pPoolSizes :=
               [ { type := VK_DESCRIPTOR_TYPE_UNIFORM_BUFFER,
                   descriptorCount := s.maxConcurrentFrames * 4 % UINT32_RANGE },
                 { type := VK_DESCRIPTOR_TYPE_COMBINED_IMAGE_SAMPLER,
                   descriptorCount := s.maxConcurrentFrames * 9 % UINT32_RANGE } ],
             maxSets := s.maxConcurrentFrames * 4 % UINT32_RANGE } ∧
    ((setupDescriptors s).device.drop s.device.length).filterMap Call.allocateInfo =
      (List.range s.maxConcurrentFrames).flatMap (fun _ =>
        [ ({ descriptorPool := s.device.length + 1, descriptorSetCount := 1,
             pSetLayouts := [s.device.length + 2] } : VkDescriptorSetAllocateInfo),
          { descriptorPool := s.device.length + 1, descriptorSetCount := 1,
            pSetLayouts := [s.device.length + 3] },
          { descriptorPool := s.device.length + 1, descriptorSetCount := 1,
            pSetLayouts := [s.device.length + 4] },
          { descriptorPool := s.device.length + 1, descriptorSetCount := 1,
            pSetLayouts := [s.device.length + 5] } ]) ∧
    Device.layoutDescriptors (setupDescriptors s).device (s.device.length + 2) =
      (fun t => if t = VK_DESCRIPTOR_TYPE_UNIFORM_BUFFER then 1 else 0) ∧
    Device.layoutDescriptors (setupDescriptors s).device (s.device.length + 3) =
      (fun t => if t = VK_DESCRIPTOR_TYPE_UNIFORM_BUFFER then 2
        else if t = VK_DESCRIPTOR_TYPE_COMBINED_IMAGE_SAMPLER then 2 else 0) ∧
    Device.layoutDescriptors (setupDescriptors s).device (s.device.length + 4) =
      (fun t => if t = VK_DESCRIPTOR_TYPE_COMBINED_IMAGE_SAMPLER then 1 else 0) ∧
    Device.layoutDescriptors (setupDescriptors s).device (s.device.length + 5) =
      (fun t => if t = VK_DESCRIPTOR_TYPE_UNIFORM_BUFFER then 1
        else if t = VK_DESCRIPTOR_TYPE_COMBINED_IMAGE_SAMPLER then 5 else 0) := by
  rw [gtao_setupDescriptors_eq s]
  dsimp only
  have hl : ∀ (k : Nat) (rest : List Call), k < 5 →
      Device.lookup (s.device ++ (setupDescriptorsLayoutCalls s.maxConcurrentFrames ++ rest))
        (s.device.length + (k + 1)) = (setupDescriptorsLayoutCalls s.maxConcurrentFrames)[k]? :=
    fun k rest hk => Device.lookup_block _ _ _ k hk
  refine ⟨rfl, ?_, ?_, ?_, ?_, ?_, ?_⟩
  · unfold Device.descriptorPoolInfo
    rw [hl 0 _ (by omega)]
    rfl
  · rw [List.drop_left, List.filterMap_append, List.filterMap_flatMap_range]
    have h0 : (setupDescriptorsLayoutCalls s.maxConcurrentFrames).filterMap Call.allocateInfo
        = [] := rfl
    rw [h0, List.nil_append]
    rfl
  · funext t
    unfold Device.layoutDescriptors Device.descriptorSetLayoutInfo
    rw [hl 1 _ (by omega)]
    cases t <;> rfl
  · funext t
    unfold Device.layoutDescriptors Device.descriptorSetLayoutInfo
    rw [hl 2 _ (by omega)]
    cases t <;> rfl
  · funext t
    unfold Device.layoutDescriptors Device.descriptorSetLayoutInfo
    rw [hl 3 _ (by omega)]
    cases t <;> rfl
  · funext t
    unfold Device.layoutDescriptors Device.descriptorSetLayoutInfo
    rw [hl 4 _ (by omega)]
    cases t <;> rfl

/-- The descriptor-set layouts `setupDescriptors` leaves, by handle, and the
layouts of the sets it allocates from its pool: those four, once for each
slot. -/
theorem gtao_setupDescriptors_allocated (s : VulkanExample) :
    (setupDescriptors s).descriptorSetLayouts =
      { gBuffer := s.device.length + 2, gtao := s.device.length + 3,
        gtaoBlur := s.device.length + 4, composition := s.device.length + 5 } ∧
    allocatedLayouts ((setupDescriptors s).device.drop s.device.length) (s.device.length + 1) =
      (List.range s.maxConcurrentFrames).flatMap (fun _ =>
        [ s.device.length + 2, s.device.length + 3, s.device.length + 4,
          s.device.length + 5 ]) := by
  obtain ⟨-, -, ha, -, -, -, -⟩ := gtao_setupDescriptors_pool s
  refine ⟨?_, ?_⟩
  · rw [gtao_setupDescriptors_eq s]
  · unfold allocatedLayouts
    rw [ha, List.filter_flatMap_range, List.flatMap_flatMap_range]
    apply List.flatMap_congr
    intro i _
    simp [span]

/-- When `prepareOffscreenFramebuffers` gives a result, the configuration is
not Android and a depth format is supported. -/
theorem gtao_prepareOffscreenFramebuffers_some (s s' : VulkanExample)
    (h : prepareOffscreenFramebuffers s = some s') :
    s.ANDROID = false ∧ ∃ fmt, s.supportedDepthFormat = some fmt := by
  cases hA : s.ANDROID with
  | true => simp [prepareOffscreenFramebuffers, hA] at h
  | false =>
    cases hD : s.supportedDepthFormat with
    | none => simp [prepareOffscreenFramebuffers, hA, hD] at h
    | some fmt => exact ⟨rfl, fmt, rfl⟩

/-- What the destructor releases when the device handle is not null, kind by
kind: images, image views, memory, framebuffers, render passes and the
sampler. -/
theorem gtao_destructor_released (s : VulkanExample) (device : Nat) (hd : device ≠ 0) :
    released ObjectKind.image (destructor s device) =
      [ s.frameBuffers.offscreen.position.image, s.frameBuffers.offscreen.normal.image,
        s.frameBuffers.offscreen.albedo.image, s.frameBuffers.offscreen.depth.image,
        s.frameBuffers.gtao.color.image, s.frameBuffers.gtaoBlur.color.image ] ∧
    released ObjectKind.imageView (destructor s device) =
      [ s.frameBuffers.offscreen.position.view, s.frameBuffers.offscreen.normal.view,
        s.frameBuffers.offscreen.albedo.view, s.frameBuffers.offscreen.depth.view,
        s.frameBuffers.gtao.color.view, s.frameBuffers.gtaoBlur.color.view ] ∧
    released ObjectKind.memory (destructor s device) =
      [ s.frameBuffers.offscreen.position.mem, s.frameBuffers.offscreen.normal.mem,
        s.frameBuffers.offscreen.albedo.mem, s.frameBuffers.offscreen.depth.mem,
        s.frameBuffers.gtao.color.mem, s.frameBuffers.gtaoBlur.color.mem ] ∧
    released ObjectKind.framebuffer (destructor s device) =
      [ s.frameBuffers.offscreen.frameBuffer, s.frameBuffers.gtao.frameBuffer,
        s.frameBuffers.gtaoBlur.frameBuffer ] ∧
    released ObjectKind.renderPass (destructor s device) =
      [ s.frameBuffers.offscreen.renderPass, s.frameBuffers.gtao.renderPass,
        s.frameBuffers.gtaoBlur.renderPass ] ∧
    released ObjectKind.sampler (destructor s device) = [s.colorSampler] := by
  have hb : ∀ kind, kind ≠ ObjectKind.buffer →
      released kind ((List.range s.maxConcurrentFrames).flatMap (fun i =>
        [ Release.Buffer_destroy (s.uniformBuffers i).sceneParams.buffer,
          Release.Buffer_destroy (s.uniformBuffers i).gtaoSettings.buffer,
          Release.Buffer_destroy (s.uniformBuffers i).gtaoParams.buffer ])) = [] := by
    intro kind hk
    unfold released
    rw [List.filterMap_eq_nil_iff]
    intro r hr
    obtain ⟨i, -, hi⟩ := List.mem_flatMap.mp hr
    simp only [List.mem_cons, List.mem_singleton, List.not_mem_nil, or_false] at hi
    rcases hi with rfl | rfl | rfl <;> simp [Release.object, Ne.symm hk]
  have happ : ∀ kind (a b : List Release),
      released kind (a ++ b) = released kind a ++ released kind b := by
    intro kind a b
    simp [released, List.filterMap_append]
  simp only [destructor, if_pos hd, happ, hb _ (by decide : ObjectKind.image ≠ ObjectKind.buffer),
    hb _ (by decide : ObjectKind.imageView ≠ ObjectKind.buffer),
    hb _ (by decide : ObjectKind.memory ≠ ObjectKind.buffer),
    hb _ (by decide : ObjectKind.framebuffer ≠ ObjectKind.buffer),
    hb _ (by decide : ObjectKind.renderPass ≠ ObjectKind.buffer),
    hb _ (by decide : ObjectKind.sampler ≠ ObjectKind.buffer)]
  simp [released, Release.object, FrameBufferAttachment.destroy, FrameBuffer.destroy]

theorem gtao_offscreen_sample :
    prepareOffscreenFramebuffers sampleState = some offscreenSample ∧
    preparedSample.frameBuffers = offscreenSample.frameBuffers := by
  have hA : sampleState.ANDROID = false := rfl
  have h1 : prepareOffscreenFramebuffers sampleState = some offscreenSample := by
    rw [offscreenSample, gtao_prepareOffscreenFramebuffers_eq sampleState 130 hA rfl]
    rfl
  refine ⟨h1, ?_⟩
  obtain ⟨-, hfb, -, -, -⟩ := gtao_prepare_state sampleState preparedSample 130 hA rfl
    gtao_prepare_sample
  rw [gtao_prepareOffscreenFramebuffers_eq sampleState 130 hA rfl] at h1
  rw [hfb]
  cases h1
  rfl

/-- The clear colour of the base class is kept by `prepare`. -/
theorem gtao_prepare_clearColor (s sp : VulkanExample) (hsp : prepare s = some sp) :
    sp.defaultClearColor = s.defaultClearColor := by
  obtain ⟨hA, fmt, hD⟩ := gtao_prepare_some s sp hsp
  rw [gtao_prepare_eq s fmt hA hD] at hsp
  cases hsp
  simp only [preparePipelines, gtao_setupDescriptors_eq, gtao_prepareBuffers_eq]

/-- For each pass `buildCommandBuffer` records in a state that has the device
log, the offscreen targets and the descriptor sets `prepare` left: the image
views the pass samples and the attachments of the framebuffer it renders to,
by handle. -/
theorem gtao_frame_views (s0 sp s : VulkanExample) (hsp : prepare s0 = some sp)
    (hb : Device.writesBounded s0.device) (hd : s.device = sp.device)
    (hf : s.frameBuffers = sp.frameBuffers) (hs : s.descriptorSets = sp.descriptorSets)
    (hk : s.currentBuffer < s0.maxConcurrentFrames) :
    (recordedPasses (buildCommandBuffer s).2).map
        (fun p => (Device.sampledViews s.device p, Device.targetViews s.device p)) =
      [ ([], [ s0.device.length + 4, s0.device.length + 8, s0.device.length + 12,
               s0.device.length + 16 ]),
        ([ s0.device.length + 4, s0.device.length + 8 ], [ s0.device.length + 20 ]),
        ([ s0.device.length + 20 ], [ s0.device.length + 24 ]),
        ([ s0.device.length + 4, s0.device.length + 8, s0.device.length + 12,
           s0.device.length + 20, s0.device.length + 24 ],
          match Device.framebufferInfo s.device (s.swapChainFrameBuffers s.currentImageIndex) with
          | some info => info.pAttachments
          | none => []) ] := by
  obtain ⟨hA, fmt, hD⟩ := gtao_prepare_some s0 sp hsp
  obtain ⟨-, hfb, -, -, -⟩ := gtao_prepare_state s0 sp fmt hA hD hsp
  obtain ⟨i1, -, i2, -, i3, -, i4, -⟩ := gtao_prepare_inputs s0 sp hsp hb s.currentBuffer hk
  obtain ⟨-, -, -, t1, t2, t3⟩ := gtao_prepare_targets s0 sp hsp
  rw [← hd, ← hs] at i1 i2 i3 i4
  rw [← hd, ← hf] at t1 t2 t3
  have hmap := congrArg (List.map (fun x : Nat × Nat × List (Option Nat) ×
      List (Nat × Nat × List Nat) × List Nat =>
        (x.2.2.2.2.flatMap (fun set => (Device.imageInputs s.device set).map
            (fun y => y.2.imageView)),
         match Device.framebufferInfo s.device x.2.1 with
         | some info => info.pAttachments
         | none => []))) (gtao_frame_bindings s)
  rw [List.map_map] at hmap
  refine hmap.trans ?_
  simp only [List.map_cons, List.map_nil, List.flatMap_cons, List.flatMap_nil, List.append_nil,
    i1, i2, i3, i4, t1, t2, t3]
  rw [hf, hfb]
  rfl

/-- The shader files `prepare` loads, in order. -/
theorem gtao_prepare_fileNames (s sp : VulkanExample) (hsp : prepare s = some sp) :
    (sp.device.drop s.device.length).filterMap Call.fileName =
      [ s.shadersPath ++ "gtao/fullscreen.vert.spv", s.shadersPath ++ "gtao/composition.frag.spv",
        s.shadersPath ++ "gtao/gtao.frag.spv", s.shadersPath ++ "gtao/blur.frag.spv",
        s.shadersPath ++ "gtao/gbuffer.vert.spv", s.shadersPath ++ "gtao/gbuffer.frag.spv" ] := by
  obtain ⟨hA, fmt, hD⟩ := gtao_prepare_some s sp hsp
  obtain ⟨pipes, -, -, hf, hdev⟩ := gtao_prepare_log s sp fmt hA hD hsp
  have h1 : (prepareOffscreenFramebuffersCalls s.device.length s.width s.height s.width s.height
      fmt).filterMap Call.fileName = [] := rfl
  have h2 : ((List.range s.maxConcurrentFrames).flatMap
      (fun _ => prepareBuffersFrameCalls)).filterMap Call.fileName = [] := by
    rw [List.filterMap_eq_nil_iff]
    intro c hc
    obtain ⟨i, -, hci⟩ := List.mem_flatMap.mp hc
    simp only [prepareBuffersFrameCalls, List.mem_cons, List.mem_singleton, List.not_mem_nil,
      or_false] at hci
    rcases hci with rfl | rfl | rfl <;> rfl
  have h3 : (setupDescriptorsLayoutCalls s.maxConcurrentFrames).filterMap Call.fileName = [] :=
    rfl
  have h4 : ∀ (f : Nat → VkDescriptorSetAllocateInfo) (p nm a g b : VkDescriptorImageInfo)
      (l : DescriptorSetLayouts) (ub : Nat → UniformBuffers) (base : Nat → Nat),
      ((List.range s.maxConcurrentFrames).flatMap (fun i =>
        setupDescriptorsFrameCalls (f i) p nm a g b l (ub i) (base i))).filterMap Call.fileName
        = [] := by
    intro f p nm a g b l ub base
    rw [List.filterMap_eq_nil_iff]
    intro c hc
    obtain ⟨i, -, hci⟩ := List.mem_flatMap.mp hc
    simp only [setupDescriptorsFrameCalls, List.mem_cons, List.mem_singleton, List.not_mem_nil,
      or_false] at hci
    rcases hci with rfl | rfl | rfl | rfl | rfl | rfl | rfl | rfl <;> rfl
  rw [hdev, List.drop_left, List.filterMap_append, List.filterMap_append, List.filterMap_append,
    List.filterMap_append, h1, h2, h3, hf]
  rw [h4 (fun _ => _) _ _ _ _ _ _ _ (fun i => _)]
  rfl

end GTAO

namespace HBAO

/-- The buffers `prepareBuffers` creates, by handle, the uniform buffers it
leaves in slot `i`, and the call behind each of their handles. -/
theorem hbao_prepareBuffers_created (s : VulkanExample) :
    Device.created s.device (prepareBuffers s).device ObjectKind.buffer =
      (List.range s.maxConcurrentFrames).flatMap (fun i =>
        [ s.device.length + 3 * i + 1, s.device.length + 3 * i + 2,
          s.device.length + 3 * i + 3 ]) ∧
    (∀ i, i < s.maxConcurrentFrames →
      (prepareBuffers s).uniformBuffers i = prepareBuffersFrameBuffers (s.device.length + 3 * i)) ∧
    (∀ i k, i < s.maxConcurrentFrames → k < 3 →
      Device.lookup (prepareBuffers s).device (s.device.length + 3 * i + (k + 1)) =
        prepareBuffersFrameCalls[k]?) := by
  rw [hbao_prepareBuffers_eq s]
  dsimp only
  refine ⟨?_, ?_, ?_⟩
  · rw [Device.created_append,
      createdFrom_flatMap_range _ (fun _ => prepareBuffersFrameCalls) 3 (fun _ => rfl)]
    apply List.flatMap_congr
    intro i _
    simp [createdFrom, prepareBuffersFrameCalls, Call.kind, Nat.add_assoc]
    omega
  · intro i hi
    simp [hi]
  · intro i k hi hk
    have hh : s.device.length + 3 * i + (k + 1) = s.device.length + ((3 * i + k) + 1) := by omega
    rw [hh, Device.lookup_append_new]
    exact List.getElem?_flatMap_range (fun _ => prepareBuffersFrameCalls) 3 (fun _ => rfl)
      s.maxConcurrentFrames i k hi hk

/-- The descriptor sets `setupDescriptors` allocates, by handle, and the sets
it leaves in slot `i`. -/
theorem hbao_setupDescriptors_created (s : VulkanExample) :
    Device.created s.device (setupDescriptors s).device ObjectKind.descriptorSet =
      (List.range s.maxConcurrentFrames).flatMap (fun i =>
        [ s.device.length + 5 + 8 * i + 1, s.device.length + 5 + 8 * i + 3,
          s.device.length + 5 + 8 * i + 5, s.device.length + 5 + 8 * i + 7 ]) ∧
    (∀ i, i < s.maxConcurrentFrames →
      (setupDescriptors s).descriptorSets i =
        setupDescriptorsFrameSets (s.device.length + 5 + 8 * i)) := by
  rw [hbao_setupDescriptors_eq s]
  dsimp only
  refine ⟨?_, ?_⟩
  · rw [Device.created_append, createdFrom_append, hbao_setupDescriptorsLayoutCalls_length,
      createdFrom_flatMap_range _ _ 8
        (fun _ => hbao_setupDescriptorsFrameCalls_length _ _ _ _ _ _ _ _ _)]
    have h0 : createdFrom ObjectKind.descriptorSet
        (setupDescriptorsLayoutCalls s.maxConcurrentFrames) (s.device.length + 1) = [] := by
      simp [createdFrom, setupDescriptorsLayoutCalls, Call.kind]
    rw [h0, List.nil_append]
    apply List.flatMap_congr
    intro i _
    simp [createdFrom, setupDescriptorsFrameCalls, Call.kind, Nat.add_assoc]
    omega
  · intro i hi
    simp [hi]

/-- The descriptor pool `setupDescriptors` creates, the descriptor-set layouts
of the sets it allocates from the pool, and the create-infos of the four
layouts. -/
theorem hbao_setupDescriptors_pool (s : VulkanExample) :
    (setupDescriptors s).descriptorPool = s.device.length + 1 ∧
    Device.descriptorPoolInfo (setupDescriptors s).device (s.device.length + 1) =
      some { pPoolSizes :=
               [ { type := VK_DESCRIPTOR_TYPE_UNIFORM_BUFFER,
                   descriptorCount := s.maxConcurrentFrames * 4 % UINT32_RANGE },
                 { type := VK_DESCRIPTOR_TYPE_COMBINED_IMAGE_SAMPLER,
                   descriptorCount := s.maxConcurrentFrames * 9 % UINT32_RANGE } ],
             maxSets := s.maxConcurrentFrames * 4 % UINT32_RANGE } ∧
    ((setupDescriptors s).device.drop s.device.length).filterMap Call.allocateInfo =
      (List.range s.maxConcurrentFrames).flatMap (fun _ =>
        [ ({ descriptorPool := s.device.length + 1, descriptorSetCount := 1,
             pSetLayouts := [s.device.length + 2] } : VkDescriptorSetAllocateInfo),
          { descriptorPool := s.device.length + 1, descriptorSetCount := 1,
            pSetLayouts := [s.device.length + 3] },
          { descriptorPool := s.device.length + 1, descriptorSetCount := 1,
            pSetLayouts := [s.device.length + 4] },
          { descriptorPool := s.device.length + 1, descriptorSetCount := 1,
            pSetLayouts := [s.device.length + 5] } ]) ∧
    Device.layoutDescriptors (setupDescriptors s).device (s.device.length + 2) =
      (fun t => if t = VK_DESCRIPTOR_TYPE_UNIFORM_BUFFER then 1 else 0) ∧
    Device.layoutDescriptors (setupDescriptors s).device (s.device.length + 3) =
      (fun t => if t = VK_DESCRIPTOR_TYPE_UNIFORM_BUFFER then 2
        else if t = VK_DESCRIPTOR_TYPE_COMBINED_IMAGE_SAMPLER then 2 else 0) ∧
    Device.layoutDescriptors (setupDescriptors s).device (s.device.length + 4) =
      (fun t => if t = VK_DESCRIPTOR_TYPE_COMBINED_IMAGE_SAMPLER then 1 else 0) ∧
    Device.layoutDescriptors (setupDescriptors s).device (s.device.length + 5) =
      (fun t => if t = VK_DESCRIPTOR_TYPE_UNIFORM_BUFFER then 1
        else if t = VK_DESCRIPTOR_TYPE_COMBINED_IMAGE_SAMPLER then 5 else 0) := by
  rw [hbao_setupDescriptors_eq s]
  dsimp only
  have hl : ∀ (k : Nat) (rest : List Call), k < 5 →
      Device.lookup (s.device ++ (setupDescriptorsLayoutCalls s.maxConcurrentFrames ++ rest))
        (s.device.length + (k + 1)) = (setupDescriptorsLayoutCalls s.maxConcurrentFrames)[k]? :=
    fun k rest hk => Device.lookup_block _ _ _ k hk
  refine ⟨rfl, ?_, ?_, ?_, ?_, ?_, ?_⟩
  · unfold Device.descriptorPoolInfo
    rw [hl 0 _ (by omega)]
    rfl
  · rw [List.drop_left, List.filterMap_append, List.filterMap_flatMap_range]
    have h0 : (setupDescriptorsLayoutCalls s.maxConcurrentFrames).filterMap Call.allocateInfo
        = [] := rfl
    rw [h0, List.nil_append]
    rfl
  · funext t
    unfold Device.layoutDescriptors Device.descriptorSetLayoutInfo
    rw [hl 1 _ (by omega)]
    cases t <;> rfl
  · funext t
    unfold Device.layoutDescriptors Device.descriptorSetLayoutInfo
    rw [hl 2 _ (by omega)]
    cases t <;> rfl
  · funext t
    unfold Device.layoutDescriptors Device.descriptorSetLayoutInfo
    rw [hl 3 _ (by omega)]
    cases t <;> rfl
  · funext t
    unfold Device.layoutDescriptors Device.descriptorSetLayoutInfo
    rw [hl 4 _ (by omega)]
    cases t <;> rfl

/-- The descriptor-set layouts `setupDescriptors` leaves, by handle, and the
layouts of the sets it allocates from its pool: those four, once for each
slot. -/
theorem hbao_setupDescriptors_allocated (s : VulkanExample) :
    (setupDescriptors s).descriptorSetLayouts =
      { gBuffer := s.device.length + 2, hbao := s.device.length + 3,
        hbaoBlur := s.device.length + 4, composition := s.device.length + 5 } ∧
    allocatedLayouts ((setupDescriptors s).device.drop s.device.length) (s.device.length + 1) =
      (List.range s.maxConcurrentFrames).flatMap (fun _ =>
        [ s.device.length + 2, s.device.length + 3, s.device.length + 4,
          s.device.length + 5 ]) := by
  obtain ⟨-, -, ha, -, -, -, -⟩ := hbao_setupDescriptors_pool s
  refine ⟨?_, ?_⟩
  · rw [hbao_setupDescriptors_eq s]
  · unfold allocatedLayouts
    rw [ha, List.filter_flatMap_range, List.flatMap_flatMap_range]
    apply List.flatMap_congr
    intro i _
    simp [span]

/-- When `prepareOffscreenFramebuffers` gives a result, a depth format is
supported. -/
theorem hbao_prepareOffscreenFramebuffers_some (s s' : VulkanExample)
    (h : prepareOffscreenFramebuffers s = some s') :
    ∃ fmt, s.supportedDepthFormat = some fmt := by
  cases hD : s.supportedDepthFormat with
  | none => simp [prepareOffscreenFramebuffers, hD] at h
  | some fmt => exact ⟨fmt, rfl⟩

/-- What the destructor releases when the device handle is not null, kind by
kind: images, image views, memory, framebuffers, render passes and the
sampler. -/
theorem hbao_destructor_released (s : VulkanExample) (device : Nat) (hd : device ≠ 0) :
    released ObjectKind.image (destructor s device) =
      [ s.frameBuffers.offscreen.position.image, s.frameBuffers.offscreen.normal.image,
        s.frameBuffers.offscreen.albedo.image, s.frameBuffers.offscreen.depth.image,
        s.frameBuffers.hbao.color.image, s.frameBuffers.hbaoBlur.color.image ] ∧
    released ObjectKind.imageView (destructor s device) =
      [ s.frameBuffers.offscreen.position.view, s.frameBuffers.offscreen.normal.view,
        s.frameBuffers.offscreen.albedo.view, s.frameBuffers.offscreen.depth.view,
        s.frameBuffers.hbao.color.view, s.frameBuffers.hbaoBlur.color.view ] ∧
    released ObjectKind.memory (destructor s device) =
      [ s.frameBuffers.offscreen.position.mem, s.frameBuffers.offscreen.normal.mem,
        s.frameBuffers.offscreen.albedo.mem, s.frameBuffers.offscreen.depth.mem,
        s.frameBuffers.hbao.color.mem, s.frameBuffers.hbaoBlur.color.mem ] ∧
    released ObjectKind.framebuffer (destructor s device) =
      [ s.frameBuffers.offscreen.frameBuffer, s.frameBuffers.hbao.frameBuffer,
        s.frameBuffers.hbaoBlur.frameBuffer ] ∧
    released ObjectKind.renderPass (destructor s device) =
      [ s.frameBuffers.offscreen.renderPass, s.frameBuffers.hbao.renderPass,
        s.frameBuffers.hbaoBlur.renderPass ] ∧
    released ObjectKind.sampler (destructor s device) = [s.colorSampler] := by
  have hb : ∀ kind, kind ≠ ObjectKind.buffer →
      released kind ((List.range s.maxConcurrentFrames).flatMap (fun i =>
        [ Release.Buffer_destroy (s.uniformBuffers i).sceneParams.buffer,
          Release.Buffer_destroy (s.uniformBuffers i).hbaoSettings.buffer,
          Release.Buffer_destroy (s.uniformBuffers i).hbaoParams.buffer ])) = [] := by
    intro kind hk
    unfold released
    rw [List.filterMap_eq_nil_iff]
    intro r hr
    obtain ⟨i, -, hi⟩ := List.mem_flatMap.mp hr
    simp only [List.mem_cons, List.mem_singleton, List.not_mem_nil, or_false] at hi
    rcases hi with rfl | rfl | rfl <;> simp [Release.object, Ne.symm hk]
  have happ : ∀ kind (a b : List Release),
      released kind (a ++ b) = released kind a ++ released kind b := by
    intro kind a b
    simp [released, List.filterMap_append]
  simp only [destructor, if_pos hd, happ, hb _ (by decide : ObjectKind.image ≠ ObjectKind.buffer),
    hb _ (by decide : ObjectKind.imageView ≠ ObjectKind.buffer),
    hb _ (by decide : ObjectKind.memory ≠ ObjectKind.buffer),
    hb _ (by decide : ObjectKind.framebuffer ≠ ObjectKind.buffer),
    hb _ (by decide : ObjectKind.renderPass ≠ ObjectKind.buffer),
    hb _ (by decide : ObjectKind.sampler ≠ ObjectKind.buffer)]
  simp [released, Release.object, FrameBufferAttachment.destroy, FrameBuffer.destroy]

theorem hbao_offscreen_sample :
    prepareOffscreenFramebuffers sampleState = some offscreenSample ∧
    preparedSample.frameBuffers = offscreenSample.frameBuffers := by
  have h1 : prepareOffscreenFramebuffers sampleState = some offscreenSample := by
    rw [offscreenSample, hbao_prepareOffscreenFramebuffers_eq sampleState 130 rfl]
    rfl
  refine ⟨h1, ?_⟩
  obtain ⟨-, hfb, -, -, -⟩ := hbao_prepare_state sampleState preparedSample 130 rfl
    hbao_prepare_sample
  rw [hbao_prepareOffscreenFramebuffers_eq sampleState 130 rfl] at h1
  rw [hfb]
  cases h1
  rfl

/-- The clear colour of the base class is kept by `prepare`. -/
theorem hbao_prepare_clearColor (s sp : VulkanExample) (hsp : prepare s = some sp) :
    sp.defaultClearColor = s.defaultClearColor := by
  obtain ⟨fmt, hD⟩ := hbao_prepare_some s sp hsp
  rw [hbao_prepare_eq s fmt hD] at hsp
  cases hsp
  simp only [preparePipelines, hbao_setupDescriptors_eq, hbao_prepareBuffers_eq]

/-- For each pass `buildCommandBuffer` records in a state that has the device
log, the offscreen targets and the descriptor sets `prepare` left: the image
views the pass samples and the attachments of the framebuffer it renders to,
by handle. -/
theorem hbao_frame_views (s0 sp s : VulkanExample) (hsp : prepare s0 = some sp)
    (hb : Device.writesBounded s0.device) (hd : s.device = sp.device)
    (hf : s.frameBuffers = sp.frameBuffers) (hs : s.descriptorSets = sp.descriptorSets)
    (hk : s.currentBuffer < s0.maxConcurrentFrames) :
    (recordedPasses (buildCommandBuffer s).2).map
        (fun p => (Device.sampledViews s.device p, Device.targetViews s.device p)) =
      [ ([], [ s0.device.length + 4, s0.device.length + 8, s0.device.length + 12,
               s0.device.length + 16 ]),
        ([ s0.device.length + 4, s0.device.length + 8 ], [ s0.device.length + 20 ]),
        ([ s0.device.length + 20 ], [ s0.device.length + 24 ]),
        ([ s0.device.length + 4, s0.device.length + 8, s0.device.length + 12,
           s0.device.length + 20, s0.device.length + 24 ],
          match Device.framebufferInfo s.device (s.swapChainFrameBuffers s.currentImageIndex) with
          | some info => info.pAttachments
          | none => []) ] := by
  obtain ⟨fmt, hD⟩ := hbao_prepare_some s0 sp hsp
  obtain ⟨-, hfb, -, -, -⟩ := hbao_prepare_state s0 sp fmt hD hsp
  obtain ⟨i1, -, i2, -, i3, -, i4, -⟩ := hbao_prepare_inputs s0 sp hsp hb s.currentBuffer hk
  obtain ⟨-, -, -, t1, t2, t3⟩ := hbao_prepare_targets s0 sp hsp
  rw [← hd, ← hs] at i1 i2 i3 i4
  rw [← hd, ← hf] at t1 t2 t3
  have hmap := congrArg (List.map (fun x : Nat × Nat × List (Option Nat) ×
      List (Nat × Nat × List Nat) × List Nat =>
        (x.2.2.2.2.flatMap (fun set => (Device.imageInputs s.device set).map
            (fun y => y.2.imageView)),
         match Device.framebufferInfo s.device x.2.1 with
         | some info => info.pAttachments
         | none => []))) (hbao_frame_bindings s)
  rw [List.map_map] at hmap
  refine hmap.trans ?_
  simp only [List.map_cons, List.map_nil, List.flatMap_cons, List.flatMap_nil, List.append_nil,
    i1, i2, i3, i4, t1, t2, t3]
  rw [hf, hfb]
  rfl

/-- The shader files `prepare` loads, in order. -/
theorem hbao_prepare_fileNames (s sp : VulkanExample) (hsp : prepare s = some sp) :
    (sp.device.drop s.device.length).filterMap Call.fileName =
      [ s.shadersPath ++ "hbao/fullscreen.vert.spv", s.shadersPath ++ "hbao/composition.frag.spv",
        s.shadersPath ++ "hbao/hbao.frag.spv", s.shadersPath ++ "hbao/blur.frag.spv",
        s.shadersPath ++ "hbao/gbuffer.vert.spv", s.shadersPath ++ "hbao/gbuffer.frag.spv" ] := by
  obtain ⟨fmt, hD⟩ := hbao_prepare_some s sp hsp
  obtain ⟨pipes, -, -, hf, hdev⟩ := hbao_prepare_log s sp fmt hD hsp
  have h1 : (prepareOffscreenFramebuffersCalls s.device.length s.width s.height (if s.ANDROID = true then s.width / 2 else s.width)
            (if s.ANDROID = true then s.height / 2 else s.height) fmt).filterMap Call.fileName = [] := rfl
  have h2 : ((List.range s.maxConcurrentFrames).flatMap
      (fun _ => prepareBuffersFrameCalls)).filterMap Call.fileName = [] := by
    rw [List.filterMap_eq_nil_iff]
    intro c hc
    obtain ⟨i, -, hci⟩ := List.mem_flatMap.mp hc
    simp only [prepareBuffersFrameCalls, List.mem_cons, List.mem_singleton, List.not_mem_nil,
      or_false] at hci
    rcases hci with rfl | rfl | rfl <;> rfl
  have h3 : (setupDescriptorsLayoutCalls s.maxConcurrentFrames).filterMap Call.fileName = [] :=
    rfl
  have h4 : ∀ (f : Nat → VkDescriptorSetAllocateInfo) (p nm a g b : VkDescriptorImageInfo)
      (l : DescriptorSetLayouts) (ub : Nat → UniformBuffers) (base : Nat → Nat),
      ((List.range s.maxConcurrentFrames).flatMap (fun i =>
        setupDescriptorsFrameCalls (f i) p nm a g b l (ub i) (base i))).filterMap Call.fileName
        = [] := by
    intro f p nm a g b l ub base
    rw [List.filterMap_eq_nil_iff]
    intro c hc
    obtain ⟨i, -, hci⟩ := List.mem_flatMap.mp hc
    simp only [setupDescriptorsFrameCalls, List.mem_cons, List.mem_singleton, List.not_mem_nil,
      or_false] at hci
    rcases hci with rfl | rfl | rfl | rfl | rfl | rfl | rfl | rfl <;> rfl
  rw [hdev, List.drop_left, List.filterMap_append, List.filterMap_append, List.filterMap_append,
    List.filterMap_append, h1, h2, h3, hf]
  rw [h4 (fun _ => _) _ _ _ _ _ _ _ (fun i => _)]
  rfl

end HBAO

/-! ## The two examples side by side: lemmas -/

/-- On states that agree on what `preparePipelines` reads, the two examples
make the same calls up to the names of the shader files, and leave the same
pipeline and pipeline-layout handles. -/
theorem both_preparePipelines (x : GTAO.VulkanExample) (y : HBAO.VulkanExample)
    (hd : y.device = x.device)
    (h1 : y.descriptorSetLayouts.gBuffer = x.descriptorSetLayouts.gBuffer)
    (h2 : y.descriptorSetLayouts.hbao = x.descriptorSetLayouts.gtao)
    (h3 : y.descriptorSetLayouts.hbaoBlur = x.descriptorSetLayouts.gtaoBlur)
    (h4 : y.descriptorSetLayouts.composition = x.descriptorSetLayouts.composition)
    (hi : y.descriptorSetLayoutImage = x.descriptorSetLayoutImage)
    (hr : y.renderPass = x.renderPass)
    (hf1 : y.frameBuffers.offscreen.renderPass = x.frameBuffers.offscreen.renderPass)
    (hf2 : y.frameBuffers.hbao.renderPass = x.frameBuffers.gtao.renderPass)
    (hf3 : y.frameBuffers.hbaoBlur.renderPass = x.frameBuffers.gtaoBlur.renderPass)
    (hc : y.pipelineCache = x.pipelineCache) :
    (HBAO.preparePipelines y).device.map Call.withoutFileName =
      (GTAO.preparePipelines x).device.map Call.withoutFileName ∧
    (HBAO.preparePipelines y).pipelines.offscreen = (GTAO.preparePipelines x).pipelines.offscreen ∧
    (HBAO.preparePipelines y).pipelines.composition =
      (GTAO.preparePipelines x).pipelines.composition ∧
    (HBAO.preparePipelines y).pipelines.hbao = (GTAO.preparePipelines x).pipelines.gtao ∧
    (HBAO.preparePipelines y).pipelines.hbaoBlur = (GTAO.preparePipelines x).pipelines.gtaoBlur ∧
    (HBAO.preparePipelines y).pipelineLayouts.gBuffer =
      (GTAO.preparePipelines x).pipelineLayouts.gBuffer ∧
    (HBAO.preparePipelines y).pipelineLayouts.hbao = (GTAO.preparePipelines x).pipelineLayouts.gtao ∧
    (HBAO.preparePipelines y).pipelineLayouts.hbaoBlur =
      (GTAO.preparePipelines x).pipelineLayouts.gtaoBlur ∧
    (HBAO.preparePipelines y).pipelineLayouts.composition =
      (GTAO.preparePipelines x).pipelineLayouts.composition := by
  simp [GTAO.preparePipelines, HBAO.preparePipelines, Device.call, loadShader,
    Call.withoutFileName, hd, h1, h2, h3, h4, hi, hr, hf1, hf2, hf3, hc]

/-- In the same environment the two examples reach `preparePipelines` with the
same device log and the same handles. -/
theorem both_prepare_pre (g : GTAO.VulkanExample) (h : HBAO.VulkanExample) (fmt : VkFormat)
    (hA : g.ANDROID = false) (henv : sameEnvironment g h) :
    (HBAO.setupDescriptors (HBAO.prepareBuffers
      { h with
        device := h.device ++
          HBAO.prepareOffscreenFramebuffersCalls h.device.length h.width h.height
            (if h.ANDROID = true then h.width / 2 else h.width)
            (if h.ANDROID = true then h.height / 2 else h.height) fmt,
        frameBuffers :=
          HBAO.prepareOffscreenFramebuffersResult h.device.length h.width h.height
            (if h.ANDROID = true then h.width / 2 else h.width)
            (if h.ANDROID = true then h.height / 2 else h.height) fmt,
        colorSampler := h.device.length + 31 })).device =
    (GTAO.setupDescriptors (GTAO.prepareBuffers
      { g with
        device := g.device ++
          GTAO.prepareOffscreenFramebuffersCalls g.device.length g.width g.height g.width g.height fmt,
        frameBuffers :=
          GTAO.prepareOffscreenFramebuffersResult g.device.length g.width g.height g.width g.height fmt,
        colorSampler := g.device.length + 31 })).device ∧
    (HBAO.setupDescriptors (HBAO.prepareBuffers
      { h with
        device := h.device ++
          HBAO.prepareOffscreenFramebuffersCalls h.device.length h.width h.height
            (if h.ANDROID = true then h.width / 2 else h.width)
            (if h.ANDROID = true then h.height / 2 else h.height) fmt,
        frameBuffers :=
          HBAO.prepareOffscreenFramebuffersResult h.device.length h.width h.height
            (if h.ANDROID = true then h.width / 2 else h.width)
            (if h.ANDROID = true then h.height / 2 else h.height) fmt,
        colorSampler := h.device.length + 31 })).descriptorSetLayouts.gBuffer =
    (GTAO.setupDescriptors (GTAO.prepareBuffers
      { g with
        device := g.device ++
          GTAO.prepareOffscreenFramebuffersCalls g.device.length g.width g.height g.width g.height fmt,
        frameBuffers :=
          GTAO.prepareOffscreenFramebuffersResult g.device.length g.width g.height g.width g.height fmt,
        colorSampler := g.device.length + 31 })).descriptorSetLayouts.gBuffer ∧
    (HBAO.setupDescriptors (HBAO.prepareBuffers
      { h with
        device := h.device ++
          HBAO.prepareOffscreenFramebuffersCalls h.device.length h.width h.height
            (if h.ANDROID = true then h.width / 2 else h.width)
            (if h.ANDROID = true then h.height / 2 else h.height) fmt,
        frameBuffers :=
          HBAO.prepareOffscreenFramebuffersResult h.device.length h.width h.height
            (if h.ANDROID = true then h.width / 2 else h.width)
            (if h.ANDROID = true then h.height / 2 else h.height) fmt,
        colorSampler := h.device.length + 31 })).descriptorSetLayouts.hbao =
    (GTAO.setupDescriptors (GTAO.prepareBuffers
      { g with
        device := g.device ++
          GTAO.prepareOffscreenFramebuffersCalls g.device.length g.width g.height g.width g.height fmt,
        frameBuffers :=
          GTAO.prepareOffscreenFramebuffersResult g.device.length g.width g.height g.width g.height fmt,
        colorSampler := g.device.length + 31 })).descriptorSetLayouts.gtao ∧
    (HBAO.setupDescriptors (HBAO.prepareBuffers
      { h with
        device := h.device ++
          HBAO.prepareOffscreenFramebuffersCalls h.device.length h.width h.height
            (if h.ANDROID = true then h.width / 2 else h.width)
            (if h.ANDROID = true then h.height / 2 else h.height) fmt,
        frameBuffers :=
          HBAO.prepareOffscreenFramebuffersResult h.device.length h.width h.height
            (if h.ANDROID = true then h.width / 2 else h.width)
            (if h.ANDROID = true then h.height / 2 else h.height) fmt,
        colorSampler := h.device.length + 31 })).descriptorSetLayouts.hbaoBlur =
    (GTAO.setupDescriptors (GTAO.prepareBuffers
      { g with
        device := g.device ++
          GTAO.prepareOffscreenFramebuffersCalls g.device.length g.width g.height g.width g.height fmt,
        frameBuffers :=
          GTAO.prepareOffscreenFramebuffersResult g.device.length g.width g.height g.width g.height fmt,
        colorSampler := g.device.length + 31 })).descriptorSetLayouts.gtaoBlur ∧
    (HBAO.setupDescriptors (HBAO.prepareBuffers
      { h with
        device := h.device ++
          HBAO.prepareOffscreenFramebuffersCalls h.device.length h.width h.height
            (if h.ANDROID = true then h.width / 2 else h.width)
            (if h.ANDROID = true then h.height / 2 else h.height) fmt,
        frameBuffers :=
          HBAO.prepareOffscreenFramebuffersResult h.device.length h.width h.height
            (if h.ANDROID = true then h.width / 2 else h.width)
            (if h.ANDROID = true then h.height / 2 else h.height) fmt,
        colorSampler := h.device.length + 31 })).descriptorSetLayouts.composition =
    (GTAO.setupDescriptors (GTAO.prepareBuffers
      { g with
        device := g.device ++
          GTAO.prepareOffscreenFramebuffersCalls g.device.length g.width g.height g.width g.height fmt,
        frameBuffers :=
          GTAO.prepareOffscreenFramebuffersResult g.device.length g.width g.height g.width g.height fmt,
        colorSampler := g.device.length + 31 })).descriptorSetLayouts.composition ∧
    (HBAO.setupDescriptors (HBAO.prepareBuffers
      { h with
        device := h.device ++
          HBAO.prepareOffscreenFramebuffersCalls h.device.length h.width h.height
            (if h.ANDROID = true then h.width / 2 else h.width)
            (if h.ANDROID = true then h.height / 2 else h.height) fmt,
        frameBuffers :=
          HBAO.prepareOffscreenFramebuffersResult h.device.length h.width h.height
            (if h.ANDROID = true then h.width / 2 else h.width)
            (if h.ANDROID = true then h.height / 2 else h.height) fmt,
        colorSampler := h.device.length + 31 })).descriptorSetLayoutImage =
    (GTAO.setupDescriptors (GTAO.prepareBuffers
      { g with
        device := g.device ++
          GTAO.prepareOffscreenFramebuffersCalls g.device.length g.width g.height g.width g.height fmt,
        frameBuffers :=
          GTAO.prepareOffscreenFramebuffersResult g.device.length g.width g.height g.width g.height fmt,
        colorSampler := g.device.length + 31 })).descriptorSetLayoutImage ∧
    (HBAO.setupDescriptors (HBAO.prepareBuffers
      { h with
        device := h.device ++
          HBAO.prepareOffscreenFramebuffersCalls h.device.length h.width h.height
            (if h.ANDROID = true then h.width / 2 else h.width)
            (if h.ANDROID = true then h.height / 2 else h.height) fmt,
        frameBuffers :=
          HBAO.prepareOffscreenFramebuffersResult h.device.length h.width h.height
            (if h.ANDROID = true then h.width / 2 else h.width)
            (if h.ANDROID = true then h.height / 2 else h.height) fmt,
        colorSampler := h.device.length + 31 })).renderPass =
    (GTAO.setupDescriptors (GTAO.prepareBuffers
      { g with
        device := g.device ++
          GTAO.prepareOffscreenFramebuffersCalls g.device.length g.width g.height g.width g.height fmt,
        frameBuffers :=
          GTAO.prepareOffscreenFramebuffersResult g.device.length g.width g.height g.width g.height fmt,
        colorSampler := g.device.length + 31 })).renderPass ∧
    (HBAO.setupDescriptors (HBAO.prepareBuffers
      { h with
        device := h.device ++
          HBAO.prepareOffscreenFramebuffersCalls h.device.length h.width h.height
            (if h.ANDROID = true then h.width / 2 else h.width)
            (if h.ANDROID = true then h.height / 2 else h.height) fmt,
        frameBuffers :=
          HBAO.prepareOffscreenFramebuffersResult h.device.length h.width h.height
            (if h.ANDROID = true then h.width / 2 else h.width)
            (if h.ANDROID = true then h.height / 2 else h.height) fmt,
        colorSampler := h.device.length + 31 })).frameBuffers.offscreen.renderPass =
    (GTAO.setupDescriptors (GTAO.prepareBuffers
      { g with
        device := g.device ++
          GTAO.prepareOffscreenFramebuffersCalls g.device.length g.width g.height g.width g.height fmt,
        frameBuffers :=
          GTAO.prepareOffscreenFramebuffersResult g.device.length g.width g.height g.width g.height fmt,
        colorSampler := g.device.length + 31 })).frameBuffers.offscreen.renderPass ∧
    (HBAO.setupDescriptors (HBAO.prepareBuffers
      { h with
        device := h.device ++
          HBAO.prepareOffscreenFramebuffersCalls h.device.length h.width h.height
            (if h.ANDROID = true then h.width / 2 else h.width)
            (if h.ANDROID = true then h.height / 2 else h.height) fmt,
        frameBuffers :=
          HBAO.prepareOffscreenFramebuffersResult h.device.length h.width h.height
            (if h.ANDROID = true then h.width / 2 else h.width)
            (if h.ANDROID = true then h.height / 2 else h.height) fmt,
        colorSampler := h.device.length + 31 })).frameBuffers.hbao.renderPass =
    (GTAO.setupDescriptors (GTAO.prepareBuffers
      { g with
        device := g.device ++
          GTAO.prepareOffscreenFramebuffersCalls g.device.length g.width g.height g.width g.height fmt,
        frameBuffers :=
          GTAO.prepareOffscreenFramebuffersResult g.device.length g.width g.height g.width g.height fmt,
        colorSampler := g.device.length + 31 })).frameBuffers.gtao.renderPass ∧
    (HBAO.setupDescriptors (HBAO.prepareBuffers
      { h with
        device := h.device ++
          HBAO.prepareOffscreenFramebuffersCalls h.device.length h.width h.height
            (if h.ANDROID = true then h.width / 2 else h.width)
            (if h.ANDROID = true then h.height / 2 else h.height) fmt,
        frameBuffers :=
          HBAO.prepareOffscreenFramebuffersResult h.device.length h.width h.height
            (if h.ANDROID = true then h.width / 2 else h.width)
            (if h.ANDROID = true then h.height / 2 else h.height) fmt,
        colorSampler := h.device.length + 31 })).frameBuffers.hbaoBlur.renderPass =
    (GTAO.setupDescriptors (GTAO.prepareBuffers
      { g with
        device := g.device ++
          GTAO.prepareOffscreenFramebuffersCalls g.device.length g.width g.height g.width g.height fmt,
        frameBuffers :=
          GTAO.prepareOffscreenFramebuffersResult g.device.length g.width g.height g.width g.height fmt,
        colorSampler := g.device.length + 31 })).frameBuffers.gtaoBlur.renderPass ∧
    (HBAO.setupDescriptors (HBAO.prepareBuffers
      { h with
        device := h.device ++
          HBAO.prepareOffscreenFramebuffersCalls h.device.length h.width h.height
            (if h.ANDROID = true then h.width / 2 else h.width)
            (if h.ANDROID = true then h.height / 2 else h.height) fmt,
        frameBuffers :=
          HBAO.prepareOffscreenFramebuffersResult h.device.length h.width h.height
            (if h.ANDROID = true then h.width / 2 else h.width)
            (if h.ANDROID = true then h.height / 2 else h.height) fmt,
        colorSampler := h.device.length + 31 })).pipelineCache =
    (GTAO.setupDescriptors (GTAO.prepareBuffers
      { g with
        device := g.device ++
          GTAO.prepareOffscreenFramebuffersCalls g.device.length g.width g.height g.width g.height fmt,
        frameBuffers :=
          GTAO.prepareOffscreenFramebuffersResult g.device.length g.width g.height g.width g.height fmt,
        colorSampler := g.device.length + 31 })).pipelineCache := by
  obtain ⟨eA, eN, ed, -, ew, eh, -, -, er, -, -, epc, eli, -⟩ := henv
  have hA' : h.ANDROID = false := by rw [eA, hA]
  simp only [GTAO.gtao_setupDescriptors_eq, HBAO.hbao_setupDescriptors_eq,
    GTAO.gtao_prepareBuffers_eq, HBAO.hbao_prepareBuffers_eq]
  rw [ed, eN, ew, eh, hA', er, epc, eli]
  simp only [Bool.false_eq_true, if_false]
  refine ⟨?_, ?_, ?_, ?_, ?_, ?_, ?_, ?_, ?_, ?_, ?_⟩
  · refine congrArg₂ (· ++ ·) rfl (congrArg₂ (· ++ ·) rfl ?_)
    apply List.flatMap_congr
    intro i hi
    have hlt := List.mem_range.mp hi
    simp only [hlt, if_true]
    rfl
  all_goals trivial

/-- In the same environment, when `prepare` of `gtao.cpp` succeeds so does
`prepare` of `hbao.cpp`, with the same device log up to the names of the shader
files and the same pipeline and pipeline-layout handles. -/
theorem both_prepare (g gp : GTAO.VulkanExample) (h : HBAO.VulkanExample)
    (hgp : GTAO.prepare g = some gp) (henv : sameEnvironment g h) :
    ∃ hp, HBAO.prepare h = some hp ∧
    hp.device.map Call.withoutFileName = gp.device.map Call.withoutFileName ∧
    hp.pipelines.offscreen = gp.pipelines.offscreen ∧
    hp.pipelines.composition = gp.pipelines.composition ∧
    hp.pipelines.hbao = gp.pipelines.gtao ∧
    hp.pipelines.hbaoBlur = gp.pipelines.gtaoBlur ∧
    hp.pipelineLayouts.gBuffer = gp.pipelineLayouts.gBuffer ∧
    hp.pipelineLayouts.hbao = gp.pipelineLayouts.gtao ∧
    hp.pipelineLayouts.hbaoBlur = gp.pipelineLayouts.gtaoBlur ∧
    hp.pipelineLayouts.composition = gp.pipelineLayouts.composition := by
  obtain ⟨hA, fmt, hD⟩ := GTAO.gtao_prepare_some g gp hgp
  have hD' : h.supportedDepthFormat = some fmt := by rw [henv.2.2.2.1, hD]
  obtain ⟨p1, p2, p3, p4, p5, p6, p7, p8, p9, p10, p11⟩ := both_prepare_pre g h fmt hA henv
  rw [GTAO.gtao_prepare_eq g fmt hA hD] at hgp
  have hgp' := Option.some.inj hgp
  rw [← hgp']
  have key := both_preparePipelines _ _ p1 p2 p3 p4 p5 p6 p7 p8 p9 p10 p11
  refine ⟨_, HBAO.hbao_prepare_eq h fmt hD', ?_⟩
  dsimp only
  exact key

/-- In the same environment, after `prepare`, the two examples hold the same
handles and sizes in the members `buildCommandBuffer` reads. -/
theorem both_prepare_fields (g gp : GTAO.VulkanExample) (h hp : HBAO.VulkanExample)
    (hgp : GTAO.prepare g = some gp) (hhp : HBAO.prepare h = some hp)
    (henv : sameEnvironment g h) :
    hp.frameBuffers.offscreen.toFrameBuffer = ⟨gp.frameBuffers.offscreen.width,
      gp.frameBuffers.offscreen.height, gp.frameBuffers.offscreen.frameBuffer,
      gp.frameBuffers.offscreen.renderPass⟩ ∧
    hp.frameBuffers.hbao.toFrameBuffer = ⟨gp.frameBuffers.gtao.width,
      gp.frameBuffers.gtao.height, gp.frameBuffers.gtao.frameBuffer,
      gp.frameBuffers.gtao.renderPass⟩ ∧
    hp.frameBuffers.hbaoBlur.toFrameBuffer = ⟨gp.frameBuffers.gtaoBlur.width,
      gp.frameBuffers.gtaoBlur.height, gp.frameBuffers.gtaoBlur.frameBuffer,
      gp.frameBuffers.gtaoBlur.renderPass⟩ ∧
    (∀ k, k < g.maxConcurrentFrames →
      (hp.descriptorSets k).gBuffer = (gp.descriptorSets k).gBuffer ∧
      (hp.descriptorSets k).hbao = (gp.descriptorSets k).gtao ∧
      (hp.descriptorSets k).hbaoBlur = (gp.descriptorSets k).gtaoBlur ∧
      (hp.descriptorSets k).composition = (gp.descriptorSets k).composition) ∧
    hp.width = gp.width ∧ hp.height = gp.height ∧ hp.renderPass = gp.renderPass ∧
    hp.swapChainFrameBuffers = gp.swapChainFrameBuffers ∧
    hp.drawCmdBuffers = gp.drawCmdBuffers ∧
    hp.defaultClearColor = gp.defaultClearColor := by
  obtain ⟨hA, fmt, hD⟩ := GTAO.gtao_prepare_some g gp hgp
  obtain ⟨eA, eN, ed, eF, ew, eh, -, -, er, es, edc, -, -, ecc⟩ := henv
  have hA' : h.ANDROID = false := by rw [eA, hA]
  have hD' : h.supportedDepthFormat = some fmt := by rw [eF, hD]
  obtain ⟨-, gfb, -, -, gds⟩ := GTAO.gtao_prepare_state g gp fmt hA hD hgp
  obtain ⟨-, hfb, -, -, hds⟩ := HBAO.hbao_prepare_state h hp fmt hD' hhp
  obtain ⟨gw, gh, -⟩ := GTAO.gtao_prepare_sizes g gp hgp
  obtain ⟨hw, hh, -⟩ := HBAO.hbao_prepare_sizes h hp hhp
  obtain ⟨gr, gs⟩ := GTAO.gtao_prepare_base g gp hgp
  obtain ⟨hr, hs⟩ := HBAO.hbao_prepare_base h hp hhp
  obtain ⟨-, -, gdc, -, -⟩ := GTAO.gtao_prepare_frame g gp hgp
  obtain ⟨-, -, hdc, -, -⟩ := HBAO.hbao_prepare_frame h hp hhp
  have gcc := GTAO.gtao_prepare_clearColor g gp hgp
  have hcc := HBAO.hbao_prepare_clearColor h hp hhp
  rw [hA', ed, ew, eh] at hfb
  simp only [Bool.false_eq_true, if_false] at hfb
  refine ⟨?_, ?_, ?_, ?_, ?_, ?_, ?_, ?_, ?_, ?_⟩
  · rw [hfb, gfb]; rfl
  · rw [hfb, gfb]; rfl
  · rw [hfb, gfb]; rfl
  · intro k hk
    rw [hds k (by rw [eN]; exact hk), gds k hk, ed, eN]
    exact ⟨rfl, rfl, rfl, rfl⟩
  · rw [hw, gw, ew]
  · rw [hh, gh, eh]
  · rw [hr, gr, er]
  · rw [hs, gs, es]
  · rw [hdc, gdc, edc]
  · rw [hcc, gcc, ecc]
namespace GTAO

/-- One call of `render` in a prepared state: the state is the one
`prepareFrame`, `updateUniformBuffers` and `submitFrame` leave, in this order;
the log receives the four steps, all on the current slot, and the commands
`buildCommandBuffer` records in the state with the uniform buffers updated. -/
theorem gtao_render_prepared (s : VulkanExample) (acquired : Nat) (log : FrameLog)
    (hp : s.prepared = true) :
    render s acquired log =
      (submitFrame (updateUniformBuffers (prepareFrame s acquired)),
        { steps := log.steps ++
            [ { call := FrameCall.prepareFrame, currentBuffer := s.currentBuffer },
              { call := FrameCall.updateUniformBuffers, currentBuffer := s.currentBuffer },
              { call := FrameCall.buildCommandBuffer, currentBuffer := s.currentBuffer },
              { call := FrameCall.submitFrame, currentBuffer := s.currentBuffer } ],
          recorded := log.recorded ++
            [buildCommandBuffer (updateUniformBuffers (prepareFrame s acquired))] }) := by
  unfold render
  rw [hp]
  simp only [call, Bool.not_true, Bool.false_eq_true, if_false, List.append_assoc,
    List.singleton_append, List.cons_append, List.nil_append]
  rfl

/-- One call of `render` in a state that is not prepared: nothing. -/
theorem gtao_render_unprepared (s : VulkanExample) (acquired : Nat) (log : FrameLog)
    (hp : s.prepared = false) : render s acquired log = (s, log) := by
  unfold render
  rw [hp]
  rfl

/-- The state fields the next call of `render` depends on. -/
theorem gtao_render_fields (s : VulkanExample) (acquired : Nat) (log : FrameLog)
    (hp : s.prepared = true) :
    (render s acquired log).1.prepared = true ∧
    (render s acquired log).1.maxConcurrentFrames = s.maxConcurrentFrames ∧
    (render s acquired log).1.currentBuffer = (s.currentBuffer + 1) % s.maxConcurrentFrames := by
  rw [gtao_render_prepared s acquired log hp]
  exact ⟨hp, rfl, rfl⟩

/-- The log of successive calls of `render` in a prepared state: frame `i`
takes its four steps on slot `(currentBuffer + i) mod maxConcurrentFrames` and
records one command buffer. -/
theorem gtao_renderFrames_log (acquired : List Nat) (s : VulkanExample) (log : FrameLog)
    (hp : s.prepared = true) (hk : s.currentBuffer < s.maxConcurrentFrames) :
    (renderFrames s log acquired).2.steps =
      log.steps ++ (List.range acquired.length).flatMap (fun i =>
        [ ({ call := FrameCall.prepareFrame,
             currentBuffer := (s.currentBuffer + i) % s.maxConcurrentFrames } : FrameStep),
          { call := FrameCall.updateUniformBuffers,
            currentBuffer := (s.currentBuffer + i) % s.maxConcurrentFrames },
          { call := FrameCall.buildCommandBuffer,
            currentBuffer := (s.currentBuffer + i) % s.maxConcurrentFrames },
          { call := FrameCall.submitFrame,
            currentBuffer := (s.currentBuffer + i) % s.maxConcurrentFrames } ]) ∧
    (renderFrames s log acquired).2.recorded.length = log.recorded.length + acquired.length := by
  induction acquired generalizing s log with
  | nil => exact ⟨(List.append_nil _).symm, rfl⟩
  | cons a rest ih =>
    obtain ⟨h2, h3, h4⟩ := gtao_render_fields s a log hp
    have hlt : (render s a log).1.currentBuffer < (render s a log).1.maxConcurrentFrames := by
      rw [h3, h4]
      exact Nat.mod_lt _ (by omega)
    have hmod : ∀ i, ((s.currentBuffer + 1) % s.maxConcurrentFrames + i) % s.maxConcurrentFrames =
        (s.currentBuffer + (i + 1)) % s.maxConcurrentFrames := by
      intro i
      rw [Nat.add_mod, Nat.mod_mod, ← Nat.add_mod]
      congr 1
      omega
    obtain ⟨i1, i2⟩ := ih (render s a log).1 (render s a log).2 h2 hlt
    have hlog : (render s a log).2 = _ := congrArg Prod.snd (gtao_render_prepared s a log hp)
    refine ⟨?_, ?_⟩
    · show (renderFrames (render s a log).1 (render s a log).2 rest).2.steps = _
      rw [i1, h3, h4, hlog, List.length_cons, List.range_succ_eq_map, List.flatMap_cons,
        List.flatMap_map]
      simp only [Nat.add_zero, Nat.mod_eq_of_lt hk, hmod, Nat.succ_eq_add_one,
        List.append_assoc, Function.comp_def]
    · show (renderFrames (render s a log).1 (render s a log).2 rest).2.recorded.length = _
      rw [i2, hlog]
      simp only [List.length_append, List.length_cons, List.length_nil]
      omega

/-- After `prepare` the example is prepared. -/
theorem gtao_prepare_prepared (s sp : VulkanExample) (hsp : prepare s = some sp) :
    sp.prepared = true := by
  obtain ⟨hA, fmt, hD⟩ := gtao_prepare_some s sp hsp
  rw [gtao_prepare_eq s fmt hA hD] at hsp
  cases hsp
  rfl

end GTAO
namespace HBAO

/-- One call of `render` in a prepared state: the state is the one
`prepareFrame`, `updateUniformBuffers` and `submitFrame` leave, in this order;
the log receives the four steps, all on the current slot, and the commands
`buildCommandBuffer` records in the state with the uniform buffers updated. -/
theorem hbao_render_prepared (s : VulkanExample) (acquired : Nat) (log : FrameLog)
    (hp : s.prepared = true) :
    render s acquired log =
      (submitFrame (updateUniformBuffers (prepareFrame s acquired)),
        { steps := log.steps ++
            [ { call := FrameCall.prepareFrame, currentBuffer := s.currentBuffer },
              { call := FrameCall.updateUniformBuffers, currentBuffer := s.currentBuffer },
              { call := FrameCall.buildCommandBuffer, currentBuffer := s.currentBuffer },
              { call := FrameCall.submitFrame, currentBuffer := s.currentBuffer } ],
          recorded := log.recorded ++
            [buildCommandBuffer (updateUniformBuffers (prepareFrame s acquired))] }) := by
  unfold render
  rw [hp]
  simp only [call, Bool.not_true, Bool.false_eq_true, if_false, List.append_assoc,
    List.singleton_append, List.cons_append, List.nil_append]
  rfl

/-- One call of `render` in a state that is not prepared: nothing. -/
theorem hbao_render_unprepared (s : VulkanExample) (acquired : Nat) (log : FrameLog)
    (hp : s.prepared = false) : render s acquired log = (s, log) := by
  unfold render
  rw [hp]
  rfl

/-- The state fields the next call of `render` depends on. -/
theorem hbao_render_fields (s : VulkanExample) (acquired : Nat) (log : FrameLog)
    (hp : s.prepared = true) :
    (render s acquired log).1.prepared = true ∧
    (render s acquired log).1.maxConcurrentFrames = s.maxConcurrentFrames ∧
    (render s acquired log).1.currentBuffer = (s.currentBuffer + 1) % s.maxConcurrentFrames := by
  rw [hbao_render_prepared s acquired log hp]
  exact ⟨hp, rfl, rfl⟩

/-- The log of successive calls of `render` in a prepared state: frame `i`
takes its four steps on slot `(currentBuffer + i) mod maxConcurrentFrames` and
records one command buffer. -/
theorem hbao_renderFrames_log (acquired : List Nat) (s : VulkanExample) (log : FrameLog)
    (hp : s.prepared = true) (hk : s.currentBuffer < s.maxConcurrentFrames) :
    (renderFrames s log acquired).2.steps =
      log.steps ++ (List.range acquired.length).flatMap (fun i =>
        [ ({ call := FrameCall.prepareFrame,
             currentBuffer := (s.currentBuffer + i) % s.maxConcurrentFrames } : FrameStep),
          { call := FrameCall.updateUniformBuffers,
            currentBuffer := (s.currentBuffer + i) % s.maxConcurrentFrames },
          { call := FrameCall.buildCommandBuffer,
            currentBuffer := (s.currentBuffer + i) % s.maxConcurrentFrames },
          { call := FrameCall.submitFrame,
            currentBuffer := (s.currentBuffer + i) % s.maxConcurrentFrames } ]) ∧
    (renderFrames s log acquired).2.recorded.length = log.recorded.length + acquired.length := by
  induction acquired generalizing s log with
  | nil => exact ⟨(List.append_nil _).symm, rfl⟩
  | cons a rest ih =>
    obtain ⟨h2, h3, h4⟩ := hbao_render_fields s a log hp
    have hlt : (render s a log).1.currentBuffer < (render s a log).1.maxConcurrentFrames := by
      rw [h3, h4]
      exact Nat.mod_lt _ (by omega)
    have hmod : ∀ i, ((s.currentBuffer + 1) % s.maxConcurrentFrames + i) % s.maxConcurrentFrames =
        (s.currentBuffer + (i + 1)) % s.maxConcurrentFrames := by
      intro i
      rw [Nat.add_mod, Nat.mod_mod, ← Nat.add_mod]
      congr 1
      omega
    obtain ⟨i1, i2⟩ := ih (render s a log).1 (render s a log).2 h2 hlt
    have hlog : (render s a log).2 = _ := congrArg Prod.snd (hbao_render_prepared s a log hp)
    refine ⟨?_, ?_⟩
    · show (renderFrames (render s a log).1 (render s a log).2 rest).2.steps = _
      rw [i1, h3, h4, hlog, List.length_cons, List.range_succ_eq_map, List.flatMap_cons,
        List.flatMap_map]
      simp only [Nat.add_zero, Nat.mod_eq_of_lt hk, hmod, Nat.succ_eq_add_one,
        List.append_assoc, Function.comp_def]
    · show (renderFrames (render s a log).1 (render s a log).2 rest).2.recorded.length = _
      rw [i2, hlog]
      simp only [List.length_append, List.length_cons, List.length_nil]
      omega

/-- After `prepare` the example is prepared. -/
theorem hbao_prepare_prepared (s sp : VulkanExample) (hsp : prepare s = some sp) :
    sp.prepared = true := by
  obtain ⟨fmt, hD⟩ := hbao_prepare_some s sp hsp
  rw [hbao_prepare_eq s fmt hD] at hsp
  cases hsp
  rfl

end HBAO


/-! ## Properties of the two examples -/

/-- C1. Every call of `buildCommandBuffer`, in both examples, records: begin
command buffer first, end command buffer last, and between them exactly four
render passes, each begun and ended before the next begins, in the order
geometry-fill (G-buffer framebuffer), occlusion-generate (occlusion
framebuffer), occlusion-blur (blur framebuffer), composition (swap-chain
framebuffer of the acquired image index). -/
theorem C1_command_stream (g : GTAO.VulkanExample) (h : HBAO.VulkanExample) :
    ((GTAO.buildCommandBuffer g).2.head? = some Cmd.vkBeginCommandBuffer ∧
      (GTAO.buildCommandBuffer g).2.getLast? = some Cmd.vkEndCommandBuffer ∧
      passEvents (GTAO.buildCommandBuffer g).2 =
        [ PassEvent.beginCommandBuffer,
          PassEvent.beginRenderPass g.frameBuffers.offscreen.renderPass g.frameBuffers.offscreen.frameBuffer,
          PassEvent.endRenderPass,
          PassEvent.beginRenderPass g.frameBuffers.gtao.renderPass g.frameBuffers.gtao.frameBuffer,
          PassEvent.endRenderPass,
          PassEvent.beginRenderPass g.frameBuffers.gtaoBlur.renderPass g.frameBuffers.gtaoBlur.frameBuffer,
          PassEvent.endRenderPass,
          PassEvent.beginRenderPass g.renderPass (g.swapChainFrameBuffers g.currentImageIndex),
          PassEvent.endRenderPass,
          PassEvent.endCommandBuffer ]) ∧
    ((HBAO.buildCommandBuffer h).2.head? = some Cmd.vkBeginCommandBuffer ∧
      (HBAO.buildCommandBuffer h).2.getLast? = some Cmd.vkEndCommandBuffer ∧
      passEvents (HBAO.buildCommandBuffer h).2 =
        [ PassEvent.beginCommandBuffer,
          PassEvent.beginRenderPass h.frameBuffers.offscreen.renderPass h.frameBuffers.offscreen.frameBuffer,
          PassEvent.endRenderPass,
          PassEvent.beginRenderPass h.frameBuffers.hbao.renderPass h.frameBuffers.hbao.frameBuffer,
          PassEvent.endRenderPass,
          PassEvent.beginRenderPass h.frameBuffers.hbaoBlur.renderPass h.frameBuffers.hbaoBlur.frameBuffer,
          PassEvent.endRenderPass,
          PassEvent.beginRenderPass h.renderPass (h.swapChainFrameBuffers h.currentImageIndex),
          PassEvent.endRenderPass,
          PassEvent.endCommandBuffer ]) := by
  constructor
  · simp [GTAO.buildCommandBuffer, passEvents, Cmd.passEvent]
  · simp [HBAO.buildCommandBuffer, passEvents, Cmd.passEvent]

/-- C8. `createAttachment`, in both examples: for every format and every usage
with the depth-stencil-attachment bit the call succeeds and the view's aspect
is DEPTH, with STENCIL added exactly when the format's numeric value is at
least `VK_FORMAT_D16_UNORM_S8_UINT`; for every usage with the color-attachment
bit and without the depth-stencil bit it succeeds and the aspect is exactly
COLOR; in both cases the stored format, the image's format and the view's
format are the format argument.  The aspect depends on nothing but format and
usage. -/
theorem C8_createAttachment_aspect (device : Device) (format : VkFormat)
    (usage width height : Nat) :
    (usage &&& VK_IMAGE_USAGE_DEPTH_STENCIL_ATTACHMENT_BIT ≠ 0 →
      (∃ d a image view, GTAO.createAttachment device format usage width height = some (d, a) ∧
        a.format = format ∧
        d.imageInfo a.image = some image ∧ image.format = format ∧
        d.imageViewInfo a.view = some view ∧ view.format = format ∧ view.image = a.image ∧
        view.subresourceRange.aspectMask =
          (if format ≥ VK_FORMAT_D16_UNORM_S8_UINT then
            VK_IMAGE_ASPECT_DEPTH_BIT ||| VK_IMAGE_ASPECT_STENCIL_BIT
          else VK_IMAGE_ASPECT_DEPTH_BIT)) ∧
      (∃ d a image view, HBAO.createAttachment device format usage width height = some (d, a) ∧
        a.format = format ∧
        d.imageInfo a.image = some image ∧ image.format = format ∧
        d.imageViewInfo a.view = some view ∧ view.format = format ∧ view.image = a.image ∧
        view.subresourceRange.aspectMask =
          (if format ≥ VK_FORMAT_D16_UNORM_S8_UINT then
            VK_IMAGE_ASPECT_DEPTH_BIT ||| VK_IMAGE_ASPECT_STENCIL_BIT
          else VK_IMAGE_ASPECT_DEPTH_BIT))) ∧
    (usage &&& VK_IMAGE_USAGE_COLOR_ATTACHMENT_BIT ≠ 0 →
      usage &&& VK_IMAGE_USAGE_DEPTH_STENCIL_ATTACHMENT_BIT = 0 →
      (∃ d a image view, GTAO.createAttachment device format usage width height = some (d, a) ∧
        a.format = format ∧
        d.imageInfo a.image = some image ∧ image.format = format ∧
        d.imageViewInfo a.view = some view ∧ view.format = format ∧ view.image = a.image ∧
        view.subresourceRange.aspectMask = VK_IMAGE_ASPECT_COLOR_BIT) ∧
      (∃ d a image view, HBAO.createAttachment device format usage width height = some (d, a) ∧
        a.format = format ∧
        d.imageInfo a.image = some image ∧ image.format = format ∧
        d.imageViewInfo a.view = some view ∧ view.format = format ∧ view.image = a.image ∧
        view.subresourceRange.aspectMask = VK_IMAGE_ASPECT_COLOR_BIT)) := by
  constructor
  · intro hd
    have hu : usage &&& VK_IMAGE_USAGE_COLOR_ATTACHMENT_BIT ≠ 0 ∨
        usage &&& VK_IMAGE_USAGE_DEPTH_STENCIL_ATTACHMENT_BIT ≠ 0 := Or.inr hd
    constructor
    · refine ⟨_, _, _, _, GTAO.gtao_createAttachment_eq device format usage width height hu, rfl,
        GTAO.gtao_createAttachmentCalls_image _ _ _ _ _ _, rfl,
        GTAO.gtao_createAttachmentCalls_view _ _ _ _ _ _, rfl, rfl, ?_⟩
      simp [hd]
    · refine ⟨_, _, _, _, HBAO.hbao_createAttachment_eq device format usage width height hu, rfl,
        HBAO.hbao_createAttachmentCalls_image _ _ _ _ _ _, rfl,
        HBAO.hbao_createAttachmentCalls_view _ _ _ _ _ _, rfl, rfl, ?_⟩
      simp [hd]
  · intro hc hd
    have hu : usage &&& VK_IMAGE_USAGE_COLOR_ATTACHMENT_BIT ≠ 0 ∨
        usage &&& VK_IMAGE_USAGE_DEPTH_STENCIL_ATTACHMENT_BIT ≠ 0 := Or.inl hc
    constructor
    · refine ⟨_, _, _, _, GTAO.gtao_createAttachment_eq device format usage width height hu, rfl,
        GTAO.gtao_createAttachmentCalls_image _ _ _ _ _ _, rfl,
        GTAO.gtao_createAttachmentCalls_view _ _ _ _ _ _, rfl, rfl, ?_⟩
      simp [hd]
    · refine ⟨_, _, _, _, HBAO.hbao_createAttachment_eq device format usage width height hu, rfl,
        HBAO.hbao_createAttachmentCalls_image _ _ _ _ _ _, rfl,
        HBAO.hbao_createAttachmentCalls_view _ _ _ _ _ _, rfl, rfl, ?_⟩
      simp [hd]

/-- C9. In both examples (for `gtao.cpp` in the configuration in which it
compiles, and with a supported depth format) `prepareOffscreenFramebuffers`
creates the three offscreen render passes with 4, 1 and 1 attachment
descriptions; every one of them has load op CLEAR and store op STORE; the
final layout is SHADER_READ_ONLY_OPTIMAL for the G-buffer attachments 0, 1, 2
(the colour attachments of its subpass) and for the two single attachments,
and DEPTH_STENCIL_READ_ONLY_OPTIMAL for the G-buffer attachment 3 (the depth
attachment of its subpass) and for no other. -/
theorem C9_attachment_descriptions (g : GTAO.VulkanExample) (h : HBAO.VulkanExample)
    (fg fh : VkFormat) (hA : g.ANDROID = false) (hg : g.supportedDepthFormat = some fg)
    (hh : h.supportedDepthFormat = some fh) :
    (∃ g' gBuffer occlusion blur,
      GTAO.prepareOffscreenFramebuffers g = some g' ∧
      g'.device.renderPassInfo g'.frameBuffers.offscreen.renderPass = some gBuffer ∧
      g'.device.renderPassInfo g'.frameBuffers.gtao.renderPass = some occlusion ∧
      g'.device.renderPassInfo g'.frameBuffers.gtaoBlur.renderPass = some blur ∧
      (∀ a ∈ gBuffer.pAttachments ++ occlusion.pAttachments ++ blur.pAttachments,
        a.loadOp = VK_ATTACHMENT_LOAD_OP_CLEAR ∧ a.storeOp = VK_ATTACHMENT_STORE_OP_STORE) ∧
      gBuffer.pAttachments.map (fun a => a.finalLayout) =
        [ VK_IMAGE_LAYOUT_SHADER_READ_ONLY_OPTIMAL, VK_IMAGE_LAYOUT_SHADER_READ_ONLY_OPTIMAL,
          VK_IMAGE_LAYOUT_SHADER_READ_ONLY_OPTIMAL, VK_IMAGE_LAYOUT_DEPTH_STENCIL_READ_ONLY_OPTIMAL ] ∧
      gBuffer.pSubpasses.map (fun sp => sp.pColorAttachments.map (fun r => r.attachment)) = [[0, 1, 2]] ∧
      gBuffer.pSubpasses.map (fun sp => sp.pDepthStencilAttachment.map (fun r => r.attachment)) = [some 3] ∧
      occlusion.pAttachments.map (fun a => a.finalLayout) = [VK_IMAGE_LAYOUT_SHADER_READ_ONLY_OPTIMAL] ∧
      blur.pAttachments.map (fun a => a.finalLayout) = [VK_IMAGE_LAYOUT_SHADER_READ_ONLY_OPTIMAL]) ∧
    (∃ h' gBuffer occlusion blur,
      HBAO.prepareOffscreenFramebuffers h = some h' ∧
      h'.device.renderPassInfo h'.frameBuffers.offscreen.renderPass = some gBuffer ∧
      h'.device.renderPassInfo h'.frameBuffers.hbao.renderPass = some occlusion ∧
      h'.device.renderPassInfo h'.frameBuffers.hbaoBlur.renderPass = some blur ∧
      (∀ a ∈ gBuffer.pAttachments ++ occlusion.pAttachments ++ blur.pAttachments,
        a.loadOp = VK_ATTACHMENT_LOAD_OP_CLEAR ∧ a.storeOp = VK_ATTACHMENT_STORE_OP_STORE) ∧
      gBuffer.pAttachments.map (fun a => a.finalLayout) =
        [ VK_IMAGE_LAYOUT_SHADER_READ_ONLY_OPTIMAL, VK_IMAGE_LAYOUT_SHADER_READ_ONLY_OPTIMAL,
          VK_IMAGE_LAYOUT_SHADER_READ_ONLY_OPTIMAL, VK_IMAGE_LAYOUT_DEPTH_STENCIL_READ_ONLY_OPTIMAL ] ∧
      gBuffer.pSubpasses.map (fun sp => sp.pColorAttachments.map (fun r => r.attachment)) = [[0, 1, 2]] ∧
      gBuffer.pSubpasses.map (fun sp => sp.pDepthStencilAttachment.map (fun r => r.attachment)) = [some 3] ∧
      occlusion.pAttachments.map (fun a => a.finalLayout) = [VK_IMAGE_LAYOUT_SHADER_READ_ONLY_OPTIMAL] ∧
      blur.pAttachments.map (fun a => a.finalLayout) = [VK_IMAGE_LAYOUT_SHADER_READ_ONLY_OPTIMAL]) := by
  constructor
  · obtain ⟨r1, r2, r3, -, -, -⟩ :=
      GTAO.gtao_offscreenCalls_lookup g.device g.width g.height g.width g.height fg
    refine ⟨_, _, _, _, GTAO.gtao_prepareOffscreenFramebuffers_eq g fg hA hg, r1, r2, r3, ?_,
      rfl, rfl, rfl, rfl, rfl⟩
    intro a ha
    simp [GTAO.gBufferRenderPassInfo, GTAO.gtaoRenderPassInfo, GTAO.gtaoBlurRenderPassInfo, span,
      List.range, List.range.loop, List.modify] at ha
    rcases ha with rfl | rfl | rfl | rfl | rfl | rfl <;> exact ⟨rfl, rfl⟩
  · obtain ⟨r1, r2, r3, -, -, -⟩ :=
      HBAO.hbao_offscreenCalls_lookup h.device h.width h.height
        (if h.ANDROID = true then h.width / 2 else h.width)
        (if h.ANDROID = true then h.height / 2 else h.height) fh
    refine ⟨_, _, _, _, HBAO.hbao_prepareOffscreenFramebuffers_eq h fh hh, r1, r2, r3, ?_,
      rfl, rfl, rfl, rfl, rfl⟩
    intro a ha
    simp [HBAO.gBufferRenderPassInfo, HBAO.hbaoRenderPassInfo, HBAO.hbaoBlurRenderPassInfo, span,
      List.range, List.range.loop, List.modify] at ha
    rcases ha with rfl | rfl | rfl | rfl | rfl | rfl <;> exact ⟨rfl, rfl⟩

/-- C10. In both examples each single-attachment render pass (occlusion-generate
and occlusion-blur) is created with exactly two dependencies; the second is the
first with source and destination exchanged in subpass index, stage mask and
access mask; the first goes from EXTERNAL to subpass 0 and ends in the
color-attachment-output stage with color read|write access; both carry the
BY_REGION flag. -/
theorem C10_symmetric_dependencies (g : GTAO.VulkanExample) (h : HBAO.VulkanExample)
    (fg fh : VkFormat) (hA : g.ANDROID = false) (hg : g.supportedDepthFormat = some fg)
    (hh : h.supportedDepthFormat = some fh) :
    (∃ g' occlusion blur,
      GTAO.prepareOffscreenFramebuffers g = some g' ∧
      g'.device.renderPassInfo g'.frameBuffers.gtao.renderPass = some occlusion ∧
      g'.device.renderPassInfo g'.frameBuffers.gtaoBlur.renderPass = some blur ∧
      ∀ rp ∈ [occlusion, blur], ∃ entry exit,
        rp.pAttachments.length = 1 ∧
        rp.pDependencies = [entry, exit] ∧ exit = entry.swapped ∧
        entry.srcSubpass = VK_SUBPASS_EXTERNAL ∧ entry.dstSubpass = 0 ∧
        entry.dstStageMask = VK_PIPELINE_STAGE_COLOR_ATTACHMENT_OUTPUT_BIT ∧
        entry.dstAccessMask =
          VK_ACCESS_COLOR_ATTACHMENT_READ_BIT ||| VK_ACCESS_COLOR_ATTACHMENT_WRITE_BIT ∧
        entry.dependencyFlags = VK_DEPENDENCY_BY_REGION_BIT ∧
        exit.dependencyFlags = VK_DEPENDENCY_BY_REGION_BIT) ∧
    (∃ h' occlusion blur,
      HBAO.prepareOffscreenFramebuffers h = some h' ∧
      h'.device.renderPassInfo h'.frameBuffers.hbao.renderPass = some occlusion ∧
      h'.device.renderPassInfo h'.frameBuffers.hbaoBlur.renderPass = some blur ∧
      ∀ rp ∈ [occlusion, blur], ∃ entry exit,
        rp.pAttachments.length = 1 ∧
        rp.pDependencies = [entry, exit] ∧ exit = entry.swapped ∧
        entry.srcSubpass = VK_SUBPASS_EXTERNAL ∧ entry.dstSubpass = 0 ∧
        entry.dstStageMask = VK_PIPELINE_STAGE_COLOR_ATTACHMENT_OUTPUT_BIT ∧
        entry.dstAccessMask =
          VK_ACCESS_COLOR_ATTACHMENT_READ_BIT ||| VK_ACCESS_COLOR_ATTACHMENT_WRITE_BIT ∧
        entry.dependencyFlags = VK_DEPENDENCY_BY_REGION_BIT ∧
        exit.dependencyFlags = VK_DEPENDENCY_BY_REGION_BIT) := by
  constructor
  · obtain ⟨-, r2, r3, -, -, -⟩ :=
      GTAO.gtao_offscreenCalls_lookup g.device g.width g.height g.width g.height fg
    refine ⟨_, _, _, GTAO.gtao_prepareOffscreenFramebuffers_eq g fg hA hg, r2, r3, ?_⟩
    intro rp hrp
    simp only [List.mem_cons, List.mem_singleton, List.not_mem_nil, or_false] at hrp
    rcases hrp with rfl | rfl <;>
      exact ⟨_, _, rfl, rfl, rfl, rfl, rfl, rfl, rfl, rfl, rfl⟩
  · obtain ⟨-, r2, r3, -, -, -⟩ :=
      HBAO.hbao_offscreenCalls_lookup h.device h.width h.height
        (if h.ANDROID = true then h.width / 2 else h.width)
        (if h.ANDROID = true then h.height / 2 else h.height) fh
    refine ⟨_, _, _, HBAO.hbao_prepareOffscreenFramebuffers_eq h fh hh, r2, r3, ?_⟩
    intro rp hrp
    simp only [List.mem_cons, List.mem_singleton, List.not_mem_nil, or_false] at hrp
    rcases hrp with rfl | rfl <;>
      exact ⟨_, _, rfl, rfl, rfl, rfl, rfl, rfl, rfl, rfl, rfl⟩

/-- C2 (what the code does). On the sample state, in both examples, the G-buffer
render pass is created with two dependencies, both from EXTERNAL to subpass 0:
the third entry of the `dependencies` array, from subpass 0 to EXTERNAL, is
not part of the created render pass. -/
theorem C2_gBuffer_dependencies_created :
    (∃ g' gBuffer,
      GTAO.prepareOffscreenFramebuffers GTAO.sampleState = some g' ∧
      g'.device.renderPassInfo g'.frameBuffers.offscreen.renderPass = some gBuffer ∧
      gBuffer.pDependencies.length = 2 ∧
      ∀ d ∈ gBuffer.pDependencies, d.srcSubpass = VK_SUBPASS_EXTERNAL ∧ d.dstSubpass = 0) ∧
    (∃ h' gBuffer,
      HBAO.prepareOffscreenFramebuffers HBAO.sampleState = some h' ∧
      h'.device.renderPassInfo h'.frameBuffers.offscreen.renderPass = some gBuffer ∧
      gBuffer.pDependencies.length = 2 ∧
      ∀ d ∈ gBuffer.pDependencies, d.srcSubpass = VK_SUBPASS_EXTERNAL ∧ d.dstSubpass = 0) := by
  constructor
  · obtain ⟨r1, -, -, -, -, -⟩ :=
      GTAO.gtao_offscreenCalls_lookup GTAO.sampleState.device 1280 720 1280 720 130
    refine ⟨_, _, GTAO.gtao_prepareOffscreenFramebuffers_eq GTAO.sampleState 130 rfl rfl, r1, rfl, ?_⟩
    decide
  · obtain ⟨r1, -, -, -, -, -⟩ :=
      HBAO.hbao_offscreenCalls_lookup HBAO.sampleState.device 1280 720 1280 720 130
    refine ⟨_, _, HBAO.hbao_prepareOffscreenFramebuffers_eq HBAO.sampleState 130 rfl, r1, rfl, ?_⟩
    decide

/-- C3 (amended). In both examples each of the four pipelines created by
`preparePipelines` (geometry-fill, composition, occlusion-generate,
occlusion-blur) is created with the same depth-stencil state: depth test
enabled, depth write enabled, compare op less-or-equal. -/
theorem C3_depth_state_shared (g : GTAO.VulkanExample) (h : HBAO.VulkanExample) :
    (∀ p ∈ [ (GTAO.preparePipelines g).pipelines.offscreen,
             (GTAO.preparePipelines g).pipelines.composition,
             (GTAO.preparePipelines g).pipelines.gtao,
             (GTAO.preparePipelines g).pipelines.gtaoBlur ],
      ∃ ci, Device.pipelineInfo (GTAO.preparePipelines g).device p = some ci ∧
        ci.pDepthStencilState =
          { depthTestEnable := true, depthWriteEnable := true,
            depthCompareOp := VK_COMPARE_OP_LESS_OR_EQUAL }) ∧
    (∀ p ∈ [ (HBAO.preparePipelines h).pipelines.offscreen,
             (HBAO.preparePipelines h).pipelines.composition,
             (HBAO.preparePipelines h).pipelines.hbao,
             (HBAO.preparePipelines h).pipelines.hbaoBlur ],
      ∃ ci, Device.pipelineInfo (HBAO.preparePipelines h).device p = some ci ∧
        ci.pDepthStencilState =
          { depthTestEnable := true, depthWriteEnable := true,
            depthCompareOp := VK_COMPARE_OP_LESS_OR_EQUAL }) :=
  ⟨GTAO.gtao_preparePipelines_depth g, HBAO.hbao_preparePipelines_depth h⟩

/-- C3 (counterexample). On the prepared sample state, in both examples, the
composition, occlusion-generate and occlusion-blur pipelines are created with
depth test enabled, not disabled. -/
theorem C3_fullscreen_depth_test_enabled :
    (∀ p ∈ [ GTAO.preparedSample.pipelines.composition, GTAO.preparedSample.pipelines.gtao,
             GTAO.preparedSample.pipelines.gtaoBlur ],
      ∃ ci, Device.pipelineInfo GTAO.preparedSample.device p = some ci ∧
        ci.pDepthStencilState.depthTestEnable = true) ∧
    (∀ p ∈ [ HBAO.preparedSample.pipelines.composition, HBAO.preparedSample.pipelines.hbao,
             HBAO.preparedSample.pipelines.hbaoBlur ],
      ∃ ci, Device.pipelineInfo HBAO.preparedSample.device p = some ci ∧
        ci.pDepthStencilState.depthTestEnable = true) := by
  constructor
  · intro p hp
    obtain ⟨ci, h1, h2⟩ := GTAO.gtao_prepare_depth _ _ GTAO.gtao_prepare_sample p
      (List.mem_cons_of_mem _ hp)
    exact ⟨ci, h1, by rw [h2]⟩
  · intro p hp
    obtain ⟨ci, h1, h2⟩ := HBAO.hbao_prepare_depth _ _ HBAO.hbao_prepare_sample p
      (List.mem_cons_of_mem _ hp)
    exact ⟨ci, h1, by rw [h2]⟩

/-- C9, at the sample states. -/
theorem C9_attachment_descriptions_witness :
    (∃ g' gBuffer occlusion blur,
      GTAO.prepareOffscreenFramebuffers GTAO.sampleState = some g' ∧
      g'.device.renderPassInfo g'.frameBuffers.offscreen.renderPass = some gBuffer ∧
      g'.device.renderPassInfo g'.frameBuffers.gtao.renderPass = some occlusion ∧
      g'.device.renderPassInfo g'.frameBuffers.gtaoBlur.renderPass = some blur ∧
      (∀ a ∈ gBuffer.pAttachments ++ occlusion.pAttachments ++ blur.pAttachments,
        a.loadOp = VK_ATTACHMENT_LOAD_OP_CLEAR ∧ a.storeOp = VK_ATTACHMENT_STORE_OP_STORE) ∧
      gBuffer.pAttachments.map (fun a => a.finalLayout) =
        [ VK_IMAGE_LAYOUT_SHADER_READ_ONLY_OPTIMAL, VK_IMAGE_LAYOUT_SHADER_READ_ONLY_OPTIMAL,
          VK_IMAGE_LAYOUT_SHADER_READ_ONLY_OPTIMAL, VK_IMAGE_LAYOUT_DEPTH_STENCIL_READ_ONLY_OPTIMAL ] ∧
      gBuffer.pSubpasses.map (fun sp => sp.pColorAttachments.map (fun r => r.attachment)) = [[0, 1, 2]] ∧
      gBuffer.pSubpasses.map (fun sp => sp.pDepthStencilAttachment.map (fun r => r.attachment)) = [some 3] ∧
      occlusion.pAttachments.map (fun a => a.finalLayout) = [VK_IMAGE_LAYOUT_SHADER_READ_ONLY_OPTIMAL] ∧
      blur.pAttachments.map (fun a => a.finalLayout) = [VK_IMAGE_LAYOUT_SHADER_READ_ONLY_OPTIMAL]) ∧
    (∃ h' gBuffer occlusion blur,
      HBAO.prepareOffscreenFramebuffers HBAO.sampleState = some h' ∧
      h'.device.renderPassInfo h'.frameBuffers.offscreen.renderPass = some gBuffer ∧
      h'.device.renderPassInfo h'.frameBuffers.hbao.renderPass = some occlusion ∧
      h'.device.renderPassInfo h'.frameBuffers.hbaoBlur.renderPass = some blur ∧
      (∀ a ∈ gBuffer.pAttachments ++ occlusion.pAttachments ++ blur.pAttachments,
        a.loadOp = VK_ATTACHMENT_LOAD_OP_CLEAR ∧ a.storeOp = VK_ATTACHMENT_STORE_OP_STORE) ∧
      gBuffer.pAttachments.map (fun a => a.finalLayout) =
        [ VK_IMAGE_LAYOUT_SHADER_READ_ONLY_OPTIMAL, VK_IMAGE_LAYOUT_SHADER_READ_ONLY_OPTIMAL,
          VK_IMAGE_LAYOUT_SHADER_READ_ONLY_OPTIMAL, VK_IMAGE_LAYOUT_DEPTH_STENCIL_READ_ONLY_OPTIMAL ] ∧
      gBuffer.pSubpasses.map (fun sp => sp.pColorAttachments.map (fun r => r.attachment)) = [[0, 1, 2]] ∧
      gBuffer.pSubpasses.map (fun sp => sp.pDepthStencilAttachment.map (fun r => r.attachment)) = [some 3] ∧
      occlusion.pAttachments.map (fun a => a.finalLayout) = [VK_IMAGE_LAYOUT_SHADER_READ_ONLY_OPTIMAL] ∧
      blur.pAttachments.map (fun a => a.finalLayout) = [VK_IMAGE_LAYOUT_SHADER_READ_ONLY_OPTIMAL]) :=
  C9_attachment_descriptions GTAO.sampleState HBAO.sampleState VK_FORMAT_D32_SFLOAT_S8_UINT
    VK_FORMAT_D32_SFLOAT_S8_UINT rfl rfl rfl

/-- C10, at the sample states. -/
theorem C10_symmetric_dependencies_witness :
    (∃ g' occlusion blur,
      GTAO.prepareOffscreenFramebuffers GTAO.sampleState = some g' ∧
      g'.device.renderPassInfo g'.frameBuffers.gtao.renderPass = some occlusion ∧
      g'.device.renderPassInfo g'.frameBuffers.gtaoBlur.renderPass = some blur ∧
      ∀ rp ∈ [occlusion, blur], ∃ entry exit,
        rp.pAttachments.length = 1 ∧
        rp.pDependencies = [entry, exit] ∧ exit = entry.swapped ∧
        entry.srcSubpass = VK_SUBPASS_EXTERNAL ∧ entry.dstSubpass = 0 ∧
        entry.dstStageMask = VK_PIPELINE_STAGE_COLOR_ATTACHMENT_OUTPUT_BIT ∧
        entry.dstAccessMask =
          VK_ACCESS_COLOR_ATTACHMENT_READ_BIT ||| VK_ACCESS_COLOR_ATTACHMENT_WRITE_BIT ∧
        entry.dependencyFlags = VK_DEPENDENCY_BY_REGION_BIT ∧
        exit.dependencyFlags = VK_DEPENDENCY_BY_REGION_BIT) ∧
    (∃ h' occlusion blur,
      HBAO.prepareOffscreenFramebuffers HBAO.sampleState = some h' ∧
      h'.device.renderPassInfo h'.frameBuffers.hbao.renderPass = some occlusion ∧
      h'.device.renderPassInfo h'.frameBuffers.hbaoBlur.renderPass = some blur ∧
      ∀ rp ∈ [occlusion, blur], ∃ entry exit,
        rp.pAttachments.length = 1 ∧
        rp.pDependencies = [entry, exit] ∧ exit = entry.swapped ∧
        entry.srcSubpass = VK_SUBPASS_EXTERNAL ∧ entry.dstSubpass = 0 ∧
        entry.dstStageMask = VK_PIPELINE_STAGE_COLOR_ATTACHMENT_OUTPUT_BIT ∧
        entry.dstAccessMask =
          VK_ACCESS_COLOR_ATTACHMENT_READ_BIT ||| VK_ACCESS_COLOR_ATTACHMENT_WRITE_BIT ∧
        entry.dependencyFlags = VK_DEPENDENCY_BY_REGION_BIT ∧
        exit.dependencyFlags = VK_DEPENDENCY_BY_REGION_BIT) :=
  C10_symmetric_dependencies GTAO.sampleState HBAO.sampleState VK_FORMAT_D32_SFLOAT_S8_UINT
    VK_FORMAT_D32_SFLOAT_S8_UINT rfl rfl rfl

/-- C5. In both examples, for a state with the descriptor sets `prepare` has
allocated and `currentBuffer` below `maxConcurrentFrames`: `updateUniformBuffers`
writes the three uniform buffers of slot `currentBuffer` and leaves the buffers
of every other slot as they are; `buildCommandBuffer` then records into the
command buffer of slot `currentBuffer` and binds exactly the four descriptor
sets of that slot, and none of the sets it binds is a set of another slot.
(The material sets the scene draw binds belong to the loaded model, not to a
slot.) -/
theorem C5_slot_consistency (g0 gp g : GTAO.VulkanExample) (h0 hp h : HBAO.VulkanExample)
    (hgp : GTAO.prepare g0 = some gp) (hgs : g.descriptorSets = gp.descriptorSets)
    (hgn : g.maxConcurrentFrames = g0.maxConcurrentFrames)
    (hgk : g.currentBuffer < g.maxConcurrentFrames)
    (hhp : HBAO.prepare h0 = some hp) (hhs : h.descriptorSets = hp.descriptorSets)
    (hhn : h.maxConcurrentFrames = h0.maxConcurrentFrames)
    (hhk : h.currentBuffer < h.maxConcurrentFrames) :
    ((∀ j, j ≠ g.currentBuffer →
        (GTAO.updateUniformBuffers g).uniformBuffers j = g.uniformBuffers j) ∧
     ((GTAO.updateUniformBuffers g).uniformBuffers g.currentBuffer).sceneParams.contents =
        some (GTAO.updateUniformBuffers g).uboSceneParams ∧
     ((GTAO.updateUniformBuffers g).uniformBuffers g.currentBuffer).gtaoParams.contents =
        some (GTAO.updateUniformBuffers g).uboGTAOParams ∧
     ((GTAO.updateUniformBuffers g).uniformBuffers g.currentBuffer).gtaoSettings.contents =
        some (GTAO.updateUniformBuffers g).uboGTAOSettings ∧
     (GTAO.buildCommandBuffer (GTAO.updateUniformBuffers g)).1 = g.drawCmdBuffers g.currentBuffer ∧
     boundDescriptorSets (GTAO.buildCommandBuffer (GTAO.updateUniformBuffers g)).2 =
       [ (g.descriptorSets g.currentBuffer).gBuffer, (g.descriptorSets g.currentBuffer).gtao,
         (g.descriptorSets g.currentBuffer).gtaoBlur, (g.descriptorSets g.currentBuffer).composition ] ∧
     ∀ j, j < g.maxConcurrentFrames → j ≠ g.currentBuffer →
       ∀ x ∈ boundDescriptorSets (GTAO.buildCommandBuffer (GTAO.updateUniformBuffers g)).2,
         x ∉ [ (g.descriptorSets j).gBuffer, (g.descriptorSets j).gtao,
               (g.descriptorSets j).gtaoBlur, (g.descriptorSets j).composition ]) ∧
    ((∀ j, j ≠ h.currentBuffer →
        (HBAO.updateUniformBuffers h).uniformBuffers j = h.uniformBuffers j) ∧
     ((HBAO.updateUniformBuffers h).uniformBuffers h.currentBuffer).sceneParams.contents =
        some (HBAO.updateUniformBuffers h).uboSceneParams ∧
     ((HBAO.updateUniformBuffers h).uniformBuffers h.currentBuffer).hbaoParams.contents =
        some (HBAO.updateUniformBuffers h).uboHBAOParams ∧
     ((HBAO.updateUniformBuffers h).uniformBuffers h.currentBuffer).hbaoSettings.contents =
        some (HBAO.updateUniformBuffers h).uboHBAOSettings ∧
     (HBAO.buildCommandBuffer (HBAO.updateUniformBuffers h)).1 = h.drawCmdBuffers h.currentBuffer ∧
     boundDescriptorSets (HBAO.buildCommandBuffer (HBAO.updateUniformBuffers h)).2 =
       [ (h.descriptorSets h.currentBuffer).gBuffer, (h.descriptorSets h.currentBuffer).hbao,
         (h.descriptorSets h.currentBuffer).hbaoBlur, (h.descriptorSets h.currentBuffer).composition ] ∧
     ∀ j, j < h.maxConcurrentFrames → j ≠ h.currentBuffer →
       ∀ x ∈ boundDescriptorSets (HBAO.buildCommandBuffer (HBAO.updateUniformBuffers h)).2,
         x ∉ [ (h.descriptorSets j).gBuffer, (h.descriptorSets j).hbao,
               (h.descriptorSets j).hbaoBlur, (h.descriptorSets j).composition ]) := by
  refine ⟨?_, ?_⟩
  · obtain ⟨-, hds⟩ := GTAO.gtao_prepare_handles g0 gp hgp
    have hbound : boundDescriptorSets (GTAO.buildCommandBuffer (GTAO.updateUniformBuffers g)).2 =
        [ (g.descriptorSets g.currentBuffer).gBuffer, (g.descriptorSets g.currentBuffer).gtao,
          (g.descriptorSets g.currentBuffer).gtaoBlur,
          (g.descriptorSets g.currentBuffer).composition ] := by
      simp [GTAO.buildCommandBuffer, GTAO.updateUniformBuffers, boundDescriptorSets,
        Cmd.descriptorSets, span]
    refine ⟨?_, ?_, ?_, ?_, rfl, hbound, ?_⟩
    · intro j hj
      simp [GTAO.updateUniformBuffers, GTAO.setGtaoOnly, Function.update, hj]
    · simp [GTAO.updateUniformBuffers, GTAO.setGtaoOnly, vks.Buffer.copyTo]
    · simp [GTAO.updateUniformBuffers, GTAO.setGtaoOnly, vks.Buffer.copyTo]
    · simp [GTAO.updateUniformBuffers, GTAO.setGtaoOnly, vks.Buffer.copyTo]
    · intro j hj hne x hx
      rw [hbound] at hx
      rw [hgs, hds j (by omega)]
      rw [hgs, hds g.currentBuffer (by omega)] at hx
      simp only [GTAO.setupDescriptorsFrameSets, List.mem_cons, List.mem_singleton,
        List.not_mem_nil, or_false] at hx ⊢
      omega
  · obtain ⟨-, hds⟩ := HBAO.hbao_prepare_handles h0 hp hhp
    have hbound : boundDescriptorSets (HBAO.buildCommandBuffer (HBAO.updateUniformBuffers h)).2 =
        [ (h.descriptorSets h.currentBuffer).gBuffer, (h.descriptorSets h.currentBuffer).hbao,
          (h.descriptorSets h.currentBuffer).hbaoBlur,
          (h.descriptorSets h.currentBuffer).composition ] := by
      simp [HBAO.buildCommandBuffer, HBAO.updateUniformBuffers, boundDescriptorSets,
        Cmd.descriptorSets, span]
    refine ⟨?_, ?_, ?_, ?_, rfl, hbound, ?_⟩
    · intro j hj
      simp [HBAO.updateUniformBuffers, HBAO.setHbaoOnly, Function.update, hj]
    · simp [HBAO.updateUniformBuffers, HBAO.setHbaoOnly, vks.Buffer.copyTo]
    · simp [HBAO.updateUniformBuffers, HBAO.setHbaoOnly, vks.Buffer.copyTo]
    · simp [HBAO.updateUniformBuffers, HBAO.setHbaoOnly, vks.Buffer.copyTo]
    · intro j hj hne x hx
      rw [hbound] at hx
      rw [hhs, hds j (by omega)]
      rw [hhs, hds h.currentBuffer (by omega)] at hx
      simp only [HBAO.setupDescriptorsFrameSets, List.mem_cons, List.mem_singleton,
        List.not_mem_nil, or_false] at hx ⊢
      omega

/-- C5, at the prepared sample states (slot 0 of two). -/
theorem C5_slot_consistency_witness :
    ((∀ j, j ≠ GTAO.preparedSample.currentBuffer →
        (GTAO.updateUniformBuffers GTAO.preparedSample).uniformBuffers j = GTAO.preparedSample.uniformBuffers j) ∧
     ((GTAO.updateUniformBuffers GTAO.preparedSample).uniformBuffers GTAO.preparedSample.currentBuffer).sceneParams.contents =
        some (GTAO.updateUniformBuffers GTAO.preparedSample).uboSceneParams ∧
     ((GTAO.updateUniformBuffers GTAO.preparedSample).uniformBuffers GTAO.preparedSample.currentBuffer).gtaoParams.contents =
        some (GTAO.updateUniformBuffers GTAO.preparedSample).uboGTAOParams ∧
     ((GTAO.updateUniformBuffers GTAO.preparedSample).uniformBuffers GTAO.preparedSample.currentBuffer).gtaoSettings.contents =
        some (GTAO.updateUniformBuffers GTAO.preparedSample).uboGTAOSettings ∧
     (GTAO.buildCommandBuffer (GTAO.updateUniformBuffers GTAO.preparedSample)).1 = GTAO.preparedSample.drawCmdBuffers GTAO.preparedSample.currentBuffer ∧
     boundDescriptorSets (GTAO.buildCommandBuffer (GTAO.updateUniformBuffers GTAO.preparedSample)).2 =
       [ (GTAO.preparedSample.descriptorSets GTAO.preparedSample.currentBuffer).gBuffer, (GTAO.preparedSample.descriptorSets GTAO.preparedSample.currentBuffer).gtao,
         (GTAO.preparedSample.descriptorSets GTAO.preparedSample.currentBuffer).gtaoBlur, (GTAO.preparedSample.descriptorSets GTAO.preparedSample.currentBuffer).composition ] ∧
     ∀ j, j < GTAO.preparedSample.maxConcurrentFrames → j ≠ GTAO.preparedSample.currentBuffer →
       ∀ x ∈ boundDescriptorSets (GTAO.buildCommandBuffer (GTAO.updateUniformBuffers GTAO.preparedSample)).2,
         x ∉ [ (GTAO.preparedSample.descriptorSets j).gBuffer, (GTAO.preparedSample.descriptorSets j).gtao,
               (GTAO.preparedSample.descriptorSets j).gtaoBlur, (GTAO.preparedSample.descriptorSets j).composition ]) ∧
    ((∀ j, j ≠ HBAO.preparedSample.currentBuffer →
        (HBAO.updateUniformBuffers HBAO.preparedSample).uniformBuffers j = HBAO.preparedSample.uniformBuffers j) ∧
     ((HBAO.updateUniformBuffers HBAO.preparedSample).uniformBuffers HBAO.preparedSample.currentBuffer).sceneParams.contents =
        some (HBAO.updateUniformBuffers HBAO.preparedSample).uboSceneParams ∧
     ((HBAO.updateUniformBuffers HBAO.preparedSample).uniformBuffers HBAO.preparedSample.currentBuffer).hbaoParams.contents =
        some (HBAO.updateUniformBuffers HBAO.preparedSample).uboHBAOParams ∧
     ((HBAO.updateUniformBuffers HBAO.preparedSample).uniformBuffers HBAO.preparedSample.currentBuffer).hbaoSettings.contents =
        some (HBAO.updateUniformBuffers HBAO.preparedSample).uboHBAOSettings ∧
     (HBAO.buildCommandBuffer (HBAO.updateUniformBuffers HBAO.preparedSample)).1 = HBAO.preparedSample.drawCmdBuffers HBAO.preparedSample.currentBuffer ∧
     boundDescriptorSets (HBAO.buildCommandBuffer (HBAO.updateUniformBuffers HBAO.preparedSample)).2 =
       [ (HBAO.preparedSample.descriptorSets HBAO.preparedSample.currentBuffer).gBuffer, (HBAO.preparedSample.descriptorSets HBAO.preparedSample.currentBuffer).hbao,
         (HBAO.preparedSample.descriptorSets HBAO.preparedSample.currentBuffer).hbaoBlur, (HBAO.preparedSample.descriptorSets HBAO.preparedSample.currentBuffer).composition ] ∧
     ∀ j, j < HBAO.preparedSample.maxConcurrentFrames → j ≠ HBAO.preparedSample.currentBuffer →
       ∀ x ∈ boundDescriptorSets (HBAO.buildCommandBuffer (HBAO.updateUniformBuffers HBAO.preparedSample)).2,
         x ∉ [ (HBAO.preparedSample.descriptorSets j).gBuffer, (HBAO.preparedSample.descriptorSets j).hbao,
               (HBAO.preparedSample.descriptorSets j).hbaoBlur, (HBAO.preparedSample.descriptorSets j).composition ]) :=
  C5_slot_consistency GTAO.sampleState GTAO.preparedSample GTAO.preparedSample
    HBAO.sampleState HBAO.preparedSample HBAO.preparedSample
    GTAO.gtao_prepare_sample rfl GTAO.gtao_sample_frames GTAO.gtao_sample_slot
    HBAO.hbao_prepare_sample rfl HBAO.hbao_sample_frames HBAO.hbao_sample_slot

/-- C6. In both examples, after `prepare` (whose `setupDescriptors` makes the
only descriptor writes) on a device whose earlier descriptor writes target
sets that exist, for every pair of slots `i`, `j` below
`maxConcurrentFrames`: the combined-image-sampler descriptors written on each
set of slot `i`, with their bindings, are those written on the corresponding
set of slot `j`; the uniform-buffer descriptors written on the sets of slot `i`
reference the scene-parameters buffer (binding 0), the settings buffer
(binding 2) and the parameters buffer (bindings 3 and 5) of `uniformBuffers i`,
and none of them references a buffer of another slot `j`. -/
theorem C6_descriptor_sharing (g0 gp : GTAO.VulkanExample) (h0 hp : HBAO.VulkanExample)
    (hgp : GTAO.prepare g0 = some gp) (hgb : Device.writesBounded g0.device)
    (hhp : HBAO.prepare h0 = some hp) (hhb : Device.writesBounded h0.device) :
    (∀ i j, i < g0.maxConcurrentFrames → j < g0.maxConcurrentFrames →
      (Device.imageInputs gp.device (gp.descriptorSets i).gBuffer =
         Device.imageInputs gp.device (gp.descriptorSets j).gBuffer ∧
       Device.imageInputs gp.device (gp.descriptorSets i).gtao =
         Device.imageInputs gp.device (gp.descriptorSets j).gtao ∧
       Device.imageInputs gp.device (gp.descriptorSets i).gtaoBlur =
         Device.imageInputs gp.device (gp.descriptorSets j).gtaoBlur ∧
       Device.imageInputs gp.device (gp.descriptorSets i).composition =
         Device.imageInputs gp.device (gp.descriptorSets j).composition) ∧
      (Device.bufferInputs gp.device (gp.descriptorSets i).gBuffer ++
        Device.bufferInputs gp.device (gp.descriptorSets i).gtao ++
        Device.bufferInputs gp.device (gp.descriptorSets i).gtaoBlur ++
        Device.bufferInputs gp.device (gp.descriptorSets i).composition).map
          (fun x => (x.1, x.2.buffer)) =
        [ (0, (gp.uniformBuffers i).sceneParams.buffer),
          (2, (gp.uniformBuffers i).gtaoSettings.buffer),
          (3, (gp.uniformBuffers i).gtaoParams.buffer),
          (5, (gp.uniformBuffers i).gtaoParams.buffer) ] ∧
      (j ≠ i →
        ∀ x ∈ Device.bufferInputs gp.device (gp.descriptorSets i).gBuffer ++
            Device.bufferInputs gp.device (gp.descriptorSets i).gtao ++
            Device.bufferInputs gp.device (gp.descriptorSets i).gtaoBlur ++
            Device.bufferInputs gp.device (gp.descriptorSets i).composition,
          x.2.buffer ∉ [ (gp.uniformBuffers j).sceneParams.buffer,
                         (gp.uniformBuffers j).gtaoSettings.buffer,
                         (gp.uniformBuffers j).gtaoParams.buffer ])) ∧
    (∀ i j, i < h0.maxConcurrentFrames → j < h0.maxConcurrentFrames →
      (Device.imageInputs hp.device (hp.descriptorSets i).gBuffer =
         Device.imageInputs hp.device (hp.descriptorSets j).gBuffer ∧
       Device.imageInputs hp.device (hp.descriptorSets i).hbao =
         Device.imageInputs hp.device (hp.descriptorSets j).hbao ∧
       Device.imageInputs hp.device (hp.descriptorSets i).hbaoBlur =
         Device.imageInputs hp.device (hp.descriptorSets j).hbaoBlur ∧
       Device.imageInputs hp.device (hp.descriptorSets i).composition =
         Device.imageInputs hp.device (hp.descriptorSets j).composition) ∧
      (Device.bufferInputs hp.device (hp.descriptorSets i).gBuffer ++
        Device.bufferInputs hp.device (hp.descriptorSets i).hbao ++
        Device.bufferInputs hp.device (hp.descriptorSets i).hbaoBlur ++
        Device.bufferInputs hp.device (hp.descriptorSets i).composition).map
          (fun x => (x.1, x.2.buffer)) =
        [ (0, (hp.uniformBuffers i).sceneParams.buffer),
          (2, (hp.uniformBuffers i).hbaoSettings.buffer),
          (3, (hp.uniformBuffers i).hbaoParams.buffer),
          (5, (hp.uniformBuffers i).hbaoParams.buffer) ] ∧
      (j ≠ i →
        ∀ x ∈ Device.bufferInputs hp.device (hp.descriptorSets i).gBuffer ++
            Device.bufferInputs hp.device (hp.descriptorSets i).hbao ++
            Device.bufferInputs hp.device (hp.descriptorSets i).hbaoBlur ++
            Device.bufferInputs hp.device (hp.descriptorSets i).composition,
          x.2.buffer ∉ [ (hp.uniformBuffers j).sceneParams.buffer,
                         (hp.uniformBuffers j).hbaoSettings.buffer,
                         (hp.uniformBuffers j).hbaoParams.buffer ])) := by
  refine ⟨?_, ?_⟩
  · intro i j hi hj
    obtain ⟨hub, -⟩ := GTAO.gtao_prepare_handles g0 gp hgp
    obtain ⟨i1, b1, i2, b2, i3, b3, i4, b4⟩ := GTAO.gtao_prepare_inputs g0 gp hgp hgb i hi
    obtain ⟨j1, -, j2, -, j3, -, j4, -⟩ := GTAO.gtao_prepare_inputs g0 gp hgp hgb j hj
    refine ⟨⟨?_, ?_, ?_, ?_⟩, ?_, ?_⟩
    · rw [i1, j1]
    · rw [i2, j2]
    · rw [i3, j3]
    · rw [i4, j4]
    · rw [b1, b2, b3, b4, hub i hi]
      simp [GTAO.prepareBuffersFrameBuffers]
    · intro hne x hx
      rw [b1, b2, b3, b4, hub i hi] at hx
      rw [hub j hj]
      simp only [GTAO.prepareBuffersFrameBuffers, List.mem_cons, List.mem_singleton,
        List.not_mem_nil, or_false, List.cons_append, List.nil_append, List.append_nil] at hx ⊢
      rcases hx with rfl | rfl | rfl | rfl <;> dsimp only <;> omega
  · intro i j hi hj
    obtain ⟨hub, -⟩ := HBAO.hbao_prepare_handles h0 hp hhp
    obtain ⟨i1, b1, i2, b2, i3, b3, i4, b4⟩ := HBAO.hbao_prepare_inputs h0 hp hhp hhb i hi
    obtain ⟨j1, -, j2, -, j3, -, j4, -⟩ := HBAO.hbao_prepare_inputs h0 hp hhp hhb j hj
    refine ⟨⟨?_, ?_, ?_, ?_⟩, ?_, ?_⟩
    · rw [i1, j1]
    · rw [i2, j2]
    · rw [i3, j3]
    · rw [i4, j4]
    · rw [b1, b2, b3, b4, hub i hi]
      simp [HBAO.prepareBuffersFrameBuffers]
    · intro hne x hx
      rw [b1, b2, b3, b4, hub i hi] at hx
      rw [hub j hj]
      simp only [HBAO.prepareBuffersFrameBuffers, List.mem_cons, List.mem_singleton,
        List.not_mem_nil, or_false, List.cons_append, List.nil_append, List.append_nil] at hx ⊢
      rcases hx with rfl | rfl | rfl | rfl <;> dsimp only <;> omega

/-- C6, at the sample states (two slots). -/
theorem C6_descriptor_sharing_witness :
    (∀ i j, i < GTAO.sampleState.maxConcurrentFrames → j < GTAO.sampleState.maxConcurrentFrames →
      (Device.imageInputs GTAO.preparedSample.device (GTAO.preparedSample.descriptorSets i).gBuffer =
         Device.imageInputs GTAO.preparedSample.device (GTAO.preparedSample.descriptorSets j).gBuffer ∧
       Device.imageInputs GTAO.preparedSample.device (GTAO.preparedSample.descriptorSets i).gtao =
         Device.imageInputs GTAO.preparedSample.device (GTAO.preparedSample.descriptorSets j).gtao ∧
       Device.imageInputs GTAO.preparedSample.device (GTAO.preparedSample.descriptorSets i).gtaoBlur =
         Device.imageInputs GTAO.preparedSample.device (GTAO.preparedSample.descriptorSets j).gtaoBlur ∧
       Device.imageInputs GTAO.preparedSample.device (GTAO.preparedSample.descriptorSets i).composition =
         Device.imageInputs GTAO.preparedSample.device (GTAO.preparedSample.descriptorSets j).composition) ∧
      (Device.bufferInputs GTAO.preparedSample.device (GTAO.preparedSample.descriptorSets i).gBuffer ++
        Device.bufferInputs GTAO.preparedSample.device (GTAO.preparedSample.descriptorSets i).gtao ++
        Device.bufferInputs GTAO.preparedSample.device (GTAO.preparedSample.descriptorSets i).gtaoBlur ++
        Device.bufferInputs GTAO.preparedSample.device (GTAO.preparedSample.descriptorSets i).composition).map
          (fun x => (x.1, x.2.buffer)) =
        [ (0, (GTAO.preparedSample.uniformBuffers i).sceneParams.buffer),
          (2, (GTAO.preparedSample.uniformBuffers i).gtaoSettings.buffer),
          (3, (GTAO.preparedSample.uniformBuffers i).gtaoParams.buffer),
          (5, (GTAO.preparedSample.uniformBuffers i).gtaoParams.buffer) ] ∧
      (j ≠ i →
        ∀ x ∈ Device.bufferInputs GTAO.preparedSample.device (GTAO.preparedSample.descriptorSets i).gBuffer ++
            Device.bufferInputs GTAO.preparedSample.device (GTAO.preparedSample.descriptorSets i).gtao ++
            Device.bufferInputs GTAO.preparedSample.device (GTAO.preparedSample.descriptorSets i).gtaoBlur ++
            Device.bufferInputs GTAO.preparedSample.device (GTAO.preparedSample.descriptorSets i).composition,
          x.2.buffer ∉ [ (GTAO.preparedSample.uniformBuffers j).sceneParams.buffer,
                         (GTAO.preparedSample.uniformBuffers j).gtaoSettings.buffer,
                         (GTAO.preparedSample.uniformBuffers j).gtaoParams.buffer ])) ∧
    (∀ i j, i < HBAO.sampleState.maxConcurrentFrames → j < HBAO.sampleState.maxConcurrentFrames →
      (Device.imageInputs HBAO.preparedSample.device (HBAO.preparedSample.descriptorSets i).gBuffer =
         Device.imageInputs HBAO.preparedSample.device (HBAO.preparedSample.descriptorSets j).gBuffer ∧
       Device.imageInputs HBAO.preparedSample.device (HBAO.preparedSample.descriptorSets i).hbao =
         Device.imageInputs HBAO.preparedSample.device (HBAO.preparedSample.descriptorSets j).hbao ∧
       Device.imageInputs HBAO.preparedSample.device (HBAO.preparedSample.descriptorSets i).hbaoBlur =
         Device.imageInputs HBAO.preparedSample.device (HBAO.preparedSample.descriptorSets j).hbaoBlur ∧
       Device.imageInputs HBAO.preparedSample.device (HBAO.preparedSample.descriptorSets i).composition =
         Device.imageInputs HBAO.preparedSample.device (HBAO.preparedSample.descriptorSets j).composition) ∧
      (Device.bufferInputs HBAO.preparedSample.device (HBAO.preparedSample.descriptorSets i).gBuffer ++
        Device.bufferInputs HBAO.preparedSample.device (HBAO.preparedSample.descriptorSets i).hbao ++
        Device.bufferInputs HBAO.preparedSample.device (HBAO.preparedSample.descriptorSets i).hbaoBlur ++
        Device.bufferInputs HBAO.preparedSample.device (HBAO.preparedSample.descriptorSets i).composition).map
          (fun x => (x.1, x.2.buffer)) =
        [ (0, (HBAO.preparedSample.uniformBuffers i).sceneParams.buffer),
          (2, (HBAO.preparedSample.uniformBuffers i).hbaoSettings.buffer),
          (3, (HBAO.preparedSample.uniformBuffers i).hbaoParams.buffer),
          (5, (HBAO.preparedSample.uniformBuffers i).hbaoParams.buffer) ] ∧
      (j ≠ i →
        ∀ x ∈ Device.bufferInputs HBAO.preparedSample.device (HBAO.preparedSample.descriptorSets i).gBuffer ++
            Device.bufferInputs HBAO.preparedSample.device (HBAO.preparedSample.descriptorSets i).hbao ++
            Device.bufferInputs HBAO.preparedSample.device (HBAO.preparedSample.descriptorSets i).hbaoBlur ++
            Device.bufferInputs HBAO.preparedSample.device (HBAO.preparedSample.descriptorSets i).composition,
          x.2.buffer ∉ [ (HBAO.preparedSample.uniformBuffers j).sceneParams.buffer,
                         (HBAO.preparedSample.uniformBuffers j).hbaoSettings.buffer,
                         (HBAO.preparedSample.uniformBuffers j).hbaoParams.buffer ])) :=
  C6_descriptor_sharing GTAO.sampleState GTAO.preparedSample HBAO.sampleState HBAO.preparedSample
    GTAO.gtao_prepare_sample GTAO.gtao_sample_bounded
    HBAO.hbao_prepare_sample HBAO.hbao_sample_bounded

/-- C7. In both examples, after `prepare` on a device whose earlier descriptor
writes target sets that exist, for every slot below
`maxConcurrentFrames` the sampled images written on the descriptor set of each
pass are, by binding: geometry-fill none; occlusion-generate the position view
at 0 and the normal view at 1, which are attachments 0 and 1 of the G-buffer
framebuffer; occlusion-blur the color view of the occlusion target (the
attachment of the occlusion framebuffer) at 0; composition the position,
normal, albedo, occlusion and blurred-occlusion views at 0 to 4. -/
theorem C7_sampled_inputs (g0 gp : GTAO.VulkanExample) (h0 hp : HBAO.VulkanExample)
    (hgp : GTAO.prepare g0 = some gp) (hgb : Device.writesBounded g0.device)
    (hhp : HBAO.prepare h0 = some hp) (hhb : Device.writesBounded h0.device) :
    (∀ i, i < g0.maxConcurrentFrames →
      Device.imageInputs gp.device (gp.descriptorSets i).gBuffer = [] ∧
      (Device.imageInputs gp.device (gp.descriptorSets i).gtao).map (fun x => (x.1, x.2.imageView)) =
        [ (0, gp.frameBuffers.offscreen.position.view), (1, gp.frameBuffers.offscreen.normal.view) ] ∧
      (∃ fb, Device.framebufferInfo gp.device gp.frameBuffers.offscreen.frameBuffer = some fb ∧
        fb.pAttachments[0]? = some gp.frameBuffers.offscreen.position.view ∧
        fb.pAttachments[1]? = some gp.frameBuffers.offscreen.normal.view ∧
        fb.pAttachments[2]? = some gp.frameBuffers.offscreen.albedo.view) ∧
      (Device.imageInputs gp.device (gp.descriptorSets i).gtaoBlur).map
          (fun x => (x.1, x.2.imageView)) =
        [ (0, gp.frameBuffers.gtao.color.view) ] ∧
      (∃ fb, Device.framebufferInfo gp.device gp.frameBuffers.gtao.frameBuffer = some fb ∧
        fb.pAttachments = [gp.frameBuffers.gtao.color.view]) ∧
      (Device.imageInputs gp.device (gp.descriptorSets i).composition).map
          (fun x => (x.1, x.2.imageView)) =
        [ (0, gp.frameBuffers.offscreen.position.view), (1, gp.frameBuffers.offscreen.normal.view),
          (2, gp.frameBuffers.offscreen.albedo.view), (3, gp.frameBuffers.gtao.color.view),
          (4, gp.frameBuffers.gtaoBlur.color.view) ] ∧
      (∃ fb, Device.framebufferInfo gp.device gp.frameBuffers.gtaoBlur.frameBuffer = some fb ∧
        fb.pAttachments = [gp.frameBuffers.gtaoBlur.color.view])) ∧
    (∀ i, i < h0.maxConcurrentFrames →
      Device.imageInputs hp.device (hp.descriptorSets i).gBuffer = [] ∧
      (Device.imageInputs hp.device (hp.descriptorSets i).hbao).map (fun x => (x.1, x.2.imageView)) =
        [ (0, hp.frameBuffers.offscreen.position.view), (1, hp.frameBuffers.offscreen.normal.view) ] ∧
      (∃ fb, Device.framebufferInfo hp.device hp.frameBuffers.offscreen.frameBuffer = some fb ∧
        fb.pAttachments[0]? = some hp.frameBuffers.offscreen.position.view ∧
        fb.pAttachments[1]? = some hp.frameBuffers.offscreen.normal.view ∧
        fb.pAttachments[2]? = some hp.frameBuffers.offscreen.albedo.view) ∧
      (Device.imageInputs hp.device (hp.descriptorSets i).hbaoBlur).map
          (fun x => (x.1, x.2.imageView)) =
        [ (0, hp.frameBuffers.hbao.color.view) ] ∧
      (∃ fb, Device.framebufferInfo hp.device hp.frameBuffers.hbao.frameBuffer = some fb ∧
        fb.pAttachments = [hp.frameBuffers.hbao.color.view]) ∧
      (Device.imageInputs hp.device (hp.descriptorSets i).composition).map
          (fun x => (x.1, x.2.imageView)) =
        [ (0, hp.frameBuffers.offscreen.position.view), (1, hp.frameBuffers.offscreen.normal.view),
          (2, hp.frameBuffers.offscreen.albedo.view), (3, hp.frameBuffers.hbao.color.view),
          (4, hp.frameBuffers.hbaoBlur.color.view) ] ∧
      (∃ fb, Device.framebufferInfo hp.device hp.frameBuffers.hbaoBlur.frameBuffer = some fb ∧
        fb.pAttachments = [hp.frameBuffers.hbaoBlur.color.view])) := by
  refine ⟨?_, ?_⟩
  · intro i hi
    obtain ⟨i1, -, i2, -, i3, -, i4, -⟩ := GTAO.gtao_prepare_inputs g0 gp hgp hgb i hi
    obtain ⟨-, -, -, f1, f2, f3⟩ := GTAO.gtao_prepare_targets g0 gp hgp
    refine ⟨i1, ?_, ⟨_, f1, rfl, rfl, rfl⟩, ?_, ⟨_, f2, rfl⟩, ?_, ⟨_, f3, rfl⟩⟩
    · rw [i2]; rfl
    · rw [i3]; rfl
    · rw [i4]; rfl
  · intro i hi
    obtain ⟨i1, -, i2, -, i3, -, i4, -⟩ := HBAO.hbao_prepare_inputs h0 hp hhp hhb i hi
    obtain ⟨-, -, -, f1, f2, f3⟩ := HBAO.hbao_prepare_targets h0 hp hhp
    refine ⟨i1, ?_, ⟨_, f1, rfl, rfl, rfl⟩, ?_, ⟨_, f2, rfl⟩, ?_, ⟨_, f3, rfl⟩⟩
    · rw [i2]; rfl
    · rw [i3]; rfl
    · rw [i4]; rfl

/-- C7, at the sample states (two slots). -/
theorem C7_sampled_inputs_witness :
    (∀ i, i < GTAO.sampleState.maxConcurrentFrames →
      Device.imageInputs GTAO.preparedSample.device (GTAO.preparedSample.descriptorSets i).gBuffer = [] ∧
      (Device.imageInputs GTAO.preparedSample.device (GTAO.preparedSample.descriptorSets i).gtao).map (fun x => (x.1, x.2.imageView)) =
        [ (0, GTAO.preparedSample.frameBuffers.offscreen.position.view), (1, GTAO.preparedSample.frameBuffers.offscreen.normal.view) ] ∧
      (∃ fb, Device.framebufferInfo GTAO.preparedSample.device GTAO.preparedSample.frameBuffers.offscreen.frameBuffer = some fb ∧
        fb.pAttachments[0]? = some GTAO.preparedSample.frameBuffers.offscreen.position.view ∧
        fb.pAttachments[1]? = some GTAO.preparedSample.frameBuffers.offscreen.normal.view ∧
        fb.pAttachments[2]? = some GTAO.preparedSample.frameBuffers.offscreen.albedo.view) ∧
      (Device.imageInputs GTAO.preparedSample.device (GTAO.preparedSample.descriptorSets i).gtaoBlur).map
          (fun x => (x.1, x.2.imageView)) =
        [ (0, GTAO.preparedSample.frameBuffers.gtao.color.view) ] ∧
      (∃ fb, Device.framebufferInfo GTAO.preparedSample.device GTAO.preparedSample.frameBuffers.gtao.frameBuffer = some fb ∧
        fb.pAttachments = [GTAO.preparedSample.frameBuffers.gtao.color.view]) ∧
      (Device.imageInputs GTAO.preparedSample.device (GTAO.preparedSample.descriptorSets i).composition).map
          (fun x => (x.1, x.2.imageView)) =
        [ (0, GTAO.preparedSample.frameBuffers.offscreen.position.view), (1, GTAO.preparedSample.frameBuffers.offscreen.normal.view),
          (2, GTAO.preparedSample.frameBuffers.offscreen.albedo.view), (3, GTAO.preparedSample.frameBuffers.gtao.color.view),
          (4, GTAO.preparedSample.frameBuffers.gtaoBlur.color.view) ] ∧
      (∃ fb, Device.framebufferInfo GTAO.preparedSample.device GTAO.preparedSample.frameBuffers.gtaoBlur.frameBuffer = some fb ∧
        fb.pAttachments = [GTAO.preparedSample.frameBuffers.gtaoBlur.color.view])) ∧
    (∀ i, i < HBAO.sampleState.maxConcurrentFrames →
      Device.imageInputs HBAO.preparedSample.device (HBAO.preparedSample.descriptorSets i).gBuffer = [] ∧
      (Device.imageInputs HBAO.preparedSample.device (HBAO.preparedSample.descriptorSets i).hbao).map (fun x => (x.1, x.2.imageView)) =
        [ (0, HBAO.preparedSample.frameBuffers.offscreen.position.view), (1, HBAO.preparedSample.frameBuffers.offscreen.normal.view) ] ∧
      (∃ fb, Device.framebufferInfo HBAO.preparedSample.device HBAO.preparedSample.frameBuffers.offscreen.frameBuffer = some fb ∧
        fb.pAttachments[0]? = some HBAO.preparedSample.frameBuffers.offscreen.position.view ∧
        fb.pAttachments[1]? = some HBAO.preparedSample.frameBuffers.offscreen.normal.view ∧
        fb.pAttachments[2]? = some HBAO.preparedSample.frameBuffers.offscreen.albedo.view) ∧
      (Device.imageInputs HBAO.preparedSample.device (HBAO.preparedSample.descriptorSets i).hbaoBlur).map
          (fun x => (x.1, x.2.imageView)) =
        [ (0, HBAO.preparedSample.frameBuffers.hbao.color.view) ] ∧
      (∃ fb, Device.framebufferInfo HBAO.preparedSample.device HBAO.preparedSample.frameBuffers.hbao.frameBuffer = some fb ∧
        fb.pAttachments = [HBAO.preparedSample.frameBuffers.hbao.color.view]) ∧
      (Device.imageInputs HBAO.preparedSample.device (HBAO.preparedSample.descriptorSets i).composition).map
          (fun x => (x.1, x.2.imageView)) =
        [ (0, HBAO.preparedSample.frameBuffers.offscreen.position.view), (1, HBAO.preparedSample.frameBuffers.offscreen.normal.view),
          (2, HBAO.preparedSample.frameBuffers.offscreen.albedo.view), (3, HBAO.preparedSample.frameBuffers.hbao.color.view),
          (4, HBAO.preparedSample.frameBuffers.hbaoBlur.color.view) ] ∧
      (∃ fb, Device.framebufferInfo HBAO.preparedSample.device HBAO.preparedSample.frameBuffers.hbaoBlur.frameBuffer = some fb ∧
        fb.pAttachments = [HBAO.preparedSample.frameBuffers.hbaoBlur.color.view])) :=
  C7_sampled_inputs GTAO.sampleState GTAO.preparedSample HBAO.sampleState HBAO.preparedSample
    GTAO.gtao_prepare_sample GTAO.gtao_sample_bounded
    HBAO.hbao_prepare_sample HBAO.hbao_sample_bounded

/-- C4 (amended). In both examples, take a state that has the device log and
the descriptor sets `prepare` leaves (on a device whose earlier descriptor
writes target sets that exist), uniform buffers with the descriptors
`prepare` gave them and `currentBuffer` below `maxConcurrentFrames`, and the
state that differs from it only in the show-occlusion-only toggle.  After
`updateUniformBuffers` and `buildCommandBuffer` the recorded commands of all
passes, the device log and the descriptor sets are the same in both runs, and
so are the scene-parameters and settings buffers of every slot and the
parameters buffers of the other slots.  The geometry-fill set references only
the scene-parameters buffer, so the inputs of that pass are identical.  The
parameters buffer of the current slot, which holds the toggle, is referenced
by the occlusion-generate set (binding 3) as well as by the composition set
(binding 5); it is the same buffer in both runs and its contents are the
parameters of the run, which differ in the toggle alone. -/
theorem C4_toggle_two_runs (g0 gp g : GTAO.VulkanExample) (v : Int)
    (h0 hp h : HBAO.VulkanExample) (w : Int)
    (hgp : GTAO.prepare g0 = some gp) (hgb : Device.writesBounded g0.device)
    (hgd : g.device = gp.device) (hgs : g.descriptorSets = gp.descriptorSets)
    (hgu : ∀ i,
      (g.uniformBuffers i).sceneParams.descriptor = (gp.uniformBuffers i).sceneParams.descriptor ∧
      (g.uniformBuffers i).gtaoSettings.descriptor = (gp.uniformBuffers i).gtaoSettings.descriptor ∧
      (g.uniformBuffers i).gtaoParams.descriptor = (gp.uniformBuffers i).gtaoParams.descriptor)
    (hgk : g.currentBuffer < gp.maxConcurrentFrames)
    (hhp : HBAO.prepare h0 = some hp) (hhb : Device.writesBounded h0.device)
    (hhd : h.device = hp.device) (hhs : h.descriptorSets = hp.descriptorSets)
    (hhu : ∀ i,
      (h.uniformBuffers i).sceneParams.descriptor = (hp.uniformBuffers i).sceneParams.descriptor ∧
      (h.uniformBuffers i).hbaoSettings.descriptor = (hp.uniformBuffers i).hbaoSettings.descriptor ∧
      (h.uniformBuffers i).hbaoParams.descriptor = (hp.uniformBuffers i).hbaoParams.descriptor)
    (hhk : h.currentBuffer < hp.maxConcurrentFrames) :
    (GTAO.buildCommandBuffer (GTAO.updateUniformBuffers (GTAO.setGtaoOnly g v)) = GTAO.buildCommandBuffer (GTAO.updateUniformBuffers g) ∧
     (GTAO.updateUniformBuffers (GTAO.setGtaoOnly g v)).device = (GTAO.updateUniformBuffers g).device ∧
     (GTAO.updateUniformBuffers (GTAO.setGtaoOnly g v)).descriptorSets = (GTAO.updateUniformBuffers g).descriptorSets ∧
     (∀ j, ((GTAO.updateUniformBuffers (GTAO.setGtaoOnly g v)).uniformBuffers j).sceneParams = ((GTAO.updateUniformBuffers g).uniformBuffers j).sceneParams ∧
           ((GTAO.updateUniformBuffers (GTAO.setGtaoOnly g v)).uniformBuffers j).gtaoSettings = ((GTAO.updateUniformBuffers g).uniformBuffers j).gtaoSettings) ∧
     (∀ j, j ≠ g.currentBuffer →
           ((GTAO.updateUniformBuffers (GTAO.setGtaoOnly g v)).uniformBuffers j).gtaoParams = ((GTAO.updateUniformBuffers g).uniformBuffers j).gtaoParams) ∧
     Device.bufferInputs (GTAO.updateUniformBuffers g).device ((GTAO.updateUniformBuffers g).descriptorSets g.currentBuffer).gBuffer =
       [ (0, ((GTAO.updateUniformBuffers g).uniformBuffers g.currentBuffer).sceneParams.descriptor) ] ∧
     Device.bufferInputs (GTAO.updateUniformBuffers g).device ((GTAO.updateUniformBuffers g).descriptorSets g.currentBuffer).gtao =
       [ (2, ((GTAO.updateUniformBuffers g).uniformBuffers g.currentBuffer).gtaoSettings.descriptor),
         (3, ((GTAO.updateUniformBuffers g).uniformBuffers g.currentBuffer).gtaoParams.descriptor) ] ∧
     Device.bufferInputs (GTAO.updateUniformBuffers g).device ((GTAO.updateUniformBuffers g).descriptorSets g.currentBuffer).gtaoBlur = [] ∧
     Device.bufferInputs (GTAO.updateUniformBuffers g).device ((GTAO.updateUniformBuffers g).descriptorSets g.currentBuffer).composition =
       [ (5, ((GTAO.updateUniformBuffers g).uniformBuffers g.currentBuffer).gtaoParams.descriptor) ] ∧
     ((GTAO.updateUniformBuffers (GTAO.setGtaoOnly g v)).uniformBuffers g.currentBuffer).gtaoParams.descriptor =
       ((GTAO.updateUniformBuffers g).uniformBuffers g.currentBuffer).gtaoParams.descriptor ∧
     ((GTAO.updateUniformBuffers g).uniformBuffers g.currentBuffer).gtaoParams.contents =
       some { g.uboGTAOParams with projection := g.camera.perspective } ∧
     ((GTAO.updateUniformBuffers (GTAO.setGtaoOnly g v)).uniformBuffers g.currentBuffer).gtaoParams.contents =
       some { g.uboGTAOParams with projection := g.camera.perspective, gtaoOnly := v }) ∧
    (HBAO.buildCommandBuffer (HBAO.updateUniformBuffers (HBAO.setHbaoOnly h w)) = HBAO.buildCommandBuffer (HBAO.updateUniformBuffers h) ∧
     (HBAO.updateUniformBuffers (HBAO.setHbaoOnly h w)).device = (HBAO.updateUniformBuffers h).device ∧
     (HBAO.updateUniformBuffers (HBAO.setHbaoOnly h w)).descriptorSets = (HBAO.updateUniformBuffers h).descriptorSets ∧
     (∀ j, ((HBAO.updateUniformBuffers (HBAO.setHbaoOnly h w)).uniformBuffers j).sceneParams = ((HBAO.updateUniformBuffers h).uniformBuffers j).sceneParams ∧
           ((HBAO.updateUniformBuffers (HBAO.setHbaoOnly h w)).uniformBuffers j).hbaoSettings = ((HBAO.updateUniformBuffers h).uniformBuffers j).hbaoSettings) ∧
     (∀ j, j ≠ h.currentBuffer →
           ((HBAO.updateUniformBuffers (HBAO.setHbaoOnly h w)).uniformBuffers j).hbaoParams = ((HBAO.updateUniformBuffers h).uniformBuffers j).hbaoParams) ∧
     Device.bufferInputs (HBAO.updateUniformBuffers h).device ((HBAO.updateUniformBuffers h).descriptorSets h.currentBuffer).gBuffer =
       [ (0, ((HBAO.updateUniformBuffers h).uniformBuffers h.currentBuffer).sceneParams.descriptor) ] ∧
     Device.bufferInputs (HBAO.updateUniformBuffers h).device ((HBAO.updateUniformBuffers h).descriptorSets h.currentBuffer).hbao =
       [ (2, ((HBAO.updateUniformBuffers h).uniformBuffers h.currentBuffer).hbaoSettings.descriptor),
         (3, ((HBAO.updateUniformBuffers h).uniformBuffers h.currentBuffer).hbaoParams.descriptor) ] ∧
     Device.bufferInputs (HBAO.updateUniformBuffers h).device ((HBAO.updateUniformBuffers h).descriptorSets h.currentBuffer).hbaoBlur = [] ∧
     Device.bufferInputs (HBAO.updateUniformBuffers h).device ((HBAO.updateUniformBuffers h).descriptorSets h.currentBuffer).composition =
       [ (5, ((HBAO.updateUniformBuffers h).uniformBuffers h.currentBuffer).hbaoParams.descriptor) ] ∧
     ((HBAO.updateUniformBuffers (HBAO.setHbaoOnly h w)).uniformBuffers h.currentBuffer).hbaoParams.descriptor =
       ((HBAO.updateUniformBuffers h).uniformBuffers h.currentBuffer).hbaoParams.descriptor ∧
     ((HBAO.updateUniformBuffers h).uniformBuffers h.currentBuffer).hbaoParams.contents =
       some { h.uboHBAOParams with projection := h.camera.perspective } ∧
     ((HBAO.updateUniformBuffers (HBAO.setHbaoOnly h w)).uniformBuffers h.currentBuffer).hbaoParams.contents =
       some { h.uboHBAOParams with projection := h.camera.perspective, hbaoOnly := w }) := by
  refine ⟨?_, ?_⟩
  · have hgi : g.currentBuffer < g0.maxConcurrentFrames := by
      rw [← (GTAO.gtao_prepare_frame g0 gp hgp).1]
      exact hgk
    obtain ⟨-, b1, -, b2, -, b3, -, b4⟩ := GTAO.gtao_prepare_inputs g0 gp hgp hgb g.currentBuffer hgi
    obtain ⟨u1, u2, u3⟩ := hgu g.currentBuffer
    refine ⟨rfl, rfl, rfl, ?_, ?_, ?_, ?_, ?_, ?_, ?_, ?_, ?_⟩
    · intro j
      by_cases hj : j = g.currentBuffer <;>
        simp [GTAO.updateUniformBuffers, GTAO.setGtaoOnly, Function.update, hj]
    · intro j hj
      simp [GTAO.updateUniformBuffers, GTAO.setGtaoOnly, Function.update, hj]
    · simp only [GTAO.updateUniformBuffers, Function.update_same, vks.Buffer.copyTo]
      rw [hgd, hgs, b1, u1]
    · simp only [GTAO.updateUniformBuffers, Function.update_same, vks.Buffer.copyTo]
      rw [hgd, hgs, b2, u2, u3]
    · simp only [GTAO.updateUniformBuffers]
      rw [hgd, hgs, b3]
    · simp only [GTAO.updateUniformBuffers, Function.update_same, vks.Buffer.copyTo]
      rw [hgd, hgs, b4, u3]
    · simp [GTAO.updateUniformBuffers, GTAO.setGtaoOnly, vks.Buffer.copyTo]
    · simp [GTAO.updateUniformBuffers, GTAO.setGtaoOnly, vks.Buffer.copyTo]
    · simp [GTAO.updateUniformBuffers, GTAO.setGtaoOnly, vks.Buffer.copyTo]
  · have hhi : h.currentBuffer < h0.maxConcurrentFrames := by
      rw [← (HBAO.hbao_prepare_frame h0 hp hhp).1]
      exact hhk
    obtain ⟨-, b1, -, b2, -, b3, -, b4⟩ := HBAO.hbao_prepare_inputs h0 hp hhp hhb h.currentBuffer hhi
    obtain ⟨u1, u2, u3⟩ := hhu h.currentBuffer
    refine ⟨rfl, rfl, rfl, ?_, ?_, ?_, ?_, ?_, ?_, ?_, ?_, ?_⟩
    · intro j
      by_cases hj : j = h.currentBuffer <;>
        simp [HBAO.updateUniformBuffers, HBAO.setHbaoOnly, Function.update, hj]
    · intro j hj
      simp [HBAO.updateUniformBuffers, HBAO.setHbaoOnly, Function.update, hj]
    · simp only [HBAO.updateUniformBuffers, Function.update_same, vks.Buffer.copyTo]
      rw [hhd, hhs, b1, u1]
    · simp only [HBAO.updateUniformBuffers, Function.update_same, vks.Buffer.copyTo]
      rw [hhd, hhs, b2, u2, u3]
    · simp only [HBAO.updateUniformBuffers]
      rw [hhd, hhs, b3]
    · simp only [HBAO.updateUniformBuffers, Function.update_same, vks.Buffer.copyTo]
      rw [hhd, hhs, b4, u3]
    · simp [HBAO.updateUniformBuffers, HBAO.setHbaoOnly, vks.Buffer.copyTo]
    · simp [HBAO.updateUniformBuffers, HBAO.setHbaoOnly, vks.Buffer.copyTo]
    · simp [HBAO.updateUniformBuffers, HBAO.setHbaoOnly, vks.Buffer.copyTo]

/-- C4 (amended), at the prepared sample states with the toggle switched from
0 to 1. -/
theorem C4_toggle_two_runs_witness :
    (GTAO.buildCommandBuffer (GTAO.updateUniformBuffers (GTAO.setGtaoOnly GTAO.preparedSample 1)) = GTAO.buildCommandBuffer (GTAO.updateUniformBuffers GTAO.preparedSample) ∧
     (GTAO.updateUniformBuffers (GTAO.setGtaoOnly GTAO.preparedSample 1)).device = (GTAO.updateUniformBuffers GTAO.preparedSample).device ∧
     (GTAO.updateUniformBuffers (GTAO.setGtaoOnly GTAO.preparedSample 1)).descriptorSets = (GTAO.updateUniformBuffers GTAO.preparedSample).descriptorSets ∧
     (∀ j, ((GTAO.updateUniformBuffers (GTAO.setGtaoOnly GTAO.preparedSample 1)).uniformBuffers j).sceneParams = ((GTAO.updateUniformBuffers GTAO.preparedSample).uniformBuffers j).sceneParams ∧
           ((GTAO.updateUniformBuffers (GTAO.setGtaoOnly GTAO.preparedSample 1)).uniformBuffers j).gtaoSettings = ((GTAO.updateUniformBuffers GTAO.preparedSample).uniformBuffers j).gtaoSettings) ∧
     (∀ j, j ≠ GTAO.preparedSample.currentBuffer →
           ((GTAO.updateUniformBuffers (GTAO.setGtaoOnly GTAO.preparedSample 1)).uniformBuffers j).gtaoParams = ((GTAO.updateUniformBuffers GTAO.preparedSample).uniformBuffers j).gtaoParams) ∧
     Device.bufferInputs (GTAO.updateUniformBuffers GTAO.preparedSample).device ((GTAO.updateUniformBuffers GTAO.preparedSample).descriptorSets GTAO.preparedSample.currentBuffer).gBuffer =
       [ (0, ((GTAO.updateUniformBuffers GTAO.preparedSample).uniformBuffers GTAO.preparedSample.currentBuffer).sceneParams.descriptor) ] ∧
     Device.bufferInputs (GTAO.updateUniformBuffers GTAO.preparedSample).device ((GTAO.updateUniformBuffers GTAO.preparedSample).descriptorSets GTAO.preparedSample.currentBuffer).gtao =
       [ (2, ((GTAO.updateUniformBuffers GTAO.preparedSample).uniformBuffers GTAO.preparedSample.currentBuffer).gtaoSettings.descriptor),
         (3, ((GTAO.updateUniformBuffers GTAO.preparedSample).uniformBuffers GTAO.preparedSample.currentBuffer).gtaoParams.descriptor) ] ∧
     Device.bufferInputs (GTAO.updateUniformBuffers GTAO.preparedSample).device ((GTAO.updateUniformBuffers GTAO.preparedSample).descriptorSets GTAO.preparedSample.currentBuffer).gtaoBlur = [] ∧
     Device.bufferInputs (GTAO.updateUniformBuffers GTAO.preparedSample).device ((GTAO.updateUniformBuffers GTAO.preparedSample).descriptorSets GTAO.preparedSample.currentBuffer).composition =
       [ (5, ((GTAO.updateUniformBuffers GTAO.preparedSample).uniformBuffers GTAO.preparedSample.currentBuffer).gtaoParams.descriptor) ] ∧
     ((GTAO.updateUniformBuffers (GTAO.setGtaoOnly GTAO.preparedSample 1)).uniformBuffers GTAO.preparedSample.currentBuffer).gtaoParams.descriptor =
       ((GTAO.updateUniformBuffers GTAO.preparedSample).uniformBuffers GTAO.preparedSample.currentBuffer).gtaoParams.descriptor ∧
     ((GTAO.updateUniformBuffers GTAO.preparedSample).uniformBuffers GTAO.preparedSample.currentBuffer).gtaoParams.contents =
       some { GTAO.preparedSample.uboGTAOParams with projection := GTAO.preparedSample.camera.perspective } ∧
     ((GTAO.updateUniformBuffers (GTAO.setGtaoOnly GTAO.preparedSample 1)).uniformBuffers GTAO.preparedSample.currentBuffer).gtaoParams.contents =
       some { GTAO.preparedSample.uboGTAOParams with projection := GTAO.preparedSample.camera.perspective, gtaoOnly := 1 }) ∧
    (HBAO.buildCommandBuffer (HBAO.updateUniformBuffers (HBAO.setHbaoOnly HBAO.preparedSample 1)) = HBAO.buildCommandBuffer (HBAO.updateUniformBuffers HBAO.preparedSample) ∧
     (HBAO.updateUniformBuffers (HBAO.setHbaoOnly HBAO.preparedSample 1)).device = (HBAO.updateUniformBuffers HBAO.preparedSample).device ∧
     (HBAO.updateUniformBuffers (HBAO.setHbaoOnly HBAO.preparedSample 1)).descriptorSets = (HBAO.updateUniformBuffers HBAO.preparedSample).descriptorSets ∧
     (∀ j, ((HBAO.updateUniformBuffers (HBAO.setHbaoOnly HBAO.preparedSample 1)).uniformBuffers j).sceneParams = ((HBAO.updateUniformBuffers HBAO.preparedSample).uniformBuffers j).sceneParams ∧
           ((HBAO.updateUniformBuffers (HBAO.setHbaoOnly HBAO.preparedSample 1)).uniformBuffers j).hbaoSettings = ((HBAO.updateUniformBuffers HBAO.preparedSample).uniformBuffers j).hbaoSettings) ∧
     (∀ j, j ≠ HBAO.preparedSample.currentBuffer →
           ((HBAO.updateUniformBuffers (HBAO.setHbaoOnly HBAO.preparedSample 1)).uniformBuffers j).hbaoParams = ((HBAO.updateUniformBuffers HBAO.preparedSample).uniformBuffers j).hbaoParams) ∧
     Device.bufferInputs (HBAO.updateUniformBuffers HBAO.preparedSample).device ((HBAO.updateUniformBuffers HBAO.preparedSample).descriptorSets HBAO.preparedSample.currentBuffer).gBuffer =
       [ (0, ((HBAO.updateUniformBuffers HBAO.preparedSample).uniformBuffers HBAO.preparedSample.currentBuffer).sceneParams.descriptor) ] ∧
     Device.bufferInputs (HBAO.updateUniformBuffers HBAO.preparedSample).device ((HBAO.updateUniformBuffers HBAO.preparedSample).descriptorSets HBAO.preparedSample.currentBuffer).hbao =
       [ (2, ((HBAO.updateUniformBuffers HBAO.preparedSample).uniformBuffers HBAO.preparedSample.currentBuffer).hbaoSettings.descriptor),
         (3, ((HBAO.updateUniformBuffers HBAO.preparedSample).uniformBuffers HBAO.preparedSample.currentBuffer).hbaoParams.descriptor) ] ∧
     Device.bufferInputs (HBAO.updateUniformBuffers HBAO.preparedSample).device ((HBAO.updateUniformBuffers HBAO.preparedSample).descriptorSets HBAO.preparedSample.currentBuffer).hbaoBlur = [] ∧
     Device.bufferInputs (HBAO.updateUniformBuffers HBAO.preparedSample).device ((HBAO.updateUniformBuffers HBAO.preparedSample).descriptorSets HBAO.preparedSample.currentBuffer).composition =
       [ (5, ((HBAO.updateUniformBuffers HBAO.preparedSample).uniformBuffers HBAO.preparedSample.currentBuffer).hbaoParams.descriptor) ] ∧
     ((HBAO.updateUniformBuffers (HBAO.setHbaoOnly HBAO.preparedSample 1)).uniformBuffers HBAO.preparedSample.currentBuffer).hbaoParams.descriptor =
       ((HBAO.updateUniformBuffers HBAO.preparedSample).uniformBuffers HBAO.preparedSample.currentBuffer).hbaoParams.descriptor ∧
     ((HBAO.updateUniformBuffers HBAO.preparedSample).uniformBuffers HBAO.preparedSample.currentBuffer).hbaoParams.contents =
       some { HBAO.preparedSample.uboHBAOParams with projection := HBAO.preparedSample.camera.perspective } ∧
     ((HBAO.updateUniformBuffers (HBAO.setHbaoOnly HBAO.preparedSample 1)).uniformBuffers HBAO.preparedSample.currentBuffer).hbaoParams.contents =
       some { HBAO.preparedSample.uboHBAOParams with projection := HBAO.preparedSample.camera.perspective, hbaoOnly := 1 }) :=
  C4_toggle_two_runs GTAO.sampleState GTAO.preparedSample GTAO.preparedSample 1
    HBAO.sampleState HBAO.preparedSample HBAO.preparedSample 1
    GTAO.gtao_prepare_sample GTAO.gtao_sample_bounded rfl rfl (fun _ => ⟨rfl, rfl, rfl⟩)
    GTAO.gtao_sample_slot
    HBAO.hbao_prepare_sample HBAO.hbao_sample_bounded rfl rfl (fun _ => ⟨rfl, rfl, rfl⟩)
    HBAO.hbao_sample_slot

/-- C4 (counterexample). In both examples, the prepared sample state and the
state that differs from it only in the show-occlusion-only toggle: after
`updateUniformBuffers` the occlusion-generate descriptor set of the current
slot references, at binding 3, the parameters buffer of that slot in both runs,
and the contents of that buffer differ between the runs.  So an input of the
occlusion-generate pass differs. -/
theorem C4_occlusion_inputs_differ :
    (∃ d,
      (3, d) ∈ Device.bufferInputs (GTAO.updateUniformBuffers GTAO.preparedSample).device
        ((GTAO.updateUniformBuffers GTAO.preparedSample).descriptorSets
          GTAO.preparedSample.currentBuffer).gtao ∧
      (3, d) ∈ Device.bufferInputs (GTAO.updateUniformBuffers GTAO.toggledSample).device
        ((GTAO.updateUniformBuffers GTAO.toggledSample).descriptorSets
          GTAO.toggledSample.currentBuffer).gtao ∧
      ((GTAO.updateUniformBuffers GTAO.preparedSample).uniformBuffers
        GTAO.preparedSample.currentBuffer).gtaoParams.descriptor = d ∧
      ((GTAO.updateUniformBuffers GTAO.toggledSample).uniformBuffers
        GTAO.toggledSample.currentBuffer).gtaoParams.descriptor = d ∧
      ((GTAO.updateUniformBuffers GTAO.preparedSample).uniformBuffers
        GTAO.preparedSample.currentBuffer).gtaoParams.contents ≠
      ((GTAO.updateUniformBuffers GTAO.toggledSample).uniformBuffers
        GTAO.toggledSample.currentBuffer).gtaoParams.contents) ∧
    (∃ d,
      (3, d) ∈ Device.bufferInputs (HBAO.updateUniformBuffers HBAO.preparedSample).device
        ((HBAO.updateUniformBuffers HBAO.preparedSample).descriptorSets
          HBAO.preparedSample.currentBuffer).hbao ∧
      (3, d) ∈ Device.bufferInputs (HBAO.updateUniformBuffers HBAO.toggledSample).device
        ((HBAO.updateUniformBuffers HBAO.toggledSample).descriptorSets
          HBAO.toggledSample.currentBuffer).hbao ∧
      ((HBAO.updateUniformBuffers HBAO.preparedSample).uniformBuffers
        HBAO.preparedSample.currentBuffer).hbaoParams.descriptor = d ∧
      ((HBAO.updateUniformBuffers HBAO.toggledSample).uniformBuffers
        HBAO.toggledSample.currentBuffer).hbaoParams.descriptor = d ∧
      ((HBAO.updateUniformBuffers HBAO.preparedSample).uniformBuffers
        HBAO.preparedSample.currentBuffer).hbaoParams.contents ≠
      ((HBAO.updateUniformBuffers HBAO.toggledSample).uniformBuffers
        HBAO.toggledSample.currentBuffer).hbaoParams.contents) := by
  refine ⟨?_, ?_⟩
  · have hk : GTAO.preparedSample.currentBuffer < GTAO.sampleState.maxConcurrentFrames := by
      rw [← GTAO.gtao_sample_frames]
      exact GTAO.gtao_sample_slot
    obtain ⟨-, -, -, b2, -⟩ := GTAO.gtao_prepare_inputs GTAO.sampleState GTAO.preparedSample
      GTAO.gtao_prepare_sample GTAO.gtao_sample_bounded GTAO.preparedSample.currentBuffer hk
    have h0 := GTAO.gtao_sample_toggle
    refine ⟨(GTAO.preparedSample.uniformBuffers GTAO.preparedSample.currentBuffer).gtaoParams.descriptor,
      ?_, ?_, ?_, ?_, ?_⟩
    · simp only [GTAO.updateUniformBuffers]
      rw [b2]
      simp
    · simp only [GTAO.updateUniformBuffers, GTAO.toggledSample, GTAO.setGtaoOnly]
      rw [b2]
      simp
    · simp [GTAO.updateUniformBuffers, GTAO.setGtaoOnly, vks.Buffer.copyTo]
    · simp [GTAO.updateUniformBuffers, GTAO.toggledSample, GTAO.setGtaoOnly, vks.Buffer.copyTo]
    · simp [GTAO.updateUniformBuffers, GTAO.toggledSample, GTAO.setGtaoOnly, vks.Buffer.copyTo, h0]
  · have hk : HBAO.preparedSample.currentBuffer < HBAO.sampleState.maxConcurrentFrames := by
      rw [← HBAO.hbao_sample_frames]
      exact HBAO.hbao_sample_slot
    obtain ⟨-, -, -, b2, -⟩ := HBAO.hbao_prepare_inputs HBAO.sampleState HBAO.preparedSample
      HBAO.hbao_prepare_sample HBAO.hbao_sample_bounded HBAO.preparedSample.currentBuffer hk
    have h0 := HBAO.hbao_sample_toggle
    refine ⟨(HBAO.preparedSample.uniformBuffers HBAO.preparedSample.currentBuffer).hbaoParams.descriptor,
      ?_, ?_, ?_, ?_, ?_⟩
    · simp only [HBAO.updateUniformBuffers]
      rw [b2]
      simp
    · simp only [HBAO.updateUniformBuffers, HBAO.toggledSample, HBAO.setHbaoOnly]
      rw [b2]
      simp
    · simp [HBAO.updateUniformBuffers, HBAO.setHbaoOnly, vks.Buffer.copyTo]
    · simp [HBAO.updateUniformBuffers, HBAO.toggledSample, HBAO.setHbaoOnly, vks.Buffer.copyTo]
    · simp [HBAO.updateUniformBuffers, HBAO.toggledSample, HBAO.setHbaoOnly, vks.Buffer.copyTo, h0]

/-- C11. In both examples (for `gtao.cpp` in the configuration in which it
compiles, and with a supported depth format) the first dependency of the
G-buffer render pass `prepareOffscreenFramebuffers` creates goes from EXTERNAL
to subpass 0, with source and destination stage masks both early|late fragment
tests, source access depth-stencil-attachment write and destination access
depth-stencil-attachment write|read. -/
theorem C11_first_dependency (g : GTAO.VulkanExample) (h : HBAO.VulkanExample)
    (fg fh : VkFormat) (hA : g.ANDROID = false) (hg : g.supportedDepthFormat = some fg)
    (hh : h.supportedDepthFormat = some fh) :
    (∃ g' gBuffer d,
      GTAO.prepareOffscreenFramebuffers g = some g' ∧
      g'.device.renderPassInfo g'.frameBuffers.offscreen.renderPass = some gBuffer ∧
      gBuffer.pDependencies.head? = some d ∧
      d.srcSubpass = VK_SUBPASS_EXTERNAL ∧ d.dstSubpass = 0 ∧
      d.srcStageMask =
        VK_PIPELINE_STAGE_EARLY_FRAGMENT_TESTS_BIT ||| VK_PIPELINE_STAGE_LATE_FRAGMENT_TESTS_BIT ∧
      d.dstStageMask =
        VK_PIPELINE_STAGE_EARLY_FRAGMENT_TESTS_BIT ||| VK_PIPELINE_STAGE_LATE_FRAGMENT_TESTS_BIT ∧
      d.srcAccessMask = VK_ACCESS_DEPTH_STENCIL_ATTACHMENT_WRITE_BIT ∧
      d.dstAccessMask =
        VK_ACCESS_DEPTH_STENCIL_ATTACHMENT_WRITE_BIT ||| VK_ACCESS_DEPTH_STENCIL_ATTACHMENT_READ_BIT) ∧
    (∃ h' gBuffer d,
      HBAO.prepareOffscreenFramebuffers h = some h' ∧
      h'.device.renderPassInfo h'.frameBuffers.offscreen.renderPass = some gBuffer ∧
      gBuffer.pDependencies.head? = some d ∧
      d.srcSubpass = VK_SUBPASS_EXTERNAL ∧ d.dstSubpass = 0 ∧
      d.srcStageMask =
        VK_PIPELINE_STAGE_EARLY_FRAGMENT_TESTS_BIT ||| VK_PIPELINE_STAGE_LATE_FRAGMENT_TESTS_BIT ∧
      d.dstStageMask =
        VK_PIPELINE_STAGE_EARLY_FRAGMENT_TESTS_BIT ||| VK_PIPELINE_STAGE_LATE_FRAGMENT_TESTS_BIT ∧
      d.srcAccessMask = VK_ACCESS_DEPTH_STENCIL_ATTACHMENT_WRITE_BIT ∧
      d.dstAccessMask =
        VK_ACCESS_DEPTH_STENCIL_ATTACHMENT_WRITE_BIT ||| VK_ACCESS_DEPTH_STENCIL_ATTACHMENT_READ_BIT) := by
  refine ⟨?_, ?_⟩
  · obtain ⟨r1, -, -, -, -, -⟩ :=
      GTAO.gtao_offscreenCalls_lookup g.device g.width g.height g.width g.height fg
    exact ⟨_, _, _, GTAO.gtao_prepareOffscreenFramebuffers_eq g fg hA hg, r1, rfl,
      rfl, rfl, rfl, rfl, rfl, rfl⟩
  · obtain ⟨r1, -, -, -, -, -⟩ :=
      HBAO.hbao_offscreenCalls_lookup h.device h.width h.height
      (if h.ANDROID = true then h.width / 2 else h.width)
      (if h.ANDROID = true then h.height / 2 else h.height) fh
    exact ⟨_, _, _, HBAO.hbao_prepareOffscreenFramebuffers_eq h fh hh, r1, rfl,
      rfl, rfl, rfl, rfl, rfl, rfl⟩

/-- C11, at the sample states. -/
theorem C11_first_dependency_witness :
    (∃ g' gBuffer d,
      GTAO.prepareOffscreenFramebuffers GTAO.sampleState = some g' ∧
      g'.device.renderPassInfo g'.frameBuffers.offscreen.renderPass = some gBuffer ∧
      gBuffer.pDependencies.head? = some d ∧
      d.srcSubpass = VK_SUBPASS_EXTERNAL ∧ d.dstSubpass = 0 ∧
      d.srcStageMask =
        VK_PIPELINE_STAGE_EARLY_FRAGMENT_TESTS_BIT ||| VK_PIPELINE_STAGE_LATE_FRAGMENT_TESTS_BIT ∧
      d.dstStageMask =
        VK_PIPELINE_STAGE_EARLY_FRAGMENT_TESTS_BIT ||| VK_PIPELINE_STAGE_LATE_FRAGMENT_TESTS_BIT ∧
      d.srcAccessMask = VK_ACCESS_DEPTH_STENCIL_ATTACHMENT_WRITE_BIT ∧
      d.dstAccessMask =
        VK_ACCESS_DEPTH_STENCIL_ATTACHMENT_WRITE_BIT ||| VK_ACCESS_DEPTH_STENCIL_ATTACHMENT_READ_BIT) ∧
    (∃ h' gBuffer d,
      HBAO.prepareOffscreenFramebuffers HBAO.sampleState = some h' ∧
      h'.device.renderPassInfo h'.frameBuffers.offscreen.renderPass = some gBuffer ∧
      gBuffer.pDependencies.head? = some d ∧
      d.srcSubpass = VK_SUBPASS_EXTERNAL ∧ d.dstSubpass = 0 ∧
      d.srcStageMask =
        VK_PIPELINE_STAGE_EARLY_FRAGMENT_TESTS_BIT ||| VK_PIPELINE_STAGE_LATE_FRAGMENT_TESTS_BIT ∧
      d.dstStageMask =
        VK_PIPELINE_STAGE_EARLY_FRAGMENT_TESTS_BIT ||| VK_PIPELINE_STAGE_LATE_FRAGMENT_TESTS_BIT ∧
      d.srcAccessMask = VK_ACCESS_DEPTH_STENCIL_ATTACHMENT_WRITE_BIT ∧
      d.dstAccessMask =
        VK_ACCESS_DEPTH_STENCIL_ATTACHMENT_WRITE_BIT ||| VK_ACCESS_DEPTH_STENCIL_ATTACHMENT_READ_BIT) :=
  C11_first_dependency GTAO.sampleState HBAO.sampleState VK_FORMAT_D32_SFLOAT_S8_UINT
    VK_FORMAT_D32_SFLOAT_S8_UINT rfl rfl rfl

/-- C13. In both examples, after `prepare`, the fragment stage of the
occlusion-generate pipeline (and no other of its stages) is created with
specialization data (directionNums, stepNums) = (8, 6) of 8 bytes and the two
map entries constant 0 at offset 0, size 4 and constant 1 at offset 4, size 4,
which do not overlap and lie within the data; the composition, blur and
geometry-fill pipelines are created with no specialization info on any
stage. -/
theorem C13_specialization_constants (g0 gp : GTAO.VulkanExample) (h0 hp : HBAO.VulkanExample)
    (hgp : GTAO.prepare g0 = some gp) (hhp : HBAO.prepare h0 = some hp) :
    ((∃ ci si, Device.pipelineInfo gp.device gp.pipelines.gtao = some ci ∧
        ci.pStages.map (fun st => (st.stage, st.pSpecializationInfo)) =
          [ (VK_SHADER_STAGE_VERTEX_BIT, none), (VK_SHADER_STAGE_FRAGMENT_BIT, some si) ] ∧
        si.pData = [8, 6] ∧ si.dataSize = 8 ∧
        si.pMapEntries = [ { constantID := 0, offset := 0, size := 4 },
                           { constantID := 1, offset := 4, size := 4 } ] ∧
        si.pMapEntries.Pairwise
          (fun a b => a.offset + a.size ≤ b.offset ∨ b.offset + b.size ≤ a.offset) ∧
        ∀ e ∈ si.pMapEntries, e.offset + e.size ≤ si.dataSize) ∧
     ∀ p ∈ [ gp.pipelines.composition, gp.pipelines.gtaoBlur, gp.pipelines.offscreen ],
       ∃ ci, Device.pipelineInfo gp.device p = some ci ∧
         ci.pStages.map (fun st => st.pSpecializationInfo) = [none, none]) ∧
    ((∃ ci si, Device.pipelineInfo hp.device hp.pipelines.hbao = some ci ∧
        ci.pStages.map (fun st => (st.stage, st.pSpecializationInfo)) =
          [ (VK_SHADER_STAGE_VERTEX_BIT, none), (VK_SHADER_STAGE_FRAGMENT_BIT, some si) ] ∧
        si.pData = [8, 6] ∧ si.dataSize = 8 ∧
        si.pMapEntries = [ { constantID := 0, offset := 0, size := 4 },
                           { constantID := 1, offset := 4, size := 4 } ] ∧
        si.pMapEntries.Pairwise
          (fun a b => a.offset + a.size ≤ b.offset ∨ b.offset + b.size ≤ a.offset) ∧
        ∀ e ∈ si.pMapEntries, e.offset + e.size ≤ si.dataSize) ∧
     ∀ p ∈ [ hp.pipelines.composition, hp.pipelines.hbaoBlur, hp.pipelines.offscreen ],
       ∃ ci, Device.pipelineInfo hp.device p = some ci ∧
         ci.pStages.map (fun st => st.pSpecializationInfo) = [none, none]) := by
  refine ⟨?_, ?_⟩
  · obtain ⟨⟨c1, i1, -, -, -, -, s1⟩, ⟨c2, i2, -, -, -, -, s2⟩, ⟨c3, i3, -, -, -, -, s3⟩,
      ⟨c4, i4, -, -, -, -, s4⟩⟩ := GTAO.gtao_prepare_pipelineInfos g0 gp hgp
    refine ⟨⟨c3, _, i3, s3, rfl, rfl, rfl, ?_, ?_⟩, ?_⟩
    · simp
    · simp
    · intro p hp
      simp only [List.mem_cons, List.mem_singleton, List.not_mem_nil, or_false] at hp
      rcases hp with rfl | rfl | rfl
      · exact ⟨c2, i2, s2⟩
      · exact ⟨c4, i4, s4⟩
      · exact ⟨c1, i1, s1⟩
  · obtain ⟨⟨c1, i1, -, -, -, -, s1⟩, ⟨c2, i2, -, -, -, -, s2⟩, ⟨c3, i3, -, -, -, -, s3⟩,
      ⟨c4, i4, -, -, -, -, s4⟩⟩ := HBAO.hbao_prepare_pipelineInfos h0 hp hhp
    refine ⟨⟨c3, _, i3, s3, rfl, rfl, rfl, ?_, ?_⟩, ?_⟩
    · simp
    · simp
    · intro p hp
      simp only [List.mem_cons, List.mem_singleton, List.not_mem_nil, or_false] at hp
      rcases hp with rfl | rfl | rfl
      · exact ⟨c2, i2, s2⟩
      · exact ⟨c4, i4, s4⟩
      · exact ⟨c1, i1, s1⟩

/-- C13, at the sample states. -/
theorem C13_specialization_constants_witness :
    ((∃ ci si, Device.pipelineInfo GTAO.preparedSample.device GTAO.preparedSample.pipelines.gtao = some ci ∧
        ci.pStages.map (fun st => (st.stage, st.pSpecializationInfo)) =
          [ (VK_SHADER_STAGE_VERTEX_BIT, none), (VK_SHADER_STAGE_FRAGMENT_BIT, some si) ] ∧
        si.pData = [8, 6] ∧ si.dataSize = 8 ∧
        si.pMapEntries = [ { constantID := 0, offset := 0, size := 4 },
                           { constantID := 1, offset := 4, size := 4 } ] ∧
        si.pMapEntries.Pairwise
          (fun a b => a.offset + a.size ≤ b.offset ∨ b.offset + b.size ≤ a.offset) ∧
        ∀ e ∈ si.pMapEntries, e.offset + e.size ≤ si.dataSize) ∧
     ∀ p ∈ [ GTAO.preparedSample.pipelines.composition, GTAO.preparedSample.pipelines.gtaoBlur, GTAO.preparedSample.pipelines.offscreen ],
       ∃ ci, Device.pipelineInfo GTAO.preparedSample.device p = some ci ∧
         ci.pStages.map (fun st => st.pSpecializationInfo) = [none, none]) ∧
    ((∃ ci si, Device.pipelineInfo HBAO.preparedSample.device HBAO.preparedSample.pipelines.hbao = some ci ∧
        ci.pStages.map (fun st => (st.stage, st.pSpecializationInfo)) =
          [ (VK_SHADER_STAGE_VERTEX_BIT, none), (VK_SHADER_STAGE_FRAGMENT_BIT, some si) ] ∧
        si.pData = [8, 6] ∧ si.dataSize = 8 ∧
        si.pMapEntries = [ { constantID := 0, offset := 0, size := 4 },
                           { constantID := 1, offset := 4, size := 4 } ] ∧
        si.pMapEntries.Pairwise
          (fun a b => a.offset + a.size ≤ b.offset ∨ b.offset + b.size ≤ a.offset) ∧
        ∀ e ∈ si.pMapEntries, e.offset + e.size ≤ si.dataSize) ∧
     ∀ p ∈ [ HBAO.preparedSample.pipelines.composition, HBAO.preparedSample.pipelines.hbaoBlur, HBAO.preparedSample.pipelines.offscreen ],
       ∃ ci, Device.pipelineInfo HBAO.preparedSample.device p = some ci ∧
         ci.pStages.map (fun st => st.pSpecializationInfo) = [none, none]) :=
  C13_specialization_constants GTAO.sampleState GTAO.preparedSample
    HBAO.sampleState HBAO.preparedSample GTAO.gtao_prepare_sample HBAO.hbao_prepare_sample

/-- C12. In both examples, after `prepare`: the geometry-fill pipeline is
created with exactly three colour-blend attachment states, each with blending
disabled and colour write mask 0xf, and three is the number of colour
attachments of the subpass of the G-buffer render pass it is created for; each
of the three full-screen pipelines is created with exactly one such state, and
one is the number of colour attachments of the subpass of its render pass.
For the composition pipeline that render pass is the one of the swap chain,
which the base class creates: `rg` and `rh` are its create-infos, taken to
have one colour attachment in subpass 0. -/
theorem C12_blend_attachments (g0 gp : GTAO.VulkanExample) (h0 hp : HBAO.VulkanExample)
    (rg rh : VkRenderPassCreateInfo)
    (hgp : GTAO.prepare g0 = some gp)
    (hgr : Device.renderPassInfo g0.device g0.renderPass = some rg)
    (hgc : (rg.pSubpasses[0]?).map (fun sub => sub.pColorAttachments.length) = some 1)
    (hhp : HBAO.prepare h0 = some hp)
    (hhr : Device.renderPassInfo h0.device h0.renderPass = some rh)
    (hhc : (rh.pSubpasses[0]?).map (fun sub => sub.pColorAttachments.length) = some 1) :
    ((∃ ci rp, Device.pipelineInfo gp.device gp.pipelines.offscreen = some ci ∧
        ci.renderPass = gp.frameBuffers.offscreen.renderPass ∧
        ci.pColorBlendState.pAttachments =
          [ { colorWriteMask := 0xf, blendEnable := false },
            { colorWriteMask := 0xf, blendEnable := false },
            { colorWriteMask := 0xf, blendEnable := false } ] ∧
        Device.renderPassInfo gp.device ci.renderPass = some rp ∧
        (rp.pSubpasses[ci.subpass]?).map (fun sub => sub.pColorAttachments.length) = some 3) ∧
     ∀ pr ∈ [ (gp.pipelines.gtao, gp.frameBuffers.gtao.renderPass),
              (gp.pipelines.gtaoBlur, gp.frameBuffers.gtaoBlur.renderPass),
              (gp.pipelines.composition, gp.renderPass) ],
       ∃ ci rp, Device.pipelineInfo gp.device pr.1 = some ci ∧
         ci.renderPass = pr.2 ∧
         ci.pColorBlendState.pAttachments = [ { colorWriteMask := 0xf, blendEnable := false } ] ∧
         Device.renderPassInfo gp.device ci.renderPass = some rp ∧
         (rp.pSubpasses[ci.subpass]?).map (fun sub => sub.pColorAttachments.length) = some 1) ∧
    ((∃ ci rp, Device.pipelineInfo hp.device hp.pipelines.offscreen = some ci ∧
        ci.renderPass = hp.frameBuffers.offscreen.renderPass ∧
        ci.pColorBlendState.pAttachments =
          [ { colorWriteMask := 0xf, blendEnable := false },
            { colorWriteMask := 0xf, blendEnable := false },
            { colorWriteMask := 0xf, blendEnable := false } ] ∧
        Device.renderPassInfo hp.device ci.renderPass = some rp ∧
        (rp.pSubpasses[ci.subpass]?).map (fun sub => sub.pColorAttachments.length) = some 3) ∧
     ∀ pr ∈ [ (hp.pipelines.hbao, hp.frameBuffers.hbao.renderPass),
              (hp.pipelines.hbaoBlur, hp.frameBuffers.hbaoBlur.renderPass),
              (hp.pipelines.composition, hp.renderPass) ],
       ∃ ci rp, Device.pipelineInfo hp.device pr.1 = some ci ∧
         ci.renderPass = pr.2 ∧
         ci.pColorBlendState.pAttachments = [ { colorWriteMask := 0xf, blendEnable := false } ] ∧
         Device.renderPassInfo hp.device ci.renderPass = some rp ∧
         (rp.pSubpasses[ci.subpass]?).map (fun sub => sub.pColorAttachments.length) = some 1) := by
  refine ⟨?_, ?_⟩
  · obtain ⟨⟨c1, i1, r1, u1, b1, -, -⟩, ⟨c2, i2, r2, u2, b2, -, -⟩, ⟨c3, i3, r3, u3, b3, -, -⟩,
      ⟨c4, i4, r4, u4, b4, -, -⟩⟩ := GTAO.gtao_prepare_pipelineInfos g0 gp hgp
    obtain ⟨t1, t3, t4, -, -, -⟩ := GTAO.gtao_prepare_targets g0 gp hgp
    have t2 := GTAO.gtao_prepare_swapChainPass g0 gp hgp rg hgr
    refine ⟨⟨c1, _, i1, r1, b1, by rw [r1]; exact t1, ?_⟩, ?_⟩
    · rw [u1]
      simp [GTAO.gBufferRenderPassInfo, span]
    · intro pr hpr
      simp only [List.mem_cons, List.mem_singleton, List.not_mem_nil, or_false] at hpr
      rcases hpr with rfl | rfl | rfl
      · refine ⟨c3, _, i3, r3, b3, by rw [r3]; exact t3, ?_⟩
        rw [u3]
        simp [GTAO.gtaoRenderPassInfo, span]
      · refine ⟨c4, _, i4, r4, b4, by rw [r4]; exact t4, ?_⟩
        rw [u4]
        simp [GTAO.gtaoBlurRenderPassInfo, span]
      · refine ⟨c2, _, i2, r2, b2, by rw [r2]; exact t2, ?_⟩
        rw [u2]
        exact hgc
  · obtain ⟨⟨c1, i1, r1, u1, b1, -, -⟩, ⟨c2, i2, r2, u2, b2, -, -⟩, ⟨c3, i3, r3, u3, b3, -, -⟩,
      ⟨c4, i4, r4, u4, b4, -, -⟩⟩ := HBAO.hbao_prepare_pipelineInfos h0 hp hhp
    obtain ⟨t1, t3, t4, -, -, -⟩ := HBAO.hbao_prepare_targets h0 hp hhp
    have t2 := HBAO.hbao_prepare_swapChainPass h0 hp hhp rh hhr
    refine ⟨⟨c1, _, i1, r1, b1, by rw [r1]; exact t1, ?_⟩, ?_⟩
    · rw [u1]
      simp [HBAO.gBufferRenderPassInfo, span]
    · intro pr hpr
      simp only [List.mem_cons, List.mem_singleton, List.not_mem_nil, or_false] at hpr
      rcases hpr with rfl | rfl | rfl
      · refine ⟨c3, _, i3, r3, b3, by rw [r3]; exact t3, ?_⟩
        rw [u3]
        simp [HBAO.hbaoRenderPassInfo, span]
      · refine ⟨c4, _, i4, r4, b4, by rw [r4]; exact t4, ?_⟩
        rw [u4]
        simp [HBAO.hbaoBlurRenderPassInfo, span]
      · refine ⟨c2, _, i2, r2, b2, by rw [r2]; exact t2, ?_⟩
        rw [u2]
        exact hhc

/-- C12, at the sample states, whose swap-chain render pass is
`sampleSwapChainRenderPass`. -/
theorem C12_blend_attachments_witness :
    ((∃ ci rp, Device.pipelineInfo GTAO.preparedSample.device GTAO.preparedSample.pipelines.offscreen = some ci ∧
        ci.renderPass = GTAO.preparedSample.frameBuffers.offscreen.renderPass ∧
        ci.pColorBlendState.pAttachments =
          [ { colorWriteMask := 0xf, blendEnable := false },
            { colorWriteMask := 0xf, blendEnable := false },
            { colorWriteMask := 0xf, blendEnable := false } ] ∧
        Device.renderPassInfo GTAO.preparedSample.device ci.renderPass = some rp ∧
        (rp.pSubpasses[ci.subpass]?).map (fun sub => sub.pColorAttachments.length) = some 3) ∧
     ∀ pr ∈ [ (GTAO.preparedSample.pipelines.gtao, GTAO.preparedSample.frameBuffers.gtao.renderPass),
              (GTAO.preparedSample.pipelines.gtaoBlur, GTAO.preparedSample.frameBuffers.gtaoBlur.renderPass),
              (GTAO.preparedSample.pipelines.composition, GTAO.preparedSample.renderPass) ],
       ∃ ci rp, Device.pipelineInfo GTAO.preparedSample.device pr.1 = some ci ∧
         ci.renderPass = pr.2 ∧
         ci.pColorBlendState.pAttachments = [ { colorWriteMask := 0xf, blendEnable := false } ] ∧
         Device.renderPassInfo GTAO.preparedSample.device ci.renderPass = some rp ∧
         (rp.pSubpasses[ci.subpass]?).map (fun sub => sub.pColorAttachments.length) = some 1) ∧
    ((∃ ci rp, Device.pipelineInfo HBAO.preparedSample.device HBAO.preparedSample.pipelines.offscreen = some ci ∧
        ci.renderPass = HBAO.preparedSample.frameBuffers.offscreen.renderPass ∧
        ci.pColorBlendState.pAttachments =
          [ { colorWriteMask := 0xf, blendEnable := false },
            { colorWriteMask := 0xf, blendEnable := false },
            { colorWriteMask := 0xf, blendEnable := false } ] ∧
        Device.renderPassInfo HBAO.preparedSample.device ci.renderPass = some rp ∧
        (rp.pSubpasses[ci.subpass]?).map (fun sub => sub.pColorAttachments.length) = some 3) ∧
     ∀ pr ∈ [ (HBAO.preparedSample.pipelines.hbao, HBAO.preparedSample.frameBuffers.hbao.renderPass),
              (HBAO.preparedSample.pipelines.hbaoBlur, HBAO.preparedSample.frameBuffers.hbaoBlur.renderPass),
              (HBAO.preparedSample.pipelines.composition, HBAO.preparedSample.renderPass) ],
       ∃ ci rp, Device.pipelineInfo HBAO.preparedSample.device pr.1 = some ci ∧
         ci.renderPass = pr.2 ∧
         ci.pColorBlendState.pAttachments = [ { colorWriteMask := 0xf, blendEnable := false } ] ∧
         Device.renderPassInfo HBAO.preparedSample.device ci.renderPass = some rp ∧
         (rp.pSubpasses[ci.subpass]?).map (fun sub => sub.pColorAttachments.length) = some 1) :=
  C12_blend_attachments GTAO.sampleState GTAO.preparedSample HBAO.sampleState HBAO.preparedSample
    sampleSwapChainRenderPass sampleSwapChainRenderPass
    GTAO.gtao_prepare_sample rfl rfl HBAO.hbao_prepare_sample rfl rfl

/-- C20. In both examples, for every state, the command stream
`buildCommandBuffer` records is: begin command buffer, then commands each of
which is a render-pass begin or end, a set-viewport, a set-scissor, a pipeline
bind, a descriptor-set bind, a `vkCmdDraw`, the scene draw or the overlay
draw, then end command buffer; no command of the stream is a pipeline barrier
or an event set, reset or wait. -/
theorem C20_no_explicit_synchronization (g : GTAO.VulkanExample) (h : HBAO.VulkanExample) :
    (∃ middle, (GTAO.buildCommandBuffer g).2 =
        Cmd.vkBeginCommandBuffer :: (middle ++ [Cmd.vkEndCommandBuffer]) ∧
      (∀ c ∈ middle, c.isPassCommand = true) ∧
      ∀ c ∈ (GTAO.buildCommandBuffer g).2, c.isSynchronization = false) ∧
    (∃ middle, (HBAO.buildCommandBuffer h).2 =
        Cmd.vkBeginCommandBuffer :: (middle ++ [Cmd.vkEndCommandBuffer]) ∧
      (∀ c ∈ middle, c.isPassCommand = true) ∧
      ∀ c ∈ (HBAO.buildCommandBuffer h).2, c.isSynchronization = false) := by
  refine ⟨?_, ?_⟩
  · have hcmds := GTAO.gtao_buildCommandBuffer_cmds g
    have h2 : ∀ c ∈ (GTAO.buildCommandBuffer g).2.tail.dropLast, c.isPassCommand = true := by
      rw [hcmds]
      exact List.all_eq_true.mp rfl
    have h3 : ∀ c ∈ (GTAO.buildCommandBuffer g).2, (!c.isSynchronization) = true := by
      rw [hcmds]
      exact List.all_eq_true.mp rfl
    refine ⟨(GTAO.buildCommandBuffer g).2.tail.dropLast, ?_, h2, ?_⟩
    · rw [hcmds]
      rfl
    · intro c hc
      simpa using h3 c hc
  · have hcmds := HBAO.hbao_buildCommandBuffer_cmds h
    have h2 : ∀ c ∈ (HBAO.buildCommandBuffer h).2.tail.dropLast, c.isPassCommand = true := by
      rw [hcmds]
      exact List.all_eq_true.mp rfl
    have h3 : ∀ c ∈ (HBAO.buildCommandBuffer h).2, (!c.isSynchronization) = true := by
      rw [hcmds]
      exact List.all_eq_true.mp rfl
    refine ⟨(HBAO.buildCommandBuffer h).2.tail.dropLast, ?_, h2, ?_⟩
    · rw [hcmds]
      rfl
    · intro c hc
      simpa using h3 c hc

/-- C19. In both examples: `render` does nothing when `prepared` is false, to
the state or to the log; when it is true it calls exactly `prepareFrame`
(acquire, after the fence wait), `updateUniformBuffers`, `buildCommandBuffer`
and `submitFrame`, in this order, all on the current slot: the state after it
is the one `submitFrame` leaves after `updateUniformBuffers` after
`prepareFrame`, and the commands recorded are the ones `buildCommandBuffer`
records once the uniform buffers are updated.  Hence `n` successive calls in a
prepared state take these four steps `n` times over, frame `i` on slot
`(currentBuffer + i) mod maxConcurrentFrames`, and record `n` command
buffers: the acquires and submits are `n` each and alternate, and the
uniform-buffer write of a frame comes right after the acquire of that
frame. -/
theorem C19_render_steps (g : GTAO.VulkanExample) (h : HBAO.VulkanExample) :
    ((g.prepared = false → ∀ (acquired : Nat) (log : FrameLog),
        GTAO.render g acquired log = (g, log)) ∧
     (g.prepared = true → ∀ (acquired : Nat) (log : FrameLog),
        GTAO.render g acquired log =
          (GTAO.submitFrame (GTAO.updateUniformBuffers (GTAO.prepareFrame g acquired)),
            { steps := log.steps ++
                [ ({ call := FrameCall.prepareFrame, currentBuffer := g.currentBuffer } : FrameStep),
                  { call := FrameCall.updateUniformBuffers, currentBuffer := g.currentBuffer },
                  { call := FrameCall.buildCommandBuffer, currentBuffer := g.currentBuffer },
                  { call := FrameCall.submitFrame, currentBuffer := g.currentBuffer } ],
              recorded := log.recorded ++
                [GTAO.buildCommandBuffer
                  (GTAO.updateUniformBuffers (GTAO.prepareFrame g acquired))] })) ∧
     (g.prepared = true → g.currentBuffer < g.maxConcurrentFrames → ∀ acquired : List Nat,
       (GTAO.renderFrames g {} acquired).2.steps =
         (List.range acquired.length).flatMap (fun i =>
           [ ({ call := FrameCall.prepareFrame, currentBuffer := (g.currentBuffer + i) % g.maxConcurrentFrames } : FrameStep),
             { call := FrameCall.updateUniformBuffers, currentBuffer := (g.currentBuffer + i) % g.maxConcurrentFrames },
             { call := FrameCall.buildCommandBuffer, currentBuffer := (g.currentBuffer + i) % g.maxConcurrentFrames },
             { call := FrameCall.submitFrame, currentBuffer := (g.currentBuffer + i) % g.maxConcurrentFrames } ]) ∧
       (GTAO.renderFrames g {} acquired).2.steps.filter FrameStep.isAcquireOrSubmit =
         (List.range acquired.length).flatMap (fun i =>
           [ ({ call := FrameCall.prepareFrame, currentBuffer := (g.currentBuffer + i) % g.maxConcurrentFrames } : FrameStep),
             { call := FrameCall.submitFrame, currentBuffer := (g.currentBuffer + i) % g.maxConcurrentFrames } ]) ∧
       (GTAO.renderFrames g {} acquired).2.recorded.length = acquired.length)) ∧
    ((h.prepared = false → ∀ (acquired : Nat) (log : FrameLog),
        HBAO.render h acquired log = (h, log)) ∧
     (h.prepared = true → ∀ (acquired : Nat) (log : FrameLog),
        HBAO.render h acquired log =
          (HBAO.submitFrame (HBAO.updateUniformBuffers (HBAO.prepareFrame h acquired)),
            { steps := log.steps ++
                [ ({ call := FrameCall.prepareFrame, currentBuffer := h.currentBuffer } : FrameStep),
                  { call := FrameCall.updateUniformBuffers, currentBuffer := h.currentBuffer },
                  { call := FrameCall.buildCommandBuffer, currentBuffer := h.currentBuffer },
                  { call := FrameCall.submitFrame, currentBuffer := h.currentBuffer } ],
              recorded := log.recorded ++
                [HBAO.buildCommandBuffer
                  (HBAO.updateUniformBuffers (HBAO.prepareFrame h acquired))] })) ∧
     (h.prepared = true → h.currentBuffer < h.maxConcurrentFrames → ∀ acquired : List Nat,
       (HBAO.renderFrames h {} acquired).2.steps =
         (List.range acquired.length).flatMap (fun i =>
           [ ({ call := FrameCall.prepareFrame, currentBuffer := (h.currentBuffer + i) % h.maxConcurrentFrames } : FrameStep),
             { call := FrameCall.updateUniformBuffers, currentBuffer := (h.currentBuffer + i) % h.maxConcurrentFrames },
             { call := FrameCall.buildCommandBuffer, currentBuffer := (h.currentBuffer + i) % h.maxConcurrentFrames },
             { call := FrameCall.submitFrame, currentBuffer := (h.currentBuffer + i) % h.maxConcurrentFrames } ]) ∧
       (HBAO.renderFrames h {} acquired).2.steps.filter FrameStep.isAcquireOrSubmit =
         (List.range acquired.length).flatMap (fun i =>
           [ ({ call := FrameCall.prepareFrame, currentBuffer := (h.currentBuffer + i) % h.maxConcurrentFrames } : FrameStep),
             { call := FrameCall.submitFrame, currentBuffer := (h.currentBuffer + i) % h.maxConcurrentFrames } ]) ∧
       (HBAO.renderFrames h {} acquired).2.recorded.length = acquired.length)) := by
  refine ⟨?_, ?_⟩
  · refine ⟨?_, ?_, ?_⟩
    · intro hp acquired log
      exact GTAO.gtao_render_unprepared g acquired log hp
    · intro hp acquired log
      exact GTAO.gtao_render_prepared g acquired log hp
    · intro hp hk acquired
      obtain ⟨hsteps, hrec⟩ := GTAO.gtao_renderFrames_log acquired g {} hp hk
      rw [List.nil_append] at hsteps
      refine ⟨hsteps, ?_, ?_⟩
      · rw [hsteps]
        generalize List.range acquired.length = l
        induction l with
        | nil => rfl
        | cons i l ih =>
          rw [List.flatMap_cons, List.flatMap_cons, List.filter_append, ih]
          rfl
      · rw [hrec]
        exact Nat.zero_add _
  · refine ⟨?_, ?_, ?_⟩
    · intro hp acquired log
      exact HBAO.hbao_render_unprepared h acquired log hp
    · intro hp acquired log
      exact HBAO.hbao_render_prepared h acquired log hp
    · intro hp hk acquired
      obtain ⟨hsteps, hrec⟩ := HBAO.hbao_renderFrames_log acquired h {} hp hk
      rw [List.nil_append] at hsteps
      refine ⟨hsteps, ?_, ?_⟩
      · rw [hsteps]
        generalize List.range acquired.length = l
        induction l with
        | nil => rfl
        | cons i l ih =>
          rw [List.flatMap_cons, List.flatMap_cons, List.filter_append, ih]
          rfl
      · rw [hrec]
        exact Nat.zero_add _

/-- C19, at the prepared sample states (two frames in flight): three calls of
`render` take their steps on the slots 0, 1 and 0 and record three command
buffers. -/
theorem C19_render_steps_witness :
    (GTAO.preparedSample.prepared = true ∧
     (GTAO.renderFrames GTAO.preparedSample {} [0, 1, 2]).2.steps.map
         (fun step => (step.call, step.currentBuffer)) =
       [ (FrameCall.prepareFrame, 0), (FrameCall.updateUniformBuffers, 0), (FrameCall.buildCommandBuffer, 0), (FrameCall.submitFrame, 0),
            (FrameCall.prepareFrame, 1), (FrameCall.updateUniformBuffers, 1), (FrameCall.buildCommandBuffer, 1), (FrameCall.submitFrame, 1),
            (FrameCall.prepareFrame, 0), (FrameCall.updateUniformBuffers, 0), (FrameCall.buildCommandBuffer, 0), (FrameCall.submitFrame, 0) ] ∧
     (GTAO.renderFrames GTAO.preparedSample {} [0, 1, 2]).2.recorded.length = 3) ∧
    (HBAO.preparedSample.prepared = true ∧
     (HBAO.renderFrames HBAO.preparedSample {} [0, 1, 2]).2.steps.map
         (fun step => (step.call, step.currentBuffer)) =
       [ (FrameCall.prepareFrame, 0), (FrameCall.updateUniformBuffers, 0), (FrameCall.buildCommandBuffer, 0), (FrameCall.submitFrame, 0),
            (FrameCall.prepareFrame, 1), (FrameCall.updateUniformBuffers, 1), (FrameCall.buildCommandBuffer, 1), (FrameCall.submitFrame, 1),
            (FrameCall.prepareFrame, 0), (FrameCall.updateUniformBuffers, 0), (FrameCall.buildCommandBuffer, 0), (FrameCall.submitFrame, 0) ] ∧
     (HBAO.renderFrames HBAO.preparedSample {} [0, 1, 2]).2.recorded.length = 3) := by
  refine ⟨?_, ?_⟩
  · obtain ⟨⟨-, -, frames⟩, -⟩ := C19_render_steps GTAO.preparedSample HBAO.preparedSample
    have hprepared := GTAO.gtao_prepare_prepared _ _ GTAO.gtao_prepare_sample
    obtain ⟨hmax, hslot, -⟩ := GTAO.gtao_prepare_frame _ _ GTAO.gtao_prepare_sample
    obtain ⟨hsteps, -, hrecorded⟩ := frames hprepared (by rw [hmax, hslot]; decide) [0, 1, 2]
    rw [hmax, hslot] at hsteps
    refine ⟨hprepared, ?_, hrecorded⟩
    rw [hsteps]
    rfl
  · obtain ⟨-, ⟨-, -, frames⟩⟩ := C19_render_steps GTAO.preparedSample HBAO.preparedSample
    have hprepared := HBAO.hbao_prepare_prepared _ _ HBAO.hbao_prepare_sample
    obtain ⟨hmax, hslot, -⟩ := HBAO.hbao_prepare_frame _ _ HBAO.hbao_prepare_sample
    obtain ⟨hsteps, -, hrecorded⟩ := frames hprepared (by rw [hmax, hslot]; decide) [0, 1, 2]
    rw [hmax, hslot] at hsteps
    refine ⟨hprepared, ?_, hrecorded⟩
    rw [hsteps]
    rfl

/-- C18 (amended). `OnUpdateUIOverlay`, when the section of the overlay is
open, declares three sliders: the radius with bounds 0.01 and 10 in the GTAO
example and 0.01 and 20 in the HBAO example, the intensity with bounds 0 and 2
in both, and the bias; when the section is closed it declares no widget but
the header. -/
theorem C18_slider_bounds (g : GTAO.VulkanExample) (h : HBAO.VulkanExample)
    (og oh : vks.UIOverlay) :
    ((og.header "Settings" = true →
        (GTAO.OnUpdateUIOverlay g og).2.filterMap UICall.slider =
          [ ("GTAO radius", F32.lit 1 100, F32.lit 10 1),
            ("GTAO Intensity", F32.lit 0 1, F32.lit 2 1),
            ("GTAO bias", F32.lit 1 1000, F32.lit 1 100) ]) ∧
     (og.header "Settings" = false →
        (GTAO.OnUpdateUIOverlay g og).2 = [UICall.header "Settings"])) ∧
    ((oh.header "Settings" = true →
        (HBAO.OnUpdateUIOverlay h oh).2.filterMap UICall.slider =
          [ ("HBAO radius", F32.lit 1 100, F32.lit 20 1),
            ("HBAO Intensity", F32.lit 0 1, F32.lit 2 1),
            ("HBAO angle bias", F32.lit 0 1, F32.lit 10 1) ]) ∧
     (oh.header "Settings" = false →
        (HBAO.OnUpdateUIOverlay h oh).2 = [UICall.header "Settings"])) := by
  refine ⟨⟨?_, ?_⟩, ⟨?_, ?_⟩⟩
  · intro ho
    simp [GTAO.OnUpdateUIOverlay, ho, UICall.slider]
  · intro ho
    simp [GTAO.OnUpdateUIOverlay, ho]
  · intro ho
    simp [HBAO.OnUpdateUIOverlay, ho, UICall.slider]
  · intro ho
    simp [HBAO.OnUpdateUIOverlay, ho]

/-- C18 (counterexample). In the GTAO example, on the sample state with the
section of the overlay open, the radius slider is declared with maximum 10,
not 20. -/
theorem C18_gtao_radius_maximum :
    ((GTAO.OnUpdateUIOverlay GTAO.sampleState GTAO.sampleOverlay).2.filterMap
        UICall.slider).lookup "GTAO radius" = some (F32.lit 1 100, F32.lit 10 1) ∧
    F32.lit 10 1 ≠ F32.lit 20 1 := by
  refine ⟨?_, by decide⟩
  simp [GTAO.OnUpdateUIOverlay, GTAO.sampleOverlay, UICall.slider, List.lookup]

/-- C17 (what the code does). `gtao.cpp` built for Android declares
`hbaoWidth` and `hbaoHeight` and goes on to use `gtaoWidth` and `gtaoHeight`,
which are not declared: `prepareOffscreenFramebuffers` has no result there, on
the Android sample state as on every other.
In the other three cases (`gtao.cpp` not for Android, `hbao.cpp` for Android
or not), with a supported depth format and an output size below 2^31, the
G-buffer and blurred-occlusion targets have the output size, the occlusion
target has the output size, halved (unsigned division) in `hbao.cpp` for
Android, and the occlusion attachment image and the occlusion framebuffer are
created with the size of the occlusion target. -/
theorem C17_occlusion_target_size (g : GTAO.VulkanExample) (h : HBAO.VulkanExample)
    (fg fh : VkFormat) :
    GTAO.prepareOffscreenFramebuffers GTAO.androidSample = none ∧
    (g.ANDROID = true → GTAO.prepareOffscreenFramebuffers g = none) ∧
    (g.ANDROID = false → g.supportedDepthFormat = some fg →
      g.width < 2147483648 → g.height < 2147483648 →
      ∃ g', GTAO.prepareOffscreenFramebuffers g = some g' ∧
        g'.frameBuffers.offscreen.width = Int.ofNat g.width ∧
        g'.frameBuffers.offscreen.height = Int.ofNat g.height ∧
        g'.frameBuffers.gtaoBlur.width = Int.ofNat g.width ∧
        g'.frameBuffers.gtaoBlur.height = Int.ofNat g.height ∧
        g'.frameBuffers.gtao.width = Int.ofNat g.width ∧
        g'.frameBuffers.gtao.height = Int.ofNat g.height ∧
        (Device.imageInfo g'.device g'.frameBuffers.gtao.color.image).map
            (fun i => (i.extent.width, i.extent.height)) = some (g.width, g.height) ∧
        (Device.framebufferInfo g'.device g'.frameBuffers.gtao.frameBuffer).map
            (fun f => (f.width, f.height)) = some (g.width, g.height)) ∧
    (h.supportedDepthFormat = some fh → h.width < 2147483648 → h.height < 2147483648 →
      ∃ h', HBAO.prepareOffscreenFramebuffers h = some h' ∧
        h'.frameBuffers.offscreen.width = Int.ofNat h.width ∧
        h'.frameBuffers.offscreen.height = Int.ofNat h.height ∧
        h'.frameBuffers.hbaoBlur.width = Int.ofNat h.width ∧
        h'.frameBuffers.hbaoBlur.height = Int.ofNat h.height ∧
        h'.frameBuffers.hbao.width = Int.ofNat (if h.ANDROID = true then h.width / 2 else h.width) ∧
        h'.frameBuffers.hbao.height = Int.ofNat (if h.ANDROID = true then h.height / 2 else h.height) ∧
        (Device.imageInfo h'.device h'.frameBuffers.hbao.color.image).map
            (fun i => (i.extent.width, i.extent.height)) = some ((if h.ANDROID = true then h.width / 2 else h.width), (if h.ANDROID = true then h.height / 2 else h.height)) ∧
        (Device.framebufferInfo h'.device h'.frameBuffers.hbao.frameBuffer).map
            (fun f => (f.width, f.height)) = some ((if h.ANDROID = true then h.width / 2 else h.width), (if h.ANDROID = true then h.height / 2 else h.height))) := by
  have key : ∀ s : GTAO.VulkanExample, s.ANDROID = true →
      GTAO.prepareOffscreenFramebuffers s = none := by
    intro s hA
    simp [GTAO.prepareOffscreenFramebuffers, hA]
  refine ⟨key _ rfl, key g, ?_, ?_⟩
  · intro hA hg hw hh
    have how : g.width < 2147483648 := hw
    have hoh : g.height < 2147483648 := hh
    have how2 : g.width < 4294967296 := by omega
    have hoh2 : g.height < 4294967296 := by omega
    obtain ⟨-, -, -, -, f2, -⟩ :=
      GTAO.gtao_offscreenCalls_lookup g.device g.width g.height g.width g.height fg
    obtain ⟨-, i2⟩ :=
      GTAO.gtao_offscreenCalls_images g.device g.width g.height g.width g.height fg
    refine ⟨_, GTAO.gtao_prepareOffscreenFramebuffers_eq g fg hA hg, ?_, ?_, ?_, ?_, ?_, ?_, ?_, ?_⟩
    · simp [GTAO.prepareOffscreenFramebuffersResult, toInt32_of_lt _ hw]
    · simp [GTAO.prepareOffscreenFramebuffersResult, toInt32_of_lt _ hh]
    · simp [GTAO.prepareOffscreenFramebuffersResult, toInt32_of_lt _ hw]
    · simp [GTAO.prepareOffscreenFramebuffersResult, toInt32_of_lt _ hh]
    · simp [GTAO.prepareOffscreenFramebuffersResult, toInt32_of_lt _ how]
    · simp [GTAO.prepareOffscreenFramebuffersResult, toInt32_of_lt _ hoh]
    · dsimp only at i2 ⊢
      rw [Option.map_eq_some'] at i2
      obtain ⟨img, himg, hext⟩ := i2
      rw [himg]
      simp [hext]
    · dsimp only at f2 ⊢
      rw [f2]
      simp [GTAO.prepareOffscreenFramebuffersResult, toUInt32_toInt32 _ how2, toUInt32_toInt32 _ hoh2]
  · intro hh hw hh'
    have how : (if h.ANDROID = true then h.width / 2 else h.width) < 2147483648 := by
      split <;> omega
    have hoh : (if h.ANDROID = true then h.height / 2 else h.height) < 2147483648 := by
      split <;> omega
    have how2 : (if h.ANDROID = true then h.width / 2 else h.width) < 4294967296 := by omega
    have hoh2 : (if h.ANDROID = true then h.height / 2 else h.height) < 4294967296 := by omega
    obtain ⟨-, -, -, -, f2, -⟩ :=
      HBAO.hbao_offscreenCalls_lookup h.device h.width h.height
        (if h.ANDROID = true then h.width / 2 else h.width)
        (if h.ANDROID = true then h.height / 2 else h.height) fh
    obtain ⟨-, i2⟩ :=
      HBAO.hbao_offscreenCalls_images h.device h.width h.height
        (if h.ANDROID = true then h.width / 2 else h.width)
        (if h.ANDROID = true then h.height / 2 else h.height) fh
    refine ⟨_, HBAO.hbao_prepareOffscreenFramebuffers_eq h fh hh, ?_, ?_, ?_, ?_, ?_, ?_, ?_, ?_⟩
    · simp [HBAO.prepareOffscreenFramebuffersResult, toInt32_of_lt _ hw]
    · simp [HBAO.prepareOffscreenFramebuffersResult, toInt32_of_lt _ hh']
    · simp [HBAO.prepareOffscreenFramebuffersResult, toInt32_of_lt _ hw]
    · simp [HBAO.prepareOffscreenFramebuffersResult, toInt32_of_lt _ hh']
    · simp [HBAO.prepareOffscreenFramebuffersResult, toInt32_of_lt _ how]
    · simp [HBAO.prepareOffscreenFramebuffersResult, toInt32_of_lt _ hoh]
    · dsimp only at i2 ⊢
      rw [Option.map_eq_some'] at i2
      obtain ⟨img, himg, hext⟩ := i2
      rw [himg]
      simp [hext]
    · dsimp only at f2 ⊢
      rw [f2]
      simp [HBAO.prepareOffscreenFramebuffersResult, toUInt32_toInt32 _ how2, toUInt32_toInt32 _ hoh2]

/-- C15. In both examples, for a state with the offscreen targets and the
device log `prepare` leaves and the output size `prepare` ran with (below
2^31): each of the four passes of the recorded frame sets a viewport and a
scissor before its draw, with all offsets 0 and with the extent of the render
area of the pass; that extent is the output size for the geometry-fill,
occlusion-blur and composition passes and the size of the occlusion target for
the occlusion-generate pass (the output size, halved in `hbao.cpp` for
Android); the framebuffer of each of the three offscreen passes was created
with the same size.  (The framebuffer of the composition pass is the base
class's.) -/
theorem C15_viewport_scissor (g0 gp g : GTAO.VulkanExample) (h0 hp h : HBAO.VulkanExample)
    (hgp : GTAO.prepare g0 = some gp) (hgf : g.frameBuffers = gp.frameBuffers)
    (hgd : g.device = gp.device) (hgw : g.width = g0.width) (hgh : g.height = g0.height)
    (hgx : g0.width < 2147483648) (hgy : g0.height < 2147483648)
    (hhp : HBAO.prepare h0 = some hp) (hhf : h.frameBuffers = hp.frameBuffers)
    (hhd : h.device = hp.device) (hhw : h.width = h0.width) (hhh : h.height = h0.height)
    (hhx : h0.width < 2147483648) (hhy : h0.height < 2147483648) :
    ((recordedPasses (GTAO.buildCommandBuffer g).2).map
        (fun p => (p.beginInfo.renderArea,
          (recordedDraws p.body).map (fun d => (d.1.viewport, d.1.scissor)))) =
      [ (({ extentWidth := g0.width, extentHeight := g0.height } : VkRect2D),
          [ (some (0, [ ({ width := F32.ofInt (Int.ofNat g0.width), height := F32.ofInt (Int.ofNat g0.height), minDepth := F32.lit 0 1, maxDepth := F32.lit 1 1 } : VkViewport) ]),
             some (0, [ ({ extentWidth := g0.width, extentHeight := g0.height } : VkRect2D) ])) ]),
        (({ extentWidth := g0.width, extentHeight := g0.height } : VkRect2D),
          [ (some (0, [ ({ width := F32.ofInt (Int.ofNat g0.width), height := F32.ofInt (Int.ofNat g0.height), minDepth := F32.lit 0 1, maxDepth := F32.lit 1 1 } : VkViewport) ]),
             some (0, [ ({ extentWidth := g0.width, extentHeight := g0.height } : VkRect2D) ])) ]),
        (({ extentWidth := g0.width, extentHeight := g0.height } : VkRect2D),
          [ (some (0, [ ({ width := F32.ofInt (Int.ofNat g0.width), height := F32.ofInt (Int.ofNat g0.height), minDepth := F32.lit 0 1, maxDepth := F32.lit 1 1 } : VkViewport) ]),
             some (0, [ ({ extentWidth := g0.width, extentHeight := g0.height } : VkRect2D) ])) ]),
        (({ extentWidth := g0.width, extentHeight := g0.height } : VkRect2D),
          [ (some (0, [ ({ width := F32.ofInt (Int.ofNat g0.width), height := F32.ofInt (Int.ofNat g0.height), minDepth := F32.lit 0 1, maxDepth := F32.lit 1 1 } : VkViewport) ]),
             some (0, [ ({ extentWidth := g0.width, extentHeight := g0.height } : VkRect2D) ])) ]) ] ∧
    ((recordedPasses (GTAO.buildCommandBuffer g).2).take 3).map
        (fun p => (Device.framebufferInfo g.device p.beginInfo.framebuffer).map
          (fun f => (f.width, f.height))) =
      [ some (g0.width, g0.height), some (g0.width, g0.height), some (g0.width, g0.height) ]) ∧
    ((recordedPasses (HBAO.buildCommandBuffer h).2).map
        (fun p => (p.beginInfo.renderArea,
          (recordedDraws p.body).map (fun d => (d.1.viewport, d.1.scissor)))) =
      [ (({ extentWidth := h0.width, extentHeight := h0.height } : VkRect2D),
          [ (some (0, [ ({ width := F32.ofInt (Int.ofNat h0.width), height := F32.ofInt (Int.ofNat h0.height), minDepth := F32.lit 0 1, maxDepth := F32.lit 1 1 } : VkViewport) ]),
             some (0, [ ({ extentWidth := h0.width, extentHeight := h0.height } : VkRect2D) ])) ]),
        (({ extentWidth := (if h0.ANDROID = true then h0.width / 2 else h0.width), extentHeight := (if h0.ANDROID = true then h0.height / 2 else h0.height) } : VkRect2D),
          [ (some (0, [ ({ width := F32.ofInt (Int.ofNat (if h0.ANDROID = true then h0.width / 2 else h0.width)), height := F32.ofInt (Int.ofNat (if h0.ANDROID = true then h0.height / 2 else h0.height)), minDepth := F32.lit 0 1, maxDepth := F32.lit 1 1 } : VkViewport) ]),
             some (0, [ ({ extentWidth := (if h0.ANDROID = true then h0.width / 2 else h0.width), extentHeight := (if h0.ANDROID = true then h0.height / 2 else h0.height) } : VkRect2D) ])) ]),
        (({ extentWidth := h0.width, extentHeight := h0.height } : VkRect2D),
          [ (some (0, [ ({ width := F32.ofInt (Int.ofNat h0.width), height := F32.ofInt (Int.ofNat h0.height), minDepth := F32.lit 0 1, maxDepth := F32.lit 1 1 } : VkViewport) ]),
             some (0, [ ({ extentWidth := h0.width, extentHeight := h0.height } : VkRect2D) ])) ]),
        (({ extentWidth := h0.width, extentHeight := h0.height } : VkRect2D),
          [ (some (0, [ ({ width := F32.ofInt (Int.ofNat h0.width), height := F32.ofInt (Int.ofNat h0.height), minDepth := F32.lit 0 1, maxDepth := F32.lit 1 1 } : VkViewport) ]),
             some (0, [ ({ extentWidth := h0.width, extentHeight := h0.height } : VkRect2D) ])) ]) ] ∧
    ((recordedPasses (HBAO.buildCommandBuffer h).2).take 3).map
        (fun p => (Device.framebufferInfo h.device p.beginInfo.framebuffer).map
          (fun f => (f.width, f.height))) =
      [ some (h0.width, h0.height), some ((if h0.ANDROID = true then h0.width / 2 else h0.width), (if h0.ANDROID = true then h0.height / 2 else h0.height)), some (h0.width, h0.height) ]) := by
  refine ⟨?_, ?_⟩
  · have key := GTAO.gtao_frame_extents g0 gp g hgp hgf hgd hgx hgy (by omega) (by omega)
    rw [hgw, hgh] at key
    exact key
  · have key := HBAO.hbao_frame_extents h0 hp h hhp hhf hhd hhx hhy (by omega) (by omega)
    rw [hhw, hhh] at key
    exact key

/-- C15, at the prepared sample states (1280x720). -/
theorem C15_viewport_scissor_witness :
    ((recordedPasses (GTAO.buildCommandBuffer GTAO.preparedSample).2).map
        (fun p => (p.beginInfo.renderArea,
          (recordedDraws p.body).map (fun d => (d.1.viewport, d.1.scissor)))) =
      [ (({ extentWidth := GTAO.sampleState.width, extentHeight := GTAO.sampleState.height } : VkRect2D),
          [ (some (0, [ ({ width := F32.ofInt (Int.ofNat GTAO.sampleState.width), height := F32.ofInt (Int.ofNat GTAO.sampleState.height), minDepth := F32.lit 0 1, maxDepth := F32.lit 1 1 } : VkViewport) ]),
             some (0, [ ({ extentWidth := GTAO.sampleState.width, extentHeight := GTAO.sampleState.height } : VkRect2D) ])) ]),
        (({ extentWidth := GTAO.sampleState.width, extentHeight := GTAO.sampleState.height } : VkRect2D),
          [ (some (0, [ ({ width := F32.ofInt (Int.ofNat GTAO.sampleState.width), height := F32.ofInt (Int.ofNat GTAO.sampleState.height), minDepth := F32.lit 0 1, maxDepth := F32.lit 1 1 } : VkViewport) ]),
             some (0, [ ({ extentWidth := GTAO.sampleState.width, extentHeight := GTAO.sampleState.height } : VkRect2D) ])) ]),
        (({ extentWidth := GTAO.sampleState.width, extentHeight := GTAO.sampleState.height } : VkRect2D),
          [ (some (0, [ ({ width := F32.ofInt (Int.ofNat GTAO.sampleState.width), height := F32.ofInt (Int.ofNat GTAO.sampleState.height), minDepth := F32.lit 0 1, maxDepth := F32.lit 1 1 } : VkViewport) ]),
             some (0, [ ({ extentWidth := GTAO.sampleState.width, extentHeight := GTAO.sampleState.height } : VkRect2D) ])) ]),
        (({ extentWidth := GTAO.sampleState.width, extentHeight := GTAO.sampleState.height } : VkRect2D),
          [ (some (0, [ ({ width := F32.ofInt (Int.ofNat GTAO.sampleState.width), height := F32.ofInt (Int.ofNat GTAO.sampleState.height), minDepth := F32.lit 0 1, maxDepth := F32.lit 1 1 } : VkViewport) ]),
             some (0, [ ({ extentWidth := GTAO.sampleState.width, extentHeight := GTAO.sampleState.height } : VkRect2D) ])) ]) ] ∧
    ((recordedPasses (GTAO.buildCommandBuffer GTAO.preparedSample).2).take 3).map
        (fun p => (Device.framebufferInfo GTAO.preparedSample.device p.beginInfo.framebuffer).map
          (fun f => (f.width, f.height))) =
      [ some (GTAO.sampleState.width, GTAO.sampleState.height), some (GTAO.sampleState.width, GTAO.sampleState.height), some (GTAO.sampleState.width, GTAO.sampleState.height) ]) ∧
    ((recordedPasses (HBAO.buildCommandBuffer HBAO.preparedSample).2).map
        (fun p => (p.beginInfo.renderArea,
          (recordedDraws p.body).map (fun d => (d.1.viewport, d.1.scissor)))) =
      [ (({ extentWidth := HBAO.sampleState.width, extentHeight := HBAO.sampleState.height } : VkRect2D),
          [ (some (0, [ ({ width := F32.ofInt (Int.ofNat HBAO.sampleState.width), height := F32.ofInt (Int.ofNat HBAO.sampleState.height), minDepth := F32.lit 0 1, maxDepth := F32.lit 1 1 } : VkViewport) ]),
             some (0, [ ({ extentWidth := HBAO.sampleState.width, extentHeight := HBAO.sampleState.height } : VkRect2D) ])) ]),
        (({ extentWidth := (if HBAO.sampleState.ANDROID = true then HBAO.sampleState.width / 2 else HBAO.sampleState.width), extentHeight := (if HBAO.sampleState.ANDROID = true then HBAO.sampleState.height / 2 else HBAO.sampleState.height) } : VkRect2D),
          [ (some (0, [ ({ width := F32.ofInt (Int.ofNat (if HBAO.sampleState.ANDROID = true then HBAO.sampleState.width / 2 else HBAO.sampleState.width)), height := F32.ofInt (Int.ofNat (if HBAO.sampleState.ANDROID = true then HBAO.sampleState.height / 2 else HBAO.sampleState.height)), minDepth := F32.lit 0 1, maxDepth := F32.lit 1 1 } : VkViewport) ]),
             some (0, [ ({ extentWidth := (if HBAO.sampleState.ANDROID = true then HBAO.sampleState.width / 2 else HBAO.sampleState.width), extentHeight := (if HBAO.sampleState.ANDROID = true then HBAO.sampleState.height / 2 else HBAO.sampleState.height) } : VkRect2D) ])) ]),
        (({ extentWidth := HBAO.sampleState.width, extentHeight := HBAO.sampleState.height } : VkRect2D),
          [ (some (0, [ ({ width := F32.ofInt (Int.ofNat HBAO.sampleState.width), height := F32.ofInt (Int.ofNat HBAO.sampleState.height), minDepth := F32.lit 0 1, maxDepth := F32.lit 1 1 } : VkViewport) ]),
             some (0, [ ({ extentWidth := HBAO.sampleState.width, extentHeight := HBAO.sampleState.height } : VkRect2D) ])) ]),
        (({ extentWidth := HBAO.sampleState.width, extentHeight := HBAO.sampleState.height } : VkRect2D),
          [ (some (0, [ ({ width := F32.ofInt (Int.ofNat HBAO.sampleState.width), height := F32.ofInt (Int.ofNat HBAO.sampleState.height), minDepth := F32.lit 0 1, maxDepth := F32.lit 1 1 } : VkViewport) ]),
             some (0, [ ({ extentWidth := HBAO.sampleState.width, extentHeight := HBAO.sampleState.height } : VkRect2D) ])) ]) ] ∧
    ((recordedPasses (HBAO.buildCommandBuffer HBAO.preparedSample).2).take 3).map
        (fun p => (Device.framebufferInfo HBAO.preparedSample.device p.beginInfo.framebuffer).map
          (fun f => (f.width, f.height))) =
      [ some (HBAO.sampleState.width, HBAO.sampleState.height), some ((if HBAO.sampleState.ANDROID = true then HBAO.sampleState.width / 2 else HBAO.sampleState.width), (if HBAO.sampleState.ANDROID = true then HBAO.sampleState.height / 2 else HBAO.sampleState.height)), some (HBAO.sampleState.width, HBAO.sampleState.height) ]) :=
  C15_viewport_scissor GTAO.sampleState GTAO.preparedSample GTAO.preparedSample
    HBAO.sampleState HBAO.preparedSample HBAO.preparedSample
    GTAO.gtao_prepare_sample rfl rfl
    (GTAO.gtao_prepare_sizes _ _ GTAO.gtao_prepare_sample).1
    (GTAO.gtao_prepare_sizes _ _ GTAO.gtao_prepare_sample).2.1 (by decide) (by decide)
    HBAO.hbao_prepare_sample rfl rfl
    (HBAO.hbao_prepare_sizes _ _ HBAO.hbao_prepare_sample).1
    (HBAO.hbao_prepare_sizes _ _ HBAO.hbao_prepare_sample).2.1 (by decide) (by decide)

/-- C21. In both examples, with N = `maxConcurrentFrames`: `prepareBuffers`
creates exactly 3*N buffers, which are the scene-parameter, toggle/parameter
and settings buffers of the N slots, all distinct; each is created with usage
UNIFORM_BUFFER and memory properties HOST_VISIBLE|HOST_COHERENT, with the size
of its host struct, and is left mapped.  `setupDescriptors` allocates exactly
4*N descriptor sets, one per allocation, which are the four sets of each of the
N slots, all distinct. -/
theorem C21_buffers_and_sets (g : GTAO.VulkanExample) (h : HBAO.VulkanExample) :
    ((Device.created g.device (GTAO.prepareBuffers g).device ObjectKind.buffer).length =
        3 * g.maxConcurrentFrames ∧
      Device.created g.device (GTAO.prepareBuffers g).device ObjectKind.buffer =
        (List.range g.maxConcurrentFrames).flatMap (fun i =>
          [ ((GTAO.prepareBuffers g).uniformBuffers i).sceneParams.buffer,
            ((GTAO.prepareBuffers g).uniformBuffers i).gtaoParams.buffer,
            ((GTAO.prepareBuffers g).uniformBuffers i).gtaoSettings.buffer ]) ∧
      (Device.created g.device (GTAO.prepareBuffers g).device ObjectKind.buffer).Nodup ∧
      (∀ i, i < g.maxConcurrentFrames →
        (((GTAO.prepareBuffers g).uniformBuffers i).sceneParams.mapped = true ∧
         ((GTAO.prepareBuffers g).uniformBuffers i).sceneParams.size = GTAO.sizeof_uboSceneParams ∧
         ((GTAO.prepareBuffers g).uniformBuffers i).sceneParams.usageFlags = VK_BUFFER_USAGE_UNIFORM_BUFFER_BIT ∧
         ((GTAO.prepareBuffers g).uniformBuffers i).sceneParams.memoryPropertyFlags =
           VK_MEMORY_PROPERTY_HOST_VISIBLE_BIT ||| VK_MEMORY_PROPERTY_HOST_COHERENT_BIT ∧
         Device.bufferInfo (GTAO.prepareBuffers g).device
             ((GTAO.prepareBuffers g).uniformBuffers i).sceneParams.buffer =
           some (VK_BUFFER_USAGE_UNIFORM_BUFFER_BIT,
             VK_MEMORY_PROPERTY_HOST_VISIBLE_BIT ||| VK_MEMORY_PROPERTY_HOST_COHERENT_BIT, GTAO.sizeof_uboSceneParams)) ∧
        (((GTAO.prepareBuffers g).uniformBuffers i).gtaoParams.mapped = true ∧
         ((GTAO.prepareBuffers g).uniformBuffers i).gtaoParams.size = GTAO.sizeof_uboGTAOParams ∧
         ((GTAO.prepareBuffers g).uniformBuffers i).gtaoParams.usageFlags = VK_BUFFER_USAGE_UNIFORM_BUFFER_BIT ∧
         ((GTAO.prepareBuffers g).uniformBuffers i).gtaoParams.memoryPropertyFlags =
           VK_MEMORY_PROPERTY_HOST_VISIBLE_BIT ||| VK_MEMORY_PROPERTY_HOST_COHERENT_BIT ∧
         Device.bufferInfo (GTAO.prepareBuffers g).device
             ((GTAO.prepareBuffers g).uniformBuffers i).gtaoParams.buffer =
           some (VK_BUFFER_USAGE_UNIFORM_BUFFER_BIT,
             VK_MEMORY_PROPERTY_HOST_VISIBLE_BIT ||| VK_MEMORY_PROPERTY_HOST_COHERENT_BIT, GTAO.sizeof_uboGTAOParams)) ∧
        (((GTAO.prepareBuffers g).uniformBuffers i).gtaoSettings.mapped = true ∧
         ((GTAO.prepareBuffers g).uniformBuffers i).gtaoSettings.size = GTAO.sizeof_uboGTAOSettings ∧
         ((GTAO.prepareBuffers g).uniformBuffers i).gtaoSettings.usageFlags = VK_BUFFER_USAGE_UNIFORM_BUFFER_BIT ∧
         ((GTAO.prepareBuffers g).uniformBuffers i).gtaoSettings.memoryPropertyFlags =
           VK_MEMORY_PROPERTY_HOST_VISIBLE_BIT ||| VK_MEMORY_PROPERTY_HOST_COHERENT_BIT ∧
         Device.bufferInfo (GTAO.prepareBuffers g).device
             ((GTAO.prepareBuffers g).uniformBuffers i).gtaoSettings.buffer =
           some (VK_BUFFER_USAGE_UNIFORM_BUFFER_BIT,
             VK_MEMORY_PROPERTY_HOST_VISIBLE_BIT ||| VK_MEMORY_PROPERTY_HOST_COHERENT_BIT, GTAO.sizeof_uboGTAOSettings))) ∧
      (Device.created g.device (GTAO.setupDescriptors g).device ObjectKind.descriptorSet).length =
        4 * g.maxConcurrentFrames ∧
      Device.created g.device (GTAO.setupDescriptors g).device ObjectKind.descriptorSet =
        (List.range g.maxConcurrentFrames).flatMap (fun i =>
          [ ((GTAO.setupDescriptors g).descriptorSets i).gBuffer,
            ((GTAO.setupDescriptors g).descriptorSets i).gtao,
            ((GTAO.setupDescriptors g).descriptorSets i).gtaoBlur,
            ((GTAO.setupDescriptors g).descriptorSets i).composition ]) ∧
      (Device.created g.device (GTAO.setupDescriptors g).device ObjectKind.descriptorSet).Nodup ∧
      ∀ a ∈ ((GTAO.setupDescriptors g).device.drop g.device.length).filterMap Call.allocateInfo,
        a.descriptorSetCount = 1) ∧
    ((Device.created h.device (HBAO.prepareBuffers h).device ObjectKind.buffer).length =
        3 * h.maxConcurrentFrames ∧
      Device.created h.device (HBAO.prepareBuffers h).device ObjectKind.buffer =
        (List.range h.maxConcurrentFrames).flatMap (fun i =>
          [ ((HBAO.prepareBuffers h).uniformBuffers i).sceneParams.buffer,
            ((HBAO.prepareBuffers h).uniformBuffers i).hbaoParams.buffer,
            ((HBAO.prepareBuffers h).uniformBuffers i).hbaoSettings.buffer ]) ∧
      (Device.created h.device (HBAO.prepareBuffers h).device ObjectKind.buffer).Nodup ∧
      (∀ i, i < h.maxConcurrentFrames →
        (((HBAO.prepareBuffers h).uniformBuffers i).sceneParams.mapped = true ∧
         ((HBAO.prepareBuffers h).uniformBuffers i).sceneParams.size = HBAO.sizeof_uboSceneParams ∧
         ((HBAO.prepareBuffers h).uniformBuffers i).sceneParams.usageFlags = VK_BUFFER_USAGE_UNIFORM_BUFFER_BIT ∧
         ((HBAO.prepareBuffers h).uniformBuffers i).sceneParams.memoryPropertyFlags =
           VK_MEMORY_PROPERTY_HOST_VISIBLE_BIT ||| VK_MEMORY_PROPERTY_HOST_COHERENT_BIT ∧
         Device.bufferInfo (HBAO.prepareBuffers h).device
             ((HBAO.prepareBuffers h).uniformBuffers i).sceneParams.buffer =
           some (VK_BUFFER_USAGE_UNIFORM_BUFFER_BIT,
             VK_MEMORY_PROPERTY_HOST_VISIBLE_BIT ||| VK_MEMORY_PROPERTY_HOST_COHERENT_BIT, HBAO.sizeof_uboSceneParams)) ∧
        (((HBAO.prepareBuffers h).uniformBuffers i).hbaoParams.mapped = true ∧
         ((HBAO.prepareBuffers h).uniformBuffers i).hbaoParams.size = HBAO.sizeof_uboHBAOParams ∧
         ((HBAO.prepareBuffers h).uniformBuffers i).hbaoParams.usageFlags = VK_BUFFER_USAGE_UNIFORM_BUFFER_BIT ∧
         ((HBAO.prepareBuffers h).uniformBuffers i).hbaoParams.memoryPropertyFlags =
           VK_MEMORY_PROPERTY_HOST_VISIBLE_BIT ||| VK_MEMORY_PROPERTY_HOST_COHERENT_BIT ∧
         Device.bufferInfo (HBAO.prepareBuffers h).device
             ((HBAO.prepareBuffers h).uniformBuffers i).hbaoParams.buffer =
           some (VK_BUFFER_USAGE_UNIFORM_BUFFER_BIT,
             VK_MEMORY_PROPERTY_HOST_VISIBLE_BIT ||| VK_MEMORY_PROPERTY_HOST_COHERENT_BIT, HBAO.sizeof_uboHBAOParams)) ∧
        (((HBAO.prepareBuffers h).uniformBuffers i).hbaoSettings.mapped = true ∧
         ((HBAO.prepareBuffers h).uniformBuffers i).hbaoSettings.size = HBAO.sizeof_uboHBAOSettings ∧
         ((HBAO.prepareBuffers h).uniformBuffers i).hbaoSettings.usageFlags = VK_BUFFER_USAGE_UNIFORM_BUFFER_BIT ∧
         ((HBAO.prepareBuffers h).uniformBuffers i).hbaoSettings.memoryPropertyFlags =
           VK_MEMORY_PROPERTY_HOST_VISIBLE_BIT ||| VK_MEMORY_PROPERTY_HOST_COHERENT_BIT ∧
         Device.bufferInfo (HBAO.prepareBuffers h).device
             ((HBAO.prepareBuffers h).uniformBuffers i).hbaoSettings.buffer =
           some (VK_BUFFER_USAGE_UNIFORM_BUFFER_BIT,
             VK_MEMORY_PROPERTY_HOST_VISIBLE_BIT ||| VK_MEMORY_PROPERTY_HOST_COHERENT_BIT, HBAO.sizeof_uboHBAOSettings))) ∧
      (Device.created h.device (HBAO.setupDescriptors h).device ObjectKind.descriptorSet).length =
        4 * h.maxConcurrentFrames ∧
      Device.created h.device (HBAO.setupDescriptors h).device ObjectKind.descriptorSet =
        (List.range h.maxConcurrentFrames).flatMap (fun i =>
          [ ((HBAO.setupDescriptors h).descriptorSets i).gBuffer,
            ((HBAO.setupDescriptors h).descriptorSets i).hbao,
            ((HBAO.setupDescriptors h).descriptorSets i).hbaoBlur,
            ((HBAO.setupDescriptors h).descriptorSets i).composition ]) ∧
      (Device.created h.device (HBAO.setupDescriptors h).device ObjectKind.descriptorSet).Nodup ∧
      ∀ a ∈ ((HBAO.setupDescriptors h).device.drop h.device.length).filterMap Call.allocateInfo,
        a.descriptorSetCount = 1) := by
  refine ⟨?_, ?_⟩
  · obtain ⟨hc, hs, hl⟩ := GTAO.gtao_prepareBuffers_created g
    obtain ⟨hd, ht⟩ := GTAO.gtao_setupDescriptors_created g
    obtain ⟨-, -, ha, -, -, -, -⟩ := GTAO.gtao_setupDescriptors_pool g
    refine ⟨?_, ?_, Device.created_nodup _ _ _, ?_, ?_, ?_, Device.created_nodup _ _ _, ?_⟩
    · rw [hc]
      exact List.length_flatMap_range (fun i => [ g.device.length + 3 * i + 1,
        g.device.length + 3 * i + 2, g.device.length + 3 * i + 3 ]) 3 (fun _ => rfl) _
    · rw [hc]
      apply List.flatMap_congr
      intro i hi
      rw [hs i (List.mem_range.mp hi)]
      rfl
    · intro i hi
      have k0 := hl i 0 hi (by omega)
      have k1 := hl i 1 hi (by omega)
      have k2 := hl i 2 hi (by omega)
      rw [hs i hi]
      unfold Device.bufferInfo
      simp only [GTAO.prepareBuffersFrameBuffers]
      refine ⟨⟨trivial, trivial, trivial, trivial, ?_⟩, ⟨trivial, trivial, trivial, trivial, ?_⟩,
        ⟨trivial, trivial, trivial, trivial, ?_⟩⟩
      · rw [k0]; rfl
      · rw [k1]; rfl
      · rw [k2]; rfl
    · rw [hd]
      exact List.length_flatMap_range (fun i => [ g.device.length + 5 + 8 * i + 1,
        g.device.length + 5 + 8 * i + 3, g.device.length + 5 + 8 * i + 5,
        g.device.length + 5 + 8 * i + 7 ]) 4 (fun _ => rfl) _
    · rw [hd]
      apply List.flatMap_congr
      intro i hi
      rw [ht i (List.mem_range.mp hi)]
      rfl
    · intro a hm
      rw [ha] at hm
      obtain ⟨i, -, hm⟩ := List.mem_flatMap.mp hm
      simp only [List.mem_cons, List.mem_singleton, List.not_mem_nil, or_false] at hm
      rcases hm with rfl | rfl | rfl | rfl <;> rfl
  · obtain ⟨hc, hs, hl⟩ := HBAO.hbao_prepareBuffers_created h
    obtain ⟨hd, ht⟩ := HBAO.hbao_setupDescriptors_created h
    obtain ⟨-, -, ha, -, -, -, -⟩ := HBAO.hbao_setupDescriptors_pool h
    refine ⟨?_, ?_, Device.created_nodup _ _ _, ?_, ?_, ?_, Device.created_nodup _ _ _, ?_⟩
    · rw [hc]
      exact List.length_flatMap_range (fun i => [ h.device.length + 3 * i + 1,
        h.device.length + 3 * i + 2, h.device.length + 3 * i + 3 ]) 3 (fun _ => rfl) _
    · rw [hc]
      apply List.flatMap_congr
      intro i hi
      rw [hs i (List.mem_range.mp hi)]
      rfl
    · intro i hi
      have k0 := hl i 0 hi (by omega)
      have k1 := hl i 1 hi (by omega)
      have k2 := hl i 2 hi (by omega)
      rw [hs i hi]
      unfold Device.bufferInfo
      simp only [HBAO.prepareBuffersFrameBuffers]
      refine ⟨⟨trivial, trivial, trivial, trivial, ?_⟩, ⟨trivial, trivial, trivial, trivial, ?_⟩,
        ⟨trivial, trivial, trivial, trivial, ?_⟩⟩
      · rw [k0]; rfl
      · rw [k1]; rfl
      · rw [k2]; rfl
    · rw [hd]
      exact List.length_flatMap_range (fun i => [ h.device.length + 5 + 8 * i + 1,
        h.device.length + 5 + 8 * i + 3, h.device.length + 5 + 8 * i + 5,
        h.device.length + 5 + 8 * i + 7 ]) 4 (fun _ => rfl) _
    · rw [hd]
      apply List.flatMap_congr
      intro i hi
      rw [ht i (List.mem_range.mp hi)]
      rfl
    · intro a hm
      rw [ha] at hm
      obtain ⟨i, -, hm⟩ := List.mem_flatMap.mp hm
      simp only [List.mem_cons, List.mem_singleton, List.not_mem_nil, or_false] at hm
      rcases hm with rfl | rfl | rfl | rfl <;> rfl

/-- C26. In both examples, for N = `maxConcurrentFrames` in the range in which
the products by N that `setupDescriptors` computes in 32 bits are exact
(9*N below 2^32): the descriptor pool is created with `maxSets` = 4*N, 4*N
uniform-buffer descriptors and 9*N combined-image-sampler descriptors; the sets
allocated from it are 4*N (four per slot), at most `maxSets`; their layouts
take 1+2+0+1 = 4 uniform-buffer descriptors per slot, 4*N in all, at most the
pool size for that type, and 0+2+1+5 = 8 combined-image-sampler descriptors per
slot, 8*N in all, at most the 9*N of the pool. -/
theorem C26_descriptor_pool_capacity (g : GTAO.VulkanExample) (h : HBAO.VulkanExample)
    (hgm : g.maxConcurrentFrames * 9 < UINT32_RANGE)
    (hhm : h.maxConcurrentFrames * 9 < UINT32_RANGE) :
    (∃ info,
      Device.descriptorPoolInfo (GTAO.setupDescriptors g).device
        (GTAO.setupDescriptors g).descriptorPool = some info ∧
      info.maxSets = 4 * g.maxConcurrentFrames ∧
      info.descriptors VK_DESCRIPTOR_TYPE_UNIFORM_BUFFER = 4 * g.maxConcurrentFrames ∧
      info.descriptors VK_DESCRIPTOR_TYPE_COMBINED_IMAGE_SAMPLER = 9 * g.maxConcurrentFrames ∧
      [ (GTAO.setupDescriptors g).descriptorSetLayouts.gBuffer,
        (GTAO.setupDescriptors g).descriptorSetLayouts.gtao,
        (GTAO.setupDescriptors g).descriptorSetLayouts.gtaoBlur,
        (GTAO.setupDescriptors g).descriptorSetLayouts.composition ].map
          (fun l =>
            (Device.layoutDescriptors (GTAO.setupDescriptors g).device l
              VK_DESCRIPTOR_TYPE_UNIFORM_BUFFER,
             Device.layoutDescriptors (GTAO.setupDescriptors g).device l
              VK_DESCRIPTOR_TYPE_COMBINED_IMAGE_SAMPLER)) = [(1, 0), (2, 2), (0, 1), (1, 5)] ∧
      (allocatedLayouts ((GTAO.setupDescriptors g).device.drop g.device.length)
        (GTAO.setupDescriptors g).descriptorPool).length = 4 * g.maxConcurrentFrames ∧
      (allocatedLayouts ((GTAO.setupDescriptors g).device.drop g.device.length)
        (GTAO.setupDescriptors g).descriptorPool).length ≤ info.maxSets ∧
      ((allocatedLayouts ((GTAO.setupDescriptors g).device.drop g.device.length)
        (GTAO.setupDescriptors g).descriptorPool).map
          (fun l => Device.layoutDescriptors (GTAO.setupDescriptors g).device l
            VK_DESCRIPTOR_TYPE_UNIFORM_BUFFER)).sum = 4 * g.maxConcurrentFrames ∧
      ((allocatedLayouts ((GTAO.setupDescriptors g).device.drop g.device.length)
        (GTAO.setupDescriptors g).descriptorPool).map
          (fun l => Device.layoutDescriptors (GTAO.setupDescriptors g).device l
            VK_DESCRIPTOR_TYPE_UNIFORM_BUFFER)).sum ≤
        info.descriptors VK_DESCRIPTOR_TYPE_UNIFORM_BUFFER ∧
      ((allocatedLayouts ((GTAO.setupDescriptors g).device.drop g.device.length)
        (GTAO.setupDescriptors g).descriptorPool).map
          (fun l => Device.layoutDescriptors (GTAO.setupDescriptors g).device l
            VK_DESCRIPTOR_TYPE_COMBINED_IMAGE_SAMPLER)).sum = 8 * g.maxConcurrentFrames ∧
      ((allocatedLayouts ((GTAO.setupDescriptors g).device.drop g.device.length)
        (GTAO.setupDescriptors g).descriptorPool).map
          (fun l => Device.layoutDescriptors (GTAO.setupDescriptors g).device l
            VK_DESCRIPTOR_TYPE_COMBINED_IMAGE_SAMPLER)).sum ≤
        info.descriptors VK_DESCRIPTOR_TYPE_COMBINED_IMAGE_SAMPLER) ∧
    (∃ info,
      Device.descriptorPoolInfo (HBAO.setupDescriptors h).device
        (HBAO.setupDescriptors h).descriptorPool = some info ∧
      info.maxSets = 4 * h.maxConcurrentFrames ∧
      info.descriptors VK_DESCRIPTOR_TYPE_UNIFORM_BUFFER = 4 * h.maxConcurrentFrames ∧
      info.descriptors VK_DESCRIPTOR_TYPE_COMBINED_IMAGE_SAMPLER = 9 * h.maxConcurrentFrames ∧
      [ (HBAO.setupDescriptors h).descriptorSetLayouts.gBuffer,
        (HBAO.setupDescriptors h).descriptorSetLayouts.hbao,
        (HBAO.setupDescriptors h).descriptorSetLayouts.hbaoBlur,
        (HBAO.setupDescriptors h).descriptorSetLayouts.composition ].map
          (fun l =>
            (Device.layoutDescriptors (HBAO.setupDescriptors h).device l
              VK_DESCRIPTOR_TYPE_UNIFORM_BUFFER,
             Device.layoutDescriptors (HBAO.setupDescriptors h).device l
              VK_DESCRIPTOR_TYPE_COMBINED_IMAGE_SAMPLER)) = [(1, 0), (2, 2), (0, 1), (1, 5)] ∧
      (allocatedLayouts ((HBAO.setupDescriptors h).device.drop h.device.length)
        (HBAO.setupDescriptors h).descriptorPool).length = 4 * h.maxConcurrentFrames ∧
      (allocatedLayouts ((HBAO.setupDescriptors h).device.drop h.device.length)
        (HBAO.setupDescriptors h).descriptorPool).length ≤ info.maxSets ∧
      ((allocatedLayouts ((HBAO.setupDescriptors h).device.drop h.device.length)
        (HBAO.setupDescriptors h).descriptorPool).map
          (fun l => Device.layoutDescriptors (HBAO.setupDescriptors h).device l
            VK_DESCRIPTOR_TYPE_UNIFORM_BUFFER)).sum = 4 * h.maxConcurrentFrames ∧
      ((allocatedLayouts ((HBAO.setupDescriptors h).device.drop h.device.length)
        (HBAO.setupDescriptors h).descriptorPool).map
          (fun l => Device.layoutDescriptors (HBAO.setupDescriptors h).device l
            VK_DESCRIPTOR_TYPE_UNIFORM_BUFFER)).sum ≤
        info.descriptors VK_DESCRIPTOR_TYPE_UNIFORM_BUFFER ∧
      ((allocatedLayouts ((HBAO.setupDescriptors h).device.drop h.device.length)
        (HBAO.setupDescriptors h).descriptorPool).map
          (fun l => Device.layoutDescriptors (HBAO.setupDescriptors h).device l
            VK_DESCRIPTOR_TYPE_COMBINED_IMAGE_SAMPLER)).sum = 8 * h.maxConcurrentFrames ∧
      ((allocatedLayouts ((HBAO.setupDescriptors h).device.drop h.device.length)
        (HBAO.setupDescriptors h).descriptorPool).map
          (fun l => Device.layoutDescriptors (HBAO.setupDescriptors h).device l
            VK_DESCRIPTOR_TYPE_COMBINED_IMAGE_SAMPLER)).sum ≤
        info.descriptors VK_DESCRIPTOR_TYPE_COMBINED_IMAGE_SAMPLER) := by
  simp only [UINT32_RANGE] at hgm hhm
  refine ⟨?_, ?_⟩
  · obtain ⟨hp, hi, -, l2, l3, l4, l5⟩ := GTAO.gtao_setupDescriptors_pool g
    obtain ⟨hl, ha⟩ := GTAO.gtao_setupDescriptors_allocated g
    have m4 : g.maxConcurrentFrames * 4 % UINT32_RANGE = 4 * g.maxConcurrentFrames := by
      simp only [UINT32_RANGE]
      omega
    have m9 : g.maxConcurrentFrames * 9 % UINT32_RANGE = 9 * g.maxConcurrentFrames := by
      simp only [UINT32_RANGE]
      omega
    have hlen : (allocatedLayouts ((GTAO.setupDescriptors g).device.drop g.device.length)
        (GTAO.setupDescriptors g).descriptorPool).length = 4 * g.maxConcurrentFrames := by
      rw [hp, ha]
      exact List.length_flatMap_range (fun _ => [ g.device.length + 2, g.device.length + 3,
        g.device.length + 4, g.device.length + 5 ]) 4 (fun _ => rfl) _
    have hu : ((allocatedLayouts ((GTAO.setupDescriptors g).device.drop g.device.length)
        (GTAO.setupDescriptors g).descriptorPool).map
          (fun l => Device.layoutDescriptors (GTAO.setupDescriptors g).device l
            VK_DESCRIPTOR_TYPE_UNIFORM_BUFFER)).sum = 4 * g.maxConcurrentFrames := by
      rw [hp, ha]
      exact List.sum_map_flatMap_range (fun _ => [ g.device.length + 2, g.device.length + 3,
        g.device.length + 4, g.device.length + 5 ]) _ 4 (fun _ => by simp [l2, l3, l4, l5]) _
    have hs : ((allocatedLayouts ((GTAO.setupDescriptors g).device.drop g.device.length)
        (GTAO.setupDescriptors g).descriptorPool).map
          (fun l => Device.layoutDescriptors (GTAO.setupDescriptors g).device l
            VK_DESCRIPTOR_TYPE_COMBINED_IMAGE_SAMPLER)).sum = 8 * g.maxConcurrentFrames := by
      rw [hp, ha]
      exact List.sum_map_flatMap_range (fun _ => [ g.device.length + 2, g.device.length + 3,
        g.device.length + 4, g.device.length + 5 ]) _ 8 (fun _ => by simp [l2, l3, l4, l5]) _
    refine ⟨_, by rw [hp]; exact hi, m4, ?_, ?_, ?_, hlen, ?_, hu, ?_, hs, ?_⟩
    · simp [VkDescriptorPoolCreateInfo.descriptors, m4]
    · simp [VkDescriptorPoolCreateInfo.descriptors, m9]
    · rw [hl]
      simp [l2, l3, l4, l5]
    · rw [hlen, m4]
    · rw [hu]
      simp [VkDescriptorPoolCreateInfo.descriptors, m4]
    · rw [hs]
      simp only [VkDescriptorPoolCreateInfo.descriptors]
      simp [m9]
      omega
  · obtain ⟨hp, hi, -, l2, l3, l4, l5⟩ := HBAO.hbao_setupDescriptors_pool h
    obtain ⟨hl, ha⟩ := HBAO.hbao_setupDescriptors_allocated h
    have m4 : h.maxConcurrentFrames * 4 % UINT32_RANGE = 4 * h.maxConcurrentFrames := by
      simp only [UINT32_RANGE]
      omega
    have m9 : h.maxConcurrentFrames * 9 % UINT32_RANGE = 9 * h.maxConcurrentFrames := by
      simp only [UINT32_RANGE]
      omega
    have hlen : (allocatedLayouts ((HBAO.setupDescriptors h).device.drop h.device.length)
        (HBAO.setupDescriptors h).descriptorPool).length = 4 * h.maxConcurrentFrames := by
      rw [hp, ha]
      exact List.length_flatMap_range (fun _ => [ h.device.length + 2, h.device.length + 3,
        h.device.length + 4, h.device.length + 5 ]) 4 (fun _ => rfl) _
    have hu : ((allocatedLayouts ((HBAO.setupDescriptors h).device.drop h.device.length)
        (HBAO.setupDescriptors h).descriptorPool).map
          (fun l => Device.layoutDescriptors (HBAO.setupDescriptors h).device l
            VK_DESCRIPTOR_TYPE_UNIFORM_BUFFER)).sum = 4 * h.maxConcurrentFrames := by
      rw [hp, ha]
      exact List.sum_map_flatMap_range (fun _ => [ h.device.length + 2, h.device.length + 3,
        h.device.length + 4, h.device.length + 5 ]) _ 4 (fun _ => by simp [l2, l3, l4, l5]) _
    have hs : ((allocatedLayouts ((HBAO.setupDescriptors h).device.drop h.device.length)
        (HBAO.setupDescriptors h).descriptorPool).map
          (fun l => Device.layoutDescriptors (HBAO.setupDescriptors h).device l
            VK_DESCRIPTOR_TYPE_COMBINED_IMAGE_SAMPLER)).sum = 8 * h.maxConcurrentFrames := by
      rw [hp, ha]
      exact List.sum_map_flatMap_range (fun _ => [ h.device.length + 2, h.device.length + 3,
        h.device.length + 4, h.device.length + 5 ]) _ 8 (fun _ => by simp [l2, l3, l4, l5]) _
    refine ⟨_, by rw [hp]; exact hi, m4, ?_, ?_, ?_, hlen, ?_, hu, ?_, hs, ?_⟩
    · simp [VkDescriptorPoolCreateInfo.descriptors, m4]
    · simp [VkDescriptorPoolCreateInfo.descriptors, m9]
    · rw [hl]
      simp [l2, l3, l4, l5]
    · rw [hlen, m4]
    · rw [hu]
      simp [VkDescriptorPoolCreateInfo.descriptors, m4]
    · rw [hs]
      simp only [VkDescriptorPoolCreateInfo.descriptors]
      simp [m9]
      omega

/-- C26, at the sample states (two frames in flight). -/
theorem C26_descriptor_pool_capacity_witness :
    (∃ info,
      Device.descriptorPoolInfo (GTAO.setupDescriptors GTAO.sampleState).device
        (GTAO.setupDescriptors GTAO.sampleState).descriptorPool = some info ∧
      info.maxSets = 4 * GTAO.sampleState.maxConcurrentFrames ∧
      info.descriptors VK_DESCRIPTOR_TYPE_UNIFORM_BUFFER = 4 * GTAO.sampleState.maxConcurrentFrames ∧
      info.descriptors VK_DESCRIPTOR_TYPE_COMBINED_IMAGE_SAMPLER = 9 * GTAO.sampleState.maxConcurrentFrames ∧
      [ (GTAO.setupDescriptors GTAO.sampleState).descriptorSetLayouts.gBuffer,
        (GTAO.setupDescriptors GTAO.sampleState).descriptorSetLayouts.gtao,
        (GTAO.setupDescriptors GTAO.sampleState).descriptorSetLayouts.gtaoBlur,
        (GTAO.setupDescriptors GTAO.sampleState).descriptorSetLayouts.composition ].map
          (fun l =>
            (Device.layoutDescriptors (GTAO.setupDescriptors GTAO.sampleState).device l
              VK_DESCRIPTOR_TYPE_UNIFORM_BUFFER,
             Device.layoutDescriptors (GTAO.setupDescriptors GTAO.sampleState).device l
              VK_DESCRIPTOR_TYPE_COMBINED_IMAGE_SAMPLER)) = [(1, 0), (2, 2), (0, 1), (1, 5)] ∧
      (allocatedLayouts ((GTAO.setupDescriptors GTAO.sampleState).device.drop GTAO.sampleState.device.length)
        (GTAO.setupDescriptors GTAO.sampleState).descriptorPool).length = 4 * GTAO.sampleState.maxConcurrentFrames ∧
      (allocatedLayouts ((GTAO.setupDescriptors GTAO.sampleState).device.drop GTAO.sampleState.device.length)
        (GTAO.setupDescriptors GTAO.sampleState).descriptorPool).length ≤ info.maxSets ∧
      ((allocatedLayouts ((GTAO.setupDescriptors GTAO.sampleState).device.drop GTAO.sampleState.device.length)
        (GTAO.setupDescriptors GTAO.sampleState).descriptorPool).map
          (fun l => Device.layoutDescriptors (GTAO.setupDescriptors GTAO.sampleState).device l
            VK_DESCRIPTOR_TYPE_UNIFORM_BUFFER)).sum = 4 * GTAO.sampleState.maxConcurrentFrames ∧
      ((allocatedLayouts ((GTAO.setupDescriptors GTAO.sampleState).device.drop GTAO.sampleState.device.length)
        (GTAO.setupDescriptors GTAO.sampleState).descriptorPool).map
          (fun l => Device.layoutDescriptors (GTAO.setupDescriptors GTAO.sampleState).device l
            VK_DESCRIPTOR_TYPE_UNIFORM_BUFFER)).sum ≤
        info.descriptors VK_DESCRIPTOR_TYPE_UNIFORM_BUFFER ∧
      ((allocatedLayouts ((GTAO.setupDescriptors GTAO.sampleState).device.drop GTAO.sampleState.device.length)
        (GTAO.setupDescriptors GTAO.sampleState).descriptorPool).map
          (fun l => Device.layoutDescriptors (GTAO.setupDescriptors GTAO.sampleState).device l
            VK_DESCRIPTOR_TYPE_COMBINED_IMAGE_SAMPLER)).sum = 8 * GTAO.sampleState.maxConcurrentFrames ∧
      ((allocatedLayouts ((GTAO.setupDescriptors GTAO.sampleState).device.drop GTAO.sampleState.device.length)
        (GTAO.setupDescriptors GTAO.sampleState).descriptorPool).map
          (fun l => Device.layoutDescriptors (GTAO.setupDescriptors GTAO.sampleState).device l
            VK_DESCRIPTOR_TYPE_COMBINED_IMAGE_SAMPLER)).sum ≤
        info.descriptors VK_DESCRIPTOR_TYPE_COMBINED_IMAGE_SAMPLER) ∧
    (∃ info,
      Device.descriptorPoolInfo (HBAO.setupDescriptors HBAO.sampleState).device
        (HBAO.setupDescriptors HBAO.sampleState).descriptorPool = some info ∧
      info.maxSets = 4 * HBAO.sampleState.maxConcurrentFrames ∧
      info.descriptors VK_DESCRIPTOR_TYPE_UNIFORM_BUFFER = 4 * HBAO.sampleState.maxConcurrentFrames ∧
      info.descriptors VK_DESCRIPTOR_TYPE_COMBINED_IMAGE_SAMPLER = 9 * HBAO.sampleState.maxConcurrentFrames ∧
      [ (HBAO.setupDescriptors HBAO.sampleState).descriptorSetLayouts.gBuffer,
        (HBAO.setupDescriptors HBAO.sampleState).descriptorSetLayouts.hbao,
        (HBAO.setupDescriptors HBAO.sampleState).descriptorSetLayouts.hbaoBlur,
        (HBAO.setupDescriptors HBAO.sampleState).descriptorSetLayouts.composition ].map
          (fun l =>
            (Device.layoutDescriptors (HBAO.setupDescriptors HBAO.sampleState).device l
              VK_DESCRIPTOR_TYPE_UNIFORM_BUFFER,
             Device.layoutDescriptors (HBAO.setupDescriptors HBAO.sampleState).device l
              VK_DESCRIPTOR_TYPE_COMBINED_IMAGE_SAMPLER)) = [(1, 0), (2, 2), (0, 1), (1, 5)] ∧
      (allocatedLayouts ((HBAO.setupDescriptors HBAO.sampleState).device.drop HBAO.sampleState.device.length)
        (HBAO.setupDescriptors HBAO.sampleState).descriptorPool).length = 4 * HBAO.sampleState.maxConcurrentFrames ∧
      (allocatedLayouts ((HBAO.setupDescriptors HBAO.sampleState).device.drop HBAO.sampleState.device.length)
        (HBAO.setupDescriptors HBAO.sampleState).descriptorPool).length ≤ info.maxSets ∧
      ((allocatedLayouts ((HBAO.setupDescriptors HBAO.sampleState).device.drop HBAO.sampleState.device.length)
        (HBAO.setupDescriptors HBAO.sampleState).descriptorPool).map
          (fun l => Device.layoutDescriptors (HBAO.setupDescriptors HBAO.sampleState).device l
            VK_DESCRIPTOR_TYPE_UNIFORM_BUFFER)).sum = 4 * HBAO.sampleState.maxConcurrentFrames ∧
      ((allocatedLayouts ((HBAO.setupDescriptors HBAO.sampleState).device.drop HBAO.sampleState.device.length)
        (HBAO.setupDescriptors HBAO.sampleState).descriptorPool).map
          (fun l => Device.layoutDescriptors (HBAO.setupDescriptors HBAO.sampleState).device l
            VK_DESCRIPTOR_TYPE_UNIFORM_BUFFER)).sum ≤
        info.descriptors VK_DESCRIPTOR_TYPE_UNIFORM_BUFFER ∧
      ((allocatedLayouts ((HBAO.setupDescriptors HBAO.sampleState).device.drop HBAO.sampleState.device.length)
        (HBAO.setupDescriptors HBAO.sampleState).descriptorPool).map
          (fun l => Device.layoutDescriptors (HBAO.setupDescriptors HBAO.sampleState).device l
            VK_DESCRIPTOR_TYPE_COMBINED_IMAGE_SAMPLER)).sum = 8 * HBAO.sampleState.maxConcurrentFrames ∧
      ((allocatedLayouts ((HBAO.setupDescriptors HBAO.sampleState).device.drop HBAO.sampleState.device.length)
        (HBAO.setupDescriptors HBAO.sampleState).descriptorPool).map
          (fun l => Device.layoutDescriptors (HBAO.setupDescriptors HBAO.sampleState).device l
            VK_DESCRIPTOR_TYPE_COMBINED_IMAGE_SAMPLER)).sum ≤
        info.descriptors VK_DESCRIPTOR_TYPE_COMBINED_IMAGE_SAMPLER) :=
  C26_descriptor_pool_capacity GTAO.sampleState HBAO.sampleState (by decide) (by decide)

/-- C22. In both examples, after `prepare`, in a state whose uniform buffers
are those `prepare` left (whatever they hold) and whose `currentBuffer` = k is
below `maxConcurrentFrames`: `updateUniformBuffers` leaves the buffers of every
other slot as they are and writes the three buffers of slot k, which are
mapped; the scene-parameter buffer receives the host struct with projection =
camera perspective, view = camera view and model = identity; the
toggle/parameter buffer receives the host struct with projection = camera
perspective; the settings buffer receives the host settings, which are not
changed; and the byte count of each copy is the size the destination buffer
was created with. -/
theorem C22_uniform_buffer_update (g0 gp g : GTAO.VulkanExample) (h0 hp h : HBAO.VulkanExample)
    (hgp : GTAO.prepare g0 = some gp) (hgk : g.currentBuffer < g0.maxConcurrentFrames)
    (hgu : ∀ i, ∃ c1 n1 c2 n2 c3 n3, g.uniformBuffers i =
      { sceneParams := { (gp.uniformBuffers i).sceneParams with contents := c1, copied := n1 },
        gtaoParams := { (gp.uniformBuffers i).gtaoParams with contents := c2, copied := n2 },
        gtaoSettings := { (gp.uniformBuffers i).gtaoSettings with contents := c3, copied := n3 } })
    (hhp : HBAO.prepare h0 = some hp) (hhk : h.currentBuffer < h0.maxConcurrentFrames)
    (hhu : ∀ i, ∃ c1 n1 c2 n2 c3 n3, h.uniformBuffers i =
      { sceneParams := { (hp.uniformBuffers i).sceneParams with contents := c1, copied := n1 },
        hbaoParams := { (hp.uniformBuffers i).hbaoParams with contents := c2, copied := n2 },
        hbaoSettings := { (hp.uniformBuffers i).hbaoSettings with contents := c3, copied := n3 } }) :
    ((∀ j, j ≠ g.currentBuffer →
        (GTAO.updateUniformBuffers g).uniformBuffers j = g.uniformBuffers j) ∧
      ((GTAO.updateUniformBuffers g).uniformBuffers g.currentBuffer).sceneParams.contents =
        some { g.uboSceneParams with
          projection := g.camera.perspective, view := g.camera.view,
          model := glm.mat4.diagonal (F32.lit 1 1) } ∧
      ((GTAO.updateUniformBuffers g).uniformBuffers g.currentBuffer).gtaoParams.contents =
        some { g.uboGTAOParams with projection := g.camera.perspective } ∧
      ((GTAO.updateUniformBuffers g).uniformBuffers g.currentBuffer).gtaoSettings.contents =
        some g.uboGTAOSettings ∧
      (GTAO.updateUniformBuffers g).uboGTAOSettings = g.uboGTAOSettings ∧
      ((GTAO.updateUniformBuffers g).uniformBuffers g.currentBuffer).sceneParams.mapped = true ∧
      ((GTAO.updateUniformBuffers g).uniformBuffers g.currentBuffer).sceneParams.copied = GTAO.sizeof_uboSceneParams ∧
      Device.bufferInfo gp.device
          ((GTAO.updateUniformBuffers g).uniformBuffers g.currentBuffer).sceneParams.buffer =
        some (VK_BUFFER_USAGE_UNIFORM_BUFFER_BIT,
          VK_MEMORY_PROPERTY_HOST_VISIBLE_BIT ||| VK_MEMORY_PROPERTY_HOST_COHERENT_BIT,
          ((GTAO.updateUniformBuffers g).uniformBuffers g.currentBuffer).sceneParams.copied) ∧
      ((GTAO.updateUniformBuffers g).uniformBuffers g.currentBuffer).gtaoParams.mapped = true ∧
      ((GTAO.updateUniformBuffers g).uniformBuffers g.currentBuffer).gtaoParams.copied = GTAO.sizeof_uboGTAOParams ∧
      Device.bufferInfo gp.device
          ((GTAO.updateUniformBuffers g).uniformBuffers g.currentBuffer).gtaoParams.buffer =
        some (VK_BUFFER_USAGE_UNIFORM_BUFFER_BIT,
          VK_MEMORY_PROPERTY_HOST_VISIBLE_BIT ||| VK_MEMORY_PROPERTY_HOST_COHERENT_BIT,
          ((GTAO.updateUniformBuffers g).uniformBuffers g.currentBuffer).gtaoParams.copied) ∧
      ((GTAO.updateUniformBuffers g).uniformBuffers g.currentBuffer).gtaoSettings.mapped = true ∧
      ((GTAO.updateUniformBuffers g).uniformBuffers g.currentBuffer).gtaoSettings.copied = GTAO.sizeof_uboGTAOSettings ∧
      Device.bufferInfo gp.device
          ((GTAO.updateUniformBuffers g).uniformBuffers g.currentBuffer).gtaoSettings.buffer =
        some (VK_BUFFER_USAGE_UNIFORM_BUFFER_BIT,
          VK_MEMORY_PROPERTY_HOST_VISIBLE_BIT ||| VK_MEMORY_PROPERTY_HOST_COHERENT_BIT,
          ((GTAO.updateUniformBuffers g).uniformBuffers g.currentBuffer).gtaoSettings.copied)) ∧
    ((∀ j, j ≠ h.currentBuffer →
        (HBAO.updateUniformBuffers h).uniformBuffers j = h.uniformBuffers j) ∧
      ((HBAO.updateUniformBuffers h).uniformBuffers h.currentBuffer).sceneParams.contents =
        some { h.uboSceneParams with
          projection := h.camera.perspective, view := h.camera.view,
          model := glm.mat4.diagonal (F32.lit 1 1) } ∧
      ((HBAO.updateUniformBuffers h).uniformBuffers h.currentBuffer).hbaoParams.contents =
        some { h.uboHBAOParams with projection := h.camera.perspective } ∧
      ((HBAO.updateUniformBuffers h).uniformBuffers h.currentBuffer).hbaoSettings.contents =
        some h.uboHBAOSettings ∧
      (HBAO.updateUniformBuffers h).uboHBAOSettings = h.uboHBAOSettings ∧
      ((HBAO.updateUniformBuffers h).uniformBuffers h.currentBuffer).sceneParams.mapped = true ∧
      ((HBAO.updateUniformBuffers h).uniformBuffers h.currentBuffer).sceneParams.copied = HBAO.sizeof_uboSceneParams ∧
      Device.bufferInfo hp.device
          ((HBAO.updateUniformBuffers h).uniformBuffers h.currentBuffer).sceneParams.buffer =
        some (VK_BUFFER_USAGE_UNIFORM_BUFFER_BIT,
          VK_MEMORY_PROPERTY_HOST_VISIBLE_BIT ||| VK_MEMORY_PROPERTY_HOST_COHERENT_BIT,
          ((HBAO.updateUniformBuffers h).uniformBuffers h.currentBuffer).sceneParams.copied) ∧
      ((HBAO.updateUniformBuffers h).uniformBuffers h.currentBuffer).hbaoParams.mapped = true ∧
      ((HBAO.updateUniformBuffers h).uniformBuffers h.currentBuffer).hbaoParams.copied = HBAO.sizeof_uboHBAOParams ∧
      Device.bufferInfo hp.device
          ((HBAO.updateUniformBuffers h).uniformBuffers h.currentBuffer).hbaoParams.buffer =
        some (VK_BUFFER_USAGE_UNIFORM_BUFFER_BIT,
          VK_MEMORY_PROPERTY_HOST_VISIBLE_BIT ||| VK_MEMORY_PROPERTY_HOST_COHERENT_BIT,
          ((HBAO.updateUniformBuffers h).uniformBuffers h.currentBuffer).hbaoParams.copied) ∧
      ((HBAO.updateUniformBuffers h).uniformBuffers h.currentBuffer).hbaoSettings.mapped = true ∧
      ((HBAO.updateUniformBuffers h).uniformBuffers h.currentBuffer).hbaoSettings.copied = HBAO.sizeof_uboHBAOSettings ∧
      Device.bufferInfo hp.device
          ((HBAO.updateUniformBuffers h).uniformBuffers h.currentBuffer).hbaoSettings.buffer =
        some (VK_BUFFER_USAGE_UNIFORM_BUFFER_BIT,
          VK_MEMORY_PROPERTY_HOST_VISIBLE_BIT ||| VK_MEMORY_PROPERTY_HOST_COHERENT_BIT,
          ((HBAO.updateUniformBuffers h).uniformBuffers h.currentBuffer).hbaoSettings.copied)) := by
  refine ⟨?_, ?_⟩
  · obtain ⟨c1, n1, c2, n2, c3, n3, hk⟩ := hgu g.currentBuffer
    obtain ⟨hub, -⟩ := GTAO.gtao_prepare_handles g0 gp hgp
    obtain ⟨b1, b2, b3⟩ := GTAO.gtao_prepare_buffers g0 gp hgp g.currentBuffer hgk
    have hk' := hub g.currentBuffer hgk
    rw [hk'] at hk b1 b2 b3
    have hu : (GTAO.updateUniformBuffers g).uniformBuffers g.currentBuffer =
        { sceneParams := (g.uniformBuffers g.currentBuffer).sceneParams.copyTo
            { g.uboSceneParams with
              projection := g.camera.perspective, view := g.camera.view,
              model := glm.mat4.diagonal (F32.lit 1 1) } GTAO.sizeof_uboSceneParams,
          gtaoSettings := (g.uniformBuffers g.currentBuffer).gtaoSettings.copyTo
            g.uboGTAOSettings GTAO.sizeof_uboGTAOSettings,
          gtaoParams := (g.uniformBuffers g.currentBuffer).gtaoParams.copyTo
            { g.uboGTAOParams with projection := g.camera.perspective }
            GTAO.sizeof_uboGTAOParams } := by
      simp [GTAO.updateUniformBuffers]
    rw [hu, hk]
    refine ⟨?_, rfl, rfl, rfl, rfl, rfl, rfl, b1, rfl, rfl, b2, rfl, rfl, b3⟩
    intro j hj
    simp [GTAO.updateUniformBuffers, Function.update, hj]
  · obtain ⟨c1, n1, c2, n2, c3, n3, hk⟩ := hhu h.currentBuffer
    obtain ⟨hub, -⟩ := HBAO.hbao_prepare_handles h0 hp hhp
    obtain ⟨b1, b2, b3⟩ := HBAO.hbao_prepare_buffers h0 hp hhp h.currentBuffer hhk
    have hk' := hub h.currentBuffer hhk
    rw [hk'] at hk b1 b2 b3
    have hu : (HBAO.updateUniformBuffers h).uniformBuffers h.currentBuffer =
        { sceneParams := (h.uniformBuffers h.currentBuffer).sceneParams.copyTo
            { h.uboSceneParams with
              projection := h.camera.perspective, view := h.camera.view,
              model := glm.mat4.diagonal (F32.lit 1 1) } HBAO.sizeof_uboSceneParams,
          hbaoSettings := (h.uniformBuffers h.currentBuffer).hbaoSettings.copyTo
            h.uboHBAOSettings HBAO.sizeof_uboHBAOSettings,
          hbaoParams := (h.uniformBuffers h.currentBuffer).hbaoParams.copyTo
            { h.uboHBAOParams with projection := h.camera.perspective }
            HBAO.sizeof_uboHBAOParams } := by
      simp [HBAO.updateUniformBuffers]
    rw [hu, hk]
    refine ⟨?_, rfl, rfl, rfl, rfl, rfl, rfl, b1, rfl, rfl, b2, rfl, rfl, b3⟩
    intro j hj
    simp [HBAO.updateUniformBuffers, Function.update, hj]

/-- C22, at the prepared sample states. -/
theorem C22_uniform_buffer_update_witness :
    ((∀ j, j ≠ GTAO.preparedSample.currentBuffer →
        (GTAO.updateUniformBuffers GTAO.preparedSample).uniformBuffers j = GTAO.preparedSample.uniformBuffers j) ∧
      ((GTAO.updateUniformBuffers GTAO.preparedSample).uniformBuffers GTAO.preparedSample.currentBuffer).sceneParams.contents =
        some { GTAO.preparedSample.uboSceneParams with
          projection := GTAO.preparedSample.camera.perspective, view := GTAO.preparedSample.camera.view,
          model := glm.mat4.diagonal (F32.lit 1 1) } ∧
      ((GTAO.updateUniformBuffers GTAO.preparedSample).uniformBuffers GTAO.preparedSample.currentBuffer).gtaoParams.contents =
        some { GTAO.preparedSample.uboGTAOParams with projection := GTAO.preparedSample.camera.perspective } ∧
      ((GTAO.updateUniformBuffers GTAO.preparedSample).uniformBuffers GTAO.preparedSample.currentBuffer).gtaoSettings.contents =
        some GTAO.preparedSample.uboGTAOSettings ∧
      (GTAO.updateUniformBuffers GTAO.preparedSample).uboGTAOSettings = GTAO.preparedSample.uboGTAOSettings ∧
      ((GTAO.updateUniformBuffers GTAO.preparedSample).uniformBuffers GTAO.preparedSample.currentBuffer).sceneParams.mapped = true ∧
      ((GTAO.updateUniformBuffers GTAO.preparedSample).uniformBuffers GTAO.preparedSample.currentBuffer).sceneParams.copied = GTAO.sizeof_uboSceneParams ∧
      Device.bufferInfo GTAO.preparedSample.device
          ((GTAO.updateUniformBuffers GTAO.preparedSample).uniformBuffers GTAO.preparedSample.currentBuffer).sceneParams.buffer =
        some (VK_BUFFER_USAGE_UNIFORM_BUFFER_BIT,
          VK_MEMORY_PROPERTY_HOST_VISIBLE_BIT ||| VK_MEMORY_PROPERTY_HOST_COHERENT_BIT,
          ((GTAO.updateUniformBuffers GTAO.preparedSample).uniformBuffers GTAO.preparedSample.currentBuffer).sceneParams.copied) ∧
      ((GTAO.updateUniformBuffers GTAO.preparedSample).uniformBuffers GTAO.preparedSample.currentBuffer).gtaoParams.mapped = true ∧
      ((GTAO.updateUniformBuffers GTAO.preparedSample).uniformBuffers GTAO.preparedSample.currentBuffer).gtaoParams.copied = GTAO.sizeof_uboGTAOParams ∧
      Device.bufferInfo GTAO.preparedSample.device
          ((GTAO.updateUniformBuffers GTAO.preparedSample).uniformBuffers GTAO.preparedSample.currentBuffer).gtaoParams.buffer =
        some (VK_BUFFER_USAGE_UNIFORM_BUFFER_BIT,
          VK_MEMORY_PROPERTY_HOST_VISIBLE_BIT ||| VK_MEMORY_PROPERTY_HOST_COHERENT_BIT,
          ((GTAO.updateUniformBuffers GTAO.preparedSample).uniformBuffers GTAO.preparedSample.currentBuffer).gtaoParams.copied) ∧
      ((GTAO.updateUniformBuffers GTAO.preparedSample).uniformBuffers GTAO.preparedSample.currentBuffer).gtaoSettings.mapped = true ∧
      ((GTAO.updateUniformBuffers GTAO.preparedSample).uniformBuffers GTAO.preparedSample.currentBuffer).gtaoSettings.copied = GTAO.sizeof_uboGTAOSettings ∧
      Device.bufferInfo GTAO.preparedSample.device
          ((GTAO.updateUniformBuffers GTAO.preparedSample).uniformBuffers GTAO.preparedSample.currentBuffer).gtaoSettings.buffer =
        some (VK_BUFFER_USAGE_UNIFORM_BUFFER_BIT,
          VK_MEMORY_PROPERTY_HOST_VISIBLE_BIT ||| VK_MEMORY_PROPERTY_HOST_COHERENT_BIT,
          ((GTAO.updateUniformBuffers GTAO.preparedSample).uniformBuffers GTAO.preparedSample.currentBuffer).gtaoSettings.copied)) ∧
    ((∀ j, j ≠ HBAO.preparedSample.currentBuffer →
        (HBAO.updateUniformBuffers HBAO.preparedSample).uniformBuffers j = HBAO.preparedSample.uniformBuffers j) ∧
      ((HBAO.updateUniformBuffers HBAO.preparedSample).uniformBuffers HBAO.preparedSample.currentBuffer).sceneParams.contents =
        some { HBAO.preparedSample.uboSceneParams with
          projection := HBAO.preparedSample.camera.perspective, view := HBAO.preparedSample.camera.view,
          model := glm.mat4.diagonal (F32.lit 1 1) } ∧
      ((HBAO.updateUniformBuffers HBAO.preparedSample).uniformBuffers HBAO.preparedSample.currentBuffer).hbaoParams.contents =
        some { HBAO.preparedSample.uboHBAOParams with projection := HBAO.preparedSample.camera.perspective } ∧
      ((HBAO.updateUniformBuffers HBAO.preparedSample).uniformBuffers HBAO.preparedSample.currentBuffer).hbaoSettings.contents =
        some HBAO.preparedSample.uboHBAOSettings ∧
      (HBAO.updateUniformBuffers HBAO.preparedSample).uboHBAOSettings = HBAO.preparedSample.uboHBAOSettings ∧
      ((HBAO.updateUniformBuffers HBAO.preparedSample).uniformBuffers HBAO.preparedSample.currentBuffer).sceneParams.mapped = true ∧
      ((HBAO.updateUniformBuffers HBAO.preparedSample).uniformBuffers HBAO.preparedSample.currentBuffer).sceneParams.copied = HBAO.sizeof_uboSceneParams ∧
      Device.bufferInfo HBAO.preparedSample.device
          ((HBAO.updateUniformBuffers HBAO.preparedSample).uniformBuffers HBAO.preparedSample.currentBuffer).sceneParams.buffer =
        some (VK_BUFFER_USAGE_UNIFORM_BUFFER_BIT,
          VK_MEMORY_PROPERTY_HOST_VISIBLE_BIT ||| VK_MEMORY_PROPERTY_HOST_COHERENT_BIT,
          ((HBAO.updateUniformBuffers HBAO.preparedSample).uniformBuffers HBAO.preparedSample.currentBuffer).sceneParams.copied) ∧
      ((HBAO.updateUniformBuffers HBAO.preparedSample).uniformBuffers HBAO.preparedSample.currentBuffer).hbaoParams.mapped = true ∧
      ((HBAO.updateUniformBuffers HBAO.preparedSample).uniformBuffers HBAO.preparedSample.currentBuffer).hbaoParams.copied = HBAO.sizeof_uboHBAOParams ∧
      Device.bufferInfo HBAO.preparedSample.device
          ((HBAO.updateUniformBuffers HBAO.preparedSample).uniformBuffers HBAO.preparedSample.currentBuffer).hbaoParams.buffer =
        some (VK_BUFFER_USAGE_UNIFORM_BUFFER_BIT,
          VK_MEMORY_PROPERTY_HOST_VISIBLE_BIT ||| VK_MEMORY_PROPERTY_HOST_COHERENT_BIT,
          ((HBAO.updateUniformBuffers HBAO.preparedSample).uniformBuffers HBAO.preparedSample.currentBuffer).hbaoParams.copied) ∧
      ((HBAO.updateUniformBuffers HBAO.preparedSample).uniformBuffers HBAO.preparedSample.currentBuffer).hbaoSettings.mapped = true ∧
      ((HBAO.updateUniformBuffers HBAO.preparedSample).uniformBuffers HBAO.preparedSample.currentBuffer).hbaoSettings.copied = HBAO.sizeof_uboHBAOSettings ∧
      Device.bufferInfo HBAO.preparedSample.device
          ((HBAO.updateUniformBuffers HBAO.preparedSample).uniformBuffers HBAO.preparedSample.currentBuffer).hbaoSettings.buffer =
        some (VK_BUFFER_USAGE_UNIFORM_BUFFER_BIT,
          VK_MEMORY_PROPERTY_HOST_VISIBLE_BIT ||| VK_MEMORY_PROPERTY_HOST_COHERENT_BIT,
          ((HBAO.updateUniformBuffers HBAO.preparedSample).uniformBuffers HBAO.preparedSample.currentBuffer).hbaoSettings.copied)) :=
  C22_uniform_buffer_update GTAO.sampleState GTAO.preparedSample GTAO.preparedSample
    HBAO.sampleState HBAO.preparedSample HBAO.preparedSample
    GTAO.gtao_prepare_sample (by decide)
    (fun i => ⟨(GTAO.preparedSample.uniformBuffers i).sceneParams.contents,
      (GTAO.preparedSample.uniformBuffers i).sceneParams.copied,
      (GTAO.preparedSample.uniformBuffers i).gtaoParams.contents,
      (GTAO.preparedSample.uniformBuffers i).gtaoParams.copied,
      (GTAO.preparedSample.uniformBuffers i).gtaoSettings.contents,
      (GTAO.preparedSample.uniformBuffers i).gtaoSettings.copied, rfl⟩)
    HBAO.hbao_prepare_sample (by decide)
    (fun i => ⟨(HBAO.preparedSample.uniformBuffers i).sceneParams.contents,
      (HBAO.preparedSample.uniformBuffers i).sceneParams.copied,
      (HBAO.preparedSample.uniformBuffers i).hbaoParams.contents,
      (HBAO.preparedSample.uniformBuffers i).hbaoParams.copied,
      (HBAO.preparedSample.uniformBuffers i).hbaoSettings.contents,
      (HBAO.preparedSample.uniformBuffers i).hbaoSettings.copied, rfl⟩)

/-- C23. In both examples `prepare` creates exactly one sampler,
`colorSampler`, with NEAREST magnification and minification filters and
CLAMP_TO_EDGE addressing for U, V and W; and (when the descriptor writes of the
log before `prepare` target handles of that log) every image descriptor
written on the four descriptor sets of every slot uses this sampler. -/
theorem C23_one_sampler (g0 gp : GTAO.VulkanExample) (h0 hp : HBAO.VulkanExample)
    (hgp : GTAO.prepare g0 = some gp) (hgb : Device.writesBounded g0.device)
    (hhp : HBAO.prepare h0 = some hp) (hhb : Device.writesBounded h0.device) :
    (Device.created g0.device gp.device ObjectKind.sampler = [gp.colorSampler] ∧
      (∃ info, Device.samplerInfo gp.device gp.colorSampler = some info ∧
        info.magFilter = VK_FILTER_NEAREST ∧ info.minFilter = VK_FILTER_NEAREST ∧
        info.addressModeU = VK_SAMPLER_ADDRESS_MODE_CLAMP_TO_EDGE ∧
        info.addressModeV = VK_SAMPLER_ADDRESS_MODE_CLAMP_TO_EDGE ∧
        info.addressModeW = VK_SAMPLER_ADDRESS_MODE_CLAMP_TO_EDGE) ∧
      ∀ i, i < g0.maxConcurrentFrames →
        ∀ set ∈ [ (gp.descriptorSets i).gBuffer, (gp.descriptorSets i).gtao,
                  (gp.descriptorSets i).gtaoBlur, (gp.descriptorSets i).composition ],
          ∀ x ∈ Device.imageInputs gp.device set, x.2.sampler = gp.colorSampler) ∧
    (Device.created h0.device hp.device ObjectKind.sampler = [hp.colorSampler] ∧
      (∃ info, Device.samplerInfo hp.device hp.colorSampler = some info ∧
        info.magFilter = VK_FILTER_NEAREST ∧ info.minFilter = VK_FILTER_NEAREST ∧
        info.addressModeU = VK_SAMPLER_ADDRESS_MODE_CLAMP_TO_EDGE ∧
        info.addressModeV = VK_SAMPLER_ADDRESS_MODE_CLAMP_TO_EDGE ∧
        info.addressModeW = VK_SAMPLER_ADDRESS_MODE_CLAMP_TO_EDGE) ∧
      ∀ i, i < h0.maxConcurrentFrames →
        ∀ set ∈ [ (hp.descriptorSets i).gBuffer, (hp.descriptorSets i).hbao,
                  (hp.descriptorSets i).hbaoBlur, (hp.descriptorSets i).composition ],
          ∀ x ∈ Device.imageInputs hp.device set, x.2.sampler = hp.colorSampler) := by
  refine ⟨?_, ?_⟩
  · obtain ⟨hs, -, -, -⟩ := GTAO.gtao_prepare_attachments g0 gp hgp
    refine ⟨GTAO.gtao_prepare_samplers g0 gp hgp, ⟨_, hs, rfl, rfl, rfl, rfl, rfl⟩, ?_⟩
    intro i hi set hset x hx
    obtain ⟨i1, -, i2, -, i3, -, i4, -⟩ := GTAO.gtao_prepare_inputs g0 gp hgp hgb i hi
    simp only [List.mem_cons, List.mem_singleton, List.not_mem_nil, or_false] at hset
    rcases hset with rfl | rfl | rfl | rfl
    · rw [i1] at hx
      simp at hx
    · rw [i2] at hx
      simp only [List.mem_cons, List.mem_singleton, List.not_mem_nil, or_false] at hx
      rcases hx with rfl | rfl <;> rfl
    · rw [i3] at hx
      simp only [List.mem_cons, List.mem_singleton, List.not_mem_nil, or_false] at hx
      subst hx
      rfl
    · rw [i4] at hx
      simp only [List.mem_cons, List.mem_singleton, List.not_mem_nil, or_false] at hx
      rcases hx with rfl | rfl | rfl | rfl | rfl <;> rfl
  · obtain ⟨hs, -, -, -⟩ := HBAO.hbao_prepare_attachments h0 hp hhp
    refine ⟨HBAO.hbao_prepare_samplers h0 hp hhp, ⟨_, hs, rfl, rfl, rfl, rfl, rfl⟩, ?_⟩
    intro i hi set hset x hx
    obtain ⟨i1, -, i2, -, i3, -, i4, -⟩ := HBAO.hbao_prepare_inputs h0 hp hhp hhb i hi
    simp only [List.mem_cons, List.mem_singleton, List.not_mem_nil, or_false] at hset
    rcases hset with rfl | rfl | rfl | rfl
    · rw [i1] at hx
      simp at hx
    · rw [i2] at hx
      simp only [List.mem_cons, List.mem_singleton, List.not_mem_nil, or_false] at hx
      rcases hx with rfl | rfl <;> rfl
    · rw [i3] at hx
      simp only [List.mem_cons, List.mem_singleton, List.not_mem_nil, or_false] at hx
      subst hx
      rfl
    · rw [i4] at hx
      simp only [List.mem_cons, List.mem_singleton, List.not_mem_nil, or_false] at hx
      rcases hx with rfl | rfl | rfl | rfl | rfl <;> rfl

/-- C23, at the sample states. -/
theorem C23_one_sampler_witness :
    (Device.created GTAO.sampleState.device GTAO.preparedSample.device ObjectKind.sampler = [GTAO.preparedSample.colorSampler] ∧
      (∃ info, Device.samplerInfo GTAO.preparedSample.device GTAO.preparedSample.colorSampler = some info ∧
        info.magFilter = VK_FILTER_NEAREST ∧ info.minFilter = VK_FILTER_NEAREST ∧
        info.addressModeU = VK_SAMPLER_ADDRESS_MODE_CLAMP_TO_EDGE ∧
        info.addressModeV = VK_SAMPLER_ADDRESS_MODE_CLAMP_TO_EDGE ∧
        info.addressModeW = VK_SAMPLER_ADDRESS_MODE_CLAMP_TO_EDGE) ∧
      ∀ i, i < GTAO.sampleState.maxConcurrentFrames →
        ∀ set ∈ [ (GTAO.preparedSample.descriptorSets i).gBuffer, (GTAO.preparedSample.descriptorSets i).gtao,
                  (GTAO.preparedSample.descriptorSets i).gtaoBlur, (GTAO.preparedSample.descriptorSets i).composition ],
          ∀ x ∈ Device.imageInputs GTAO.preparedSample.device set, x.2.sampler = GTAO.preparedSample.colorSampler) ∧
    (Device.created HBAO.sampleState.device HBAO.preparedSample.device ObjectKind.sampler = [HBAO.preparedSample.colorSampler] ∧
      (∃ info, Device.samplerInfo HBAO.preparedSample.device HBAO.preparedSample.colorSampler = some info ∧
        info.magFilter = VK_FILTER_NEAREST ∧ info.minFilter = VK_FILTER_NEAREST ∧
        info.addressModeU = VK_SAMPLER_ADDRESS_MODE_CLAMP_TO_EDGE ∧
        info.addressModeV = VK_SAMPLER_ADDRESS_MODE_CLAMP_TO_EDGE ∧
        info.addressModeW = VK_SAMPLER_ADDRESS_MODE_CLAMP_TO_EDGE) ∧
      ∀ i, i < HBAO.sampleState.maxConcurrentFrames →
        ∀ set ∈ [ (HBAO.preparedSample.descriptorSets i).gBuffer, (HBAO.preparedSample.descriptorSets i).hbao,
                  (HBAO.preparedSample.descriptorSets i).hbaoBlur, (HBAO.preparedSample.descriptorSets i).composition ],
          ∀ x ∈ Device.imageInputs HBAO.preparedSample.device set, x.2.sampler = HBAO.preparedSample.colorSampler) :=
  C23_one_sampler GTAO.sampleState GTAO.preparedSample HBAO.sampleState HBAO.preparedSample
    GTAO.gtao_prepare_sample GTAO.gtao_sample_bounded
    HBAO.hbao_prepare_sample HBAO.hbao_sample_bounded

/-- C24. In both examples, for a state `g` whose `frameBuffers` are those
`prepareOffscreenFramebuffers` left: the destructor, when the device handle is
not null, releases exactly the images, the image views and the memory
allocations (six each), and the framebuffers and the render passes (three
each) that `prepareOffscreenFramebuffers` created, each of them once; when the
device handle is null it releases nothing. -/
theorem C24_destructor_releases (g0 g' g : GTAO.VulkanExample) (h0 h' h : HBAO.VulkanExample)
    (device : Nat)
    (hg' : GTAO.prepareOffscreenFramebuffers g0 = some g') (hgf : g.frameBuffers = g'.frameBuffers)
    (hh' : HBAO.prepareOffscreenFramebuffers h0 = some h') (hhf : h.frameBuffers = h'.frameBuffers) :
    ((device ≠ 0 →
        released ObjectKind.image (GTAO.destructor g device) =
          Device.created g0.device g'.device ObjectKind.image ∧
        released ObjectKind.imageView (GTAO.destructor g device) =
          Device.created g0.device g'.device ObjectKind.imageView ∧
        released ObjectKind.memory (GTAO.destructor g device) =
          Device.created g0.device g'.device ObjectKind.memory ∧
        released ObjectKind.framebuffer (GTAO.destructor g device) =
          Device.created g0.device g'.device ObjectKind.framebuffer ∧
        released ObjectKind.renderPass (GTAO.destructor g device) =
          Device.created g0.device g'.device ObjectKind.renderPass ∧
        (released ObjectKind.image (GTAO.destructor g device)).length = 6 ∧
        (released ObjectKind.imageView (GTAO.destructor g device)).length = 6 ∧
        (released ObjectKind.memory (GTAO.destructor g device)).length = 6 ∧
        (released ObjectKind.framebuffer (GTAO.destructor g device)).length = 3 ∧
        (released ObjectKind.renderPass (GTAO.destructor g device)).length = 3 ∧
        (released ObjectKind.image (GTAO.destructor g device)).Nodup ∧
        (released ObjectKind.imageView (GTAO.destructor g device)).Nodup ∧
        (released ObjectKind.memory (GTAO.destructor g device)).Nodup ∧
        (released ObjectKind.framebuffer (GTAO.destructor g device)).Nodup ∧
        (released ObjectKind.renderPass (GTAO.destructor g device)).Nodup) ∧
      GTAO.destructor g 0 = []) ∧
    ((device ≠ 0 →
        released ObjectKind.image (HBAO.destructor h device) =
          Device.created h0.device h'.device ObjectKind.image ∧
        released ObjectKind.imageView (HBAO.destructor h device) =
          Device.created h0.device h'.device ObjectKind.imageView ∧
        released ObjectKind.memory (HBAO.destructor h device) =
          Device.created h0.device h'.device ObjectKind.memory ∧
        released ObjectKind.framebuffer (HBAO.destructor h device) =
          Device.created h0.device h'.device ObjectKind.framebuffer ∧
        released ObjectKind.renderPass (HBAO.destructor h device) =
          Device.created h0.device h'.device ObjectKind.renderPass ∧
        (released ObjectKind.image (HBAO.destructor h device)).length = 6 ∧
        (released ObjectKind.imageView (HBAO.destructor h device)).length = 6 ∧
        (released ObjectKind.memory (HBAO.destructor h device)).length = 6 ∧
        (released ObjectKind.framebuffer (HBAO.destructor h device)).length = 3 ∧
        (released ObjectKind.renderPass (HBAO.destructor h device)).length = 3 ∧
        (released ObjectKind.image (HBAO.destructor h device)).Nodup ∧
        (released ObjectKind.imageView (HBAO.destructor h device)).Nodup ∧
        (released ObjectKind.memory (HBAO.destructor h device)).Nodup ∧
        (released ObjectKind.framebuffer (HBAO.destructor h device)).Nodup ∧
        (released ObjectKind.renderPass (HBAO.destructor h device)).Nodup) ∧
      HBAO.destructor h 0 = []) := by
  refine ⟨?_, ?_⟩
  · refine ⟨?_, rfl⟩
    intro hd
    obtain ⟨hA, fmt, hD⟩ := GTAO.gtao_prepareOffscreenFramebuffers_some g0 g' hg'
    rw [GTAO.gtao_prepareOffscreenFramebuffers_eq g0 fmt hA hD] at hg'
    obtain ⟨r1, r2, r3, r4, r5, -⟩ := GTAO.gtao_destructor_released g device hd
    obtain ⟨c1, c2, c3, c4, c5, -⟩ :=
      GTAO.gtao_offscreenCalls_created g0.device.length g0.width g0.height g0.width g0.height fmt
    have hdev : g'.device = g0.device ++
        GTAO.prepareOffscreenFramebuffersCalls g0.device.length g0.width g0.height g0.width
          g0.height fmt := by
      cases hg'
      rfl
    have hfb : g.frameBuffers =
        GTAO.prepareOffscreenFramebuffersResult g0.device.length g0.width g0.height g0.width
          g0.height fmt := by
      rw [hgf]
      cases hg'
      rfl
    have e1 : released ObjectKind.image (GTAO.destructor g device) =
        Device.created g0.device g'.device ObjectKind.image := by
      rw [r1, hdev, Device.created_append, c1, hfb]
      rfl
    have e2 : released ObjectKind.imageView (GTAO.destructor g device) =
        Device.created g0.device g'.device ObjectKind.imageView := by
      rw [r2, hdev, Device.created_append, c2, hfb]
      rfl
    have e3 : released ObjectKind.memory (GTAO.destructor g device) =
        Device.created g0.device g'.device ObjectKind.memory := by
      rw [r3, hdev, Device.created_append, c3, hfb]
      rfl
    have e4 : released ObjectKind.framebuffer (GTAO.destructor g device) =
        Device.created g0.device g'.device ObjectKind.framebuffer := by
      rw [r4, hdev, Device.created_append, c4, hfb]
      rfl
    have e5 : released ObjectKind.renderPass (GTAO.destructor g device) =
        Device.created g0.device g'.device ObjectKind.renderPass := by
      rw [r5, hdev, Device.created_append, c5, hfb]
      rfl
    refine ⟨e1, e2, e3, e4, e5, by rw [r1]; rfl, by rw [r2]; rfl, by rw [r3]; rfl,
      by rw [r4]; rfl, by rw [r5]; rfl, ?_, ?_, ?_, ?_, ?_⟩
    · rw [e1]; exact Device.created_nodup _ _ _
    · rw [e2]; exact Device.created_nodup _ _ _
    · rw [e3]; exact Device.created_nodup _ _ _
    · rw [e4]; exact Device.created_nodup _ _ _
    · rw [e5]; exact Device.created_nodup _ _ _
  · refine ⟨?_, rfl⟩
    intro hd
    obtain ⟨fmt, hD⟩ := HBAO.hbao_prepareOffscreenFramebuffers_some h0 h' hh'
    rw [HBAO.hbao_prepareOffscreenFramebuffers_eq h0 fmt hD] at hh'
    obtain ⟨r1, r2, r3, r4, r5, -⟩ := HBAO.hbao_destructor_released h device hd
    obtain ⟨c1, c2, c3, c4, c5, -⟩ :=
      HBAO.hbao_offscreenCalls_created h0.device.length h0.width h0.height
        (if h0.ANDROID = true then h0.width / 2 else h0.width)
        (if h0.ANDROID = true then h0.height / 2 else h0.height) fmt
    have hdev : h'.device = h0.device ++
        HBAO.prepareOffscreenFramebuffersCalls h0.device.length h0.width h0.height
        (if h0.ANDROID = true then h0.width / 2 else h0.width)
        (if h0.ANDROID = true then h0.height / 2 else h0.height) fmt := by
      cases hh'
      rfl
    have hfb : h.frameBuffers =
        HBAO.prepareOffscreenFramebuffersResult h0.device.length h0.width h0.height
        (if h0.ANDROID = true then h0.width / 2 else h0.width)
        (if h0.ANDROID = true then h0.height / 2 else h0.height) fmt := by
      rw [hhf]
      cases hh'
      rfl
    have e1 : released ObjectKind.image (HBAO.destructor h device) =
        Device.created h0.device h'.device ObjectKind.image := by
      rw [r1, hdev, Device.created_append, c1, hfb]
      rfl
    have e2 : released ObjectKind.imageView (HBAO.destructor h device) =
        Device.created h0.device h'.device ObjectKind.imageView := by
      rw [r2, hdev, Device.created_append, c2, hfb]
      rfl
    have e3 : released ObjectKind.memory (HBAO.destructor h device) =
        Device.created h0.device h'.device ObjectKind.memory := by
      rw [r3, hdev, Device.created_append, c3, hfb]
      rfl
    have e4 : released ObjectKind.framebuffer (HBAO.destructor h device) =
        Device.created h0.device h'.device ObjectKind.framebuffer := by
      rw [r4, hdev, Device.created_append, c4, hfb]
      rfl
    have e5 : released ObjectKind.renderPass (HBAO.destructor h device) =
        Device.created h0.device h'.device ObjectKind.renderPass := by
      rw [r5, hdev, Device.created_append, c5, hfb]
      rfl
    refine ⟨e1, e2, e3, e4, e5, by rw [r1]; rfl, by rw [r2]; rfl, by rw [r3]; rfl,
      by rw [r4]; rfl, by rw [r5]; rfl, ?_, ?_, ?_, ?_, ?_⟩
    · rw [e1]; exact Device.created_nodup _ _ _
    · rw [e2]; exact Device.created_nodup _ _ _
    · rw [e3]; exact Device.created_nodup _ _ _
    · rw [e4]; exact Device.created_nodup _ _ _
    · rw [e5]; exact Device.created_nodup _ _ _

/-- C24, at the sample states, for the device handle 1 and for the null
handle. -/
theorem C24_destructor_releases_witness :
    ((1 ≠ 0 →
        released ObjectKind.image (GTAO.destructor GTAO.preparedSample 1) =
          Device.created GTAO.sampleState.device GTAO.offscreenSample.device ObjectKind.image ∧
        released ObjectKind.imageView (GTAO.destructor GTAO.preparedSample 1) =
          Device.created GTAO.sampleState.device GTAO.offscreenSample.device ObjectKind.imageView ∧
        released ObjectKind.memory (GTAO.destructor GTAO.preparedSample 1) =
          Device.created GTAO.sampleState.device GTAO.offscreenSample.device ObjectKind.memory ∧
        released ObjectKind.framebuffer (GTAO.destructor GTAO.preparedSample 1) =
          Device.created GTAO.sampleState.device GTAO.offscreenSample.device ObjectKind.framebuffer ∧
        released ObjectKind.renderPass (GTAO.destructor GTAO.preparedSample 1) =
          Device.created GTAO.sampleState.device GTAO.offscreenSample.device ObjectKind.renderPass ∧
        (released ObjectKind.image (GTAO.destructor GTAO.preparedSample 1)).length = 6 ∧
        (released ObjectKind.imageView (GTAO.destructor GTAO.preparedSample 1)).length = 6 ∧
        (released ObjectKind.memory (GTAO.destructor GTAO.preparedSample 1)).length = 6 ∧
        (released ObjectKind.framebuffer (GTAO.destructor GTAO.preparedSample 1)).length = 3 ∧
        (released ObjectKind.renderPass (GTAO.destructor GTAO.preparedSample 1)).length = 3 ∧
        (released ObjectKind.image (GTAO.destructor GTAO.preparedSample 1)).Nodup ∧
        (released ObjectKind.imageView (GTAO.destructor GTAO.preparedSample 1)).Nodup ∧
        (released ObjectKind.memory (GTAO.destructor GTAO.preparedSample 1)).Nodup ∧
        (released ObjectKind.framebuffer (GTAO.destructor GTAO.preparedSample 1)).Nodup ∧
        (released ObjectKind.renderPass (GTAO.destructor GTAO.preparedSample 1)).Nodup) ∧
      GTAO.destructor GTAO.preparedSample 0 = []) ∧
    ((1 ≠ 0 →
        released ObjectKind.image (HBAO.destructor HBAO.preparedSample 1) =
          Device.created HBAO.sampleState.device HBAO.offscreenSample.device ObjectKind.image ∧
        released ObjectKind.imageView (HBAO.destructor HBAO.preparedSample 1) =
          Device.created HBAO.sampleState.device HBAO.offscreenSample.device ObjectKind.imageView ∧
        released ObjectKind.memory (HBAO.destructor HBAO.preparedSample 1) =
          Device.created HBAO.sampleState.device HBAO.offscreenSample.device ObjectKind.memory ∧
        released ObjectKind.framebuffer (HBAO.destructor HBAO.preparedSample 1) =
          Device.created HBAO.sampleState.device HBAO.offscreenSample.device ObjectKind.framebuffer ∧
        released ObjectKind.renderPass (HBAO.destructor HBAO.preparedSample 1) =
          Device.created HBAO.sampleState.device HBAO.offscreenSample.device ObjectKind.renderPass ∧
        (released ObjectKind.image (HBAO.destructor HBAO.preparedSample 1)).length = 6 ∧
        (released ObjectKind.imageView (HBAO.destructor HBAO.preparedSample 1)).length = 6 ∧
        (released ObjectKind.memory (HBAO.destructor HBAO.preparedSample 1)).length = 6 ∧
        (released ObjectKind.framebuffer (HBAO.destructor HBAO.preparedSample 1)).length = 3 ∧
        (released ObjectKind.renderPass (HBAO.destructor HBAO.preparedSample 1)).length = 3 ∧
        (released ObjectKind.image (HBAO.destructor HBAO.preparedSample 1)).Nodup ∧
        (released ObjectKind.imageView (HBAO.destructor HBAO.preparedSample 1)).Nodup ∧
        (released ObjectKind.memory (HBAO.destructor HBAO.preparedSample 1)).Nodup ∧
        (released ObjectKind.framebuffer (HBAO.destructor HBAO.preparedSample 1)).Nodup ∧
        (released ObjectKind.renderPass (HBAO.destructor HBAO.preparedSample 1)).Nodup) ∧
      HBAO.destructor HBAO.preparedSample 0 = []) :=
  C24_destructor_releases GTAO.sampleState GTAO.offscreenSample GTAO.preparedSample
    HBAO.sampleState HBAO.offscreenSample HBAO.preparedSample 1
    GTAO.gtao_offscreen_sample.1 GTAO.gtao_offscreen_sample.2
    HBAO.hbao_offscreen_sample.1 HBAO.hbao_offscreen_sample.2

/-- C27. In both examples, after `prepare` (when the descriptor writes of the
log before target handles of that log), for every slot and each of the four
passes: the descriptor set of the pass is allocated with the descriptor-set
layout of the pass, and the writes made on the set are, binding by binding,
the bindings the layout declares, with the same descriptor type and count; the
binding indices of the layout are distinct, so that every declared binding is
written exactly once and no other binding is written. -/
theorem C27_writes_match_layout (g0 gp : GTAO.VulkanExample) (h0 hp : HBAO.VulkanExample)
    (hgp : GTAO.prepare g0 = some gp) (hgb : Device.writesBounded g0.device)
    (hhp : HBAO.prepare h0 = some hp) (hhb : Device.writesBounded h0.device) :
    (∀ i, i < g0.maxConcurrentFrames →
      ∀ pr ∈ [ ((gp.descriptorSets i).gBuffer, gp.descriptorSetLayouts.gBuffer),
               ((gp.descriptorSets i).gtao, gp.descriptorSetLayouts.gtao),
               ((gp.descriptorSets i).gtaoBlur, gp.descriptorSetLayouts.gtaoBlur),
               ((gp.descriptorSets i).composition, gp.descriptorSetLayouts.composition) ],
        ∃ ai li, Device.descriptorSetInfo gp.device pr.1 = some ai ∧
          span ai.descriptorSetCount ai.pSetLayouts = [pr.2] ∧
          Device.descriptorSetLayoutInfo gp.device pr.2 = some li ∧
          (Device.writesTo gp.device pr.1).map
              (fun w => (w.dstBinding, w.descriptorType, w.descriptorCount)) =
            li.pBindings.map (fun b => (b.binding, b.descriptorType, b.descriptorCount)) ∧
          (li.pBindings.map (fun b => b.binding)).Nodup) ∧
    (∀ i, i < h0.maxConcurrentFrames →
      ∀ pr ∈ [ ((hp.descriptorSets i).gBuffer, hp.descriptorSetLayouts.gBuffer),
               ((hp.descriptorSets i).hbao, hp.descriptorSetLayouts.hbao),
               ((hp.descriptorSets i).hbaoBlur, hp.descriptorSetLayouts.hbaoBlur),
               ((hp.descriptorSets i).composition, hp.descriptorSetLayouts.composition) ],
        ∃ ai li, Device.descriptorSetInfo hp.device pr.1 = some ai ∧
          span ai.descriptorSetCount ai.pSetLayouts = [pr.2] ∧
          Device.descriptorSetLayoutInfo hp.device pr.2 = some li ∧
          (Device.writesTo hp.device pr.1).map
              (fun w => (w.dstBinding, w.descriptorType, w.descriptorCount)) =
            li.pBindings.map (fun b => (b.binding, b.descriptorType, b.descriptorCount)) ∧
          (li.pBindings.map (fun b => b.binding)).Nodup) := by
  refine ⟨?_, ?_⟩
  · intro i hi pr hpr
    obtain ⟨hA, fmt, hD⟩ := GTAO.gtao_prepare_some g0 gp hgp
    obtain ⟨s1, s2, s3, s4⟩ := GTAO.gtao_prepare_sets g0 gp hgp i hi
    obtain ⟨-, l1, l2, l3, l4⟩ := GTAO.gtao_prepare_setLayouts g0 gp hgp
    obtain ⟨w1, w2, w3, w4⟩ := GTAO.gtao_prepare_writes g0 gp fmt hA hD hgp hgb i hi
    simp only [List.mem_cons, List.mem_singleton, List.not_mem_nil, or_false] at hpr
    rcases hpr with rfl | rfl | rfl | rfl
    · exact ⟨_, _, s1, rfl, l1, by rw [w1]; rfl, by simp⟩
    · exact ⟨_, _, s2, rfl, l2, by rw [w2]; rfl, by simp⟩
    · exact ⟨_, _, s3, rfl, l3, by rw [w3]; rfl, by simp⟩
    · exact ⟨_, _, s4, rfl, l4, by rw [w4]; rfl, by simp⟩
  · intro i hi pr hpr
    obtain ⟨fmt, hD⟩ := HBAO.hbao_prepare_some h0 hp hhp
    obtain ⟨s1, s2, s3, s4⟩ := HBAO.hbao_prepare_sets h0 hp hhp i hi
    obtain ⟨-, l1, l2, l3, l4⟩ := HBAO.hbao_prepare_setLayouts h0 hp hhp
    obtain ⟨w1, w2, w3, w4⟩ := HBAO.hbao_prepare_writes h0 hp fmt hD hhp hhb i hi
    simp only [List.mem_cons, List.mem_singleton, List.not_mem_nil, or_false] at hpr
    rcases hpr with rfl | rfl | rfl | rfl
    · exact ⟨_, _, s1, rfl, l1, by rw [w1]; rfl, by simp⟩
    · exact ⟨_, _, s2, rfl, l2, by rw [w2]; rfl, by simp⟩
    · exact ⟨_, _, s3, rfl, l3, by rw [w3]; rfl, by simp⟩
    · exact ⟨_, _, s4, rfl, l4, by rw [w4]; rfl, by simp⟩

/-- C27, at the sample states. -/
theorem C27_writes_match_layout_witness :
    (∀ i, i < GTAO.sampleState.maxConcurrentFrames →
      ∀ pr ∈ [ ((GTAO.preparedSample.descriptorSets i).gBuffer, GTAO.preparedSample.descriptorSetLayouts.gBuffer),
               ((GTAO.preparedSample.descriptorSets i).gtao, GTAO.preparedSample.descriptorSetLayouts.gtao),
               ((GTAO.preparedSample.descriptorSets i).gtaoBlur, GTAO.preparedSample.descriptorSetLayouts.gtaoBlur),
               ((GTAO.preparedSample.descriptorSets i).composition, GTAO.preparedSample.descriptorSetLayouts.composition) ],
        ∃ ai li, Device.descriptorSetInfo GTAO.preparedSample.device pr.1 = some ai ∧
          span ai.descriptorSetCount ai.pSetLayouts = [pr.2] ∧
          Device.descriptorSetLayoutInfo GTAO.preparedSample.device pr.2 = some li ∧
          (Device.writesTo GTAO.preparedSample.device pr.1).map
              (fun w => (w.dstBinding, w.descriptorType, w.descriptorCount)) =
            li.pBindings.map (fun b => (b.binding, b.descriptorType, b.descriptorCount)) ∧
          (li.pBindings.map (fun b => b.binding)).Nodup) ∧
    (∀ i, i < HBAO.sampleState.maxConcurrentFrames →
      ∀ pr ∈ [ ((HBAO.preparedSample.descriptorSets i).gBuffer, HBAO.preparedSample.descriptorSetLayouts.gBuffer),
               ((HBAO.preparedSample.descriptorSets i).hbao, HBAO.preparedSample.descriptorSetLayouts.hbao),
               ((HBAO.preparedSample.descriptorSets i).hbaoBlur, HBAO.preparedSample.descriptorSetLayouts.hbaoBlur),
               ((HBAO.preparedSample.descriptorSets i).composition, HBAO.preparedSample.descriptorSetLayouts.composition) ],
        ∃ ai li, Device.descriptorSetInfo HBAO.preparedSample.device pr.1 = some ai ∧
          span ai.descriptorSetCount ai.pSetLayouts = [pr.2] ∧
          Device.descriptorSetLayoutInfo HBAO.preparedSample.device pr.2 = some li ∧
          (Device.writesTo HBAO.preparedSample.device pr.1).map
              (fun w => (w.dstBinding, w.descriptorType, w.descriptorCount)) =
            li.pBindings.map (fun b => (b.binding, b.descriptorType, b.descriptorCount)) ∧
          (li.pBindings.map (fun b => b.binding)).Nodup) :=
  C27_writes_match_layout GTAO.sampleState GTAO.preparedSample HBAO.sampleState
    HBAO.preparedSample GTAO.gtao_prepare_sample GTAO.gtao_sample_bounded
    HBAO.hbao_prepare_sample HBAO.hbao_sample_bounded

/-- C28. In both examples, in the command stream `buildCommandBuffer` records
in a state that has the device log, the offscreen targets, the descriptor sets,
the pipeline layouts and the pipelines `prepare` left, for each of the four
passes: the pipeline in force at the draw was created for the render pass the
pass is begun with; the pipeline layout used in `vkCmdBindDescriptorSets` is
the layout that pipeline was created with; and the bind starts at set index 0
with one descriptor set, which was allocated with the descriptor-set layout at
index 0 of that pipeline layout.  (Set index 1 of the geometry pass, the
material set, is bound by the scene draw of the glTF loader.) -/
theorem C28_pipeline_compatibility (g0 gp g : GTAO.VulkanExample) (h0 hp h : HBAO.VulkanExample)
    (hgp : GTAO.prepare g0 = some gp) (hgd : g.device = gp.device)
    (hgf : g.frameBuffers = gp.frameBuffers) (hgs : g.descriptorSets = gp.descriptorSets)
    (hgl : g.pipelineLayouts = gp.pipelineLayouts) (hgq : g.pipelines = gp.pipelines)
    (hgr : g.renderPass = gp.renderPass) (hgk : g.currentBuffer < g0.maxConcurrentFrames)
    (hhp : HBAO.prepare h0 = some hp) (hhd : h.device = hp.device)
    (hhf : h.frameBuffers = hp.frameBuffers) (hhs : h.descriptorSets = hp.descriptorSets)
    (hhl : h.pipelineLayouts = hp.pipelineLayouts) (hhq : h.pipelines = hp.pipelines)
    (hhr : h.renderPass = hp.renderPass) (hhk : h.currentBuffer < h0.maxConcurrentFrames) :
    ((recordedPasses (GTAO.buildCommandBuffer g).2).length = 4 ∧
      ∀ p ∈ recordedPasses (GTAO.buildCommandBuffer g).2,
        ∀ pl ∈ (recordedDraws p.body).map (fun d => d.1.pipeline),
          ∃ pipeline ci, pl = some pipeline ∧ Device.pipelineInfo g.device pipeline = some ci ∧
            ci.renderPass = p.beginInfo.renderPass ∧
            ∀ b ∈ recordedBinds p.body,
              b.1 = ci.layout ∧ b.2.1 = 0 ∧
              ∃ set li ai l, b.2.2 = [set] ∧
                Device.pipelineLayoutInfo g.device b.1 = some li ∧
                Device.descriptorSetInfo g.device set = some ai ∧
                span ai.descriptorSetCount ai.pSetLayouts = [l] ∧
                li.pSetLayouts[0]? = some l) ∧
    ((recordedPasses (HBAO.buildCommandBuffer h).2).length = 4 ∧
      ∀ p ∈ recordedPasses (HBAO.buildCommandBuffer h).2,
        ∀ pl ∈ (recordedDraws p.body).map (fun d => d.1.pipeline),
          ∃ pipeline ci, pl = some pipeline ∧ Device.pipelineInfo h.device pipeline = some ci ∧
            ci.renderPass = p.beginInfo.renderPass ∧
            ∀ b ∈ recordedBinds p.body,
              b.1 = ci.layout ∧ b.2.1 = 0 ∧
              ∃ set li ai l, b.2.2 = [set] ∧
                Device.pipelineLayoutInfo h.device b.1 = some li ∧
                Device.descriptorSetInfo h.device set = some ai ∧
                span ai.descriptorSetCount ai.pSetLayouts = [l] ∧
                li.pSetLayouts[0]? = some l) := by
  refine ⟨?_, ?_⟩
  · obtain ⟨pl1, pl2, pl3, pl4, ⟨c1, i1, y1, r1⟩, ⟨c2, i2, y2, r2⟩, ⟨c3, i3, y3, r3⟩,
      ⟨c4, i4, y4, r4⟩⟩ := GTAO.gtao_prepare_pipelineLayouts g0 gp hgp
    obtain ⟨s1, s2, s3, s4⟩ := GTAO.gtao_prepare_sets g0 gp hgp g.currentBuffer hgk
    rw [← hgd, ← hgl] at pl1 pl2 pl3 pl4
    rw [← hgd, ← hgq] at i1 i2 i3 i4
    rw [← hgl] at y1 y2 y3 y4
    rw [← hgf] at r1 r2 r3
    rw [← hgr] at r4
    rw [← hgd, ← hgs] at s1 s2 s3 s4
    have hf := GTAO.gtao_frame_bindings g
    have key : ∀ x ∈ (recordedPasses (GTAO.buildCommandBuffer g).2).map
        (fun p => (p.beginInfo.renderPass, p.beginInfo.framebuffer,
          (recordedDraws p.body).map (fun d => d.1.pipeline), recordedBinds p.body,
          boundDescriptorSets p.body)),
        ∀ pl ∈ x.2.2.1,
          ∃ pipeline ci, pl = some pipeline ∧ Device.pipelineInfo g.device pipeline = some ci ∧
            ci.renderPass = x.1 ∧
            ∀ b ∈ x.2.2.2.1,
              b.1 = ci.layout ∧ b.2.1 = 0 ∧
              ∃ set li ai l, b.2.2 = [set] ∧
                Device.pipelineLayoutInfo g.device b.1 = some li ∧
                Device.descriptorSetInfo g.device set = some ai ∧
                span ai.descriptorSetCount ai.pSetLayouts = [l] ∧
                li.pSetLayouts[0]? = some l := by
      rw [hf]
      intro x hx
      simp only [List.mem_cons, List.mem_singleton, List.not_mem_nil, or_false] at hx
      rcases hx with rfl | rfl | rfl | rfl
      · intro pl hpl
        simp only [List.mem_singleton] at hpl
        subst hpl
        refine ⟨_, c1, rfl, i1, r1, ?_⟩
        intro b hb
        simp only [List.mem_singleton] at hb
        subst hb
        exact ⟨y1.symm, rfl, _, _, _, _, rfl, pl1, s1, rfl, rfl⟩
      · intro pl hpl
        simp only [List.mem_singleton] at hpl
        subst hpl
        refine ⟨_, c2, rfl, i2, r2, ?_⟩
        intro b hb
        simp only [List.mem_singleton] at hb
        subst hb
        exact ⟨y2.symm, rfl, _, _, _, _, rfl, pl2, s2, rfl, rfl⟩
      · intro pl hpl
        simp only [List.mem_singleton] at hpl
        subst hpl
        refine ⟨_, c3, rfl, i3, r3, ?_⟩
        intro b hb
        simp only [List.mem_singleton] at hb
        subst hb
        exact ⟨y3.symm, rfl, _, _, _, _, rfl, pl3, s3, rfl, rfl⟩
      · intro pl hpl
        simp only [List.mem_singleton] at hpl
        subst hpl
        refine ⟨_, c4, rfl, i4, r4, ?_⟩
        intro b hb
        simp only [List.mem_singleton] at hb
        subst hb
        exact ⟨y4.symm, rfl, _, _, _, _, rfl, pl4, s4, rfl, rfl⟩
    refine ⟨?_, fun p hp => key _ (List.mem_map_of_mem _ hp)⟩
    have hlen := congrArg List.length hf
    rw [List.length_map] at hlen
    exact hlen
  · obtain ⟨pl1, pl2, pl3, pl4, ⟨c1, i1, y1, r1⟩, ⟨c2, i2, y2, r2⟩, ⟨c3, i3, y3, r3⟩,
      ⟨c4, i4, y4, r4⟩⟩ := HBAO.hbao_prepare_pipelineLayouts h0 hp hhp
    obtain ⟨s1, s2, s3, s4⟩ := HBAO.hbao_prepare_sets h0 hp hhp h.currentBuffer hhk
    rw [← hhd, ← hhl] at pl1 pl2 pl3 pl4
    rw [← hhd, ← hhq] at i1 i2 i3 i4
    rw [← hhl] at y1 y2 y3 y4
    rw [← hhf] at r1 r2 r3
    rw [← hhr] at r4
    rw [← hhd, ← hhs] at s1 s2 s3 s4
    have hf := HBAO.hbao_frame_bindings h
    have key : ∀ x ∈ (recordedPasses (HBAO.buildCommandBuffer h).2).map
        (fun p => (p.beginInfo.renderPass, p.beginInfo.framebuffer,
          (recordedDraws p.body).map (fun d => d.1.pipeline), recordedBinds p.body,
          boundDescriptorSets p.body)),
        ∀ pl ∈ x.2.2.1,
          ∃ pipeline ci, pl = some pipeline ∧ Device.pipelineInfo h.device pipeline = some ci ∧
            ci.renderPass = x.1 ∧
            ∀ b ∈ x.2.2.2.1,
              b.1 = ci.layout ∧ b.2.1 = 0 ∧
              ∃ set li ai l, b.2.2 = [set] ∧
                Device.pipelineLayoutInfo h.device b.1 = some li ∧
                Device.descriptorSetInfo h.device set = some ai ∧
                span ai.descriptorSetCount ai.pSetLayouts = [l] ∧
                li.pSetLayouts[0]? = some l := by
      rw [hf]
      intro x hx
      simp only [List.mem_cons, List.mem_singleton, List.not_mem_nil, or_false] at hx
      rcases hx with rfl | rfl | rfl | rfl
      · intro pl hpl
        simp only [List.mem_singleton] at hpl
        subst hpl
        refine ⟨_, c1, rfl, i1, r1, ?_⟩
        intro b hb
        simp only [List.mem_singleton] at hb
        subst hb
        exact ⟨y1.symm, rfl, _, _, _, _, rfl, pl1, s1, rfl, rfl⟩
      · intro pl hpl
        simp only [List.mem_singleton] at hpl
        subst hpl
        refine ⟨_, c2, rfl, i2, r2, ?_⟩
        intro b hb
        simp only [List.mem_singleton] at hb
        subst hb
        exact ⟨y2.symm, rfl, _, _, _, _, rfl, pl2, s2, rfl, rfl⟩
      · intro pl hpl
        simp only [List.mem_singleton] at hpl
        subst hpl
        refine ⟨_, c3, rfl, i3, r3, ?_⟩
        intro b hb
        simp only [List.mem_singleton] at hb
        subst hb
        exact ⟨y3.symm, rfl, _, _, _, _, rfl, pl3, s3, rfl, rfl⟩
      · intro pl hpl
        simp only [List.mem_singleton] at hpl
        subst hpl
        refine ⟨_, c4, rfl, i4, r4, ?_⟩
        intro b hb
        simp only [List.mem_singleton] at hb
        subst hb
        exact ⟨y4.symm, rfl, _, _, _, _, rfl, pl4, s4, rfl, rfl⟩
    refine ⟨?_, fun p hp => key _ (List.mem_map_of_mem _ hp)⟩
    have hlen := congrArg List.length hf
    rw [List.length_map] at hlen
    exact hlen

/-- C28, at the prepared sample states. -/
theorem C28_pipeline_compatibility_witness :
    ((recordedPasses (GTAO.buildCommandBuffer GTAO.preparedSample).2).length = 4 ∧
      ∀ p ∈ recordedPasses (GTAO.buildCommandBuffer GTAO.preparedSample).2,
        ∀ pl ∈ (recordedDraws p.body).map (fun d => d.1.pipeline),
          ∃ pipeline ci, pl = some pipeline ∧ Device.pipelineInfo GTAO.preparedSample.device pipeline = some ci ∧
            ci.renderPass = p.beginInfo.renderPass ∧
            ∀ b ∈ recordedBinds p.body,
              b.1 = ci.layout ∧ b.2.1 = 0 ∧
              ∃ set li ai l, b.2.2 = [set] ∧
                Device.pipelineLayoutInfo GTAO.preparedSample.device b.1 = some li ∧
                Device.descriptorSetInfo GTAO.preparedSample.device set = some ai ∧
                span ai.descriptorSetCount ai.pSetLayouts = [l] ∧
                li.pSetLayouts[0]? = some l) ∧
    ((recordedPasses (HBAO.buildCommandBuffer HBAO.preparedSample).2).length = 4 ∧
      ∀ p ∈ recordedPasses (HBAO.buildCommandBuffer HBAO.preparedSample).2,
        ∀ pl ∈ (recordedDraws p.body).map (fun d => d.1.pipeline),
          ∃ pipeline ci, pl = some pipeline ∧ Device.pipelineInfo HBAO.preparedSample.device pipeline = some ci ∧
            ci.renderPass = p.beginInfo.renderPass ∧
            ∀ b ∈ recordedBinds p.body,
              b.1 = ci.layout ∧ b.2.1 = 0 ∧
              ∃ set li ai l, b.2.2 = [set] ∧
                Device.pipelineLayoutInfo HBAO.preparedSample.device b.1 = some li ∧
                Device.descriptorSetInfo HBAO.preparedSample.device set = some ai ∧
                span ai.descriptorSetCount ai.pSetLayouts = [l] ∧
                li.pSetLayouts[0]? = some l) :=
  C28_pipeline_compatibility GTAO.sampleState GTAO.preparedSample GTAO.preparedSample
    HBAO.sampleState HBAO.preparedSample HBAO.preparedSample
    GTAO.gtao_prepare_sample rfl rfl rfl rfl rfl rfl (by decide)
    HBAO.hbao_prepare_sample rfl rfl rfl rfl rfl rfl (by decide)

/-- C29. In both examples, in the command stream `buildCommandBuffer` records
in a state that has the device log, the offscreen targets and the descriptor
sets `prepare` left (the writes of the log before `prepare` targeting handles
of that log, and the swap-chain framebuffer of the acquired image and its
attachments being objects of that log): the four passes sample 0, 2, 1 and 5
image views through the descriptor sets they bind; no image view a pass
samples is an attachment of the framebuffer the pass renders to; and every
image view a pass samples is an attachment of the framebuffer of a strictly
earlier pass of the same command stream.  (The material sets the scene draw
binds are bound by the glTF loader and belong to the loaded model; they are not
among the descriptor sets `buildCommandBuffer` binds.) -/
theorem C29_no_feedback_loop (g0 gp g : GTAO.VulkanExample) (h0 hp h : HBAO.VulkanExample)
    (hgp : GTAO.prepare g0 = some gp) (hgb : Device.writesBounded g0.device)
    (hgd : g.device = gp.device) (hgf : g.frameBuffers = gp.frameBuffers)
    (hgs : g.descriptorSets = gp.descriptorSets) (hgk : g.currentBuffer < g0.maxConcurrentFrames)
    (hgx : g.swapChainFrameBuffers g.currentImageIndex ≤ g0.device.length)
    (hgw : ∀ info,
      Device.framebufferInfo g0.device (g.swapChainFrameBuffers g.currentImageIndex) = some info →
      ∀ a ∈ info.pAttachments, a ≤ g0.device.length)
    (hhp : HBAO.prepare h0 = some hp) (hhb : Device.writesBounded h0.device)
    (hhd : h.device = hp.device) (hhf : h.frameBuffers = hp.frameBuffers)
    (hhs : h.descriptorSets = hp.descriptorSets) (hhk : h.currentBuffer < h0.maxConcurrentFrames)
    (hhx : h.swapChainFrameBuffers h.currentImageIndex ≤ h0.device.length)
    (hhw : ∀ info,
      Device.framebufferInfo h0.device (h.swapChainFrameBuffers h.currentImageIndex) = some info →
      ∀ a ∈ info.pAttachments, a ≤ h0.device.length) :
    ((recordedPasses (GTAO.buildCommandBuffer g).2).map
          (fun p => (Device.sampledViews g.device p).length) = [0, 2, 1, 5] ∧
      ∀ (i : Nat) (p : RecordedPass), (recordedPasses (GTAO.buildCommandBuffer g).2)[i]? = some p →
        ∀ v ∈ Device.sampledViews g.device p,
          v ∉ Device.targetViews g.device p ∧
          ∃ (j : Nat) (q : RecordedPass), j < i ∧
            (recordedPasses (GTAO.buildCommandBuffer g).2)[j]? = some q ∧
            v ∈ Device.targetViews g.device q) ∧
    ((recordedPasses (HBAO.buildCommandBuffer h).2).map
          (fun p => (Device.sampledViews h.device p).length) = [0, 2, 1, 5] ∧
      ∀ (i : Nat) (p : RecordedPass), (recordedPasses (HBAO.buildCommandBuffer h).2)[i]? = some p →
        ∀ v ∈ Device.sampledViews h.device p,
          v ∉ Device.targetViews h.device p ∧
          ∃ (j : Nat) (q : RecordedPass), j < i ∧
            (recordedPasses (HBAO.buildCommandBuffer h).2)[j]? = some q ∧
            v ∈ Device.targetViews h.device q) := by
  refine ⟨?_, ?_⟩
  · have hv := GTAO.gtao_frame_views g0 gp g hgp hgb hgd hgf hgs hgk
    have hsw : ∀ a ∈ (match Device.framebufferInfo g.device
          (g.swapChainFrameBuffers g.currentImageIndex) with
        | some info => info.pAttachments
        | none => []), a ≤ g0.device.length := by
      have e : Device.framebufferInfo g.device (g.swapChainFrameBuffers g.currentImageIndex) =
          Device.framebufferInfo g0.device (g.swapChainFrameBuffers g.currentImageIndex) := by
        unfold Device.framebufferInfo
        rw [hgd, GTAO.gtao_prepare_lookup_old g0 gp hgp _ hgx]
      rw [e]
      cases hfi : Device.framebufferInfo g0.device (g.swapChainFrameBuffers g.currentImageIndex) with
      | none => intro a ha; simp at ha
      | some info => intro a ha; exact hgw info hfi a ha
    have hex : ∃ sw : List Nat, (∀ a ∈ sw, a ≤ g0.device.length) ∧
        (recordedPasses (GTAO.buildCommandBuffer g).2).map
            (fun p => (Device.sampledViews g.device p, Device.targetViews g.device p)) =
          [ ([], [ g0.device.length + 4, g0.device.length + 8, g0.device.length + 12,
                   g0.device.length + 16 ]),
            ([ g0.device.length + 4, g0.device.length + 8 ], [ g0.device.length + 20 ]),
            ([ g0.device.length + 20 ], [ g0.device.length + 24 ]),
            ([ g0.device.length + 4, g0.device.length + 8, g0.device.length + 12,
               g0.device.length + 20, g0.device.length + 24 ], sw) ] := ⟨_, hsw, hv⟩
    clear hv hsw
    obtain ⟨sw, hsw, hv⟩ := hex
    have hlen := congrArg List.length hv
    simp only [List.length_map, List.length_cons, List.length_nil] at hlen
    generalize recordedPasses (GTAO.buildCommandBuffer g).2 = passes at hv hlen ⊢
    rcases passes with _ | ⟨p1, _ | ⟨p2, _ | ⟨p3, _ | ⟨p4, _ | ⟨p5, rest⟩⟩⟩⟩⟩ <;>
      simp only [List.length_cons, List.length_nil] at hlen <;> try omega
    simp only [List.map_cons, List.map_nil, List.cons.injEq, Prod.mk.injEq, and_true] at hv
    obtain ⟨⟨a1, b1⟩, ⟨a2, b2⟩, ⟨a3, b3⟩, a4, b4⟩ := hv
    refine ⟨by simp [a1, a2, a3, a4], ?_⟩
    intro i p hp v hvm
    rcases i with _ | _ | _ | _ | i
    · simp only [List.getElem?_cons_zero, Option.some.injEq] at hp
      subst hp
      rw [a1] at hvm
      simp at hvm
    · simp only [List.getElem?_cons_succ, List.getElem?_cons_zero, Option.some.injEq] at hp
      subst hp
      rw [a2] at hvm
      rw [b2]
      simp only [List.mem_cons, List.mem_singleton, List.not_mem_nil, or_false] at hvm ⊢
      refine ⟨by omega, 0, p1, by omega, rfl, ?_⟩
      rw [b1]
      simp only [List.mem_cons, List.mem_singleton, List.not_mem_nil, or_false]
      omega
    · simp only [List.getElem?_cons_succ, List.getElem?_cons_zero, Option.some.injEq] at hp
      subst hp
      rw [a3] at hvm
      rw [b3]
      simp only [List.mem_cons, List.mem_singleton, List.not_mem_nil, or_false] at hvm ⊢
      refine ⟨by omega, 1, p2, by omega, rfl, ?_⟩
      rw [b2]
      simp only [List.mem_cons, List.mem_singleton, List.not_mem_nil, or_false]
      omega
    · simp only [List.getElem?_cons_succ, List.getElem?_cons_zero, Option.some.injEq] at hp
      subst hp
      rw [a4] at hvm
      rw [b4]
      simp only [List.mem_cons, List.mem_singleton, List.not_mem_nil, or_false] at hvm
      refine ⟨?_, ?_⟩
      · intro hmem
        have := hsw v hmem
        omega
      · rcases hvm with rfl | rfl | rfl | rfl | rfl
        · exact ⟨0, p1, by omega, rfl, by rw [b1]; simp⟩
        · exact ⟨0, p1, by omega, rfl, by rw [b1]; simp⟩
        · exact ⟨0, p1, by omega, rfl, by rw [b1]; simp⟩
        · exact ⟨1, p2, by omega, rfl, by rw [b2]; simp⟩
        · exact ⟨2, p3, by omega, rfl, by rw [b3]; simp⟩
    · simp at hp
  · have hv := HBAO.hbao_frame_views h0 hp h hhp hhb hhd hhf hhs hhk
    have hsw : ∀ a ∈ (match Device.framebufferInfo h.device
          (h.swapChainFrameBuffers h.currentImageIndex) with
        | some info => info.pAttachments
        | none => []), a ≤ h0.device.length := by
      have e : Device.framebufferInfo h.device (h.swapChainFrameBuffers h.currentImageIndex) =
          Device.framebufferInfo h0.device (h.swapChainFrameBuffers h.currentImageIndex) := by
        unfold Device.framebufferInfo
        rw [hhd, HBAO.hbao_prepare_lookup_old h0 hp hhp _ hhx]
      rw [e]
      cases hfi : Device.framebufferInfo h0.device (h.swapChainFrameBuffers h.currentImageIndex) with
      | none => intro a ha; simp at ha
      | some info => intro a ha; exact hhw info hfi a ha
    have hex : ∃ sw : List Nat, (∀ a ∈ sw, a ≤ h0.device.length) ∧
        (recordedPasses (HBAO.buildCommandBuffer h).2).map
            (fun p => (Device.sampledViews h.device p, Device.targetViews h.device p)) =
          [ ([], [ h0.device.length + 4, h0.device.length + 8, h0.device.length + 12,
                   h0.device.length + 16 ]),
            ([ h0.device.length + 4, h0.device.length + 8 ], [ h0.device.length + 20 ]),
            ([ h0.device.length + 20 ], [ h0.device.length + 24 ]),
            ([ h0.device.length + 4, h0.device.length + 8, h0.device.length + 12,
               h0.device.length + 20, h0.device.length + 24 ], sw) ] := ⟨_, hsw, hv⟩
    clear hv hsw
    obtain ⟨sw, hsw, hv⟩ := hex
    have hlen := congrArg List.length hv
    simp only [List.length_map, List.length_cons, List.length_nil] at hlen
    generalize recordedPasses (HBAO.buildCommandBuffer h).2 = passes at hv hlen ⊢
    rcases passes with _ | ⟨p1, _ | ⟨p2, _ | ⟨p3, _ | ⟨p4, _ | ⟨p5, rest⟩⟩⟩⟩⟩ <;>
      simp only [List.length_cons, List.length_nil] at hlen <;> try omega
    simp only [List.map_cons, List.map_nil, List.cons.injEq, Prod.mk.injEq, and_true] at hv
    obtain ⟨⟨a1, b1⟩, ⟨a2, b2⟩, ⟨a3, b3⟩, a4, b4⟩ := hv
    refine ⟨by simp [a1, a2, a3, a4], ?_⟩
    intro i p hp v hvm
    rcases i with _ | _ | _ | _ | i
    · simp only [List.getElem?_cons_zero, Option.some.injEq] at hp
      subst hp
      rw [a1] at hvm
      simp at hvm
    · simp only [List.getElem?_cons_succ, List.getElem?_cons_zero, Option.some.injEq] at hp
      subst hp
      rw [a2] at hvm
      rw [b2]
      simp only [List.mem_cons, List.mem_singleton, List.not_mem_nil, or_false] at hvm ⊢
      refine ⟨by omega, 0, p1, by omega, rfl, ?_⟩
      rw [b1]
      simp only [List.mem_cons, List.mem_singleton, List.not_mem_nil, or_false]
      omega
    · simp only [List.getElem?_cons_succ, List.getElem?_cons_zero, Option.some.injEq] at hp
      subst hp
      rw [a3] at hvm
      rw [b3]
      simp only [List.mem_cons, List.mem_singleton, List.not_mem_nil, or_false] at hvm ⊢
      refine ⟨by omega, 1, p2, by omega, rfl, ?_⟩
      rw [b2]
      simp only [List.mem_cons, List.mem_singleton, List.not_mem_nil, or_false]
      omega
    · simp only [List.getElem?_cons_succ, List.getElem?_cons_zero, Option.some.injEq] at hp
      subst hp
      rw [a4] at hvm
      rw [b4]
      simp only [List.mem_cons, List.mem_singleton, List.not_mem_nil, or_false] at hvm
      refine ⟨?_, ?_⟩
      · intro hmem
        have := hsw v hmem
        omega
      · rcases hvm with rfl | rfl | rfl | rfl | rfl
        · exact ⟨0, p1, by omega, rfl, by rw [b1]; simp⟩
        · exact ⟨0, p1, by omega, rfl, by rw [b1]; simp⟩
        · exact ⟨0, p1, by omega, rfl, by rw [b1]; simp⟩
        · exact ⟨1, p2, by omega, rfl, by rw [b2]; simp⟩
        · exact ⟨2, p3, by omega, rfl, by rw [b3]; simp⟩
    · simp at hp

/-- C29, at the prepared sample states. -/
theorem C29_no_feedback_loop_witness :
    ((recordedPasses (GTAO.buildCommandBuffer GTAO.preparedSample).2).map
          (fun p => (Device.sampledViews GTAO.preparedSample.device p).length) = [0, 2, 1, 5] ∧
      ∀ (i : Nat) (p : RecordedPass), (recordedPasses (GTAO.buildCommandBuffer GTAO.preparedSample).2)[i]? = some p →
        ∀ v ∈ Device.sampledViews GTAO.preparedSample.device p,
          v ∉ Device.targetViews GTAO.preparedSample.device p ∧
          ∃ (j : Nat) (q : RecordedPass), j < i ∧
            (recordedPasses (GTAO.buildCommandBuffer GTAO.preparedSample).2)[j]? = some q ∧
            v ∈ Device.targetViews GTAO.preparedSample.device q) ∧
    ((recordedPasses (HBAO.buildCommandBuffer HBAO.preparedSample).2).map
          (fun p => (Device.sampledViews HBAO.preparedSample.device p).length) = [0, 2, 1, 5] ∧
      ∀ (i : Nat) (p : RecordedPass), (recordedPasses (HBAO.buildCommandBuffer HBAO.preparedSample).2)[i]? = some p →
        ∀ v ∈ Device.sampledViews HBAO.preparedSample.device p,
          v ∉ Device.targetViews HBAO.preparedSample.device p ∧
          ∃ (j : Nat) (q : RecordedPass), j < i ∧
            (recordedPasses (HBAO.buildCommandBuffer HBAO.preparedSample).2)[j]? = some q ∧
            v ∈ Device.targetViews HBAO.preparedSample.device q) :=
  C29_no_feedback_loop GTAO.sampleState GTAO.preparedSample GTAO.preparedSample
    HBAO.sampleState HBAO.preparedSample HBAO.preparedSample
    GTAO.gtao_prepare_sample GTAO.gtao_sample_bounded rfl rfl rfl (by decide) (by decide)
    (fun info hi => by
      have hn : Device.framebufferInfo GTAO.sampleState.device
          (GTAO.preparedSample.swapChainFrameBuffers GTAO.preparedSample.currentImageIndex) =
            none := by decide
      rw [hn] at hi
      cases hi)
    HBAO.hbao_prepare_sample HBAO.hbao_sample_bounded rfl rfl rfl (by decide) (by decide)
    (fun info hi => by
      have hn : Device.framebufferInfo HBAO.sampleState.device
          (HBAO.preparedSample.swapChainFrameBuffers HBAO.preparedSample.currentImageIndex) =
            none := by decide
      rw [hn] at hi
      cases hi)

/-- C30. In both examples, after `prepare` (when the descriptor writes of the
log before target handles of that log), for every slot: the image views
sampled through the composition set are the five views of the position,
normal, albedo, occlusion and blurred-occlusion attachments; and every image
descriptor written on a descriptor set of the slot samples one of these five
views, which is attachment `k` of an offscreen framebuffer whose render pass
declares for attachment `k` a final layout equal to the layout in the
descriptor, and the image behind the view was created with the SAMPLED usage
bit as well as the COLOR_ATTACHMENT usage bit. -/
theorem C30_sampled_layouts (g0 gp : GTAO.VulkanExample) (h0 hp : HBAO.VulkanExample)
    (hgp : GTAO.prepare g0 = some gp) (hgb : Device.writesBounded g0.device)
    (hhp : HBAO.prepare h0 = some hp) (hhb : Device.writesBounded h0.device) :
    (∀ i, i < g0.maxConcurrentFrames →
      (Device.imageInputs gp.device (gp.descriptorSets i).composition).map
          (fun x => x.2.imageView) =
        [ gp.frameBuffers.offscreen.position.view, gp.frameBuffers.offscreen.normal.view,
          gp.frameBuffers.offscreen.albedo.view, gp.frameBuffers.gtao.color.view,
          gp.frameBuffers.gtaoBlur.color.view ] ∧
      ∀ set ∈ [ (gp.descriptorSets i).gBuffer, (gp.descriptorSets i).gtao,
                (gp.descriptorSets i).gtaoBlur, (gp.descriptorSets i).composition ],
        ∀ x ∈ Device.imageInputs gp.device set,
          x.2.imageView ∈
            [ gp.frameBuffers.offscreen.position.view, gp.frameBuffers.offscreen.normal.view,
              gp.frameBuffers.offscreen.albedo.view, gp.frameBuffers.gtao.color.view,
              gp.frameBuffers.gtaoBlur.color.view ] ∧
          ∃ target ∈ [ gp.frameBuffers.offscreen.frameBuffer, gp.frameBuffers.gtao.frameBuffer,
                       gp.frameBuffers.gtaoBlur.frameBuffer ],
            ∃ (fb : VkFramebufferCreateInfo) (rp : VkRenderPassCreateInfo) (k : Nat)
              (att : VkAttachmentDescription) (view : VkImageViewCreateInfo) (img : VkImageCreateInfo),
              Device.framebufferInfo gp.device target = some fb ∧
              fb.pAttachments[k]? = some x.2.imageView ∧
              Device.renderPassInfo gp.device fb.renderPass = some rp ∧
              rp.pAttachments[k]? = some att ∧
              att.finalLayout = x.2.imageLayout ∧
              Device.imageViewInfo gp.device x.2.imageView = some view ∧
              Device.imageInfo gp.device view.image = some img ∧
              img.usage &&& VK_IMAGE_USAGE_SAMPLED_BIT ≠ 0 ∧
              img.usage &&& VK_IMAGE_USAGE_COLOR_ATTACHMENT_BIT ≠ 0) ∧
    (∀ i, i < h0.maxConcurrentFrames →
      (Device.imageInputs hp.device (hp.descriptorSets i).composition).map
          (fun x => x.2.imageView) =
        [ hp.frameBuffers.offscreen.position.view, hp.frameBuffers.offscreen.normal.view,
          hp.frameBuffers.offscreen.albedo.view, hp.frameBuffers.hbao.color.view,
          hp.frameBuffers.hbaoBlur.color.view ] ∧
      ∀ set ∈ [ (hp.descriptorSets i).gBuffer, (hp.descriptorSets i).hbao,
                (hp.descriptorSets i).hbaoBlur, (hp.descriptorSets i).composition ],
        ∀ x ∈ Device.imageInputs hp.device set,
          x.2.imageView ∈
            [ hp.frameBuffers.offscreen.position.view, hp.frameBuffers.offscreen.normal.view,
              hp.frameBuffers.offscreen.albedo.view, hp.frameBuffers.hbao.color.view,
              hp.frameBuffers.hbaoBlur.color.view ] ∧
          ∃ target ∈ [ hp.frameBuffers.offscreen.frameBuffer, hp.frameBuffers.hbao.frameBuffer,
                       hp.frameBuffers.hbaoBlur.frameBuffer ],
            ∃ (fb : VkFramebufferCreateInfo) (rp : VkRenderPassCreateInfo) (k : Nat)
              (att : VkAttachmentDescription) (view : VkImageViewCreateInfo) (img : VkImageCreateInfo),
              Device.framebufferInfo hp.device target = some fb ∧
              fb.pAttachments[k]? = some x.2.imageView ∧
              Device.renderPassInfo hp.device fb.renderPass = some rp ∧
              rp.pAttachments[k]? = some att ∧
              att.finalLayout = x.2.imageLayout ∧
              Device.imageViewInfo hp.device x.2.imageView = some view ∧
              Device.imageInfo hp.device view.image = some img ∧
              img.usage &&& VK_IMAGE_USAGE_SAMPLED_BIT ≠ 0 ∧
              img.usage &&& VK_IMAGE_USAGE_COLOR_ATTACHMENT_BIT ≠ 0) := by
  refine ⟨?_, ?_⟩
  · obtain ⟨-, c2, -, -⟩ := GTAO.gtao_prepare_attachments g0 gp hgp
    obtain ⟨t1, t2, t3, f1, f2, f3⟩ := GTAO.gtao_prepare_targets g0 gp hgp
    have kp :
        ∃ target ∈ [ gp.frameBuffers.offscreen.frameBuffer, gp.frameBuffers.gtao.frameBuffer,
                     gp.frameBuffers.gtaoBlur.frameBuffer ],
          ∃ (fb : VkFramebufferCreateInfo) (rp : VkRenderPassCreateInfo) (k : Nat)
            (att : VkAttachmentDescription) (view : VkImageViewCreateInfo) (img : VkImageCreateInfo),
            Device.framebufferInfo gp.device target = some fb ∧
            fb.pAttachments[k]? = some gp.frameBuffers.offscreen.position.view ∧
            Device.renderPassInfo gp.device fb.renderPass = some rp ∧
            rp.pAttachments[k]? = some att ∧
            att.finalLayout = VK_IMAGE_LAYOUT_SHADER_READ_ONLY_OPTIMAL ∧
            Device.imageViewInfo gp.device gp.frameBuffers.offscreen.position.view = some view ∧
            Device.imageInfo gp.device view.image = some img ∧
            img.usage &&& VK_IMAGE_USAGE_SAMPLED_BIT ≠ 0 ∧
            img.usage &&& VK_IMAGE_USAGE_COLOR_ATTACHMENT_BIT ≠ 0 := by
      obtain ⟨hvw, hus⟩ := c2 gp.frameBuffers.offscreen.position (by simp)
      obtain ⟨view, hview, hvi⟩ := Option.map_eq_some'.mp hvw
      obtain ⟨img, himg, hui⟩ := Option.map_eq_some'.mp hus
      refine ⟨gp.frameBuffers.offscreen.frameBuffer, by simp, _, _, 0, _, view, img, f1, rfl, t1, rfl, rfl,
        hview, ?_, ?_, ?_⟩
      · rw [hvi]
        exact himg
      · rw [hui]
        decide
      · rw [hui]
        decide
    have kn :
        ∃ target ∈ [ gp.frameBuffers.offscreen.frameBuffer, gp.frameBuffers.gtao.frameBuffer,
                     gp.frameBuffers.gtaoBlur.frameBuffer ],
          ∃ (fb : VkFramebufferCreateInfo) (rp : VkRenderPassCreateInfo) (k : Nat)
            (att : VkAttachmentDescription) (view : VkImageViewCreateInfo) (img : VkImageCreateInfo),
            Device.framebufferInfo gp.device target = some fb ∧
            fb.pAttachments[k]? = some gp.frameBuffers.offscreen.normal.view ∧
            Device.renderPassInfo gp.device fb.renderPass = some rp ∧
            rp.pAttachments[k]? = some att ∧
            att.finalLayout = VK_IMAGE_LAYOUT_SHADER_READ_ONLY_OPTIMAL ∧
            Device.imageViewInfo gp.device gp.frameBuffers.offscreen.normal.view = some view ∧
            Device.imageInfo gp.device view.image = some img ∧
            img.usage &&& VK_IMAGE_USAGE_SAMPLED_BIT ≠ 0 ∧
            img.usage &&& VK_IMAGE_USAGE_COLOR_ATTACHMENT_BIT ≠ 0 := by
      obtain ⟨hvw, hus⟩ := c2 gp.frameBuffers.offscreen.normal (by simp)
      obtain ⟨view, hview, hvi⟩ := Option.map_eq_some'.mp hvw
      obtain ⟨img, himg, hui⟩ := Option.map_eq_some'.mp hus
      refine ⟨gp.frameBuffers.offscreen.frameBuffer, by simp, _, _, 1, _, view, img, f1, rfl, t1, rfl, rfl,
        hview, ?_, ?_, ?_⟩
      · rw [hvi]
        exact himg
      · rw [hui]
        decide
      · rw [hui]
        decide
    have ka :
        ∃ target ∈ [ gp.frameBuffers.offscreen.frameBuffer, gp.frameBuffers.gtao.frameBuffer,
                     gp.frameBuffers.gtaoBlur.frameBuffer ],
          ∃ (fb : VkFramebufferCreateInfo) (rp : VkRenderPassCreateInfo) (k : Nat)
            (att : VkAttachmentDescription) (view : VkImageViewCreateInfo) (img : VkImageCreateInfo),
            Device.framebufferInfo gp.device target = some fb ∧
            fb.pAttachments[k]? = some gp.frameBuffers.offscreen.albedo.view ∧
            Device.renderPassInfo gp.device fb.renderPass = some rp ∧
            rp.pAttachments[k]? = some att ∧
            att.finalLayout = VK_IMAGE_LAYOUT_SHADER_READ_ONLY_OPTIMAL ∧
            Device.imageViewInfo gp.device gp.frameBuffers.offscreen.albedo.view = some view ∧
            Device.imageInfo gp.device view.image = some img ∧
            img.usage &&& VK_IMAGE_USAGE_SAMPLED_BIT ≠ 0 ∧
            img.usage &&& VK_IMAGE_USAGE_COLOR_ATTACHMENT_BIT ≠ 0 := by
      obtain ⟨hvw, hus⟩ := c2 gp.frameBuffers.offscreen.albedo (by simp)
      obtain ⟨view, hview, hvi⟩ := Option.map_eq_some'.mp hvw
      obtain ⟨img, himg, hui⟩ := Option.map_eq_some'.mp hus
      refine ⟨gp.frameBuffers.offscreen.frameBuffer, by simp, _, _, 2, _, view, img, f1, rfl, t1, rfl, rfl,
        hview, ?_, ?_, ?_⟩
      · rw [hvi]
        exact himg
      · rw [hui]
        decide
      · rw [hui]
        decide
    have kg :
        ∃ target ∈ [ gp.frameBuffers.offscreen.frameBuffer, gp.frameBuffers.gtao.frameBuffer,
                     gp.frameBuffers.gtaoBlur.frameBuffer ],
          ∃ (fb : VkFramebufferCreateInfo) (rp : VkRenderPassCreateInfo) (k : Nat)
            (att : VkAttachmentDescription) (view : VkImageViewCreateInfo) (img : VkImageCreateInfo),
            Device.framebufferInfo gp.device target = some fb ∧
            fb.pAttachments[k]? = some gp.frameBuffers.gtao.color.view ∧
            Device.renderPassInfo gp.device fb.renderPass = some rp ∧
            rp.pAttachments[k]? = some att ∧
            att.finalLayout = VK_IMAGE_LAYOUT_SHADER_READ_ONLY_OPTIMAL ∧
            Device.imageViewInfo gp.device gp.frameBuffers.gtao.color.view = some view ∧
            Device.imageInfo gp.device view.image = some img ∧
            img.usage &&& VK_IMAGE_USAGE_SAMPLED_BIT ≠ 0 ∧
            img.usage &&& VK_IMAGE_USAGE_COLOR_ATTACHMENT_BIT ≠ 0 := by
      obtain ⟨hvw, hus⟩ := c2 gp.frameBuffers.gtao.color (by simp)
      obtain ⟨view, hview, hvi⟩ := Option.map_eq_some'.mp hvw
      obtain ⟨img, himg, hui⟩ := Option.map_eq_some'.mp hus
      refine ⟨gp.frameBuffers.gtao.frameBuffer, by simp, _, _, 0, _, view, img, f2, rfl, t2, rfl, rfl,
        hview, ?_, ?_, ?_⟩
      · rw [hvi]
        exact himg
      · rw [hui]
        decide
      · rw [hui]
        decide
    have kb :
        ∃ target ∈ [ gp.frameBuffers.offscreen.frameBuffer, gp.frameBuffers.gtao.frameBuffer,
                     gp.frameBuffers.gtaoBlur.frameBuffer ],
          ∃ (fb : VkFramebufferCreateInfo) (rp : VkRenderPassCreateInfo) (k : Nat)
            (att : VkAttachmentDescription) (view : VkImageViewCreateInfo) (img : VkImageCreateInfo),
            Device.framebufferInfo gp.device target = some fb ∧
            fb.pAttachments[k]? = some gp.frameBuffers.gtaoBlur.color.view ∧
            Device.renderPassInfo gp.device fb.renderPass = some rp ∧
            rp.pAttachments[k]? = some att ∧
            att.finalLayout = VK_IMAGE_LAYOUT_SHADER_READ_ONLY_OPTIMAL ∧
            Device.imageViewInfo gp.device gp.frameBuffers.gtaoBlur.color.view = some view ∧
            Device.imageInfo gp.device view.image = some img ∧
            img.usage &&& VK_IMAGE_USAGE_SAMPLED_BIT ≠ 0 ∧
            img.usage &&& VK_IMAGE_USAGE_COLOR_ATTACHMENT_BIT ≠ 0 := by
      obtain ⟨hvw, hus⟩ := c2 gp.frameBuffers.gtaoBlur.color (by simp)
      obtain ⟨view, hview, hvi⟩ := Option.map_eq_some'.mp hvw
      obtain ⟨img, himg, hui⟩ := Option.map_eq_some'.mp hus
      refine ⟨gp.frameBuffers.gtaoBlur.frameBuffer, by simp, _, _, 0, _, view, img, f3, rfl, t3, rfl, rfl,
        hview, ?_, ?_, ?_⟩
      · rw [hvi]
        exact himg
      · rw [hui]
        decide
      · rw [hui]
        decide
    intro i hi
    obtain ⟨i1, -, i2, -, i3, -, i4, -⟩ := GTAO.gtao_prepare_inputs g0 gp hgp hgb i hi
    refine ⟨by rw [i4]; rfl, ?_⟩
    intro set hset x hx
    simp only [List.mem_cons, List.mem_singleton, List.not_mem_nil, or_false] at hset
    rcases hset with rfl | rfl | rfl | rfl
    · rw [i1] at hx
      simp at hx
    · rw [i2] at hx
      simp only [List.mem_cons, List.mem_singleton, List.not_mem_nil, or_false] at hx
      rcases hx with rfl | rfl
      · exact ⟨by simp, kp⟩
      · exact ⟨by simp, kn⟩
    · rw [i3] at hx
      simp only [List.mem_cons, List.mem_singleton, List.not_mem_nil, or_false] at hx
      subst hx
      exact ⟨by simp, kg⟩
    · rw [i4] at hx
      simp only [List.mem_cons, List.mem_singleton, List.not_mem_nil, or_false] at hx
      rcases hx with rfl | rfl | rfl | rfl | rfl
      · exact ⟨by simp, kp⟩
      · exact ⟨by simp, kn⟩
      · exact ⟨by simp, ka⟩
      · exact ⟨by simp, kg⟩
      · exact ⟨by simp, kb⟩
  · obtain ⟨-, c2, -, -⟩ := HBAO.hbao_prepare_attachments h0 hp hhp
    obtain ⟨t1, t2, t3, f1, f2, f3⟩ := HBAO.hbao_prepare_targets h0 hp hhp
    have kp :
        ∃ target ∈ [ hp.frameBuffers.offscreen.frameBuffer, hp.frameBuffers.hbao.frameBuffer,
                     hp.frameBuffers.hbaoBlur.frameBuffer ],
          ∃ (fb : VkFramebufferCreateInfo) (rp : VkRenderPassCreateInfo) (k : Nat)
            (att : VkAttachmentDescription) (view : VkImageViewCreateInfo) (img : VkImageCreateInfo),
            Device.framebufferInfo hp.device target = some fb ∧
            fb.pAttachments[k]? = some hp.frameBuffers.offscreen.position.view ∧
            Device.renderPassInfo hp.device fb.renderPass = some rp ∧
            rp.pAttachments[k]? = some att ∧
            att.finalLayout = VK_IMAGE_LAYOUT_SHADER_READ_ONLY_OPTIMAL ∧
            Device.imageViewInfo hp.device hp.frameBuffers.offscreen.position.view = some view ∧
            Device.imageInfo hp.device view.image = some img ∧
            img.usage &&& VK_IMAGE_USAGE_SAMPLED_BIT ≠ 0 ∧
            img.usage &&& VK_IMAGE_USAGE_COLOR_ATTACHMENT_BIT ≠ 0 := by
      obtain ⟨hvw, hus⟩ := c2 hp.frameBuffers.offscreen.position (by simp)
      obtain ⟨view, hview, hvi⟩ := Option.map_eq_some'.mp hvw
      obtain ⟨img, himg, hui⟩ := Option.map_eq_some'.mp hus
      refine ⟨hp.frameBuffers.offscreen.frameBuffer, by simp, _, _, 0, _, view, img, f1, rfl, t1, rfl, rfl,
        hview, ?_, ?_, ?_⟩
      · rw [hvi]
        exact himg
      · rw [hui]
        decide
      · rw [hui]
        decide
    have kn :
        ∃ target ∈ [ hp.frameBuffers.offscreen.frameBuffer, hp.frameBuffers.hbao.frameBuffer,
                     hp.frameBuffers.hbaoBlur.frameBuffer ],
          ∃ (fb : VkFramebufferCreateInfo) (rp : VkRenderPassCreateInfo) (k : Nat)
            (att : VkAttachmentDescription) (view : VkImageViewCreateInfo) (img : VkImageCreateInfo),
            Device.framebufferInfo hp.device target = some fb ∧
            fb.pAttachments[k]? = some hp.frameBuffers.offscreen.normal.view ∧
            Device.renderPassInfo hp.device fb.renderPass = some rp ∧
            rp.pAttachments[k]? = some att ∧
            att.finalLayout = VK_IMAGE_LAYOUT_SHADER_READ_ONLY_OPTIMAL ∧
            Device.imageViewInfo hp.device hp.frameBuffers.offscreen.normal.view = some view ∧
            Device.imageInfo hp.device view.image = some img ∧
            img.usage &&& VK_IMAGE_USAGE_SAMPLED_BIT ≠ 0 ∧
            img.usage &&& VK_IMAGE_USAGE_COLOR_ATTACHMENT_BIT ≠ 0 := by
      obtain ⟨hvw, hus⟩ := c2 hp.frameBuffers.offscreen.normal (by simp)
      obtain ⟨view, hview, hvi⟩ := Option.map_eq_some'.mp hvw
      obtain ⟨img, himg, hui⟩ := Option.map_eq_some'.mp hus
      refine ⟨hp.frameBuffers.offscreen.frameBuffer, by simp, _, _, 1, _, view, img, f1, rfl, t1, rfl, rfl,
        hview, ?_, ?_, ?_⟩
      · rw [hvi]
        exact himg
      · rw [hui]
        decide
      · rw [hui]
        decide
    have ka :
        ∃ target ∈ [ hp.frameBuffers.offscreen.frameBuffer, hp.frameBuffers.hbao.frameBuffer,
                     hp.frameBuffers.hbaoBlur.frameBuffer ],
          ∃ (fb : VkFramebufferCreateInfo) (rp : VkRenderPassCreateInfo) (k : Nat)
            (att : VkAttachmentDescription) (view : VkImageViewCreateInfo) (img : VkImageCreateInfo),
            Device.framebufferInfo hp.device target = some fb ∧
            fb.pAttachments[k]? = some hp.frameBuffers.offscreen.albedo.view ∧
            Device.renderPassInfo hp.device fb.renderPass = some rp ∧
            rp.pAttachments[k]? = some att ∧
            att.finalLayout = VK_IMAGE_LAYOUT_SHADER_READ_ONLY_OPTIMAL ∧
            Device.imageViewInfo hp.device hp.frameBuffers.offscreen.albedo.view = some view ∧
            Device.imageInfo hp.device view.image = some img ∧
            img.usage &&& VK_IMAGE_USAGE_SAMPLED_BIT ≠ 0 ∧
            img.usage &&& VK_IMAGE_USAGE_COLOR_ATTACHMENT_BIT ≠ 0 := by
      obtain ⟨hvw, hus⟩ := c2 hp.frameBuffers.offscreen.albedo (by simp)
      obtain ⟨view, hview, hvi⟩ := Option.map_eq_some'.mp hvw
      obtain ⟨img, himg, hui⟩ := Option.map_eq_some'.mp hus
      refine ⟨hp.frameBuffers.offscreen.frameBuffer, by simp, _, _, 2, _, view, img, f1, rfl, t1, rfl, rfl,
        hview, ?_, ?_, ?_⟩
      · rw [hvi]
        exact himg
      · rw [hui]
        decide
      · rw [hui]
        decide
    have kg :
        ∃ target ∈ [ hp.frameBuffers.offscreen.frameBuffer, hp.frameBuffers.hbao.frameBuffer,
                     hp.frameBuffers.hbaoBlur.frameBuffer ],
          ∃ (fb : VkFramebufferCreateInfo) (rp : VkRenderPassCreateInfo) (k : Nat)
            (att : VkAttachmentDescription) (view : VkImageViewCreateInfo) (img : VkImageCreateInfo),
            Device.framebufferInfo hp.device target = some fb ∧
            fb.pAttachments[k]? = some hp.frameBuffers.hbao.color.view ∧
            Device.renderPassInfo hp.device fb.renderPass = some rp ∧
            rp.pAttachments[k]? = some att ∧
            att.finalLayout = VK_IMAGE_LAYOUT_SHADER_READ_ONLY_OPTIMAL ∧
            Device.imageViewInfo hp.device hp.frameBuffers.hbao.color.view = some view ∧
            Device.imageInfo hp.device view.image = some img ∧
            img.usage &&& VK_IMAGE_USAGE_SAMPLED_BIT ≠ 0 ∧
            img.usage &&& VK_IMAGE_USAGE_COLOR_ATTACHMENT_BIT ≠ 0 := by
      obtain ⟨hvw, hus⟩ := c2 hp.frameBuffers.hbao.color (by simp)
      obtain ⟨view, hview, hvi⟩ := Option.map_eq_some'.mp hvw
      obtain ⟨img, himg, hui⟩ := Option.map_eq_some'.mp hus
      refine ⟨hp.frameBuffers.hbao.frameBuffer, by simp, _, _, 0, _, view, img, f2, rfl, t2, rfl, rfl,
        hview, ?_, ?_, ?_⟩
      · rw [hvi]
        exact himg
      · rw [hui]
        decide
      · rw [hui]
        decide
    have kb :
        ∃ target ∈ [ hp.frameBuffers.offscreen.frameBuffer, hp.frameBuffers.hbao.frameBuffer,
                     hp.frameBuffers.hbaoBlur.frameBuffer ],
          ∃ (fb : VkFramebufferCreateInfo) (rp : VkRenderPassCreateInfo) (k : Nat)
            (att : VkAttachmentDescription) (view : VkImageViewCreateInfo) (img : VkImageCreateInfo),
            Device.framebufferInfo hp.device target = some fb ∧
            fb.pAttachments[k]? = some hp.frameBuffers.hbaoBlur.color.view ∧
            Device.renderPassInfo hp.device fb.renderPass = some rp ∧
            rp.pAttachments[k]? = some att ∧
            att.finalLayout = VK_IMAGE_LAYOUT_SHADER_READ_ONLY_OPTIMAL ∧
            Device.imageViewInfo hp.device hp.frameBuffers.hbaoBlur.color.view = some view ∧
            Device.imageInfo hp.device view.image = some img ∧
            img.usage &&& VK_IMAGE_USAGE_SAMPLED_BIT ≠ 0 ∧
            img.usage &&& VK_IMAGE_USAGE_COLOR_ATTACHMENT_BIT ≠ 0 := by
      obtain ⟨hvw, hus⟩ := c2 hp.frameBuffers.hbaoBlur.color (by simp)
      obtain ⟨view, hview, hvi⟩ := Option.map_eq_some'.mp hvw
      obtain ⟨img, himg, hui⟩ := Option.map_eq_some'.mp hus
      refine ⟨hp.frameBuffers.hbaoBlur.frameBuffer, by simp, _, _, 0, _, view, img, f3, rfl, t3, rfl, rfl,
        hview, ?_, ?_, ?_⟩
      · rw [hvi]
        exact himg
      · rw [hui]
        decide
      · rw [hui]
        decide
    intro i hi
    obtain ⟨i1, -, i2, -, i3, -, i4, -⟩ := HBAO.hbao_prepare_inputs h0 hp hhp hhb i hi
    refine ⟨by rw [i4]; rfl, ?_⟩
    intro set hset x hx
    simp only [List.mem_cons, List.mem_singleton, List.not_mem_nil, or_false] at hset
    rcases hset with rfl | rfl | rfl | rfl
    · rw [i1] at hx
      simp at hx
    · rw [i2] at hx
      simp only [List.mem_cons, List.mem_singleton, List.not_mem_nil, or_false] at hx
      rcases hx with rfl | rfl
      · exact ⟨by simp, kp⟩
      · exact ⟨by simp, kn⟩
    · rw [i3] at hx
      simp only [List.mem_cons, List.mem_singleton, List.not_mem_nil, or_false] at hx
      subst hx
      exact ⟨by simp, kg⟩
    · rw [i4] at hx
      simp only [List.mem_cons, List.mem_singleton, List.not_mem_nil, or_false] at hx
      rcases hx with rfl | rfl | rfl | rfl | rfl
      · exact ⟨by simp, kp⟩
      · exact ⟨by simp, kn⟩
      · exact ⟨by simp, ka⟩
      · exact ⟨by simp, kg⟩
      · exact ⟨by simp, kb⟩

/-- C30, at the sample states. -/
theorem C30_sampled_layouts_witness :
    (∀ i, i < GTAO.sampleState.maxConcurrentFrames →
      (Device.imageInputs GTAO.preparedSample.device (GTAO.preparedSample.descriptorSets i).composition).map
          (fun x => x.2.imageView) =
        [ GTAO.preparedSample.frameBuffers.offscreen.position.view, GTAO.preparedSample.frameBuffers.offscreen.normal.view,
          GTAO.preparedSample.frameBuffers.offscreen.albedo.view, GTAO.preparedSample.frameBuffers.gtao.color.view,
          GTAO.preparedSample.frameBuffers.gtaoBlur.color.view ] ∧
      ∀ set ∈ [ (GTAO.preparedSample.descriptorSets i).gBuffer, (GTAO.preparedSample.descriptorSets i).gtao,
                (GTAO.preparedSample.descriptorSets i).gtaoBlur, (GTAO.preparedSample.descriptorSets i).composition ],
        ∀ x ∈ Device.imageInputs GTAO.preparedSample.device set,
          x.2.imageView ∈
            [ GTAO.preparedSample.frameBuffers.offscreen.position.view, GTAO.preparedSample.frameBuffers.offscreen.normal.view,
              GTAO.preparedSample.frameBuffers.offscreen.albedo.view, GTAO.preparedSample.frameBuffers.gtao.color.view,
              GTAO.preparedSample.frameBuffers.gtaoBlur.color.view ] ∧
          ∃ target ∈ [ GTAO.preparedSample.frameBuffers.offscreen.frameBuffer, GTAO.preparedSample.frameBuffers.gtao.frameBuffer,
                       GTAO.preparedSample.frameBuffers.gtaoBlur.frameBuffer ],
            ∃ (fb : VkFramebufferCreateInfo) (rp : VkRenderPassCreateInfo) (k : Nat)
              (att : VkAttachmentDescription) (view : VkImageViewCreateInfo) (img : VkImageCreateInfo),
              Device.framebufferInfo GTAO.preparedSample.device target = some fb ∧
              fb.pAttachments[k]? = some x.2.imageView ∧
              Device.renderPassInfo GTAO.preparedSample.device fb.renderPass = some rp ∧
              rp.pAttachments[k]? = some att ∧
              att.finalLayout = x.2.imageLayout ∧
              Device.imageViewInfo GTAO.preparedSample.device x.2.imageView = some view ∧
              Device.imageInfo GTAO.preparedSample.device view.image = some img ∧
              img.usage &&& VK_IMAGE_USAGE_SAMPLED_BIT ≠ 0 ∧
              img.usage &&& VK_IMAGE_USAGE_COLOR_ATTACHMENT_BIT ≠ 0) ∧
    (∀ i, i < HBAO.sampleState.maxConcurrentFrames →
      (Device.imageInputs HBAO.preparedSample.device (HBAO.preparedSample.descriptorSets i).composition).map
          (fun x => x.2.imageView) =
        [ HBAO.preparedSample.frameBuffers.offscreen.position.view, HBAO.preparedSample.frameBuffers.offscreen.normal.view,
          HBAO.preparedSample.frameBuffers.offscreen.albedo.view, HBAO.preparedSample.frameBuffers.hbao.color.view,
          HBAO.preparedSample.frameBuffers.hbaoBlur.color.view ] ∧
      ∀ set ∈ [ (HBAO.preparedSample.descriptorSets i).gBuffer, (HBAO.preparedSample.descriptorSets i).hbao,
                (HBAO.preparedSample.descriptorSets i).hbaoBlur, (HBAO.preparedSample.descriptorSets i).composition ],
        ∀ x ∈ Device.imageInputs HBAO.preparedSample.device set,
          x.2.imageView ∈
            [ HBAO.preparedSample.frameBuffers.offscreen.position.view, HBAO.preparedSample.frameBuffers.offscreen.normal.view,
              HBAO.preparedSample.frameBuffers.offscreen.albedo.view, HBAO.preparedSample.frameBuffers.hbao.color.view,
              HBAO.preparedSample.frameBuffers.hbaoBlur.color.view ] ∧
          ∃ target ∈ [ HBAO.preparedSample.frameBuffers.offscreen.frameBuffer, HBAO.preparedSample.frameBuffers.hbao.frameBuffer,
                       HBAO.preparedSample.frameBuffers.hbaoBlur.frameBuffer ],
            ∃ (fb : VkFramebufferCreateInfo) (rp : VkRenderPassCreateInfo) (k : Nat)
              (att : VkAttachmentDescription) (view : VkImageViewCreateInfo) (img : VkImageCreateInfo),
              Device.framebufferInfo HBAO.preparedSample.device target = some fb ∧
              fb.pAttachments[k]? = some x.2.imageView ∧
              Device.renderPassInfo HBAO.preparedSample.device fb.renderPass = some rp ∧
              rp.pAttachments[k]? = some att ∧
              att.finalLayout = x.2.imageLayout ∧
              Device.imageViewInfo HBAO.preparedSample.device x.2.imageView = some view ∧
              Device.imageInfo HBAO.preparedSample.device view.image = some img ∧
              img.usage &&& VK_IMAGE_USAGE_SAMPLED_BIT ≠ 0 ∧
              img.usage &&& VK_IMAGE_USAGE_COLOR_ATTACHMENT_BIT ≠ 0) :=
  C30_sampled_layouts GTAO.sampleState GTAO.preparedSample HBAO.sampleState
    HBAO.preparedSample GTAO.gtao_prepare_sample GTAO.gtao_sample_bounded
    HBAO.hbao_prepare_sample HBAO.hbao_sample_bounded

/-- C25. When `prepare` of `gtao.cpp` succeeds (which takes the non-Android
configuration) and `hbao.cpp` starts from the same environment, `prepare` of
`hbao.cpp` succeeds as well and leaves the same device log up to the names of
the shader files: the same calls with the same create-infos for the six
attachments, the three render passes with their dependencies and counts, the
three framebuffers, the sampler, the uniform buffers, the descriptor pool, the
four descriptor-set layouts, the descriptor sets and the descriptor writes of
every slot, the four pipeline layouts and the four pipelines.  The shader
files are the same six names under `gtao/` and under `hbao/` (with
`gtao.frag.spv` for `hbao.frag.spv`).  For every slot and every swap-chain
image the two examples record the same command buffer with the same command
sequence. -/
theorem C25_same_program (g gp : GTAO.VulkanExample) (h : HBAO.VulkanExample)
    (hgp : GTAO.prepare g = some gp) (henv : sameEnvironment g h) :
    ∃ hp, HBAO.prepare h = some hp ∧
      hp.device.map Call.withoutFileName = gp.device.map Call.withoutFileName ∧
      (gp.device.drop g.device.length).filterMap Call.fileName =
        [ g.shadersPath ++ "gtao/fullscreen.vert.spv",
          g.shadersPath ++ "gtao/composition.frag.spv",
          g.shadersPath ++ "gtao/gtao.frag.spv", g.shadersPath ++ "gtao/blur.frag.spv",
          g.shadersPath ++ "gtao/gbuffer.vert.spv", g.shadersPath ++ "gtao/gbuffer.frag.spv" ] ∧
      (hp.device.drop h.device.length).filterMap Call.fileName =
        [ h.shadersPath ++ "hbao/fullscreen.vert.spv",
          h.shadersPath ++ "hbao/composition.frag.spv",
          h.shadersPath ++ "hbao/hbao.frag.spv", h.shadersPath ++ "hbao/blur.frag.spv",
          h.shadersPath ++ "hbao/gbuffer.vert.spv", h.shadersPath ++ "hbao/gbuffer.frag.spv" ] ∧
      ∀ k j, k < g.maxConcurrentFrames →
        HBAO.buildCommandBuffer { hp with currentBuffer := k, currentImageIndex := j } =
          GTAO.buildCommandBuffer { gp with currentBuffer := k, currentImageIndex := j } := by
  obtain ⟨hp, hhp, hdev, q1, q2, q3, q4, l1, l2, l3, l4⟩ := both_prepare g gp h hgp henv
  obtain ⟨f1, f2, f3, fds, fw, fh, fr, fs, fdc, fcc⟩ :=
    both_prepare_fields g gp h hp hgp hhp henv
  refine ⟨hp, hhp, hdev, GTAO.gtao_prepare_fileNames g gp hgp,
    HBAO.hbao_prepare_fileNames h hp hhp, ?_⟩
  intro k j hk
  obtain ⟨d1, d2, d3, d4⟩ := fds k hk
  have a1 := congrArg HBAO.FrameBuffer.width f1
  have a2 := congrArg HBAO.FrameBuffer.height f1
  have a3 := congrArg HBAO.FrameBuffer.frameBuffer f1
  have a4 := congrArg HBAO.FrameBuffer.renderPass f1
  have b1 := congrArg HBAO.FrameBuffer.width f2
  have b2 := congrArg HBAO.FrameBuffer.height f2
  have b3 := congrArg HBAO.FrameBuffer.frameBuffer f2
  have b4 := congrArg HBAO.FrameBuffer.renderPass f2
  have c1 := congrArg HBAO.FrameBuffer.width f3
  have c2 := congrArg HBAO.FrameBuffer.height f3
  have c3 := congrArg HBAO.FrameBuffer.frameBuffer f3
  have c4 := congrArg HBAO.FrameBuffer.renderPass f3
  dsimp only at a1 a2 a3 a4 b1 b2 b3 b4 c1 c2 c3 c4
  apply Prod.ext
  · show hp.drawCmdBuffers k = gp.drawCmdBuffers k
    rw [fdc]
  · rw [HBAO.hbao_buildCommandBuffer_cmds, GTAO.gtao_buildCommandBuffer_cmds]
    dsimp only
    simp only [a1, a2, a3, a4, b1, b2, b3, b4, c1, c2, c3, c4, q1, q2, q3, q4, l1, l2, l3, l4,
      d1, d2, d3, d4, fw, fh, fr, fs, fcc]

/-- C25, at the sample states. -/
theorem C25_same_program_witness :
    ∃ hp, HBAO.prepare HBAO.sampleState = some hp ∧
      hp.device.map Call.withoutFileName = GTAO.preparedSample.device.map Call.withoutFileName ∧
      (GTAO.preparedSample.device.drop GTAO.sampleState.device.length).filterMap Call.fileName =
        [ GTAO.sampleState.shadersPath ++ "gtao/fullscreen.vert.spv",
          GTAO.sampleState.shadersPath ++ "gtao/composition.frag.spv",
          GTAO.sampleState.shadersPath ++ "gtao/gtao.frag.spv", GTAO.sampleState.shadersPath ++ "gtao/blur.frag.spv",
          GTAO.sampleState.shadersPath ++ "gtao/gbuffer.vert.spv", GTAO.sampleState.shadersPath ++ "gtao/gbuffer.frag.spv" ] ∧
      (hp.device.drop HBAO.sampleState.device.length).filterMap Call.fileName =
        [ HBAO.sampleState.shadersPath ++ "hbao/fullscreen.vert.spv",
          HBAO.sampleState.shadersPath ++ "hbao/composition.frag.spv",
          HBAO.sampleState.shadersPath ++ "hbao/hbao.frag.spv", HBAO.sampleState.shadersPath ++ "hbao/blur.frag.spv",
          HBAO.sampleState.shadersPath ++ "hbao/gbuffer.vert.spv", HBAO.sampleState.shadersPath ++ "hbao/gbuffer.frag.spv" ] ∧
      ∀ k j, k < GTAO.sampleState.maxConcurrentFrames →
        HBAO.buildCommandBuffer { hp with currentBuffer := k, currentImageIndex := j } =
          GTAO.buildCommandBuffer { GTAO.preparedSample with currentBuffer := k, currentImageIndex := j } :=
  C25_same_program GTAO.sampleState GTAO.preparedSample HBAO.sampleState
    GTAO.gtao_prepare_sample
    ⟨rfl, rfl, rfl, rfl, rfl, rfl, rfl, rfl, rfl, rfl, rfl, rfl, rfl, rfl⟩
